import Mathlib

/-!
Verification of the constrained shortest-path search of `src/2023/17/rust/src/path.rs`
(Advent of Code 2023 day 17).  The Rust source is shallowly embedded below:

* `Position`, `Direction`, `State`, `Crucible`, `Block`, `City` mirror the Rust
  data types (integer coordinates become `Int`, `u32` costs become `Nat`; no
  arithmetic here ever approaches `2^32`, so overflow is not observable).
* The Rust `HashMap<State, _>` tables and the `HashSet<State>` of queued states
  are modelled as flat slot arrays indexed by an injective dense `Nat` encoding
  of `State` (`City.stateIdx`) and packed into a single natural number
  (`slotGet` / `slotSet`), the arena-plus-index representation of a hash table.
  The `BinaryHeap<Reverse<Candidate>>` ordered by `Candidate.distance`
  is modelled as a list of buckets indexed by the distance priority: popping
  takes an element of the first non-empty bucket, i.e. one of minimal priority,
  which is the specification of the Rust heap (tie order inside one priority is
  unspecified in Rust).
* The `while let Some(..) = open_set.pop()` loop and the `while came_from
  .contains_key(..)` loop of `reconstruct_path` are given explicit fuel; the
  fuel is a modelling device only and all theorems below account for it.
-/

namespace Day17

inductive Direction : Type where
  | North : Direction
  | East : Direction
  | South : Direction
  | West : Direction
deriving DecidableEq, Repr

open Direction

/-- The reverse of a direction (not a function in the Rust source: the
`candidates` table of `valid_moves` hard-codes the three non-reverse
directions; `opposite` names the direction missing from that table). -/
def Direction.opposite : Direction → Direction
  | North => South
  | East => West
  | South => North
  | West => East

structure Position : Type where
  x : Int
  y : Int
deriving DecidableEq, Repr

/-- `Position::mv` -/
def Position.mv (p : Position) (dir : Direction) : Position :=
  match dir with
  | North => ⟨p.x, p.y - 1⟩
  | East => ⟨p.x + 1, p.y⟩
  | South => ⟨p.x, p.y + 1⟩
  | West => ⟨p.x - 1, p.y⟩

/-- `Position::l1_distance` (`abs_diff` on both coordinates). -/
def Position.l1_distance (p : Position) (p2 : Position) : Nat :=
  (p.x - p2.x).natAbs + (p.y - p2.y).natAbs

structure State : Type where
  pos : Position
  dir : Direction
  steps : Nat
deriving DecidableEq, Repr

/-- `State::mv` -/
def State.mv (s : State) (dir : Direction) : State :=
  { pos := s.pos.mv dir
    dir := dir
    steps := if s.dir = dir then s.steps + 1 else 1 }

inductive Crucible : Type where
  | Small : Crucible
  | Ultra : Crucible
deriving DecidableEq, Repr

structure Block : Type where
  heat_loss : Nat
  pos : Position
deriving DecidableEq, Repr

/-- `City`: the block table is the (partial) map backing
`blocks: HashMap<Position, Block>`. -/
structure City : Type where
  blocks : Position → Option Block
  width : Int
  height : Int

/-- `City::can_move` -/
def City.can_move (city : City) (curr : State) (dir : Direction) (crucible : Crucible) : Bool :=
  let in_bounds : Bool :=
    match dir with
    | North => decide (0 < curr.pos.y)
    | East => decide (curr.pos.x < city.width - 1)
    | South => decide (curr.pos.y < city.height - 1)
    | West => decide (0 < curr.pos.x)
  let steps_ok : Bool :=
    match crucible with
    | Crucible.Small => curr.dir ≠ dir || curr.steps < 3
    | Crucible.Ultra =>
      curr.steps == 0 || (curr.dir ≠ dir && 4 ≤ curr.steps) || (curr.dir == dir && curr.steps < 10)
  in_bounds && steps_ok

/-- The `candidates` table of `City::valid_moves`: the three directions that
are not the reverse of the current one, in source order. -/
def candidates : Direction → List Direction
  | North => [North, East, West]
  | East => [North, East, South]
  | South => [East, South, West]
  | West => [North, South, West]

/-- `City::valid_moves` -/
def City.valid_moves (city : City) (curr : State) (crucible : Crucible) : List State :=
  (candidates curr.dir).filterMap fun dir =>
    if city.can_move curr dir crucible then some (curr.mv dir) else none

/-! ### Dense `Nat` indices for states (the role of `Hash for State`)

All states handled by the search are in bounds with run-length at most 10, so
`stateIdx` is injective on them and the `HashMap<State, _>` / `HashSet<State>`
tables can be modelled as flat arrays of slots indexed by `stateIdx` — the
arena-plus-index representation of those hash tables.  A slot array is packed
into a single natural number in base `base` (slot `k` is digit `k`); a digit
`0` is an absent entry and an entry `v` is stored as the digit `v + 1`. -/

/-- Index of a direction. -/
def Direction.idx : Direction → Nat
  | North => 0
  | East => 1
  | South => 2
  | West => 3

/-- The direction of index `i % 4`, inverse of `Direction.idx`. -/
def Direction.ofIdx (i : Nat) : Direction :=
  match i % 4 with
  | 0 => North
  | 1 => East
  | 2 => South
  | _ => West

/-- Dense index of a state, injective on the states the search handles
(in-bounds coordinates, run-length at most `10`). -/
def City.stateIdx (city : City) (s : State) : Nat :=
  ((s.pos.y.toNat * city.width.toNat + s.pos.x.toNat) * 4 + s.dir.idx) * 11 + s.steps

/-- Digit `k` of `m` in base `2 ^ w`: read one slot of a packed slot table of
`w`-bit slots. -/
def slotGet (w m k : Nat) : Nat := m >>> (w * k) % 2 ^ w

/-- Overwrite digit `k` of `m` in base `2 ^ w` with `v` (`v < 2 ^ w`): write
one slot of a packed slot table of `w`-bit slots. -/
def slotSet (w m k v : Nat) : Nat := m - slotGet w m k <<< (w * k) + v <<< (w * k)

/-- Read the slot of state `s` in a table of `w`-bit slots. -/
def City.tblGet (city : City) (w t : Nat) (s : State) : Nat :=
  slotGet w t (city.stateIdx s)

/-- Overwrite the slot of state `s` in a table of `w`-bit slots. -/
def City.tblSet (city : City) (w t : Nat) (s : State) (v : Nat) : Nat :=
  slotSet w t (city.stateIdx s) v

/-- The stored form of a predecessor state `p` of an edge `p.mv d = n`: the
position of `p` is recovered from `n` by one reverse move, so only
`(p.dir, p.steps)` is stored, encoded as `p.dir.idx * 11 + p.steps`
(below `44` since the search only handles run-lengths up to `10`). -/
def predCode (p : State) : Nat := p.dir.idx * 11 + p.steps

/-- Recover a predecessor state from the edge target `n` and the stored code
`e` (inverse of `predCode`, see `predCode_decode`). -/
def predDecode (n : State) (e : Nat) : State :=
  { pos := n.pos.mv n.dir.opposite
    dir := Direction.ofIdx (e / 11)
    steps := e % 11 }

/-! ### The frontier: `BinaryHeap<Reverse<Candidate>>` as a bucket queue

`Candidate`s compare by `distance` alone, so the heap pops an element of
minimal distance.  `Bq` is an offset bucket queue `(off, buckets)`: list
index `i` of `buckets` holds the bag of queued states whose recorded
`Candidate.distance` is `off + i`.  A pop takes the head of the first
non-empty bucket — an element of minimal distance, which is all the Rust
heap guarantees (the tie order inside one distance is unspecified); the
offset lets both push and pop skip the drained low-distance buckets. -/

abbrev Bq : Type := Nat × List (List State)

/-- `n` empty buckets in front of `l`. -/
def bqPad : Nat → List (List State) → List (List State)
  | 0, l => l
  | n + 1, l => [] :: bqPad n l

/-- Enqueue at the back of bucket list index `i`. -/
def bqPushAt : Nat → State → List (List State) → List (List State)
  | 0, s, [] => [[s]]
  | 0, s, b :: bs => (b ++ [s]) :: bs
  | i + 1, s, [] => [] :: bqPushAt i s []
  | i + 1, s, b :: bs => b :: bqPushAt i s bs

/-- Enqueue a state with priority `d` (at the back of bucket `d`). -/
def bqPush (d : Nat) (s : State) : Bq → Bq
  | (_, []) => (d, [[s]])
  | (off, b :: bs) =>
    if d < off then (d, [s] :: bqPad (off - d - 1) (b :: bs))
    else (off, bqPushAt (d - off) s (b :: bs))

/-- Pop from the first non-empty bucket, advancing the offset past drained
buckets. -/
def bqPopGo : Nat → List (List State) → Option (State × Bq)
  | _, [] => none
  | off, [] :: bs => bqPopGo (off + 1) bs
  | off, (s :: b) :: bs => some (s, (off, b :: bs))

/-- Dequeue a state of minimal priority (`open_set.pop()` on the reversed
heap). -/
def bqPop (b : Bq) : Option (State × Bq) := bqPopGo b.1 b.2

/-- `u32::MAX`, the initial `best_loss` and the default of
`losses.get(&neighbor).unwrap_or(&u32::MAX)`. -/
def u32MAX : Nat := 4294967295

/-- The mutable state of the `navigate` search loop.  `queued`, `came_from`
and `losses` are the packed slot tables (indexed by `City.stateIdx`)
modelling `HashSet<State>` (1-bit slots), `HashMap<State, State>`
(predecessor stored as `predCode + 1` in 8-bit slots) and
`HashMap<State, u32>` (cost stored as `loss + 1` in 32-bit slots); a zero
slot is an absent entry. -/
structure SearchSt : Type where
  open_set : Bq
  queued : Nat
  came_from : Nat
  losses : Nat
  best_state : Option State
  best_loss : Nat
deriving DecidableEq

/-- `self.blocks.get(&pos).unwrap().heat_loss` (total: every position looked
up during the search is in bounds, where `blocks` is defined). -/
def City.heat (city : City) (p : Position) : Nat :=
  ((city.blocks p).map Block.heat_loss).getD 0

/-- `*losses.get(&curr.state).unwrap()` -/
def City.lossOf (city : City) (losses : Nat) (s : State) : Nat :=
  city.tblGet 32 losses s - 1

/-- `*losses.get(&neighbor).unwrap_or(&u32::MAX)` -/
def City.prevLossOf (city : City) (losses : Nat) (s : State) : Nat :=
  match city.tblGet 32 losses s with
  | 0 => u32MAX
  | l + 1 => l

/-- `queued.contains(&s)` -/
def City.isQueued (city : City) (queued : Nat) (s : State) : Bool :=
  city.tblGet 1 queued s == 1

/-- The body of the `for neighbor in self.valid_moves(..)` loop of `navigate`:
relax one neighbor of the popped state. -/
def City.relax (city : City) (goal : Position) (curr : State)
    (curr_loss : Nat) (st : SearchSt) (neighbor : State) : SearchSt :=
  let neighbor_loss := curr_loss + city.heat neighbor.pos
  let prev_neighbor_loss := city.prevLossOf st.losses neighbor
  if Nat.blt neighbor_loss st.best_loss && Nat.blt neighbor_loss prev_neighbor_loss then
    let st' : SearchSt :=
      { st with
        came_from := city.tblSet 8 st.came_from neighbor (predCode curr + 1)
        losses := city.tblSet 32 st.losses neighbor (neighbor_loss + 1) }
    if city.isQueued st'.queued neighbor then st'
    else
      { st' with
        open_set := bqPush (neighbor.pos.l1_distance goal) neighbor st'.open_set
        queued := city.tblSet 1 st'.queued neighbor 1 }
  else st

/-- One iteration of the `while let Some(Reverse(curr)) = open_set.pop()` loop;
`none` when the frontier is empty and the loop exits. -/
def City.searchStep (city : City) (goal : Position) (crucible : Crucible) (st : SearchSt) :
    Option SearchSt :=
  match bqPop st.open_set with
  | none => none
  | some (curr, rest) =>
    let st1 : SearchSt :=
      { st with
        open_set := rest
        queued := city.tblSet 1 st.queued curr 0 }
    let curr_loss := city.lossOf st1.losses curr
    let st2 : SearchSt :=
      if curr.pos == goal && Nat.ble curr_loss st1.best_loss &&
          (crucible == Crucible.Small || Nat.ble 4 curr.steps) then
        { st1 with best_state := some curr, best_loss := curr_loss }
      else st1
    some ((city.valid_moves curr crucible).foldl (city.relax goal curr curr_loss) st2)

/-- The search loop, with fuel; `none` means the fuel ran out before the
frontier drained (never the case for the fuels used below).  Written with a
bare `Nat.rec` so that the kernel evaluates it as an iterative loop. -/
def City.searchLoop (city : City) (goal : Position) (crucible : Crucible)
    (fuel : Nat) : SearchSt → Option SearchSt :=
  Nat.rec (motive := fun _ => SearchSt → Option SearchSt)
    (fun _ => none)
    (fun _ ih st =>
      match city.searchStep goal crucible st with
      | none => some st
      | some st' => ih st')
    fuel

/-- The initial search state built by `navigate` from the legal first moves
(run-length `0`, synthetic direction `South`). -/
def City.initSearch (city : City) (start goal : Position) (crucible : Crucible) : SearchSt :=
  let valid_start_moves := city.valid_moves ⟨start, South, 0⟩ crucible
  { open_set := valid_start_moves.foldl
      (fun q s => bqPush (s.pos.l1_distance goal) s q) (0, [])
    queued := valid_start_moves.foldl
      (fun m s => city.tblSet 1 m s 1) 0
    came_from := 0
    losses := valid_start_moves.foldl
      (fun m s => city.tblSet 32 m s (city.heat s.pos + 1)) 0
    best_state := none
    best_loss := u32MAX }

/-- The `while came_from.contains_key(curr)` walk of `City::reconstruct_path`,
collecting blocks back to a state with no predecessor; fuel as above and a
bare `Nat.rec` as in `searchLoop`. -/
def City.walkBack (city : City) (came_from : Nat) (fuel : Nat) :
    State → List Block → Option (List Block) :=
  Nat.rec (motive := fun _ => State → List Block → Option (List Block))
    (fun _ _ => none)
    (fun _ ih curr acc =>
      match city.tblGet 8 came_from curr with
      | 0 => some acc
      | e + 1 =>
        let p := predDecode curr e
        ih p (((city.blocks p.pos).getD ⟨0, p.pos⟩) :: acc))
    fuel

/-- `City::reconstruct_path` (the Rust builds the list last-to-first and
reverses it; `walkBack` accumulates it directly in forward order.  The walk
fuel `came_from + 1` dominates the number of occupied slots of the packed
table `came_from` — each occupied slot contributes at least `1` to the
number — hence the length of any acyclic predecessor chain). -/
def City.reconstruct_path (city : City) (came_from : Nat) (last : State) :
    Option (List Block) :=
  city.walkBack came_from (came_from + 1) last
    [(city.blocks last.pos).getD ⟨0, last.pos⟩]

/-- `City::navigate`.  Outer `none`: search-loop fuel exhausted (a modelling
artefact).  Inner `none`: the Rust `best_state.unwrap()` panic (no terminal
state was recorded) or, unreachably, `reconstruct_path` fuel exhaustion. -/
def City.navigate (city : City) (start goal : Position) (crucible : Crucible)
    (fuel : Nat) : Option (Option (List Block)) :=
  (city.searchLoop goal crucible fuel (city.initSearch start goal crucible)).map
    fun st =>
      match st.best_state with
      | none => none
      | some bs => city.reconstruct_path st.came_from bs

/-- Total heat loss of a path: `path.iter().map(|b| b.heat_loss).sum()`. -/
def totalLoss (path : List Block) : Nat :=
  (path.map Block.heat_loss).sum

/-! ### Chunked evaluation of the search loop

`searchLoop` is evaluated on the concrete grids below through `stepN` /
`stepChunks`, which are proved equal to it (`searchLoop_eq_chunks`); running
the loop in bounded chunks, with the write-only packed predecessor array
forced at each chunk boundary, keeps the kernel's reduction depth bounded. -/

/-- Force the number `n`, then return `k`; definitionally the identity
(`seqNat_eq`), used only to steer kernel evaluation order. -/
def seqNat {α : Type} (n : Nat) (k : α) : α := if n % 2 = 0 then k else k

/-- At most `n` iterations of the search loop (the state is left unchanged
once the frontier is empty), forcing `came_from` at the end. -/
def City.stepN (city : City) (goal : Position) (crucible : Crucible) (n : Nat) :
    SearchSt → SearchSt :=
  Nat.rec (motive := fun _ => SearchSt → SearchSt)
    (fun st => seqNat st.came_from st)
    (fun _ ih st =>
      match city.searchStep goal crucible st with
      | none => st
      | some st' => ih st')
    n

/-- `n` runs of `stepN chunk`. -/
def City.stepChunks (city : City) (goal : Position) (crucible : Crucible)
    (chunk : Nat) : Nat → SearchSt → SearchSt :=
  Nat.rec (motive := fun _ => SearchSt → SearchSt)
    (fun st => st)
    (fun _ ih st => city.stepN goal crucible chunk (ih st))

/-! ### The concrete grids of the tests -/

/-- Build a `City` from digit-row literals, as `City::from_stream` parses the
test inputs (row `y`, column `x`, heat loss = the digit).  The digits are
packed into one number, first row and leftmost column most significant. -/
def City.fromRows (width : Nat) (rows : List Nat) : City :=
  let height := rows.length
  let grid := rows.foldl (fun a r => a * 10 ^ width + r) 0
  { width := (width : Int)
    height := (height : Int)
    blocks := fun p =>
      match p.x, p.y with
      | Int.ofNat x, Int.ofNat y =>
        if x < width then
          if y < height then
            some ⟨grid / 10 ^ ((height - 1 - y) * width + (width - 1 - x)) % 10, p⟩
          else none
        else none
      | _, _ => none }

/-- The 13×13 grid of `navigate_small` / `navigate_ultra1`. -/
def city13 : City :=
  City.fromRows 13
    [2413432311323, 3215453535623, 3255245654254, 3446585845452, 4546657867536,
     1438598798454, 4457876987766, 3637877979653, 4654967986887, 4564679986453,
     1224686865563, 2546548887735, 4322674655533]

/-- The 12×5 grid of `navigate_ultra2`. -/
def city12x5 : City :=
  City.fromRows 12
    [111111111111, 999999999991, 999999999991, 999999999991, 999999999991]

/-- A 3×3 grid of all-`1` costs (test input for the first-move analysis). -/
def city3x3 : City := City.fromRows 3 [111, 111, 111]

/-- A 2×2 grid of all-`1` costs (too small for any Ultra run of length 4). -/
def city2x2 : City := City.fromRows 2 [11, 11]

/-! ### Derived notions used to state the claims -/

/-- A position lies inside the `width × height` grid rectangle. -/
def City.inGrid (city : City) (p : Position) : Bool :=
  decide (0 ≤ p.x) && decide (p.x < city.width) && decide (0 ≤ p.y) && decide (p.y < city.height)

/-- The regime's maximal run of consecutive same-direction moves:
`3` for the small crucible, `10` for the ultra crucible. -/
def runCap : Crucible → Nat
  | Crucible.Small => 3
  | Crucible.Ultra => 10

/-- The states the search stores and handles: in-grid position, run-length
between `1` and the regime cap. -/
def StValid (city : City) (crucible : Crucible) (s : State) : Prop :=
  city.inGrid s.pos = true ∧ 1 ≤ s.steps ∧ s.steps ≤ runCap crucible

instance (city : City) (crucible : Crucible) (s : State) : Decidable (StValid city crucible s) :=
  inferInstanceAs (Decidable (_ ∧ _ ∧ _))

/-- All states in a bucket list (front to back). -/
def bqAllGo : List (List State) → List State
  | [] => []
  | b :: bs => b ++ bqAllGo bs

/-- All states currently in the frontier. -/
def bqAll (b : Bq) : List State := bqAllGo b.2

/-- The bucket of priority `d`: all its states were queued with recorded
distance `d`. -/
def bqGet (b : Bq) (d : Nat) : List State :=
  if d < b.1 then [] else b.2.getD (d - b.1) []

/-- The backward predecessor chain recorded in `came_from`, listed from the
seed state (no predecessor entry) to the state walked back from. -/
inductive IsChain (city : City) (cf : Nat) : State → List State → Prop where
  | seed (n : State) : city.tblGet 8 cf n = 0 → IsChain city cf n [n]
  | step (n : State) (e : Nat) (L : List State) :
      city.tblGet 8 cf n = e + 1 → IsChain city cf (predDecode n e) L →
      IsChain city cf n (L ++ [n])

/-- Everything the search loop maintains about its mutable state.  Edges are
the recorded predecessor entries `came_from[n] = predCode p + 1` with
`p = predDecode n e`. -/
structure Inv (city : City) (goal : Position) (crucible : Crucible) (st : SearchSt) :
    Prop where
  bestLossLe : st.best_loss ≤ u32MAX
  lossLt : ∀ s : State, StValid city crucible s → city.tblGet 32 st.losses s ≠ 0 →
    city.lossOf st.losses s < u32MAX
  openValid : ∀ s ∈ bqAll st.open_set,
    StValid city crucible s ∧ city.tblGet 32 st.losses s ≠ 0
  queuedOpen : ∀ s : State, StValid city crucible s →
    city.isQueued st.queued s = true → s ∈ bqAll st.open_set
  edge : ∀ n : State, StValid city crucible n → ∀ e : Nat,
    city.tblGet 8 st.came_from n = e + 1 →
    StValid city crucible (predDecode n e) ∧
    n ∈ city.valid_moves (predDecode n e) crucible ∧
    city.tblGet 32 st.losses n ≠ 0 ∧
    city.tblGet 32 st.losses (predDecode n e) ≠ 0 ∧
    city.lossOf st.losses (predDecode n e) + city.heat n.pos ≤ city.lossOf st.losses n
  fresh : ∀ n : State, StValid city crucible n → ∀ e : Nat,
    city.tblGet 8 st.came_from n = e + 1 →
    city.lossOf st.losses n
      = city.lossOf st.losses (predDecode n e) + city.heat n.pos ∨
    city.isQueued st.queued (predDecode n e) = true ∨
    st.best_loss ≤ city.lossOf st.losses (predDecode n e) + city.heat n.pos
  seedLoss : ∀ n : State, StValid city crucible n → city.tblGet 32 st.losses n ≠ 0 →
    city.tblGet 8 st.came_from n = 0 → city.lossOf st.losses n = city.heat n.pos
  best : ∀ b : State, st.best_state = some b →
    StValid city crucible b ∧ b.pos = goal ∧
    (crucible = Crucible.Small ∨ 4 ≤ b.steps) ∧
    city.tblGet 32 st.losses b ≠ 0 ∧
    (city.lossOf st.losses b = st.best_loss ∨
      (city.isQueued st.queued b = true ∧ city.lossOf st.losses b < st.best_loss))
  rank : ∃ (age : State → Nat) (A : Nat), (∀ s, age s < A) ∧
    ∀ n : State, StValid city crucible n → ∀ e : Nat,
      city.tblGet 8 st.came_from n = e + 1 →
      (city.lossOf st.losses (predDecode n e) = city.lossOf st.losses n →
        age (predDecode n e) < age n)

/-- The invariant in the middle of one step's relaxation loop: the freshness
disjunction additionally tolerates edges out of the popped state `curr`
whose target has not been relaxed yet. -/
structure MidInv (city : City) (goal : Position) (crucible : Crucible)
    (curr : State) (curr_loss : Nat) (remaining : List State) (st : SearchSt) :
    Prop where
  ctxValid : StValid city crucible curr
  ctxLoss : city.tblGet 32 st.losses curr ≠ 0
  ctxCurrLoss : city.lossOf st.losses curr = curr_loss
  bestLossLe : st.best_loss ≤ u32MAX
  lossLt : ∀ s : State, StValid city crucible s → city.tblGet 32 st.losses s ≠ 0 →
    city.lossOf st.losses s < u32MAX
  openValid : ∀ s ∈ bqAll st.open_set,
    StValid city crucible s ∧ city.tblGet 32 st.losses s ≠ 0
  queuedOpen : ∀ s : State, StValid city crucible s →
    city.isQueued st.queued s = true → s ∈ bqAll st.open_set
  edge : ∀ n : State, StValid city crucible n → ∀ e : Nat,
    city.tblGet 8 st.came_from n = e + 1 →
    StValid city crucible (predDecode n e) ∧
    n ∈ city.valid_moves (predDecode n e) crucible ∧
    city.tblGet 32 st.losses n ≠ 0 ∧
    city.tblGet 32 st.losses (predDecode n e) ≠ 0 ∧
    city.lossOf st.losses (predDecode n e) + city.heat n.pos ≤ city.lossOf st.losses n
  fresh : ∀ n : State, StValid city crucible n → ∀ e : Nat,
    city.tblGet 8 st.came_from n = e + 1 →
    city.lossOf st.losses n
      = city.lossOf st.losses (predDecode n e) + city.heat n.pos ∨
    city.isQueued st.queued (predDecode n e) = true ∨
    st.best_loss ≤ city.lossOf st.losses (predDecode n e) + city.heat n.pos ∨
    (predDecode n e = curr ∧ n ∈ remaining)
  seedLoss : ∀ n : State, StValid city crucible n → city.tblGet 32 st.losses n ≠ 0 →
    city.tblGet 8 st.came_from n = 0 → city.lossOf st.losses n = city.heat n.pos
  best : ∀ b : State, st.best_state = some b →
    StValid city crucible b ∧ b.pos = goal ∧
    (crucible = Crucible.Small ∨ 4 ≤ b.steps) ∧
    city.tblGet 32 st.losses b ≠ 0 ∧
    (city.lossOf st.losses b = st.best_loss ∨
      (city.isQueued st.queued b = true ∧ city.lossOf st.losses b < st.best_loss))
  rank : ∃ (age : State → Nat) (A : Nat), (∀ s, age s < A) ∧
    ∀ n : State, StValid city crucible n → ∀ e : Nat,
      city.tblGet 8 st.came_from n = e + 1 →
      (city.lossOf st.losses (predDecode n e) = city.lossOf st.losses n →
        age (predDecode n e) < age n)

/-! ### Checkpoints of the concrete searches

The bounded search loop on the test grids, stopped every `1024` iterations
(`chkS1` … `chkS15`, `chkU1` … `chkU3` below prove each checkpoint correct by
kernel evaluation; the chunking keeps the kernel recursion depth bounded). -/

/-- The search state after `1024` bounded iterations of the Small search on `city13`. -/
def stS1 : SearchSt :=
{ open_set := (9,
               [[{ pos := { x := 8, y := 7 }, dir := Day17.Direction.South, steps := 3 }],
                [],
                [],
                [{ pos := { x := 7, y := 5 }, dir := Day17.Direction.South, steps := 3 }],
                [{ pos := { x := 7, y := 4 }, dir := Day17.Direction.North, steps := 2 },
                 { pos := { x := 5, y := 6 }, dir := Day17.Direction.West, steps := 3 },
                 { pos := { x := 8, y := 3 }, dir := Day17.Direction.North, steps := 1 }],
                [{ pos := { x := 9, y := 1 }, dir := Day17.Direction.North, steps := 1 },
                 { pos := { x := 7, y := 3 }, dir := Day17.Direction.West, steps := 1 },
                 { pos := { x := 8, y := 2 }, dir := Day17.Direction.North, steps := 1 },
                 { pos := { x := 7, y := 3 }, dir := Day17.Direction.West, steps := 2 },
                 { pos := { x := 10, y := 0 }, dir := Day17.Direction.North, steps := 3 },
                 { pos := { x := 9, y := 1 }, dir := Day17.Direction.West, steps := 1 },
                 { pos := { x := 8, y := 2 }, dir := Day17.Direction.West, steps := 2 },
                 { pos := { x := 8, y := 2 }, dir := Day17.Direction.North, steps := 2 },
                 { pos := { x := 7, y := 3 }, dir := Day17.Direction.North, steps := 1 },
                 { pos := { x := 6, y := 4 }, dir := Day17.Direction.West, steps := 3 },
                 { pos := { x := 10, y := 0 }, dir := Day17.Direction.West, steps := 1 },
                 { pos := { x := 10, y := 0 }, dir := Day17.Direction.North, steps := 1 },
                 { pos := { x := 9, y := 1 }, dir := Day17.Direction.West, steps := 2 },
                 { pos := { x := 10, y := 0 }, dir := Day17.Direction.North, steps := 2 },
                 { pos := { x := 8, y := 2 }, dir := Day17.Direction.West, steps := 3 },
                 { pos := { x := 9, y := 1 }, dir := Day17.Direction.North, steps := 3 },
                 { pos := { x := 8, y := 2 }, dir := Day17.Direction.West, steps := 1 },
                 { pos := { x := 10, y := 0 }, dir := Day17.Direction.West, steps := 2 },
                 { pos := { x := 9, y := 1 }, dir := Day17.Direction.West, steps := 3 },
                 { pos := { x := 9, y := 1 }, dir := Day17.Direction.North, steps := 2 },
                 { pos := { x := 7, y := 3 }, dir := Day17.Direction.West, steps := 3 },
                 { pos := { x := 8, y := 2 }, dir := Day17.Direction.North, steps := 3 },
                 { pos := { x := 6, y := 4 }, dir := Day17.Direction.West, steps := 2 },
                 { pos := { x := 7, y := 3 }, dir := Day17.Direction.North, steps := 2 },
                 { pos := { x := 6, y := 4 }, dir := Day17.Direction.West, steps := 1 },
                 { pos := { x := 6, y := 4 }, dir := Day17.Direction.North, steps := 1 },
                 { pos := { x := 5, y := 5 }, dir := Day17.Direction.West, steps := 3 },
                 { pos := { x := 5, y := 5 }, dir := Day17.Direction.West, steps := 2 },
                 { pos := { x := 6, y := 4 }, dir := Day17.Direction.North, steps := 2 },
                 { pos := { x := 5, y := 5 }, dir := Day17.Direction.West, steps := 1 },
                 { pos := { x := 5, y := 5 }, dir := Day17.Direction.North, steps := 1 },
                 { pos := { x := 4, y := 6 }, dir := Day17.Direction.West, steps := 3 },
                 { pos := { x := 4, y := 6 }, dir := Day17.Direction.West, steps := 2 }],
                [{ pos := { x := 6, y := 3 }, dir := Day17.Direction.South, steps := 2 },
                 { pos := { x := 8, y := 1 }, dir := Day17.Direction.North, steps := 1 },
                 { pos := { x := 6, y := 3 }, dir := Day17.Direction.West, steps := 1 }],
                [{ pos := { x := 7, y := 1 }, dir := Day17.Direction.North, steps := 1 }],
                [{ pos := { x := 5, y := 2 }, dir := Day17.Direction.South, steps := 1 },
                 { pos := { x := 5, y := 2 }, dir := Day17.Direction.West, steps := 1 }],
                [{ pos := { x := 4, y := 2 }, dir := Day17.Direction.South, steps := 1 },
                 { pos := { x := 6, y := 0 }, dir := Day17.Direction.North, steps := 1 }],
                [{ pos := { x := 3, y := 2 }, dir := Day17.Direction.South, steps := 2 },
                 { pos := { x := 5, y := 0 }, dir := Day17.Direction.North, steps := 1 }],
                [{ pos := { x := 4, y := 0 }, dir := Day17.Direction.North, steps := 1 }],
                [{ pos := { x := 2, y := 1 }, dir := Day17.Direction.South, steps := 1 },
                 { pos := { x := 2, y := 1 }, dir := Day17.Direction.West, steps := 1 }],
                [{ pos := { x := 1, y := 1 }, dir := Day17.Direction.South, steps := 1 }],
                [{ pos := { x := 0, y := 1 }, dir := Day17.Direction.South, steps := 1 }]]),
  queued := 64924857321848233801020698161247311947173384088433269698554671913890251833118021267172155491048179837833803029729131207631871661091297809245985995655243821419890307078624423232732345244598720888595081818263927690195410774293551965973966536909345619799414109382183006107926831602312356110918638149603934575210146894936033497241276558154454096250769621558595222783898871443486572670689368625582496485399952765554875395679309410158847335560256820590179821857403494978562362530948021066572312561325535499070615997333834156868172339115066382234304424703642599574313649817562497803983151361822278400590526938671492767779274154731384370880880599546432911224983491044115513514713021289331459706050570575566453623191845024058407877030063871794115988184493489889522343582402944446453878731207022738450040733717969798294766704070121426374961592193739300188385146330542977822765356807448602622044351026089864218907426110999987712416343457272639954800206837086141156781793738944213268803411521259409764901011027683158536243661451521293431446898908346084531768043453061590666941223190471886457287848423436415631234023334881976853894199495525412009373090913603344098054204038934061866213810789003890366442337174066592193942956816171050384112252781309234383751904315459257094256575928527699180807207287763999117674015757745387881889792,
  came_from := 20595207532532843191719023933686968049796819840328446475877216909317635688609412929572937259226344538976135730399603448794815080679663047835435428345829003293164062888426111458106332436291558770971099591466241905498952970890331091642132552475647250103497667051543283204264333232867673016283515277566135256261407706126329927086721865047373544994247783210843924100681683802651442684313134646836574522001454766622022887233052751595552051361829369016011497654683188440578008021193072634340903348968702027709986083560393684174614798048244502024087456035696586891842291032672987574542366952069053174273103191396970332183461606147407864427641504619423160106194256140365496660196995052748208056008673361839940951837759375299805424022008949471559117265275364981460064637858601258865184172704757172504825559881587563921112584517287288003796502289584792672230432609437595830725786533358517187924974149078866348307239974106888707948111243413087562599986904284686868280316490686301808652862820174904027596291571293913533560772876087957355924973807245140844367436238472226810779260237492997754653420939004873596135659623099990275279566258670582044801607588787855070998234332938446107965026390199833375724972403649302894267676241813846836020332543479574442449302523357968944477384973482287057742691751977995755428414379532668793138989727345940363664576253564268832150750274872459611098293346895454430427928924401559656339934793884223227117385203241962156883464473983027587848135613230956730392573818606867795983261894183807608186031343015463734846228742040851759550148229171489815312878174216138950848578673744736881468468521841283542557025652516661812681328184406932143122333446217154204206268751361207831429910461204485136646318840735472258005952576931723515275337921923572100899327369087526351993855019981029376999995439989848018478640825246980023842733955273257938028955761424144460308527859422547080593312602668719679266282842088086476210083719838850038961148574783184776806050973248431958238528791856685412622140778207749472560598343577517581751217679434420237292401982005184344640485866525276417083950529124683905889435234474687710111458363917163397158990258259952998191581149873158873200285214790319283938307249202225201257142886098201615856760766580745430048269174163290263797794410097045347515829199088886354419435794114490271081968177715504183361894090974425467976754848602102940141209743361343845656842211159969404282154443652260189799151934039337013310584577462879639549511251240574452039912223638334287053253099665772805070671374953775567340789588705913311282645585665268443437818698165086209350446408018895246381299277539586835499617177481945832756251996133394897960911464442593072801369896498096096446368574647823745792129931058921293735880341098678007945344045728903194225049045740656730897185676144340880771854883273054756298029898578990030615771054576466093585961677215345020253730478756380499084221751287073658817430470518831128361394532485245155811517306005153241146131681509462838091373505260034696108763473245071048419888910721292618086356680046419357964454936359400873883397846179579504075314128832302867471450164079622942905507264432848484284239347990911425310842919483212640260473395030639633863560962660358181171717514791549572438379778794456896858401115128943852713239428317553206559104178015432384286578506490624915401340022778175146885544061845273166978966203485320371307175185245472201457994543652718069774312560225832793404600224366880932608128573382111515175251503797476329324252584041952092795488755412411365564583927930965609788495715533171929211682903117194585556339405460004465821052277144562360694289362626153405940588654184695967987678980436978972849155308574673773533576317071864721863120100524841063234002745024947617711527744356737193154912583949170792647359805041500833976876282532074280871198193436231811496446186060637131946181556816622448397679543081543981740038022549639104450842110543815195321277715974535162942124526324151030880426594663352564857776876898112828282361572972654132980273773431997734069957608981752095815783055643828365247528844541219042149958639420629961710175574158090884222894890477337865215079864712281388302765450987650248959655448562846506397224850332084086022306217883871478886874329858843022725706048748001101283000020212094509489857321042028871567082363663080268428298138667328890020790351625298541060674934791848455600551555461352494809690530568724524656135365528445079801538946193759372483018873701159817655567834751521039083705625903194909587784815484627799183938995671172722914383076238428875205620062738575372219595465789573206269162676613883534687740071638377191687522626475628309200519070383890671916219590654411598062482383769209676539188093694462780507313684113707713049694211495366535255353837241684350958929325783040046530950244964675728219788052820646330178707715413378097698892446563443857094433745730102604632997212766113640076192207893386668061472451494423877340858126812328484634484870872900567941030443171122699521236899566130428746869367571281178813420196629081103803723890420576571325484514374929696974213687808176015000786686423548272824448304516307422720677140714230926949954011804704659518887160056620746265929778043604229432126051641202795281521979638774451588433693916523069450375810606920854445814496817456233547690896031950090815831426786526470601638418534394115662790389099015878097504599772347588882484770735063538907020703725213395951653642855562100592727606180869862057680720375947698571497835975974688347275256978992884574141792266536309964098948729410209382828304648012337137708358024474799571246786584357972010398130584308673253150955058763213727464950291761391431496394462642308931305629951348712849725430900871274436759598122062521110951271304413125921250243127786212380543643443219836280642791551212710941941537303173790684533687140373747888343424740443279255447030916654242751758621651684234812041004641173338123712315947461614968328982190389211263267174787679398063261705264559216393633214256232671042706707282280343789111539499328839715779444964959527883560936757144049780092830629659143819497140704879203544110715825947583963460183719557139355728277836537359811922471429859229164324582508178983008410749048357512492804446971278887521356636005371014467060177580922211719860618504047413146619948599752482097937183477738185020151982917838145000649325609092713853830550789587920762298250706841633961326844078823244996826219442372811700850041085539888868869089745705752550458596959390560554240330695598544114541363271487066858255431758892679434395933098309928310233291213628705252252697477361200150404059426968255489633066059762734120733007364934846761187270067456532833328299955718257425796685530774679466627368433041474817193531655774813585365576552098397395767959493694602782927297256740334037838386006470785119264480222897272908834763430698323189321680704428663613334236231628901450043639653502760175208973028120877378764914487199499784269349207794925205276475408240111880803891846196177827462274026331675006806903257844023526503639346205717738371426296821740389759363270611681437752062093930799492537623141719575418767445574662281790193511805609978246903072439840552372386133946056103489940093515878019040100971194841606995124617439639556517980531085740600014202408516589012977801856263592103447150809187441444506655698284838521481741603275358301627788825631156699316378961060003164668989422332251804350268782479813549505170506182878266907321836035422683857583593852127601636339847737744261886966889054108481215088995556821073911048572059642115693728298232208313549672623948593058501676702467724907199612316888491533490660364944618914831707073483235103543820580920271151862348761186215067412951836184447124878390138172512154778523250571850064194065320835017921790053710526499690740894535930312109599646131007859341100106197685154478100751021104118719201583058287348079855234518375796533491667471605420823386081484143876236685212985894455042205419534173446048491181686838750894599116044114490105784839280359053870794491506509195220148931195145182816599647760606278752724414897491463900245058188051249087685942881579780501679477487663313600016356084498836519821306951263828977637172996679841661217288573953288820448917599501118243015264233233174327960732181131098017424815694602141095130828494703914034488930344517292826155510374800963687859763873865530538704445147729069718924271516099012341332177568688816315529676574302794215964251578566192977638081251916354110981033254955077984640071285344329201059144553791535974420423320444891729396710101925029386212062391641915592735671181411651656747012648248446751556261468230033494575022312258436151552225432081860106839928947635943251583035482624073212510806843865183957432294707685435066434637320173762435016940722363305613832872060830377659912172982329407910376271955512865583103874516330322600308311337517909588551192834495231250490752200781978410075457043586960767543415793054711071390839210888954860365374708985612811336337167524195590907510258736657337700543625645062990766553969098407426609049065454764462632874282704270735655545134073386708913822141827423611029785263719437791752786649133158478650821309168273446063795157284055961556875359207821467402293742301217309673646345185126582394683273931843940450486413110969219935821125290256160602456530137084810087936776159470417071726661716002678205090470195682560761597966242023978689493394304337994891670577837855402484006452212443140444102020417728902967612518877264848465812820560916336261672872106847222102801732077138655506093584644205220989630701292546367932338051738699205016567025964197653822085770180016883987998479497453352578415605485463583108478815216935115647150088231513013829071647335747559461840598515514390324154009387874538265016115087759784873687875020763561839287842991732830902199097199522802201829144518835686232247944544022224188496788314172387623310939154494645459913143635635038714413239918275721277571080097174201715677940909411347100830028953685368644471960851393126381419896147165061956045786326063375003429907907156469480054422491661317893854212075195309253124786273750596784838008260952359290467487670551663256887974644005861212865913109980617961644688890409259204624642825543077843097842858154420157875042904966987481549963195123619248880375791706343068220448267309396304805223735143587193362376122239997650657592709848672013409450853325274638443163877349276665848006289786082769266285811959653446261132978077453996597525493015128466716423432552776373843345536271050402248349006656267232776650444625719191686457135536706212962308662076550531959860542311102126365446603815281945803278386577517519973563528263113039294168915128626823779763522604480614002499909446780595025199146248059603474323318244989580704652043480885359052198712524705068482596565531525430097327522291671825079496647604217662868613115387723787762862977251967316279452149845966019179629937162758535610315667662112399702646672008298779970119118659293427389206944371068820663319557480652453484453334858922700365146977369839837617809658091840402029804897108792064622776514205367908370592168710520135638092997387343099048942000497073526077521074083696588794780628398867865372005192956141513385959458406995441481397571244261768573628139043054724570966745361639670919200077519368363971282884691993486079758181119165294527162052815245702349584919887951860500932753160408592170698950000945482168610292564003427485718834749501335049151336198510326133117871622166207546083472665930358266508713116806570642118880510301835785916137750540729537453524238787748920089371856318604848148128933453762195466496792390256842526826201914288335950600949073602018032875724566717182826093602483067072146849050121637110773520240745379903667798000946302061792882278039975606598330200044313915498293263862998282107096651181816091218153198191091243174139939259141407867240584717212750585076299460860190790621702347537520326309228992659954487596147859494932949929580362225377414604266958518155306024049342470717272679111547211267152702594412081161862047986995770164237982942518502337099147861602679006078769113469368406060101018809550962552843643518526749808404818622341175309329481037533425525224914301750925612433560383325213878381865225247052120259119753212523858918549114097952863768873150456348703857477060843778804251044468403762129040454877714575100044067284799268884214410105057509930369367401275226384689731572597468494533003087824129322188194177505536477976733109532855883631991186921451648749938618883985302575991096054630516357552854677957999686604346346414693384519771546619174149581374863885397143214789819978233551996502531026217489023562869400539235716535515352235795474438633251998025357027029024091114381574997828950650088517595941515308920528425957607419482910302311802652116886983509169676684475235642865166222824986766495512007650588647476895348001959370718016150328852489287023952444041133122821393199361804994351280659632017024076250680317348042663210972424483040361778131817675167345033200418672391420216369209221215766218993008607415661060326978778996531261398250712869704387267565710211682494768541401758066847765325062590747172835436375902540360799868755415045113629443735820961528498239868356055649482389722981225038590187507413680456048118408530511078562350476281119889561553785733725882972231239272433544509890620170798032905377048501186271668144975827405345407523837703272835709298183201860779062956986946256111658692987421964686721048448048554546131467287225041937639234377261511819905943220279256960865671935538356665562987505067194529226288596814410775357989506438594580864485398506604469607968596728998191683995060627103975257580489892788126138616184843407700785457608688188786735041247602623439233175861766115447030127868110799095463382020150671609388514928186097451537673321213329325912830989638151085104214317484191364218888781361077608147523578345232071862321577807092752249705008138543346712583407601131867483111321176306547880417412354284119321132183390103758906333212767906195967558676620478405027795598927739574464998123322946668728804707397555025880176496088354290481288672304507599857769736764066756158500062830695335460230941251041290927637689240994235926364250689226261403086290765216117346676846820423470390120720703899902240228448581126086321103614670102703174614548361261073961697425364723430519413726197876405197838329052503441434727264728035058808300445244297622203728725796776209643633655312556294894560392236199606818654793322743216555018934541420512633693808925144805799983674714855891717078471475022808558134563244807721880711609051617785198098757426584818107097762559482632225775298661967978080684019706189540569675020931278641982431965860145351949315357022956203417897435810395661300746755830432452271699359763797853932778901401625729201301769881907106285833902217955324185446747046539333480678358854299219940679880893238823947442918337013946405210605858037427606186238711883449805459157090484125053974052377445104118460112827400185519099871788536367668032687770742669894381741947164481111727790188643026679664931278895887205170864894838529218920350213509426187664316321703671304457101591534010734608364968039986917535580767045314716375781983936173449520117994849987040983297839201149928329797822108461662954010194509493568921371436258584036189985050147553220956139946402733045248871322672436674737660363738121103549423552716005401466618830767723705061758521414517019119554181925882110711326293783185217003113415731289210252834545415820984640690954251669721022169121284706599111404726159393027170891647984655454567421398677251918120287303051544725125101915707465250604523800646749860306192530376184240808058720032901293656061721601918112376828580882060625911248606097062276849914038810475439478432550690851840551138495834980999652028917906629237318836846881424992044297736671328737505010230456453637690069085589704671628051762827900549006393050399565204779661961410599941590344505586765406424681098051377042632508450329979897794701402689181641085279825161268457480219467318166420440832777209121887342004659927405903051990643587215229732252812025148856574443119425990017961637104096985933846434581673381464336203361669375394615379753385248306706819763647887494129020089804174287097869107281757807676175849826135818847124489096778755530345044406230596065175617826148304670700896094734621113078297406253255824967446349672411638878567761707660235213600705633585578978505312565657392783518271039355395496865532684384352759942081033379381608369913276688336785668607991043839780019532161946827768982001889354333668459386697365773444503147717859240427565511316064665194560711408376276967912995558355182970262636783862592094036547438484030245598682642597907563459576247445722595744534997800053544924237432006308706148519206891075631481149027157982213562234887438714500067010443883382387302616379441661456288645136538704798750294344502010950972456290821518740062302500555047732482349952561441252711427369052527435237178971968270134647317806365499381825353065078727963257483844050619996537322266127079815600062248835566800169185513844156133653999806195604710760640136923555020029105956712369659958585074048559322355340197361603559030651626182822717363566684902468842020042288146826900823341927299242931587711889256365932649161428328723151870379092806761901100584759035691804799742865205336968149110498679191281399043540578756075182461814359714166805097568804807279360136828729047766303571856212747227320617419682274169175733470354939698005917209315508610273577878926428130599443158156963627257498224310638115599893860468698106413114403603722953600447321270731873040400635224554432696298627305509261834271666055218778419458154125367565403000278079176404162320418412485659312402386400315060694986758387289384206372463329853985698067528898773629044324815183562170795366472534727588445604734993129496991324872702722434981020507078778293582128249625785663488,
  losses := 50201578142875934096926620839175890693543788812973986263409162885818443218912939626721798969743181770193096379162769922995184477000810119832960372120483036126814172777560747673192478614988663951845093058184901062749746206135886030816560497955093985763387214530288318970201658447023997496598318127468168071564265781661347131457065818927557183197137501661433797544376123744997402653066025565165323685767664629484682684270979862252693070407152842560125704598438473077319243875593078843434859210078073706078237309495096953095644144554820366065769949903174223349770207420959100655334441309565962070030714892377435954852756726012731420358411201470467045615524157286889911337804905394375413855853257390416153326408053218739087008736345501511721912272826548156266582151946527264240954743537819196128743638856770079738720897867318680778597672444923408913896917984626432858213870661548162140150589423417411649559593954176238470461088261294486277082886713408177985158921147069030632138313895669619121226801506790524958201476426330545813959281853194185068181126811690859915467064867408103018589375159080406892691518408303379628615393537056783160293739173125908979562751500745340707770844400263800061891445494944537005682981994506406006808922542056351094353777583492939540113419245878409964440479182959320411373236122687779164734808582188137511726957824610533251425556398830439860062731397357658276641190092771002340230237907825975093661858509544180507740254734393418964750378629548504327848493131743476236704719208922137836896246333687553422198188614598159854630130427479964660126449291479483754444402095809408606264040489669847848050741166152847604799054346156878780821034542135172896340056156486977033606645031696297963019285136272232501515869917378938984437566262446841748264301177503159333601916510952017689190517546927907878420403824221889809335004281967834247272508008317155680482963713252826489397821997528890669690933768501436947702768106493768394065196151838130737137741976327548159740180041464354079095977448568129741709411466250245513590511256964720125100515937869058280369123363057753757299830662082567747118917418660104354964026788025669906078903461015515466099443714402208666591055760613572775925753197672285910234174649709802465840211412758735171201637500935520500119783930785476437678655491983599843324812586849851414178823351782809816635013561675309814249608763661022316670365019202353201578331887021309008701404959521594272059041912070157370860599734256666581076789836639348758171646611081990338253630075521123384962211217236011284277490614231369302219510124034784220155807820391161027336057598200333317292214666760310243976174968710179019757887053688695504188911279084657212538317411186829055910889926307899223299900139931078334774059237685569723053841940207141209859909471542195650237751873974665700487231593423167260954486116691606483849695254194343792731095339952685661366665952878712468582741141353867847616016115183271026720029609197228447613172342907100868800347172791291958198075992529355205720032917319778578705344301449728881206629465188196712024827600128570187136366058605071819076189261418568636955193506178657502237903492588778046386992152202944867382894472050378590224548194389495123214160359539012960018324984809211994476233733065221606888585663768018897452757808677539632383087038373069245180228445237976972894874894137639103403360369809499112693912470176196148861879188803924545639274999834643919447161518899329903462226682049622371199193794536617719125933228666956129050981081100382321842043421769252602660710600843337130650721532704481163838506318879976010931221949421215152835309401458714841546993043519943104210368357713692067365365489676261318518197032718092029770937133223135176089936827986904801791178695174671286312737878019381857007203206245265174567524325216840822845821587879020259356069349263330673213121417203767220850492570158787509361103477262086404941673554082421646989407222942914370838833451465768460745947925047227241051225609028391452609292230806675886118189620936853302183663016494879141810951943353971474309052047376352244468861448961368121812325031870613846254368268126448213205522697019219011297849429219059955040884721260930654561130864146517350030174212118365909809245064113887811547688615041992463200994200819520335451877494845868011582173827176186046287431607811991870350670059406015709581291762274207387318046518134535784914224835760431356589024345922560700091358820222048767829803954985285120344057714180823400839631068672725856903264105763945533231045740667038500146835804216927658178922074698739435738688335160740725360256279077789987569541490247617878671492478345049101122633457098425217089227593673884908238100168086583546104024197229597047236063348122779442354613608748403221136006364332203012359143314437798196497639271616088701764830306303820605227541955865423702008522455516809035401714514283708586117639825845495657957675638961029989155117955024892171851092191480214718993508779312479985935955670289280541060519283096231854847090505039429992288067700949560119530875393796847857171166165896712000062215494001024621828585381904148062197167848458328783404026508051248814905398365876407854866036951265769625941470810289821488523487151307605201613572035163857317641430415972457315332230624106620085363931581648147907950722616737744287248501592478183224228827712551967808803739061530824378991315374204751079224030712203722459278509463560442984260516369534337270563760953516345913649450522973974647652011665669368642556854260058826689067684786197573290486341365151987580483044962180541736150913794381636226548169736844231254626988432301552017745813480145459541136563430792195546375825289214397949143662607089246928597832552281277929493522314088755544934512112445539420033865039234574198635453795077871874162902187500505934652866047646806835792910803430684912380638486856797641601480803214045022420918600584604255621198591169682865041341195159791286156881973463468130095089935693619521040675131089233933411935272523314590440968211370407803260755198264373598365642067903556785061120593944012618347758875351870573925312335919830826052173307277966655682979157277618765003817715029535707830460996379046600160770713811108456375261439015365073298284271030374088910779125454179637041948991576687755301643058644146529624050545508411953834273342270924149786238731631625349886106463057420203852595173031269328267951999375607507966695236581962890557795385919488345975956046437367417588186597102685225721919483727916046851251948211205090178938767203243663952782456077344532986982129731250948351730093812037827229395027974112170697087958333932234749603938244043859660196100711800423091849241873659684361884199756907792206156036721375115333102193805110712589407435587681636427904966457170279765163675739257837596608838110722228087461924642735861803380967683288317065989565287577153699431020716328031138116858622741196540513243991219913107914743463420767413258950266650095165943585497428484385174363227775834977093530686427359039179215865524520225327236060553863226144294738179987932685390529731823169981849887031932594297350534697060855793469719413530687005766567577114124293710656359710713833036522113847836746533187365108586912464652742876398870129130732523678025437724206123833174306582433358388676671695851640951126686114676131121558030678479383934105926657014225683388851020180407273362844678045673732533362604961119028730244412860727763723402399693078054506218743334365971692480593471848515159547411350098285394969516843548909972106978639632933510665368564675314962994910669684518152524121033106650113482309591730701792692764854995712764458975495973709329079859654075750175194594820428526221190890808619511869479309253522114925094848225918277996836215128398798129768205306108132604665385679494627796306319335842124042734318153247528462660482549890668786671972290589494763823965231503131666113288358325495719396300688072799940503649878130629161292091281269688375141928436976809228800682590095193438559494210348867913140052411791888763017500402416476314163141291070403244395565722509012511459615956357533486915140614476728103903053028481898392924686460647905686886111356824588168743472271053019414698537917294515814184841283284359341033287853980834025999409710229861853712980718259891173813489873495491378020307435459326002013969122771296580342258851272634418885328454246832819735550452548253024763772980274818662953434039397765321935201425522516692526763614422330081738188492046789183705668489748774017612802812304611023897606318354841024830235218017108047620515041166620096996496165567774042782091293608499408047379124721793073873853879841964565695932253417830513779087110666447452545817504831991927979521250987871064712002877715994589559090446751848057885619116922021907791995918094400208539957158351396515774261960873636571074512782689794467314480000828079217720026414390250496593327238696294294510291237733340599679739734115181378711407344509964899769309371101667767217241433363537081871466367021708233608576751094634974237291974281948327895269080069586960632217044622180629279152572577194033099766515609216276040281499061988426430534076078390123776146248166941767647343221184212844910110629575799928834189871776801795264237124398428916848072207154781437577123068793737048538978282553624373380203521841338018358923648388476575853223012567914459068950503262536452363410632264767336075348274583728619900376836951041493762614122398313816151432224634369495382225758473707168924814095325731953421173503741358269004405392708232321015324825043972160179627012402756705076085079683670146308262798086059791123865483173976146693624833716084136739566295926951311437824488355594711942288819980042950819945162463260544929232582244123007169920230648154190706517110067081362458727086750860897485852842186806413845083757554196466429154582175780967782237582644496951957470432043489577423165857412882266964075017662686272482503492771526233450825071502388613045633389813974464311925256548323001286334424612535363045086769441081606168685839552275653295590988099993750474274411220430511660368962820605203484109887333527450683440379198863160015651273726278591073451456652249858331705491556444503777636270262969568740643836605255060420656543986779019864521991054498572818509314940570669600680253568925043289854471649059006177410708020092448681777956123804819646646046685934608882272611736505677052417924407107263375066207082535920050175772967836046992191815911742703238340688532380217384428295524780737371072128682578376262126856104068041928336604240152885957097008632180610023948121639806460809554303180433746437158270222779486279171700735649484247217605823820543543121579405288327256351250306808720424854406959951236022347754329672265277984353996414880263415523901098181820327675432010467275497321825869349298038027707707310657792883211795227742690894443502722625060849364217560376792188534793232761407017185931687608838366500777042806376143861569182215562052616579580045158347212882066244831407874628707691125349430706517832838394206310884779328841309900234970588700022568616534710538044500162571538621746362984704663782569755709164348225671036444143912501797578408227433439775493474342377493287293167135108654600326025388500980488277476352124662838765194054317100589801001005546985203713326728127552619856748482175252591953588815367383211381540175032161809320871969226652873906288409600195586187781525116022980794629421365697862660396620296386525711371682090721437913147641968378959175281600828706749668363670701040689961734775034037516002514742739824914219735412364864436828506315589354428950252532773726721106261629666779279276305130036448810434647162040967521019556235094656416363191069090846599783098236536408926345438481150106203988586714417665621107116256132676036699511837192264387049585815140750339248124360751154257280559457632095771116080284774774832146046618840516924357522343563463824010086398074768135950484434371054159446757780550892041135406392622536872117994822448080278746770566009899753282406638548343680305767707042382641469534689069527706958447835530847926995620151083213892860321187068507814666428054760310821096177956835025538984168222947126304424529819889981922380343971462896586823561113131716343456873739493574953934318146726844094203652301309819312670714211550471430084402667601797959961425833811944550232429382614425382279120577031866193836167963494380384011690556466245608545924991728909417924396798188262492752207153286774832005123166343730417830328442654879885180430655109224397509013738684311858748349143408329047414681004940090887510528276451410716556430155591746349790060473823240122537843406612403490710527299269955691560654402154468600030823001466538209236375642527307409639956062748395643435970763847085811797311901019011334562833979161790665084905054302317661949063351176830129970567678465399378412792098576304278382349747448362403209270657443515772960908012871274228795005367398112740962242345456443585054956544883313194106690722856648385212271958176710740875963247644709789920929566514316051638485596209446845507780844057874868072957323826473597547266403085245209661462011655805121696161323858025638734114355261892186727489181072674020039328271827016821715575305939930192753728019534652806548220934004947509627052094333718334615901423391482175077683503356737772314526678787508949389629068760929542278584840483454447217401889123936717527585836156255447894670867605687666218293386371842920757280214263358091357055754573383260761533979856843897646657467481684192030114605735564568743732939310673163814235720479930105839593776931149418686594265050964235079298422248359612636816756009368350057117264678135488172577451846883854036360009004091086432174736990675664005920005104563506836799719380410089742432872237018027714820098452554642839347085763061333927441564353006161573180357303441710621578708848663859803887803301781494472690414843385985322561429550676884421125288293608940187371175316576748526156157655861876019904770959774043625443100199147431532838159418682966913241850004812664456373257221036107486672650312258725807595063629384153796547028635222837969424237522323126822003957365120224792039413523969640931509933760053122492678096630574371577102913025591487120506075522364831308808775953955260104088053101771172764845077178293878158536340021344592819634619986290758604552683811760379712642904199622656025258384610110575172689166278792987033566893300388505072964977756516813843237810526273460519832307224161538112043599475933622867689594955866504029736788485463750492557539382512233341203228456004642436103170577692960089663989161424189649001517618153768826469348521888001605648486259623772658524810675037261762997024288351748574020817654571100187842943865094713656872129592935535260838302494827171030883312526739721009112681027875374747209442656899735043168008387374349297079468551394351081612651974533856939046183276061797034745279950451017169363542654364567842457226924349975838855647857047464412887331267318380169802713365332582851697480433135678454684712641895965386532835006750027773643953030827000623949655106940696153400214726648959266916462814150170422711101958026552811152379240873953441340163255440943912365174369352192483391457500727649058734824739411206149739761076456045194246863309246522587055162071463639655787247055305057186277136793528411675455724296489953965706922538797461367934526702534998130335807703615854245254705860954540872765172151443960116096565750043020603396615054960877287331755636350782624269058919164414646621384806785739307040185184894206040421476362855826453216962167412579936849143084019293606982896864577679796356764193667446591591916697387274361017347111837101357929883663429703193152930978365414670567961574674897235597013701681294851801749200773021407042699382263123653273205782040731333233242745780650403699789803931601873462631768198701843603780141961392962846379996617560539553983479445679201070480551023651047261809592741525762336554068159890634970906502687708288506347576838593240630675975207443225402945734901653469721385568315204560621875712846583419121628292002135617178036003531171620785944485431377816713163659375573179176432498078281673086187384184400063260906188888891268664019249223933788957826283119647627070376349915163762585247305981141840349282687465615582921802525395724689516209812218868468422126542160035547589979775778256270963285571699377955884207335565684436935299246617026010121023365470276967968003861873208615125985564597242365933479980279731934464508561891483589526322352049507791919059730227427263094764845703083018742525734812878333509812548950859283136945659961133825697357451728652101488775164939183117950921952991687602935169510435340952009889213116406374509857963771553791052296385114498458490158226642445704251734417649465966958450989257685819186616445464891693572188272677775859448464934572501053021600848968206855584107381744357813603046900169800335894905725878677302433058791603093023405069045539104516824011729375454817566785044164396602211313457971272372329195468579750567738075770009656468388523091051507870378932331166077490553672460908421065253817319146379418727169828146719399373913095042414551389465409239087513146504337060723321765597284278815298356450731886785158020359631439683538970848148945087221788530668321018528936137089149487454940531968347016548514913548711917483465991317900040883212062586897002383350919883012168288138062932725203146307697952076303678787866273301579034783943447887619656041689547408200724972314690102289507270319876164157321904353772133279813486417562703131110230655293104631815588363323941596732637532028960133809703309743452087321612898326996615169481879454935155406856677051449513165839657948145982232025038598328277590138253876809726406765631537511849109111438080034480042585192109709771598185994045352416907917694221522844790759566971282966706146955454504625481942546643120718901463020753491907851274532704730103469032408166769361863167679339248872550101819665611567698252670786270831464843938686528380078074568421748225559460683838888303793784256840691956602344541523533490428605850398023826094459524327111346569832937690472791162527132124612066822896308096427173543001879857227737898668595115582135163583847499476544569954217425405761432199893634722702116891888488643003868993178504499386315360334647612237660914329243845064538734784638666189624019979441605735641709229279051297345628646727742834755734845381958228505624907608185606411003560115390407701103641122410016223616980076415866648850086988331657431632054362532148822010106656656560194966900035066082855828835805907226186109824182061387379316986440988684963203297233258065258349507246008186523718913738662858906843093430299090787376889804071761940317856112349907309465919368173021301940734763857395966391389599898245224751944408244221080184495381125677940095148428451544793403912612268492712801321727403763074630697484678337464897083501406712544617832682084528142539786248760553286240564823342249982312050120917439306276260001429439266828253797212456529274582473332169430055795201278761592491283502896682057861188655535753237834203948326947299037570616420200758279666813704136031698566999617956148903890875727815647246639908211048559002909466539473686215750380355632360103003040110546060858779185175549087182274955197039458705459157203260489881791193853991048771838703999790022359335625366405316582766261883612594924531406610746931052235527125711307019453461114739693475249360470285752286380992891613537999452643350478942696648888043285801296406060413193336579894885907419853509420850476261364702333270184571842573343232634099721946983472497949820036420001521067175529180366499114183131124899815625129432911176749304762733928641578519979040193185318199677919693655679441058989224164749501932815458207714218244635314744050156176724279704489141955172925212653577812511120917318690475191582289086917591513053077580853322861598623936743467422351917106013423572035321600497200161574446225625832744671179376839824689688967596280660375953458977870320797726461289642273846128714433160956151983877226729893627660684505920000862087389932300726989514510986867210180808129643058052240511458003106623179238680706424420302850837289794646650863767939631814097758040512542065559532235002832755076044504123609054928215550711957969367826547263436092125255143601473421595709849042274718386985402543058372941035442601854783620639391773196207681106632048637653382840516756978355317460738647130644510237180474128078911266804216398418709371193379036517942584079564918859452198096364504789042902670276228943515847089226423339309219937359407635923381786088275491372144796375072606758928741544129168865632189505305174528179361006330712053330071106746364272567890566493996635711701270409500295363125429313640105436130831309928415996690395761414749108836677302641187570573925274918912418804281969040417456886802327004312211868643903705630633010209932771260241229425408421715302389694867818915470494177620775106649236882759264458377448171848200960438033152675860586455127973625877036608631415901878339439372261411293739649349372536917554035226337352513796400014568874673552136591168909564097120767845745428221061316393170122912929947048742242854079879256096743497595077287161444589628309527837874633874177871891657317521193967873280582968012549851301139060848571151090110807205745719816650263517040403976091342648584632816813414420749456882255041360161395342296129232456291914079756018735044537908047187826158529743406080200872447545128408841577123795603023139610497804796300976387582745600353507122310634884227524099480677108314815439562564972335057764024831921584942389568803004287243602815951105183654599501481941317924941384397551532726865299278001906492350832507324510083159617983496685534079890123041587745456532555616807909466647436913316230670833144807189609418102145397719286993184925412552373365874419033407503357819945206190431381592068735439622759209501809345532182950381491150740429409803418725320502641954210627198847014384308689600972930566717928992878161279329565664511709385461087641886405470145076983571920078499433237654865307881558267795530249955931762009869482969567114288577071905721643610409340672769328704317710372765353535617209556880526884578370266993146806445010646168137901477903179709260875025513387256916678529773237984077060217656709822640559769895751228152173408694226566801016108071053651738091179225593877596485200012430464184177324670920685409893321402225438968444543456236690501339541765778540777434552628243058540109270512401919090540205612611521771632211355897587860908866223030808068304593009155897754710094875760198474534819736550344572013494088875335949781945735909198275167884951894744304849486956569482099411269931682548994201361425195492392236180471760869375011147940353060390209493344107147525136408287373899131601152278833659983821520309275087643674449290944886366183507647038667520579724808368841260555314235681190929484988537061277344713057824717143348172634064111838315106584944277354898547920181520045107814223385224250567570151886690855760622907620523917611688871628594301300742144893524480435339715169900593777040961293509416370464967320785726839198180238913441417171576496582499766601175812709380394915802367156823193791482651937451615076864586114471617959534390163324199305337344648417080068858095001552934262230892316045600315235861895983138198563959374448917048820690077935552475273976282151992872719074655319992555079747476411828809247763610753237998267033731790172148650771135360916850823502058009872291775256881631518482051787432528954039663517849429285722617148691058488904981526506102046115271868199154888012765685359556781980696732208382607407917472006354280219643394370010216961486506562716596867548633115092167014441674838333069690595642054633749828217465093464736484170542733304646562066980748049238915508248553593572436295705977624628174212424784536126395634475572705861927378095923794626319185852276259498714638714038620360716472001109379197017214976934506195804571470275854505944940410049874941930873994603177261416634396357494275416396487715262206163593958163802880310246928995204840392243547343040878696115012980627288317318801321143885958443644202832407422004877194148451705119343471064736660023794026569740495786588395652786120198270275380110193226377364344728201101133329456249189676755989591361032930534582809498678383183032318642121788805648177452231649989734519131344491166290932067011657591997336641606671152015333582290699000952109727043315955950551557776750811590699701331795991911003091124160242925669628679460999881460525492768168311222047458292081785817494803823080806660910178277011697008104509008733710104022743884702613380770963025292841699190563478763164163538500493313948063403416629019627100559276199844454221876338972948272490210672318367670864970790546751421080826833019572468702577346461418303318139857743167168928931128960337104934302972600341288251689073181509876096749645409404630819408715482435236379178947975714433755020344806929317942482700302445511067230620397023424549858937118792337590031339192481782267029426408673751129037055479948527047784444169725239443210251770439264647387916141528248655342104484676402359268115859832431454595778220849982556812497335304168708663430649806162148993292725269612684026134963265623639858824536938167611779490670076522323988141951405719911154561287974686014270973190765391348616657676723862945397092133830766582951678956250304083130778842622543416950338406146043276915874308126180922950231272309158383439498081141165169159946297823507982740996287492141152358487311732635271892323901458119166365940896583855830303988224392155033686818764002528499796101233619957807337872627099123039926772849483702800723867122803468798622582611838533030032752790291489449517920551791599785698627106317160217593827000292170185507463293420525037867292530094528607736206350758432095839758714511601472725349091573010660861988187764719577262810636367957390911964978522495478115488951748942390701908696421732644463787441641686397994779394999929355956600332473811088093093655703681530829412913000721242352294634244580623958418380760052695976754190474907517044145033040460175666459942558959802376880866665269710349399898340727015734720993397286450781485279850887418574449510376683927222910807559530447250448398965004484329368262300712340207700002337863112977871378816997412628357620802090958090788401315070435253316590335916909612093557528626092341455429906543559636297082964786395935770415922336811495993375715731627951641355871515764400140678732823742431141567337049022773024922073141532521385849617390076804980457027796614253528518098563075202917384159824817341178210772013245971486969664641904119823075206058187481306066308865028060263809950618815176545794989558608426548790849236178645184739653819302507262142897932855369707383807647440143149054072536347212808898117500073131021490716536441236885157492154272998274069533551502075239401465387622508532004514273825714272920726676739106427496165727872191237026446237478318733862898626599812078111040551666973627112914399387099858202747176494733875228411639347812670043026628189283345205988625683132005234497362867843645999302342047966085359605750963195274897951483406579280814769571163790943329585138163543214774729648576324520505929274210973051407919608290890945485264221649233200656321512850689888555081908049699847374343730967733793713482544723868562013570486851248971631761430111750217064631928403398498769380209968319735045820281907277118817678980180158284229332302608521187189654016583332053995557619841007094816003472270682847195574569169485986236825752207552080435852611499639724275870870389686564962523580638430580089946753713794811566199247206268279420941325372122589828074784812855071494470736475399569460426597914858612305224835633631614828930964651473970728354572107872726261469068047664080269922421581479819870058639849182141108063898423214131766444964621308747503874186326284893873767073713348383960459318687459609081854163307568267994984193744901932435059373935096872351720128574534881693967062303855846470957995352641680325678711651587055024036973130271113056018084708276520272554260916206535874465454111633045324772353683506517294853657512018158344665013905445789966036000184368610941942325263459496277348724485068383685260362314603529028839026977984131466581619238511773581415319618013534651417683870250033695881790629745286601426043934651446976376765155572794958758096312562901203563655426060421380909574878924863785568250358509189482974414001034210257007738037478775046701104820591989733279946674750152890147004587422650425607264531802061017950753595693710515825324007561038813494651928284550387674068818857563223641103605841298353138600591736814173822562800618669689176183381428058178291271277744319760884260404460258472703249689267484392988082499001080021393378878491752067218817906605187860454213940304781934311418781549780137601425562329260285654655569025907294729648946959235856672934645407785845053303292880275086331785285250889168007300665495847167356642894509709349781713626519440071680547392240474982509576351753602907872503899841900265753118047766167351817793740114217803488395674680896439844709397399532390009362673294560409860733607398250875465498909666805689965762917365453919481752161863473130807013800053544979450051877324619554071681711761195759842051560791903471505134835780063467769184043383149163459268388572057180145687562043728084987247064213071339347201679687697725491942346229590090110833412819749102303997491786869590078550668844716928712225273607644949226517191045503630114900686472500781896626671747060630244128066155860885708799226537619551427856651691574464176107876828677816658841099728847170268647756084697064854338635068663274956904072189800281649129195487174848468068143481604379234518694581793025422201726879053358897241947354015544683288846682093180963630141455785710663713871836731168376178869266247229635117189615253458742929781757875144694374663724729847783834024873285263990202262769179589524631896317042183664523255524272006081454441994314884312936236930427702726850936753893508824197351599693508622315289108674000056346626954548460104327522390540519101106873926580057359689894571059339768545774047637260070237109700293619341441093744687677219788717651419059664409862125061809501854638600274454290171495981856149808391383490424444148862665064644875951299971483155344759243424662467926924603425894490996699018971207422346433680965655761942665549908754428420035972929707738037098635770418374402437097229347046962244426819527157169748689260967115656007599316914978753358331617138665982592850542250591207719340412250998712797141827632816327157254672652371236074419641772910144678884006911359106490471063126931602354554977338912757486945798359583208458617067370099932000347169900895969051927106972226657047642543420138646909614717562327252575013410174713543735684835038126977719458471897568894621429923006456130770548951489020142201639863842675179297355101973602976900800452737957477180568364565895601057420701913623469679069570117723612680416693019067342765516861640254451465611822888023225080870857138501674731584336698264198234553522617006982229671315316049523318083620817083177911948110229003032504347276961845144637629447976059614029565895667134580090881974401338178272350285540064957222563838903269534901320149640507438509416794404358719172065651232598016112327746770596556303303183669620065476730796655332003721358677210881955647233938176848790757381164409538867439705434075389357484225074801060342797529495225121855961251977579385142551270419848329103683799851621814489288261240078914828401608853878049974101607651961349332473662736304403782613383091190344846885032230462428496918325748911751905405982108653888178566046788506865112141350948320984436473812720849652898357909093166754256399431900091987954341996586344926522830449976842433036080875160537397450961350976997682395047377212511283007582108747284412358210931865678278093167448950901175355097768950068372310231381254885642621936125352256491412510614719794851652354610952926631797712440204654965468104627155920531649424464055620706333642051623599366201017043123487173000800927793175748819986623087459028147548291245888956793523608902710508385843944391047416184622008445976170323557815237451558911559456871936452401399937358023350940742189511623507757095993225920128648547738308379467201096842856034236489913107085363226162101413848435381818456379461913563280916525828080754934160331336771529612597368727417104131076838941053141852619739516893465378787323238040433021831904995765018304820172650268320925479356697889633624559322173158914581060747629617793714488592381464713893855749540243508410950924887423711172783155635177654957775409965348882928291994523813069738647466833011705179950789664926363857812936448915957921484248996004010353144115126174706545193620026303441173595845404930036206298026948141744318599483554020501786060266344009506368100777753906619657016970851501311091740453631996387957793115491120614725773953626679454473628553438792197618001886551364143282561900290986089699016500404799219845976999240269373500981297123904696032411006816270116274289498563786796336372717924962571836889896225603527441727212869540373404641454729767282150072945736098597781739093352150356630642547096552772079104601997668062994169900178851537330742221320784703902792056918725860034056497416656106093088014452636727283499099590516124338056556403468941303216797650630791212340170316066736908878653020378221443040370995341550207809315670539385293541389824991102499901435126625124513640008574781551314367989794942019544358596734005010827457200800931570535848969674078434758138858935552235906448900474066724826353468701200837406280593220961349964914624528885680877515259365417417716749559299165148722738865237234076422908635346946879515065401613034349624043500021558490139582520435625162401992396406218334486902437117559972074668482754838727438505137177152226836451793293591566680562409994725276108811111597505662033926902928818553267548725535981535892657662653842968333806074480043766449321266157369939440673891855727407240023693531021822791518291555161840281364753531338510704025177218896467239904583749007175915652035977649105665437427718828747609050519005470261288606574323705859520643933182993945294746583352405750673856837325331613396396089929060902931139952938906801649819495890496767852369077858493797012956429471877988197174999992855132964038886317107715734119622066381157625096643051533761835223126846010401407068439815473015892247779189278378806016276992820525602146327662579528568187354221218362070412353801143761416381017839499467043464069254218049182218568441170065594966458795090254168102235217298989133898656862340712745329073609290352241248321356054416372090195986662660451960804306326925273896539078328753723419357313464694597920748263355194607130222003115103575569084515618808051396495552176488335299881484341740044808488860251751459737880976383305335405128480290933737575431773425637636617581557441716694287925326802829479054496074455476656590128682121734776684893581748858529230738724525365878654565695867219962119595768576065854774171125801996004768426140738002227491561884292093673815165267007353856736665587382038691165702624808845423498951052407916157625631711848588263696254383456207584136157300889281249378589121318643651295773522559361777186435048095472997900180395386133510837118472282952303514420834209040444777169120723911852148699093213659838402938430790508241985977313667069354998171848592997478099295689238849241137145803692148144940889494101946621036567754690756923451345606463555360840161447464092985926707025616654330845431061774421977784224975129864158985406709651167914762535994895312450434691425067625800213238984156919827491896904391261410628821618118904189674025726633277520653873960328255272928793941736769682416420457448868500775055422911814296497161039945564801626066395974190868230577632084676872218376632820239003806526738841673965346109390252522541069813390172891678785293677919114569911761830407467346387921854970162983098449630714398114469147670231671559138314534793255986304895559030941639853632485966528295700798229294293102730656314549804258836891366987190685306792545156297257699187174595843480196792466218994659026289791558217883161581183560805546551602478278314655011829008319095434196508847797922241142895657151421505672777266984344997501869496697323843623080565968118612372258933998817307443819586432814635149897263063963897872134741323490464483729816816012406595858568430189363009254869585249954586613112101770675438603536338873874372823474328429774829638071218743477137128641528716604922009276380402683884628219833436263755456318563352997984852583637755026909058676500757268242192540591284475102500272703719696489629624193077195701867524043096062423679355174282238309563130381840069971762411082288734571166358030701507986059730436818892995271990720424332895025491217481233465008043399627547474506306664009955882017697424803768012245679129300640230010126504108962971151812231708692957425283734999271763336700278501883326780081311209533157503294002498273994465135736732855480579719652141536831602777675315092562597547828861255126693993753728851334378965778581061706940484323637897217619135875135757474042780233830773684123069091553950507035149690848873638605941671588054886829453963261185989785533750613452910341698613748632823222107276884919128168985162166897956261239897932984349136670230882080877563356763773306258447037775966778624777176280976821096963189644615888467799600667047044830438062329798328699941915373035823576732668165706208442392948659556064084505206998622324232788995220364463002379900611982662423784360837085588607217699273059171863387593960495411694745130733298759970208464554771272446765082032442213540144184526029806456062049074813041410884784366329526730812272182097667387003172446253161918181990947909982669871157534946940490274436926987808136559374927494576184642659209532686616870778145406373327330488903049439716545785736203322405372819504216998142552155086170968265795894228523747135908631725009859569660333680375987566845067034152722894923084992128030974692579742696281521950864277818600953580402365798572593247660964245068506022830703435415715231223233391214155139116695538652471192445670709244680364115094439769996393462558816445524927215804415284033042368384732392913842770019617348855637866379875005553808900622949503494223817122209775640287967933049391041175113592171094995687847297459042230062608423926388703285568505076244515568750293280301204713210864327292512882758088327588920038410920813884082455258249369956260117403945848860747777786814960851232647720671617126968037206346264431761717142325681276853094255831580253095255981313265437430511919158152295858786278061849294308118527391896638780906567747354578237948275796378606162190578780388863395461804501558771484689608920374369960394745938963333452659965290728266261917091754950815054786786168157877701979129563839126126848271037806180076076918868042340784634119680225993081243031353682075707564509116440180882392127290463704298887727356968131591061304036813375390277156498362701536207737452647363253940910854369741977554098278840574600374229946675900166427210040278554917330129442512934961992038542463750651760246541836134777688734269801740320249086888443418479817741560643394849782015060890646341252664876468119674443548922623537888175686277404451834092836119156934282218559216624066956885743682164020173317684857903150665739452283677787405343770068255532503741970052093521751701998472683763414028355720616073914101581662930399223993963649228898507168479368783318320354492806951882252533338684465284542643239244592911478872552050252411045208882360045479652428327788342888451875391321831633244606414918193972119554702630022165661162632220854428542335234465450806236280392091858434628947446821504317018893028202978326076976544037256055747310705626055702275122971056734074870823619103794558822391092525060632662824137818606824281228301066453908496449206960483911486767953696414055165403272212281580944157850419522405311854555877995562380332343358083740565207004699118867160126992212333994947078138493755806968175077084556697380796735580042438791340958641914752390288961382474392551913383295684842168228221535283563528213931830006568636940238073510900597117216191815305530753549626699641851891154304103046219443578897119397645283610113875716199225614330507843340145469267935109969623452857848316411666337935584033704057568341150470952014965387287863030467608030506422183022438751785957816124432426015092685103399733048089231429648391542816323164088810385797809934108596180620520442357420303241806489184076793590866130878745705870497879512352142502288790378816804402426317708744708964263695529808979759124306545196995589488771112564264499644075338350188895941716298275261961990559095778295318724107883812758239055567215629831381325519921866938416641504368318834955893581782508749903854057236123889611069111930348842799601420817440157344349068317291446963552112810769399604111208670930852996900004087648056329864307778061546789218505528189329021719980344068525257513434221717043556195770663602302732210203859648070590255524694197081010569844908045370558998233479249164702739828721733995270058579854749719963159964569968871837753510766257900158167840073859466939503200178269089375784436532236401807459639478102086556728631359359914200396399149969522341119747349196933329313539673310262290379852444072584079417637192340266890570323571898866923304637773316502803753368148155183676886724807650315238156213393861005788530969808947566121483053334718039296421800660678780281561859517249567972395885021812356238214957347858082966778402434963129593083114616310793411594307484021036957616954347159635131072017306356019962242721221916333244046273777418643110595863209695931744663687144241842795038336975733599465342588327118150958628692204227375712520548766507523770800944122952037033591250422582047588952241699560362867880158077174048833489750301580972607405599044583317453994789633631648760255801310274688439422851064358694788501928540425755505332923238607305209941940997247570736720026599349611325926992973685118749672718411389836684764513242300592162409528091960806865971199488438994825395948610118189458033482688781661058934166240152728085715776627150722129583916380563248287037258044619915092143213262950043731121771841211196121282051972973681454990732333293214703492805890105765883937680972590325532190118030337890906855068112234953079476815520500558306209452501495944741971566035835873075257438941607411945426058181583765005912273868188307779877454812535914955937454849436026514177990918721365055835913663352311342675388549931993317382218389974580026597743105291150375195615658694434227578110463454472599436823643874988233166197752523701449126794554223955094167577982510167705204717450751327432059113524134628684716855924403487056038352211955995347155133876356467596244586547824101480735866880576557196760093053657523831341644552490689977403751767727749380016344748761181162677614616922624782264127064934962629997221251974182235528757357377404149170213310602473949626818470943278341335091518849373316393436670784251375888602679101111139386168541653306703364696980632658677344231323628352332616435134512406036270068856929134456444093522161512144520270543240487661497871752600547452897018879537934234011326219189759750898134977192368222194391901977801384868016625708552433967182280572854702469670257630582240241508719188557401570665416199580664341606183408780559275055726416163657943247169112882292036421153847327768502851528478410830167582419090039936933819915644235503946345352654089753031561346619576689086763733027876332252751046658301130807652165890000688347818005364636755959292680982746687788530057018265915954766062131384591825377160008892927135569543927358530903069141872131673738105153967132083987186417944007659016041659630864844651041396425348452939622200928911255477171805052280427747612783645642300922008523627397519649047466344620079202706134082817467887014053981317338108250563778629830399247195884697695535898200284026189445384699937908299475903637956582192231692482824175916620769170236581568072691500215221384592243772210543658780968668067295815857728305735907404635864111700040886165448278341227291345689016493674097937688578065411763585252262561843025829308800860809809078731160921066513149541257191256897492183409015824189566868809504023254697536828012758420472834060079000455164257474897585644974115064016748560009635356059279266541114374577109041769723815229105034873731140496461526487687039969242818192731037481352378019630584795949799231538619579036577309670231793215242793309468416203460676570561861713144236183697886824993271509976164934294336728564193085912761206254253275490979381741451446022068374792454992620552809887601279029072656906871474527915128518424139518782707341523680123105305341738425406050500499180992934130804410961459939431732482157210891664480066236341842697051225967730849320598876473337862413082804645256941588057541407069591358876990971175858269275566324764168070983348510133229331262938326337477688169930684001462404554151407905744996946296453504414492796260008116824796633300879373392820573028939510290418188534770187198753140123861494647096967996428258626003183772359732739687926961553176116287843083543026600390966746098613777377339363580771425258121017763103549999107294343007506745560083103213274584046331058843114435852326807912566982971395915339542028310016175741849134969978328232738469878332093230356583052629802414269496035356974906399569055001543239228384876384046591049428909543359448384666171390423524814861885812801278219685449075028075629444339989542905912097419627283324277342303037799509898580257912467918947487489699947577343176702217857704647629098858944585065093197122124211742086550288218245022068346232764215355739544114171429024376153925328844618367732694463844581347570113704446364094351085587480246838989890413813671376464193321534809389342939135645663519522299979724513195482729734514319329252271150647271293890931299673948343144308246162337772423428045713962693766515350761679437853287161839216993315619352194841407167522367622096565867084469345659752471153562407543210299407077370898071405076577767091432899012682474138055797171331638045282234659983396002123892279883398968105307900630308295590317342545320486617694213302483762710876080605782415970170322541427413225680985993280407549777278255313915469899093205531574006658460615490840409008917026884414710655669487612614024476539235321717950528565461804208621232840325791668068321362788558778220591190848442692059096257098119517204970031039744050251205876927880000431530077206847278781538043124020120350674889359084456209069870871316494623952515833657390908769972259337839904115992116386968328467001960392012317925404356373875587020778526579259811002620226225948543868664806999637051639799114430428309490464963769666935868725909013968914519049106244749989015999228308336696060146199158357859667267491724818530331372297302240539763456978684183879345448126823805712912349592157545454225490760969069145869119941710338823080174245800491905292635301999860952405396517814817994644250227072653555377978412772316577070930721049072216261324037569388587620903473588750271862590468621673806740463373784977027730597550544210565213201327048288316963735433168740184289008340937645579089186900589660776474536668900373053921037435866687670837136914393318187678952969950309035725709913667487968959488590099755906913656057042926606553854240843353933120687693697149930599838706655477783767754713350706942542831752774596053130430502107965071868443908987085844713658236764222337131772761793675756599881572300618323957355229744067262827251206813115401927911563276330602946780806372428377373427169920223172633714175439143430718814078591680944049554899925892766489235289677947767945209047418230336419274410401009997419314175392878988137826009530915375933893575138614860391829297697435794031505300402810814008903164072268111998154132548846014230713815652366029476383524733047509626316772647630952759649419491886052444867943385098406917717045492150642012285540778052847305202744452160396640078224413788269376279253376140846819027584307488386136673018577955900563406913453201215927170382144828064862839140788190180825913075498915750963786663803124489248077126776322930855926928057827141249613106648494907980440548361226432652960545731874602324197339128962321355030445908265340559111279021748907194725680511726452415122051585210533705462433274725305528788955351024679214400090482867312154404118179047093056454611419035662987484196118233839268752557774392360939108212232433090374558233656737829648519926212348642691292087749040085886950553240830866896470002002021572890692308237600601078336573293256872130582640818698451068384418051259822078477716601932020180508758395288555356524886288676208882618237295771379813805880505742547598508745579856941329117463180335804356608500852790533068186669133363787548415126394175843194857196012616074182576868884386515078929406639168072455531885970026398793768988825580302951717252572612971298621130664074390798632575885189878072481075003246995393465085608726420295949276170195786438756675889136349536562483125250059062105739278131854255895887758098635674069881110262557140889960478286931328941148110506625999138032871327213531838570636038843801583088005718234010666115145661603841505806617539303369980826426941559161254507042719834323201350351607309436868934555883154483291502870594491242315813340501079146159160750418397233024285105224447940939359836399692765564075172204777905999197821081719199238989574008478115906020942852025549082368533964240476987584755735274192998168973303701672129356383122209332129156937200441517189845834110535682090737090023645476537400186196964444215789202750855956479848697930927148330762185276706312943939676967076983953320243987578370503807323781964160769871833792433051622823075102876797701782054079211634305420994823002228896153821016557664977056012173196148874076411474564174759691487639243180913622286083829583694758267946257595196709062146345630943988158453844421114321157461595674753452936822816388869552965844893424064843872599762248196302033271792216864252058843509634676819125031482173747267295586683274785178204806537496199080579614052734089643377059061427578337504812410278838433519667087192036734076630857729105935309302655344023810334570600187288712649272725894253395672783980891279058703055728936911213584032713115594118972564967203981652648714088060304405884708920569286970205616380726748261493151167444508357567984368365299619672744201904531146644979136139228172530733656525619220321610231778005016524594375200315592332013454858644845549845841616844158291100417247721734037643321291656256654819785046130106149761918182376293584127384889196777274846023266257468513924967798414708027765683282904814709905211660754651708758702410203376510863025439735886722606640959042777479528904115404036065346922026841806339308411731309665210470585592496967883160282367419811554024217652902248398193654931135231793528613893028556960653387714220204634717295444328360354894554644596193533971408354748137303038961711719753288212203160649002939284716597285480415326497010897557511219765302182585083175110468286787633176597471369701609059199991221927831812478726427594708916216712894901626429449428836078381938405917131704042124249448749891677756546610522480663975688330468688333041494362360733964064847807160353474171857744649548935894446376231049694664359709282555902793934844470373517638768219615558229029461376814315625558222770245822015887683041536068672256325093557719363984053058685332061710476412542380659726424359037011879282519582274576271032715496698921891809869600018679663287828639380977652238871264565520228820228593566541410143031676296482611185269979253738946170148724102492884989292752001377206877408457035523917430047239336931661286324146402220460211040968369206103182975268853160454968283388220293648846596058654024313974382681906952554985221117539038554986251122311786373148092115166070330654383976765063487992984393678828095518475034411793127071227982614035086491538060924343316355091039577204425166191809416590694211164766770208564910149734800995445175636705806531200740516483424290359490513849922283430513338508350565072792116355485410529418909219712893413349513430812622528208216752481972667902907354626554473569505802041483031520386839624705180131263430168599857342807337757981670755432368395275432671612528224431168262601429267094864969330435706469745689719240106764489523986091580212519719537216546134814732501711423004200154174313205810054279018781411693118430135378327652768568121067857861820743155530779982028048902745732479793057353988512160443749969835744661861145290684145981492485508502852257519606879161012724547128041575151850099808749893862101553598416916682143994638896121216632284303132662521469796697559689365198677103410799406156645621270653081414713321421979844239251321450471717571749491958030278064008662147172970906938904108754087385631683438352220223474760597223220099807155727656563154870025937785589340433006906392121361362286002279744875331474363112010384722054323450232219643798903032380882433801859065939459465846523020351172114645617229264753907508941900576995545286708173142330941107326931077345885832975669927304791307171873817076457570707346048159823942383538149410251604664058631330429804025412033387191640059641724760698081607346008826114275994804693497323767306941981182099010002167453496645568091639057722244772662519375464961933817088254691890707912946510166506809813500406578023217116582318675901606911000034186305475390947182280097292236415941891898765917598420064033804891609369634374616156773362258997491916199757837789669416609243406599189288317816752102713011227320807552835121903290020417478586969969363668599966321956026748235934831575059046579246110761147706273623683782699229027526315813441262744293258048729181210044064129208493926531538480753491651302302771226671670917399091602847278839237555065952919021221551402743122104087951153527352986028549011121650091882462750237168956726387257629080945966455363744749059772210485902237228172663534708754054544705569247155314183577082081071204102654934187947457287124283594940836223347907981852590301582632347373879943221939961139785297357907188878941292760967545053443073690356152525872621367070983029077896256021625914167639737655746091082460504305769202429168905792789689865902799012446536643913088811652416969612996774190647645345711512820679010638568777717859172177934887252725342260681535749062339871905367737327113626673189603634709821670324594015309096118008383609253561328621142874469371838892870937033125455520176452721376025681704661031837652465559412357150898959292617435835838221739094728202695398103941812995421440858132351487292300607967725848453876739140214602642904909775367890587250130065010311685004105041767623514295607745608409342782005035380108715977944859439580537077269165361346540971889552352915198474477713090482540441211818329006311351356399045751935843622967263695443721944392467427002500541877819003997746333855302040541651254450141221225438603971763546581210320797902133923518005711140233182550664920169277084857320147215674570063742575098139450590056846317199922210399602787243343887796580072980543932110228032689430709162193842553407425283500260660182562188837519857299262125672406301388395686816846544727688620904913810227444199405948950565870576833733407256376209175881819758942795200418133898237438108907950846927987851748868664196145762666277045003075423858040952000185224383728887361082587477846775947779913144791818185270071238345513444696647358668255166557595762338845115619068414257589208688348677226629414644225980304996461822670354672580334771157297291539660723060323307077735798744787949253678005536342398839136244385347948183421018972759129341572365316262425114681226298938810538287834791692694895387165358069245572273613776933555701342806291614044022678973359515877197157113748140507382591501770626847263771869803114654191526238980451357322126700818911175880410418391334332403921776546411586626901972233100602524750504780974703905099472529029884608942822392541312098856399343281835999464824443832253751506895766307924093802303832922172134958786215963827941710223986166528512151759072431393888146426494455926404807040529733889807892887659441320809908834659851358850697374756265568823096612113799083230873016188171807230856885520044000178942969746331668836541351887025804411854958405960489863743551971448517475256152117775704759552689239390416535223808126764110826844516313886677143345119838395766498344153835582451879259455351870137579010139967693587819256446907633167781033372215229182495767836090811246794806089959091919492821441195446654154917571046972620975861416460707880622093071968773848129201214291342368706694610057837232934676070250639057090007028342474130604287444851919913601712034653911912286727968914710241362957680653762060553833030519836292526175185341211317526023735452651916992297327035979729932418592230018119554795578514143526906939156699418873497271203151855931777972740513393930119395377764910254596191550744873497453764331258570455455924262827458246911380090289360435942201522319608522454684122715056649078647500666052516890333989001041470312105156995998459039751370644398060489018374982945346970793002003682801019102219186454947331762526422909020901427290034587454024870919890192942108910840737322939256903234410542140259569976867163086038664445732794103735800305826988944509932237234133841354571084883039385049764088511062884798017151013121633315255765943963182125599348220503885204506663848220130907625480546953540594107733052761897091876496310746508718958957305675288578028857846388655064608122424252661456876746815175083359174396754915888751346399369560439732990578657353828383600954226507141307924502242113608421204727441172774895773677397420338463752692130503896555770848091488464134734118256402278114522389286820715197559376828515479531548353380396545844848909043914838429998227786062994428802704504032894769108040733461963293134932155057919445387944424450638830838758640452079432174899566659335228842108911967550035057878554447059810263423158300478404538698052891959077526810837680795122184425747216726935507070659674522557212947478714423045539522733408195635715625404327835580779536430296180838497964958918473618292906718739321775735793707984114429143773934414682439275583754967824599723528815969821330026243841567271713689116377960918573089377212904032914535608530772284202213193337948122166768438599874045649075334599618501415069742291941789832205750936832968003385649750984805446177269356126092057676494876630871420518723550671994610651995190212930334787218061953346545568007678660740274837856859951334187652088914376189666800717023139765413453945347414192943575069920884683823672135535776856696710868543202288388653326664367780920288253673383945130509206868956911909691712276967216227454922275452673742760485200480686237623185320638195576978455565023338838146714120845021111372224318851248737820855742980830067550060702339052248075611316593172636523308701366530031049799977458290954566816666407511476835764505945775001581504322590319034085524266877737667534398179993829149965505093533799465321456093246617938060806968544451596458842694217951045466624349488621075786036587291807961771542909521355227974544944570966553972462687288140878440141211626121763229896873951053400632736169767040004909361880269918915129429966243778962223768822403767252279001035935315900855341021289230538393523965485161392005403169707150173965928280339687856483390676789600675813428378588008019968728874064939400407103495197055283238103628370647257230042823627611223556810651406477161549423015310401574256416916355626565970944986112243643190934813237621213599256238738309176558749470769322309769835185904588684139223684401059448455878593320998989532597146245341903979235037356907096630338326005303334131376358939935163526741331969340178636652480788952230942240093953185266806388753518259047676962371843523710185357760905726976382061566705087746648744115052282494829243168045461776441792806657404032205981862756224566455959014674966387256062359450404178007289008470805456796267597674592217722088289021929856476734305502372884358609628353727980341580192649853665967455745910098672466516085493171796466841738476146606449423933049584996310663159928628836810484395744413945000188473519912148044763040509857221605677189639470899344722142139287893600965437438057868081546628614499085404801773179396540789011160026873253865079633486429383377733339286147529109277176857235905840154870573302152948718713730508039522570504365536523709805931659237361063773402205019665139931143255720953805068223121004049127946794238153128397753968355622241297574281602486845052937288431145020804699198938732262660415402819095351382954535146111889661503554373447301303618786180122263451618944134209158943224903786837595529411997677306706671382369009713774606619028827808083922691615979838717498160761811847188424179232134754832608365030233283805221012986441504014349417984814143574772748639181406344536898431450082039986513675634262492042785916458823179743611037146446031075230344365944511934916244399811560021202963063875486139940875165533423070461475925750540078086742320508769533554701777787313540682584167022920838851328152002679072826747215135251783440326304790360344463199539851395946453243169440716174737641338367009714435085817047285633925935981148466326686276314739443645123880617061555451660364038189608316997771342382920304207279569048963199458460756956692696231145285792772548827911372635917342224748285656753796871840853818177974473588724418877117510736074050744513722308146879934397036810367382724606064536764078358336496923590319853117022248312871811855432235911155217609862906623582483080818174487393615147292649042604428262401952735899863998916401364068642352993399737006216267966557107514130807200108329590400588425345133079219457877243099261745542407839937766269771830775812713843380462035762090484457985011443079031359670218567241507404532681648580475564568031407172742095111958609574926563278499836667312528492276874008918748766212271836905399423796581865193989924322634017773060578973289539840734819010755447342211157980098650838616335942278637841732190092989141997547154178169000750245291944782149937930630002359037907672006201742965513344302955481687853290675594768681518393545873464285709604252142520454695668711806275203415083565372802879911061592253964666409998691824571654738822615435079060582874012043873276183331702117224091493703094857615803758608673436856350687900962340111775777219492856893841403571318308297367761603799888850523953457145938872913094248173084272386961924513816936260238157120979861182962022814255192692838103097234607156262268124799836156816199502034064341792369732031206455625182222472571968207033477795971258812144212799285193314055476670232888791617330931953414961182647404822168800310660477222319461506863060459183239337289272567763882323105125245375041911741753399051797079905793299121897696411516682539925566394896553525808903596474085389957703889148145851155334390161981952553079151367029969291182724669310398800696520469590871990878963799076797003529876562196377767580094618815490245960628900265101211103692608424204832340090736559658706242712775737284104560711862560777244389181875703000734385489430928735967994993650919658828345107117851304633568434510955810603948863953074140601985794508986996813859111637816566231136766690840647305658649205820708031407592346652921372169791978242548337671211709855261659713004462076322475903838842185310640574159236327483081001953646496776616811189238482822020974050686336639093440095850865586835474002234338296876708442350668172863498921205341690665822229314570284436798118687264716034493344951176176733233796498827585047494046377884441901096123050827999026612012447414570830367338252410347765777411387303366537472968056502905887604348373895623359475716598461440127432170346252857075081462708893140963310336664130689828822580486538192325505302343706310599899406452925012991735530762695760610802628525262095043265422060941178557244036709791495520995011062354986863553314018463736471862176479678566208588204316179009569151017766343860980602439205350623844563589813296148622889848906521777603778061112438437148790543104777276284457439057050545248277253893773373666074135492558045999314936482120260835703674532325262432396603456443837615476265978059987016802316394478319942702331931703616348130064853542970364479952190174403368314979315022528010552820574122807980326223610767040608484685006754233267703859674083105743107852541439902328366127164374057934335509710775956174750951297715780185136388020552595276750299585438602831051386328895485509192389254914690432590255250036783933613417956883937735306532498167314685144222458697410609590012834011148422571687533480214113856267369430309777130738121658901015607536618874068264328754452580844990903659220942368423049011249447925624699914399797429928709555256702783977558754692524763803362225534818641906487209756296050282045410821916174170665459108789222119183433508757821560235698845709727883052191552878092726953688334051518240787581062401712745350554906476080825100851539245694127685227925046850638671972278946619478474196072952487314063437183082991207329186759404879586559346518116346044679690404212994380387269464924257577943506672318702107289395419431704313070435215310494502943533424278768460486483370596790785822819688560041122639674024717362304936474298693764404986611591929464806514396196811428637885668613284573245136117824778342770904356480040957258188844216654757761220763671488993884794221865359752882433053708685838554841689252382691226438386311104248595726715542242848351009004502856297032230906664471467115076377338464230864951909020080832577233520259008415421953258042294492290617621043531875087137529075512683124142365297190973537484368620854463360779703003676477528260242483827814430201142948117124958436829975232863097377728441737695548767667085285515910924659340085988775082293393028319227101799477916273436238288690732831237616073551960941163909283297469746611052771803723764288184122584229534931928224652571247768079229557222740060570870243492414209135667698708605807628612873668985084679105689612004700858567025573373424022121019372805078655014229181082542548673289474642850614956591716082275753777611582203289319329183664489241142169421778380128709478893690294360189087038473093100664941989148456894929767528782868313548235384488030250580267277465387697426710266649672675080741462557216170185523863987310122848176134654042106123466404580479727242426720649498706787552977403604167190784134583155591892687270650276477156912239110123675239920004089720844083111290089839530936828577132717731626859209683413926012706434283105874710161098680518552766574653178332846862629698097687900159380240981694201805743561016637096289938004370396386731373479893881449511103763074539183765717288823547993646562307833091282776669992580523568007223856175900724322532604093433649384183868477850849842273957096031321529702504580328114714411095148431151206088320797887978268903387507515616553195968717924919810080306473669557825409019373256695238905188906690664007289448453393189285354343341468555664361252706286521732420105398661500135663259559285140041979358826849191838271822031301728589332220901732961599970191393495058483900640594374355313036524477029587199049159007160163716392727976208641194542523457716537564748406177278231894477779665589475529547981197637185213653001482230733079700301918310011234709590680659813212884549083718911772847502280545590413917936505187138300044770800404500624371957913003727412547465691448992422954764590103286524376717641210325191026046885310300664859552480393903470180823569507478937861097337882187661931463749401706796699586355237233199913316615723081518297828293708711922360645431855661494139759177778788991561272158138547655299906884349892759836983986665332984833761563003131017244614826603458158633874636509046672486926173526330311335632899280006178399482766730068412555876104905400071370737398485074874498294166417549176966567543797915889560313178943250414498083007140354296124123632339570918486170539443722896380071120085827290509906816515269736702206668079873890311555795555400185931538552217519749684796022281459327647466187114005521522271661630851656777922386966366550586962925854402236602226269110997840089221602234289859239509328223071283952671285139955701136579871163979492047318265063046800180087819134989326810227379406146228894993485608501691898720076586903264287106704620141929325630275737831851707425623343166562104106173563211703084367667310523607342832538669078837405057923493478378633373157337513344710457272293465628950675703640833200745903207477370971056528670479534350370853713233178409047218635280476449439367134248769422269739021947427664129081684082724458185561272266409073289489475545430541481647997920410429480700425858191962085251682288619060749842071291282131937805283331188390373017761234926653368004646612573039594929295917401581023989940390249503784610617486048734503941147624164776791588503681272900830278898576621856500827190500603724389831329937795284928915943142433741657017468553833329424159559028122788263127201319333547967787658490896540912930925932291525253022323831015001427974979586324533063976967770670925258246579505055087569636273448132809998475976829886855084180753760056673716316599973098844703068471335116660265677662525238029064239077271248637672006137105207237305117822597444840809351841371023444023026437257496949916456956642282344093361326419748600350101358476792572494154251938523542122103814512862435117854356465682011091677286020933553144702233345795910053364063833695381407004280673303255303145639077062032954498210075891219744297394144908643751287192141173288014784933998437601810048214660855964911703327298720635746268910065787217333285575754407501011384780021335758069213489493650829538271200607970047645330598178722923639146555954993984895264456639516595065452123970677018995946824357459257481106882784973928947773489251036666820137710943171254800659056977998149192984220437997904139368435133709055579081539220202721782937714410707402736436425223694283788225614372215737184000581416399833460384161986161880455073346757071480824971908945199962836159117088061846234446927622807735618877213364232687317707868266961645876903364047521758420401734205058056296925704867970204748907703786245790499473164087157611352376080223615437337222516239454071305518642932677001549992427175834281635730968766080174666904055461790234590398153033757454922673409707022465255028480141980394350034465592618857702691327941529642654348268045736853659734884456566445690780097709010458175285330482172445028509367322570064028491914819798941742020386503717323488602636496960318781191217821806318907050701187153752551968568992358809759257215306189588510856090259973588681139217026887755284010623933117545495214650031031871418075438614371202902408358935279527424321911015621324008102455259823809779530487456576616013779485557742637739806208693638649650470564931134928584462498661083678492888013418224618237960054104166161926885685532825594271368912977485173579886154741958949393034766765763053132384589706166790234487423725668746664588219662392123910394645559318344738477327813005584655547460220800977603494567482320568469039036065198710060064336257527640602413619144628893533477953756365178210011136420109377008628457363778835917022796310881601586024564521909128636974805153089118961333803160395272284802285549649802539035866539772951694372103799693892703486509014877843658867038956021763577114262440249236738431716375252263334371666444915865159095380503593010170512780233705947204708380750224747419098152960,
  best_state := some { pos := { x := 12, y := 12 }, dir := Day17.Direction.South, steps := 3 },
  best_loss := 108 }

/-- The search state after `2048` bounded iterations of the Small search on `city13`. -/
def stS2 : SearchSt :=
{ open_set := (12,
               [[],
                [{ pos := { x := 4, y := 7 }, dir := Day17.Direction.North, steps := 1 },
                 { pos := { x := 2, y := 9 }, dir := Day17.Direction.West, steps := 1 }],
                [{ pos := { x := 2, y := 8 }, dir := Day17.Direction.West, steps := 1 }],
                [{ pos := { x := 6, y := 3 }, dir := Day17.Direction.North, steps := 2 },
                 { pos := { x := 3, y := 6 }, dir := Day17.Direction.North, steps := 2 },
                 { pos := { x := 2, y := 7 }, dir := Day17.Direction.West, steps := 1 },
                 { pos := { x := 2, y := 7 }, dir := Day17.Direction.North, steps := 1 },
                 { pos := { x := 1, y := 8 }, dir := Day17.Direction.West, steps := 3 },
                 { pos := { x := 1, y := 8 }, dir := Day17.Direction.West, steps := 2 },
                 { pos := { x := 0, y := 9 }, dir := Day17.Direction.North, steps := 1 },
                 { pos := { x := 2, y := 7 }, dir := Day17.Direction.North, steps := 2 },
                 { pos := { x := 5, y := 4 }, dir := Day17.Direction.North, steps := 2 },
                 { pos := { x := 0, y := 9 }, dir := Day17.Direction.West, steps := 3 },
                 { pos := { x := 1, y := 8 }, dir := Day17.Direction.West, steps := 1 },
                 { pos := { x := 0, y := 9 }, dir := Day17.Direction.West, steps := 2 }],
                [{ pos := { x := 7, y := 1 }, dir := Day17.Direction.North, steps := 1 },
                 { pos := { x := 5, y := 3 }, dir := Day17.Direction.West, steps := 1 },
                 { pos := { x := 8, y := 0 }, dir := Day17.Direction.North, steps := 2 },
                 { pos := { x := 7, y := 1 }, dir := Day17.Direction.West, steps := 1 },
                 { pos := { x := 6, y := 2 }, dir := Day17.Direction.North, steps := 1 },
                 { pos := { x := 5, y := 3 }, dir := Day17.Direction.West, steps := 2 },
                 { pos := { x := 8, y := 0 }, dir := Day17.Direction.West, steps := 1 },
                 { pos := { x := 8, y := 0 }, dir := Day17.Direction.North, steps := 1 },
                 { pos := { x := 7, y := 1 }, dir := Day17.Direction.West, steps := 2 },
                 { pos := { x := 7, y := 1 }, dir := Day17.Direction.North, steps := 2 },
                 { pos := { x := 6, y := 2 }, dir := Day17.Direction.West, steps := 1 },
                 { pos := { x := 5, y := 3 }, dir := Day17.Direction.West, steps := 3 },
                 { pos := { x := 8, y := 0 }, dir := Day17.Direction.North, steps := 3 },
                 { pos := { x := 6, y := 2 }, dir := Day17.Direction.West, steps := 2 },
                 { pos := { x := 8, y := 0 }, dir := Day17.Direction.West, steps := 2 },
                 { pos := { x := 7, y := 1 }, dir := Day17.Direction.West, steps := 3 },
                 { pos := { x := 7, y := 1 }, dir := Day17.Direction.North, steps := 3 },
                 { pos := { x := 6, y := 2 }, dir := Day17.Direction.North, steps := 2 },
                 { pos := { x := 8, y := 0 }, dir := Day17.Direction.West, steps := 3 },
                 { pos := { x := 6, y := 2 }, dir := Day17.Direction.West, steps := 3 },
                 { pos := { x := 5, y := 3 }, dir := Day17.Direction.North, steps := 1 },
                 { pos := { x := 4, y := 4 }, dir := Day17.Direction.West, steps := 3 },
                 { pos := { x := 6, y := 2 }, dir := Day17.Direction.North, steps := 3 },
                 { pos := { x := 4, y := 4 }, dir := Day17.Direction.West, steps := 2 },
                 { pos := { x := 5, y := 3 }, dir := Day17.Direction.North, steps := 2 },
                 { pos := { x := 4, y := 4 }, dir := Day17.Direction.West, steps := 1 },
                 { pos := { x := 4, y := 4 }, dir := Day17.Direction.North, steps := 1 },
                 { pos := { x := 3, y := 5 }, dir := Day17.Direction.West, steps := 3 },
                 { pos := { x := 5, y := 3 }, dir := Day17.Direction.North, steps := 3 },
                 { pos := { x := 3, y := 5 }, dir := Day17.Direction.West, steps := 2 },
                 { pos := { x := 4, y := 4 }, dir := Day17.Direction.North, steps := 2 },
                 { pos := { x := 3, y := 5 }, dir := Day17.Direction.West, steps := 1 },
                 { pos := { x := 3, y := 5 }, dir := Day17.Direction.North, steps := 1 },
                 { pos := { x := 2, y := 6 }, dir := Day17.Direction.West, steps := 3 },
                 { pos := { x := 2, y := 6 }, dir := Day17.Direction.North, steps := 1 },
                 { pos := { x := 1, y := 7 }, dir := Day17.Direction.West, steps := 3 },
                 { pos := { x := 4, y := 4 }, dir := Day17.Direction.North, steps := 3 },
                 { pos := { x := 3, y := 5 }, dir := Day17.Direction.North, steps := 2 },
                 { pos := { x := 2, y := 6 }, dir := Day17.Direction.West, steps := 1 },
                 { pos := { x := 2, y := 6 }, dir := Day17.Direction.West, steps := 2 }],
                [{ pos := { x := 5, y := 2 }, dir := Day17.Direction.South, steps := 1 },
                 { pos := { x := 5, y := 2 }, dir := Day17.Direction.West, steps := 1 }],
                [{ pos := { x := 4, y := 2 }, dir := Day17.Direction.South, steps := 1 },
                 { pos := { x := 6, y := 0 }, dir := Day17.Direction.North, steps := 1 }],
                [{ pos := { x := 3, y := 2 }, dir := Day17.Direction.South, steps := 2 },
                 { pos := { x := 5, y := 0 }, dir := Day17.Direction.North, steps := 1 }],
                [{ pos := { x := 4, y := 0 }, dir := Day17.Direction.North, steps := 1 }],
                [{ pos := { x := 2, y := 1 }, dir := Day17.Direction.South, steps := 1 },
                 { pos := { x := 2, y := 1 }, dir := Day17.Direction.West, steps := 1 }],
                [{ pos := { x := 1, y := 1 }, dir := Day17.Direction.South, steps := 1 }],
                [{ pos := { x := 0, y := 1 }, dir := Day17.Direction.South, steps := 1 }]]),
  queued := 267964430139810746031622107805860770360709280357573738494840125475009406821213854947099698710187234678168967199445555640660618166472523362753016407617881572752605182468562469950309139820416477840239654747123110005504777849526097294342697232382553114083775569460519262234214011112188370818040878626374684433003432051026882428626844920300193087314001599710468747049496290756273963299212728101628207922636185992968879132215571023105329415243667466545271191949925174730738045455803299949666262320086731016507054841767525947877893579218742681956514105404399911304132416175912508379367764360632142486284898371893190248267295238721633713370222228960536009328707047948949194050266824936353632735390989995206124008440450929024305409275420135063636102770347810161896203801362159217091543831221858693727559959495593755604968873747500408316860490976453639557237343405771863242205337817038464891950728106315105389864910503898849403936538161690204818911099590292084105209751622056812751147090645199739326016753896521766300951731009021765774383727518853497340685092615620345417037812229712678353932855974858221102153410060917699677487340461973422919264797851656469601845172068852294133525539347640427197474912293425200280835627914156794310646255136812145030946593335479192606948420669539580348218102562712350381731519809506498560097230575997077746434028308010598365439234506665029511937500533913033757185072358135203664726720468023934338458754746389499126795881306707381893625093839442819324186257437111199013192263458423112269024390757886435270430365852940792967701036281105808981968503200951331454976,
  came_from := 20595207532532843191719023933686968049796819840328446475877216909317635688609412929572937259226344538976135730399603448794815080679663047835435428345829003293164062888426111458106332436291558770971099591466241905498952970890331091642132552475647250103497667051543283204264333232867673016283515277566135256261407706126329927086721865047373544994247783210843924100681683802651442684313134646836574522001454766622022887233052751595552051361829369016011497654683188440578008021193072634340903348968702027709986083560393684174614798048244502024087456035696586891842291032672987574542366952069053174273103191396970332183461606147407864427641504619423160106194256140365496660196995052748208056008673361839940951837759375299805424022008949471559117265275364981460064637858601258865184172704757172504825559881587563921112584517287288003796502289584792672230432609437595830725786533358517187924974149078866348307239974106888707948111243413087562599986904284686868280316490686301808652862820174906233654229188810427614350425619929061901398181058564543518738183203840263757162530383550523702178819418361377480079764351392236014718735651870711107035721357328319217570178621931466785236525365792637398671866593657735694740281892702309801835701424665950289346072699968993505973598754258551666120308113901450863910159017903769687682230106276609930565750931392106749659869407811350532614447254227386275432290935773524239591897706652904776639428608131983247797286306357864517524592733877120206237738140490084646318796438446719634569643788836137210256139104513874749121984684996289229029364923788861313322558004852559298893050579827073859203705600722912432438617621208830624319000704098458467343598448992108049417761981323954008959735691450028266624050428299207636051714831863321607344582943290256829183073965210968906195704762917370466161587544895324850549005439114827544419181135770150578515569702520985211593516346016268569698256535594277115765788901007505736109780745069635068617384200576442522185701524670384065269090609510733096678875240711733430728259578891128259159873315346085797445186382561967738580346647247258415117152908914158061352403401070577640964563447702191404055756278470205783685595812312723705507470317170195349325691863883221851529106717160042739935696080824582954468661036452723291066404460910383828615650599763550467397483102379756956788031541792580733518393192208666362787652348801060587429837192909859391066342823320511206804544802649910832776263785820631800534830787407367016376375870239932623345287549055878451037822467415050227205197326035126858087147715745285990376202779630078851453582993620722254450249900255683823585068616890546948815274836154983778851874965719100443186001522835915826606895906096733114409941068957127691632092086417458400760673508558632463826868431641129620826087330071834517408448825632536616979045748338166690028254625562211488031090009385919227774784239435087451546526239060976172457471283796096046319153874051667909827427389808778948956371818397149630808981484449398304405054431310330514207552825134709263121444674057620222785949834085705185589135577343513410676589820836987865592706282574154374115706997115823481209323425754102238611197122510495912401129646748944744033776504159508742247087543700280494128440585057046169685082868253300354897765610893856512211880496054903658272824023638295384370494880216369888925150309958611308963379734560510113956619946147833956064283799624311407967116543748644475999848366732720962602440386773725639498581051268770248262788194551355943247631161138753638529862777138775621974675183391903977232688957969076015194970801496781782258250700387183181932533655118543846675752907862404135905378815939866009384110595758603663001368339264284406478559664329227655559600578657394515616150810668515102187032445867257302228104686133496040071687895135222113459439583598748160534444232579177162562573694450117844233921377020806744242705416043719535650475192082530492294182459362401202432068443480235201547808998182719401004139433587895633163990217032323142730453971120088219514855299327428375543737876459512517200688667959985717423108441698906373912859493859025337471339485816046918719889938894244468028859966452892744404174752959572133299133560232671547525806673961029898062064434052717863384820358931808400784312258566341879988007251567289019212825930474703675844254782295848197404269220779655620421662474232662541495040814970332927801754071986249185433814663770963031286523283189879600498872791522048837432215881988732902112206209580593952690037745047963802184791691553626267263407130196283425940316555593062833674201281495534203247877013519789733830063313944764510965379908021056633956945064397894685331756957660239050121497516198308754531139711157365670115129698794795140157777033910253525629869661927491112154786987071701096583675123775661820075445779572556326526198361842394410118973582991567681489972417440105844145286626461987659781153333259442653505640300595867307099319891890458280599914164508656678237094599601400733401841526938634373546449575089546874430018783790992664770005601980874942037355158799722330850229119517946313832313186789861944542546357251448750045996297830845321295806738428335363644539767121409703644078791030614506760422870441943841757706502010948357192786210678636456961704904209043927428676141979545145872994744959942245722390949457180202410000388456529032234549604524534338559606661726341149757481575983075469355881695693863688486470519890384594353705236508377664565525302535375218113281856915043463370298199459896357648619459009701669030812182367969910388222578319526221802973536541682432539319592307769753633140632673728422849930084186802179701114223156040417981197288058370850328691795344147098056528328191733116789570713467048206709993968404599379530039853412695585752854140893530048109251890943039022638401408850332936139037464637549151956674534789558745870402074616223924862006430222254238092827197210818922851616122750474226830942246961116001397409023239091233530519224962237880992944928602947261047020034445098843175612399708026531677565379536390697326298472524427494478114998093881388663463523777162607722022804728930823668074385350015323892055088506091095941594328759267539089830252712236017361518851057424698525791203480312189950954618495538711548211863226983335267769609585940247847998595288387127929436532286967779839291261078163800336196257538491170061605410631692368509248269061687403790520035310293647369468357530792744400993670996725882749299692547508349804657201765649613116114651441901451003634244594574855880809359785259464480106518606670529967863711929348137386293080832981821064783898235193843301804781733508833703647894830091510048012295767278618636582340770226152637419549629480162243702170633373694564420065049624644230563555145727518926133388628530684841574972124197435355901485429833554355734802309402507800045500042349721678367987144059661557338318708965389681302152673986713733135556776305029492690318600785992597761491603475098026783873437811869842071887793802820221314229251727736557189683765818635804727232186391298697298574204974770341552395834243520937346199684688835311291175705579456119715051036275188285247921736698559680786719756418473370255947611744836706581702817952480164127254157200349615159055357596750209849730968596459905086582124008032844209739612654446270399902438398011248769337362740291843931018502152934380801382115972541966469815722667609258533906943860697362970117419309773731845148205638329935544679832460075786687068422708780904433611061076372325696765680289518989816691693384101819920100101246166983163178869420926209126276553277276195682298793550297587273817269148888203001077099421704272305365555077358410418690418642944087141402050058202378531385142781942242543378136145680578470427674030093000043972039116719789868521770945926624739941101006929305722430031973267810155234268783470712479758402121876254601655229131228054620185918490225564785015183393663806910421739344683730929829361114744282336928530240140395484838392347318528006374728742123790108934793586178872320295188001191133406637386750054034734731198954728964397352130864724575657452596185449820639870287921660863084988230254485984641473590240763388111533758330307053455859445604540397229926156933598167617756022914548491832092684362858905393387266173855538657903093340360011893763248498365569627546338153071881356929719690601633573330701854252021567616342876614893817526015875375656644879679049151013535680578438523098762740387780680290277981503100837618398446912312407843843652942780337090035434788651077387149010707059415681879181307773364457733549302684754860227379338102592352266707545288630147383802889709447238198787427446195692520664127458147183240424369037241128312140612690917903117426863153693175034472899531113588361672465627163407222909065063643371466696260854093816718938013700775164305069741099661824894847320154473572016047273359130596166794328967361730889455684295336768476135445164617724036891873244675950180014178501602558609416122529654936646681743639605502943094470417456069546684442507111643441961161687261341248480081105205698739326861953448774625404588766440965026539389795445948086093648198523309285248577942751737716324366409117087997422633226801708459850780862335471594132761422324214612007613348385285893642706869960884003479368854599730747861894789899547685685616740046656321452543073792072550532346989416675406949547762678796477136596202633681078249749315903287777097522996524066160519509521865940104283384348819019276741934895225165554283898468479770942581823387539484714124376735549153113630960014928742817886298951724158263511228386831480894496053629195495807290624164904754255484235257940114438946269984951541208067438503696355926990741019776443681244313510003102546228069964658581448554393441668624408318229068884103330150887501390834781183945912097669358873293530250249246426989425928102325052530044477937106719206779133258975200724040450400307823934378326749938589317871732057355280118675482275250180776687985740081387610081918397798362513179518036784788621918332915401265856019881937035936546271937465416181027981691563033310518494765773617351674427043790346347042321303037720051669321814462441906117074332538964569439877055638735073813816208089715100983950626374328819685737237846366485056451791006511018283943878817903158451123940846169295221583878915895089836018004555320154410855274208056324214824166093079835906701722073040622934963491510394328679102602014862572523951560741932798294943623508311932621034202453077373291416108424349858856825342615402139754930509957660705735261556349139892520639994241982435965278528373996291955847236998991448258333744737366140368906913053039680436078780176476395199555774561670057724116473241842665086631000823761458716099507562099210861367634567460231772256243590469023559094559340383116344255647265627031211529012742682339777386468373322014389080395889827064544780926848077247764769039735244570791921226664496560518164988484387443679292546155896590705051805634777744984463420184324454060532866476861177581084840443360089858288228386714769788157737261602973436458660700516323009968357834332594579184594274571551127473978500993816355336934146420241239897652378323749425530422244692469713798227733662842082022502824892509961227308133500069274665531878363891367134485103556853766923861215262906270806107246663034726396809698937554826614400868230438904637283251382257610917123303617464374170339191295369877748004536973708354309191017818286603046759430900744301446395667854210022967625208971257120785176384428372754335520721281817046799766350869007026936264411356103067658190735265695242644454139655421129047754629697444420182098271361297415860178497625468269748456518463095465798144227839374343335524321408306024004084270066832461056377458591901235788729046695138178000218315744855672485040302978788824710078976204464135790223582747987946132030991565627081624176497596537244346969070975572500537019333119896002046246908763724363089320741300201729479832466111782755175815029750349816178975510837899972293370012740821356643316800445942461649883381902600290786555071826538564470137500229250353654075405000411698923959007948513118564884135089812489235469131534226219756465449949333842676290356402828726765560872916623011921979152212270320068417780092659111980638720518244411701754241170678335888739019033427767557872466715014322691684931675254998205263300911750947526496740374305744737716409743709745001066236058611641732978195553799874389600258014637147102884299204170867784488228767712736431883829700402786555911010913751616520235936680574953470417635597123046276155466411775421526933319936723623388878459146633831071238080422054650287781282271073345189613520746632797354850831817865592129021124294941131133308177477562217900959542928468547878949463206788862432681586521772991116328681265937172889545118226866181065568519928845332552243267710798205758819174411880630780646431750411963241963361636013795226643211119903590711288592139362784419796191485312679232919557064378124797210176919786916071941328660264850699679874221838634293224692586082545522497522382012065814328594584132080486447300636960357942289376153257774706672147347243156679321758762859070341083848232646591550192474306877022419796010286923117152535168346131868099414159995010807582503091723460562978293403424315023054464312579721390014834713621927112805289412359182498801377688427200882295224740175953550521818435338328551792896452147978924434868433239434925482025639736668622811748588844474631141431737238005048776102093675202211144798046167134144643308898567310227581191146602639819554108349108979158285752455512565234496244391905434795722639271850571374008260586844062314654275971748329139561158535444477612053405157761258202267661912738174707144703803674646313618960403996589543236328313981563003540697997742030616249121980065370258718203891405350746968622139448591940702169475238863214526821414188879149758096217454907353505768757961370104718262784345075410714620888747176789029133696178539867977847177794515584986229880617702199460200868906940224911173253866469991552639205286983291238333175545310431656593804884981154797679624449178561713763602342605836611344973081391609310055938277226051829900612827403832452122106187692678941539808406500098849140442150448297343171192771473111234264998926266907153318193856052747095336238386474285051284091708882303581273957521470735217708576747729077621190707770233561093372561527280131794520582215227460948310445156339489098807471150486422687119348952373042257115514593442046775023750575058324859572963700433168929716774655020842841950236288663473223104325920317149946311193655518451057405407499123032007625124793450614597290636403613857538524832828510011042588046216198076945377970938576427683523362532202371857027614460467297117665809670218101406030796554121589007101498596757444351105117163099691252956946575918141803796297862996879677747826770072937553773048849903907722695846776850220264392650826090062919010130066171696925896821094602776559159874013143229610649963200366840782250786901790410415652601135064276284543177351392991334201633123985231175883619530664277951149418930304074689172639712586576542699048551733237180757524043212714773375652926485584621767232168789116994536061628530173006116459321365455931781347884063829347390347273464087905284032948196954208325221159599484035927400990927291328796617036604705791187717669473436539135997156640438932299686250229518099632087497187584048235154668845736854947204498613301240458687673528781692845204138254113375572022873903782565404202555259045042981276354506545416634662265558798635855527139368100488803636528875537709715217133533132373730402344687581176453923987545702820979168134719758230028954783460846873946024474240556655018537890241860487971573043920695334839930697336811155864314273492043419281508651475279009300672946178958983595121257012099757993938216544456532459890783662154322387810530262588461189765377532222865723480200573563809764870517264861068669334591977644555422678496341861846225107882488700544837001370369674157367191496205353560963154269628780945107779248382200287709951423484886540940796235093364500459119871264143152887676656932761223915391067355700474497941552415260581540145483360817107816626558799554318138024727378808623859706096862469273130613436262739786791331190364642937013735907814931293244700589123269803728766819250219410517293693090408012028524157308201793797091420512294043783450582532225610728911517174613558133089746924181297909312312888901474450547281083383464672828786308574888392561142950383969830093673523243347867051808069903631732906680400770287341641637239787479005549490620992531315421726945304929820127281907410125529449566036471243310838489640203535733957635790806158858846567244911563745330270602661192083687129978136915321529477953877664559787274661062861514761485615558431866329695062839934569807810617691862004499602882644150345719453075716912373472244177334681662374938446380597002091238234085215653178635011956894595573897467688813590289401682214876802532972844260753613236779772854498294680799785790026321741041993592901916187645606530434452164963850467339068983113753126664588853991453468169876698415394989144117642881809680511354119288086720684252998127479767527700444971782815694629478214019584313505901154130126815716790490675413769754052472331505969287496819623669705765744040824549074282383132778776363646288067947373705979169725770157387809661298605827942312655985189804616273262768043684936329132023818336521375942119765786988706300907153811632763496677198823794038783150767158624916136799065657567832612867782720140190051673968334741598510761674650008762539563019279165718366086983770141897012647531750832632193634798321356425453171980930873504880022326098364669521787208486066755720082306719544289599763891350852888337167949930445525477978992697531594739141542247283046592498768042605403315432872303836641050015777056742344187798115458728199645560832,
  losses := 50201578142875934096926620839175890693543788812973986263409162885818443218912939626721798969743181770193096379162769922995184477000810119832960372120483036126814172777560747673192478614988663951845093058184901062749746206135886030816560497955093985763387214530288318970201658447023997496598318127468168071564265781661347131457065818927557183197137501661433797544376123744997402653066025565165323685767664629484682684270979862252693070407152842560125704598438473077319243875593078843434859210078073706078237309495096953095644144554820366065769949903174223349770207420959100655334441309565962070030714892377435954852756726012731420358411201470467045615524157286889911337804905394375413855853257390416153326408053218739087008736345501511721912272826548156266582151946527264240954743537819196128743638856770079738720897867318680778597672444923408913896917984626432858213870661548162140150589423417411649559593954176238470461088261294486277082886713408177985158921147069030632138313895669619121226801506790524958201476426330545813959281853194185068181126811690859915467064867408103018589375159080406892691518408303379628615393537056783160293739173125908979562751500745340707770844400263800061891445494944537005682981994506406006808922542056351094353777583492939540113419245878409964440479182959320411373236122687779164734808582188137511726957824610533251425556398830439860062731397357658276641190092771002340230237907825975093661858509544180507740254734393418964750378629548504327848493131743476236704719208922137836896246333687553422198188614598159854630130427479964660126449291479483754444402095809408606264040489669847848050741166152847604799054346156878780821034542135172896340056156486977033606645031696297963019285136272232501515869917378938984437566262446841748264301177503159333601916510952017689190517546927907878420403824221889809335004281967834247272508008317155680482963713252826489397821997528890669690933768501436947702768106493768394065196151838130737137741976327548159740180041464354079095977448568129741709411466250245513590511256964720125100515937869058280369123363057753757299830662082567747118917418660104354964026788025669906078903461015515466099443714402208666591055760613572775925753197672285910234174649709802465840211412758735171201637500935520500119783930785476437678655491983599843324812586849851414178823351782809816635013561675309814249608763661022316670365019202353201578331887021309008701404959521594272059041912070157370860599734256666581076789836639348758171646611081990338253630075521123384962211217236011284277490614231369302219510124034784220155807820391161027336057598200333317292214666760310243976174968710179019757887053688695504188911279084657212538317411186829055910889926307899223299900139931078334774059237685569723053841940207141209859909471542195650237751873974665700487231593423167260954486116691606483849695254194343792731095339952685661366665952878712468582741141353867847616016115183271026720029609197228447613172342907100868800347172791291958198075992529355205720032917319778578705344301449728881206629465188196712024827600128570187136366058605071819076189261418568636955193506178657502237903492588778046386992152202944867382894472050378590224548194389495123214160359539012960018324984809211994476233733065221606888585663768018897452757808677539632383087038373069245180228445237976972894874894137639103403360369809499112693912470176196148861879188803924545639274999834643919447161518899329903462226682049622371199193794536617719125933228666956129050981081100382321842043421769252602660710600843337130650721532704481163838506318879976010931221949421215152835309401458714841546993043519943104210368357713692067365365489676261318518197032718092029770937133223135176089936827986904801791178695174671286312737878019381857007203206245265174567524325216840822845821587879020259356069349263330673213121417203767220850492570158787509361103477262086404941673554082421646989407222942914370838833451465768467233657487884738428766148801941649929417629830313815578347736993868300567323112590928863063263448351069092130522794281550716056142914732839008168866758357837330217318569828112498459419004672802797342133994424604412242371688558273531982594635567155531107844616488482171472336420468394604426334019629764130185428666935344241784494801504605724618415193981899954506696148910515048043852040390495430643150640441546830779151046159371632639028574991426397770513260721816448250582019102315383092331050855282321315678291726430895937484847513088303580710823645981455177772629217182045959396580897886617906545812696425691267879650951127651909359090470943451788018179901250065500149995606399047859196710479717259240187571068314407551756786545605716381715649051947581580985311420053285263180779393282410176147088931647023742562279397536938986785255916723936129223435551397849955918985013782284614066463005918255047596865402959374398309861408810631611880017227304378469643506078849651627656729433392766251411274134101565703186371625075157818536723956407276324806005046764101086600320015177749128036332327438823746543125424375542731717342947785161621820947217676314708075887926065831394931922069210361142688968913549955018887302962842258582759163453459982894071469507507251181151855793272291305240187757256470489836532666664378133084295815597337844958893280700534588272475809303526149651920052240624286935525717975834805737483092830196429119173846604313239485455538488793098361389692934531280581816805809292786363986234939579492904473645372525308432873501177705774510905595229851405890777469113746918013151594057056230732649599087480687586201835506191902747031642294873869703015466093661315126639012491606737847058472800021729344070630018147950039421163720659952761909159999158006213028364877040289829901563445594973682419152998624037808948930417032148498155331727143300073689176627148081552246358222956168621255479216896788573895589284953340545057422168082964539131789094934063943297594798993670824244741558610117725611124995436583539137761611101336973946289896724326057717971447237007109033059560085806274596740199163506494297822789932736615102832593856996938405599016292529645944732941828912503466211611124887922092349809858455890445941761750778987255230697308979943742634079190301435618973171087562926823546040516901693268505731122952583142456641724560063261892178562625121229550184675768692861164984608568083055501441445044919080161708839223270807518343683517689590485613939657903907895850216992274500824726390399164484471528746655365858906620593486788357904501445164343537994270927943173961857342149731008707459816988473031212039866325124566932405650523323760069001560595175067277600391619864246676179300254968384671614475875262030995387393995073031750177744212282128104629371796152731708099901802851076212637742841357586030082640918057402487699580792521347638121129751821358954138689015521344978011934781407905369118723648113544396523261518919859326642920085166003583164990273720655771735493402204231588846830575190641969488104391375361699396833942868190657310990445056037394662470974268008616579787314005067740047552130064274194389075297099063951994249541956417793540968526889405319683684213297131015329029261196665443937939494397022481961550695025106943193099242788111675589532126936752007471161052701007288713224660148221069269202950327839264682913426068736419848691588409048685523101061654939030215766835568932383019547838682352020358043021243982475204467773608746439358382841631724391801086140580555983958398374497404866981747134291531748807860628682483447877005040922495886887591921961630348475713569378633836223693000730365902893835158401881531167275297438070952414389812472636456598976701212996200992741874902762652818012819526392904082355104087606125108253710341730477305766170087779055735231610985317111443537619923470695290037757250200757972311828773265928442048812859457177144303129731800261473095803878273468286710570359081126679244632586935590227026023203623943665969456655806356614677281322899581619309356732172028545319517433802340215916573784861402987274609272231326028554403822051570251312685826076707798172470842950875003496456275770915730836588679460733234885652566186256099640648051715337431463892425396773879872194076235087007377166729942404205746107170593235817747119010168061382295058680565942413751341677343777785200609574448464854746325324939827110384018035754008081433225988612656377074293485245462776466547326089823967942509319555141621457718782348259700784111172591287152295287121791820182250665192439884284877140025463859739361647599092072090510013386570140574106761598766766660151917347455737399020226755126203143330091079890127423474806989456422590798233509496683919854740401572812836059815457125503991774633396018767501575514517732952574590160528354069909339924174698611906980154717362970860491234337837084913960614188251306034493232874275939807105180027124072517748006605493841601275051683653850722298997890645828866635769537444696712197526347747696992331861149210954722136765949970222752659840790268200988849727855082010850792802988799486910757398812380030881923193610201677728332310545507501359797008330370669759598943044710687098681646823794512465532428368695623254094787177330636755733170401731140380271980372448935045376694514369732119692295498622292029981828055281089582126865432005444164624976740582653120993724203273555194161929950016009972395771602576271303069557142184633841721019911775577589136657545605451959738962208118749969378593421685592916516704343386567515933081560768110451168005538291451576114641584125498090424179706532212970692097107820469024035701333860481447474066245544997144432307750144903901619343541211132247049941226022732858076696396623727645005943018073668754534714245132477198690337948139931681346923701053847338831427671998387250906641545424291684578919617881576124937082656215406601331410964897137291318494245286521116452950422356640766410427911930939821459907044276786953035821516040550081835448635471403806049308358265811208956988428872382342503154917264129784614729271967073287959393996836375295741929802413983075200592477613358432134572122678854481699411581356059906295103735001264187697748588180015390218201113399629646638154073116463768201177741949556472622771480657863475092236096691540753016929717232857541453077845984470071695041046343891976492489321045800843423242387335468843751681506251222634537387222092352731051268614990494238202502087869973380406777179164083796581181875385807888670942514783016912333864459660877613047067049070835286471604335371938023569771065490207593759105474321921409881827325804294094395565355047466110201292510817633363486559427682339883424127981295621467994765871625533911878336738425816413206367555764249493896000662996595847229609980248084944390856612312016162970186942784726949124021427823149874110988727668196935909287446452666941073143418652740796170421727223286420726964627060367882439590283179625490456581134390561162125280683898264153743379440530542478989519436139809853118645632945953972867722343497526619242863855640790024277695346506994459014370387388964283299706955552539323877480420561993378231463439876917162367488359789492137518011980635259881900760021481315392750044356817397245194808587445619360798165449666780529185725660149422243812121973834713318597999855775528551992744004380034885434611664507279148386025048822133039952884887040083812188723052658853374960945375493868895547521789937753921029926461238372604712088356121321704632953655338588429024926985693325521013349997040758558669603166859625584877902382922785294228071201787544526446642786261283693204297782234469910938210456314253723952476557735097939990802742469775321572003263105413138802354801824917049325770014975964358171737105643828495316839535262952092813007434025525012083547410383942697312216314533632015708978034466205356161284338060944660289745173320033821237328675339224759459495610537257307400896802383541369495823061721954247181043159430422735754650298865977769866055812184266137381520301630129550111299233060469181837330287055311905582510266334823633578564744726186479551373535276289604141314349723392750332392427730906566545357917353033936476823543957120307166483231649617268941001987593805000265428826218164145187999711802069178238469128082762725690750050250220951936689160070073494469575701604366783919907905177827806171464362261774426024792270469452905019394924816997111467451526382232596921722368746967623140088228159364461535947218389427832270858849224158302671254366192377184947380090874941319126875070257781492230156361464937520646107127281891954815732466153139279861284619268491054970217747019930167368026997691722516953224117483288797667381271576904873950965185389903891267475326670622346451918510733279809931770161550092628961624602834772114761488067712064028982500321109168676712441290112629500437696010656022451329902398122962561959363118463989358747593393823704702182643160786545363783092601431084889353022869492687971241969629752999860929461363301507448363649001273493763315781933555679799950215608094653652266646400056168067349712464247822058163398516918238147125286600292781682660107659725736653321835729736401249761391563210333151849874983229768461481334347952475056876893880920626345249495384049100054834195874857048414537196129485436356178714561607511947435382187503858108116558327418272899650089429377211097324166552173471490290625833601821242277582928804506259819725481566062983661896192463099951929159853170263773250659023621926103941041353838310013905966210543605667270962156191849857052741657751456729928224041297030108616164707786977693664519713315385767841079140724518179634289137188144180451562094511001689790457048005950417436442677379501885501076881657969576512368864946441774223160926365078384706173972977895924469043163557507023425299734709458193614768917388467664724641945040732165239995797590259480653689711761225998032376445468095757234374546505591561671740804752184003906524087329318596001121386465999288021777145890875274775313427029254020302919734087069105036090836294432404602508997834760582649642453889347251271022534413007852263376945426723908780822048520440106915378139140159012881968791635993363859607946367428485223342027754933737355847143574165747611457581057201004458675069339053504230020674888215571903839080749862051646917761416341039703384752952298877326128823565424712307436125570268141461410317183326244606613865584279782194076619756081323158332329493497775290945055350600978069689848653199687433298029010049553594021265426513570237773220428566332783055991944872394383940389787340684183427849461294165380446219860095284379513442663559193412105072260612131531400521786112908280071484833245958453479684518495378522322176781082978968355888156879656037599490248860267945091620590051411298752225851579032354076065914901317175228476363625137754308725882915399935041347769038446986777676193310522640895127564624417393543252854476925680613294864367312823023440235531795836626359956068384924113930676164226789987534072759783411238856158125887866000288156209568010208586939931959675860884123519994367697415264803772568927901870919577010662964676861112795159832290059665326665265612246677786588368457840401193167038647148933304994766671333585093809224590205332806378322617472773353610381254736082095056814750108102461739781280859255474055311070745676593693037605028076297257680034299289289615376093807578452837084321865424989534805303581070532566370087623444537008335315247638203933497462230825839996910598444663903887885110496989423368240679401232000460065028368666314648060999267924707947703703852683506695107337969633205331035744012174555321116208962339126503272399795939267795144455488992110098791084565287289073147912918063380872298586451217479704130655075891993171795280929687446962644403866992411834378068247999631757308181271269114039868611851956046704162168649273482469828386321912096011233072607672973394186122301685551063493598064435262079438751552231283314506177947773882324987152500359795835757100222378407854674973939803087641070433697211612556663169554026208849787497381678635543018461606195707948026723383566175950745366919747906794154990673867081857327446408475361383641598756222459959573470566392325378272966349023920425217906899190888167965632185857025629228961897892301477558555255880499218096953113692775806687109307803055999237589339316673324646795061868623265314106072518660694885427601543639182469526307962367792267231165677634633660067865763088169113615709596265299817272902280005235757152611925926181086120936312039591772322868826114661897933262284817140565796943264728008577072164927157499498604423650095255666399472951179800182690995275399278635262614273498597821572623556269028990513965926554090388592599265218903966154837134633906426701687446124891962373566963267464630567671328192542795868578751374357316538071216595713334430339487885583234902242678888403944004220534583742851857907351495564767602341513774621232474093453658477448928403275139107190834686073617059863140128925513578908271323177413434656356537390514489119760742692588839895066953249703396983477393643790497982083357932973024187389690668729102392234078735255397495706639035184289307553247579793138573293125827428265017150591055897016600049062557999431322769617274854999166572567437124705284242397269484097961574853857973702427680086862657116742435513718971749423354456837520412812605588073901232730571537157969733563803234630992669580548711387907032116181715254987156795832623342294918200668204990530889595570873206957169683620322999609057121265958220092666568020675861777060206838572654691894693538953118053420888929980499347725506437136127992357649620968666094445343323614516187712249061414520814651616681358427244393341323208404890538950158455885002598680760258501890906141633500538894328062420954295219069608922292698790302895853082349857075932934363398698235750018696754740002303519793770370780276518190936490331575985414518810518798377640992877081514085777051384268194313846007551260478699350694203019623192136889772171585407089549942011857566514907307422034280207177943663539616698143974196007900962145316490489944208314901278298479737363909814269228435573448277364405907894820417306484603763779924845867351017274389584639075835423793896113651034167701065169793788906945071154310966224673298023217087112887739752011279239988175658692057739917421775452049863871112538965359744807556826539569707801428241461121207566306032709259763237935245927898975434199926535494559297135882712232219884179443565339488672646586937302563034678698781240795775447447450469731222650277816296069889291567419173077298254267074464872309747787276460823450617831140581711570363006730405612267067003473049482785319457893214582563178608933385678479736054809320055237361264892354123589950327021478147439448083866672410754560761928887530250825429732163348519421754551266310264695689301499051236710396129247354216753484081305589646740906359002422469932130651376132862931917021780449800351067715816554052954314377196859349845251789915535524174038926550177369398550189212567592680931750140417958836540959887903263967838446260490130573586362965544779697828095478565890297374138865731082987288881287037126917694612673536849440154571976367616530095006135608420779254816097250214738985933075549460994585282148180823620914719505897366716828654834401188317542322401341319752774101643088190359584903766469620239180397999545357532354634555541182821395771390004923391199057397881193895402584044509432001238424382817657625456150714354438898194082524415956257124047650934705963301132156826846391303032222881160103095199748862226914640355934644745355664066589699321552991115862705025252559673839380499361274399599150983798427200520745869174144360408140388310887453589501011725670524362833772057618293090304512884415153417628145612608382964009242238808150641017393295254361805408645961267533019576073920112029960647714783116302412849093013615843721137317332231827373198336685634640964134280184164250387726214997494714219539370393861580262679741896273959766057310043707707455884783283314976515340264788752751569861065667354542546600879933165017988067852707557718910288475440942633427281424114810130582911341561414085149205986715488019115274098358819157006278639814775204082229163035152266300457695923038856191878708020944993780907021534061748596073974233624543226173738181966245862634134874149731444397958755799389327745249892491347474431840602775306234569098855111702117310895881759359498038178162687554468649104779740010648521033355534454748683273141715428218109775306032768324501358557425625945315504841945709942118017992250584081348938653382430534707317460094178495333650028890692980613038318148914106827394193880202063002491356607895129071344794152605764476792603118963143220823942750406130393507529318224229787364429524520304201873980083037645916517360477513818523300272456988619036069131574322333445451873076797626135379121755374658384646536626675485043187424975037996811577162569549601363254138724924432441320772783100574129029036466370914639635963710177987974245172598880575281869345795840127019194818664910829911677939916450288913718967064089534529131397053723659295684485959020555176132075785292388056181939303875815661835540665238101877832076389624943806497204979758406952550382183943968333530669117756392131613759140013434807518755838705582416809929635869327592306933204165383255269974198195836588602741281217216873448788091884632801710119905627722847303505292351291799180514959890936466589694401420502032693932881798708818164310140199440539435927953095719413895106138483646257628422116045933310332657825428220217995877448521502222984720224943425168203082362857992659870471272480165088475254014153077914891162439254299289593374021790390605944437471323348156786278960484100987880031936558398099096814068024515952456850268798958835638865038900809009579329189524781261354419685114386419868749906081043479682834099212847297741759784815902029558260479949318433189231035863813075607457465699641249329563775132302682100907614578833219617408131955169541517813385149145820092858910393588353439723526638096421722720343488230080274782472114528010270050077288121781868719576943459714366552505917729601471683751955131741592321188942702652992377070817008668471488983598110903969630182008717458818899108821428712805632479606047959436599885193900639510871442618045578666168972978623498213437807413507128849450804093524167030845505042846633122531190969009584823915336070803050269888076059951843303584661641039387855903636497955415645817779580561123445554911924327784838187913103702992619568397175528211147212214801474528135362621953447080853661469871044849236364925563886961122557640852991107270209478013796052433051950808430596171607546245537075619586248713518712170176859631681158431960523325624882574607314148766295949569921910556472863485806658277667525635672228317534816046800301820696577683066076354077831169524967433176483703733719637716116227466336048449947518180101982294840915675389618202342864255360443666135994368426644294774283522921891832472606574754153157510434320790092352256984683336666294875190532039885181802060190321938441506831351001708139277353525953575180843478073617838195243111204949234170742254920189205385509403111250965802761958331351798514352953942739451487170149438536328922058950142734741995249323794195717592700570523943710571606027662335641959345569099247226733007630157415568087763831717889215550754597550647572953244088380328395947458386906157220828437027662833793123893520315457990013999027511650004114455539422497058033972019205399089503786143182338069743372327920776714602079506082374530605340508920107203702899441132432768312229655850217241335992910972539377161002465114567740432420364825858912978938070214294182064937826452268809068075613232246635527338606732411833263435491488747304646156566594158685530691715597839853360448545937932999335620411196776800389178024354975300229909619025114241603683871088755137868313079516124564532053235250340059971002623473836711108034625544466962096650283074185861172877055581169404871254092714218561844178816155912826573668143775544463147865946261726219611593083673349097816931101632957917604081189070385009904034611830918864599300886042805197774772109387237121359898295986316709493161945365289548429230894610468390682982218399718346590757321417955044773768448116624622228295929590889168455831962536990204063646011601550710199468614968415646075789720216972394946728801247415176015614399181426991770091768354093538980070255148898039501205818723225166092183331436674509983773684094446966953614271737345484186776082910152255499300151700097450467292890903798322828127908332145719817362199472524971414108489441174849737410580580412840882039206828904732086992034581172926729050578046963825664691468838809853624439443239164741984900732670040167901805390813529212378788786782898521935097093385817792149849667563680849822017982224406054389139547055136973178266274460272954097315608598972299351167271043801364800787597239383237473703381079566631771610347635471841439587739642712626198999248628175260379266729469981524332079966703019698496577548593767209301719638782911046057722520450584358018636447187029582485975018371578283430704922976382797616206261693594231284853954052897172998270213609096585335038996210553597834075144860102373280137142336332511777645049091720409273888376770849896578219446688807148581791193105216933242170288210616529457967321097582379750136626342119259915489897867508022466197261205365747851015492631531432631930757111967367288884695376564854390082860016558768022156768440781687503336177462220035353862228936733756224767346575338920256555510392520895589496777902773877426753868324521575316677161279637574898226483817332724911980523673393386110589435171593151882667439994432356904522536057919334306998020640195861866065585629084409897079089170827420664142329088813136811896483458879387613856397682482818875707183210187762599008828989760210992477521052791530242575292706980323224030480176372680595787989880845526222442154992413959024625359902842783699838574205749798433649571570649228563193065392360180736023714733565201174124191518718203490487125538940293341077020994296708178456250135816401663890590827539827814392704145212856968989864230151416380174360689754954358736951574824520180551232211818506313701861472400918881445573194478523639436252038413696385326872662872995385958262083502272259703238444957180624611803899022554113933081916974521318829782577103808696276483067481195280503416948186843698360498650228457818619111120533468742212263603854209854703044808221097016993607772031500776609888940771077422099502613338689253788428334645285347977789881826955730801186129136128729364601397560571828287979936261043888320654143306381068401136721101570515239726871947515355745016897346624641950470906865270028030945034601059551431304005311122229374582537149425788088151543427266287817306599891534665472400346791821854594249842175894481519689662569174204199868016472118982566849800646932442181528282684022846721888402558637225224072935244496315927603561960280598184307886922143739032367388692485587347376907290886531379364672806505181410884511106369406026438338482997345267162138569681365095353419217882469700913969925031902894083767523539922287473814281912543169431123594894244134412446155760417780321442947539469017593891625309296493395685513233915978187133552234252789220300098852065376778559707739730587460145479361984806866874727885999656520110654036565219015459562890320958443533209786082648976250800053693823262849553471826570230433677229220289142079131004573262911265310743650784199131115323105650889326186884753511655207845084946403201479573834691861417031008514756747861085334558141218163378608714586216091530143788953236118200389830160267769691135858989353557488262169584577907978401772806501712093126612204914495164763032766089819137777028970204983210556424831946399594630182885109574858537583793855055422067395652459728424924823624162638366981042455567919873474514069710272206579718549429229745314329985010339879532056366330730797236352327527633756625949783789352651658246541068967915355376205238395039967721586732546364405806931421313324180734103436374207538409208551557932101094199494612522276962781334131880929602043076588061719131263157904973230642893478717052297330945101553426727641961804607478287664665791411332335682576080580640848602269132120964531202528971042600506355743647172612036944481711134836393111507947213080173361807584259041690918879210360322897286153682570940891980606981763403705305626500718704563651704458380452507844830859033292621507776282515094211074761017670724007481215011090871208411805472423395362819702950312930329040280972160827500422446200256485893656386696057238134770674945255297335219648513594225828334235598780753256472136515553407387045074083562767444449150801554894628945691644894295421636050844278640214445781190180184581830068365832841698453260814958443883114383681500096051843580440136024043531294398619707571592080973596256890122151721827001744854690113590367886492399639750668236777523629568356250764524113666801135833273367044331909628519440178871312445596822967359638726395177481802047464792931560365926788476769548284217031621489102107797004720563150838815779322173937193001253281104838806072722502664874478306208293807188282379081292858070560939569963571146461609917256481429625086552365919107109098867807787829937817098244174715279375578653429915780317015399741217609436913264111198599221970356195664319896366320424991766819821751859747179454424460160674167215237329642041915629423635399412330054673137845147076220921258146285797005162893661632302654394497935932020436037628973523027698264195705559351785336388167070931942192079659876682595062186243126060134628558180611131665042908513106691629332586191677614731922805512556803183467712801015349695107603902613669870189193210584708180149607856363989632423797802324618940004565178178083001094831700660926304676496514652337435615763617288523472078640365868461870988253197168846506174120200930622318077431559741006624343297992644639562967940727412320534854384057933951670783887648573201014740690828080149327738691239837861548204968295056434258424048945992605821985936232641531372660064239882412880503452316644146173088935792243373054011673766239675154373766776763718831367236966358888446830086911413636857984821912162613421083990461970018973275806314031388877881439494389352837249413739363176348969693809449433780156452490937531796375993606777568597240942519182546800710215547416550573720035932716469390498275614289028309796396516211332747022767468218539446974831210050985498297030087681674102126518335641349281751018970389540061944562459622376129034216938341702059522446858250513554823684141889687932850069443141725863282411811053312166865351113166636596160809666771050038549850104688525977861290383480967855985605064993216557055858547252401063045187728530760292993834371017417361419466228100745181106663891020182132165808903480579887360264822786944141394099583198835711404760678065276175577710930623582192285188640993709471946280362726702441393512031468511245786625141851217185721354191312495890020106804650300781776748014086702278277860394652139294803348441663784508920020650398544787596245441565972020232106306370463108727117390332762117471279321667284331254949112014400583223757139012583701484134900690744821414340204932641705008741176354934184415690192366018178973708671472058250799499528450464643724780950793473370501490499965740334493906868520031471603461586870603390801771596426156389242690990068576042489184695615674836845388289055005402743685350845307278563150207458367326241377444345585490208146055345273068233016143482869539728139647752300490124365055860475248390636486368463600359676243671324549222314734964157941703572314349687486070276536283310535267923911282258888928046340480133002400247090644673477954251669834499070783089957945102544425909787825193348865944920039050687140737087562524922793202948253290345604370672962524073637364453906404698884789695848507705370047447187103023283581819209655431294747076425914022737238173588917327432898872127623576550449139303939095059702899573836362424785219594585369541865075167686083720841435618939370377179118489983560073297185944753041921721076817407447328589939584039870784387928235605732652451373691859145146864230858439108590920732193344626702722350040216287142225981482042049888564705373109936696114273296267068137561032960799520186276379980500521309793737773143331087567633876228461891445771219341322943066357812570091162498550204778855569483401867004968650184878506493747533318776133459830814902123262058653499947313134127907335292404975784777854312846081388053205410585817818141266582824388260126098170714215916154437686994717552750424929084335476817040200530852579303363191523451162292563849754137662490393343529311091353883793237638405504771228180058599829381840290937345663459049665313572718141965331882725711645983127525349573478305689537093786506787602341923372357936461693804814144977554956758886264193167999887533279771744617664305888703544331348033945022997279021614243685639247915506122556283087709582800727976504083714044316765175736324371810334162299812846723005297320178130520412028462559126337525936722640097495676525585198116473713825868635961238829026799581623703469249386934560811941697189781116594028937843465140724534535400911812254168333147723893083947695169740662446352494701492831937959660694645064181385324587208124887212917411530403972641878687652574910031102274939975822754412464829294250184089110138110719530485502205810950889323872864509811404093981016990799908623665726765446353477261681407694504416638815420642848705877027547645688472851164907737331744690792556648755214754791175359252952226384673388169516561055458082945270438218561571842828468989174803311702540438488669247442188130211033071210896189493714192123839701631843606670647732730388813019720548577088148629810771376966307985403412389442416405875748067106635446884800416534664832361686783297477817565463000694876093195268330856472783552514425358177769804981377641906068815455779129687933932304227386417240466938778946603499298951412561231541338448606804834260119673898690479041423802503797005642945767622991722960658331145821628276403804861404606019161852425046650799236561869434486657640764197508897963371741888145722964476034204710121205491961638480546520140224159042421998267306888346920915073126857925915300955687974627505739488252821681309215840939933744819150490812035202436274896004548833654449911447699576040530523961744965087366092703687452427760790501087513637462284304599408074190413592994779160199689092550975309891385313529442032661873098496618019398382376735437879474650537705740987349690829706309112269957837026641626869817517164903857094237741502044138368526593587491693668361762887212966268761502208723879567675925077689558531255221092164039605607153077557562963191467481012565399351153102348289186663743313189441684421156784392218368986506670539073712424298783154204931628271160578345295315818559925490320223944769193528210962409001041769959555599897998822006656395552327373106880278863960729922999190203330146327854182746495333773773791163265825134559873060595496337808504979706117242043132086494741146372257294488236426132126717946065677633641469017605185004653072717974345324866583084459815868779268381943985366042722783230577497591026408363290199541158721377246719645876053443675376401655384976893842312337804987494639013091035993981589686940246065117671624025779107758032398293020766102047525707051038108558023748087889506425793036283566359857688222180244933981641183007767352171424375587663576110565410820314594617138948829025156731334912629936654801977491454940436673140989460050526657863962859126668103962859752464330365326604777330292280700325162698608005253035730673975412465253154977812058695852649385906527560979290574845544671179809546778389340105858315662891055472372185977328231769269840780065744855909024103605103962344644170702052985213600188816228983368042130286053448689295548741639148807762140192308529829586523257549189638882219111001075707722835410194564996564288880981879792457622811646935402328293709284693229838348967354800050728542079564118566139337832901999306634083918878909711784776738250361105603361084854453960453682872048403411706365969028658186060949566654263113144094084849440836727770344096323867980866117556307917201361436014529406996871808527529600913169049710433929830360950841306741792473513851599425642379106470606240019684635750825007844901278387429237963908571861034075272035494674737495770706401596977362549898952826779138346172842839502405337929998523823900377846204652561059403676592590260265134672038334416990024206507977177486328846902819007589296727180563836547535475487907761206174944709595298014402539257877670853928480980424462422639309574387560357806433536905288397667280184828034889829901611282079472890116998519696503947017076284988617707614014697566920866909197101924504743762475366551699510293084432561155047147331331189409254963777779856044603743823630116360113116165043662596295136447199593480409403389814342754548032438437023085653622488578967639829182538748847274410244429525998529461631059903014988475989852666103053302203487231201701542788097604373591708399120571677080995947143130523009486291947094335684234658440600129026695485742165603071633195375439109977162635572546667411633137378998213760222468613302618496186335286761365648353703741472795395844133355295194887595909350911136454680204893000819651325974524817386468880693733469447613370782946465217419478473270984850278959260795449784188068088079520886328227746935191128272180289009017637029069053528621269497154176107274377532778366878696385004097499377404941176812718402081570068799990258532330695578533377911744324360805410091511644393722908733535472987475147660444713976707681822699392036106553109199078834509124511844541961711311075634831512512808401461210422790732784197420624544983918185652424667525189689971017667117530311821965245285090250386434307200742902126089727624877136286586285508783797097314560869740384472183963122717768925731477585486800482357241445928549237671260256432502288847495112655353223772734299282392170151952759338511624994372564222014419069746479050879109889805254776179903330106888679317801405767219356982877827596005030766242168510889463020639391865838052195920707452212810817531510174118691253319649963623778265306548175402156031131923765083824784038479113557830364245123952471571435965698996849334305138543139085884516098245488505467594533007889041916296591202473513607182116873368653530294991724963305565893398019792196187974138638771206032493131586018308975444627282404841076746936219775913261393711481934565746282110816992432007259504159679068739228191934410505103404615614236298040065977304935352417853190419253708486565515554924792852938954218092458456902285656005008397269774440040300776596703611215670710915179884018841172636972768973304417865879680816209687086741361436734359017405050446321122466640766242411543935108903732029959770362030696963658156829379815676878197366152037353496447510471243501733775234139183108462050686823428735986046594421237775194441373874931979732560650640146474619526540356607335529300013774890026623215245248186502950351767187942396247900769273418352583504564366665916693200730284219351937498976640954510328978277808845541172657367476943199497457882328543574251804599014850719544939025243809158352066906310880221738483646363191308272386345118752327200775859945517305566589338184344032817191731866946117945900062494500841956155200587308014230189585411588163678265638987185267040127100129989035615830333518177321364758888028905816676277399903136781986505808486250963482581467998669596215684301899844990660320491049009491395495234089562311432293419813862694167314835630044449732065982471526128790934379783120623718573049851878315470158376082787819753381635043047583058785495580147257906828966130810981128415667660860748634708200447047009928911533788951542754868686835788163807761438433736361695710013512316246321375449725373222205261451721280683199350396573385218392311074778926063958173751386930836315256263486401847278630201385559195858896590898028333786474073564039218742277718791882036359299440229195567515060121813625623114460115580962123626100848452888572404678726180710385280222216320196817189951104928868372965504203599290957394882576397760266445839224624588553213312469002587696256911545109474443619236831556566629381341647777859727446887600389413357069073324541158799049077586612194026590100444301361356033883062665400638958222036903578973175642128854806774099858428386879175686028336841377684699378361253924850758049019585746470599352280974031481513610890868169666019283106989209782670177879543254107076628623025794658055521214915865828076752867711793544171709037051056027704957473127153325161027493003372204271716731995798895466074623398364545628761987415369775748177156134209530738166705290211389201819719586724224532446854017979674134821878307122879428317898451519922034148810565295941181053975496089864639383681675834166659087493609455974319339343908453949325313504475225526341981747753142363807713890580207209686645473326460038331915244563033551295939458435763506605031754284397642155315309285728391814319545305168968421058536669000729570667732804885936789482328783713358155718360305633029448906457649943925181877697800552864498187340465966471275770924096816883964874818282072550381487167664987547569726624910609909917282507059615699727033642679081891431365822672148974241333378100846551163925499335670877080233336469835247739705158497451918394708347925397904246777695656202579289956578253102627906701417194330058861542030183846824370188418266545879316389865178631637732871723772495182879115832411886508330773432783877821761907394840732695506640886237910342433515699406861662630632273181272705035266884823131193502199517814054940216527064822101973110658870741921294966215169231470677334223818876167652702916326284808739819932833611511690680006038706355612104789935629624027859629098574106375144439115373042931728001011120526777549284947054885107235997072195371058229116205741233179204951999882287836332091967942059713438113118445000338025615065340404126220976206250771783679265791525201077591374168417506220761263348044635146945702205858937352146530688049032384620582300468931237911021662754839089041078127357915205212014629701890202413179530693235228177663275278355965993646526470920797615818890247556223874280660726678322231339642027732897117927980987057132606214353542092166560767740971899910827135782875067200314069490304548114682462511450828535807350570509964146134010256996977458699226576393176175637849748662347736050003872998270641184142605459256689711564632542463966024716001211937039441358170490023706869430237659905615058241206343066282959532588077938401302181719625428390238321121277448325126182778283603085278174084411603336219819344152172939940033748980927010236321083287031126847601609985290607248328600409299064038104349704939155699968179176079186479717313110699593063217560495150639056769880400761336583129936516786732237461771321395732869723397305809118650051143053382332935095028904223142803093546287183388708797118549554643013890201352624644786091636426776663896567156769841894016132301598067018482124055303402248258603629646736572999498242530138768469873340634663083045657794627446176295065428507175461721559824301274620985621892932776609284021506682069445834632784055530965151833894497844258515697550077618589848582340029538378238749642044367801388388475215931358761484328375874870332557444732055278458923392786075235633214966804695208021671092205433213320322264730925697732141746806488608455693660212947402744715799724884447703801363840644997026666065744874456699519787558158799030544021358421119465382944317975797437191949362379760360740257036079752949081121863150623000261555205493106612292496885464498333395612276581831427324318131029853692291215277695347659468928123234663861088653002431327760819169320362373318654586846598560463601356369164186568778143590771641239406831465593104611240343761497703171407307001177357162819491631206882186626269250060996148497411071078768121043077781403234128804711322981258769284344700069548089642531921610707609232692426114705874433190923566875347450651061639079368028259227545464988775219216858125714295867854210991869351846480918509284517513525674072508997249534807185345769669584956068161522476944299805807074540633108464841052849891109812723189589815679700323132742677092725830041392165852213072278012659166820008619680509171989073214394430244615144386660827671383840338381148448101778032134805625937906939568528487496923050190089564943185786729556211278090466917332222668038035331738032908319035873331525771166350719430676284535445857553328218340917397364081202208345644972718326657519887821383013964850761027075890491081742046648590724738020198390860316259424123372713008110644457031101333056173339172960954778687262264185939345438741111445171949132690193935661560374686744035079559678106523263747812578586984507235959443518242793754220197722889907963496735217041064435672817192628824251214443968913801094255160248760738204012486013329030131267012004980500986057569232581888097776582421142911126969860781767408290799569598643492269035577127210548080660004629029519999946486339006339701134867123619219299560524871282716396805494424419339624245235938264942301059783168869648101007618259503705104868247938145313417009176812407295694578786045104851999551657181593302471782388623291779318934095598094481360767567906390564250350039810778121349603166160152901450450182089261118111785959853189395162497886986342391547468621339570870473302013282604850332807072346958665157835963981596063340018303340083827984910144712360989454494084212492534941915180190893745938215345725283843189387506390314220271704477592142038017604068950626984459193640903966622597442193296256821105403103725018365771740791121433105575253266560901424333070384129035826083866689977530547976467989010914376416817080129540784447797941265303708964790264555781687476011934141514681472631275196664713370092084141882131999827582762974749690894679926720581480888011881853250379153066123530822232726166387777201276731726367004768928086636415652019892476660961851243857900327220909840068548402092003171140559781435828651014122474755381742052712072312587587444854277261649200639764427376081799482558921594300845792451613554741757757920791835022213579821350061250064478114083254703187111685365661083670811972241626104754881687186819715137259054675562026822468981812175463746148750432690233539488025948597531173903767268611734159328262237808762252749307965625660248041792625435001148756083414118984788062449616330633105398429936106934824654703436224738676490938195910560809101593971468904960723210682804658155736248073851599270406305350690877763014915580367375926253879122273155908545043000033946389517437170066997416147755014713692355322602453376333956266643095126584148230282549348309916186372389561402671102607362110917380523988155262326695279357734820679118072310054859509449491026613020039072283926337023979654534392248578513974539667145064571757046956616462218457272810419331619628883749484744478230960479461876770830239299948182147071732056447702160699246902423872754273472612746617936763851178955527494510482223183468823802132404134343476112235148651359699780619086129784720231241931934704056379694415162533332589148654403181673657670076123443966266981716893833509783672763697176263711226334583545005880922013472469903263739044229150029508598043334954228740670964196450993757785734727610945332824034083597724451812841653231289617515925365713296621902624622667386111788725738033108307773044519733172778579702066537466475845790437541090048731650385791949419064237412212974508050615814084630364013203336412189701088189349422196085350460335772414872116933382240696327552060668809734559597363783351284580115111189740684850880318016518693588732876354666502194148391851833545171212129163591574802626795320376889313095246368533132631610028748301561048001342919289054009503384020540032700191759288042637524898985449189976135126938536019539259278533419586550099445264479978303354198360151749904766758550220696312237429498229388341997689021158003594865876144674372362554583036894636060993561884392353044140621535589272884022882368316982977844318090550879868958908329975684775495532445191231850681200285619154666247656292618213491796389124353735326498369460156867558962365715666756996223884880589257884891592030179921817167562350088580964645657431108297766477402812786932829129618977426135272656280478438162407612718315155678711441483143404114296540989154947055038395964797673481197250992293938885458073686055823965781659318799804005278473086176249037316599147288309763922906594996324739147024098615076756079138114662010732158030172195184900290854419227005267498016051048001158228229227042165835010356838904634660481810862758947449421436204745195967655900251365327500516367272266946398348352531239192307542308881674738155331578944387957437081321848977996916381036411853941476761333612144823400824948116668290575822901077690146418993612322427853447179155511284837778724753022881056447930212394164509732651802661172182105189763354378449873529396759366717509646984541746833741098916504887157788288535417702460079901723394034367655580387652186436000943036281129483854083735051429936329988090914280036655566213861988552624445945815350438988354809706387389030960935005309637429873677062329056861651306051830948269890202520282209043193677741055999700231132851146149370625023687444101118589544251068336190882853183706194391256744606901928796366031931317007820973509296669114245972121480281476444330610557743555854930718898659383904543766843000646855985163710763522002299014576175268316495371158634487474353423008417310331843120991741745846064582224567430384830165263258885885067381124553707316796688038250313014596005210296598484861524916240145855844177385200659438662992393261478302700710950847368045669848531574414535222668162258315648700381219073781279302502998478502516103033539737645677745102856924076478460424771651366751218145441243966522777714287176818164208574245396191758970850315154119939607903321716268245238483826412161893917838016723010091236825117856601810783539832364400023064938012461129148058618938421760023064282283030305429326741430558333843665067640885231721426933178478503857252449633909442472129525809384162830467643364593022063882239717600765449627385080498541153593491245261251895856848304402718307132271635685809746729839364465270587827373649474984875205897454681440863811863872661204403658104006497547336633464553566548652546398002922727805414670968179274351241613350066440394501427570468202303283954295528516249721844069451351988179708530717140784509517685100300972783317628191085150366511156782897813546339440386140368901840839357301851202570636486254115056748982898711800483875222644655562996091129397284121175445283336919057948769986242691690311370744617837441279277797129728520134051380935306211843740049568957211294402000803574719310900274532059683605086906095534262655716526187393748592593043008884443783085447655068471948481672288256817928631222374301269296953467833068254937127135869572685146273354588506821590780317232270430110206699511854354899327926153406861330523770056840742372861311845409414024862633399897259725291689303426129083475354373934921825431362509660440338472978877867640615776324114562539154681422075676873529777661324819643331944364027300098930221850885047145730885966891790767500837438415825057670340663222066835322551988577447808869772467705810390931949229382014406562411747576077255519961386052060778810745750779110816292131534434880262352136177492611753738033354777714486405854931922143231496245070653193351239579056980350259439983590193203787095542552412203156433973218507038133715252930495749013734646095364797705150960563932812893194245029854542973398219194072404213459789645192952162219129821094811481325707436942472239374130512733601353596145916313010919351111324291051841486897065844450026064295168015695649065120476201858063582267427669233091325867774010555269256962590665967860448456119964188138103717635096872415068947202159088689086463576361329727792155802396391674162439604190907177481532814267325408103203369630171700592557349624962239772082047689563862113800985573143297382593389389718028313075085517300443095969094458173605861784968140037843595757780944296724962808614852828425835307122354353806649985246678044208654978931991514424806933033354133257029099508150909060985739102875826832168203513632060240261095998968364819031708870534966711974677581601438908458809594626470027584665288544831055726560703935326980497940858381767642135824557779383831336493647377040721597916768394678763869641854544752902224282618940945145587557269011597952658787766494085271249388142186085678294705718616313740706488276245780308799685620715166817297002226938058181100810809955466206669200945278620411016184342776383888625686631105959266485946581531986339405939487546051300072826275648854723292483958395334930945967304616817100397552670012328125245401481794982905182347785726404855394233523787439989987209916991746323252239622276040311781891574215323375609711636187935996778000284931508655200641828841167386288848014323383886913219986987516151862775740044057618963458411917106510739948812674596243192863949512167562957266910025528741030284269692183633561220917218707715259243040907126208150768524908035590287815666533533532442873919982151995791224913462701527766614182434775416476739000382250301146911202508091322267842690011283502624735723497505716837594953627079740891823854807190550034295036874081787370747392327979382220156967442367706980252194985639588258508663222635026796274519078675836991626552506408847634904933240717008266838110489341049743952616683297871959051217731566165912564490962110886776281608488580493075944558533162405960148400500068130602758307171965316508792169087626283077984538110115227319271150801368209917824114984778872787412896295642778590237150590881431578043880436864139667271817161543363097416032967654265210078166818010388696245199579159280788671947337563010553089119202946648894201465784501554956936062673952529575237045184472897413871623918858560857384863975508524602432635488799408007900444178440301350711937571554520704674497727145612494411928707062126402477427751848346374596559842452726812719043877596484082352301850495914785199588810352942804161546653753001363366817494249895183616198658500303171580169670148547995958195506361240617733427660090009268215511195971673227249954078408803190069726877641272054406467172504591556566905266372862867071036780567542243784609026747933842128113986019037648730803200693151243832228249379697216102055519423982096427364283763070701710945617427463947186362974365730743835078677236990658642188442127049659835608963863823506519752866813493373229915146639361408500904331428943261725403142959916215619552972569760513371479786754294300217006033146543446575862468316165203268153952666068273148289601033102892244267105050005496327714785727812065573286026551574213564150246941983722838037384510318471394057567483964421703672017608475144737353402352174939832164625664104306499401935326544724882302746961060947915185028516475246053654757288749462160969262195567489205193923179556070384007487020750447350252351153093372370839504127342944955436987727922875674251256994199078275451043159210572715244807356397688644431728626395139036510253425517246696211919872276632139261889251064842697681463839444676597860747316841549130555832334587073238496997601604390803190345826951404529221554844655723232727726633203328406004747730944159930703980491996247841464666287585068152142681842823473787729677819140632668383920295340881746944792501605285783489181155217197939723890921038186434064182808070102833073678261859063024186868005645785880889116105639293734239779281990537599204492849326820472590978439076825385373360772926517546363663152981772009487739416172062578293656689889191996350946334912585415038292945000014123160967000659643737114108887651659918205078701894087471783788014043232904909565528291498167078323378691225378914095146653598196170298762012963886030527093075581714036125880295504000531224160794718716648097431772872050433499089801312106503325385192089460794219875116603910598798668895082028013543105996757946798937490959826197606160605190764777432055805832788782850596827554043374142879015798489533214910383260733170090629189180020000161283405047541729633281923157282530533452174341249874656470800075810601098911737568114581481988356622893631583094787387284215939987434347405278291264485847354455327842595289478298944071831430294421808795779546997251930365317946188002692110861272345865102917516163315631272655130611639171766196695804817398038181562647312207650408499551662437770127998391242468974814345875202743647947857853818150822620678524321649476363226579292213053361879045150246462779635525283456913546734799165992872544256426308740509110702900096840615413847019611639053313722941026789989087756278136793217981612638493627638181525643156327884728430868317944364799153259298637478726653350276827197704546578262978434744614942995353444805834485034434438528907460419154044040231419638984658889300332007775760539446498864862314862139727099981300798800350820856788565029902154540483343029769757757168507177241263034712631699987349692168986019757290431430477186797678693186060864727660080575719125391464846052842897917919178931626993031416928441977712032392863205323759477011967112413065934882007230864451684864324020426405457203451733767290473013876613238758316510547102542737029093624592899111338430075106077855719731274198974035223835718548538560897254517197914196963827031620344154115186204676856249472760688640631423286754877996461071367992868157418378884282267716920071714200825084812901187353298816714885717841696343110752860657651777525034800369156510386128399583790940832353865098368434539144180123780034525003810014037017167520038571840199949787932404514611753223933828663774108588511599874124304682904886129077954090934849993207379141998446387527834661918782918197068703069624360734848923572581133288922274487472186196498847956690045063787340486970632862721405427143603193191349234098606299572794338955534389508980185124021636029617284279764282628387416484240492200080120176856114592176603313889929774938585824842074801865934545841611822578074510603708866671753224639069890531728136725351343301229742794656321202814420256275674907208826466864081444486954107853456298207583734307046168455149858423348127870595196127370159992383820236619540781289316068701959816924877125989474670486853424520880602597085389072568596328105359290114131006102282481722560251076052809218313767578765224115731662977108099369951574165542243764065131177173879670154416609723400006822605107535627589061343415305392259055207609835777324256957237255878161333602212699131430875170678123635097792693867356853843358630811964085041110876127626173049191893563124340560754545194211332286058458536719557953253710150122407557053105146018009991785956258370649127792405978092961399317510777303639089073971215477130718386136392713776747956885923477192695038031187301967242087450499328443526110314992317291829273654464175958780076633188437170933510217378450399924261487085009613206460047728245197378860845709752974064032353110527249043678100584007515135380539177155122768248088717021137154377357847818617653708676898890227733601887029425095665486686767388624362795546026439163549963943736220092666222882186569171770129821744037580078407088802567283550266311086476156345377733005011697704225963560476233861446974538427616523213850128653902895240139461845555224316186604582942413047400249988991340698539502085047144023051369997299793207032227681440853428068940466710918495611545813430228644301220391760561690164679874665596706082601514679740827852140262797462113535494492096362153777446463338294175775835996301879593409122321041980889249073213962182992511574065384020691446510323922380846992817521472556056590944592278452480271118648654798148659634706546769051414743094451496963006338768632423102825640122807758795574661509153566546384240817671294522462385025466608985670229568259002234128080535866844839942021869870690283618719008981461105183011221034198357430382833199317031753100993132745090936197969374046281143346140701854324542288327457048828247756451136679077846960587175219596596210493029200922103877953699218001751903268904138294444541937074638148478728874602138245125801902849704962589590840482066885665832816755582730043632918299029799716443284225597870415063257277395136163578365622703737180436383302932691960464233781289990535943465786800572691355737431728783814525158806612663321759789929041521704241508528400145682808089094865439167148304990107620631739956171931262690224158122381942937390766351120884397145925542881545029860494036092264040447901618989661187040388148483925156998228269564533311657850825493572305633326879485337589589604833467148989927064738967365811171248149466182715147452020029417935649163296069752920351182257784038850362887810720694901450727468351051182908083263020824068573822086181370447971778785482548793093372589803919607147968548864594028726079597364762759295821279949139738609391763462744417923644855864715242968672510554188049215310354842815203812297124905946134735127056624035454190269085149188540174142546536683674932080266582433382705177854352449588793066263904737078894971953803948925433970678028556814383748790843898666337948488895975754616724635526932625956735823204301587935797645387264196199292755498160620629536378335543698166007008379754603865558685166539685108250012715434538935411189905150201625809791981847199806963899458664664076862150247183770933453489333113389496796127858365840001617149561255856590551876110561739889947463243261641504542526456867310352907672492291890766644662715938401792950595300055609576924197288520077738627340699925637854764364501634545203918165577441236522604343995144510005707793222906253276229852095186688497759209273420587458004316705759769161539841631631412664533073519324687225188324915951754303776079050599942677331560102497887560103712111385577524590249095632280741423043660084306004766442109839308287086362764532629234497710415129306772985516290957026499593045540920960621817598928275679996738385381407373587397412880838769181652520260345201653976540818339122928288600631759305922725059554000253790532758173248139770288588849463228784597054662519248531869705625309047048444253882127890770350271345260949785372744464741810224664118437995378795273670402793337235450210950400896632054733420720651451451804366149841097277621978488057959346485656834431642216339630722232692299948775076746818263005813798461598167678722346553354210037964510899771735861819752868597813783749292608077094560434059953771872147073619366277154128134652127185286435214216478294444643247758362196616618623444591235097567053539906424588380762956712350506299830928317094627055855365712678975185791375565231332896982979392869645675053340320634626576635473435175708364266246814599085659335848835639486167061056264900995417266554509775079218433369902709406101524790609961689116019628015578668169441823322950339086375560895330901977850675899473600663633580048872284078690337534782412491265705942990685042740966578278209812786224328664115443105099584459206506963927261301961396511231990715243333289673742870984392086662860688701552078686176924587821032676784051736756359947613313388076761352533243246810216442557930063746531070989682878001444430638624441429945230466920504048490923460345985751373678405987909160018388618436218089927769970034899582707049460892016181268431553486892875498671629551139032158272583860970624716701639792206549247110322613079485054594131084963572709333371907864761033278764109727771552130197078281747117063616713667615882660425869390738281286648172643357331090331541147139417957638868050990862165818884441353372242048436958760101581776747171089730527037778275926736161815903848092892765607797889854131663821011172706097440727804372199280886322199991609054713826099505504816511552149331974942634783428564636654711011391918844210902653866751446283259074200605550752503693107370097097153154942696274190938546575840278400198891270851414094468848444207229931559581827965723110031864751908251073092091281279834560426019156805142338487614168815988071268672052372233585073489006989205959121589593291586832290054197048146239310220369027628108070873848971713302169979446436617981040824948936871498577824890445627940330639018809241068250978296750527200308871045312109270760693540668316890300365765845886431755458401772642849931735975935598024655371476578741459752324679830990911843666907857320213759773933269190453681422020392017350783176879660745504157333925391089720261751292663225963709814050495018393900956346354208090713034949623413278177788212526474354808954827253386468410993118286709120482488952485631923031287027329893717050559418461437978111167304108880429715747849053460625869690912125992894023080085820029564403724881161888150699860506144836978364528764373229129410932754612173353197317295494154127273278596875451054167858560308056005899020891301498295680876351225951915883734443395007657637883311292968763959872099646224134180179839241745330210225745823749143496269490936850678715680845458626224632990571631240374871998860219203733498589124631870033858704280658349840525508814320443396791725325495174147982545597277791267673454752803364156560336294657531159160436927438348811933570983258522571405448845534009252807274469489598580670120489488619742504657986754581756179991581814122646293795548993057956357376605466653197285762143494374115697318687124146217853975007765789389900523362055955800857109988769806039859630432257758524892203059519610025535167327489314745111439983725869027180154165855542167809096276617144359581933642802229784922265180932871080483364866417957807123128636548463482174127788089989507409272992841847807589152598027588842275465444054205128871850188600729666257951161306602456698785765738688386154033255339202060198425929239108633533555068117096897474530260624187069312251112208679340838021424217889479367085717970435699374864212107953498349776539771899776808552878599789010251477878619399441388704809095098469306104275918500649701184645722483660641929541888070068394962895681102011561432816162910494634185828045719267794678563614637370636632786936213501633450912993723939935539340258353091405659186100224163688652066463211208012081039251752105906743687311803982296463824197581072998288473850991063638014182381853290330695374738374709146864066260496690104889301301536990870855522853255898980636135859218628729401125458347250507260018634417685401933932212849091776147490447095555023756083603070382511666254437676293573449801793002985349502074874879222908800909683666790615301364842795848555432109207787748339092125603016388100816326565141670857833580132281166767214245495589613429920971531750947010231603789901475243945901902904457151409304669156037754673806868322044796043445121909884581127104352048328778460801322043401383460636652141318348463654721637472140413215537011898107730335093529563310234439480126791519773982898894861046679228489580609227194061567911578786864192921125482480388273431018420753030254810391647874754979000318254709239784224750389611002033540119853388337155668266923817670991290662513419928659203906527364573746396527983893415664892842737114732075803314035495796973017817220897965413719254552287323224141756233420809411109430349054244270725846372502976087014005533920505017638255234066541568111013915375451387720127643533557761363419404421228373821388389420519709890136682637125674625527216062903261826259160978725104575938655026787382336002343707850218342464158369672412542623309471276324921938192694370675218208175961024250220638754257709553898548455084292242787226258873750433857629689559183940320105294736412274900395378361032154851041536607541583505406991563322339551742334098844764426192622769007689332661010861804570291558712811304798652997473188687045232929178392972135458391321892601081428730968945490440729289357994467834376004595937215461929363535019001656372985625446738873408788345650661677176162882758637732443840785438972016884506165835863010363822670585733427899322563419345052053621333105540501333530199732110037880592090581074578755205007664952836919471122995406669779592812670863273928424901717835345095187542672234375995466709809562517618612747344579548597743047447003023443912381875890643329569799295041314324703686563547238199224269963121042133002350276355498167209634190764815905288377426295076689686315770631399650213963806313279838815352521504144903008597384757356957854124971848888412706083882882314883154994996596103271586910211666710645602811037660210127066840529487563957093895672016616086998522029327158609101786350960056575757136533872825249938502717348731233040432474900455528180296118499605709097863130144627314607708232756655133941374528555044450081062981787661888985884091496680526321072204228595445373540291526281414874690526115268366939734783521036867185403417007062455429709436528611208933440480481176152964555014618935879396695810510859487219696811813703837378728217224199411618878602630049100208661765925166632773542432326055231648309132216049456724282960644334839316189957017033007974865073819071569616681442992791588281365578389611707857714432038371478354446627117413523198633889238557914053014832827653965608494087660916653918195726140194480598362791974079858996715627792276730495213672199457674032033265415546175212735298193900986480534653216850174163570040082599727191264282356620477569115570131986528126754633464009142821518478978017616277040297032406573308733859523534605339248681800267391503325985212336624000600918892633668103713504161323029529513039250229328363658343679785724955026300600432021262974765457081131792108499030585996795422265839481494942629159422445186123442451309372764535116824939483484608092870567570105292122751605697281533205341585564787839179762962726084736812983055469421584489578520539600431664848605626255357061797063636742091823711636673618827078986178402202262589969756924365318492293861211851596691688303980964069398817234046371838323702104619625534261928599393879727114842883141171149093579095213422825356506304811748477774444135670110802809085638365485978987355008101365413744742882093106015668621219750845294252966288964315657146887618484883768267413798487742477019597294231429821711169559147400054709121568033644891708572749137025689962552066020220541919989387406017711804458819819572758628407276807071699302244815142258617449577946218170788636710752153483487651301966803873031876567231197622049520857314044792494564644522388539197439477010010976913143272440257860996409151041223212027667762832571032973793101995039147765220654348641208252626946650996666855929278813829408340078015530592963547795110722858806569345086296132295062380332647534602836100473268509632725423467593481331763274572185231761308802534738253961837451633353258844152746600104100320546467616881190246362328552967102687291494292881647686829511351138641079462639552361299089629017254829793012160908295057195624782628916652734907689046314286601505914655529789477385865963302548594789883177736411211776814035083664990151957131103867845529686671351661771581707287641547735764627236673335887595915955969706776081735221122259420934912445301947602523206225465629381026572366630797726869393460838863097058025365310909882325257002126429348130097585591215227180874617454123793715793373728990663971552825313107749212069897033375044803389491800743036878832084380053290744728213328612702675901590644263888363117020523761028836162971150655380837810245010211653525534461443802648162655474940976297333072053915253118107307427350043245944774663466898717390292025845741209555824067955266547706461821485032134410240,
  best_state := some { pos := { x := 12, y := 12 }, dir := Day17.Direction.South, steps := 3 },
  best_loss := 108 }

/-- The search state after `3072` bounded iterations of the Small search on `city13`. -/
def stS3 : SearchSt :=
{ open_set := (13,
               [[{ pos := { x := 6, y := 5 }, dir := Day17.Direction.East, steps := 3 }],
                [],
                [],
                [{ pos := { x := 2, y := 6 }, dir := Day17.Direction.West, steps := 2 },
                 { pos := { x := 3, y := 5 }, dir := Day17.Direction.North, steps := 2 },
                 { pos := { x := 2, y := 6 }, dir := Day17.Direction.North, steps := 1 },
                 { pos := { x := 1, y := 7 }, dir := Day17.Direction.West, steps := 3 },
                 { pos := { x := 2, y := 6 }, dir := Day17.Direction.North, steps := 2 },
                 { pos := { x := 1, y := 7 }, dir := Day17.Direction.North, steps := 1 },
                 { pos := { x := 0, y := 8 }, dir := Day17.Direction.West, steps := 3 },
                 { pos := { x := 2, y := 6 }, dir := Day17.Direction.North, steps := 3 },
                 { pos := { x := 1, y := 7 }, dir := Day17.Direction.North, steps := 2 },
                 { pos := { x := 0, y := 8 }, dir := Day17.Direction.North, steps := 1 },
                 { pos := { x := 1, y := 7 }, dir := Day17.Direction.North, steps := 3 },
                 { pos := { x := 0, y := 8 }, dir := Day17.Direction.North, steps := 2 },
                 { pos := { x := 0, y := 8 }, dir := Day17.Direction.North, steps := 3 },
                 { pos := { x := 1, y := 7 }, dir := Day17.Direction.West, steps := 2 },
                 { pos := { x := 0, y := 8 }, dir := Day17.Direction.West, steps := 2 },
                 { pos := { x := 3, y := 5 }, dir := Day17.Direction.North, steps := 3 },
                 { pos := { x := 2, y := 6 }, dir := Day17.Direction.West, steps := 1 }],
                [{ pos := { x := 5, y := 2 }, dir := Day17.Direction.West, steps := 1 },
                 { pos := { x := 7, y := 0 }, dir := Day17.Direction.North, steps := 2 },
                 { pos := { x := 6, y := 1 }, dir := Day17.Direction.West, steps := 1 },
                 { pos := { x := 5, y := 2 }, dir := Day17.Direction.North, steps := 1 },
                 { pos := { x := 4, y := 3 }, dir := Day17.Direction.West, steps := 2 },
                 { pos := { x := 7, y := 0 }, dir := Day17.Direction.West, steps := 1 },
                 { pos := { x := 7, y := 0 }, dir := Day17.Direction.North, steps := 1 },
                 { pos := { x := 6, y := 1 }, dir := Day17.Direction.West, steps := 2 },
                 { pos := { x := 6, y := 1 }, dir := Day17.Direction.North, steps := 2 },
                 { pos := { x := 4, y := 3 }, dir := Day17.Direction.West, steps := 3 },
                 { pos := { x := 7, y := 0 }, dir := Day17.Direction.West, steps := 2 },
                 { pos := { x := 6, y := 1 }, dir := Day17.Direction.West, steps := 3 },
                 { pos := { x := 7, y := 0 }, dir := Day17.Direction.North, steps := 3 },
                 { pos := { x := 6, y := 1 }, dir := Day17.Direction.North, steps := 1 },
                 { pos := { x := 5, y := 2 }, dir := Day17.Direction.West, steps := 2 },
                 { pos := { x := 5, y := 2 }, dir := Day17.Direction.West, steps := 3 },
                 { pos := { x := 7, y := 0 }, dir := Day17.Direction.West, steps := 3 },
                 { pos := { x := 6, y := 1 }, dir := Day17.Direction.North, steps := 3 },
                 { pos := { x := 5, y := 2 }, dir := Day17.Direction.North, steps := 2 },
                 { pos := { x := 4, y := 3 }, dir := Day17.Direction.West, steps := 1 },
                 { pos := { x := 4, y := 3 }, dir := Day17.Direction.North, steps := 1 },
                 { pos := { x := 3, y := 4 }, dir := Day17.Direction.West, steps := 3 },
                 { pos := { x := 5, y := 2 }, dir := Day17.Direction.North, steps := 3 },
                 { pos := { x := 3, y := 4 }, dir := Day17.Direction.West, steps := 2 },
                 { pos := { x := 4, y := 3 }, dir := Day17.Direction.North, steps := 2 },
                 { pos := { x := 3, y := 4 }, dir := Day17.Direction.West, steps := 1 },
                 { pos := { x := 3, y := 4 }, dir := Day17.Direction.North, steps := 1 },
                 { pos := { x := 2, y := 5 }, dir := Day17.Direction.West, steps := 3 },
                 { pos := { x := 4, y := 3 }, dir := Day17.Direction.North, steps := 3 },
                 { pos := { x := 2, y := 5 }, dir := Day17.Direction.West, steps := 2 },
                 { pos := { x := 3, y := 4 }, dir := Day17.Direction.North, steps := 2 },
                 { pos := { x := 2, y := 5 }, dir := Day17.Direction.West, steps := 1 },
                 { pos := { x := 2, y := 5 }, dir := Day17.Direction.North, steps := 1 },
                 { pos := { x := 2, y := 5 }, dir := Day17.Direction.North, steps := 2 },
                 { pos := { x := 1, y := 6 }, dir := Day17.Direction.West, steps := 1 },
                 { pos := { x := 1, y := 6 }, dir := Day17.Direction.North, steps := 1 },
                 { pos := { x := 3, y := 4 }, dir := Day17.Direction.North, steps := 3 },
                 { pos := { x := 1, y := 6 }, dir := Day17.Direction.West, steps := 2 },
                 { pos := { x := 1, y := 6 }, dir := Day17.Direction.West, steps := 3 },
                 { pos := { x := 0, y := 7 }, dir := Day17.Direction.West, steps := 3 },
                 { pos := { x := 2, y := 5 }, dir := Day17.Direction.North, steps := 3 },
                 { pos := { x := 0, y := 7 }, dir := Day17.Direction.West, steps := 2 },
                 { pos := { x := 1, y := 6 }, dir := Day17.Direction.North, steps := 2 },
                 { pos := { x := 0, y := 7 }, dir := Day17.Direction.West, steps := 1 },
                 { pos := { x := 0, y := 7 }, dir := Day17.Direction.North, steps := 1 }],
                [{ pos := { x := 4, y := 2 }, dir := Day17.Direction.South, steps := 1 },
                 { pos := { x := 6, y := 0 }, dir := Day17.Direction.North, steps := 1 },
                 { pos := { x := 4, y := 2 }, dir := Day17.Direction.West, steps := 1 }],
                [{ pos := { x := 3, y := 2 }, dir := Day17.Direction.South, steps := 2 },
                 { pos := { x := 5, y := 0 }, dir := Day17.Direction.North, steps := 1 }],
                [{ pos := { x := 4, y := 0 }, dir := Day17.Direction.North, steps := 1 }],
                [{ pos := { x := 2, y := 1 }, dir := Day17.Direction.South, steps := 1 },
                 { pos := { x := 2, y := 1 }, dir := Day17.Direction.West, steps := 1 }],
                [{ pos := { x := 1, y := 1 }, dir := Day17.Direction.South, steps := 1 }],
                [{ pos := { x := 0, y := 1 }, dir := Day17.Direction.South, steps := 1 }]]),
  queued := 336071172673367948700574424729109179014016040673502257366823747673586100929505557845067856044042026673630417993874686661253475748243711345666681083593691189123253344113662447565734808314756107012867292296597923259302833733277366626653543594858662457224800043528895780242155969450607370265866916779584733731203287514059214374715552489468473667311100073893869429831083609481110616276692768863281418527621821300415383431668349734661770540698131083420739378776330022797780889121215668102727580918575486798773687283444224763193967776572971199980484275375514172889073563545127785008876592243743786974031916846225971676961227836663264041056669280882306545569845191371581048891848914718276889190755489239746289132475840214540581389225375255953106479561211532220888239664662780540394460654160084641888161244968112647446843243123264381507028656382715314109353780459306597734346450100438693532696442075734814523152214329375981051371452905656974306501765964736379056080715831165877559381035785021338737952630409335791158229245977185193163357182866385160776043571723306506835979136246306315640906791326430303592300825875704890225749097146558378192435981390136992379564061293676592782636848478126645759756290419804699906447131191514068303881117252486937261025165751775727145811956483816508334767052094255273903020707112364224503139183100983545890525316616247009927575533199705798456291513258090835214336,
  came_from := 20595207532532843191719023933686968049796819840328446475877216909317635688609412929572937259226344538976135730399603448794815080679663047835435428345829003293164062888426111458106332436291558770971099591466241905498952970890331091642132552475647250103497667051543283204264333232867673016283515277566135256261407706126329927086721865047373544994247783210843924100681683802651442684313134646836574522001454766622022887233052751595552051361829369016011497654683188440578008021193072634340903348968702027709986083560393684174614798048244502024087456035696586891842291032672987574542366952069053174273103191396970332183461606147407864427641504619423160106194256140365496660196995052748208056008673361839940951837759375299805424022008949471559117265275394861200717987225651759598075736734236288291703844792153561114882564241229754700477663815438604713856889372950537398389622088020260897148563755901291693027622855107191351553384410107554033583762697232619858245540653168001118098429798885892442962700710960955233895798952779238250716157964944934981450521151293097368453080588509576277684621315988456866811915305568678594932057009696085957913675129911933753726473300176385876879065824987301753305795480594026032880154803502580008762960990917915882722310053861708751721662385297131109574937610751590562865570871254171648725285068773500653123270659422847380536474025724878049747979945820563305712776657095421242723218590313317632049420996450990037831252347278541289131757198466453442226915742579984255135206812474337521972396540294476985016959345106088758883754142774055114110782467074108600795763883315703943520733037949615810295121217303847859692411257962487939555329001530361197259985761446167820893907340151177033645647691747658387622051468704767386223721386888671559159725846118764374524221106542386031632766725058377717129298904736216780829838370524834404216488232748329020321200691255195622503477333400423694536561972799370444536810755144705827550662437493401698749215463844798023844052735617685506824752161863918103757876666977697871323207714084282200451119109853926751460709023013710915003311863236443559294382156950464835892238324350956820002789910037414186013978775039513894209224316074319801873499040086374656182663060578027603840851142007323708044965904694969743503239781057100093142879218135313443506985586073508730830525735482296171406021707380376895417768069777163767813471630736425518588926365726881667001670962699342120608446367701531623875486358111339775566115017400758463761042264456926815481786712746446086919065680988111963262282969070766954615146005797926544916327900362643179221101247127371620117517619865921392567214706152669731082317536938993377829603678712933281500772102799205356667143630110372027012934920285405368159529282429129761752670068276268131917801841175982786023251181201844261161991010683270113937319265482402324473003279721016640573502986902175081803951793391177453091453874610059745660737665685660333769511939250525344681737259933185814012945547830136210287615736454828617934879583946083046039231414282430247170269570601521931706514364223719873719975427098457758121349648369355450739365143630473309454445536879040042971317304027212592643733416177672731054018882791037346878947495338589642112572683752734934673616423092895127979663223907439618451715729918515803981439781591013787168270163081797352181395166981264039442102706244889182558943752511702911606568119383448104164453291497572149158422937860575366410958685684342499602839634704966671003026047779606232994480912230797331081081132637490723176750875554365628666045936955692213559654033645200007477456784123889056577830314928620956331430397165641194141706653493965595266069558732619654419809124334922108338136104787347002754669750509764596060793563271385781019885090678533847559171942952700690804381677065981910743368356351134653279790205350926151115200880961687715157376295097014178568262352421436268584586327084541499813017535901265451193912713411197676157392871404975843731375295719773521001120779676718195677808723752448410909576600004573623075819125341632399327501240597430255898986386004110878588571181909140078135262447735359818632626249678020658881627544964541017460565339203968798433520155029383564865282399416609149749269482772886761337703339695285350240853025390696638374635131874765418021607083047643369678854982063172820001380778585829067088583275750497625407882304394685371948675564182850266725006934376056583203827700678009578552985906304034789700739927899647953321578136557676285779501298969470770662109367643505160491219894490080146458516809020639408647346169163460490835659013954834383334655563444380030887529359472026904305728571086073474900484267201376945060996328712580189653101417600023033298204741531621199179182090519415299789558118132869665901281683550869594214766248712632172089726392177639439687853235325104492338188742642830435379767073123228950566167134751910803705839022042840498301339254219272082987382811498658657086979355672984709160837828320378943368059819747621360994352853160435786156126954322233148967245840428613049338569330437631691492804456659072624041744408173494863177827256046824032968213303392969841814874585271545274640456317113959852228091490341884826231990780889970849891861831779441783053979029010333753023766828392621770850135687818229944482752019822913745988668078216802576424231860770013351991138629178538023216670331556810461827376391987098362099708810786155648324968596678365118930868992253617131490374459045713780530937350996131022593819417341662464903242275069224430797965953453623417131117907505185445174524586379971259282157929338270485979475387892769976553959311164457576585515561602613427662087787493910943126559878101734658271375491672483474495956838045705458641566702874668625386679744390637808746713164277359781445233739164801080070756345578326909727431031168052367401187867545052069274250188888669761062161446280016918641343537179232618392874132228123667281386703572146789894125087382611940620587795751492090711782329867971021245013544525268553088461617338815220364643444347588263697664736519120847549260557105042689735248756582449642342896407161493667022682463741403598948176532155903563187174351883549462352760408491237344389230523408107823806417757460782548111215177170001393002796293252559001417237425275072617619564185600055745844502086374725989024399287069574902417889554898774553806347209804479524741488118102032217622115447436143863388723702077658812003244886888322197181939188109957838524801405203401202794401954128275614712494394609936661342298917909757889131216183756510669336760090174736598870608824151144293532447032420802342148771046717583156330383570950651716790875429878231422103424583852458749362140085745120597513197920763964947183686741446443959986504290975035742904620126577051143644697829702183929083331043074444843357769801248395053070533182887938382204251012418706135822560907821030375538892390856597159264767011281377600095390061071867335695100773800092013313547455910460595617722608627259614213562335471302326061777733271063846875819058643764235676215509623610883411360495683086947539321034619846590659683775240830135517539875694879238206406871897240019490873548176113589249191969553868317132284706444809742265626905133305338005768352833478938308466250555441104458166126682802686314465400721592137858113558177513997313566005678291072487102837912346556106975155266601759398199904326316456155161384717323867858621821474961522148119113840634854064338814054459533921108852955864371099976545468186901490536157642429150456320106379898863283869244176139667848673140583391672119710636275124781074889075882151795645620921507494554188862968961397281687734116719749958934602063638365922300828184750624200541615110152103484976892245627408952396516064022467769553040145604321219045314727964436333426181364942849651786579077487026726253122308450880545638332452382498909765393991688370344911018795080177447077149550001343321261479408903767523217004396530460369899243644872754915641147092506899593165483240599133290094751266295864869298530362129008304881265439330597934305694021903550767766918173085974578271465122495007580493273544505718919857814192249289825185608083907018900579047599542123397360753381114830785838505433015439103703496004059640019620690547948670529207115918952184929363965589798964918018217311265161946527326086929801167801985120589276494463499995779883017191848878332861678276083511441337426376726892728423100646385197140132394110467267389288878599503281135237482378350000382057526975725094863413639501188836459021466270604265514797901656767353969194047841755540967579040005002438130193821048804154110365086153105121514391977387966845694703287211240882641232406882230397464946949613223116863107613582675434300903460320141934771991294950850418210900633613110048229288015770220739889996471818752190414071220087939524344234531578881880284749107419794993482438624754892995789045706518544730751624077213556943429929552963008645580033950655785154668719073895871195468703969166751698302792209161727876534541654726570492690381795684110851312634831223673437510332321177341630475926838089390993564665450050591968914484052048382403993455788773682215062425431462247312726833304567090616606127526223704415872945147609244774463166785181615674313402537831679717372155828992471599174813124995658054834026799127368472228198118770712344647070658851788562193895923406676233721511990734728016009026652703820185226083175462357835569588863580420942457285567857413735978146553568009577962287064202678078635545735675465848514730203910107853064934370862880290258076402401817792101398769347394852185665687016695113087582967892719952275816988944865291996037012813681895290228280172553985693282284834499832207219191719906558501322232357663202714074638598254988307242767662713479258301840568308379425142738368431211044894905946654422635010764467797344094283462271417450334310193595768320827875803540136885458901583206114711802721665850154921130306082363967791547616868739537950157865271783486335551417571301623564232315645295456383534936284136279492844545127776733122932059656103886540410118329829057392611768063848258218295163206089273294515876527614358390996819055619253875162886308861128878788638248840001407305292544408695642523134603032986698615665900798125113152200578294918929204985960976564897646515374930717508016919823776497444813960288228917546867362905668841272664758424801376306336550021198682755857389158794944656057923106726718671571030518589799127352372088461317845968850853841892224102912360320854050612159239015255509901184561914936180813255906164033440474652832704551484268624380227226502720365874994637600207469916952443876805933342168306524982322504244048603706485625402399248137659992298124480140545302699596711398591451641439843479425380954401019158316223890459840906092290572593463246672102025620244413086002352589941844660801005175173472308443484675928021731716903788080181934055350658120558291516348102822103424956130918725282534695394733959890286373626128768109443548585123184732871881910921955871815030261659869547530185371963340650248287876366879833420151831317332778534606870034739538579977090403341481682350427358607596945361643582933374300934126770124796094953607324040184181841971101669568017092451554974854693757721794852165492793268994679294653903020832756957496923577567800010611378890344802566283696115167532136964017343540619352710746120988298310074281608752802576756920605099642212457604049985738295937640278815501461949537354869420483678968443797038175699777085932043563194560353816639051348180473219050885873327182470163053981613570689661854868068445970537424306520987678827961281296327199944214361813075296880322938548382856900605437633280495017999360923310123011899518273819583476704473078848022184037173672333532005493258582395940928771263018801718346328191224256373013133373254623654021272699337147662350631445644735363959449627830671078885973067541246282144126716314858584457089505572720147364923513533804633293282458725806716797035457884069101199480152281219791693264808438349344066368361868352161973463476846127201234946089982742748908087607291815853352797852141611579887473066680686657455924315266429261251340339943082989824627496400687819502010696038531948026970487162722118013947251431183213024003993862451381855936428511003802428286996166436060368592412260653680393395460028236728248786332583860666646644290188074471343742416295152682240814160014973696238606355692049135746633887525678528984021585977476446521845478414419922789691202294031227428872598057816268582217872733890273301416020276606928897453079169454655816851374019175250043743022342458025289380249191385698829740267575800934673455053255432835563572926698725715068212951651531999830676450922610065399125671192820287846301561021651034827804662188316556169503839529866800713923938453973768276149827019814244215843171882498487645244885148869123017980764708893477755025014545383355078742367660773493718916563359100130001580826558489114617644602226514731067172922654482506100773623535014289156608524642494051615203607556299106348442345961335075315789078273635732315248628528630153466489815183076988859526573982533051635240268960013866483151869091321447519953749499384002476978060419670681843198276187734908594109946706747154201245381634676613401769547709125055470901079670571557615391670899711935766401343442931655812517562132870692814647395125291008202804906864815879918313145369336356243787764041759986641595535268436036344364026821239980371291539729640893480739496935087274848626087959348598053906369356614482590039747217299354520641567126442122224553687618715456596008579362405885477207018863547270573012020602070851537698640556119422248510109369848646384671692270106971070917140501636838937970172328517550706612366187516098640801088925992799822218962849198815039169644771816900421804738253610973205912701778413852203135005256707526039548373300910334838498198778510480979717359968760237286493898730692150261607315372898531694805683609726336531654465607614265547170543775382933101634612777145998081392990292167722783925528433525371566839862401399812339736613253532120530382024715575170078617228405748808098894348348542084413220073352711885420732578490824929956699443804315135386451122340342338454033566810999029333653251437838039728429059427217963579138084852677089868766514844373711395994637979851909490187219644258488499492152656788470090727029269364802639070428600006480786219078062070905820927652160089095763695731220834643103983472536445766964502506448622131401952097296620312241090208149570895384852018830121220924902174078978719172557661445444720153170611950563448652509268838706466022720297403487880272727604474360965702051340407965257727872795815203332550879079687047297586225868073201861995367137989220348565161472913322936078050835309539154586135188011431980671007121482742234982800884541794519461652382113120901770020933640855722061550540955702631088835011995432475232529073802401692585290426368809837847278319814600342041902443426999043907925950980753329029435214516694764239185910767260665845015556207474333396340478436542923011763693705781991827032983416056664355985940589419485882133967671342926000723116749603704125374570796693089063078265725898645680824960395101037092973178423755419732704644056619221593207291377510662090062097342102750696119515163771261302963865267640367254978832362828400535365036544524573999119946974632865572441504264262909551502539150628845632270096177662938418872596299056287827564992050269039954692856258885753775484173863584809301982392856154692078770143835742561183589987306144886039019098647694599443085381969605054632013332505391308436368193651454427934333740061701459836832770956095513674041218177842247680952149774614261451926458138205698329021203286996631623075184510201624335202512053617851542060930800780401387100299444444103282948974032053344519614763305045538861905095510588803545438449866707753894770985182925696797636376308408038551227724996879967481055455919425454839405045249135046532460932361031383156979084824646263572052805678881274394619499001793689207776248405802351872549941613062781044456275784003506229498184914684819903919060653995883123757810044558153309346180804724380146649394112433025953845868538790207989005088457272362346900802870248980885794217550372356413241622563763887067524788056716739549484370210760276569812004742556687123101215936413312027785132146276026963991655449410595621608949841133936094135279384910768188977830721886563386034508034085120670809253113874021735263845335604601979328861449703266695690088036846177563368996166801697653477036991663450023735745565314576385739656552223798465427175445770083440466259849589435820793972534935273979184855211254709781625291428200329196029272613601598250429322324175444944202898396823644318303722570928161473766521780086381601320200926940175482914831687382409247339987423444522297852087695411638788950151853374903887955870876857790568709518445224740701021965385189189619124257075369324981518071490679005363837159787264121836627614760398791681058013897344155950748885433041525789233555589649486697002624903882403587078681525439919020742167725858095356203774235888972043183971956541152161093108978576696087954081082782659884796311394205606407819419578865638987905199425481835427358696831437104696679286820461584779342745150892723935591627672225509017553453061467703218484260138838169207531119259485370713970459965666495826398204702007759348211237037873683721756662699960882968173813107914694800071485210020595397314827551827402319030195452178821365495616064981527796417990747506416062539672549035557482771315383777452525986343605624244879236328225438538347377491657336238907085723971415553603345960185781887975326534443437413562953738707273091439748682627674966886438813015002089250716526322379689924063805225406705530049170146937246692918303026271215070275393198507022032253972381064201449217542345427369465920414207813001129942443482169393818447197084406920779200300261744574464,
  losses := 50201578142875934096926620839175890693543788812973986263409162885818443218912939626721798969743181770193096379162769922995184477000810119832960372120483036126814172777560747673192478614988663951845093058184901062749746206135886030816560497955093985763387214530288318970201658447023997496598318127468168071564265781661347131457065818927557183197137501661433797544376123744997402653066025565165323685767664629484682684270979862252693070407152842560125704598438473077319243875593078843434859210078073706078237309495096953095644144554820366065769949903174223349770207420959100655334441309565962070030714892377435954852756726012731420358411201470467045615524157286889911337804905394375413855853257390416153326408053218739087008736345501511721912272826548156266582151946527264240954743537819196128743638856770079738720897867318680778597672444923408913896917984626432858213870661548162140150589423417411649559593954176238470461088261294486277082886713408177985158921147069030632138313895669619121226801506790524958201476426330545813959281853194185068181126811690859915467064867408103018589375159080406892691518408303379628615393537056783160293739173125908979562751500745340707770844400263800061891445494944537005682981994506406006808922542056351094353777583492939540113419245878409964440479182959320411373236122687779164734808582188137511726957824610533251425556398830439860062731397357658276641190092771002340230237907825975093661858509544180507740254734393418964750378629548504327848493131743476236704719208922137836896246333687553422198188614598159854630130427479964660126449291479483754444402095809408606264040489669847848050741166152847604799054346156878780821034542135172896340056156486977033606645031696297963019285136272232501515869917378938984437566262446841748264301177503159333601916510952017689190517546927907878420403824221889809335004281967834247272508008317155680482963713252826489397821997528890669690933768501436947702768106493768394065196151838130737137741976327548159740180041464354079095977448568129741709411466250245513590511256964720125100515937869058280369123363057753757299830662082567747118917418660104354964026788025669906078903461015515466099443714402208666591055760613572775925753197672285910234174649709802465840211412758735171201637500935520500119783930785476437678655491983599843324812586849851414178823351782809816635013561675309814249608763661022316670365019202353201578331887021309008701404959521594272059041912070157370860599734256666581076789836639348758171646611081990338253630075521123384962211217236011284277490614231369302219510124034784220155807820391161027336057598200333317292214666760310243976174968710179019757887053688695504188911279084657212538317411186829055910889926307899223299900139931078334774059237685569723053841940207141209859909471542195650237751873974665700487231593423167260954486116691606483849695254194343792731095339952685661366665952878712468582741141353867847616016115183271026720029609197228447613172342907100868800347172791291961212175879869419941970986680706704925673032647294940766608705642334554129011336071123975649076441273638194316584096969889584638400862564202998279232433184694679512894504425590097967916895310679073878511854429212583020072545165375787913156486251504083824010847955622958331196580494563258219275076692855211289893458105231672409792213446759468664254507224397431935555170057076143777227054802750112055582133815554171913959924772561826713879889317684090187879677066252622726434693369666757882521372688579337686653604645078507640448537015854771918110485127001882611277801886143143459752677997206400082191311200790011440083957186866800255440505310558467012465907880476184434607049546462448094575494429768226262787426176489317734656521557243276259217614170235657706481383160366553526540290038151995091944910660251596216178882711253492008271235374659048445314882538429650588835513296453458956918780598962466029625963951097161512412007146655813944539378132950890147057707308819731260026686884998740073543490578712893787706837590140815559782503166036185003483236715001128274410445120116481070170525483036582928793636938892833352889972226903245711677815421191421162735099195222036182063220200332694020639379735493151175826977990618828862356787002448044509274648257377464686154001491978598999358033560232164720984062230914603807567911209215163269830713050963146380748025362051715129154002066186046694734561873038732739558743102437280119022262325386884951037323949305932575244123607243239828886570878128268305100778789640297433280110974462391126922785528413589281455324755132878131231456131102759166230214996673515327737483802746356197937838742723311999941925572930646601899830502695871744683153226592615652319748247339858574155604783761533973842345072254560484445998146603447063216512636746696090545461074739440330232248373967498766886897573013117478539409894609480231541118340245749294895865452038822209267240123959390169841633080350824916370635844748149441327837306188061204056173300096904510281995266427130864282246281948142509294987055426954832155290155031508113924705214700974870616196653390607556429956571105688007787351264133240960745869776896347347960807655475957952981994368370086442112736552080655283535663922219680902022225531039164020723980226452975094518667954260677962435649583520598160827229541694810876418474804319408522748248095089853038096054444319803718418028065132961107445269210531017187561868505984456415926371774326513141831461168361353566126198023569201177987864029093175218321695095921985270224686479846740978799207662246808698336788353103566831824035926116857500696238623639878335854884833077801403437278114482770877015824152632375885723977829453764407136473263339245619287477829751870159395034712351975889970814768671328262271879908409173507225624370289761083143850191143698478597142747514407960739429167699808126310991407248840895110395541152766159922389233113361375262098910873296926213033573131543960545157175093714879962108837435124526547796106540713419257440736085421522991779400601738507571392090579223930546356130919901104499582063145450523492399531026789762722494610402274875351769569417457806081314799655608586193612974783135305787056994026022884216809159970683891072185415478317160692563685174747495601134494011049773258007610139012093626126514318786629590660414050265284379896203831408489718884733586918749050546789281868825538490368896623585410419453378697258164238234841558174863019731760001371006437819085084038583930154737525061210850780872819710840275725531983726516297939382061926061580221366221415065951517417387282739685733976035564530174921627662466773505236524002277426023370773944234854644012096691513514041341037881992990253109368696024506265654530944469428381854767400058368836905760822968056504109679259643207415035541888275562342506585836213331584932885629495675011847954975852081796370848683991954267837156664779925507267320318624875307535579358503020946268134960063080286992834497650228734115958259276511889174748561209487181747938594508952576918862874166628469079598562824808249010691866395026133877198573219342165171078667725615083666211899535477789227683981094944746961802230363475897013816239918620942683036964721009067034029803558155435320486910021270411186642572410128731021725608230248793079097720439949220826099256052785957035118894906554057712552293543843417406458926614753472493930183618212455587926198761984797938065351142436299522919155009812951192385706661276844258535373749042000017414433084846197502007023231771330502718289886424507275365815149061601285067478722102435303187261796309412832945200134224141145512903454144094413890016561375235186298491554661938726845968281357777690926073643538220033574011935444774938120061300102389813976601108873629105850063956432504840801474432736361362892695350560618633094171955610570300354512720180060573425618021761896230846086455128137141262251336801081009740687521196176403522636140451709654023188326980234728407279582498821140397793540493143703533076442472812811727087094607529387455054074835247869958025204197057942479631968022766772549642993894688786773368247886750174403434719781236572519312727546039285628903059299539987131000159926058065507089117559115775070946554120734765797672883296142358238058342177123391257642465707793041532673350729898697858390005637520687744651859585698967501422690010206373339144212185247426522853644398278117325521365794340027429175365550790776532328634661818688736942645515491013697239019006526063157858426467416961365789004267731354213166913356598169439001275649365817951621800321385930529895924441189842903733665583358327064188811007596870509252866362402765337856084279421858274969050995729422531563929584275888907936922577501151509133458311815066140507401985530458670024975511173442855016558603844448770244521026665790361214632451677218240913798412537939383263132377395718308120813349906272306592379519440995201693879219988404543092717974608951171486354380702868313769486513534362206198686010134132756714151540805373435870246879401345320603705924294303979831430480959038895296655788290701804816795087140858031691469080672687419381471647643022060703478706137683258791219378939506688289296697556362900062485328069391637438230434275747675141517825842071732266569548982656165198740019447111827099083231848245931513466339929018689627741557973205430422141091348303409694468921251613348936638790335458421789574111942397286835300866276781142042276797913799968335359900188784523734749710153296382208272396697512809227971732730976689269904755713819963882862201147861848194260609927345807328973666244337693041953643735614597073130808064328215250010383436820739686420609271543142460704703665751347907122271912544309985155432073121955276054393688255336552425581101669861012443419471594651672286957950505333407965315911188660173780368829139881500371261223222308352704043847487389252144839524082530688913266564448149851762531962785105206245401491440539252957549439468946889819311356837816310452642013384227513115703631980572152449245571341238726523051602412978493935741664323029405717904770185646486100721572177128953854529781526119964034210891107013830496850643555893103423719145196868410723558761325024109695985523262948238970816600459627925813063014832078769631428853461583870033337244596288414969895402180316936168687322823810719682317387373968341743360559309173160275084038900179338127526940246023976222402286742905976945251689856810361831624064730600929445917009003724900031318181625745028460759695216614396206766083412415681088128782861089673530425994351669119676407684243567820918505906367219969380693859726999626667740892250720350847490732479363506394252776802227723103859691997094190697985945593036245842390413529782673571085226709911190055008841771220290662971695832755788566250843629898117881983959905881468079219824770777614783166110256287422747483443444525026624362568105966022114668040596720917580060940866311950054319950846485841314620558495058472291199467382953050074517484090273670733263226025959374317196680482406514887505627680831345660231820646309564614032563234681446486804779325150342940172085496365552414020467298249933056970815215370579424460925011856433357425316018283470750924413406500584305781726736456730543549591586693818648278385181193375166253977672208241007014713076123810176027845268727227060409857103978738356850040545030938558949003297753824745849387709786482935262099197958976872311512444501132152720995433043893983647619285971345458126863746965348515333764083234246150550296432448535027376323051903950036942708138416290202327099582656649977489112029729542247956321826894319664983673208905318357229919900903731149073618464737660072784372028077105659026985961369602365374633803807045952297974433136894650226684305660627522697069033706248930502916984435887486990789928111999921781979493515039817636079808666001217030191925055697481805201542792618079420484005168277438649724083378743870549964955068328658825559079738577885091479394484965119231753185891864399333106676507984662177377703900073698864558584230461422489824426487863985965309041549618979884990943124325047626213479686873535706112314839546414070207816731399377091106007001236176979347539976414200237986735977863203316665551469177998080326887570337290039689537956557370772021163599402596508185802179756511272733490798325989124279405541822284560218329738343923310034569651403126029906293073518489943238678001280807949397433845937308224455490701174026433748718170958625950976005504058669698370739251961383052643125965137307871330997538530539109363408365353142952866335122337425068989702958747815130264370763675677490005012280379752693764563942344119869219325855026302254836077574024978732588799312002979047731894890203202144578484320341493458420130839643556076283220243596298561959424297419451526897991212885656290387130080554356921566126580328469737847632446014669034778739524653738357507388646749713121889649705743665772982188567551050696925591043299117436305609548024609004697522351052930884891002985939964394513808564926985353734644785814145933847304304599070909102679951559539393310678682617731233395821970324186610019861749785572450278841486637169462194354692867074983193190631502469559161360787055445711390339760961497494211544117935500316326107565725917125346507694167183359759091358704625891470051528604492002031086732617839817580916659107093685289414084293106472919759425676505039505166516835987112272082412646338640378289160980723935647906327902397710328986970159116049416211946372566831892061618550044473275922549457413739465075021660021885994505159946850830092036518705904225427914253001487112990340177625423790612572943084746165769028951715769975692164599816566031490805609476766980382129862179662355982817185184204181264747372958637611700194819987580395756897686047898159600918298059609615322060191461844979589650823854094266642570592822582724082963250922885434455685400670361659448719522399415262512593339632471181892800516910892911602419761225635083899115440093357915109550633576421167506437738614443810260835778319162069462739605312283831718230952795346330597500036771857382136368307440168978450884581825392963443725217374857040411404276516802490189621536774270333254695753560839577222252725106965615519648013784661829947064460206193773808734061452666765300055757863966735689871773527607547675349964103275400825963804911240761070596761770012431535272597495735922824736396565899155115901964106194459070257613420730576306431724889303619913018375461547685046523627552930150187266433597018376406011525602643269451271643638186063754321716413504630270853916488045160910192579512903077620691911028068372910035202388239735283616580011060764714326322353213850644622277701489966621349334056189687084900286845986307827258549152751507115416758491326264670993030768041608403055799491995818988238737241103361402902509048901094056609889558041028553642604284209258327530406702633211792204925184380949939534461972962955835064611204310066762604717679716011345366693672058480347019832490592134143258045799354118624639861636994645355958839716108109494227546114094920585580412950650404792714761584701519608603190104498965344861780415591573860314416505953335491311583732990800169668102367969336747079675032588398889611344136536682769193765013981315397581335907928030710370893744253229359535019481238690667733850910892352108728395901917093425616805310094329728031401361514066794132000737465405380615226443183387449620859849178612766339406033566801413305105729559394932638107050189699503603738174266821031816969811859646223843156440417276238803426672269554557337716322997384988846787291679935854198495322096964329706031345509135073237741391867532586135283605068344588110184759487343433773748458097988979647099859617271220385197226380008188729194748281592956485982126475107984166803612172035930912740357515982418738562708591694431464965100231820519222320648701393136784402214014328715824790292089316558275999311777184269478323193312823547344782944156966758648939975704063592907920659389683908411260398655057690951300917530960652756267034103007949096055607831231139118547856231378124613930737227070102961102400729682835178580096113456524874992172539500160642680076398831144880260018355116864960717891886180083545215289749835751561502980809296975996415761323474058227170747777258750852882862522749102778827153736322476261720145936068263747275281860822767868789513785386297736884117958864303699850319161897042054866951526681117552580526002530121743456346434288159153876964769696028500086478254275456736785772528747578650944549593467353219712988956591937375322631919494280505097849857691501503144611190310732722580026304761473151251310465926873319295606511675974409160504766973738488736944064642622055485254116277548265805749607763443008412561849388823509988643602097009120491252001624244663815118016667208673548942421753987169553764468312183777935333674412032659464282609932973528528463576411443013605932147774182713254864188023699278932679272945692685316863099827327029668075920573263934755427998088721910004484159269855128129242641515288810247325024393790314609524654680350933840473355973454748988495704260806763496259498990487673997206579360082225452897746785970834812700903900950565760218371464855161537258125905598086906397595568656050959195840643935735426868971894736138553193072285353767127022053117511318445793217645356372647548262637902920509638653325322948589591306570934774003913016920379672094375916683394971133353818706054022734939576724299032060707929985435066682975036017661451928232240187114323859660040810521653779437150627592490712152222798359264301794552237178987227368639288935948145052079206877828996210711484897103548299086011269328473001417019800083401903058344779162047608323776708397500073662707043328418826516189490025594988355321478842712040636826919742651533665721085364748670355298551968655265692505798973537670446944201104596504923640804901357807644745591065245271149750904398435572876629558956511240825184952131504295098459861095917132878602895221430588352496740909177591924715715739763248048967154149962161145946627170233354306443106194029441113213730299182457699336756664728360705727613690586171930084225799280534884171581835807909368004135452150471500711126014777369463847220545857753481302213303627614756163345903747839751868848240774642236833339470062889037886184297351674525522494166888540161845144355821224190776570818230445988543323241243957162431831254031506005197131627400179785388088064702374771619291876552867950276758108232870426615103291903945890981113968315182578589582325578079451822287729599516237768193742618627807908787557149776978369135319314623505001572088637286459477615501803679754746486941328082109297628797005192261529469592221726885855207109247913125963895948489628582032631990218006290123529749670947085893266076548532608271248037507097208698587811908786945817439727680408522890316106111762073282973108262776768156405749471042315171086028963459526726272882764128717777194404969718624915555270656035607162124452416778524172795900704648619998178470165397934377423607977712921643247848378943660946841061567792270241475315507688900403311899614885641636263178825578027814185207703819332872593692301322108851541011537299211693133898996079489718926194444491861976528887043421017549180957935154147095530977687080034938185949012870928955568641490791082180998127876816670360856444823472364571354101462199474254007397682339616309814192988862874285287909682298050301375640729271675366302353722373726145274091774975575301818091568097814207387393618283485935090254953412489573711305258141601845087210508241908221642580096151537119115957640087491348181455410686683966957174081248102659847615978158982018346525695625486380134169000753750895664189534647945398246092284164515278378080140044175609265584740782807450143396798554755524859747955924390330438265274833489067448479757494092884788205651366073650832844622954489298899628596966381811523234846221312385841034538126560847494809263934984981299128473940348794617370460768508432912239116521893276157228162825546225091321587974861799296210117050339264068945163559266110147565057964277001007440228487134571465483852330878165633232290501454536555012156651730683837356021203608257948135038062503138867542088005143202909678688331744549887118463286473298384738817445492238611286088452719796150303631270054448365332930099550064556522805511725060121205031856921808184817093974339288006636784923132365745870719950185483378338443069714582099863816494422577890804554433364786548063866109794071176568058437323808959824623483996486578969960002366452575082634240216298846976890715088354348481195636147160641811036254521770624968330825990360948085721801483413196880180102336981093881888632829846370991731926286839648915050585806433522662170633518073670059805612587936146510936979116475432362326398661673867306210071895009432653601915811930321246936108349249244666295264547122628931992996278396397566956851578582778429478440063791804407890940924015087726751433768150145208391800002706029630378455684138673566251713255022750175593447768810039032786130623057864746169860107035160718882263268632549074222173902682997196449710878471857015193648307199483075884594552114402555859699372930625210639578622429797348577620736497526923374581941545705856555830635900013247680209403429849266593873660042839225989170863555958085292023618010634967354763841967065663653176966665737318200781180211335680640702317034427881263275053625504341289213647211999735461190999790326277094702403316043583424959701099334413087235884719738231948981430312901302463055136084707116753429296146490352375227660606545106784531214860070842072007228517243155981979686912570467464184057047257087872122527409582406583082380618508137921869637898497640159315082400421307810726315399234873205778526058620151184409586721947849218249094003413592467505286462907319412849245920179665318608352718554229458691220063535595780900019703151000084963694367921518660686607072507458178703722490420906268506168467068976902687374699478804116794412544852787718377225310688746423748270357420794808080607620217680562002154837137918893022281807167320672551704314202642644950260227910132434696237426389014770928187141655589653417895785285090262765913167738837665332313551733672631016079420300020079577106948001241087152192604849400364167152275185830868768758693684552641748281878593957073826273013931549658410267604015602581595464330104519590575690589407450768118208545664820672000691101981730970014247247733854597481954251238938988425751549044034709253896778051701269100042157859859058564719797742513951915439661796270447882387239999159147634273717287666547851223457951942056086264161608224574817813698005472701893647009400638285041125126832292790226232322155344811097577810752391188290533317195707380154236592114062137655085327179720833836008356362103080259870945605220555712208720327767374257649594746626960313206309552073827384719139329086864699566842657346062090717442677299986674476590080400144383551678874443007467414177884388493273679229792448436000204205356992213098369765721757491800688515561248387614057038274319663885244943017380388568669301428329732335858227761078599818307251776512803420271510232337816923839085133055493600578637124798229865304140588466890229369067388948465400230841339475384741368406138844774802147949388200802490576623562438351112137472625046037245327375010341352193615005154373884232306792820168641665730346219475754981420279147321801499480044593279896603618011992971163657722647258711373776617166906032337549197415365079388892366760673207491236358420457465372479689251012374627308791784430027965695597158223407425721740278317067216602597684311830345144964060825461538595492438091715786775069424435502605127805206922732586124452995502489885046103699962797325479799416441975415508147567092103644975519187785851483850885281257660230223512868495010601278005076300510993836931367824713764882405484866109659655449598108184649908686106779157873091295507423916736799648590468258036837160435478952540291280807816857812878324533716020876466092330705335280808982554526067154764199938934666076769914095034667751643239578238868561522456823270391637311403464329921300228699805651216002493897070616777168004036179713207717650789732728873162605660912446132351754397130842995049068501836113055124237056175645060349569953103858178860397772782161280412602313672470685542236290383389562279786314353982997845753135366554920709324087721941697254726392591092740062158360031370652355234241361494354220796665179648534944312642380200626314792113841393358312777676800155555304724047436370921409006139832138660309021953943618261837030580121875549223345907119301844944537091437550495159842966935011523154921792784056226482201652466136439926944268367651623606167657810205729244340155373391641850314347998509902961275548699002819260701600113223646177342963657884542702197455872018201633126769390126012465666710047956874047807405540027450475552009748779189374908701626909284570586918006415761407855586680506379371512374551062498756395999048444737088797695411931816885098619201168874173970035607703803048772905683680280735552697323554031819069739532995444289124311856956403453729205190057080847815345514474774568480722116096107538577775747577979665577212932570067917997510738486192419364640331763632061014366713170484736529709010606357993789200943742369576366221659368672236264400671065150744870817995296236428493517805971304798768919998206926234983100531343853693244540822967301085708442805206180854293570529704812626744611121679937462588271764665388008897193230867420654430353848037875679249310308604134696134390546196266410335870061587248693026648342946949249130598944224530579466499765671656106474641316342046987382282946142632432004541494340506003125326397278413878639939712329684338478341146776208904492900070411350958132528429264880442234626991378828551457175174584002961540182747076736977762440279466020873141686267431703908046498634719583780197134709561412303439351719430636407452946924528719189238672298937495750931353395863129804411983089842083431481299229136348595222189224528119792812751270747943338301763277529260143731775094635191129162452979995586707567163262295392701057132356671626765002601218126784747411741650113351698194254136280887121180872487250043162794495243307842483481300695046956745285587337461285116282386720942805721232171552378936052644473744809979649805762537714044920537613131702138798778725829408645690814272505181827185194883191467128475306733840868745149378777164689224045703803304663787853412249672102816136054000360934355935436537421544930298598924077558337588766990085355194288666932887102323203738434597280430455225159332499108855729876747424479583273696495733261301608774951167457528210099690623651160088043325608060994504046726095141545302202158453828651210252098334163056349789814072399610258275020804899901425525173840348973371989346884230313266624957121247193126739405562009173165230515889145539744722702725906263150963281615699005344810322912900860040826962243983262291990418919065038355806338940938970456833906380966064081245212684335645226780476680806713726911524038013496829585889093285752533988226245436947005937542565902670753021150473166670452883490282697184496376150108892866982437326011669247978995144529885414404658731207417424606999310613970210407990882453785906710478325973468641194804357958165761358997397205788731633339502078065800242449397660151859554287277345213059705329097168462253570207329526987729161564823013138131085265822953747855198181260190290308797326169624698658556060004503866954655084499799444625006873974188622036309903838106825815839229684698834476861589119221206560671429746745963078078203659994272210187617425015819405483858954469386591154264409535181795579407322058804171905923537152718651499139885066648594804482707417904242957812792198175392809124094264388368618065119091487289166345475359564164508553055071334475263255108446394979690411439066028994303319783792715302344729481008386228809443631029068674845955258883068731144834840454650883288744267091159511125972073420331028453916249741620914084170372447350346439513619674384437507299461867985340318645229468260154765625833160516866519705937796871612305600282215452070085477933083673261721483709710947289206920185112557501428534537382218041969429687534670341220087040744651029148001477421142907821000722323709899689317420576032297206754558940244295371719368372371129436843874384723090823670100840794789120965683966348190338603765126338905884005246511255155230771144583151289606252376276257717814045644644134352762227860852990648554855793961147166517611242198213216567753683224687890659373505816499550508340411042392151510086485390548585765380011865419295409904950404443061906380654044868122977743198363080386436492335191065571124067289320487965132260873297541962594372378353008369521209471717519812818942562333440962187872139670374829192956599848966383319560088758541928361438645644450889342873194627497094162160169560211640185407753753212994363557239600027497075796564976347726305573155027329237957552753720201200623492099321040549476654678531585451093335294536375487099799017233300457737982328410923440537216926164460011054977758585989571589113107186724081244216659676560506309333012054234384326466679712001596762474853710269304166724374995693006927928990496523283923216262723814942470833287412246373583214744164854215880318593842310390187865459526986590331665455837973836371936970182131077125903721089277323299716638624758530928738921576039802947590808633821294785355813287825197622049649532202339334340592335691662995240987480765824939543538423232592144892814232674125962595811527255127056497590576131579931962202394802188881741328379397182607430872393213359083044641858981252144398018692364616799246205256987848282715756581467992381789886612659639756542370953046045548397058189378316380032492284599414726341766503019998506057302016113709627396914882075700137266114411113857926224911146593630246136987524205220275815832361595842754591262316106297689722328749850586970912707016593922606926567154274963275539118271162833876247930960159772683557591501773475386426142507999202783643609319912130852671552166779956404215665747367745878181795379227316296814921973419947860368929466444885277720522755697997509759904341028216554711761455507710441455390340091627651225010723696039819994629868678567869663050379878807968518257748005845574010309954070424168641048752807422320889341966674288909891862433592339824039317291001319376151147729843824543722756326951952926577362067520743057309568421592356094145524337607602041062060475914076017015925674544547526965941003895015433472857366391313568241041243831622430841210219974282062965702870774715544534568221003781504005532733692841537681241845779526171723820315918336611018508268060425359267401094477484738685582524538872602253084873638700631929566355413168123328552384802990006945162771925130400443987080151548596387084273217540658680695227970883831622274566072801384448932380160357794697858181690178540407072040786793848451670619629841396141214107535567116999543088950899650917404609051450203414224057112347154258943090506317450917514331142172831035604141656847176549359394140124213267345362076508803330018353699401728323375639843822666083513125449960776880335491164828786744242156397274845971634315779804229997980844368095876502704422040003778087507590975410223868866108418357140813111635863162327713068733728165341317585646581103806730298129797064430938502996587476098331754017604044498989881584234852728338916293948989717650868140220756479259339721212983499927550367003812305285485464438867323659731007621394977260874308983585914467431579776265693668400443434673560703311747892406735115280007242587524370788404564064345317363428927511193176258910143019627071459037070587278465910154870618607428754663597373787476276884978653194672499988418337482052935758083812485807635883321595011257601498127057975680154739069337016371829016225200980145507689047088723707935256677093239628992526237506449218656016413843717905171183599262920803140924045399678508872227875609990294693753853211227997771607339309797999812017817711963349568526102325270183929615245164148026250324728827271409854853652096139049698671221906387521917856100702879573468705994163216665183074555242400337305110717923740925091067318040061057968203842359787545258982683912020384020493453955699238541891029683383165862489760430878637870493468428619108499682131133429330465419780805367459885356455667990580588404112323110805557287572437298121279397557972853843733762588143209126097767223898111596914718630706386914998196852552324444212058708148693453777889691713151982204776045240094233684569133212508408669317540676606912975161864590429310293769968499371762226185324265720270473171238069905171091009381297324803132586359092750078365906053620913904362843762087213776909384286051304103367770310142193856039434141338112149130845393772494847323951215502567015390306306041527028678530665075287463525335330755640806348531930182148070166089004619892831474293542957001496084285576194959421661023428605807975438761796081728771659494840408422771073833242366515300570808063396946078411263528070916857708197855715540313443999054295191843129606626393867848789774479158789931567371729854731088265325366238568517176411274399859026906897201346194310130413178837920958563922583912144345719201187252559233242108735695333119681272307563761301830066867954200002764020504798424368549273913952337998961868324359219806357439662036303849666243534517552685436715858361644750631062922870474997486324512535882709529249306541424143218915773420001497799586390190198985608061383367508693306732130944732362694894440430693701191225135326795751090150790668665835728686028808205566580402652957743577051574844016642830399615506269620366261305201332909014123847649961210850100292285115019616449557345840528859259634390862909516739558869062793939503088998832059794521704216643268705232146779792883724799790765853602906577449485394527527423323246202487495281045191299816583278625984644142251346589113989054771861070206508227587656005034520257377263873911024813741233924918948387242116711466782647656860022350962191759382703080832373699025527260844739253921524787815738421650519079067211778000772862648396767811757064806761657372485915059918145851623509136888636289032987627179648757669649332748949404251901343550197773438513837425730451235593117860424022054918404034246998233938453967250109899569189211207827543222134298771059362965933017102136716304179370987846546158900056809823564820131258095308968764709686150313569100546187188066165530091445122077652176689247670209460435597621107836361660877579397006197672945948237299540347952042643527802704851292906272376849547086362523378696874959010576717119704671854028617053908934332752243765530391321678747925228638620962376069129231412112933181198927792533904374110584158920816371126334868702667994319131453829306079381600804029137352584181279572347672171287551860233756947631055557779879521549231156247999319402538140041938670572075162106626562167520352506622226173976370402648815021521419609847197033555926853856133766451387416611209898472979638435574108792924142903881290068809736751107064492143977528697796147373369571220778563278231082481919675386458390995808919485515899376397991854589421530001220450387877669502611356339265618469538525655884201361309361501844636737088154659178220192446917551706185692690491501592097921460431793403776948356450579710843562278185041285032948207778595418944998114943501063218214176330858903668734431929674905555894522716719040061840800807648132070394710715623615141418108019159916565577569440666807350399848955525552358914584964530594787529613474471479489967068331852944827810063344645039370126045389821235803782709755963478465299075754956285176488332743172427917979886048877406145004797049464003782583524686929062626157522388884814211482126922060156014844020132959894208404481481762455852511017005642121256128256268405238572862638385956648764041882748830311176482156220813894742831770411572022108282720337116624015504104321952049864280759448714556300950915955934505355021793684888126122511497136356679372726835745560643303554865491609467600621432661946362395522986749014140082388033584503358619800661449464085410741780261306566593561774536255106435698916985794895113054375837024840804967579612004298972982101831222970607610714853575549524635592084838511721463736660777822004689862002443742169894501228305182879969199540480571058454999635355757707960935429967737204027325312404551776785708275113235274593681653433893500302074628377275797705955519308290669481492857230699367007251699828529704627162512550458920450177386814880594843039572660894873323666731508572010405322422349597319529480043624531287766159524534848832688371911444320425873380190789864250511663727809709896099789220643356581450064726541983440220383411199246833990037686508470651693151029992180300047139429057867107053509920881909242760811857815209975191752543708160174419501663886147609898423586173927165256350245780570577523145450927131695936230544578651886967673098870928405633164943421532219899611911814620594566415533266077114714794805060063786442357935530468032277955297278945904723338109947487530669727282577752304486729381086917555428580793094783571182493970770607424562698315460861412836705868055429458598093628729650088574633482412080205392352524101392587069855527775720345313879002844252482721441505620669649122178440187573204368763472517872600097309195876508102423937171985582590967406377715516853495237147758695437345938510212573777849672027907289762614322315175115823062574883864015654613374638038400940403567857440068885886691801802747065330807454669492882894449837496749268270466743094491880959505934682287920429181975263839944254674830281193206476149256687937966346744783418054195052269653046589460752670819172086879990044406484491591572857280319094900314520237586300881453665196581900164778458609698118024311382703116261813010993201979148493970336302039823598715214292089809923164962688625459278427758638241812508410704516007292131804515507780104327919666403597457056665357882514652337094638150808052557017790565958916096104602229735570555651194990700367787381655443717864746711503837978663926012455562023498061344752473222658993307656904274584838037699984188178369946724256399867517384617481680869912027519174972858730977759420484671413649800219228201776472908671595411505557837475426412123071167480873657472033183361542893349554467610211660379952245578570841566321720262772743349928218955905637365232783726845164734740368302195555115171112991331008028092320856662978132864454620696202404913515982694450418810403610617679624579308145534115295526890705479224852559206202318839498216707443778801179688001359792401023054215670585189003135840010999001519411001841745747008165879321486857520889505642698225485891808304969859233259346191979132155040680954458438956100559485299711434826381500950778252423619600693421386648916656944569405362260148720063635535690824226303887209110451620070433835396351913878178914640518293860123508342992421541170912978358933047329740053754450268938162026259139515089197604600927901159790042222300625302782256087882280951384489581100262318368772287426912935162729716274456775878733612792692873160175561599223561429004629344209860909943258877404436815742463575003086952058495856112086119131126898547376798035756300340726799920263848135239081824087332145977424755186479834648052045960339013554006391102403804043225504487108995020219136967694263277736251633764102820098949852681841222677169921964841220281474774785985048668709194811931805801423431448539147398660091310157663423864339272347415919033523598557683248841730517938858102098445944435790375535501493065800955125731416128844189613143249912051379846111195936634062465360030370669845505139518952232681417015884688138279553624055764102556425284253844278791704619625010676058597217878408709512380183177916658272958354789839374275453752722078347786806906425427227617551158875632112910612319821916227440809233519378450132420763591207056113883555144365007341402409966617449539193663527779722021880124984224485037184831893683094071435499150575953957865117574495062664614861482388781612097298238445070742967397787013592947811156589528623731720870547191639043224550610193208448082417877115200504827344665482069605200973048068617807500511558978895295402354494676336156938386691210189516430499427568804814353312388208704313090893399826698941926478111305181257739450187698007801887221272953506485137420869899106843171595244491242383516237055178559416006886793202387165378075909083848190168909667301934909434610216355888576385347795087386138446763898594301471752293734573617318932282084246193898316216829186421940761494773479403337586345823272230723268404897852467351254514004968375324141154882647949793888335725130615116184574064083090063267332160341990682317774734678025935860480563580275964027087281199731849057722188456546420390238035190655670458312260250029231756322353691542659514810134452364585832450420973309639155832534493479770682244571701042485271803104869167364895432557296512336245111895391117337031260145091784847259417374624623760690907716294612171162288538868796888558067478709421770259428731160092621014609911277065021713239646747502913819635742714185563495873916731461833330316413683987104088120916337951603937166212396623688571936005325175805093655650861333884248525627736366738625571501939641386654577698875779969494683414729718820148342677390192263505933395336150382324938916043715733142375660246441024490863930274415765389557199015926692804597043945489095613040787155376884854405677121454851907370636883418812789773219919573647536348992811736002975726185604697738662801041424062074442956276093505864784460680231138681840726604791064637558732570052156562623105384940066026171171411505702159285704112221393716872162108891326878042962122286325550511976304199567452669316396518992335489743382533811763648063776039222631146085637641294007839327634074126219140534861603782166528971368839150910746000003722206609348364534007593814576802415447726373195378945703474166430411414290946932948043638642052851013909346337786833898675753575896833742292497634347898805109372239096669230494558067604920138573322499231260367300709626476286639098169205224336281797546402383695226559242674783222520024518123406279951085448857521632818336765462317832095852046174311200280075271327182601176768221514649231947807097838733429123837004896180929734363395063739504239677612773985936298767195337900614103767906662100477480410713975252545093585110422752622519852075196052153205691092554451867703215701651934172566762287557484365549447783544818429426328055963224734474189432067738638330837325061076195752275713676805190288844639492153716021930556424095149786754967582918973336327931657166851983930270048082738626326448232381534879402191236463080468723632804544331841854151985811987570671800959559669229454248102579733033254998511241258577956076762718310123231615471308959765600036302571622137606018835838414038721374813088273673284713881131780438666263601240639529156139083769735712708834075414151084222596851611544428461315758222548541130920926266410035646443834108907524269028256884022648112309634734578164820948059346104526191623130445423927165159191899810395021552961371323706960680923590596111146982763485191594419342748273126737110414289282318873393547181470618024699124607142148280566619490493870341453048776451749738417010645525267009793970752182220428200287307718379471872036507925707427218822745095194153547512000267782004290899566963557082924078113021312035120127151518854780532740087382289047453372909046836380929568162119096495070200293776854770298590540969678634248898710517495207867344590103394277055083613303338764124366401705757946328024596758885501768043529671982374053861457927287692841420620263316259988234955763166638356197678408554580623863045404718146681569285726180554555821001093951846406540844441970042328310669869566883687497270893124557193227757029333513896012240309137990513085133892221091472223560602511587706551666603620724921945807961863779071945417427292017145494448044697634852954523571287574218708523575454578893340116250103227464686508502797138573682667027289087401133555245792112663646290375604372598141885754774549436501844387744936783519891729001848447073116344880560361015106073643473528813559411686463661349949367728843409817692005773422848356972078501936265767316719862045198472853327179882142756431788099362575808710625002907225070292987810522654078898074398274731485391404680016740397233434653909406735496664703497592662237078271975798755936672896240384048669689777542828249079638436671960529709578636779764816519961119543184158650246877194406422301201237538699665643069951273668296691421131759844798372926366110994767948038377926313164891170395809204268947091132328784203843446171144387157416736096421280542838291124776412910829065439814573607403697946587025937994836641174570696968258103104511689207548458038011785100835995826963000338126271427352575963641891556083402055871139465261034137447765443066123467594394714541476247854823025485515500932978693321403404686307565446318782711880010464995683550585721677998796528914672511235964117143968621096514669252214897169810990605862198688648466568027999923321133893655556749264511807291400099782020638537733734411045888505146024190527691476753810539766894572075449018680261702805256171942048081579835001657545883757005624565510060037988826301340672943657345477692796697731744967811026387432910874551123006145225582990499003980502324929159208723395328777396049348905779328544103626388099258969779044960162898082068451514551246567091031583177416389922684791548360966830995254281550062112916118060077794047345040862317872695159180991793459674659245881163276868819352861820129639279975665181393307780474937911915542112577706393524590224668246116000660241172783654510991530950347412873807537423673029936467203179158601851305613796140263632199398618948749362062237889015016614775398306008026083795734625098367666951536695907359160328716225985896470183530521756694108979609466021980174535331191178044665654198770722521502697418958331289404721175437803448916807607500082562175410384494139296595312523345346232922455315486421539768459442121755701345036009993664883150170218681365591214159210424277864203065282607238216999110376294436507227977641976761160034750215429019789639002532635330130710057968680277116526185184548083335321892395670660027731663578546877183378695046413377612705426117638439944137409788660992318751433295161267590862718636479861620732334562438917759058923465648482242473896417417045323592793548039095704207936165568538841890707490308377068467413131987483000460935398370470253832878166568769589878655028023962952538211173185828087809870507795726084547194850918735208041891373332338544928138662639509656082638942758866977994714479333168747693427443745364412883281398545905096769978234798338251324486558050088768508833810537004860388724780725580373147288195876497724936607899633505511044251913798310083332054345493018993719585570572345105144124245664714408801544375973389522765958785372507979279904279500597268654800818221045049477722083511706475922012906929300680578939749613058959229949444367926616000293412305140936831660999916023580370373691317593275841941906092327054806108706382796205751642016988636950054589793314359909586459273817542031138586675071781037437185118691707286018198150357961143280449459491822734287686599055878882165854350463968473659602994872704638030733932481856814446223830669651836108016972612223594606426015438169199489318240473509751966513082123934119110467373639630963282430000342215139821020009083342335549196037501911529242614443463342119724173216178620911054028739030680953867539914617305772706339000442218443534507165538808619437888332111725428842250029366875350099534962137546535063565921954728112447243043649275570622694948361945288821918947330727014392183061996691122511222337034922214209493616439886134209847425991056568985984358854543265024746600490240656630369401144512172675901935208052530757818517118535568072924938526517133731620730814891069406940184471407256920229324125491555217515773520296482688198462786429336159291555029150268238431461304799385574100687158812263478564281679382714925675049277516785321571672384661614100231774790736176886088936690980234789057946469920568783089470618711901446916313478170922738438549655930456371797256573884817082126562711345776784385669055315396282145950286790838600498132864978454954741439938367433374539379309780230146290589307150556690417016441868926176943986578754408544531683702185173221576659652886164890175503315946846683811428651417815979567965290113388880219870686849206041620801943473604615966220725083623975032959998877743145740184566450208145779230033918303537198114460330753540600937967311753020157807695008378165533711472726340626718299575797715059778600697771445374737555832219325021243708075126258829487868005783289941762803715393002891687569247585694460218295274905838310564403365253142269876033962238482682777809775014815851505715596705044437363208777693021555812545268935604973622816355542940678717812839281313801276166980920338241304441362953247978160892223552359318780908306324462914106540305290391091588562760753031577031879370353502698288937018513273202935294583401393913344630055030326063525172008619096470747062050018529690799308700997362842072306509789053592225238723372582993774924092280631298980702496746650411770389488926463860489600225716898009079622901989668838241216642454036472807232516254258703811057931951776760176152750416523580784274019660805201897778171581895280268021211609962915408889360191560654394698363314708986343205921795973228857825010697805716616410573589387012253572880136864890324862548589212015069695358297674602758672965088136819781857229878439414853677839869457982778611935494306795692542045641672081076718000475939394435868507115668537425616413949650030782673410065419527587375215728567932971522753097168772463853803235151338694761313190031743550569667362176441079316182431528483640068020074805890570537597561365237275285866552086486547847604848916209041520762026281938169868492586042258014620984742958224880832862483117419175111733554279849362452081593167716889707670540606313621836932078419797365346215070624538830338849706351340996308796344968523758163349874382039052990783583912900155034819074822802267728756626936202826069699876370804489636239076552531469223584908762607268455376938402428701410866363781174328124922929794502144089163852244624657904642438392272323290286227106974677819978474050171004415076214123490328872172737971711954941882213909858252898274352763281143091849952972700362526771770722406054324641555382927676713872699112527054363272379758754317124802312123077282016917119780959504350361746299019932691621426307435903853762140317204913581716002790786242914620351797253442909231849621123560527183977801562022972876500776489529788267930361453916782139875258423064532316451680132069911701128952680187312449138844719079463665086724076532292105320544820561756371715738711181347235030909031400817223646523618423824922150983046809405213292289047878643054574696378381009225029306913860854084936851624788087251292822357264996476711275574682853489662865672356755785388057579351560172465819873451539518783456903759980737315145554864575558798114706355755260933864823814424036095529558914050305741465627376613866785956632459222689466919590428587908936502249093693836606759641482814285099920850108066770575824340527392853305204887986303502505731749263966990971570246597767161387617583916955203772178657418881327260112045561664711726263443694744772438823165173580649265470867409173100860799426796981816693192109098937895566847302105790562990971887344941525600648699243938642482460795691720887249678166151306767687810528949611270035609596148229348556526511690164429509830205773338159807924219575656063252001810710219948349269990305640861135457220163348017432300411069833802228418102767577288883752188706097007134603798111628323857742766093324117705548722384874374391335223580551757091386006500800696728485233947941765990500858168886647170254275128027114800218147067024991362914635786792365589837339682418092053434056698415695468802096908515344534053604516667683179786247602658640874361518648539819875436968093962434672753542009701012411089449432291046361349483282156794660046728875357621613760774897249199521190272847777338156251372556785001610092376175231660184715115710848225778163731877895848406970012548386632537129171254900227788739093871405804353197646895325564297282576929422236687691480953474956611563501869459758307511300370705023835949431917710118813482051515479462042032984096725111844296724774904434171121932336425076566647179820632572676839012934735417570391788758910236171652812760048364970167136046732256364259421523216436867927260639040049122172018497542935938065806755587219227929642159034128210649266281409889934524153844235014842801500887006007348412659586716506198855333239584671594933622116527173611995563973325277101640151604238512623582332069717248589027509326173367614259473659399954861030475492934031059828119305410772345667936346997720152381639602502689906154931135999783679947910929141858479871435397152597368591173407875933919144878256699138832321712298098235753878275106764675509637746420105530816737713840745755680865675300919749853674446419844145795470004867082977904288442072753010155458585958903446790027953364216044732086019185304345281064427171391993789845390455982857104622346981165308854295714815022566258838181371068763061890815468050448442655898096320816865864278260412714059620420676295258559349290712022123313897404177551504463977390581925274686012571343120004498346377892688111304406123494363722895046044836959156908571847011464999229705585658693001316386731350677620340415984858683541563984643685747531364400191163237264015527026921173713822423362076835926017533365300503714600740912259215566535089858913946200539203186682482018166217916552146920200401273595983851147921679802573658683213555590062218507794350422781947769507500126417478809518938402905054833584914061598258135926856635446610313362577264730075085936766629492493246101080520974388568695513529428046016544852120943309742656574125720845407512748090284885192928186831322955788632071324616573074535351811921011949958594225436687410361680039422058439219453703430042440899951738169859750422130728042393192230626347349964167626251328108641118153771825592706856324342068098406411099671699063615532773701289142374851066996227445773438091384662086768664227283675497768832382553299300440704043531959083035104178892429501212670121723237279497194472629381009750051192425249550455449054088156659732078143549685090116529694511797428788218036743769067226002025669568478961378991187671502404907250601958985577049247399910947223491814407145876435350537034878983576214469912519443454659355789405239096088185477210080857962804076462819192627065994248753279852865223189369679584850568733428977124999861278393963241331965847189711510539401047930255540774726272180745437602664156178170835883666370223959707712598426999203917683103819869665524782844520486091504424799598240186585494259112318344375890242309333492823623501203348653272390396797109965604113844838515649182175269227750413810652816560135661926295224298202723215899303858539926528709642033886557392239385422280811843380833837583970656033823609324266157717877632826100402934981215338059680820294077252998287766446345475511214114594321768756192877745594350879302660996318466346420591819012177246048974615276423624100617776560278452364148672220379181169559310095596303104065758586496549062715731444742882261476900492927151219343982393490390834161226150812190048101911613423699942765389742693417699050765455523707321588067562997352719978783239140272435690208614145538675737286029433325795733481890272145332054963668390239606865097993661281076876592144518509251427657421762722520551790701649327892775451944436220481763289717784635499903706427128052179210321836152302844258599936554271894021539506103450536010331008963610953419997823486874208910735715392205918892684981876605291808812116848544616216348214977157762591364181168587644304471041060765142225971917117914699522388091585612516258440685540409243624457760756897889396779243517589429154383372935785781634606898110211163834788891773959478667814971624525487085677286748834786568973146610050360067729701041266016272233173940363297277693778552054851342367127166091099856245934007701835338904121835361398469842957727547504317191500779443537198250324500593040461532429759178747454106689951976122423076174154736433340483593488508293422932601106758888106153222586933271520298310079638731345911744942280399611147296279755883854373539300615305204336722782648221771606810737117300275143866539299507224221808258397812357660406188997878463434629286138864293967806306028387139685310213098957811901444445589676433891282511898526926407357391771409954123043922199828423645548315574445219490791194205699246191978838132670233604483053279547136333593801404164496417830181632065073257195695530506344676648377094267477378428679820580470243506726981049880655460872930606710407954668096715865255942995363295236207110035498111282590132076914067580119703018308902143078261490992976451997952481807494912855047608604146599533559022216224894913333017926054991470338474246477395418343371810623024388612129094429203220671416089052561814462903575569581531003063181108618608458751346903106413872436066720303629182092052704902829497163694773710241325156227576468116162824043524215747022197649023992236403520995133507507661284861670298236585532082925921104741097779708089430423789765904581823364579138109640167887716339044519035730820423481088795804914819568031542602471105936964021315052519067229149403314964565882220868627756901988905213564075058089291433184003772749413887460279496326225288284570052915731920096373156978724233449236171097718574652683944001785642496932307650687457387883419694741806694310336968635722527713686440229031373162071917894799203836260710969934163152169114990224235894978318397174157773538470126034102467906345581589248503612624649389600840624375330045206577273416318470392572408254688228760441381317521456628711625111167014683417337331915046312410470849191476038307329611118572081563278689065795570557408221286143492283515425842963705692138249332418400583025522530280758293042694019600384870668424491718188505607545426331925316773514483803830131244870614676525492972086489332872871479904756946328918838015600759176908168442388799343933033427411061589562117155197097741840072795392296949821501689202790583741947187333251647201165477414932980383900202137107869992467181921583459200766331429315092275136348431590161688725499056776992114829977726375241650408637097753714450370102803059582719446258556453591998559443516293228488495348637775324773961100172760347725092179640054140466651821673695198169702582553203042779780654549799548511204508939525839893789849277590447101299492342691023649085435374737454135117245137306681298098059888061120762628155528114227558419042588022114341215991349719220258722730830378664926958405512394403525883862091286785383922625566254977396314951852293519588940033737132825065214284085907936999729691296041731466051542446590176492280385146810831260639467988177228712595905097484271398940549463848648273400256339642541838362013948334510872124897458303511397624529623359995513700819537507531302503789474507617629014083428191366495929749310796869719189747918651496221056139775005023021126177161703468445868925817914286402367087677568877117555692118474104167764304744390254612835067623014524119904543125668165088200795657775544055297369827027351792994523540022091342302642717942463236603046792298100250619262378076907359843459721157803461123490996487175938008746395823517769608661656889255238124063893250381905940838847664739844881915299093775049494730008719558546623985264287821606312573212264440344802825478209794275496954581998460568855058669567930923848126244685772480118227374132402037225337407603818374894624108708105989241752972846143467935418467028351638672551329750572706811469919594280154529251475590729523056281613317348368107281088482397556557340374022583481146809713493028826113021088714510102160364470602011909837433130252454803418009701217317855526986686254785173632178162524960222006817568038864940816430077493995211580752655781440115474343325794156402380356904697350178573371567563690570074548049288067408592686253798355249690282391399330955570721626891954066037032236105580890250903386171599246187311821202971368800485093234856016228165272234750587590647040528013579627756326157312460729410088888566326377187342177271894632903486700428432434956854374670753870330042941693721403848132931170975358983247568129271020253173363279370361165677643914678445920929264375469770252391055553368783377154538292711689268514468014036326861242946206050701318626109749314807527625060115233721214411387498955979834614294012876379334770907467557121852060318442222923580854031819178455960158789448103242958774361389897678374993838371549023110555612512320598323455121279770965374697501843417750357454202095536579566619250699014825741717549954677415799870920947202449759629476240584610905936956768226994297421090250926305808167833682979157449408784895292425747983845657396926101076376550598672161617592490061336918185904427873729745829822906777211018089040230704523237694395430375253048667978270213940548025730103537517811844746445666768443039262774146095156589972366866625719304756063670942579942399128935422430432278459943208294313142929109415712344134327740527335745474391330898019481005543827286443115074407816596787039814330617878719946353799599008515087722558081121628053872706219927201689796756573409502206594686486029303173366641844368391700579884558267464496151703674975328767263033391218119311160872657529649786034689579292560767095886381653186757229921569317295076562358992919283904060380503205546716614701862403418532947030963915507916298481455471065637177996525171399773324797474940301688806704739969247368850430629926504452791696685360432048493676473078500751967917554091230198296147812711043685832986371004330254023302313902358791918624964325449822211119975508638807963041066260032066705219275304228109773946904482155296870674203022418678163753454813180790141131702718616321310290930292932697351865640713636031698178082604195252933628530266011594597273810637441718003134966714824686988858148386066941783631653965301483954173735424914334238850603673742533487607786180540785573000127176203999491292856137379439911103843829332078428717342532800975629672744069002497838768641830523311377325566584592022161254855027043252219805427483935709908950079151539590678395266829238008579578369021735555455681126125895108851792983677040513351518905465975839146806480621588846495349160384744240209311762766199101542823433120377863004966783157194654445574453216298559805225595157240318939286235975558195609116949788290898142941342073975305770902779846948025657677926444177077306725795644387141604242548790766354570830706959269795966238344206583380212824309108828913853826529336405597262335680950707182085260705416422025037746794346062871738086128245611944004085775162334399272060233612232735764042951206864116116435033854354781500822794558627785553182532870667274791114445350050994266707085144518994464767731223748764877149642473035580808919576371001406719965107723135391141118816608582688650081223183725404784159611321383194657084860979117726945930269613178044561729773187846552478478049778320011934718375126345918296769704625682274182718322240505068187141845936729197912134735420652496576291779447840075223620323083215563853017266783137528550225366020284339597439071760426683171337147603315550507415062764257688296522850090233911360594839888877403638251640296261971359381541974924552742359306738098951853515371017690218063423032803481800048374622019096916521801992532597577124417668285063736671966030145463108052133628833729932528285989087599940931638662720515369068577610657973878441549899363761076937367573547503806161040625240321900216276399200939329281107861658735842175824545645197379596758958474765384204691607753814326388081224973824505291125580344791779684954218676867181210931305026292751099768551304766284661496201404583176351284910562923418502705418320203100032376866971165217140079246198482570423632013740139250171040726897685737909772967811986700580581402799238589477428159033907507126645897560552996919704599051395854074495626142967226152525470813347558321087158223516431570770598884024726379874749753807401311470425301393819170962417565314849432947840747019546431449226784960215855215992320644191384775949062610437187041656003676525536569271665626141374017153532646262908724563804055426190945844049109031419463468837009143210434798661038332773585806754841245031944446046330736280019865269224272637368262808011631957984935034896623866354081357100878111254595562777747424038320770874020829191365432256355414743073613774980846055014314711690302339913868083775623490022931143534287919443942194101242985544429429451781199594262127200816502286932528495981965657491205480437189586134440095021642036373853228972974792441889288338062031045133881832693344882659136167161281028595127858662082500293203461844867960567580190091057546564789299198515747188031087900049816239769628766004750673716517025086388048998792434954500691906017116917405596174949582630501254909138048595164739376515329976796228696046303630893840610697419808181653713814887463972690968519663800091022824643913930655968408547356340223597590417043342807816758450396119751793689568318141327054638400086059957293667397536794020666517105237046158880303361228716485276475003515554319539173075111948639474420945722855092642439374621350902447014836986916423146015395547387516666824064305349771934886715530978235140341664723989049916427479550586665808561689694540506366890278597528839977825860235720640972828960157125457020999664471251244419867300387792455593749098293429178445986706400230312820587931634134690078177592195331805768468668817448537102271757409442928418938296430765143440339086447523807510109413284740365147586434558836434329015616269525179694433085034305929797377095962950273611666039544596250330821845239308848311968205692712208839503956539142329988100096965759411113047351343617246618742239024981970003503469477837367946929200886464786371043876212823668466240134591567448967933305149931684270909238037627186113095669461938029658217711080200596588784714743430919339519505508228312692830227961222229850573416021831090046835301077001655849656121488298925630928779203243403382547279809915319874883634374689637530784286016311438944716059538764502481240248779530612693878758876639472633066922154713376816594045607333162546373939587754887883153187481740365171642584346582460608064337931523284302028663327728227976184619538120723428072494393171436882482000892206378391762138937736479768836222319426547034832909763798429346219879583586298968901167056238861761566069227493799182059712090836211322210207399055391703939353649114353519936614000095553887258415204731709783916103005718618027347229349394294790690794710220904721197382333242765237497006357210766867410591574174622387823367690166890584696410759082193380484489546572593859414185513932266671484201476981569665539340449906821756482835045486321622543134734974373423872454660373339547325218296096287458580589995680644912400355713694352506021660380083126607393363768777009115548000631534278532240476524093544737117063366712172043426287878654908547354272965984150993727190571160631058681388981694899949593984375726852278835463292132789746514710058053583331415784011445764128581850709832795009404514228629178394479423147472952834552915785410954610372265657970678984976595792345425341232813355531987115803547581197047624922728702575185064362752028683984713813066024832557755029441596534268339410396477101303441742689359516638069060333200897656127494899773309781007701711297785456786744131457220744487357268222554761215306296175229510179383311308448654156157262635770641312555798825435550099006546747417060393345136634564975195085166733543871459847244757223098426444693983355648478391978519070267311526205401552939766033820097341238085884781955722844131717047757344712268810854573789504782862581811158523101803294528051768683982789759161167780062180766802247336774730378841239808782176349586434041567889036919278469630120306847643532718732809568670075600694088503848785043383351092063988290047914236320436390186730288729539505121406408408761610431223692031280405938476638383553995658532462507893414251360913841785948679920357318701134954597506179843071843335173739827471196521605555072366400442423595425284768550885773062486078747148181456605295113746781978048392790030536387280054169510148462743484215697091943923983372988050150922016337395207663799282486772617493692594697123695358501424044145902845613641837678303574851255658434821636396955212275972888743965958171892097488190361238196594986105869099970379267436561362408276003696403442342938503438654773858280234787994277343447870213335857298118204649854283517435627452863394358347886906682265488155124672343691559558057168441943765224852303449794831027246247182341006638438392873938709481659376328099445206919458684497010840011804619730667716756895248456446059976237413390672993332968599682990705775600277624989143183914824657195746523072083960720545985695624727565672978813662490867887398548099182306472244525375269319217638624392721848626418888476503169081217265089390713775443499809590277306855943873735293284956522724474800821016879828181998759850120188502241704316399011962414023618558522121813757163649780073994676271506083412584311033175096050360080126362878247112201517077914083310039978329883499879505136737592744287783255291244481627642486156252294302325584136589690437507369961663204816189848142123893687650162917204110764157323329657376023954497725794791625161555070921275070588654430461583712396912177134859965770447249257887053383630861218920207222367954943628221574970110218278532841870795518816383353815428714999564993307777349851669484990747113235693126397469023768157768577549876003753217868971076203251560145162949802032930445484735051934666909693840742727109155376678742336324732011560178305208267884195988603249551183764103959768220987808708022158694438500481837859646086439124452658666814802579345207282676355804622123825539280857397333396451616471297234773845778190868374150659068841799658091635135053372001292358762244900292666321634400972908793871546356287513469625439890551524059636042402264774874859769303219449666408867683675961809840614041398146770716631506499139927063558517072394018689035248127827327566405317809889052828065704321741847125542755094790315517958478396034202990751158137497060935473333310802452839254100213558473140800527290802589656073526734310265959998351343259059596244186364924685765155729472498598846540403714376531724395944884506696742488691558894309560276331560304935813208823958031980493256510089077741404235219434937439588091618298590925921677953159106567573426148015356378840294639988703039059518820213218737093261195565870925427442604643063158788042684775594058193623410505407732837681687447437160830545570222118549256502187213108993662081772897562957941196128351740311982988157351815670222840621404522244300339313932426144329041510903056289393523140756006091538714080961340156894758331265737397233462738778911696925772832530564146509193378420472391632593032322870708727579577274230505406078194462841293281137847196361162894426696255365681422062503471892062664190454253522722709250876022579189885652390686598166899523294801031262911708194717272678066148484205229442202250712637943376333627422943341010788939181175069977065463990477404752457176121207728111804547490108135631374429074636419437855968873462926356475339204587328280111985438122512342080028672,
  best_state := some { pos := { x := 12, y := 12 }, dir := Day17.Direction.South, steps := 3 },
  best_loss := 108 }

/-- The search state after `4096` bounded iterations of the Small search on `city13`. -/
def stS4 : SearchSt :=
{ open_set := (8,
               [[],
                [{ pos := { x := 4, y := 11 }, dir := Day17.Direction.South, steps := 2 }],
                [{ pos := { x := 5, y := 9 }, dir := Day17.Direction.North, steps := 1 }],
                [{ pos := { x := 3, y := 10 }, dir := Day17.Direction.South, steps := 3 },
                 { pos := { x := 5, y := 8 }, dir := Day17.Direction.North, steps := 1 },
                 { pos := { x := 3, y := 10 }, dir := Day17.Direction.West, steps := 1 }],
                [{ pos := { x := 3, y := 9 }, dir := Day17.Direction.West, steps := 1 },
                 { pos := { x := 4, y := 8 }, dir := Day17.Direction.North, steps := 1 }],
                [{ pos := { x := 4, y := 7 }, dir := Day17.Direction.North, steps := 1 },
                 { pos := { x := 2, y := 9 }, dir := Day17.Direction.West, steps := 1 }],
                [{ pos := { x := 4, y := 6 }, dir := Day17.Direction.North, steps := 2 },
                 { pos := { x := 1, y := 9 }, dir := Day17.Direction.West, steps := 3 },
                 { pos := { x := 5, y := 5 }, dir := Day17.Direction.North, steps := 2 },
                 { pos := { x := 2, y := 8 }, dir := Day17.Direction.West, steps := 1 }],
                [{ pos := { x := 5, y := 4 }, dir := Day17.Direction.North, steps := 1 },
                 { pos := { x := 3, y := 6 }, dir := Day17.Direction.West, steps := 1 },
                 { pos := { x := 5, y := 4 }, dir := Day17.Direction.North, steps := 2 },
                 { pos := { x := 3, y := 6 }, dir := Day17.Direction.North, steps := 1 },
                 { pos := { x := 2, y := 7 }, dir := Day17.Direction.West, steps := 2 }],
                [{ pos := { x := 5, y := 3 }, dir := Day17.Direction.North, steps := 3 },
                 { pos := { x := 6, y := 2 }, dir := Day17.Direction.North, steps := 2 },
                 { pos := { x := 8, y := 0 }, dir := Day17.Direction.West, steps := 2 },
                 { pos := { x := 3, y := 5 }, dir := Day17.Direction.West, steps := 1 }],
                [{ pos := { x := 4, y := 3 }, dir := Day17.Direction.South, steps := 2 },
                 { pos := { x := 6, y := 1 }, dir := Day17.Direction.North, steps := 1 },
                 { pos := { x := 4, y := 3 }, dir := Day17.Direction.West, steps := 1 },
                 { pos := { x := 7, y := 0 }, dir := Day17.Direction.North, steps := 2 },
                 { pos := { x := 6, y := 1 }, dir := Day17.Direction.West, steps := 1 },
                 { pos := { x := 5, y := 2 }, dir := Day17.Direction.North, steps := 1 },
                 { pos := { x := 4, y := 3 }, dir := Day17.Direction.West, steps := 2 },
                 { pos := { x := 4, y := 3 }, dir := Day17.Direction.West, steps := 3 },
                 { pos := { x := 7, y := 0 }, dir := Day17.Direction.North, steps := 3 },
                 { pos := { x := 5, y := 2 }, dir := Day17.Direction.North, steps := 2 },
                 { pos := { x := 3, y := 4 }, dir := Day17.Direction.West, steps := 3 },
                 { pos := { x := 5, y := 2 }, dir := Day17.Direction.North, steps := 3 },
                 { pos := { x := 4, y := 3 }, dir := Day17.Direction.North, steps := 2 },
                 { pos := { x := 2, y := 5 }, dir := Day17.Direction.West, steps := 3 },
                 { pos := { x := 4, y := 3 }, dir := Day17.Direction.North, steps := 3 },
                 { pos := { x := 6, y := 1 }, dir := Day17.Direction.North, steps := 2 },
                 { pos := { x := 4, y := 3 }, dir := Day17.Direction.North, steps := 1 },
                 { pos := { x := 3, y := 4 }, dir := Day17.Direction.West, steps := 2 }],
                [{ pos := { x := 6, y := 0 }, dir := Day17.Direction.North, steps := 1 },
                 { pos := { x := 4, y := 2 }, dir := Day17.Direction.West, steps := 1 },
                 { pos := { x := 5, y := 1 }, dir := Day17.Direction.North, steps := 1 },
                 { pos := { x := 4, y := 2 }, dir := Day17.Direction.West, steps := 2 },
                 { pos := { x := 6, y := 0 }, dir := Day17.Direction.West, steps := 1 },
                 { pos := { x := 5, y := 1 }, dir := Day17.Direction.West, steps := 2 },
                 { pos := { x := 5, y := 1 }, dir := Day17.Direction.North, steps := 2 },
                 { pos := { x := 4, y := 2 }, dir := Day17.Direction.North, steps := 1 },
                 { pos := { x := 3, y := 3 }, dir := Day17.Direction.West, steps := 3 },
                 { pos := { x := 6, y := 0 }, dir := Day17.Direction.West, steps := 2 },
                 { pos := { x := 5, y := 1 }, dir := Day17.Direction.West, steps := 3 },
                 { pos := { x := 6, y := 0 }, dir := Day17.Direction.North, steps := 3 },
                 { pos := { x := 5, y := 1 }, dir := Day17.Direction.West, steps := 1 },
                 { pos := { x := 6, y := 0 }, dir := Day17.Direction.West, steps := 3 },
                 { pos := { x := 6, y := 0 }, dir := Day17.Direction.North, steps := 2 },
                 { pos := { x := 4, y := 2 }, dir := Day17.Direction.West, steps := 3 },
                 { pos := { x := 5, y := 1 }, dir := Day17.Direction.North, steps := 3 },
                 { pos := { x := 3, y := 3 }, dir := Day17.Direction.West, steps := 2 },
                 { pos := { x := 4, y := 2 }, dir := Day17.Direction.North, steps := 2 },
                 { pos := { x := 3, y := 3 }, dir := Day17.Direction.West, steps := 1 },
                 { pos := { x := 3, y := 3 }, dir := Day17.Direction.North, steps := 1 },
                 { pos := { x := 2, y := 4 }, dir := Day17.Direction.West, steps := 3 },
                 { pos := { x := 4, y := 2 }, dir := Day17.Direction.North, steps := 3 },
                 { pos := { x := 2, y := 4 }, dir := Day17.Direction.West, steps := 2 },
                 { pos := { x := 3, y := 3 }, dir := Day17.Direction.North, steps := 2 },
                 { pos := { x := 2, y := 4 }, dir := Day17.Direction.West, steps := 1 },
                 { pos := { x := 2, y := 4 }, dir := Day17.Direction.North, steps := 1 },
                 { pos := { x := 1, y := 5 }, dir := Day17.Direction.West, steps := 3 },
                 { pos := { x := 3, y := 3 }, dir := Day17.Direction.North, steps := 3 },
                 { pos := { x := 1, y := 5 }, dir := Day17.Direction.West, steps := 2 },
                 { pos := { x := 2, y := 4 }, dir := Day17.Direction.North, steps := 2 },
                 { pos := { x := 1, y := 5 }, dir := Day17.Direction.West, steps := 1 },
                 { pos := { x := 2, y := 4 }, dir := Day17.Direction.North, steps := 3 },
                 { pos := { x := 1, y := 5 }, dir := Day17.Direction.North, steps := 1 },
                 { pos := { x := 0, y := 6 }, dir := Day17.Direction.West, steps := 2 },
                 { pos := { x := 1, y := 5 }, dir := Day17.Direction.North, steps := 2 },
                 { pos := { x := 0, y := 6 }, dir := Day17.Direction.West, steps := 1 },
                 { pos := { x := 0, y := 6 }, dir := Day17.Direction.West, steps := 3 },
                 { pos := { x := 0, y := 6 }, dir := Day17.Direction.North, steps := 1 },
                 { pos := { x := 1, y := 5 }, dir := Day17.Direction.North, steps := 3 },
                 { pos := { x := 0, y := 6 }, dir := Day17.Direction.North, steps := 2 },
                 { pos := { x := 0, y := 6 }, dir := Day17.Direction.North, steps := 3 }],
                [{ pos := { x := 3, y := 2 }, dir := Day17.Direction.South, steps := 2 },
                 { pos := { x := 5, y := 0 }, dir := Day17.Direction.North, steps := 1 },
                 { pos := { x := 3, y := 2 }, dir := Day17.Direction.West, steps := 1 }],
                [{ pos := { x := 4, y := 0 }, dir := Day17.Direction.North, steps := 1 }],
                [{ pos := { x := 2, y := 1 }, dir := Day17.Direction.South, steps := 1 },
                 { pos := { x := 2, y := 1 }, dir := Day17.Direction.West, steps := 1 }],
                [{ pos := { x := 1, y := 1 }, dir := Day17.Direction.South, steps := 1 }],
                [{ pos := { x := 0, y := 1 }, dir := Day17.Direction.South, steps := 1 }]]),
  queued := 19352267146257009403525955207651738035297551061718524942217589452660534964042692516508492973262928750968862842808744825803933726839143767014399324331974526065881780688095685713233195056498388755672850313232729090165540134016774588953171798902390243254413708765337292462115330756834017039286916415700644385037014446024627868383101475738253986529074786568191106291408285531695428277904803957039876144540535039136283399910576411970163378247375179854249380541066070056526193518557800639895820908115013418547527816685608940004850135843083965820700930052163825184682646391044965114294412776217714454010455455732015370839980673573666567682320437171940321722107647852276217652375901465491400373659134724900963032691191548837552192394705613495439786628244577562856940392327047075950819101308612232736588922784625360394784897467681804047517452180714724991705689176047794115609692127639957573563576481329207893679679653445282908796928119188812912999864019536193450102059195025338057582919691693889280564652973368213299314942134198047105476189627451169623906528270157412748386973629983272527042859898329978955033000168199072035372902675882101827689607783364904295192000562013821470514768417456453273564913715555910753286885803318287966276030328872819525912743724789628138205600605595421954179863610137477024371494357648439775028900944784773962703817791589200901339677860520185713310702558387224068978055757433891847426162915381438430350911837877049408613676506628728193218850682123156696116559642139619650035096559271127104178030071842979900266851213956395392115256319959606268972801494020263772211731894317084088188370761905204786812793575365024836058869349566266284400173669773036181668920051372274316801990731962270829252800966787207780888824832151828681911870966842776595848974297237669807569440367959902276883310070776059544516247144598928209518458226659837395075227551580520109497451693633098011674760755529829823080513456724833340713340189021902508877812858880,
  came_from := 20595207532532843191719023933686968049796819840328446475877216909317635688609412929572937259226344538976135730399603448794815080679663047835435428345829003293164062888426111458106332436291558770971099591466241905498952970890331091642132552475647250103497667051543283204264333232867673016283515277566135256261407706126329927086721865047373544994247783210843924100681683802651442684313134646836574522001454766622022887233052751595552051361829369016011497654683188440578008021193072634340903348968702027709986083560393684174614798048244502024087456035696586891842291032672987574542366952069053174273103191396970332183461606147407864427641504619423160106194256140365496660196995052748208056008673361839940951837759375299805424022008949471559117265275394861200717987225651759598075736734236288291703844792153561114882564241229754700477663815438604713856889376207541833124227087380308734962057161883687405416075624548890187276429432140109598656586239346858362592985707515695903769174305329902955508760890955176204499150939424893175053237598099194372625520353099092556050645499435550472547077409599006064291023060545096574895385842016654849105557178756976363339676797360778459205850746276573171629762288189811375660025042201196329046774316363210085348789424459795951420217804965199736905423249702689824111442781727545945715732147448366760347324287594374455364730876614781196025324717221555608234046596249194552544938130920673563704120761974481828946202720690064121001451513961509672451964330363490545072619717176974265810928503188021259217675941277675935148418323411964473321535510209352527223067538765205417270104077229152772388124223025357571493063309551341199473433280242789649828362289033678887832330604257582273668081369691720610334282921803077505123341081846189677710860551674191946436683429099216445789854537351293084122888538200834689241002589269225118433422914559720174278508576811211302708478534527300320975556214666523092850519475242734412158252246793213988115545794888142089028274777271855266908639550898070756769604977304417705368589319500420064477570866319205934016959904352121258300193095518248314628045784233383021385319889657108841599194991409823260827472582398620857844350524421633541822915442063702729086955066055013443667639881821640529418753024365023257989557849808260660294693735760475333451040081729401354446022783219553654655519292937803620744329658889508456036759464924169745419191484703738106474563521841719282358832029757206157796057101194417163931302118682697695522748035936312851543770741143269695575488918708733068881194764667747644362449587770499714090858314264363528137347331544889790248764379138978643446602710019398111629948564743703793374459920961046534469386271358031453289509086947983101530480789301092845006839176862647215765379156304987055385663860149750468036238296083808093869655431436055844843593046298027946618729088989414405464331656596878720930209007082563683671642584803887199006324501886804105680087849452017917125738608235128319915108354932811955391005574745036040596631031085663176327604144599359361692454854668273060704554860291576115431151022575789204172351102109024034148751947479214613519079873556287939658488017434069556972907305560572844232189276305926993402557750289941771470037096652025843788254808726294786316287076384975548859351909358455136333511889792883087071387518414134339217628032237956513385576554985945516896850450480641204141019000962802520210528854211604891839668985849858535633352921963586558116382300006840524535496902949673271792785944864031407718002288934765937406443491066562025877973103614313836661509074094254127894802180816303131223053665481736282999089616735695942313785374171366573109221080228548553091436646326123894763651332981472962984860225855115104180631987337840739416816831823882015676280358259764206439766019727553325479704930903318239524251936365414861468270898861420587613122520383377775626163362120276361728044847090409424162786116147636620184969554534719933668758044241203124138467875243498692983480624618797651949097852941789228410265606209368294252348620597758247564004997498127435917489513170232108155431495939898854878366437121860564585058831834392450400529629041127142459512746841424751021105501495115863289100958505587406479998843007232391658887460046878969578468915515028119247563286568975839234833154954378021933917252108092648842074942555935337339726591324986547985556070034649387445191975890117122483980061315697099170961876665567731082615696609780488992363761283999648443976879774696133595019034247869320894104118535416237783308012815051008583769288621737952702741440698633583651867281865523640575761794113484731039803135305700055308800304947066716526192127790367013133462101577928660799908977900442401766319237575868814386908421781839874950432402976368917338362602700937736503856609256794031288946034676092871693823784247356435293140979044563052577100453969707495750886653726542684412312888563599414307377684285586470619277473017692424816657587149349747897933774827122831814356600867068453192265239097321748889762252271030978739691246201196089021078569846688338608394050819181685140658986464552218877400553385566738615940123866838548725125721514286439605778183983137994777422091312954445766322634422285631876024932661975880714323414715183168548529754796566999776122868995229603945291703138800045301283836225871797942567955463891092164940227982396935492952155851211154707060381846934046679013119943168767521797859958020545074644429562443807562478550920813961104219888934965908264594507144913769684063839448861788850117661423520757499740060183250552318333580400055397369489933632177968429959059773879497692595021539105476491980407572903649335904961284536730023095448388463966889067192039532022330134981211241867304774421242117741650311320730781985345541417904298989786549748745372590712702817195906546883802412717925148501608317118347603992981580450507630772573523775186284046580934934274330073531372360662983797901252819238156601053510394000115130232116468882284011519053580074036298860519619081201711965210911439592104713893619387374233518786029337895415160060169605157651915042051948923239844582945115822381046801985622176125893476121911913211096433665833088778158586724377266049000463169378733911125950880899697975710645623042220557607691251410407133636648600794552172336066121194435185889404420195723615045179405236495855728620262010032881041076314899022409124962094351852616329645586845561611524806530482192753369607562040921951961476627803282689083581782401677894564207067063137994048613859503798075636585516378740791259080650129802390949611924835290235062517573040316076607573516666592806708815690727220313247940593219622300472502556004600606660730100027394864135313460287628582960693137180291258829094915740634691378454066367062612592447664526351062859533147615872612326652877296512042120822365175118071780698941249507478804965671088707014827164236575634544538452879073964036635137002324717637964483913962594416541481962512019698408609449778977105452541984750252839368303704549908472676425726334877446083692331865927877236463148101899542159208843095144118245794571143812499223037744166720071453117724378367312943974358919139764037673701515671507426048061111075635316621877862190378241075596837509136868733445848301193192668194401588030538260794834110831469903541331511888891234460844236627103258783622697159128116200194654014308111823310505902352021602780133389133727310467696879088408939372120605408877568362184337042971771614825483150944268208721565957302096817155233399472039631895389254656671664889819575616172924303005734836690498742653787469503073046728577572220939763527081805857103114868877733112045949425947540226213858126958796492822362190985252456252561667203900668184862884553543597951672526837214300340292745254942906365547558042034696084863983989733417003206050160321035121023901377174415470562322881303905344403919648037398678416768723763765180908187304614629892850056241077772365146838871898057450341079307956618233034993956409106687303131451035015436975847545219754273492940664476496808784301370127239592839156511676179282712438930266265078361047363482651550316907149061566829390571554742129613469485906892050490180038503536523434134761435944409299543425815046313452203513203084104391432307725630799199430132933261788904225353338252589689445156635893983286926450552732545052888105194879628886283843943726728422795941314987375789727624555231624467634788542935157320143083769400667184068581729340136228390662849427257360674353684749408464591717389688572586879532152606374499863235129059379232755248285448447380046647675189335249007167229140696884142530438063893966379362671066128525875370284030312596767945091913680703202964672654585480471241794821502815806246443143766741631786150769141757691049251541583142237785052827989817688757332240871636050290368873460649986965834742073623394709487397185534396659298594513512656254558889969712513162335404318001859630762925136151158487899213302445055476208928026206371900604396156506174464770040678771181238300415243972564704051062247400555872020854602352372846854466851834407175001881334302960759267509390519848427568691456959624196184027392381410495230604974850426032989494676493301633368642731213596288058048289097072167035294070892566358932714551438076744725512374531165780827735381700560322797664070836747424726028746468404718228995501708567279509598075663192908185391953425365776610317282573088758641579669492781477237843897892604603169270740492422620538474660802330381934003100084188813225583855720120886471877149979873208408206002545528065598476945822774142926610504690181847663258487889293124950282207506638054776703663509637116073068491533614743603202918105336582802119869920151630772639252198344701352088726544957665480290423427240623918129795490758096533552349677257131091469601607588207407309768355482563529582346218104878116330901278309962734733049628009001926597623898866867087876497251673617415016587804288133788662070420987321659384184644388974462029363524265060992889607791642576657675236657082139147316765452919907159295418576369306628839775144944796579019551177982939744269287957118704823511256156918222448128686914652876543331186287240902730862278227971882611683921519111051286723143909887201918734597489881284958338966915633213172067533977951049182665498338394703132199625525269915387731324061113226623023105548140814005595394848963126365347463678323652927979718450818658758828225393713765411799285202510765246647688639985810948117827260863264913341209629538400396544271480453015842181556302697768931061489872853539875553130712712437095586681870589423028075633331815631889605096510371405020861818893074305524682772947113103140400938257175983618875551519449797813731219052262589234890451287905851245721752352018728846400376695377693226783445131984885360878829183493440114872226783684246966316411222295558759955319039220625892639676519091840702580677152289214572940060425887514736156971180613087147376845017058068195619476391587156408362187833920822098132470447241553919648516961294111636323786213289674014453136305304861768674701820595001280903341445327782192248930269273798493195135871198745505732721131305544785673094687048063889297044360973182056899248455486391509754177086407316803287441043050943722628255521572391011719845155835868694716936857626587352574365201889550583059937795605942250730970579507265165336763996782417735235927455307344825399218170489004115003186782250572532666943505584246310557563823831986344040757116003096594003404714299380876352047343813678601632628691071923057549666232805752152502339688075628789828402082419575708320493502236990031928473182120933207268339012078137479073677804377189043351944241164024115590311327796665944984414989219927054532281155109204812202956028931800740110783949814986830402594942778491258196548377398251195288641503967402441933001578830534565304176825176856031939198211725341676734204524617663503286362455609712915380944903993493422320507151254286098975389182152787678380986292519048417116404380072335939792595660146427461559615577462528933290972043163349465265985229910297240425728324526815379649819062464644274606312058954245740866900479557814087066859892533271507409574208934764770794718238901418938227374118725722571935123211171673740873180952029140021173578950266646635802203503587306104269902163144863380629621040042609926817554478599030161791610813493105833461241865077094880791430485481859451074580612605266710687953692474743593237682916385048227695429657104996259268909255932250923750366389813372963316967175199209813924480015042571734768365120949904771877794586567299221921101299023904141140724072413797668691162038559390092240340038268811947339739500039719011782130462153298244697475234107512997229245844262246151478734058957792044367832599987460183310961384361372216427985502861365327885053838299436232799457054603916162962566300806192061907026808247875296550949662353521441629096546593531000314097933577644752037455117216816405793692187710702589958976299044462671788698797703313852817095225347725703699649325704719608332085096036850227494788482776317033129058255177120553966620692714257243933938991018870202028068033148677440237404072453717998923907626820372874720552660194567569276761196183320425277429783051351615315436650623591237633062269091996774746066370726791928321369588683666905081916629544955155267831323100920177681336013062703076242721154627161708930839856121991668162699556712853617431221323996569112195031041496129279739459069980659957155662588956433557393584328973858071295386371779878705317959955250468620133034673694985492937780765367382178367324580065798352318154837222537336085240857174190858774059935280841181084583120286567998843751658862074594182003029456041867749494126256877942250995564941734385384818724180839030214522545736663722162715946055591642109011756033687661128258042636420219245046266686863024306904087408174341475222371693329604465942349458750099545291055636730778477698737735519180534334377344852645638975511819592139259522677693568202563165148892962671882860929992285579002612601078960267036876176458152674551453251846420320487430952324615790472767783221750380401911236173949170537643275415160023911191378376746611836053634383471085498999177718781013202958563300180022993926190259925941957995468997317311908640051776836932652104522488515244624040185155676963197784290192086571162672040516825801701299845844786207167753625136079542486527839043370765139572569845220341463469868482836567419370446793169566405015640365291115567388522621736937340331829795240653184838082949294440448278799834430737852457697677547156161879948116901617200665518436502545081315658053289105857356049483458570521517351858047372617591779035290517082795743887611577457521386630201426436061407572213791247323779944578847510801754972052221934498603029599996169992295733847525031609345707509668933700446203672111524884829246250201966627299549228391300852722148454374070296031022004074843360639231809654439474110675062103118657301482241168154312347356137402689921345248524460331518256913047086916727507294385968760024544051456082109759888048280908866990744855836801854929254258134005735934623001124528584385737415200335540233965728409679604421357028962064309125445918882819891944670344111104695162750877143196900994240720844231356120831971327998385131462326510907888522068427490809684882817554233783037691994350483036488409355404253586820725597843054215491879692612289814576331251149268536283412091406680924887597783408211998222938424353799537588681734263844472999912344673391993956591490943617958082803937374143141462662882786409049438592261449316825013142693358693979660408234706818001453799477547708313030359598334244360984675214086849372629258023521915849655759593655557467813440175485097355398977564557627142810886060585935469970040289540568944080757175124908862457262285431140958993722151670763345136482404511123579575365444271119702267495227426570398522190217696554854166748238213915077901814428353950695530386990546969560867534221463640553603234744008707983076871180564435231114256473828487585975373687631044209518261777244882457839041917183372084040799250332387759299311756924415728562471125015548723511384175927615973535654468697124036713643758193595431046859902909359573728225024398700078549321747995113513404687947477037012950552721106071446225777076150945843436521253978423928144536046426563243501346316636778833263654625779520375796212407685917095147121511607492437165757493502667455454409366758751701647236130999274618350536040993208084759878830213656501530550305213093233242457942811917716883793738819388682902640971339849688062381597966252253139426840427917341682922172808388197809544000921000321467075780237652332479654658985224786145087944843691939946972513886054740860296201706369172806995126379225701964255509635309095973311233346742147089522005353558888238827078437627963701918891343295699786996242535634562499001764502915278483043613473684285976906762786389401713591783445662541529310897927214682582764939777714626755990176460939042523375296268773792510468777731032645938872132522074710023245965588478106275554568275389492228255704579008198048873211701212568278812004045349273701116955383400602867021024010042761173047906235329015295319243959714733752362558453968742083734266942333405213306291299940927337260982702240935509781908159395831292793578370982889394711438355979841867082403363538504443159097962775084189693467101272824904519257451845117188880995098490291141212981531865497397902107478310171533310537455188374866424711174560248075256600197729464877625797865531148697817216344540672014928162234393961400342319424958841867212553575594078482623601085574995145756303123418026624234217832350741882636535335391755128408704778527952743434686787044129086717802472020064358226403870071119901624302094027082669204117874303168143247549325282775111565965739336847606251136361772215803426416557130005200997048773222874494384106910504613979116807324286280437364550457449050364294419086762311680,
  losses := 50201578142875934096926620839175890693543788812973986263409162885818443218912939626721798969743181770193096379162769922995184477000810119832960372120483036126814172777560747673192478614988663951845093058184901062749746206135886030816560497955093985763387214530288318970201658447023997496598318127468168071564265781661347131457065818927557183197137501661433797544376123744997402653066025565165323685767664629484682684270979862252693070407152842560125704598438473077319243875593078843434859210078073706078237309495096953095644144554820366065769949903174223349770207420959100655334441309565962070030714892377435954852756726012731420358411201470467045615524157286889911337804905394375413855853257390416153326408053218739087008736345501511721912272826548156266582151946527264240954743537819196128743638856770079738720897867318680778597672444923408913896917984626432858213870661548162140150589423417411649559593954176238470461088261294486277082886713408177985158921147069030632138313895669619121226801506790524958201476426330545813959281853194185068181126811690859915467064867408103018589375159080406892691518408303379628615393537056783160293739173125908979562751500745340707770844400263800061891445494944537005682981994506406006808922542056351094353777583492939540113419245878409964440479182959320411373236122687779164734808582188137511726957824610533251425556398830439860062731397357658276641190092771002340230237907825975093661858509544180507740254734393418964750378629548504327848493131743476236704719208922137836896246333687553422198188614598159854630130427479964660126449291479483754444402095809408606264040489669847848050741166152847604799054346156878780821034542135172896340056156486977033606645031696297963019285136272232501515869917378938984437566262446841748264301177503159333601916510952017689190517546927907878420403824221889809335004281967834247272508008317155680482963713252826489397821997528890669690933768501436947702768106493768394065196151838130737137741976327548159740180041464354079095977448568129741709411466250245513590511256964720125100515937869058280369123363057753757299830662082567747118917418660104354964026788025669906078903461015515466099443714402208666591055760613572775925753197672285910234174649709802465840211412758735171201637500935520500119783930785476437678655491983599843324812586849851414178823351782809816635013561675309814249608763661022316670365019202353201578331887021309008701404959521594272059041912070157370860599734256666581076789836639348758171646611081990338253630075521123384962211217236011284277490614231369302219510124034784220155807820391161027336057598200333317292214666760310243976174968710179019757887053688695504188911279084657212538317411186829055910889926307899223299900139931078334774059237685569723053841940207141209859909471542195650237751873974665700487231593423167260954486116691606483849695254194343792731095339952685661366665952878712468582741141353867847616016115183271026720029609197228447613172342907100868800347172791291961212175879869419941970986680706704925673032647294940766608705642334554129011336071123975649076441273638194316584096969889584638400862564202998279232433184694679512894504425590097967916895310679073878511854429212583020072545165375787913156486251504083824010847955622958331196580494563258219275076692855211289893458105231672409792213446759468664254507224397431935555170057076143777227054802750112055582133815554171913959924772971590269547972534693265219455643092420404648339331662691575797831635882074607088504907394260098211583889887412833516941045895270034762793899514327597609128503516290743894470504263001857420027940428595335119076031699790056955532318167858471542980530209079982052067413356668188629504366586129699829826062994737975946793619192125756093487773414755148781211668576350747511498094781007936256408485595357660906150494464554901920067514920696033364186792653786110987689576496776411986172224218558509237702686194655109637255907238196404843276493277914091378449079796948077519531737143475483216275408513725245711795325374257013264681077233446682550676037973815389438265084217978437929439407160424838070855081382021019572061411300550878495124308795263733717203370051968242920994635360831497547569643663900513435710160755959111270099431890022955791508468271925709130857145404199342669143300845907263283982830943179154342964576636401593540133821912284540983697761116950283953713424941532018821925665413423341636410793854708262858904812297212636948749441456164734135186585619456535532947726189175273787469161476804340874849154013060011752745151110487574541910969985098044668000314694698301533394115196783521877886245823890569569528307546706221287587491347495928471522528835439031895629550714078298502399409385370069949239507973406543149109876967953020115208863542395900411452304734641270822794479301461158584948366636969501678545592234706163824753654144015407304406788942538184144034492329078836436039427133463448682085707199042324644073030535074515941175178201820801163950137712194640644682790210620709922670282980050379942389967604293987260352840608146378197071771048845051521355755474777092711705290498087478238750619042950711081022766563070877797168253380019480367939876650223398003035970421666566038171826337049654662502444624052591610112171631093563065359031382711774291578659185697306087296101986900273857978606489314801562531258780306491896949778405490943322491633454027232449586516089636809789231319578705799623366947271400714692084088407046962724925316265898122493825223480828734237460270693758537438844313555104146095280777629082071403227099959963944597863394059537484367248628961954742304938755379602403145850328562401312527245276197271129636816209426640010803811737353698247352379768640396761972095228547722242714821983418508138835892071870046970868202470957573185755316883944937249434887245110233802021279366831464649075571897482616610556844855743691263176422445633845578034952545814397696273801178213491964661632074073457188402435984194952578358336265808023117154390078008551633674020311001584849925874137800605888834292766771164775566521404355404486683845965337346324931370596112228105369241152046311652022384971059538189189867223896916847512611501327043311530380031484655249108574882635889122360084811524102024538764716712055610491242609836496285596710706853250663979601636501291166685060733615577717516102103208555093345756974558832914709724788469624158914110689088127155390854798588934391608519067205342246413539899078077700946201327859080077921796856679224806588153185944079009352443823572008186193106728977404681593255653915401478096279620633390030629460095964682719814360288917067192462723525308300853104810912836955844248715215198673136025764904883611363703745624824624147110192877142484188098498098063158092700902752614013747710711808900094818423662528570869660878508594333440484161559065181414942301231461213251391004896316375909705031888844961009050817196200782180870146555178546886656782610006901781181079836176574077746096923020614961294944342084807360785889909602429733220790177059665353766524104849266924801828493731033588018125937319141957496672237627259921242973278712426120653971970524157539314515153147406678680016691205492736655249907573765249168880150554220632418286872700779386520199254742167995429059829006052724607873726153751212487287888115464414839751607297104592490612872790098523170858052557111258781173492131161247543945320482653225396094860945873506462793596486167150149444184151620676036300571251393499856975037777638152909578158115466415114144279502682288610748894730037677682772356198880108081825302609807030126849278957585235151141358020991800270930258523433498325083793741863946424035771150871972112783780945355947192574042840222304360213782072530193559754857585194754728328959324871717832304667738075679562432201448972606331929494905478697299788044121511516139363538121884181340028947702964155000031898362358474848118339345694884774046035086474002926752151369916632934238078083180503466369790635318455498197353796873283660604896736527953417627916367288362753783530153392229905799211668116668144888509741328952278084984823546950619834482252675944977080436612073835439626232523165013902263867281624338074219408531423324723986582333904256958774299903897120995117786894487294430266939331090113184759566278654702651289059217516778688022356114106871392302624234955680968372092154176418472518676747036444206497809990808819121566035896501641723678362858560353843753983002171374388090243950294585497639530902212375779681255880465146242834258056809185121333506533259009219090499317032585564102890060374535489610059422804477332347294922494473483362058483802347836787167348116681120042249125219628747164859966067140317703150443574708533079381918838637140257486299366037995874892950553738962752307326370355208100558802519573355751063837969975545006734778560926790145609276898443782610633813494616136505664158622770960243764720276365767007381914313445690036752993901760776151456473685273286467172499911250749304267313597368241411635604029510932387839122994853905551033484019742344530253266663817217831217109824873980909718444161118732506326838604349830725605094313614150716770555897319754850826630113493350959862357375183146692022030462455074789794667309421019824353754346623743059159643981983822155629267747859868206620667093603054481514101807410253291892985599306147414499659305431578716283952957356724308304658176581283406297500744767118691005731752444355179728691228966235065548453304903017339190750007846314424190153776844208048390700123797850350705125882147679411874877954180405410980709248162767606946109952483705882671264133661092606074050581457507427862238683551174997213887022474424418100490466956078704443590879676893049323651058474296202335186542275572067306803772737764536957380185033317580368137659320437049628416461570018006528523833762300188529462476592516116269395427355681409970146760441759465786988759409337087446279058066441930171392524796151583692011569315464328596772068255623325259871812300050618540251228784149343369367050126376168385286018139721846335292114505096229657048504956476676125109478475329995118745277914789097696614872657295516213383143731300555687648117996580402616281970278393414061457951912031605669744691802579147600183860139347239033859208269095684457956333999679038067777332304324926832831599886405149153153354061047630028788117514535151257804797663825269492084862748837556366143294329800970053749581606076738639895884766593153749380051314609646048952313938909131926534534597074386804981251575559308045850827925222463589266355485970321463702456969687579935931234307693865896960150527600159894757509374076754173267430864123058441453968595335889211215886679971728278955962186263846822047880969496509897869673378842865651476774932494716924501586828579911029333185041004101523925615834006320082447683187392477845113367281320885173897106855252452836633118963900499553327390314379663840113631894115374911538175836656494454782901120535287726822297997136829597823388897477139473073997440402796159819552858080724791503647016431145283073466241427958554103968482626782326903643123793002890992377886114126125768798039655606895648207727458147416479998577460489993339984238351618614464980248634761600821675077212060588770070982834130574313497315354430776029573969047639768113807789446216852331666619022541877273183087731283820106278750933708474855706655778908423383443867814497714506544164298665479642913528115890451136826704765818874427302052273752016547333687695245677719606260632405638473136903194392996574598368187953172090419392685879055198728582610118809426786579899703305000767521322979544023185780569101599169299630604569762248443764978282862509691585523787249486068755891198446543142992698738335969814782496991671412222446642830666499032843729337804351688569033402406890365206215926922488696170521294934727276014071575920121632721882544750678208022001070528449085053691205010624909966165080155958396398955956095113531355547990138043376269249292755689571756913035034034162804537573519765239907375388223502896848476384404187599714449938639768456246824357110294104684100209090977755863378930080583654218500737640129591003606221623545162963113292127832726601763967137555873280480152616151022428042488227820800856065830321819920047705189262219684775183144335789921184850092678029647108037794734325227238417813882665708238292098516457008063915120910230032597398704638767006194902169184056316406998895721249164324164590606551072869295128214858704697088984969830038717364682677836070962266954637512769529440668116216360609317672515423460945280843424187946994833590099103266668445575954194418236736001783637515529831988386540440747446856507527721870619921254270742764627521701907298287627305712322146746115255607615382426001656444470813263811250346776533545839818772321189257650471470878895440592570564198404617161801199440104573694881536575652154821476050335211990252835444435632482716896087389919977791978188847591098013878117950584489402787333813540667188570705530045760867871522838969919948368033910759502791893492375863527332951731278645620224512681763490710210557017165837094818627108047312765216992948797567429533148712670502833720723622495871623816008495007055973258433700922421242197367402420289708969632920482033454226353439128067216961104210486190187975657358384018818589963001378186003219001373591424941903523124258844038141862465576874505797866106945056039916142868083449037293619370412753397594299886198555270965429042102756384741268305555038346357338035496041758351053482935761866338438291645125958571723554046728707532970293802352996928316653514603425409396207687221695922885880545839197070331968459233155201162605468978227208828534142480667741770592362891893835670733374144817299378863005225661487524098729686781664585870175128655479176161196501838939884531453587779915579334766893284382728211828668963802871559702443588057570287887372855260322118201617669865015166436899654152046820334688481046364623287538620535866604688457894946772370867810442854836627215424472872549619199433352615160359583000004219168325173376076146242766500995063775478155668902489064123483809880493124415882533093026034972113967095716710742186336774655446116260692311643843003452992762041162402299291070532916833912327064257359433573241837665326013512473285476609140087780038983590158616449575258791955803923057458248493799626570599824745532054898582514192259576161276921967845880070249192115223410330844660351726753834139683135108343534653183943150790292263985081471300264604214503719081163429974595455108879456973428445492339228581326223629874616400580898565404340607726206366626905980524386062517676693295377978543414634204526574888221107918627652888200351490711263034500001390350364215757691237324009920552187453096522183875338863931924166439805012470666426206932404785967871813570918621779651660214523057171003623652825853935951362696566644258281962890942939869852330657411667419304744196519051846811894792376481059695436707011045779226627548444950300641454211353338952454999891929447510681128535562146378810910906266158764178203370828363803685776110199143548808280105073390488298252662461519494815387307367618260904992497866313866900601834807539079102868078463149643429123909354336467636815073971222077112060321437471387989010786263511625968354926544567715936082879879249305624186793642732152138326602537396726639748266348998655780497204702151614827392753220461568426415136787037322170599766085675872949063018344624754834763514691370287283026481028317970379939053645348630781035103558197275076634002614690187730848442443346365769840334638635414594840229917918476377991136761942036252443577263970960843835031124342721067990637905755423458242795608725376239782674257453860451226666809246804787822727251813558802230479836579073348039399703317350401268314289077678559212579674241183117516594432986305504524770682191927670266258015886562104272676660112658533064052409859676241847679229382648126149826978979598518268146763284028523588049150480342071518465677208227095040481576732963465358647090117316442429401896221218066271365407718303345122493168067292322874832083261938641942315722719341577955607189583909236604081288892375277612858831286733242733257960223521547485869762191348846814230251578990181493407982173640072388437472040627617140263224854261421665551745053378966996519349550910049547870110588744637301616584387984813652452773522617127113157672884407634447443096945275725926412112919548993167263249130079505175106627165007213767070792286201397575120390721279810341373983193797719181399387149936097038211854458829939118941106609283265617719148642100255880428649757358434689461692353913870574596706042223334697586551536873055472790019173991370070878484223985563741929926000287902267099814332864529620997724602791691343575927707274332894800646253551646840601035598937318644461841943754760955128626162702784394619189262874332353520119329595661857693734136359209314094533384900678468897574003966772390399778253197417523554463994083024725897144406342649200156602340867352511970029037420833752484932899249985761356944792451468528450653947619166503980509012979088296437218723934662832919854245294325922578547612683188718373856848415006189633264859007674088337454946811917173388336212633918419925949077924482949959757820526693734194036593778294057180882878721943108557908341594607203718802651188689368643552893855914619967807515421348657043054497489805188604711094489605762192993354569959039849328023652129619083602399264627942506915532819691490079127028645048062601065858400502332339300918066136043327430330052615868474701412714696334495760108800115896945429289047299902567980292122454492717532475037723553472682918995557805303685387062016965388586249275281280277105438121504116184007378781944440063333342801709522310278811762126429732859280353828560833063094892951234283563698857797615953656961512656156478689094970954572590197605724183197568507875866140014892879349967893140363460619239230241766663221036628160023895016204286548047813231969841690978482343701343844183017999033576647089836858088120629478314264836817250523205897090298894027309144700151123133107501655311493813582322189672948942313819462232618694217351467457512192921609229807516028598056928226300431712363921262001633353693223392854245883192086758621629711211253989549044671921967863761764610419894887034355564260254151528828793895632978821086511082868709705671191798976184373374038109384772846860537071968925494323556181151792387891077524352854924923204754471128585346967470701421227460912053904103596332088710210344674303437557255872862065382104334270363255763803772319831920642997277640934077845485831455310952557302980718578668089701074940327560149505551044249841213395313892456681321904176477970862184302580489840295244356370482521487051220578701596684921101402361979530486888729414426640924432478677824259410063768273144793589231660942997106678992361041434471463148070366514222400932844102998339481853958592583186241630721929180357496220671989778588296559053819134267402475546298690096675188249452794960593981853108097716573033808865364433161593681855226542845885950645103979647467987864991435553324221291143521844502519353203211980325738598444489518456012641102704779557072818164342754332245050010149302632536001912351987878476294991015529857533508927766323277299155377336141446815694801986997178644392460993755840154462351738199260265518422140066655003285584844169665430072739063567956727187402126715485809125805443920051463194989207158341031368952558615605394018334127721635708210328407121032393627453122014592498147090504881944923016771687327148495685845668138676354706838061106174691864665737983668157451916394430855528490151558285342985192447349690410416691632164194688866226536094122378427172007857809536008731888634886243567127327936674741187334567881450250752006976174488153335541162894716572976510458938445941421844072141109353513887862137758347535310222939317366499248826481732582128570685477220677575831350579011830589974074035543731281220346144639105856698194683091868625656660131435084141780816599156139868833522718615992249359817156890449134529752011811616958234809506028360674934342913673583296700527920160570791685945296802860373575722451293051787186542244170966662220996428933906209060433332860711437881657840124191237822933673142561417189980208857878029541593060621539588759490943093315881382223270683824029983074115378786520562956079973843447538818637164426434527392508514469105300683748662155130201892258276014283131839242212065079392508726399130402133891452317036153293542127334992351793526530890206711092945091669925969345706848259577600339251264189411482447195117829814194284246830418064161963928725158382815720635013119657533599169916091882360975230808420700688883649092757180535802357632747752647027573530833065353167813123607002476396623171159056317124356236972411334214075285967987925385203202530138512458914961962408927339799286753138718437578756713095263890455329635067792250411835228975794542133480443075810325075331548823460180562100381290354858330586062201455381400869918076263030403203031112804124909238411871220153293929554606586185511669046792798021572503565039039946247122452188021636533322363165142932745966279757295285317259736469618439031615998808709285745023676062988114799608709654780616526837966465365343275170547160299125287811842929788822498916766791762218234851582611203628920866907722708872379544350255145357002212767355501700952693521616318093500742113778242134979584770516494732631098709562681942367914521420542383599165384643498152883185220022443049931723292834243875610804017023732555108845624831390824149673980368758156501686901270767721381220803421583722537051425060741204318245373069426431303506362564965093256419147214361003100352736088925340127525347566919149895693905772302689791743155269511336173316984684457386251235860872815660747272480883529130392578940930543494756294805617926353817698682119406684004245442392058959397612645588572000544747387464636646100328064665853273967016244129461848109992038044573653733956422875209395626541184208397768580067822156253619048514211897842893973864842564936579346028033141108929159276631614514411860900106658519993003474781395356974679133338532858667786173998536308232546203994009432898223040307102053539773994543806708223195132644196658544975928894338510182213941028573828014877762722898898852689362278378467641787381444615836179015453874718641909403803117615386923492148435564255532418569225083960153831291540730871078097957489285373031620274019994504912506131735854050514366935258734199370947162811505206198751288907744755108163438316631025066045572905570025423340452678934469152677339551225752652376235868303046481386115125528766778086840391320446670112177544143152433923068893564105425352401403066000768281194754943798346566811773587886161858595814662502877165524520242640921846102108663056564336566134331573389436560697227867340414700517525315970559469663951355174751447391721323945416414364863251404980166666581729096837545093579240689985614954495357267958068621995395351016649351560793440409540439045056553824700325322464323934453759881917214709279670615107431975006378241221805262022932239587270355705749894538015602778460546613260853994375078851756423996917340729944033311317452195225542834630926472620225508840624898737388162905843630229577603769500483921979084313010801602416674801153600130862326850466567132419144129316000418128212925175472680932400809897211825552009995690836462794114581218603120641338485937066626486090545036571401918132125819710508961561240675285397786376490967706372428903906851810375502871358747689544850860036818882615419715582236541075180515669827627542159793633061690424881746155543001890345376426063023153625989015371249892996667032072270097280293605687581179076350334272542720648242195976165590992076014242736779007286609901716535736621194945805664073371287346407128387201108729401107049452957401436415855220805412630061456743318906776717970970477553915432791751952315836488384914294458634494324369560355851763135553250496846346481897813606842726996880911083828369308088457136451080472544358944507457052090291387051360507155231184248777104229251251624285207602847168502541334589917178338968020467569437520617044074552861348444849254965152970631531622056070704784951522116250740339868995571894522437803854020699787272052217120651812301242336409917798123468553548494656499201879839088047178722185655076437563163166698548560265521402719347854203290352449913013443207452379243624739292741548041373253463622728184463828666199739654431722053071571911450668205608701030369116708407593871912897869875431348599534675556273364615158670253388031832457499149573739485415339548188576113352223096198962283512902188077387762576594356274364364424620498892051602963121023219251554581075489117286596214413051904098606931571180505148726238714812599039812354487990072442669361104419266405857051483974078815974751772586900657105501722001953855069790431595223323561289851808673213402473141642228563798458439515688204531321686616451101698920377918015588664686917316987791844275546770123620073323415304171382944156308113505065994275135848873281534066858976741259225591066023348993392055302171143540532119959313698858623471847275764087205785162116869590126282938600077454007419773585830555956903055927953130557031313961930150366102314345624471844298291114780960666018917122260808956756121773791001884610955563928905698522628868788160518507899216231891850732311952730047489657833287147949409918005223955528550705104494338566312232542163111486712684720383729895222791041881412830076566574614133324931812906265850687049664383688525563164549794836355996829046381041971400587325122218249605094431608625982678688398431577985311375663840377450240296721943852035850909251463462277742978914557700271003339433972761273135619504680804895275555483217763113288768698262095007067468484371095412018177828788193187640188928058402225516607659120098350384436424226694961278784432187417928313453500382006309392933248064442138591452359070230677983132015227284915691423215167777005124868265862346664333248626621947377466534535188113753627973114686289053346657116300421470765685519783270817862015362103398554820910960808983478187637555185586914294564923302992120367222252459599741088140421257999485199165118444883400890804092979559680774675614387103076496758250956887439114913942230708486103794161759045116417566408627988535412907869304926715875025167799093977562742384117034472053428004612839830546634819598287394942544149408849559416054805976595644085788455101169025262000940143614137245656717940061204680066688849158658689364925192341036633030761621793576148154481718032385624372179110812152171176994789310808005746941140013436452746455197715993790914774823140184383351858572570400070528911175988461333494487888607414192048673406273960071703166209927782014435436226011903901966369992756220115000949899462829301978737010147144739440617155888332885363733916782276213341246807703124214273175366419587344299245467481513222120835476054539182844866204387794480864110600961407962608355017278130524085106914521584487575653246459228725571086669715404916013269426344556929035646934308437964262715607330173866971791422942139506956456959649031096804872684007788388320914976569686459943386566447404120099151538472322401216544070877312249480038936211481509286112940865456808741479947928837565717631746442581726050313791746146343113306998490524112426304056421010835953236437659172493399918447152613509294823990354307102849218786988620376074052443595773523745177363654665455445288710490403084093523423872630861776625027577237110330965962066145376473793172790871822324542669221057576774477919514838152538534793995007636007595379734990353759253134809088948473661991405973677394157040538544263031651133325520031648114375851484396914699671920860508062005700811717469456639516021083733240951434553320988795096697221066878187163443739132569655335983655880669467638899179905247340058642788172680099435025104119895859532547661378063230957451890607179495155965571940082022825205072699390854300781742398883416332408851364456651555677465653336383473786236991400262552792235798870132507984026211542812813441066658843269012440536118514966406316551324642657393330572508258505978878381416873382436640287936526206410669532540925370412786826147957739015890632300404502257842577973615392273148765701154260020530165547537049926721376679293982360803265775446967612054740786901765675431203822402151641519613584217940971905723819724717966767933863083686354623988911561401289135827266096258694144526178043647882362561074540210385401327660739322320205010410586561706368572752287901632157022913304431526596879839637836098858983354697619219743054869252911760278549890730653284234295028965138896348638283415033974749728084399962573853557792725000530272049974604803369327722659529513978061235830412841893663803732606260576353741448222837840709777934129860453351179954805947243871791211905394678891180679453924643684961699874892898066557481002889766368188668445887911780095311241241709004514567914896354062941363450252508771412149408486159390462440177232544310941282881303457186399455178923656684725484112448848133765200866748132074582734837119467193521412346116743726835261878913349786303841154326632844668768209657231790902515087327173682782759314692651901307035150691992127447237145737492633164123572332406754052705652941038109955213866335787629924150273450445838577719877013616571301625898876019486944835212755727888352345406651386439624061028909409700943401257144819140247708732849675196912753588251330475466671390420579938736664499997497136051668768416997179219190620326443962182328051744122645687911673588155113770345981817707108258299044257657989033649823368938251068986386447177460925533031860652613243571249977104508749558517367587886063856424419024155703256111389550152372192633552263221139957061433321203947987511915273100953151295529059526053478106237653390517105244621075632493572839300746532453284206721238415806891612680963583905050920304872099509704754836610977313843135281396595039764595258651990311754834104450003033505313732690774187533326061797889543436904402824202640468691636079043520697151579120875660893230715107684992840766413159394723479126598896157502537656498536326036435070411308532655248580823036390630787213166154361531009924452439028282635233703906687677056167129332442305358986916737280758854502514783590521895446350153698530572674116473907564917915981511005535009212515933234623544486448706409774819658546923120620714178906059623997648962626921392261724549964908183156536636196382513707459425443289935328074788002361733850330932024482363000753514268034350153600272319687660127739330654754169234639084841230698623600501229349953403136936593513387849202668145904712158768951604460118373871907726477668204134715577598228905717059641967704180688696318499915741049968705931803705123870852542537172269763417212405639724944144302790960885742661128457785643238847929036020896182022975122078435046632213937457451833633609461792877222658519690492456826546699106941931916099681923878222599946129324968523639945515167101633983739795716546209879038355109318730794172594825174913443954055808024186346526327752375126710546895909346786049012994030755916954669000883128484861514788299858544224552636913683450739094459780490583969278650574140915814726136646979135485083445610095872503567062679381091662201854845187173938155486350730618001672233561374215572148313229591662337370660455980412857669752948764874812532611772876151307120354158470572882902403569438933158881660997492408096054204985813876969313562864573831886504064035784150934714456522574743368474363233750128902076944216763022931734086024933151336443993485945116720436866143760687296426442748923380883958498990202941478090394114918118462532562164900139358942353267151918277971129028388113171760582119134424690992125837001802977613551965047898160355487139022655234443573238639515549560992235226364712166163865065490343477173555910959101183433653864055441777701601792643846212231159517304134937242332048229517039447743296605099461556890686889710143075508862356245545020838719662207851644404565455564762517579785159594310628190995229660345775494356401199690002328490797665070011253639630737867176965774528869624058529564527490953123096615326585044199353074750983614578362403398946447504044794417931250383553611066540362859654673736198109902343147091599893664677520736210247791632902713459450093639664635225078794959498368443181514367247236046434990048995971725541471367902433166632611810934780152673142346413991339385161155328051793186798614815754311168555778416940395085115436553935529724490135842095901327260798036411806725048183338152116479649833586790827021679452463956266905242313158050080167633777073845764031907527332544667464903899162445586077231177953852050889524480525545457625292855603024605975348772404490817155485644642294444987738777635617135126736293851126406242226163518145339447727377545989640448990248098792228986364968211826066441876300152249291048434757847579762084473120742685992995479049157245143445736443418224595621283266390289324757591045918411795603506482427258481348174439034414768549210189034602893404998748975293473253311307851604773865963394135074308273715294812869033933375255800736433239039815816577055047732629627554673288390958437746631449513692738163208577537332028468565656125907033049653546836081449494834889258798994389971407889920298939624242424333536742404126032835489254411386747911900137526026633689516136523438603306620033248786966197620342306720486593351556283318817369072021820580155004816202643718009729992027882715478295064038675981806069881509762432354814157385552752297983599451433480647208474703051879639003443213787802879834305030341956086144465096046259972570371217810491765324430357930072276214733185275847615825130949081563766375690301912193111767091791986231616059433769406240851974743661308060019417321518968893108776943004275371949487483223792138820262410788914291556458437560883199157405868362240344161120279822525092422108684528784889905319026175416144341855418312239494046749389570056701509298457185168934261172347985328981502148058491465513176034846877588504957958170045454073961110449439494093564068008415172752090412434888901826817036979161197097977466409622380267522836764473521566159045375582838793717126643530808627999340850768038106784146774908851376820397786762731801010812423807293551683690662531444034939308599301230128831614542041822508261770783187828328215283762909069524856207503207522198750947675531929089159806019001326082321143485364251008722380504892376001012436997452265888344095205493419474571055685514805046604917949245657800865581306017610342287400966764418194932638879285253940614447345160769239160876037217005804271847829818423082765050485232201868834806411754884496633945955658896087207026383216534662852428471168731317685840108617455134437521063504120163354485284900829807472585117569129814230593285168070299954914544807996385373850258982613336353878095380563024499407200754912488392898972855042414584908707930544045573035035582004935144116630257374111053992799057161242011062944443299520814377316053119420537183952331909288024802985205103246454026518255756056087628780182217912616684377976582468427247692270844328726083021767678332033171508033246779755509216182990741422868610064827988474247451498459879871704088089333630190106378463313832748731600044759739332921163033163402923943310055959891740275011286233177732332914003185443813504477913777579983258831646355992671316253384774036349831185201984357971217159176330726656019225061844294432207939879722162486282595250511028324414448428020676056365317901802720628058872273846221348583950951099530492072099313472086533994184387616522610016029036425773459687331884282184859457887710354043977001361160762836792254907532490981990928407943255350153068081897865914272439305871010692024874871605692626343586648819919107602699889173568641886405635437600118552752090004477750670420772507960484356246231221213097132270170915589149379068446527758104895762113298767738722612902624818837495074312622593547550187102619103400665619863702561789256587802889083009475279899803876933204076325130081290127013208752523717926831851434718234513510650258310735711034783290911015146766561615929951494922096437389020492478167425793213654737831519718976582188919977858102552177514710469982609447323785385326416550335397627874558242487511761967321464870762727181866046296762498911819291646853390205576191869981524326798362080858824353830475849808477303241576667961028183964310084294193768564575869011016459574449696602627787153163396955884685187066685269158997761733887077382069596007179888677502350570298927973045708426650472544725411308688755870373375850988905661717240868982780090935261672912707228696303320493430993765773766943050046118074209776395397496275074733346742738809403759805155191349555378889054677862719082586793134592575744161799731962572892938373146480742186216763715950050199635888776599733256013231482740037877780026284141803715292279856864640869536257019978717613941586010579892341595308951751966933186644664671218237398516560167296549301868621316815619733355986300767520827941069276778154558579239877862789255953934811901371191915380084950459693319648863566793717258407416149298273319095663351731244213648144740604675786189304540978548128978151466603642097644272855596041748293181480097144196444468746443320758107799643893343191290338027426784402038247028978529992357901761754482310429382037823429691396596503138296637433488301465143324769956750784234599894817677769998154273528221509128151133307872750281341000530751133231013797354079430369981966777476750965974316827597346860806286660060827548763298364973600036963804891802799929227228751263496365454183871133284836228856712775806674111507170857738681642645600963846028445589605647808956089800819009742800069143533237847648112718575802396379036801095218804758134219877469369952320719400019176911073267272599005015391452907239145702067796635892339477810934595756933057945434934655974368234733717229229872998958881820558438271065575526721720786815588130558984457951961987275842870305605648632803650377721944219213417842297662629814291157809058573858459762829610571035550106324752842962928938059205244716006137120515442640573170587171660061997315710635639747544100122025124832723452113129985670205146572781026050493620247706757642528400397498715747075076473164393148171988459262993800080980708575058143408021587561722867999159702391123648901776537853033288322013016809893350719932873240867873757133911475700501995309650165787036500338033710816883337611267546127752782622412097737412717213749017218636307866546929546294992076517399895146985703589788222841937250294733660363833012228956509426750938922158985678250109287703100084776362015805474726084518312437809788566093576319505940514629417112474207362594077949213705512319706618487685814413818674545901352249432838468635238708929833955231684321415953937133493236497051911506786512899468120180465794294238048004398550738059109417824069028966031272862345855552566688032971686370951555283985834285920589121616746473182309170917410708214651993498907091202357230921237517999499506432048496841926134886415000460059250781204301134316441551707256782202382346912819134337934678020977529755149370485649759775238624275967971950537511577049764021523951326976225808539027101624219286126912717973662731461623097978266532600447279557107843289171200444764914753419405050855139761911431922492927115832326712898086578070249266542037961302518089798370776104192583987616700700847737970092290543809939662602282728648883543466107534691376296161779524884255490589667223662167484328902944534358384166449061420359094023847728335367738703568199349342807113677505687071536216303221475836375300249615023186385325755824393147837637662991790862730120467853057002436542941189855386836839585948482951821538789934000034607540110800730518574332284503706182141792615031332678861872193289003325022708514413576209575492571566031782523813125268894540781504136237017095522404322384411094847220393379408463157649630041220018555500846193045954932593161714815318043043305291687263742189637010935644333056796604245627032945569571908627030325864515256580951004972168431315126615855307779872720758753712363488647121792110834479960508773333527238421501746540261039626501964634947374171236889234069887892445062472204554017613912992853183495330676688985689955830554451111335078149315243733919368717409072340087003671680356068761818409351133930470014066155787673483883226060968337420027972369438337257982689241033924656020516116054051923662636460950717455695272566077104285684716535066426127847815689384702381067333062090955724060080732418468504782868241712562654034939274038695104228487727227220424351705661843418511774695497353392649769304632557783553099046211976752676132688271641374314926407113880386246139851508824733414464932812674857940403661064370308440011685429144860386179595388409718480387686229697347134008492093316660986917967664145024170036846087711794798273505142225197509807753862969108108775923917366473070372740985381803608379278318362442695050793162487709118671549751485751886810544032736145548987721057750360334504263412712314837115437836229248811085275154252794351744997753655007482110977442245412462807353494357346329509735662004284349349386252915471572025898020604108584240070978257025502887817063102205375598135158283409142805688528095245321700650325666807574330233427071104816734701311174601027727024885971297245109082028574408689896132757892801539526275652483419142613021991882756958419695707844050907732035188606250857046408458509359883053288283428151253277261311606105265503726417412007508525040785675584844078002047373376134006711784789197293734329067669509890837235777413606519434897063231548768520789059121103860299316630441062576490294899898076879336320578070895638775620431682555529477251118372324546433702817282026789815756328268554571256916228519450458529300620219996296455436283427426452606884148397947695823099209660131628234732847727837190929236994486864520848476977046333310558963802292974902899065022039243498837524500583975077761181873276866065830411046439014322873171923737840759043001965337948881004031681667358725247325578751011862962000153373553856569236106589864288988706334039560054493524111267285127734145232986356863199381561376522267987697252415134457337893929585005885812932541730969138801812290361234855860118204434979825888359975268555306369452652830723158025388849097986580019696457090787276821785385760071029069997418025850522610805100980232944973069015859860499897487627430654254982723716441683497300737358605330384709718756637939277508618916228905472155581721191168021128054196449356175270088523717170726197304177205304072652647868746297170358251328460055050194948379356581720933534273376951493913825252329234061894325635560637740699831099426251644696933587250107446222344648325906511400570261724849376136188536669256805481248378963192974703436367830896092210551010610807985516051126768528944133813954341518922383609894244876226521598507263594226693180132688374108704135269208557400021182235513296989378399393576630736108969464321798775209971216340797289640979446134082335575305914946362077917843793674763830179975368315959180626936870391741748962846009045309427740126064230830601726348703402746268269242137557266237281723972033162811473330814923726194302990440171877279655212661488922170726398492911591983805927835208471221569109427616318210599943805366268171497565971304336124940265117727982793199703793288903743564810573388270769891893812448963957482093889386388058646481645721607172630748240296094701383936192083554183094387696499852401300443663493111281531006245853611209519670446834723166711689591268976879880581011538685657880657259285711153315843941711662312375725417509828445501061840502172444723180088509058450064736151115566226431730569878038176057023684237017053726754755563996152512696788049298373163219476093440840411531006629383103600209806567487072537003739172087282081256875280788164784173248445058228859294254938595614038716924293186780796851669096030878413793640060683810410047345653114484933693823167844975576364359124856075826139203919510115708019906241547845499513054927007529803481069269951602580909828759555180152989755094797849784061137267617022170454288066748727903742436740528496748094951055667689754858873031845819735113289420233911765622600786142686780495189398200805386976776305499962579272804904490519902987476526022700209866108595927397646419857403460672024192874469372006646765947547897192965213360383140908337136907396700009122124335616839378020341709840460651981807271288625131754264123274106104703690947692307596559465961469442236056599365248149671299171377245768306824213142734142530846535599160294492241048168892372513906625826315742456024345184667815406127320547938445740478373881233509931926476740860120279052572274025194029824888817018098109607778403660266011071412785287908895559219492698964487167789359416944313734703815671336791697865538639972189606059090549455166862450913241149292816148000451181043525695774604160618739129621986737968250707751075587634835645217718458621137589611661418379501905386538079660719499816665566893727531993598148192991218270902658141943840602218713400407321727790707802225587923928103837036477743356351504606044853830092547464199482139467823514346551416647214565752762729519610504163406691236960371285748100951430276169107729962452417242106009352034509506217141448581716107922122742762584545926116670693974759044709322955119117459318279429129443941167461573233233931718027480243843669277772200262860811883349701619312669483334812822700053659001230340251993055998795514301620042948621788051298502675597227299268681678185789238199478972081699637025960331557556483455951399937366632463084583524600475772077868774706057865401835835445767226049054257100283192856052906497745392093791868428235403848227513449294205239123698324985700216707247444327457594162142649011962489341722666598697906140193685001055461616871099896912813539056163720375065771445439267614483263194133978520998859034005739795596201960853857072845805247019873108243063684778965661865946471288730189390153038279449332336543964825965970743701155622276742622487920555647231655524525946260224272920849672657684883231849238635621999226175792676774369829232411318384267660323949432341021682860798262896092410731908690110427763977938526666106394329383385841279449135572428618416313784719680839598148407735072816274660479714434565973660115064755995082471159362128395303327475382574907629795277596269227281099638430351021352736564472547541035811022066127085093663731293305318643383481678110391676573586022332049850838988878918908466058842311121927332555365814238099763686925079717581778345662643033342807531909574197863920305262114075289989792365786015808714343916598526281954074875181778668835024298835129638049593631497780170165025993817087106867130276636450380939211873834409678825921568947238592795152883372006794894801476974330867755669704042090561252203151764902761103656439656979798011246954558413813861189243470645244622714668195340081647910100331140442198682984138048724349797116428568914217793062065252517438187799498318435780462916554043987951979971684536430634458446422893465106699084706099312970934478067492208298203245165154093179454536426166128156394101814714776001613052304686912611719628752577990640115605318913454679841109712527947934567145872424044566180091958575518000409142494458370716725134927349269759214458500503578239594258077329810893924829175851351618488312195953116475720890804365160562825390856104224121103714960190756483991240383357719021905176828500487910617030490360196132951444351738925466047058557613055898379181099771049863636037552574915991440856861944308944169714362313386559803209132356221942177394061387750516734365817444974421764220666284398194939296772373658054522250843494186724172075998849755248784022066401551604377376754316290743803014055307134460734782976461263806401566334675458362794702745641890981784009903570778541016658476914000770006705909096734577195764108969854437465935302211349936014670936796627907337342213682154292736007259558199134103115896662202467568158868017375406269127696224719697863808047625212840513756323250385338939961986200222496251233545173423873232709734222453213595497873083077090777611021437234386428662818302784797636295350145833301759922597863235081901319698374823074507364867440912567070729616064105852867318771789315460490121968232250060325470702023061183153753977923050229175675410449265367611474952617101779562744412475844377429562785553360330370445445807863263865134956381113503958808261741733545793025930861496565586538236600697345049396134174122955204251082844838750938636268070820392109950480981785891915391400568272542492637148139015207259743409854612601133193522643107051928087216101096261754224687833090044293581733704782030021326974596325465539187406689618611918539389974306247901974183762021954527698793398506992660247160666851982841217425108731171874473856291142489339277993804634997483410270936426403723864187455635979241695702208032804899384412998001518217273562527654274026043865316078490986067502770695763579825819039360273508033943987908238002176646853435766807845099417407766597759690025129332614876135220644022344136853829516081940952166730195916582059860920463572090065208229518716480495736798597101300087478074681634060980134046522566784144086662371716961488165407115218867592106713390589343866917986342156149618251230615295676186810271753131224093792733830246332855067577215494306130819438010765862397393064449510498057428351117365133324456406324859240842902392998588196895432636803433887335095929189711040666853734928314731058090582643326581722485517326213530932349063822198866188771551314560524318871674267819719962662981588640157149989245657670531653889709291388976879683257082207816084356089597093105287679868964662571216303015591192992205312322898431188347802428958336728704991779657150698162270184276697736548760606982564951842952787447741197042547280723790219864278941167019357814337999847369065272248703770840350185425760288739007531138439436665277077698204188874134738400556306523391253893726499114225671197702109301167223552180630186307275210168418106184107010190217511419175739699737483603920099061548224798588875379618242603791703170037130189307959654451066096121234696061491644812887345745085799994651097744040148039099001002745075135756087290636577150032797721348100133653084825518865740375735984933940831199307688314470261557427689939350464855821680076262421661847083867541300951311188326978935636711431834679372121169945282532335599497885636650076480002915253765221995068133317754948003877373743340276888990254379979887720896998669675680565854181265306971133394726632761896616420296563990214992489004218307153783477375554758953670876054306156534588802274439494874944759649176070800964431825301374131840149236510321242576962353022336919876335290887001729947138618231139213072674783062253699983834270429045144097439645531487831648201048047483020488998512125321165302055775264027124151974729657813718403449209256688131473516953422733623760251935003326663140627686771090828438904708941276496244156629688522933250266722190242428644602901796347503106569918431809710810713301154208434460450137299909411123592931949839530382825733237803546467574329978641388136006015317226200641720861498477551844262105298755114915386434758521769726667351694362311227830239925011788892441762878006069362601426748556963236233424816135241666833976124942471665868394146340977019245436156563703696552995753747104455552001094547152523050387632971171767496992231985593361057340052406827090925225746459425333018576737219894449861911181559412907718756036846755312387848566897037851351389332141510762241384970331749392414841168639150004970312055559698157035090180737611530167584938934638823859497202667835164874272144363213827992799540828781954337595022909270039055522017322692040434957058657892556332718761167462808427815925834781440760740115321505547315316980687030950380392776024351210907108564882247192447842207407160287835521549828050086479610438561140881058309316043555400471040787783611246293955315273315176786657351967260117350663197919946631682326434429849524267140461208840423560421991039766232523146035654726348402609991639438665287451410497952444801575309498603833486117383914768606149647001096607930170742600588695960158037215198779048359829500325539204911327444640667438516496287678656176632211476165167132753234221333529831409231604602194983927951556609911804429498966540215933395406882266580333973762561539345854925311135542400881939452329793168376252046510512557345501597921868092090595789934258783645223001571640578391018055359639951124796920341057915234648838374548221386700553816683404817379141088868007775428584954389476945144022662733704829288028217086894452741120940300905454645788052532644819700500063089392817434203266771647044367494440580099779927642196582945344582097548491967227776284255445927687225600155261250388723969139794922235054524768956497017856507794580812494537749869746887695905284624956401660761330007965040345395663697216018949264099422211638367660305013882761183524795919866275391473929903465098540447993436445795101486060125582905796050053703056769826178864119666082721594938667855558905807702548107583445861654401688061856880948866637443365416150367332032335671234017448940638151974726114278370035544316811296299344870529542832114634040992585901565981684476345971555428343817919350733755177708123571077782815667086019719684548281553104749007112354393610117415370731362210058953148151285239285345390399707136823053742411896781775274857774741894750166719721954166677807115265358127844334352402038092495171451282968575510156760411263906291563359657376918646851658223909310247223172174688849976997648432739773514162642510821658764740048726099639394121226825915881340146187447414579136517699968934978060510580804284744119355176072611188024624944517622655195064688125738060720311842078308658418395779710834971132188331620989427816790239559921187056553005450882013283249302676318141038323960767953162564200209836259507654377423718720288882038673010297492869037083245232785155112526820828492072049108411126693025284942193779726396300036314359044996758420000133568575835897243530694018810583144480209271951361365917239090923266770520794952333776488997347780321751110411237908735977633503228557960080750187942516682569231341467117826068943255710668957535390459973835464374525792530866798195196264364091354990340066989435283521804670646069038335110656403372461394972289510656521856402011236529128169377460548869867060579930097348001312955480182834809986025120881572226849982736774720180402131801397000833099316077070899681758281426571289418222443881565162977408284687847781221463667700831697220577171811427412185496878228566654169866678230389056501354713870640475969504377011380326727588397235811046296148285774241290665988207536813174492931690737208000498968628562004441202902889780401217080298866846904538519390328373098219262734049399529541628712702300206658112353208318708221312616891089990074078483662171232112080466939636172995793012669441408727594985640997127300415083655006515292356679025402670475395219227953250768169215086314070345658498256322916027545493672291436893628308268281079870211803941683487025521538109463582242263700169661318199216560335345747453823145161614549566107736865933191394624677040807187287486425966597642796254838379934582878927300827079327696025872891087819839828926702144857769700639793415657854536228540612401342478413426924838341477518498043871015162176348939021462058105701842775725107240758454354017498642508839606477920280964194464546522696537323616442632780407025089876413296492628415159643588851290574702654188906247568194552823786107052243813765015425610201160266061143661446985467243690797160606458555954011636626215832356066907983849396979970641812134374067258136053702022939846374089220540133709506928673846836776687448591278092476956450683766161234666405141763868829793558476436011075774406516480518135990602578649430770639784362045919368296852704608494240255041681284549621588063941101400855295314076185680229917164531355501462191622519249379930346183595880795931480471631330251616919132421694029063923771249629952536340506117196879255344825668966973567686945804325630104587664827946641125875584812423411505108135533664772126059372292260430371603948726918071735049441508227952777725410854106651721005341375351687944027831850353957290905459526261563930415635359121180423256946409764805377672132525517586885732842681789186007810023235415968620472526992519199858263707842964556129728910246682914536222070924414350462442013382551562491532826379436362101806724589760858703352916390146861879528951375700980480695016709281457224542827815926843238421850171519872979379279196768575670287274965393581728613389823003079193107993027674587406616894399286796249483512697574706273103021764968502274437594627983769639632320936907252556545131478047098286685420602025432174600914597716022982370807949221195185224449552148204967678282073157790241536261662794967094239546635921177874854507874119600907649960133699679016149331278847741159342505484676451918729722425050317573956432814087295353328048187261732532986672048362582229628166394168182685576204326194118725474685179104112539863923088872926920766686219666135519053327383690972676341645070632643735315667605486551872121706753881797723105107258210978020206935232822946250338756657536006477883303841624864258368447547569820224392037279379744276549794451216664439710136431531874603872057471672980119606455928792460061888772723868181213354303034371147430360650446907872244524924175802051974542288420866644231354513069701376696020724703111951608046377688646766239726417315566308458817317391398360401393652516077429018193084137775715715226047507247429318854566866883154530686457741639791296758159311941186604804348266700062372939775424513102635256612493843804200841540564152541902302441267856865349818082794092643577755655709333112549563492988265195502414557451360020870430841731973654908015879176559571408253442805660317840643203286917649003171447463070210174227979297899500221142427860244710393331682013150038741434706639818972582641684190681429413523388396056332643403217961318689547121356470456533248987306940275164741350005700652145157226311911144919122388434259188633656099191278814674003448422086093546931756544459603484258275537851745231536727201668196531481035030207465968002058131057886333562766381801026806103454034107030527961141915510308864038443690964533376638791404769882921569989719152883027153693578877343206261914488025469033031855557906008153774023708017714094021603265066553368457617820480586929337312692109773943364661446523650039298068916127845026824509729047253068932806197708975658112965214730736331377775381129764595713051299323935587066701652475867045819738839247733872488111335306449801722985042747614747836309798232693635259391431957801574855706233036913346303247263336712671278112673202204206849533565392438017920420160415750976541141078374888224934043839865080459481854755783215079579671389511619681704249121382543636938596821308536334265575449382768775368491527294405328722344963605539604624530918766418840592824409528992911196790980484419550526047466015420697272719285035236123003201439155342105970638120193109690823494103056725311046220925285476126181843230866461071406400211339927554580926484769370054701186127873259075853975020543797368493191895223039526932666519051078419283561101867794212885991172725107642342021762146542412633065730283860593509342036979935612094736840371509372740693935019594382385153096777072320376813807516840719996531376377567066490163322746754898529087468397699025656723162978689799041958064452469931284191666550475779738534729630001917986087065685576322410129579091782539394112066291641218647327191054444793827799142063299044076630105048164555234052203947231204813794127363300815619609984985661985696441793221550751903797426543799014894373722299883038184179938825617672165031843326945075410025594802348639191272716426416935031678710032798900265601374768059139475243022763835485530850400491234644198277209733904300608889639033734044647234713008795503913473185097794465633085038277697635143595985169598695136857483183931454307926266191515091009120261944979995166645983545132040808825416800022534107883670602631805312357936600471255819228472861974207535589994140700951148452429988241120966812128510578819596886014456670433374914513463066289823548916896320318043895209674618098341110194047689069689100976552497224341465256739721842493919353570147254498993652781434391574096316071460272888702800031729124617384651409059195403137303575380666182370409692096613509908222364394634564004180114625468895859941166168889258100394712722164397244254734387625793511675825725735660781664521003660982844345198506555351648603813942490123987078726604887775690947913395892052380873926757492656010751030382000570360116833706322975585631745812865570387201167094419979959374515247075990368006085056398003006132456739327489060465594630247910536990864247435784015238990950898420268399126747571489239135448177592779787567188289368537634990598371669446780514160901970288966927836855008820027209176955898168746017691409328178279474515495852597331222273120393470684925605400744476406354644278871886815476090090044019576906195178814583641037005674950155395674552154526204571439469201480079270834092880190707889552057744194333010353188938784595931583387777710215910599085414073527502328584971293604943473698523286344587913620566224611528240921888911570699889614633429561464315986513452060221981834711464260100581332260183303787522520297197051130784641348119430442126200139435900617810800025872788536401486884025013174258187394794153014764413812444299996464127456682622789310028218086675244941096929072625901721034942226334517045277460250423740089058346107382332831931743614568448342571206278962362719991811289397103683210108513599754484791573431254879893556476124085249513201133196261049803763558604036240812165539540422789933270042965858083163440106910405895090003893969485098193161593703294317595706997475283439423874255572266870741848957441211986680014823014215736931866229584359518221794152298238595064150349209134142690188677427447860148800950120865207459928101021501223933308474714508358749456074729698578336938303274783278586894723752031881484396165817992967208901869841673696377183838039351483222609804035261276279937314605951867443463594329441157939142434509709576117950283423359678781494830642321105242836105971209789936582843945837603284780232917618916219744331133142030140039156909999783160352901541218216864837983964302948597655246580540969284508152766988438437443921862377613511664155026954704070075766476072716304275998630457646196559331224268857429266181254483217302073220462589403948800184315060859081034470115587636607755844093073973379209358706063988139215805355368425733819714488977987199944881217773040729311734654619225484912081294071602126286968996189558700660351029114168624470958464574772118633448549533481995990427327384539932197167200512317128287124951759685096724774730081222682366299777452570756906432678302069327135266521009834632626495334989263745979809537051162775979823613706034369584691720644191221842184660660542604013037314275937876366704301071156615490328882412312471338635336317566177438923814063590458294370185281277221030994957177627483504047053953572991990578378104757453476167798585212567658195044638815690460003059067135966036056576963779004903250947268429743794238349968587576929424485984026688982785627963753473429253532585914972529564542164192934418554614022009169203848823202488114076068081906286106089038914251720230007758000373591366583557121878204885479020981518920727217819492160293829789526871507050497147055344456612754911139573784230820732935251397174712559695554653429056762801377810852831481232547903335845413644985693635718298575562878316839455517202481833444496527788318881942416927749489811501124334928755443832580729804124585580111272239866874939186110272492452595213711179405082880905714983363955245494908842596862651808595967669109042201409768605354667192142438768802813067797994927772441349397567623454758194754617241909062927526960625932798139684226349184130075104173403916325018372185057557532576820472057714744975074544034787124823705223568875540188653300976669522435660301006144035654153669275147824575782112688887180135896518783851525635336428585830400057443200795575244098800347366850914119419867880993341690496171475228264978063146651183047455214136840133308795652526331946065082926981624449421998807272454475501216653109636780106359048578648347629536763093268595460191301160948691255009396683325927408782984213976451090809637808958344943638963009105417235593613390986042562977706272440450138773040637489632715707059976784813439824426162056399775199535614386958203585563603504958980877274710003451715962859451646980843423934740347487118363929311288715473662996323896393268800046256993141468065891690056854470036367959972430459110498265554955436421739860764135829193913756586650322103358253558397044483069695520824065057696593246369309381815952915772686121103016820356102043348888491735252839128313895340635799992751613199481445509365954557323596766706455906310152558336087203011565467151937373014403940356187234671353167017112780670151193883968963710381637375608932071035893049582160329257288659547549941224080202911331858425019011232669526600343369584774862896645271975894366218408579885947418178503439529774511022966583376083110161484021630101179877590677788782498013871395123663819143644519392825600117092663244669245731728966820348682326555469170977905650626564185787467412504970488168012679747599060118660769128295097068224200590411019292823449882088158885310905677595969972864810272660858624866569056352513822498290680030938615791837308235784217389490109686994203849387992775405278495603509994696463671541344301774008499673143374692056169841098117283274764284567974908095482703641630354062698615353778302278755598725356692525414413399691732734948777582339293970377797666789900189415934353412942776839580512549559220834863462984818956905147598130927778915540359894349242269032417339155660809391777402213098679639978477440587152325660607356814411526802560495066204202786712584720247174230569877363755952491334246872820224166744162434494309952565110155015593534140683977332292360929350490870834596323387585237341275789417421998938705241550312062011797343315407214763800200229709379584763602214134833288737462202637854170227067271724798424266455226995805819203157193449013951360973582239031360899927668768586524792834303987489591741087107860195428954144567381919174954549341293436608274155335528700282788077279527541313502249970411938448624565466553811552397708181720912353023345004542888859267752105295163822043475897551171773702563136020212103040806496351258205027327560943905845558531737411658388755241526417746072355629068838202565675496908013982421679176358108353639102047965963706062071487778402014294108679215349844101102428798672358663619025652346570183727771136260157093546609315702185955129646598310693307090324818487894780038990817316898612858625486691442319282085334255877402112587747106903833452005693015872575268325388635968178105109942523871690497168627121277148482961509670368293582242841910657168914010980508910495772819122882075438226690177309571818239943825889146644961591430171553296967782081113263489163603955516062216015257535895402673166050685094915117013636482143793882793605126717834373094862515447366057540966606617888974989974731964536212481249026104782950162796769239721583322447213585432700110995311515563018945066290001759506687201060159044840275615479912669731204123621961385517694072404049143390966008714202590240116303614522924252085755775583030572637370225482867182769357842556221376321695651489489708090605645580627937890268529739977755731529031697480087953737557053511768254046341651681025443221460847647482612857970681825707701052075007535049421833062453361326525033213783246391542635245438503968847648370209442435455405566128875843448961902803346608306716715730265488027287814948582564403896438102008156249719786222829920159771354333167528759068880469502317355653409433614063865749959367686625701554817592326078467865098211221349496391972520448613057752306302608853576381635488754971761876405245212429685101481844482453406621877193115464191110220435953803073828382846343321407056159550752502102358984062030803084323117231694217491807827436842850064370578440359148481877769681577110380799513071847725982252155633387478694775010273254834460681553480186821650046080745676463978836717275594616076511303503474014371832747682608774986194065477574267985383269708560945328706685723467144981192231753503123324962029876209373416910642540929689946341054655928477810482182275853764858367094334364587994444823490343587986379902090223893761094657652844418132386081852032052158920355487458266859727481394958909918813021622901302756433344291601830740529266729295565178842299711259236850181672691442247305141860378375607825575707674189022383353077640777036861132785452966629854391881099447303465649216762563768298084555633073268391100360437208684995380620956416829580998367865144504772406064087083943110034826669005421809278356958765808108350905999209093127007655635206117112524821732716754203180712663719924707661332738816776204551520444662487102099824334997163928901409741662241435522201400651021403613499648400513046250127951227412425742713536099375844859249866385870812447751076573310917536096316246817071334844045409173216896641601274441448791584492317181862631581440464157428790317404374270480693130205621609004891299049764766903454298417466645776317713402701466187863388426125805339378743506578810982507112347690975877781950623448695699938861655885595957077876500499462469297253290829089791761818938292136457548286005600227636929037333983962516492379613018552209040315480006475838956069709826169460124322858118919550884651221190706095978850554395113557066319124173419369095114261436409105334637864615299379119646576454392190475289845005563263688561930226740671772704490788861908261232653876340558105158292414388237498400074334068500900424104911268361456723086463217651450556638537327817422508395285960299985568832002644112473536622114894130695241187854825795891622110923307928020012098924806666477409137809738889697853705598230274716182255967129017663339700929918989187837559459313177847473307282373718025491860813143277980572957541833132589333612789722422487225092303008398485394223353524301452792661706016019179883915826990235232593862447443877610117419701451025397472450408427428364499646788696805671922020775681476898253517032797970646598978255199182960119000908495573190360317233402624680353400730156276836043742766535876539689962242394391494790687078699876958941703020627503191745544133767074475756953897711219406474731828347868404054889783649348213184189115681361921220314339344999675907502216712062495755887606592003676989181482604939246468747067054716662514514770549481583950816878887585266303448370894514294021823612325332113235982153220980425773683831896267589713923318856647841322477183628713377376038177110971702230925209366332389284700540137050147458459845991813638448357547774410783307593057643103671503087135696876355191060699942785457745070081967641482797258042582088441636827603867050948541211245104606842893627901673761315186907716116174879924218110886159993109261640978505998384006204984953356461955783989273863087184747759118954624475633982111695837652224870058928307554426644665638362613014534501455945425213840092247580225208779233512733920438394854670542652559306375145202868223647636399967873065871121196682984775948234675383076985867730313368792354384312766618057894395523530964993302650159104,
  best_state := some { pos := { x := 12, y := 12 }, dir := Day17.Direction.South, steps := 3 },
  best_loss := 108 }

/-- The search state after `5120` bounded iterations of the Small search on `city13`. -/
def stS5 : SearchSt :=
{ open_set := (8,
               [[],
                [],
                [],
                [],
                [{ pos := { x := 0, y := 12 }, dir := Day17.Direction.West, steps := 1 }],
                [{ pos := { x := 1, y := 10 }, dir := Day17.Direction.West, steps := 3 },
                 { pos := { x := 4, y := 7 }, dir := Day17.Direction.North, steps := 3 },
                 { pos := { x := 2, y := 9 }, dir := Day17.Direction.North, steps := 2 },
                 { pos := { x := 0, y := 11 }, dir := Day17.Direction.West, steps := 3 },
                 { pos := { x := 1, y := 10 }, dir := Day17.Direction.North, steps := 1 },
                 { pos := { x := 0, y := 11 }, dir := Day17.Direction.West, steps := 2 },
                 { pos := { x := 3, y := 8 }, dir := Day17.Direction.North, steps := 3 },
                 { pos := { x := 1, y := 10 }, dir := Day17.Direction.North, steps := 2 },
                 { pos := { x := 0, y := 11 }, dir := Day17.Direction.North, steps := 1 },
                 { pos := { x := 2, y := 9 }, dir := Day17.Direction.North, steps := 3 },
                 { pos := { x := 3, y := 8 }, dir := Day17.Direction.North, steps := 1 },
                 { pos := { x := 1, y := 10 }, dir := Day17.Direction.West, steps := 1 },
                 { pos := { x := 3, y := 8 }, dir := Day17.Direction.North, steps := 2 },
                 { pos := { x := 0, y := 11 }, dir := Day17.Direction.West, steps := 1 }],
                [{ pos := { x := 3, y := 7 }, dir := Day17.Direction.North, steps := 1 },
                 { pos := { x := 1, y := 9 }, dir := Day17.Direction.West, steps := 1 },
                 { pos := { x := 4, y := 6 }, dir := Day17.Direction.North, steps := 2 },
                 { pos := { x := 2, y := 8 }, dir := Day17.Direction.North, steps := 1 },
                 { pos := { x := 1, y := 9 }, dir := Day17.Direction.West, steps := 2 },
                 { pos := { x := 4, y := 6 }, dir := Day17.Direction.North, steps := 3 },
                 { pos := { x := 2, y := 8 }, dir := Day17.Direction.North, steps := 2 },
                 { pos := { x := 1, y := 9 }, dir := Day17.Direction.North, steps := 1 },
                 { pos := { x := 0, y := 10 }, dir := Day17.Direction.West, steps := 3 }],
                [{ pos := { x := 1, y := 8 }, dir := Day17.Direction.West, steps := 1 }],
                [{ pos := { x := 2, y := 6 }, dir := Day17.Direction.West, steps := 1 },
                 { pos := { x := 2, y := 6 }, dir := Day17.Direction.North, steps := 1 },
                 { pos := { x := 1, y := 7 }, dir := Day17.Direction.West, steps := 2 }],
                [{ pos := { x := 7, y := 0 }, dir := Day17.Direction.North, steps := 1 },
                 { pos := { x := 7, y := 0 }, dir := Day17.Direction.West, steps := 1 },
                 { pos := { x := 5, y := 2 }, dir := Day17.Direction.West, steps := 2 },
                 { pos := { x := 7, y := 0 }, dir := Day17.Direction.West, steps := 2 },
                 { pos := { x := 5, y := 2 }, dir := Day17.Direction.West, steps := 3 },
                 { pos := { x := 6, y := 1 }, dir := Day17.Direction.West, steps := 3 },
                 { pos := { x := 1, y := 6 }, dir := Day17.Direction.West, steps := 1 },
                 { pos := { x := 1, y := 6 }, dir := Day17.Direction.North, steps := 1 },
                 { pos := { x := 0, y := 7 }, dir := Day17.Direction.West, steps := 2 },
                 { pos := { x := 1, y := 6 }, dir := Day17.Direction.North, steps := 2 },
                 { pos := { x := 0, y := 7 }, dir := Day17.Direction.North, steps := 1 },
                 { pos := { x := 0, y := 7 }, dir := Day17.Direction.North, steps := 2 },
                 { pos := { x := 2, y := 5 }, dir := Day17.Direction.West, steps := 1 }],
                [{ pos := { x := 6, y := 0 }, dir := Day17.Direction.North, steps := 1 },
                 { pos := { x := 4, y := 2 }, dir := Day17.Direction.West, steps := 1 },
                 { pos := { x := 5, y := 1 }, dir := Day17.Direction.North, steps := 1 },
                 { pos := { x := 4, y := 2 }, dir := Day17.Direction.West, steps := 2 },
                 { pos := { x := 6, y := 0 }, dir := Day17.Direction.West, steps := 1 },
                 { pos := { x := 5, y := 1 }, dir := Day17.Direction.West, steps := 2 },
                 { pos := { x := 5, y := 1 }, dir := Day17.Direction.North, steps := 2 },
                 { pos := { x := 4, y := 2 }, dir := Day17.Direction.North, steps := 1 },
                 { pos := { x := 3, y := 3 }, dir := Day17.Direction.West, steps := 3 },
                 { pos := { x := 6, y := 0 }, dir := Day17.Direction.West, steps := 2 },
                 { pos := { x := 5, y := 1 }, dir := Day17.Direction.West, steps := 3 },
                 { pos := { x := 6, y := 0 }, dir := Day17.Direction.North, steps := 3 },
                 { pos := { x := 5, y := 1 }, dir := Day17.Direction.West, steps := 1 },
                 { pos := { x := 6, y := 0 }, dir := Day17.Direction.West, steps := 3 },
                 { pos := { x := 6, y := 0 }, dir := Day17.Direction.North, steps := 2 },
                 { pos := { x := 4, y := 2 }, dir := Day17.Direction.West, steps := 3 },
                 { pos := { x := 5, y := 1 }, dir := Day17.Direction.North, steps := 3 },
                 { pos := { x := 3, y := 3 }, dir := Day17.Direction.West, steps := 2 },
                 { pos := { x := 4, y := 2 }, dir := Day17.Direction.North, steps := 2 },
                 { pos := { x := 3, y := 3 }, dir := Day17.Direction.West, steps := 1 },
                 { pos := { x := 3, y := 3 }, dir := Day17.Direction.North, steps := 1 },
                 { pos := { x := 2, y := 4 }, dir := Day17.Direction.West, steps := 3 },
                 { pos := { x := 4, y := 2 }, dir := Day17.Direction.North, steps := 3 },
                 { pos := { x := 2, y := 4 }, dir := Day17.Direction.West, steps := 2 },
                 { pos := { x := 3, y := 3 }, dir := Day17.Direction.North, steps := 2 },
                 { pos := { x := 2, y := 4 }, dir := Day17.Direction.West, steps := 1 },
                 { pos := { x := 2, y := 4 }, dir := Day17.Direction.North, steps := 1 },
                 { pos := { x := 1, y := 5 }, dir := Day17.Direction.West, steps := 3 },
                 { pos := { x := 3, y := 3 }, dir := Day17.Direction.North, steps := 3 },
                 { pos := { x := 1, y := 5 }, dir := Day17.Direction.West, steps := 2 },
                 { pos := { x := 2, y := 4 }, dir := Day17.Direction.North, steps := 2 },
                 { pos := { x := 1, y := 5 }, dir := Day17.Direction.West, steps := 1 },
                 { pos := { x := 2, y := 4 }, dir := Day17.Direction.North, steps := 3 },
                 { pos := { x := 1, y := 5 }, dir := Day17.Direction.North, steps := 1 },
                 { pos := { x := 0, y := 6 }, dir := Day17.Direction.West, steps := 2 },
                 { pos := { x := 1, y := 5 }, dir := Day17.Direction.North, steps := 2 },
                 { pos := { x := 0, y := 6 }, dir := Day17.Direction.West, steps := 1 },
                 { pos := { x := 0, y := 6 }, dir := Day17.Direction.West, steps := 3 },
                 { pos := { x := 0, y := 6 }, dir := Day17.Direction.North, steps := 1 },
                 { pos := { x := 1, y := 5 }, dir := Day17.Direction.North, steps := 3 },
                 { pos := { x := 0, y := 6 }, dir := Day17.Direction.North, steps := 2 },
                 { pos := { x := 0, y := 6 }, dir := Day17.Direction.North, steps := 3 }],
                [{ pos := { x := 3, y := 2 }, dir := Day17.Direction.South, steps := 2 },
                 { pos := { x := 5, y := 0 }, dir := Day17.Direction.North, steps := 1 },
                 { pos := { x := 3, y := 2 }, dir := Day17.Direction.West, steps := 1 }],
                [{ pos := { x := 4, y := 0 }, dir := Day17.Direction.North, steps := 1 }],
                [{ pos := { x := 2, y := 1 }, dir := Day17.Direction.South, steps := 1 },
                 { pos := { x := 2, y := 1 }, dir := Day17.Direction.West, steps := 1 }],
                [{ pos := { x := 1, y := 1 }, dir := Day17.Direction.South, steps := 1 }],
                [{ pos := { x := 0, y := 1 }, dir := Day17.Direction.South, steps := 1 }]]),
  queued := 3198232926664156731726433725847444781049961866599592149426987077770647739809179666875269523396512822222958862335682727651705522763150832955421638722687229170421473552130501936542999661118126274735991387053677487315974064161672773310716130237430251994886496475662514885856021206982592542747428908663316188716805384793406573530015780267542419860423631211618979430000131978920695300749190673402020416614495251949158974883843360512637813106498654834878747048451860044060159405536132283881561516821209814797730391392389767623969975441947287763541601046219527116023650060304833235821212229599778150662027129772906536951520576748142328813923186595736961713905376982903675071155379038351470431954415236563350916741347515095593331097561970205521600667453912241469877681686807534955875240846374846717724874335213061019572157913180153882666102794109936077331621961587710275366343266913675131747873243579976465178326716263746241611685440852052950027012606243394550452354735174502855583756692457352060930878072612701777821525040268409274835033546091737703797836345667356620147169184843707389535339509664845127058451754547482736875724732419716507905404273662757141534389384480714804125449651769441350295703943325858966349840508167121202135845264832020872702997990830223572427367373291296486189683699168235879864078399584332992687974751918046591118362627978050710113307541978184491142564695762315758632487551455565426159189517642630347351936071739644403291900249969246195257082631417343142939841677815591571916890499256484507060655057493301039437916960941050249742015403744062498494028354057585321267777989011849827503987190392274784186187412424616532361434883615408360559093821502999863028362859477494345972503613991068326936532433000765159589334378933133837756327593690174881731999686266854576728417149220433101558775668635527814727288607583367951373512673946862875688867692051784268577729724850822074336147516172390026723108181285465552722370734996529875555815432125418834986434771082213347659803711697437167657858715089110451533384903557160095010934368635589630728764055724252134354452480,
  came_from := 20595207532532843191719023933686968049796819840328446475877216909317635688609412929572937259226344538976135730399603448794815080679663047835435428345829003293164062888426111458106332436291558770971099591466241905498952970890331091642132552475647250103497667051543283204264333232867673016283515277566135256261407706126329927086721865047373544994247783210843924100681683802651442684313134646836574522001454766622022887233052751595552051361829369016011497654683188440578008021193072634340903348968702027709986083560393684174614798048244502024087456035696586891842291032672987574542366952069053174273103191396970332183461606147407864427641504619718362571943298195169594351815888491097960575407415718594890475353522788464662949559569591485757342840460710374095683746815282839512759034992561607644667734837906024446448858135515341809497006998436192030444109173317544556590349414623274070520084406880697071417407706905210573165290512544013842941520377846653470049882669729954236357860734418214657161334126355819937973223820520421469945503966148335819978700475125446206467935826586554278317077601390479150930924233675810881166611127085246779928612158430413552437632571980279731233133731335886740605651909840288557683082436792782685761041533755172121161717187551585604831993398717868592438646149648510920719982145445948992940905385067125387553742282467632782429443382764807044145916711934760270082642136864957947672185637149114710146827986528129753704269231817300780383409879966328132874604727888133362879996007674019248433549442966570066801115821720391789553458189067707184231876935402207773011424070788076734539381747590434691570716053362734931713562233068526895982810215236193686550772562542708151701449132583125701032309184036198638022873355595788152290424186206345555497470704241041695266673333246775040895798053992720391988147495581984714866705913137235269108951035962394392174861548509897806785398696468824509509441317386817667596831197842655691550418912682812026575920383687622665227584219809046728222286040198696255696444605957027334745716190227505759546187808710612047772001747132313023419772666579651544447304329828266990728413117778967737348596380599555976107704746737988073776057762448434657048036553699982265645343169218203368828120547279615996347385939114130628889102227802933032929624303632747415416326342938713442091059188068949017412751823855374515479970507280657019597944854349747346244452024562655176663237046814576328538724468043238567199512294310929991734281241982142784698405209129079201474779559423539018647505453976813734548127250816237724635402029039857024982546782254138368390848513323788579738941713824222040167116287424531134953455874845540306431840816418958210221070658335342818148302270127349392228369916566560881634944027121995427822969945456429042540683424315828339120498052463580385765958284502231945118074445852693711309196625486534115221803599120639808996043300174109929618674946647632072824742578297117640719163190543625171973928450945947693522392337492605316926743033336602953365816108262612263809522731885770858585941290401290335124849483484750888680266945165672365348272070070609330611465437959993476344328024402762522273345036260574877641588196224750350973395354450366813559507321725434670099595949782472921782002649854580106758858812367377338463554393813967117753187300877152419396537966249925004495246026740966204638673368972722860063926960081666406375281540960996170895698685136637703122368006733369014738078409110567519808013782028396756670286003369035874882293421024525871357318077347928625089574691828891165986033329302569009562718334325574408301469622698775164121000512975644326234579953470790639800195283768562205578943789243505047771399166265326948793464578601444683266354009514245494218925173285798153436523790163543473191154978724930546135298720603242965367548446468413485901378572030279978992936276044507466782954700834407142858392722204358709043745339009866455157976977721480303285282951275448328984193615694209078878510376948770476978379233726267587385670978392362140131071794335332080963517124549097591540446637566492178886467333226700588875885220473822158711057001344256410993866137201905023488698472588391643524331222049142149314281104528715072249921174878911300953328463386470547125752922687167972335756827149560488932955531625901282123865500939784757994374533277694637262331447990242513907483371903550138369307570207843953219014722036880870799562244340968813696338772472706914906337572588596388851071723195175890484793033363699379360492540118122087924657230873233385574827827033149496620919685927578688640673568791488098116037795634638775930129813470953110074702800570232699728966882412971623576521792500727586922475087349215818891056290576265835361598341363939599477041933544745209759155135814229130288249347615551006921369732339628800631401101566608592132196529077850528378256351651641478997240074981876966040768057565226177798401119532483777489650298582095094371392022982276884590694168939187700110604932626313052787556712226929606871139670617398033387015417201716425393115326536230206358666804210497224021970666147457578596341140498919056289816831178226881016855053832980451391470720022966776752184134628529903088919350325469552231506933003600391282412459126992483519953662955521562023757071555058364464706172712226037918343698629551658767925266680132493205561846495935197484498157972866085903621220232251072532345670584185121455250849643247712468620643788856398986237789391330701317321570774740233736413179403135570512425041519784773390868981604290520437761570291176245481504215896129887543067305044931316220878637577758453427808135880259487980451466392114659773510379048373447298607628791953963139219778387970551592979036214308743689531861130404423890923283507707520536214072124193629460252713860087447782646762782561765906145861777426324421310296309159918014404365912433542396140143182365087285642386096193903140931654038845691023979779489527975818154967918051627782967260196516043164069249915212065255304267355919646491497838083760366142161855403144882374966358000726063589259893076093510978674918642968083823863972277359579855792418281000409689445420258421681543956512337528120925447728010962504224215523559268782683877909300193903932877267177728706263081541511919038916514383449494879102614432629569364447231759709027636456476925727360120637063700647180904464754938842919955875479424813491466028186583734825884451428687238950346731172902570159273305016411859035068386380196749880979420027707381059351893236487408720379364503871399739771830278759667349759667718576618536858135512002012760179976995431848414619948312497867262476216457465190027919578858194274805158630263278818142363536302586290941171731330855607012970703845145543199327263380893882785062322651111723722914140711047405552319221808276979707095565439334256323009520299097253288435102845608517320425379396797724768049283289448395668167967432768430042644788745964528926516652781131645518684525280790480316971245908010789287890323614512213708919380437102063810029571303523404857801476747163216662176558834006260395855531421281809516428807013125308554659094517916667536209592037648089042605591914932381442053328532467573094392314236181652010054405176953143099534188493025255577904692686802428136941084416031194409963211276149529717253253176001312500162367759402070651854469757523178379581212586947578717255597790720015105550548039122325791282576913641192566285083845800040074931938727545781637156967581082836000742654648806430599006220660095767087570799978108182554754653315053106660848432196594538502676156469343408205303218603288299608251395629686844148327845225786553690615955998880509345756658686286841004465479470075593589570836468231338416080839152156598607420730688151939212090724312158240676085072533014480536702635259042472188422908943717984153834476921109486071491486761911009468106108896621537853454417036757936315720410253718248288921109083470532683115840122442511583833348673663524247886814476254697108436639403888326413160340509281054189095701935464116029887214692575910256316981357652328221103880405953168246323148123911690030907848015906288429375185667498715518050890124365830008078413580287521043612075780414419440241203257642959567440152036145258757670145770271070181388578946108910327027107240052668678516105980748119551250001764089903844026340907224077131399918413481082284435181061976247446496932286956242514148671272892166450814479662034520442324973566049225680304939578770243656979849285911542520457170052659884551008236417384792849467512250865739108759886996018108839681367783895479159011646643036425302294198977341521684651992817851929698630906567806132309830952796044137685310558380637038120898374662940384339516893698832555810334087323752533872062914764056523744356661489491805040395570676953200283569333346627937793110280143185055660069182825390001054672434909642416095779165475866922086810613860677684003681441280795865812015842930197646273042425701787050104996187480410320503047533052809007131536505899226200638572258789847008016587982952555640669479093292361463870354105865002049700840522024628241068914801661411226047390314872772673339428833008119828284015447174299550857875288863273142379129941102044761079870285708917349873764990125565582600513117759338553031353895844394366117618909544388783555770030916993855360996397855122462485870343209132188871894137163847301166445619725475450279168985735362670328574486858557192623503783457506922158711069818336375340820404701851235079951786601992180867145832832517203057427803014977904213889533318138198728404066977945257408873490435481417057021949045006806062463967496089937072186195074146306173460110613341076457426481311675894305882456620806179412602082391969827801872330381303557648597933132037664399706731020965066879035022384422060282314246588892444753834053298028798339568483545202084596801071637844438258776265683281345239319588393600069492992841365267908875985360220634664935300194229382054297394092445524546432093445169345834421135312810894715925179327273956517754885053649361911077287778954624320652708164172339876171706611459975703248902168414046715254019487884476901135521672121909085474815903644471551886719620069977055997957675202477192649354079659603600711819729616052376759495746868796445595582854464975287682517736693843771242601750546761344069316879266963264972178720031811275498247604693968038590496868512204443155713464086408956617285069313400358728567630634685141467111334822205361508793553236863713425242657937253806129825568042342952275890116734991007281532914592770481790360839122522067211961600062179835580722469807980190712760000185615877289494602200136533458734005607050888519459751461519388449166966700612711087543464454146544728224204981904404654215085542715166500196500399819091479136736147972269195509910086391237794034515246718791417725422735258392186602303052209725930548987407997465740368931122396168992854372559460112380952749285887296960774277296433552299508982235016636624465540425934096481549564042212184352354226512646988174485409391636799624831354861051904656823372469172475533600068522282902260304587968816091448940836526102609099726964706395461716732675825733172261833481107589765931887872051367864510100604158048635684910579179965743263068350573350131856860276119878416204989577621787355553033430962205396104513248346519167755274657416171564988709853999697403806048557458074186623636144868008996163129969085297869403102427080467183552608229079405732177786393350900430546727910330023667209446732915501012936313456201520515681298260709171531397749977318354728368953956999503027998790563642956893695167308925232279832157897647391341030679758341433079658590156485971263769742859309427457173740945744495412348856391183367032130894471325935275215865045064538360381018619739299672782865904670571616415086043924889572104044238681647081390208866200331353285473560872348170107039795867551944441388353551745860111928534224950870744138739211869068829330217104416919281073612571254886935554437613938411483501039859321822883733468223814959718044103868276354421650180263119709017846187395092436112679156296837301322176001579113027855667559418663028001416325361736156157317751149424605035369527479305093908573474981085715512369034014246476227093836759944178622298304045434244297837937151765585454334169235290188843553693293269432710032458295609926591825131715016742790120318391869529749273304696380671651610360390096653371631400246872676377591397779429426109246736033555085805492233895745861841793606870394256588002768571889193705733376330572388167391278298251017197271434380069324390073004616358478874318827227451005629903040565868271074885544077189164017463737645734780621622186774591700464154722277275889339333383569889666831696750007298060198198324822703962590429357914848478645586134990604945961851451334753773533379211486657835686885006102401702929463475108835958526103899879197703881249927666169542793790172822850371844535224297091573329717172120954892099453226086961017136716291781302122147985491038432947495164582387011362065379938066386842500458868691216177710266501483652437075351218628442891549448106385378307103482871787121337815443774846369365641451484696618013831231580918529893522832473676558401277898172285580265007946491307271811205175997399922370606645332606644877065985298660790794990895319870519929015195407279370366173035010593290937423500812988914322979180587927801151036483730153292082637813162840495546352467652632520889674499331938001424096717976960736745760619679360879549460839806715046651460824198334058622753690129763032471421328933027367521607812211869698784027142468383700511543720703381897838830456811961424394173846293988252530577679367553691706385037695098597419350481211525634258281816634725761011818034799755244597786916482480162067139061795898753788873857671551443197190038698455844482283020218989210049147670296017352775356781111771559095108052262975541193800047158753781992864822026908809466579332206568547914550640567979670959066722684758213311810843154381531878383850846732320905291849214330742774009114936390827520872749025127777587015094803274929773732274119531522680556128885443576718108872374741822956279657367950806692701851341123377166387853804675518467034312690853285976899336849461951018045794700831773170042753187186927747294561192966788118003811909978093009251905008669715492242312350918624896440822387349195082350780482369402385992595697618463486060009915170219812139288454387355111351335950742771666742389718762738749111631674479835161465026165133750184470566032074449097618361668765935577245941179147044306651415808450228817614641920890871626951291259540381748068893235665915504261111887349436122563113772376901697135811775921084819086754849293065980598360695885550250915419657633444760537486225526265420930261905876305184903959551672344567795368961735952112098409312372822051066506213418496809111232324760993975478124553891074924325475775615106173708599307200389698940216707913570946154908401574120386953385711539628948468263970556040825445128497864999634626797159721535021256189889816825115633207696270552003925315126693245597893515092344915314814584467537966490944168650372748724186738458366582921307038642826689628489675048900286084488769551314441662400776598422954630234485861199243674405383526306780887057999623620784487921983418171107009857833481212060381822939487891401663377790265554300171495950568648857424649764682540288987468606584845271209373201810162800172982998967088923723349352781554784723066334502293871653461561112633357779127682660717211613039401966230182213645491206881121497071012635927148649130494690393564987886145011245602766058814563914489477449684633804481913114480312028686356214957629536150742904620084451224098857334771391560336540651897590239203917441372195975194723565526334011106685231614937559093888609993905431670429064204178409025151547388335384061321940187786345528100846352749766130960566964043667679255999148435011466956289335882212499003437311049645010307429187282486609757404545972013020671901262995060406312806137612515606917853238200182378690333859885551510563028560672564418653493064518459588594352075610675609873686918198002984677000448300845993289727353771801586254723099986679804371121947859258739199942290968056856809066634081681866952103837946142540592977128609688949334788146027121699313707314440213700266508396875243462461645867270830566867352248654277377677163064603660391031249594277211636857134905472504608101006926880249771107289562598815594407674533092330336612801589224811324828155449893383670704418452617542860147852325534583120219049109282716581702866105915775481596599206350030511972848119202646011244521141133310368447202992632490378843259034283056301472207571325301840411553169054629568479204722184949831664419469885066701345729055204253499391429939143903517631478185246564351207041616044914683583664095236319441897667216857921555675995112342443035935657814202974426016091819344701909788123140424856073432623528894749816815060932088976557844184836041719936697783980314849057305468295010084778702363455003387926733631581613316102472464215482724687658775684034780105206239964242827224958424340148375498492448678367493462656194081523352537832326046042924588390632218758535108323083169063029923612765375550338998857547076544485102688737821701853098715838914677580898799861561998591398541469858430187988475538865903368631440557512072677667997061634423059397045722527411019704184424893977027180266473873440748281339009834651416474065778686848971310776502883179663833508077297208915268628796810492202186801364954088239893946792382440008043285358735379514893264823524023111300360641544582556737698412874559349051717054633240194123455319643849084624182131957731148294804030114797399528079124221810281919630470089167534495870659014590668709745168614834846811673897417864513680106197098462554162700225355022673856876862811332798563530238032581363834809164143864745679103576766507955366821610652640007638646686449799317083753654662463488,
  losses := 50201578142875934096926620839175890693543788812973986263409162885818443218912939626721798969743181770193096379162769922995184477000810119832960372120483036126814172777560747673192478614988663951845093058184901062749746206135886030816560497955093985763387214530288318970201658447023997496598318127468168071564265781661347131457065818927557183197137501661433797544376123744997402653066025565165323685767664629484682684270979862252693070407152842560125704598438473077319243875593078843434859210078073706078237309495096953095644144554820366065769949903174223349770207420959100655334441309565962070030714892377435954852756726012731420358411201470467045615524157286889911337804905394375413855853257390416153326408053218739087008736345501511721912272826548156266582151946527264240954743537819196128743638856770079738720897867318680778597672444923408913896917984626432858213870661548162140150589423417411649559593954176238470461088261294486277082886713408177985158921147069030632138313895669619121226801506790524958201476426330545813959281853194185068181126811690859915467064867408103018589375159080406892691518408303379628615393537056783160293739173125908979562751500745340707770844400263800061891445494944537005682981994506406006808922542056351094353777583492939540113419245878409964440479182959320411373236122687779164734808582188137511726957824610533251425556398830439860062731397357658276641190092771002340230237907825975093661858509544180507740254734393418964750378629548504327848493131743476236704719208922137836896246333687553422198188614598159854630130427479964660126449291479483754444402095809408606264040489669847848050741166152847604799054346156878780821034542135172896340056156486977033606645031696297963019285136272232501515869917378938984437566262446841748264301177503159333601916510952017689190517546927907878420403824221889809335004281967834247272508008317155680482963713252826489397821997528890669690933768501436947702768106493768394065196151838130737137741976327548159740180041464354079095977448568129741709411466250245513590511256964720125100515937869058280369123363057753757299830662082567747118917418660104354964026788025669906078903461015515466099443714402208666591055760613572775925753197672285910234174649709802465840211412758735171201637500935520500119783930785476437678655491983599843324812586849851414178823351782809816635013561675309814249608763661022316670365019202353201578331887021309008701404959521594272059041912070157370860599734256666581076789836639348758171646611081990338253630075521123384962211217236011284277490614231369302219510144989107768241303310445265691510488907818409329903057023274815779130650599294148988604024888531029502394261519783789126491720253642755776653903680000996337534787174634695874359110768938165234316958560957427550856011818486241399242048051371590093965662669528025407709756433189548204697812478898206078364716239513805311277459095725017534749637732759582191530949554027449988408347709902107650007800387910855197033469602370271053697012419695255151663964624701102724298756617078894380042310048108682626144960746900752689652123606142323097383107478503888917458187581677144154531365046147564816669291515122718921191529970959518445634128507257926219681930347601925011843352751550130328162072424533517627348124913448163775467318599387542928545651297388534444497895566764782240040972937599651759563923815778131918444518941929634851247743454913085983533253331006071516274898460662984731953635766265286228355083383064895447697726434706813931813341631516650097127092825832014120162097446591371672121239686044647744944801454667036826556471865606685894766733261577018021642128697702542973840570455788311156600635392396718693254736235452161806114757344320492926426245737424086513578328222288315292674267633231620247743027269929077961775009261991229039006599955176767023931218000976635453901170390619949459659891059573228037371263948970835783092001158750480414152143750860849011570048386029277325736804462545559408030132694121254649792529874747081171320264380634271819324287292715385847857395972929916631808800508382024408518058116172258487327061007504304074052340107295561033012462532748547883173212423580283802256290502366005460905976702161977451710623348138236031174125865352181882993552322982376099793565192289466245037338097411687248493414431689884278944674890623856702409537564083522118700272397291781656826723242339009882021670714172455316861385898801424270848963876424564660977108888571897220020520530095758542963757874353542044514142715891830028692559091124772915398439970781147078536692982697660816631797122163888851692373274628283996675722556857947273574032782553863954375297294972826728614479106352458878846240412865769622234977780649264672561078878475281952175110872925454149078585214280629545154531107134435224113421484714385424791152328179026178501213905132404304577249674637428724037687392130460065030659574126903724836498488542613250280740531442584069753075100361796294621643018379221403713269977328810496503954395562495306712754683828885306264379937472503006340528646871344624157229889168008257785835780712586245829257648150307770080876600806421301828019605134806592513392414356575813524979106551475356508123258006360960718065913857117030539808830410673983980942567314664616823884291365807457322308745619902296636545504303102624209717235900575175265153172334203757451108360302453715790047055993050518572546712526521334535118265371979891163552848489553500953171060448361054261000793070499404360107263173723981843768045337599379423341318252551873774087398137837709488840136352030267829030408152578129395673273047846041525409017428420759815770973160672708407560528486486151243262443817425134999042978949037335307800902175062337754656700940418223565205704852869835457076110336649872566212932462334464140527026873230531694372481696976088952375779059088903321272426394687296029398099840943894788753805694267428003477849484109287575960025094355869939480829456634364426007703696551229001982076786061937920870284292472191044573771082371174450752300587299026639343502441022061424278641209511722112179469076499338989791137495040243377808756035074811433156909576483510779084156838971499534185766680692250502819998339102950145351819352007637113017204571652523699405838546798801205176399145790577353568421481486426637809782458706288813838071825740013723888995344015102639385250117350891689831181415375808162243124768425586092274565614491772084908262657295019439456373962112276763053397030419837699877518466323570391392473477105862010035142492184266322551285025275308136944171634527842306345584722813188182697944550866412675816430031154437016631078555224489234474688972259762623036597594114654423452123982064183495722033078373078200388154621732033113807062954903709051122315166248317550308378743479877814636191171533491210356879365660725396779226855421697669949634151213054251178227340078175638930667043100543390833459470160204270058147977615054013660155395052250759747825937779654854367836422859700491199661604254008582353724173578270378352094812477219319058763937333838739274740402000534456175093752372217373196150174029903597016518213967460372048859865851757197382493210526404276493130205041815383743974950386467735035411921703681913153655563576064975490947249112990987667803146491005632496664113123626799805584065570307293037374786477830585615822189008602472009510725990673506254070815227389373288462955564211670361199865964184749411238445309619555152026660096096793874492334133305662413616577680589499097580938612715922608298700217351161566190280201145652031182155123996183860466200408326193527582054335647925101134671534863427626330888462806894236814038028746153988454018942009204837950146767748918363073902130718323772779923604788965879341887032597857622974167763293921026168142101757743097875440726242184820274155029324546392226770621138979998163588511752680292027276326026352401023355418631407177026950745438911657737737447994802505590264094503990685902495537729834619942388534888859523711842518738789968254868724791914098854907629815022854587762386659740456973881183598434115462922672975084946168995695957408783739265198901923222615935778391324226701177001915913001191574922772913413070473738259575121644431565303821776980042967749215878692452455828366402885174279107433397374014988860629045153174706555971812435220552231080606307064012142585816922027310239437002302153470854150193991133352927822869290745919676924522348690340974251124390186106681743603613808478530787183018909776519202047082801565136390814697659683863887297936028179277922936202404017800681740523619769782014929941836364324966198507121004990814692565079896488875914135023861899713445651618849329443883764819139979859117660287015804837587424892800082855635873215396384677190554339950039698122859020035463420615927494704748479759956750766315173734251929998249034636306583490957284335674088107764801376957355195379037890992277650071401552287327653822210959045670313556820662552766600658836987416797752771963655280728448731162286402358663217770145580804596752829043647881219024697938193621799226719655276301921559097119516280445749513236591659799923092879981227755742552449133605713356221135913433390414418401621359444869780195323033937855723859311393093763359869711572454887749371218614815703884212983706890796778969396091379846576299258056227257688851321652765017808880903774900563451707784887169840372448035903476545379069965401945400427747857962727697487142347516914759851392851175496413295949250813828671945448198379694234063580679331051279857440444692446557190582706239091572654182348039575821638976846590092732144296448672644485551541862084193681416739315406696299021745067420227440620712264993090707645696294141884795754675087152266005615159852891779433161595929369452355055073116514037063421649949050525316672388961220323128221392132779421799230857921895164495620112321498372933165630081261942109625911026004658815557314389036438431434774400863490251124572889441488316638835308828872665507471249382950666611285558086365759222897064835631868183439452751664499236451303108473564112676701967530225166184828926090783078420764216163132926317102030625150653815825690480809669844938301242559611107130365141342846612204280929971747577790533539923715956906582172141951536350837171370110833945077184607943314105810003737846107010146115690902150154700969507817514576587960605352051407195660025064096709716241387916024327224938949865617422737894162190300719800329963797743682078606973553584380004769877729313271580114558512005784236917503939928290578333701014644886762426416284603688668766481155135598607410225688166615580774438081328455950919931293826260583082346719275981211156740526564418113406853061031590183776236559886799305654790683345204483295979517299601515008163277180696368637467837753058227864191441680326415092384349153439473162012983405766222959536527292758645671793191018053151801887409827221004220851394669488084624686695942583314677470520539785805157492691493749159175892833045329933318132435833450302009486952518995756853146260857086122302054167429522216462541954702130073639748746895709927635116994647156939138732582159062178588960623637697332459156125926413942345130891414665232866076459978917489176485045388543833567439601420050560165183928859524608665201769303868929873232894621607237763913269390822166242376271993166826763328348942720799510170439705789778837517715384667772986963681324022798925605847094848119381187555733527607199345916471426066851187420702054464391312515788214205106525487316035606781186464511060356753757734903872671283583323917377333733684575835563954508435435207483860106144173180589808292402370978955569768846445985269475876479662717519148484223556095148594305085137292543420262927689366816213469190327315286318644664123769330010498709379145764307576484458865494842615618461321653773657201114886398820177908580678501318535734806356521246377083399959744706227685360846117601899380371233330106293391241738088240850185730559540276345695531162422793701077842312327514386567098061085709914090136498170000498910671912463231731243845246879515159785762542795262794380347787271342840584949057735426837111389861324647029218669751123330935981491619720123460394032561360916973084358736911884759086836470110672499633252951787669459806715545392389534158258184882635672585072498635019047653000924928774689709580409339398829404024434777015192291325132307716746890498176986585220477538811441831957670743169639049582328023668396739167898818404704303644078909319473673398979959827354501665598074613632462887506454121994091611517547371421944412846078838442659832942407806826653598253904133335704743713400013596241891801213997352873636045240815001430390434887737313468052377455242932854124718488150618841833373228810934343597514457286868568156001717521943884250016691428154199964286229901039627737932839423100118798235334134753448925111936276023374297273172354182067192054491505128529155192981624176877238898243595596301610162068561315189775534736263129315428560034765599573410159115859537819883256273779848161499708884935392576914859558408727780849287682646200637619768332227512442722406460554478879637683419934752914317130226723811630975357459202950937870377962259104698315087348956689588989799644347838681692682141653596385904536243892947427591306548503950902362815869393384833187044875961408147402171016322609716148106648448826114376919782654971787266326258044859801590678485024243175110636036299739851006818274969981931709624415379773433435027673694865404599348952721390104793401112774672779211457983934602948120520726759707976826273676058312973480531721564425853934810644898161750537392365289291895733397762216443418637905417409072950275518287759447326268442129115670506632166800551894211125707819288150273930667139990386701626348566965785620757002515073005010732644275950108885607032189708287323195891254923180516214275684615077592698343915402550965720356415405872773021788677322408624003196093139924896891126322157030195992275903526225846117681047806950006807472004878049677494460816773948754347658296733915184642881099775340283575980737157415162912877498420910023393281374440134516207639251687520763368857219162877860582564214871876291461414604136020360650674808565041345254292491344110531357131577637179405009736727095671265769694097065531350660707702533684484629400047358428927165869862555342255530606610816075883031064392174024456879050253508123984082656221095808134006288189628108043535449380763033460693597827647884025345479987682944158367964141165992633297547069699121779486531229229401780714052878325141004089718211798365667879014355637483653878458625704381626968097906619915873380180656243179947799548563838873337788173341681437651719578049591968217204298935229503025967340628560650378004251293315403085067609106614576857811595850905370794081494390004885512858559988574715181282099794363393790626936248267093635650025634259058803289247607128477823869919555772060468784489131741370304363699643360254579453624425745809797407038534278068290677291438163448924467494165905781961389953142011672378768048217987599338914453661335008252657433783458420103620993806367944028585176309533724472088873055719881926146939412593485535469268849025576427767709037395262319262707288594447691800982731026177853023126048180177233188768748505895396290043266198423415656314234442223942929128812340448993589333243665425951324519166461698319794587109458564660900083630968858643613490866299046789368859475827448062751153151947644892657917312389483938451913293046151205882701035661053477405157949067916928986197942133124356288309998675334478641280817503384177829849695144054586878644965291321823584720157920996177331255969951171403409581047664994956641048285291189669745427735915590706092565502844577716171304073032179805228648546696749419761373227249058638939265196453219476930567464933115444610080321794385683720782676006932068486587494025670179969783346893961853939466442031038978991680301149335828076335893122519704396778916248294852131477810474265876892971125723215608885078014480072471435331483400496855961198132101252584231751693526918622241878291320636281398745864450937959936897998568338164664447452013098288964209049964875724314996836623437729001165886890520084539674115321455032560255480633157154041704586827719145364636304333287984995122801285257956072333636982132122702025040144944544609372361604299611527659158812699489575037339444124570119375402726860377514855035553581164432381878137120149687325062582515567091049597171301783864882286184859503194448784833739294860857734728303975293168731958522283158832716599205921297456405080705797040604336464447452303725485987589256235616928263166425707434280104207693888613847777227854017646602575903129535450665448298273957735316252200452506590390192391876110348597398078291046767731067994716365826300688604350006161888095179064410879918048995216973374086719976313699774484508497748527363188680729925343635358246625266443551391796682475586890193985058729094430390244178361724069440872576830389294164408950777299042141700700600750439099674831077491212864567940908199804134723645383418493127065597664328726608528034258820491822951100487692916956453816811763341502874151093567949179023306989275170094463516839605246457192993264139678286365551540906890777129530044300094513407934233538824484837559203985074470670912465809327123597403633146012755961020485701313432374504681664264225587398638538778642394986952021525797356568036929974586006095631943484858411586504357946303866247351674767279434631838396296262152064152560189168062925055556512908709648417664690563898704859513154019551358155099036584840315579651207161767079867862282834698597405031935495907667193696515918184677833142694390417004515105218070117517130135362047763109251288281084819449393246936406598309750693550073785636219954936568132261235952706713896153325619410828061006517718492780998545185621258351161234539948525151389178817769339091262959912953780091664266496356493903345126303454406088193068017507490038888172407593997878907829017192402820913581527474952553967064566368834107564942890814932408725597666812090898121536642490671461269460250343070114388933195792545033382343255479644090252002923495611707447254397726983098275116448399884642446388267557587621200532203328715927042738578806724737330325047311269860002230886024129751689935721653515977457997826364629924336483721431431993024589413093511816704953992249623151454241323646939567764429898274528783398430427583504173433420964228790829524138052908085932638177134929296410319775909888089453924937658036520214219871753249272880509575429317070641109368023014243487592259379120043448327232649727953545924678673831671779758089638083953168474495190898880604538394562495891691897032980983856423186829336129111531891842239881869370355342224985835455454943848367787149805107133330683628476920670432156663685519235508595572404839797871185839165382311449390662725596735200303222145668068233164146673654868962798927473064158192775510517371808635635017906808016114789341808468850941425569879062020688493232614180051700371916354459755195402252646413673483461093338100975560409748815497415566157710692923979195300489659374801670453696272386755174915882100757585413254501623280487644241508835534171885940936955573136587011879139826197635348346687184733374267920457872401518430114388857514964402813597008976321604221670029421895921953975541718389686173846079227002322980450649595008135496944049958254945508575273132475628313845761796910340076566412471474761804050892430284252899141589835560731572039802065096383936262928116794762548126241530325304956306042956181432574051694224398092291634832410678537505750186615745166621990880449565948633659921939207522927158580447147080129707524843565437995425091121344997630758872809676703784761218943805919060961663402715113493354983762176932611102071847288629267468436634686092872071003744742422749080191122863352093587984031483982330841592800176167762095941358865539233750913253422823599099938826480784887913863457554021503353514083422539971198445686221311743575309364787471754704898464032665606854946032534467757527183803943794779145264866487908724469529914802657838018716211899018950141173923363568580678884271928082913309493452684887093498842363859270933242785065291319474962501572576178678271918790945008139048022188580556797786139331079235644418176856049379538142857764214005487988953010581462957764846616336680014533298987539390929443448079328522447231547365773208571486875221189287571658559744059547729217670016367848397551850208451283887776683524716416825153596808706818158547448759305214536321703655533219688994735705882905493156515695619326446172505741740022897243875751213560965808940101990311281217776312920883959167019058496296968727529542018927613253016699436839326752758093318800518071688426881864974179417704850100755401043548818610385390560892178864236796528379683924343633905604328116183165431471570119069114352230125827970218076071447713187069099493612225296867569411639404529896931025983895911803504948942764001147103563451021620585023263669807712253476505194458378764641490014310081212681437438338860510342767827442552675871914324432872436370739716534586157117825003982013087090069632362924741105083717617457949087390237299313402829996274743380337944150303489128034225912610607456110773195635415882520687077887934114970746161264792920843117949157521114567131883815313312388424342066308452995698197489864427346810718734040952163271239096881301666435140939922343612056886741524951262165916856372793418556512121787447650115334437094907284266622881236966461425480225654586787514853664381638920525891142904723708716274799781873928708464259068372506633675918523083505007555874171428222802825014815716644872284475970708390121134677697374547297865601798202742787623535377987250429347781773937717010947607637926044586584865684219516412426659403081683067735924844938722621690730033507033054790932858321135932980403715446736969262386408924980585197157369609225066625812486624470269149554388294127870911664246277497662509099168097193185296497011495975695581141308608157022281175383627377470272752632228098768556281579138056387085803238686665287164040613405210852435119546083152720558944511999242179790233171216178894051011193247342810403976145571268444870299605864293439058253823379241995238197755905284136377890329554564695877264592060468652578667754239865989231237211586449261334263606479508525424576558202893852245409308680639020254878658803885720870587528631220708498674945856178786237300864007662090623349252872296851188066453409547516480003965204276491771783992221381297282573230186203370867430413168715436785893535296589643641211013898154565182884647767891414640642387435030597130591122604667242483097995028727702159190692173581773866564047097067421271507337385450733956413838063851861932198024354827226330491776182884245037165511600589840890841118638590081632220302756672251831814754126700889828280299631014949635536308206251740454958173419517214089402489118056627790039623702437233521561776435080263500145046242386703678701719971726542295392172817240425539838219889608500057072187895775486269950243627592186366240594461311458896731787070046017776577852695788484941392285952005449357430801378130682033186132453852896726209187259630922177533668349794855242420333683010553136568203213010017738454987660581204951501181478524395024283791766129934829181341895475623969553556405015153544905682775266518342782412869299071734819279665499819686135729835965868291557291561705510678683501319254445393831938864767016497782246465610171708229809531545889322079698981257580306152852980088274433501219890691615747342065817686101735961282190727660976748786703796762300965107340098982587738424148370543663961575982084827503634806234622853504659130110877690242302937552672828335682104690995363881741702047869394242735488871856332291747866699202537179614739198758657753466679021020435166594411606269099829763778675799144328594332948046632958431888872256348794999693788875335958085494219122035089437029101748717113394860664582532606810582185273620750151455301969461249592422761107314388052276405311232297445640973713860656686747855861880069470002657594660631028923331146149749623401491402427813628376830922586985845546293225985713855264614347404251027221322474349933207941999605850330442236776034434594749403670761397312897402884259074347513696363505461956231909431484598834242427468703184519815238572531799578806564652195507504228639110193237480448845240796234789499566915203773012312579566267723973469163302664682126204968514898986490787622994720296059610473537993940080533711196551181088874619078372929995861347723493509176479685630109843421543402453674275665195113017015325624753479022484358443471450293198767145967864717903873994964233894905444611471511860735302354011008777285935292895507206228605432346876410989071792059462027813640236075222931740632843998969668267848828196991741869934682094021727487540636134396328854628985592980972129184671372270747919179837353935028090884293301144293730037496001709462095852642235056391364309788664356926753431210164964184951303508814661672030140598551896930784339760926324579068619353199670381896859342926294338734749784496182198584988114594460685510104683822251195405457991126167820719273063899299029387903745240969253181202918086554845211886993932230477007568807603472774375390631697134126065481494327751978926092737230996954515209524175317220263863163087173184909732096573737927476538457681181132077939010993645592513212327539424101206013822013881420473806879489783189774128166086921467906572987950760999409438149680772507994818628312512778096652092148584960886657425668446981905652722101510556496127153924751596090089969542913727564220315412410655702271805007710223278501387845407929214620309402555622226969933129055576710598451264272678993578248753675460443436736395347463500667462389088899771440749539298637445815706098562516927519449526271862504806667628394454300763581691395695907649777716391785943870057275118426540870032926045979194049213546009562554959338069499485315860360609053235747071383981238534571182771509801072074417089674181742328337469208037165196334365831095992714416180042890646993824745386745164416337490177146481565213440008977339664179913670720274835811892332137767002005748853153056265831592418509609275363013381416413474470126156316872058167657723898348775909293843863272736343615872888948175372058963222661810754589930765343461330065450809354863035134305005640441776808129104167981766217511815453998115371524496920887088432218874250682315762614916125094644135669407515768773839023080784337648839149949782592968335756154702318242167852402768733661351298579277212048499386796017736282252882590743048443936948920974181418468975425868660321264785303982242090506929004197825188913254433237725080617681633496786074910868353411703436581290633535032437132807617157305642618138591898945059408627139873145009057142912093512806293343616810215271616562258517350417348373961477377788287493367221056309302139957188479948377893098372230071925065099965177362610539378839007346141304671147450790360890717958338844837323902866263497571511894440877264492294880452380186425239693710213542957252095774961172384353081764164373135129612991103926605024035265425250939434984690038111823069307849537744874439345224757015670023869241115003708511084659160923614796674282501810490312137088903007820351720734470376246290819370773999482728109036234352155376761623069104830255783570715757245196596530195199410425468230738828012760766619371403389626636718368370821820796104392963785067220666785525865677426569143710474565240001161858836047609417114978781841688130521341113873394708476304989376337331882797774942108957984339281032083112359857856302950447586781432936093027288982827901805106589889453494222821527269960485969117447022045529127264608131166875965029801559217547711338241672906009764258935152088985304397043040511279412262547737761161507001970929411317669859101207075381695914772783178689652858927453373057845940470630311863056312103719107243360628388518962399813798046307162767407615224553166832340675583284301906425880835660963600316758517592034007356148718561858769027917359937911925872897000002413437512699144860976686490181488888026460515439831488154370730504528236888930388916615010672701305025437751626242437622239740160435121410170364294021588220223179524839930704943826164316811234342422599565284387763047858402406382435692399888314788851576798670111612106880378008915032737779695800623229189813179498719251682120975190853228097755019455813295281016546249472344576317563957376080694877270666096323220576718195682834719491715331607006773056622307259120064947745198755773021178803866062816952092306935244131502705406042493547114853512478164328402425795195085193865967600662734940579539280115546183757164651934912797603733846795503329152352271796428083487040848466601926435794827595422708373120111427794767980965462570955357748527921116550630955172772294350600194295653829696012972324896424019136132418402002035276692930725216138679934506941564298999692177458461530987735864527100506911399034246060464056901073784466300683145468113199680780321368620528450621766878367023214181549637402697577673658323950670762734468763045732127709030667161748542145620848320224393785637274540322887791080544636082954271027083971505392270165205387105305041688200646608221165656798522441646969917276435977532416853707058665949371742738985123371032825859649514874412065497594761337437233809108739967161842390945682771245177491315913697671377796376557725562603861182385945145989053271410550595901298422566514855514546557546027946107946007978114946268046921773054736266123789610663003650492436873084390098015365140769590880390123526124888287149600219793868817822840901645087481933849998699856961931275522427374794539156023208421039740143180980433124885986939443442782342516769329849296633020178918529234928999847841305461477457146933541076566886781110832942532072413328251485640695330176431805946094620510361056090336644804241555927923716538364896958840991194205010879739950928679317520401915027917115768933483188386097306642450674546722275544327132085468913746754832308360081206696314719060946371127665236622093773607593917894986621261948632774021947293122690056864446041470179659365298415701891449560080567300609439934274002750176631055677535648182076945512104999957275584206668064562413984997610243608129479739416639574710407845261797176515506093420682327502212243634776972459440207364805515065202390196176207327111941952053023845781078396365555184579928455060177396495616175128667067979178926097361695120221487102782698991178731721326159802340018846766086445026082063516393357567323603468937985093914458426364934275581265320346830464024062343240630016972409722330948837441272608257325933647775861113683707359460310584138364133544712672046094611938044912226158366856246709270079430154882560597518804670064203038728189484265516955483243676104564318917356367831136369498122894251661092201129719718526493786792554104194384733142095898780715572289951408722834542308234874127801235382966406171092920842699095029786340593706507923937439090707094438308286955271008632828577598202630989728145858235646052209965762421542764745823556880843268666324572321997243253003786590155203947465567172709267889750974184208101934057212731426377738433090199053466486172431480369828501684270194948121114389342189148854577149438864182348379110949262611191157118137044967073160054176260273040580488499165098062704145188305324688079946893601988292688455644294800910992275543523206821591335228848464322864814866919969046304226475397084897100585887757307624033769742423396137924687515830326189486517530142356343719503752980027539284804539469446813412922952801145123869067284634257144267385564393039361535924103702583469678295975778100556455497984678064307723492391468577609138066716845792525913889061129592194133919542307075482937668647696067789345044942501224581329252808344107737403177589052483890922168999086360717075775086081759626800077794545928622103547672374157745849064428487109183289534672616375096760971436439059875644192055733555861810488665632557192682270830799591528273101148804800695401011568005493688567964269913109710350742429747046183863863158672980802908038142334116312994164332596373681383359263715690388978479805221723537191495111477138688224183740090268647835169183989240078193560168545485196873189375933355399374762938401053736107121471673596228385602448875571142665604782246428961462468734299395363111348821171852831925224225912679840822557177815483418092309123604171586240398690079232527013256853417004144254975440621015182302058461862056860071787162211582257720850540773895063491233967681614479257358108404237057482981444998602550208959546898261829162013355319577895109170764560808885907153530618868101040551711600858526231280477781820271063476630686280706884386857931018026009851973741654198440638430311368228932815092745326575686076811918704212574834275876315858580642733258473053914031435673685190352101521005506413461875492638617624661181566783096664266035987993247388944097420346794456859711706203181950324553358177492668837788679542748607107190860867333397240912288975007887782858378394355929960425086799606424293058091721794313648480388493287699063496866531794720957536953467531159697346462973178516001713983027553047480256065522135693235297072826822549135918177860730106073991677741102066139698770758641809862619557851570385055849653684959991742492921397262122963804266671211735845937783876640079337144065863495060786714649455301212673938745566230217899816456010859134993447849281023149772840398851024663118419536383104780728332081880106599173069263989360084238459068030540896616453100103869197295394798364651034157923012027602319399347368169594567250091240663601227683183943009668232949730406412917068942654205952003354154829886635558182076042252142712363719797683097637090920072686276501311507727202873990537686230059779773601090728385986068421867963417822179152492481407950863345909074077299487491880144759742375293326892703376006608889243090243633297066935811887066287776566547995530423717549439651381303608721788798359459302683478129293586377799704997363833640970230074292932992683123572123689085865690545052338187927426968477897064354082328472154015899572413006059806962110294947474266191910763680638599174107454584426946729356686288537928857371983785189029231731930683938737439731281606564395976336261086486622408440625854057074920692134458282348566569461048848673604685703045811100023434379137102268809426795872816289879722454208907494677666984229437094405074999500483974248920166069972315021333055100653713541477958864285026892216070522388809726800271895140985399626279459010955399796232583076656108835349451541849084065016180877430061677654890372813316204195312149290635016424134854063961976043439431345394953043636163006451970764229773668688905980135907870955620388270680286964345283091162488808590756065368402482443500256165482654601464530224344045642920037463525693283936453988903228373411108934238829115259526670171474437989792977308766092900421957869113747727662406921214064377530429270587605404411326125158597208657389214807629129835234892287259210925802233852713020919447248941361444305757353603708406812287527023481470924342179606818721047516503251419285656502087061647473370950432423454254912640932983804113110989610807918410622364772722860073460513224099779880303761649190135895482164045501163925844045907870480348031471046777347450004264439785683407394250228076732626604945099800148623848472947361973446829573241716954219411286931472293585141004781725221817660303527232808196029604136193888991537685690012640329387721937412289129459638555030048924450389053925435216215995992606075710433808214249966160152923916307289828649711923583711754577641621558657843988191591794905993259787735378215987990309704629431286201363610694229315187812236748488959627844217486419108016357721742320218119528346332728971380689438044025432871568303771647606369421124023878790034351475756558387849160742341284836713329003511804780274848402393144289713743119112794488962263768228286709174189654295028148473228057902016453958430899077671961810872987248124367865786739070468779641699635231746696147447943361120691667059454077966059642168835673081806374545545549205386132051316110769196609912704131239070979864872184650332095626939107873901917474144226309065739241957104545680196258306723430151893692442472651579503991346754592875769784009611852221734975542820552440377724250540180531717315304682618328077552158582354581181999068256025230792708176456146262826823777130678904118349417306317095049116258809529375252538180080871124800415704378302870295364329532701045079089435975455393057376816994711465966422507357285350860658353351360589294131449562505722736328902170354735184172477935490692411107984350575718957053595566574190613714844227630625431723188180814343642427886550927332897626746973024596183328920158673595311164775005134312137305961354164914063153366679734877460452102089757662299971886650101286736122912134812319530199562211760230437664957426628395068535047424731408036759768915896260454751389886704743247753987188380160900135538396452176565748973745472721020042679345205252952717058693794381914048563883544185534747534448416334074359098439078972833046290863276745399895223786112388622612851624479246096489804653849345780321596780229351299413711181641988904739387376879638100969763566848477459931135663152739858040640886487659988641996916703176956751330516520134879194635141387645374262557255729652217106186130729900545882189071826620694849803987114225837137946945853365365925196839116013768177577038866065945466704265052672283413746870805545540604120381360509037404513154866434279194016700848914837329360679828625097554767144989768646547675745953470366186122290755698476478316959248556730826577233158589915864153958049129894388327793926676539557052191652243323036099761642094019880849957868654853794301983875544388874442443731030400813444979644866974855127504864692316159214884411394160897585042703094647461382628870178470550088442967173060385875326109176220369467659556249310208716391069515208247586917226669384019188760523256774697428335767821632580078863562920378703579397115385808536055754881064758664824271722998465475558455920423984885974156816534574907955089280429610181834645196839368507558991377634030510799281092522193496265532786539884602703038261536548334554625030181488651686021226456962225475599730564054209439943597442978972821027693346277425738152821367490848509785367192569877667426308067032471148500882217071009048905290504409175828294307732365272616739319353030846437378694316052509597608704262321601375719155140085694536395040260972605206561629096256472108403802588056725827485541099556935024193636672890544206671780313451381526229745953993343986381938171282888075612153212378662460191969358352531145896744396206868856299722797573773148611448994398032100255843395407811927491539077040668060372901141894459393811238211198557779454974022367810926383028789791769445537045284102507644599274381043679674104265939371700733527964621927976983059103207448697525863806255520372953755500562858123559651634417426648717600178262230543852488556731052543090950320216590837045570786992817489432557186247777604680442572174486800808842274678650321019379589983213215548912691905762954006316872147785923313316702099149313943491616385041548593334000499003809961236109084352676519292364111912109264357887293950440022948154458717020341840491620408958023314628611913992481280340959833956742931842624543425135693950425822911452182799044919822082866561875526288289848126385185693845795038873290556694979543929337768926017364405248916784867611838482131581543604961275053107930539041433243513777080435483572257563150455081100140217171606830863040535756062485145702385233781525838294612366668561787683261555884779354485655946583710161323303419934579457298320651130279937152206132620273714546373063642761120640866791740131201407073458357228838931602820436145262744315538314643345910476423814060024856611732795675305584478805794718996883437709572343983594958550335265821681081258826158355015787013119961390760577314475152282119356624704635126601422494618391547561229674625989864761163637670030313196269004035980951630052793195890283283654505903334369310672024511734642369063771082636473571885454152103846818940334614557702284881616056975252021452822357634059890957343416489677580079133073914994961054618685813214639176555401330996622162796424651062806457537457033492862051855310540459113628291293613254876177510392644950041366584821075824750504369046367280852596381850058335528338871156962830301565548492920122796710661098553091733505450808589893576376202007766899728143984124829799373343468179925186300406257523890065696202173552626494008635198012610659038172971764164354298979295367962578433223047528346477176611906522062311155584389460047419834005924895418049501189349389688947272173227865234991467658983761559761371144087163152340075614488327598007669441654905797850688208315059006400527666834014287087999901444069972148752371825973832807728048253907412155602294605687530151335187816024326966375078330147297128357423453137893852050265942210198512879115756367409278054887212996502405510546214596406601652387414508461858445541118886743505877325081049454828363913939485349118271688134110602870663676905415903262713569622403307762687183258212843289359219871635789850810553953833448626715713829945071569673511523419192894753120313454081070919635181613243046258891495738330444076088068398245837782221007283797469065583475700030658735246098327262015981434047457213683818342738628094244493825561804033751237483617847328927379516231207273364394928327075426591153443879923286870225876336085106481064817503089056840873200306500411300550745774325038145038645233281146349222274868239591811570679623138242760808196523061045346314295966676412504032422439986589852141957517446655242411568494343261578121699402291410225986719627690159611199851947171903110839217796060376040980778936209826138871858593643525047477835594528762301641675577562351206310390239214450971580797861465182988189943647428672417004824294433289187836535503951014954205528359730074211182548800275255839128752282860915160302720071541852153708211262435615963881600031944612074366072283041394178783682013565503938759554234630740620863757432498824570242114418473921436824724891861394892211078105946191279111368117540226209838045981763156569536178347795280058093689244023697085650190014437803986412902547170442486163564032932688802054020283813567835674847592276647397452772923904358253804715283105329913448046300290944099367020624941318139043742617690963983245374563480647913863311774702174971954255409027727470738713660855186842294609457539104593206489243614329141725646941038281763573158339130950404160573114677522304383142623491286376078248286854519307293345854462536315468906273706129794053405137866764896502796258987596036390369796142926262505590403940221733326725071109862922169848757941935867800707940332867002289238099180125700650669838212006467563563677372877292709458743217423021443165696111842555233169349433776241539031671464652410462408057710945540434984664990469460459202338276524272184913292832395002907727530079861544849726500700708210947318278079946122074618365094717498643393186237354051870076961766674570236459430206514980180882733767507944671893295167770136564923687026710133776370623720309629939362878349327392525082531404365373077750680060550024116836513719175942564221544276743016800914162888648804945425206309234492523879783371280176695148781980325877439138249179211070514366066701933183729108510587521245967797696795797535330672075737257766790066882839504379669868918096678078552082852705844251559378289546206392134136376087852236304060886418534155269886575017253757332306935677429363729864721046710433761470208885730262630553405209117208354891473946210418049468842863028699650562729197369235845018496521971763702032819528222017745853253025107718521787889991033891888747408789576408849265354057591834961011293230053444577028680268939487556777729761896729981154976037396484719032364201404656337113587685903048517297808526364058298387598030659455507367285257072276357854756753485509676028278543741385917641542487232057454818327421921444118256434345348776051194272069385479518513455565778104955895084806697491696825908406468374221719223510397066722151757037916918468791868051665604701916329000236305249441268133859514029141103983612971039415526351061422240998019739440804519283529796843314742669646124065753496406406677144940792434983753138560328323167545343907323595250110569232419817190234698121135492859867386584267446545464701814377391800494076329458777390509201292566478592484632262154950058813829006197920305671184478584914527377921162878556215681495961731884154914550211405373211678163252745226041124486331958617503817424764816535095216466762628560677425776042185394590697001535584850615628356762993569458124323353117326674468481263819585651012720981189164300620663955049361747763966109180250776630560511786122812413630390827516139559642737616548129930555699429106371888229815496734018420213392944896240188362355921861403928211008507117517437842922062731021202283764599217486031907416544599780457989630578510456023080504384162989516926111982161948001512291992890803186173996985625744723858211490340332963062165872016731078642369783460672508480410971176020591797021369403244587609218164436263329897775836058845555415042609748521771607592064053458557960598409417117630053048897146060837012442526933627997637350509204124649576279603085541566716073921008969422855060925798325713362980986434933495354122077490107910674373956949811469731058488487402374440037187087133412451877102379307739826689963551034748024726932183767219008626746677382971131134542956725590827616302104527919091431423894617614759438963842786153913057590304213332492153530898204051117589439246213281449894252398388605564945493304330494861256199803171338001682380500210652307238947595120137293626213564265688244514974870703662672442981636272284958609563623284987841056961537201436541489787499490275142009558301052159891670467805191583100184919388947003124883930356167630484749638637477454202374287095146718601203685604364014111330424890072252889608581474673912925258271849469277007565473107911123320859756302631517081712666865710256398077821092648067756489294797651147067388865268790886847556338891355517659292364509316629025992571552010397300819164275389368103386856090402839786382739372825540491060706451144047224129069750127734400413276094793465918046153663580962078111087589213776542489305688813063569566658554301224192728136197059939891832371810475946703059906476073856324766413675882715420055837625785198352123897902240841104691481766188334012089537145635837838702489705205477085161004122608686705756108701476861218759259162790634556798671373926680830617126660120956164246998222973972247265929932114843130768165835796390682127381280690189005154881451641260418441345659026025549219102989600389209756460540054144035380703901057518020045890571828595105049884642669425807202632246923241226856814251786486351727799900238720032879515859022841710024895106368729123988135176937525230881765233733207566387971221682138344783691209000774859472053032492327985951711533200066197283507672070197844514095136379753865866324605490755468143038994622720765360087819133256663905510944937598943431716720326499778788423196136945852716619887425508477889003510756095357910091393853374766436198969446216524790343738365360120669065737508337036427791203882504793869080292970598615802999989351808649016463644093272377263873479882042432830828394396421254931296926566594849216352558206075367034740924142079533361107393213490690899725808125171401045695798443990331863608932335529190914866877649493240879675324944536282073423438539883032357037949317137893117270566043815754986333168131967481342357850092421494573983514861010951087893561580086516206288958429017658989986860879020633918150190624537400414266945863338154366231530364892348705391737290877180607946290656363883201197859678963417552082329068588996176837578547674479720894076936437651739820808159416039061790963947663815553651950844176861149004057318003280335105599771798214551683916397986880821893264787958138650358180963866162110135384887071636571312238244011450432804819867900001402533485791279920545187040291919875940937137000938114827948364065971083029689480014289521880553124427501625902185828598156399692763023922153816052269222091012914239949822844157429841659174641634757392465094830212821442442737767158203421788877660558805178023629955619533538571921586695588616161335956718033130875807919552513357951705880732699749589877047912841114832224507902413034302189482392336202922172034808561705023800181391115197200386971240256419272354571921635188289213269929418246613438094328887310661530471853397118561014150733126113037720720544610093236342591263520336083186250133809894901448956025567202951452887319905431612545035475433970855893555785318376710590378491293118550153290574364161375514269109089640075647627224556849976941115833424748975648933561141219384984830117969865823269090217237319316582010333981438126746975664338396912942716087628462325853212525076518775213863316781562337981279861802273752584156446720838518492444708885402034891474798974829910008388442145649362757624325807246480708170680871492640430403432514609109139779986475813282148130207557971570570068590985352869129161450213929515568689214138382768317000734722045487896495621417562339354558221472651513642783978937654679628567910684496514780233697196440540370693820765047060749803913599167640134665926732050062612130520110820833945449874576452065926779763807821850860231198587299161470488583851423471733234400834992246226667041309697997446218125383009006718267959136074009393365098776565245883027018552061456149660875052719108327041394681451237338989640179100421229080708971679669837476291420223265883154751117365280641309798516629082143573751496449859834290361561681591015367886079528257226978903727508660389266691180192718218542097410462749630372754872029552785120291913379142476671432485702569311715555602515644926263132795404175570367767968053330944510393397839253256211859687909954885925846788901939559592684273192977956511146075725039917794370299714797172823587554423551591285843942156448244010756049708602541523412025822496684675015436186088406939795509105227387787157342802760580872489221001377572613206014762719466365002506569068157066175273129754721132549869169681281680651791551428098981938271993382742215419721123093485530816863634702647452269264613883392527683314897833642965957990825426540613515301735499663301124812434828794829083682271222604283558138581317639779183721439469476189281945272859141211775224658129689567396365470726180519289707741022638750481687833284913499107495468767603178050528021058891486683997684936314769254620425580723383565239789216732236487522796539400406691963361023263843893975822076645179493748719147543921204766322810232111276958055530206242109494883718550203189588923933798941653381792432160344012504633875594537424747720507854585399042422337563311554370765438802757224562837944493871832700187847203874724459703662989358053331410777424955503987640520286093818849814561948486972633311730112494044710750857179355648873907987414282257838841207677834407561433332847492515767534481834172246758978217218431358536887069178671154142104985588403470817081645488887731003812396896724446273520479487306953769579605545974368042442544645222071057040593054010768546155132208975345131776481525828600924524170589880037372399297780592236708913221983872738925017888791285774434096443727915125852309371319996815013735540675442968233791608130573925864495289152920282845060068369592406036613238453300889981147787853612147901871499987389089727389676061775524673204359314656090777748016940751729146263395776612165457446514168846874124998542689753109719218551177083653479053408766021314195127986771282075907087757092878137169597731077867348477773396071693712164372101161863347351741129821333903586702641642860817037748341103604321336808581985404366543385636619139789382902745074950186718604367019193417801549162213706423512691217584076955596399085003221371622820653191306796221558828286418536659278429462870586986575741603171936415205238427342087754812232270917361623254204353114396129352451432785442814773600966682010609622842318903659366088733961468857654910939523051943233526188425552319317494945236436917461976972556831143194617288578778497147393699815283843943858204087737310664380282495951922245563126432856423881330159524591617846663605583615294726601567494685621272758878408128977855155049822223065176517441962319954469997000664915330344094271184179176800368609734450880142448168958052401528641550392865273763904047646393421003999574748407607535243412938634126163932435838852510893477762898184570064880642758256986719454372360752107419785452930639449098221073784113971794570831302887622264509255941366661039130616744398281279535599661775931017721747205715347517057575654755927698304159649498266322170921571648518213550773113205906750884599986812032558907363278093782586249615734548049276917420573609372944357786351443376100652355619370564649775488498437399173239933143821898744946455711501636386022111045539154877944519355996250263001619809942152287503744791223285711052386884011776861853669497528333897580959290003575167787594069071533355545104322494148512529446714807124833857271448407966061429809391018371011638153952979679885779192159811055062815636986950509845895034088623339058069770735863110168127538795569810197621234860267100638496345769437079707792973171675127332878843705928834015200618040436430835982238639305975710869807288125425863727326535786268839736113764938194032807259163151373599209589141377550843617588128451026232349749679827192816193776938076454081465757773407088470075288825651473732669654907194300223355700001495597682440361760901438144205886654271003314954481588855606173449154424394501776574237420881813822445490275291728283338458737655742488250244725705657849394927898589491765280634454114582449764998983373290491518618625780091542157063051323869543644688604832772816423786655574082162314597984798229309959357718670496212372227023945459620103457484213807965912854236619802521485579345507475108753310377161458895237884316554744032240293592364437902919946321616004180586671856555719892285986730080517681769646195762852334845703827907175096112993815907293701491365024249951024790797183119859413879543298210006689820731087836359563450590967779124028944490339032926516803610393383787153841665981622192565903752446691109945347202234363756842281220778252857109510548419951567455717081212731186334714413586508357000158852860702124016150092012718766232767518109696347482330529751364613220814927467583890294901654620144006808676229302870902949052682700044876735263561935716810079033710817342046758838972747018620677589665000602125226931388551751334675633352307352398119679533027163040469354279530340961037545828274575957519901423612567218311618821049068489968508047541014245681056408135881756990785762212711062100344844754293873634817783935188647847596958964162278372847783774289710902947920440281481138975617140090582279944130496304543745501524406153606722746122569367957071954195214060023886186247866434829599785260134199292453164365987711252110409052634346537429035195519808765389965097206522224303256301476396498238475818225417937236286916406089069894295665353161777000783430269678843734863291570004458402981639449145471207725985133353376477278140717128820253467670726082105971149380230457150880085912887355731330950580541603859018401088265173065367767344209172049615634882409637986612778045902667578764970038629068974795365229709690549584822197300279378946083637344459818424263715128432423092085703878269935667221207870553917474761640056551423708436517336074780874557370712686770413836740902821422010880395558169081699326897544589401483691295354159911005262263026912251811307225764865874954842692840349196956275824568761246651208788710735640365254951676750705362243928656641379954691341553792389330402469836625823672316984396528000553511308101953900204880684058989073915115211294318709525831882885013703332246381281595383405643911810994933689311346484596850976372139795754535269934730942876115786888375888483116675011133211302354923388716501021703568629095448761815887628739687150618845601764299774781964399335831198243212668134732640873896918336191397715150679195012938252878483537938934750702120432882293863515993503553143813461869755498581749394954119144351730143100617984396338620842866512016104791634942731210775991205729445087335006365340357689833878435888726853059348526927121241224558909673935749888010791309984416016570981554432763176473417197371917525078543854076354067826089753816890088368767978643722771208761295871858859075845571283679111494370975556925514210131301090847915133454897453872193481586772856625308912469944683021136473987821569972560335481891777368416042843243850296627415890120377297821133941969854909782922761465163338486377147922568895796657100208549333343706136538912410558659982366895645530325426169881260046675711956626381491815246256771932237104295251885142852667859993052678539062670739455147159086521206783987517446132842907871219149900316791344273126574696493624539400512741454882314710231926294520629019626015855081563148794768789873246507382048458050950276122942358190618226642496929794770592577992896548482950883899149656330952208754119348417864939816920115705384357198573374293077011420337877280139595651562018133162630936931300323091955868513946145180870349020344699277544089670141744479576315085139224611134988695105633416462612073644059545639631271690134008906550725938235347536350702582265443945265865275923915176571699294289856097341725666736831505972747906060774340717896471348410536769463557206112318494497227937753290270158465738400283992269167816516641174792174195998384672985112923415921028331060109962882364295646423081920648801311077405914789717310660727740899319770279506856667293338699012969260324389958881026986573605169026204883142779882862016549852834675922061459346708783602075304253044602104232271851489493160904866234683518150850205305044360198270371455122278747155812272161241347327132607151987553789678827779650516111002627004856443113785219060738713040747189353634006761878896573970168735566380369392303850700082299165631234627212975360938837710036788671927065948562733793749281436418611531125623396088030960333294540768448485459741244474674309346889987602101592151037481613786971055285931263490875269178478390932706977155183545757275046980640761920440105621181189672119575034431061796696930869734925465755847636733596558430343334489375319099300885985915879670582943179854874512349698992657182900562702389368051290699012658422725024181279514792079881728217135294668148839658260966548474998807471499301565181675040931036886512036211910062035162851225954732310645933113913020122679410108754409030240652775891148861646303170996803140474911529875787873069841177313058566536050074296969806240653271440113116605720970934055237744038215904498494718814404041149142578505715268730974252569634944901491964358021239332471870398084268919409081488258277744065772898454064711445503228849606561626225305425285519225786953208661538574449509064431235615200170939354739393067893210780253929726420532016551755043846985508291825401682469826290149977864874007450106929188983194904075524927352750886230533255516598690535638668511842848277135134511193961081155709802531508844622416696970806662652331916194467714027267369102856288846733649715559387619767176299338628569159305727572461326687396562477492550818773766243878143982008206175069745461541839581062674880189785143772351582398314880930695455803186024920356299249093252214075521537461982576465661968547326486814008062763246329434304401892997074402088424096134686004603351409939164312934970540435302534873278245605548438265013743166400376570076611006138540549554597705126395551308354398995652026764028584309605438579421264877973339871868184252654410999416069013553029430231708892732842362829711005890039550631486718134499303776177656927319685882943350440652511980700841807120440701414820650322009534048941554453817746230493653047508260979868893975973851711164398176686766321183089380916604323267023134025291643725743424606126383004184864755436173785659058635357220019292031166719159985805805822655333570455966012789740911583809851376216805983852181347074979390030333310069532191482621067996218027777905899080521168472690775476334970780334154275578191460299390214117444488286781018858717874393747809316805637729115676044752479078330463478152448653715381683961798914891354605895467537140398273195978055013984961028023946597890449506711971440368769728795160627892872655463922910129785580741532833205031136473479033950013375043591691947953986468058566754348758140355310018357912978845529022597030308233403881772770613138449392479766114214461594625218352373205282556672046245557643362582641012463697135373763277677826069650970840583112614114687091487761786797884292534359621679492811339743911250291995154688302038273398871483846317195299510061375090194700218053044650528222478994983847589595761282029612630379696204652367200901890281278734263544976596700625439142839225483028512000993801937920485872225604990721284320296797701535475451242727695193963408606632569106743802280104403805750060826333663201049819545369178489782333913977809821325154854758327262465965135388133721208577629123217121638557214688503466758824062038425072044910530561715484766180697885507470905022998076879034391855979190334115278277493383564077382482229309063504065644813060512954638000212553809377385441270441985218530796918736592312192621510854209887822568425685191770303672184270690333588675021520307989997699106583039807855544177128565830848682212451660090488302450160878425955227035167603400134528989026132839292913005870987268007215765889423797734135688676412216366060513128343186429084736557902762335651125293711465230626441617125809745073042676789921879898458743158491156878483038722181397191391747383302790663208751238727819061039208835969632577664056151448042713633071910851929161829499802679514849546458708321086391975095439136278334933928430973625785696139281412101895885852604366852679564986815395614197022251366518576682374956496019833852102343804800180412522233047354521073836370362835294412207205523756235148395352582038815660346743136025487328867151763310099394475157567777299157422719421001293781536261091308802124374100582580340866635390434833912195318640488292155361985915291475659519032329329213024766763019705645592568785875213004185440758006683832771668117721856344489518410886498127980313860672720133807915073036058734870951232167193483249307567002763526563011875822038653009531068556246272453207726838386226006901197076422417986900232858308933594365005472029092843071091609979990249487639360855858188871792827502798821578405220796984458033749430754748672165461456803662275358190601631291325571779697421626652635640463725963110016581623360589838386859199382503360696042343646503217622648662963596059013022823602969017808067586207276400434676281552892764794192563112657795381053603279479835988447191709319953816241216173502316687972097619149957896461399250030526152314544310518318544081437569611530957756375000784264302772944633352418720596048598862146012227204372719856602465523756622214917866963457433022044204743396238789837269259993509684005211709602742270952035361709914859038247391817205164845401299269385248285965580909183706209149388696081792622174833741315188345827460432966412481775340607883171491324187531847392456141249463578928154842127559192403683815214620553026548985342364550765861234676788418924919151477534604044758032861553688833099669456318519478600362324182591787064775533374712933850577334521077607980723158934336057010404790580347059538745036092647391355196287778962770744991056220308300536881677423154501709581523903202121225472925643551769059686173987901707478698967063320102869094201433178959524548575733244495754240149066059955510759195550748911133871961223932231621801282155522676532694206766615332405514868831368021245584983210781727768291967434294593023396479315925192981790457414031594814165167458576214749378036272024608996930241295511826808943885493491968961200797495184756769804078991698137700714832992359488426257017308042363867545872650041994905849295951199642092455090789593681005587823711066257777496885985429160555906178026248519132150439494310560790944090531070029250569594042199968888045919239327156915874497752513862640331753089238593112772172708981191998632951017888688180009412822438811591945835715341776232074435511717992467077593827871989335381578847152951370549665708828862651874560234886304906921712428945448583763725007366201450461936997964077523114114569959567467008056416234543515857546828333001507228774025427646632485233053607912510035939161420848263191171485127797178120353857510344791739185764165178916482012854449068303450392277305151156836370596983941680419182616149100609304592701578790668665400481883689894910072790416250023617406478181455124868238888703244861045117356542420119821591021366528128112661199319968117168192504556124065040846406261133918475800591953239849065254211067610099360331111760022204543261209882451495698506235268288704404835457731321566534352800937174840604085553993205294021720672086644872823945596317233485303141393435981278160735919244222999119206458180042262187402667301904971577480806441873000548380213541202298773774240285946696382067726739621705326480295588681349140929568061186575706370298912613902067131320220708571257086616065041083785171551709722027168130577524225924127001829501481709253217451988052003240713555416406314652440466662015521049031122842974437288337763887481609465530391309371777057802122253042020884331662294826997123156871630748170311920551432167836415705186490556153855002014533978885220830264906821499998326886646857444020058219150426711783778910369888874770780019589015928896625712269653612098608161483979310203525453112936920350041305992619321647046842595794172675887369884130965394336130158963183528021444053835989697268508196989261208271491054555865466580617983808153488027204040259991513538823025815363926681258607014833731693965132561909079272810512827423528543932347100524087076572751453287141420849484421399153723979593069129307656726459997166578723907453395472582537635018090937277625350999842035281505926032863574269838379443351067395329112217637678292263923746603501057270801777115887820497874968358828804607001432297840716535515301809449743937495612611575751203933301597031430141166017123081198538774778647256010547876967428837482982935286660609550926972316236366651029824611225277959590014992733716956549432804482726017634670932427656880372610183250716379585033307028864749201649427026795017659383674994637187667743689464362337657865408036690819036808977472582992305276838133094688439245459905080726701467113844940103392720691536546132268501919516820834381738539811467673415996368184796469077912039615695601178651191474741790830029294694666354223296571420720251792393078095352386876350804183789477428094249796598232851590678986794682424151031416128598625472152331559474777578635418540155354747839124272595204002848802888187944124682483652207865754320775454786391489691626569310577003529254145988508377316766574200051872477494870333247473313029659405273415052024887425921432339906800314386070785028771258589172124796719374064195739621302111942772330377717231363903003613429906861666989200445289136390719308271440207238786355974359375663518268730869419095771813444063430241234619723715047711336143406058884087416282918171908624466847446334468490608984481386539955397234860852523569527649154710939217792268991478917680176267488354633205624321283171200128576260369036458789037952822143676852696664443814098417822179653215633814287908028975807243730492704423998218849529298100796142921799760419185759321688225392686980167791152059254672586868859188952037588153837847447391228108393119731943254180218154289391645905115550767328126195633849870921196601371792319404133751261550901310184174687907137543463526437182379877373213722351107215045378405129115713619194360308312743231624174301962882774317221909581333964037413773450079657208472244557128451842814591359818427626519148287766655980854163772786720983832196978325430931893107407169643571686907824859375357563962759386941645598539165244869188215955934862220213622402212616771771720155675650214485919275118930909564662453167059889538311778159084293521029440645182903657431110663422783653320549876018174956423440475508403769292142348623229031084729706396464300690300896967363500145119953768371320337668565741750836452045759006534808263531651913749871678601321149479098876003044146056056570644895616348550465762727412655516203072698356440735546428616297017286378944072362281145268648994042651827256093411480211903981286734598304185756879980390898274769563970761713490629268785789248620080888472721850999611114523381493558429294849007438222584767490888767021667775340771503903034373623639935468145337032176748623032117149261904896933686416391522970346654684228468273028420970672410290352976180352753196289638370384594919890608269926052483826598776101571214834766819218637722884513925729095763283900451851454908966390958557220356525472051642143959919791165886730493325784044439243664892584854297657982000394137667151710961586481587450945581654103170593392065844440289817816160922325356625825534414927944598770554824175312375274977207309572976262532524605904158736054856231015150632711868477724451909083651848814226989383134290853967918149126573295352547469353672237569281205797692685669184183634307412420615601784857009165394802247581681148473901795659895997825542457873811287622716069979427601020890674020913889642230191605786078390449481426862428105346394900352648237951375890209018315400700053272399911490347544801384562390316015650713372639909821182307174263377393602402598433050068073860626315366098478736981869115347413566336598831565960721109897075007715790731641971751456193251964779018292445128773492592184307300838972620063983511014101354078395319643329840952033143391395373088989943184659990458941741958557508182592614168583033918341796441295411573711726996056765527024746137697266924345383377713411462732382858963114657007709355027283251810319584977985166045849125101040189626556911736180825163334555314328917990018823495104225520478618788118497220732082795983309530162677492056722761004584505199658545616698104663076599664680012759761569639504173147926342274824851947827623444798791720542913271917770860588917257421218702067007071645485166644976167886256420354575048634560583017015723008350313483351421051049323867671761392073131409745327798361233259187192059601523999993256228681118514909899915080990298246361807623452955271345648909654111261956466208742141705422622483942290499108412331022231497844110823502471683020062826955989127021300774461972186132787192022745180482018649755625202718869863335646598344021092611536645775469944111099308360384159246574987976375032715142864005614603804125735832347782408125255708554466999875760520612218054465582649545907738848633174041265726975505756219210140787122275745137320386012823840645499948894183222908959339250356572105625925668567537584024048345869329092760382304238326941831529299185161881278961206510670136640198786044324396416461962269928504528158924264814520626473820156155873984663186047068182566564609231021689203260234596435989133115541587696868751113444443581059785798063652252552245258683880198668422290215307092150301582891165393819098696782539259714154277818036424726699716452013946105551354876265111052015675845498811819988600943308571590384064772849895348189128577778252298128161122791212283707165031126880161868419830396398597131285396456834373870031357345792,
  best_state := some { pos := { x := 12, y := 12 }, dir := Day17.Direction.South, steps := 3 },
  best_loss := 108 }

/-- The search state after `6144` bounded iterations of the Small search on `city13`. -/
def stS6 : SearchSt :=
{ open_set := (5,
               [[],
                [],
                [{ pos := { x := 12, y := 5 }, dir := Day17.Direction.North, steps := 2 },
                 { pos := { x := 9, y := 8 }, dir := Day17.Direction.North, steps := 1 }],
                [{ pos := { x := 10, y := 6 }, dir := Day17.Direction.North, steps := 1 },
                 { pos := { x := 9, y := 7 }, dir := Day17.Direction.West, steps := 2 }],
                [],
                [{ pos := { x := 12, y := 2 }, dir := Day17.Direction.North, steps := 1 },
                 { pos := { x := 10, y := 4 }, dir := Day17.Direction.West, steps := 1 },
                 { pos := { x := 12, y := 2 }, dir := Day17.Direction.North, steps := 2 },
                 { pos := { x := 10, y := 4 }, dir := Day17.Direction.North, steps := 1 },
                 { pos := { x := 9, y := 5 }, dir := Day17.Direction.West, steps := 2 },
                 { pos := { x := 12, y := 2 }, dir := Day17.Direction.North, steps := 3 },
                 { pos := { x := 10, y := 4 }, dir := Day17.Direction.North, steps := 2 },
                 { pos := { x := 8, y := 6 }, dir := Day17.Direction.West, steps := 3 },
                 { pos := { x := 11, y := 3 }, dir := Day17.Direction.North, steps := 1 }],
                [{ pos := { x := 10, y := 3 }, dir := Day17.Direction.North, steps := 2 },
                 { pos := { x := 8, y := 5 }, dir := Day17.Direction.West, steps := 3 },
                 { pos := { x := 11, y := 2 }, dir := Day17.Direction.North, steps := 1 },
                 { pos := { x := 9, y := 4 }, dir := Day17.Direction.West, steps := 1 }],
                [{ pos := { x := 12, y := 0 }, dir := Day17.Direction.North, steps := 1 },
                 { pos := { x := 10, y := 2 }, dir := Day17.Direction.West, steps := 1 },
                 { pos := { x := 10, y := 2 }, dir := Day17.Direction.West, steps := 2 },
                 { pos := { x := 9, y := 3 }, dir := Day17.Direction.West, steps := 3 },
                 { pos := { x := 12, y := 0 }, dir := Day17.Direction.North, steps := 2 },
                 { pos := { x := 9, y := 3 }, dir := Day17.Direction.West, steps := 2 },
                 { pos := { x := 12, y := 0 }, dir := Day17.Direction.North, steps := 3 },
                 { pos := { x := 8, y := 4 }, dir := Day17.Direction.West, steps := 3 },
                 { pos := { x := 11, y := 1 }, dir := Day17.Direction.North, steps := 1 },
                 { pos := { x := 9, y := 3 }, dir := Day17.Direction.West, steps := 1 }],
                [{ pos := { x := 9, y := 2 }, dir := Day17.Direction.South, steps := 2 },
                 { pos := { x := 11, y := 0 }, dir := Day17.Direction.North, steps := 1 },
                 { pos := { x := 9, y := 2 }, dir := Day17.Direction.West, steps := 1 }],
                [{ pos := { x := 10, y := 0 }, dir := Day17.Direction.North, steps := 1 }],
                [{ pos := { x := 8, y := 1 }, dir := Day17.Direction.South, steps := 1 },
                 { pos := { x := 8, y := 1 }, dir := Day17.Direction.West, steps := 1 }],
                [{ pos := { x := 7, y := 1 }, dir := Day17.Direction.South, steps := 1 }],
                [],
                [{ pos := { x := 4, y := 2 }, dir := Day17.Direction.West, steps := 1 },
                 { pos := { x := 5, y := 1 }, dir := Day17.Direction.North, steps := 1 },
                 { pos := { x := 4, y := 2 }, dir := Day17.Direction.West, steps := 2 },
                 { pos := { x := 6, y := 0 }, dir := Day17.Direction.West, steps := 1 },
                 { pos := { x := 5, y := 1 }, dir := Day17.Direction.West, steps := 2 },
                 { pos := { x := 5, y := 1 }, dir := Day17.Direction.North, steps := 2 },
                 { pos := { x := 4, y := 2 }, dir := Day17.Direction.North, steps := 1 },
                 { pos := { x := 3, y := 3 }, dir := Day17.Direction.West, steps := 3 },
                 { pos := { x := 6, y := 0 }, dir := Day17.Direction.West, steps := 2 },
                 { pos := { x := 5, y := 1 }, dir := Day17.Direction.West, steps := 3 },
                 { pos := { x := 6, y := 0 }, dir := Day17.Direction.North, steps := 3 },
                 { pos := { x := 5, y := 1 }, dir := Day17.Direction.West, steps := 1 },
                 { pos := { x := 6, y := 0 }, dir := Day17.Direction.West, steps := 3 },
                 { pos := { x := 6, y := 0 }, dir := Day17.Direction.North, steps := 2 },
                 { pos := { x := 4, y := 2 }, dir := Day17.Direction.West, steps := 3 },
                 { pos := { x := 5, y := 1 }, dir := Day17.Direction.North, steps := 3 },
                 { pos := { x := 3, y := 3 }, dir := Day17.Direction.West, steps := 2 },
                 { pos := { x := 4, y := 2 }, dir := Day17.Direction.North, steps := 2 },
                 { pos := { x := 3, y := 3 }, dir := Day17.Direction.West, steps := 1 },
                 { pos := { x := 3, y := 3 }, dir := Day17.Direction.North, steps := 1 },
                 { pos := { x := 2, y := 4 }, dir := Day17.Direction.West, steps := 3 },
                 { pos := { x := 4, y := 2 }, dir := Day17.Direction.North, steps := 3 },
                 { pos := { x := 2, y := 4 }, dir := Day17.Direction.West, steps := 2 },
                 { pos := { x := 3, y := 3 }, dir := Day17.Direction.North, steps := 2 },
                 { pos := { x := 2, y := 4 }, dir := Day17.Direction.West, steps := 1 },
                 { pos := { x := 2, y := 4 }, dir := Day17.Direction.North, steps := 1 },
                 { pos := { x := 1, y := 5 }, dir := Day17.Direction.West, steps := 3 },
                 { pos := { x := 3, y := 3 }, dir := Day17.Direction.North, steps := 3 },
                 { pos := { x := 1, y := 5 }, dir := Day17.Direction.West, steps := 2 },
                 { pos := { x := 2, y := 4 }, dir := Day17.Direction.North, steps := 2 },
                 { pos := { x := 1, y := 5 }, dir := Day17.Direction.West, steps := 1 },
                 { pos := { x := 2, y := 4 }, dir := Day17.Direction.North, steps := 3 },
                 { pos := { x := 1, y := 5 }, dir := Day17.Direction.North, steps := 1 },
                 { pos := { x := 0, y := 6 }, dir := Day17.Direction.West, steps := 2 },
                 { pos := { x := 1, y := 5 }, dir := Day17.Direction.North, steps := 2 },
                 { pos := { x := 0, y := 6 }, dir := Day17.Direction.West, steps := 1 },
                 { pos := { x := 0, y := 6 }, dir := Day17.Direction.West, steps := 3 },
                 { pos := { x := 0, y := 6 }, dir := Day17.Direction.North, steps := 1 },
                 { pos := { x := 1, y := 5 }, dir := Day17.Direction.North, steps := 3 },
                 { pos := { x := 0, y := 6 }, dir := Day17.Direction.North, steps := 2 },
                 { pos := { x := 0, y := 6 }, dir := Day17.Direction.North, steps := 3 }],
                [{ pos := { x := 3, y := 2 }, dir := Day17.Direction.South, steps := 2 },
                 { pos := { x := 5, y := 0 }, dir := Day17.Direction.North, steps := 1 },
                 { pos := { x := 3, y := 2 }, dir := Day17.Direction.West, steps := 1 },
                 { pos := { x := 5, y := 0 }, dir := Day17.Direction.West, steps := 1 }],
                [{ pos := { x := 4, y := 0 }, dir := Day17.Direction.North, steps := 1 }],
                [{ pos := { x := 2, y := 1 }, dir := Day17.Direction.South, steps := 1 },
                 { pos := { x := 2, y := 1 }, dir := Day17.Direction.West, steps := 1 }],
                [{ pos := { x := 1, y := 1 }, dir := Day17.Direction.South, steps := 1 }],
                [{ pos := { x := 0, y := 1 }, dir := Day17.Direction.South, steps := 1 }]]),
  queued := 1052369946345259276654727508884778122357201706755564448843663994861482210340132946191794519362383728007492446962232635041804640278741563397168898476113676454358189812530116002025799677801200042160121005948341675334066323136858236333508471523839514656407418459099440425478523542847876219105632893908357068676590033369082365680510985225166149733417418988899066294870846955090096675950886119352654342219439684118883381890810100053879553456919244753057382696679401520808066738699051584236597788131824024996697226296002265508815116767111264055520641897334816004009491083336770057483034272061538663656584802756623102962041146090448063216813481609317417203684449794689172778339035957232435185959232906470693353478794389308732366435247244796704177231068817688675984633065947983379194951314336116776836309926665536574362862683367598985802858514680061015869216982515522533383463537903227341764603038544479321837675255792161608309617541949056464113420220355263524198946708870071484922576217028965874534668393328493662675959814775546978664920576885637027040485476302856215284808711591707560207901884771970633965522475589529421105331026721766090172187195755957825721484751696864138832513958934613120786058425929882630407184954768425669808439177529182702951185709776335901458304535338256692774127489639205965356631932800064250054683416448090476191953908731691749749699600585191489193146370213689268180727484761282257440006248609764919676322330178106848069072353705971090597831782761966640261142655513864475508736,
  came_from := 20595207532532843191719023933686968049796819840328446475877216909317635688609412929572937259226344538976135730399603448794815080679663047835435428345829003293164062888426111458106332436291558770971099591466241905498952970890331091642132552475647250103497667051543283204264333232867673016283515277566135256261407706126329927086721865047373544994247783210843924100681683802651442684313134646836574522001454766622022887233052751595552051361829369016011497654683188440578008021193072634340903348968702027709986083560393684174614798048244502024087456035696586892417866828291763619523830334038114251181687712207243681270776026317348009396942217017358137719583704453904449363695264188588094092901491683869210823627298666806227359283631100462628520813062637007410140830463347142465979429630282482087281815586282500429528552022361538204190644325246679800016007416171735433037942165678041261560060443113330662333037780902083982139156827555764314727535624768149026002150492464081589342949310732903071171700525807057353622064984920776328963692513729767792008365153663865473768456719554289565603682964741785307562591351189475136574901167079043790513987007056700887605131181992121543503570254444785792798336425436567927091183128161493444920300891519793487628495541225806004633575988196332329381081394309805649478252421239376875439652311501511374246813008997995850837292709666097439748645754543434454245306956705052085926539100682646146295086696153574341372221581057024485518510341010400716432041357831206771682531893445085436814815756431770710763767806056302908661453613555099346625424514803601778098755923787857462244299644658695708141563047688859424036929128491557890010343976446442652872349614512116328746298227094262663353086833591203530781600294969138634345515668269482722126519672201462838549051052593604529815929238185149020831605097634229352944037031692960032511757611894733833004315109978402909517768604778508324565170984766287219574544559349294439397163882146845463827713104426855623903725775217306258548006761896590488797759546373731404903809094281951766227913120988735708297967269011734325930348460917782824069915428075004627741389244943788565924589787320192733322756552486914991057377303921741356863226866292965170806586900112416000010329102906468702424868666714414066774531279898961609158920447120306020552456735349938066630588591919936635293037716157436738808742939456057940916109726737291817284826101376569202045069519463459299016284571392213336401569509742439515912227856456599308554670809359582221172736811660545823284376742499426956652819315194515755889854543580486745881772550948796061948691544445057697292520456673593683546635685167757511368966904115924598384721112917819985670545967551131220945399420144339359594407428727599211029834096310340821928978293039220481992151753530971159821058974718371445214024189019337515820111545307140897695714795568720590557969436688017993672259223775143413640211033857966762986427762380426546085855134241417556949500483794729574619863504142162600812574994474113047072672388020562212606258968652570024757972729976488249533216616834825893487616517432421777054774789738626783202045579463016594292634720615534159513276744336163942930397321342046897422317303208773925926087230386099591073441923903478582375387420334871014801156824890725299709288046337981553393317069314981495863528410045679818667170859926915610395895951384431589104099285219559860099837934995487228805688516406501478573775433138450238326752246520879005018942021077003782889707395131231410458650643477928725409614855898654863420335137096980120347978470052318607071762764951395458584359562932279397077437912349649784781642593133956951820597840020368712132567761839074121461041833868298386446201989990793023561895756078475996755877624432175584189027851577922562318540011335244720428207487787610497148652543291805012423030881357151388264252423797125555663636517210360317286977280187606562051105780808174758442048039429673003377700255953269907433064008646157670621717602967998158223196538463536791777201546208798985456048116767977397508952497377989127720061833190801033583318945824402927649523312554004630439608640162139908832982766093781845542856918728163277948830320576132199365799336287921352511548252200956842147110586221756967105769381867332034494803004297287206734925529267512635445334399473933280539572926791650568343818925612278588858151865569122963242395117448849797506776942964560490358879773032952847645633430568135853522935894376315941068077974011756610906095902517183599453304604119121311714203497220111926353650471196568562435623155106049761728391480313553098560089145400074355546778439808921726428736103569707544067890587799499774189127525878338346632210711595865543422102315835226894999814682887764704128460978255174475672160677650469119999919021619756966184525439143845711672043186847367879087674264312329956431849291144638140972189127021756181246705665205884855642943431549560058401322696790518736501361456563367215615749754420927528784865062892840209660623239413631607206313934935780143208661665122932556872878148875294733989851651615838614886706924752150744850611858009882378894781186528286622627649714774393678024347223625500061844220007399695423240942944913916349425328393383110339301942215553035747586383535222737882409069265930696292508610978617553801077773984781711818509062204678463873528033303088859236623719057714898243293243806944811202939103584276047239783983226313695407831153317077454840536619856184140012909185982354510657288253505724571717000962691898248433746464750592060199531990664469273729854203536570850127526022022762475067453457952334137527244242998086227609757198141411031020269907605171898175376727747577206536125997506642851419511764823555757771929794336920947560523830184266535810618629627270507480761350839976347248596035105845588409810022582638359815437907352970384893599702452022467388429337691468306184768964144535345843900908665504047004523282889473522980127549305392247951363429904720708715345546465913438002028642168310613336864699095683921557821014574773885351541599824920324656812844870925231052362057756451706148975966586959853488376622642139931494268710794182691058881978876201711429920029617244436777743584042733009884801618705140731826417812416842157474426246538581455721467033266644448751523629177300687370551247157360138227106478569243327427431819519558776539654239742652125762816119142652125456959624892546393005705415591039506727623586332297290512623309285007427125440703913770104158532744256781256305107440158231814107962639730057295568506264323779717838054159658023847910635558274782526599733974140772156151087361513767404548396976945186200862143799981141197035446978842703636355581194357894895702564224231325516894581133693708445954960711006134100441004048841987918094948613913057977086412855958206439297310021873409716361944024510311893437551532894055471101793059469338429397858713924156071533237871556945295620804649182582348986067034657598446203487085892826934326767999769904989555983610559135630668118033351174648211445576094796625354561506403989258899561410709866718870785452180534861535458956982221776528247041488002197510752791819533981381168142778994322428444864105053952244127317245218799443380587993105676503849628463139407399204253139063989740697397415266332662235505792766683329485401224030281361708018188638328456559624053051212542668543433230903992322541166031215418475871202189411611412554041955315897124541927986284259696397680635472300707773881909504991316693242065698601562162605583806672947651891887692790511673719178740686572693464692417401326854870795328953503836101157922844722648232800575469282331403997157137202875811984528350209710260176998247587981689888708033592019987683577923691531730797418132083111383970273414422855977630696156190993566459052671134182462144750858243458369508389960054000049042441819144080045215955730946031516310323133726956186856120847656516786727499196797492111764690659737604803647638706141377329541839935845332702805992561167180387468100200544611392746405313907238352748004712943601524375948155451030270720209256840681752726768282569880768885654090810633653761818297027689985085564520854354769421143739482549774050134639003637368933096628488096736001292465926289386148753008006296053551191024593849982820400558491584087690774043658297401865765504289680518747817419329001607875977771148671536880016217118997407643096517247044932552895606566134897443992374851768306697250358419332662015265425759177087221711371729953682753790281160905396400682888266821739735487239840180772781135687507427536308818546514272471045192274962292004590567664272127952637571174387750790909719945943459726556286260439458603075815612025153613500661874883691047096854088849432566903710041529675935010483134483333419567990673403080692444926328518010999232167191014011948853176263269059612666847718167592879285527225969008826772716265177640135334973622355104372328246953598275122066446244565572779642686653814085492400821417018949888295180077342071875389234759493830784825021911920484512124724288472436583331381321234956979093103351958318800119890382341208371009769096713028422660480251696802541317815824550601922360659174101190762593357355304566044159334474506953436444667467799782469663931003643887738150942591722530556252257350672143274034431474781559949855023484728834743955243357604815903598148508132813199212148439847587845174829261884489605286656138010012400567407481843805135347830595769108060718387703205534087829053071153332206347727651213419084076646490208022279324512262211334732184670469267428832194147275874288619146558665454748457951772271983087081531656920105622371067655418644293387886696304608138226938941934553159220527210012079344930030694602010491643791335544125011324738537618489368842311419712843855621800006972462909889765468927963707497242476064748993476459096756820048976984507112848645740147277840013033375761082574479193298194726897496124123961445228587157668283596352211899788163676727885649160786422773218081554056875391516975186835625272674245614831570234856062675800930256043876106950252790431124237855796368506695338333066831078107373069541458300183872918141261257205456102316195655968007097885630312012985854825839882946551957911879534387553947297984688217075517083187324825988384980930291859794805451830902672014655267108955430882625306352437357816636720244586222274845335911296640427586333001724802552860423062729860729052434882998372139895716357526411487523086670279019775523404668936109171015099594606946749407092236504577952814540976645255105458394206413556392016336410074748347244593519807738930130678915560535042215248503398820315358869823946482317585601135800343581990024124311446671069321613650938645217549810115640098543604887206792757648625296724042085648749254544357265372336768942415299874609942108361134605910882716626479249949626294536592539464893073904956540709664014866741061340409492637481173741941206010254108939704825147730326490763686076396124253752294203352592750520019076600428405901024257346729774364235417866715724250982783294035340020140050704667769474568445077809348062736155677496763823734405879901972115717413608204536188625136050177381863975507187702687906971128634636994169065055909621623621360618519158824029626223319997747594937899229574962869379774981812037387108999185184411985911103998765012850339039351232977224631851463175252946757487857605376740464152239701372988039711179119807916421628383995678007372809187425913917569882880751341004602423595835822980952520015000157342195428467680480098173438310051842381466876601426678678507928522797488004739498489056830773949441747976815118754619335504889253298733569088205206837646316235173275184883274056914313577855232927538112881680445518857349821620661445423408591741118749537895453049816123097806767898167414528646582921855376266660685123457683022769690884686461224935257739206326922434096550728893105711986569606966339047663113610766204579726145781694054205540265077884087634871436927642374941358428474088985466089736397465075231963518864515030908773839684614382172380294070191941230548264953799703858097131483590375182256433447197339821464608916165330551795281975333093870660680636311684289489085022112565267254651211423531604093473488941327828084131275412017035922763900763000687936376457846706965109301114354441768373569895622942847143658752183943693010599406337322984421739025723742641199928049946715681340450564023389969025499156955917710804873380694485996068748775661912602098099833661622112818317648545773983306767602914041361124239665458669350039319977100050419505641204065004719385426752238833389981496921554239431573608917138459189482381959442479580008907596379949016924036178699791126944677656812939247109736058540945604430590998042236598046564261107452923239448700609951459257192513026279223516472529232446675239785530615846921449355071843252528565918842285857295404502852099475355680240271960400496552561922860838877971919479739159693771882493078836119982178847716630347300995212782874526001146867244979342225453772916813950255741430633290670888327270263798696251961456522561364537269507896960005933737829783456932628741028579305057764369313048070354311406591602000707936183776282388224878675132913339122300703684820192423919121357662560020263507477962412363739433718640958993370256296143812916641807120653282395262297807157901029343526508942435089293764807976689433142272344266777569100526439149210356978881942903583225441908777936754004420962412662619547530096632699797976698638086978154236368775738985325440641497623756205142243339180364592302809297636259541472570272818873743960511350645184687226088434856738717903537322852672333796567455304602757583728343766516740195838927722583569703179544201928427527804486020590552839460743661230476847355622667330894762820579660798392518867597218950753743736658729432110744010140740732267444557050622604708619062863316852926055337388077389924015493827686447228460514249088016778306659462033438685739994334132475163123628875894550302971549362444767467837560422024654502222257359415796871394447580059086706926803667812289323029184684294811699175349879452806093369525050027987243742706113720736825523219839941024560905642024260927146322310125800088055477668488820170998897165622340487655051264873375023457745491187007155384939822965751581435928121416894863906335771158327106380746460667054944501060230165005232775636809521261271684991667667080658712841517554089123154904097245172871609212729681309039742938020649447518639683792065902445866605369546299677363826276280821627906288483772035856860021854082678390281778624188512495213173394462797483122329856149938352365280018392730910361536920431157714825819108764862660537752770898058893270402926225839501273097163509637158420170571229981171068100762361880122128274614240696637264318303931555917794695947783119374419046966862585272158436781926383052543626971778056112585488144494082793514783741105792818318961506025265025957801433782829724869036453180677892197816446121637173600499646739049275318645000022236483080516240765744574856279767318607297607629176355801416956819102737443004388758283512803019609817750533531293412892785944333330135541904748958754115297344915235680147238464173113525631477635057299415764814794332922376783730374544778182199073928356475967588380006366523929657456046890900908996841720142562350507918445960056905871258759619084608012031985026038330425800156222705500969740834895385023661039161994451538935368607218589974477045167123200863697714009539404132721868981177727623251934996965580222551666706366293587024968016502117902244005990813822324526958022249495477180639194335338713875194528794905876039329792119690171255613840497314663922610490625289056214211567578826326985583132488692938873456819817813313279388468816871737488138163474814853198369384982578667442386638111764577596565912763695566774464159639700041104026481962059020811498588069550071666874953308936390184425116858654698798495382931335618344882152378231586186954991125321116460053529634299444275477810632550429062508034872716094143903771753307437278506358017499652310639781280380828943904727208518981840934441750406124805184841946828915265355647411064701166525882421222279694105654410953246270149467102840899472383764333144320534998950626258521320292685778005618670475272630426414935391695713092888575422831882893419684938867322544195173385037468453132456296551560170774879141954107207125661560438334142372134804450618407460752765257356016475248281458837108351632019645718024591449264475370026931581210337927175385942092416427940799690423607944832535085669375544584192933086634078806957599922233535690750041046631052449285048529831219253262969798819502907957222433477759517576626878777124262990560716690243438618487182379003837193545736580012441702961889961867989194998427032256294871336779505140352436500206743572088665514094810934517891977873603629629343674243264919188393511990399246181818356469977773402752581268951260477293863081311883466891729994216732010704423102088069534853364137025528432581859691658352847900864007218641189875439320479083270696401908549582146592744997080616260898498583885683626598153938042217068817030677618264249400203046653003411795537975625609952584167454967174399847957541146748057836685488618190140274204273585606741701855587536218857742190677414828718329873073394890707252021335969723243075036207537301730592681822682558924492463450993599771193714250054907504538924031655726150872523409720019261734219710601284924970874123023751334951951783273642721182370881610821487971469762890462936845295452206684179694231612693305832431604321653317778001973339630964211362796364817100573176513719934892888281588646931787190136381873740354504343674948594665144685698242788269005288428470618746701915685786037064862461275971621096278093058644645164194063354236789328037804284942509310440870324517741631745094725492383704163814651698296728023419613614793970181644195270832007415777315194892505717319698197974795731018525974253222637363815776339886080,
  losses := 49741013205785329196855635049906967494117503007650441372244650825622501964863598024427905931787599613470295453541886597853603059960726847308753466030114106070047590069807826479141774863463519314751235345243056131880845218382086026295943579537131467740881286275504985924216451189343221658235993943300628911359847573030722003182754239313225011067816769652534906862466003979645677113143248112650876886392796347589517532080911279939116716186259344533156978578235705664364124041449964915973517754899841341794839117810541856338157491388713986780973436926923824237061980117258069158319484987259066200346870923651245000262079474768147045464421858476459124482255479640190853204826864886865352349284885597008851376663368648854477095052628896886596188320105349200944910588501630701357736734248475775707421632208439441931386812175081331708138689481971097389909707761495898948545864764986208130608595675757109221187206586585208056694518531718610586710370512388371869042594068566855788774839041195131115300973162297103687969683875138863529715648356273141936597112925892820395275135042773569533197586036135621484240870663685514394325771102384193791764889481822793101288056953448808505223277487284446230456065788095686293582727604172740500414216530383856848970609565777940060765887184027782965367503185178853865895758246560293007331236418635392601415891306441568367821631840411947960854406270871135956403273872761950547534748055487119002078949968636321227550049781514131773333582496958968258439966533016575277604052373370590428608651405357383498344465631572860983072458386814711536877856687212678042611726789473537809815862446715516376576473781609217204459198931414426335582783366373169462049801628360236166711669208139988300093737964997785357647273024357014262304176386646031426809827393996478861545528961948779154985605818501676090804035423497074145721111536380024934795453603516830062747240512857644992035564195536152447399432382793444971961580233178714493660875482091431381626896358633918556379036537326094513759385068472600699613286186903114054027256345871872469125500679024428946987484525353710167502893162258345795292689321349794352223342980947766544413862524236910490502754468212923854413986903980937221594513686892803684896558911515202830797412125223368475986045721713833485846366790769819650167160793130574429439249154520843244407386025636992073085866860748420258893314597773939661990484394312031672200862156389103881899092805233412162988272560336696483976803915558056584220697743637533835991086553137231767393725098578970495563550538578668044941856866409170975267000593625652867645107689165334849455657936159133212698639319147661591249379586319609336897773607114976703850909304525723472112589404940498585411226641019781968831467237440737860822963509995124685581069470134913523810784103506722327876699702325101679943311585827855220213126055970312989236774001779338392712636267698131059012913135150908007203922048771510862834698728868265069442098226531644452216682213474689726474374826420903675769726185249242748116243093211292117917042409628936787753934999157795596039023556266325768837902255956028924495272551682526079026895981509823610347846231685796244572586616070950415320401357098808454143311396738661788452521232461326676388030407018908141994186456149923037130565457982123097768523320475530466562646726012314253118905525135918415854908608058420034599166841777820530640963048101055274247196616247228982689145434253522356452339666159890388228935775771150474088894951420512131641465611340712698502631007876443197475758743936685458278987760025056625980477991700391235116752887170657893058677723091080311797191430993551618478593272001849448046476886438883751589055328586806487660615101670467861527713530935191517894292105754931796006333469969886679011688374061403764687928024596511774827089519824664241355649617288239537300091442775838533624179790162909794547455127664470940416443525728688335578569342273106610089531322992732050129085856420909132856958527210125541076711822541552883814581776255440042842781991505890580794881503605597433883783617384460556521683221615376242877944885848107708154664504202776565268754065943521639069790472571962423472560574570324936012421118892148219382926789181934767595610816643832718061200114524192070074226069128108858249058760061776308960294498518623602254069033546621343442168951604072001413471745048412805327907463165109586720019565468385663282543835163316584484152826159532494235931057568001868152178581955248088155988411682739151723659111582848826664433264342314152697076182603233661252767921035277528560368782841769734956781270272381189776830038861787849206662033717820200360925488026221077271937068843257237383684060782615334150936680387221247866959607640572859873972238929255417512160116308742836291566555187172736272692667303055565392451546860774730360542862546966169877639567721684439041423420438923536993300118658435600658919958281941782028878874393030280485880460804978908234700317882687778292767035120892832531285198245278951994901778759909699226439516351109399336474415018781660035464941395367548630599882860631093822384608276115343004930000545267308079086995256742316345665622187111201241161893693497821404928406485046328652994120686689033082075007809732004508368372494931918857779628591386436920046801867819641869630510339133870510370294936695290847862415948897089815753931780900324630139844951472280970772716679164529693637456388800202237298401219033128480464613872821784661351659858299949518182372210756475441686207135753660198884669763764302084635070362969382843274654809806402154932433959652261356529176939481673894628685850722316733186599663299203582807407854232018164019948506754185275275604002336017186553767387486175970593995875987288561396818577960584504521339610898191033412938218487462180250209647176676362440545472446070196625240009551232902511677009527400797322332258386465480222546504321245774150752958498591895904206782101405505552898352397724769027836131300526672591465006442656952516368430365540905955571606678963189299859196645544085879246914853542778254590080241033344754291933732861359087733534641974639556381276185520456602003462695293187901395481454692120443899861367494251139267075898523113395905248722397242792599008464705816991453094510900542160674039823261752614769410905900610831594667047258664936146389987952629221236656813941266699458748456741754832772825906138133832959562881617458622228696309349940224479415008573176340189786998142185209612742763878633539514637052360979069511236485171906250344126053053241863279705399428691133062069439042078478035388666831391325309550595739976975517303206910349525322537168830439202747814064495969273192694518115834826697739612596389982528903194968704407611515172732677276004956358511052516210827870914186376001816397863593638182114131239432120518900974692588220731448448652533665415009098030542993495156975782416131471413798132890211287836521480904374423540806467884374774371902545043789633710838420363111188436262512699810821871661266486204617307388352089023048678475952427597073281629473865992340620890290734205313732785479823819452444032760205141069786764419336259006208599490035378562165266100727730298235988145866342384900585866941691081263301702648873532089277411925943756924525767287656831033120111300555652069334444292451373949318951500274158310926035558939576198126768889947939158352986578384256297348402197904240510443002938785617838194188430321095245417074419290787895644277385480559444486886943584485421174562031977713458169889646739488559336660182154272966263735319250885802517987791541170803208855370354931421258844865966064791640213693987037484169029284343304208511895265536274437429757798874962013162175983989111942037627584297644723891344248802112264525359827853608275124361260642927622522385831106676764815664337726181072709886425729627910886174302890473794939011306000714937018536697046300561015293416026368801031086754600874916198538103825368198055502474814630432294804528769636106203193352455583680617881210387463713990494439109591625277424834121186216844372600077478744550355036895457699515436472744491186682850019612803690276674677064056064498151674927026590286658596167450135466053714326465687288228829695465893239658155206928186574051542072258828651729752746353056727334700048933973532723468542114998588342989630721041759505175426344617729620010758779724280074787534132385535691540909806694947522092328849621876984292097600726344496838113687783966504184140057346647165959297281331456719206485616849592954128670909319125219959390981532931745285883443651251545931914524172694080696329111205615885850062066559887577163252489663901178184578698376044119585163523351346250167372209052256079484497439439023668308329810929291125963216635258248036073980249881673619738641242796639271845488367993744415069548460103096028140875912986951019470596784610360946862065545296313505404086210856290794769808995657038117055487518600322970892631445435766503506993996486396918543920692479086457397088009502642417838129353764736939825840141870963208656421086986212265700025063845494231826626681592770941728754699795905938745330070252639234325058143837651686542878367204976607724303323042130485884867583923975439708051524337524041031641123071853073548556991632414185216754008349293724078081502619843755313889532325733518856204842678268657679179540166267547731998055308710074817390580118815413282596620548441644014922641416887187988070658104994619327579839669696296408881795880048073442643104112097557824419253945710117724344244593323568533939477640344067900813631234896401510579810038490630691979355441868213159200624029352216523452756870544346307726595500468215224967353241966757251443364443630356225858161158973456278222606447678791279603006488925370553605351912305996454728065527478127280413913085720603352946554476023916841016690597846413871775866632445634956844114367770015045946289082612065985028314025879902968029549559221044651195678130307168844310425593309708705962465673892092120669256152356595468286107097311907161332452694006841401238247927549804280904431540374925910526143113663782499993150102910941369813167302650590848399771413221330686361873198325563969569781865282467759017656449418508496926581476376968458642792947760064918456980182140069798839972441280324133229900961678041933023491538057378105580736696048167232106397561242713672444786561853541617780079531324004532505350976125127272819505043207659468352597971447084527467285978389144972865938654959866625523271492901641925998706587806563546051518342834254317197736236154567785103823465518151261218539231457782483548452127824197937967775078036925364901299500296347487749380827100789568482274840427277553110510427127496549361068288354841212862298049059605430216858779079926108670458305574056679742828978960554671983102755553208136997265911024594358183291944114646657007349024952002902609683057203425159051269674612841059690437336734861902901262372896182794059131891730551613198380654404416934068861391917544692572312209220456118377893936275155447414059185885309413580758966736972040628107350364593003818655330632718209075658652491093416422610940897666204171114100373243740976302077237023930932118919053009067874338783045412692515918738781205472403081205435507547947468325244970797123760592445016210768444485625950803433038373603677279586428602340656950553578056566705238282440332572516995619385987291716486005894425862809646931029802528037864845530465119760706799997231819726127869608736679889590331881211583787058708448651013290972111631245796707993385123669100764778987074628833097736515623490416218715692126231052499608784036264069348766091868756351494793542870632402206222384604005019757283216205646585988824523485921402459510334671742254364126183320415421622886298816758161237577212632146911110980997716560803048073858291459927501773442138077168657176140961131427764350910221576928628814398103422730732339405572487016687176238779574995512224763637228388856337924028976192995414960893171707830063059986814738461576448059241186251276502255610834907273065187053530917405911088699795845240924269040391248504013391539153530506076534824358721628560755786103099406006858963843566879220282372516799253558275297943527432367806341871687462032327828342262867128140988748091008634244520700680254774410172822836248131700679015370323376293785594305125727686756062057767457609858543270732397533340142259699323454100655005096946475674472484659562996258860359712034229398324039616892942009424972961378312966276611856153696583700028226212330312447782332873501889349858503486504165868483075027486602153184952208825790759676922819847640059480135495885134036739677936099122881472319609237823545172318870997427519149917551818735780757454902981056459473688102082145168848042918058170267566952777910610090865433043134907382143097989499351835541878223991008175278015230848331198828862810421649421455124958718401531381968947888004241150270185005950381427563811473531368582955665396818739957096320827888838047885319217958028083816858153419403663004712056893084999342290285269002520032074781073483622857541899052963084466995021133764716685169969429642851172368704429880961989354960016333374903944967356552395161271766641471901257848716107415505222430088606981921129000969789665376276945071547433443388938913314135167832940764504371217180858192172783531438406814715684586077725142059327675474979620038966494873074330155603982221006375544177969686502082843984879406684557195180310684612633674308750392638766011304590394858711151766928658505695751327267021096130624809423749447019294455890708041007902741140767150017783334278147125112678593638641847735701111504939673935199403121346725739892661079329805108942504007649043332301902878422599021997814347542485280406512328648467268934501240259619768168595792275192391526859492617342205491705156931172770448941158873257456039697462813638621038396890722388152169361195869101580854569832573384187385349303050630610737846488757266125120263387555327923282646382334653559355275571124733134504821307877919133631899951185081454805850603155851147126609374943018532454136668816523653937139606081585364795608717871807118078457043649050533219343825208942500261823022043608908791929399260268997424686328595777715092575259900213041532598160875606067859163085236103571133343811900022136925884360656032269813109280404328778656870427274833320177518231876861495441925345883424572805192126670115781843635730838859185625969575540484184403963786937784152630000949273780517179488439452726684808865940124472280008788567445111466801469683223964326102726843885611049812140852849642856701627074463170396898476598788142258650394538510084484129511792056468333264092575167337399943588531988358354507351762833892598625779793226495753907865365830740340373104100582220317577145258300399354395663418792758186031491835034253872841134307809718752993607296202771714655491691268847229202426203561114214926326281751413306483700585909902537975133587344017735429285400014449145361458956439373843562902174079311596097078288729381363790860753532160152022534839478081286813761951482322869893021221315132090710716483135475997980309906339322694142579648246154647596008379637434123327356538062944942646260435390431216984653697696949406020979113453403073614509305403389902511879436363321025498838043411349581299095236490607677665386193057633869964312771547626264004347322301471047536261197793463525119431237996726267721865885812075368658197640513967472893339058672990616712989362123243883395853739796452168453796812387129484039869594566280217855758021618935934061603740192047567974310164183361036625523242228686289395819213285692984469317584874759340677477526608638173333514305602702958921646057569251782751790898114503331147888232513036970375649128705167633517304998214716321312631347303999443612882497648283084527324533719526205258399137062843383912034497362005140122908711446648813611181516365761737022923870058955145891984378374189113869257522805721621615385496887945510779592296487497774712417901111434294881309578636583543552755125162033529988210205392171481738285142150202124670136504897379079919415071030997342659636006382253563270670707960675926012777473100599830624036647598906350643759223142662894596638356274372514514949958865076397762483223666411489580169500753889785482666869998795328563550108699255520898769332293496233670345355997073085629089223888114694476989129729270526611151154166431080295732633523644450422449115711980167174118720889214601499000443713432923538423677351700896744206648582486124899794043936909120632767502721152190569879397531449021163752773660952776000506070098222834779533519858628047286501449454416999467749871792417765575278604564156678272520445320491289362919692494761955396412092133845311960233495768189963505821812024674778093660295942609408026954183352236171577361191200202832549916769277087651111535574471574034795915237007874574230237483868453997484066929907063208898018002860800584132924886990217557456514530706726487375249948818776166159684064151117785644449834543898545801357720686060469396659838483051324659759076238502350420144752416808597031680974787784050358485641455702381320930292055056947536924497965348170789412177946192787492417693154148248963613451708769256004500523584617910703737834205327766895316234926968091641858683047748686832651241288837972551391514375026964021945133344124323588614034943047727521365924649497740354650849700809599415916168457960564174420990460798786727734272757780465822415828820036099032060633608175941617713412159134512863828910997366409158566406132385425051833900019675927903532241113211748546867294328712049230182097598229309990002557238100190101409543404214139085679668514214774144694242873619972734149303377983434008972183167019263426477802729996775338694481292160081227827851443611523601361914101040061768154434766326559129801885988331548279318837079546938414750336113529703614474635638522199422500827376150449866806963287622928891992192361100710726982010048570326385199667269665038946775283155330303262820336480427637968226946304431131667164674042259412452683505312522233559597700689538038702686083442960679476130212573278781498729859839416636489255803265700948697559865333436671944229527733351062554655131059078533506760166469270565527608390530115756545027029239314901503429055593887353601287489244811841365247828366184915367113338292205105491895784371090101004278739985907130973425841221950535083561235237734868211721521508679794664472631277434011192064982859313965830917547382941393076693235494672391913351474754610915253905415929937798696124741660797606426880606342647486740129089481725120373261597475403515205549550806148707714705113350255508730041238471608323995329463720375682975654935761786689091947002295031291403950987675790112730499927519434287995837797993669250671576649411385564182397777867065000599369689973060535820567474461933688677543996917484820813699307923828678392827970328369769272784657931021280151255073531275779563700558533522711544330450115443319379957186937700555604859563112088589716893153432330872969627575447499794768361641966844468006812895111795548340084134705798170919329130088179070198717227771499478518037282532084856040582101833569767260437952387689608465560618094230384854999546888263387440574613144009551174909074468918384949651523747703840109087958007333229418155399852531096398149440092187692933671076350563677333144782383096590312716307458431128657693210101207603909191239837382652508183859643267497659930920019066706891072538206496346395574277239441076278595433429100668477284956706135628849673905967906296911970603104037222644844727122228120628821575993453239616312854322843093934505888702113446266243626472074451149474911302776947960145022881383491569351471195456702687636175187839792509110958497005605183765304779071729553211317296526729340661770608765884064570024983687745400869997449964972141794756370902582761426468549408950975809061432563239569636493858568387419896858624494525862084777541188746538467326951491711310716204607048635355421198090190407313032112307108264943673298537184875113454125307299285728665171455915533370058148867414781092734773841041298832310112198826074069169422879644691158376362674804517144193207587149205316276731104792104779249711457192613813704562201305284032125051072386557201510354053737427166259611175453900419838288349820489559401840980523071283131444511159107789544152492124018448049563890237111251638235333162377093585434066823884719082926010359252002767859558980852090165926495749656512396316884767741274033662408811997574068777577012062856915687341687613500904191880917902450092414554787587955179924753983611288062582656578859832969908369941374342970619241056668747574257652236489079502542213650713584044805247639033371321244965390317679626812049207804494579637373717632451406694503425337741207442631752132193487701891427995659955936684042311886932702944515822842825171630684681521418557926828585857148025606000774719105148643032389720157116046131588241353018215840333433460831714677409355680566210726994830807632642907790310336018835743746009743168273099951883616396958427547840013753506539609178491738335593741051060561954295191644094699009234765831861284432978463994384803583232895974943070282817439498096836887325801097992752430665732409051160702439357129887654031212867845880889181210974480652153722147052697243311903158386536531859087054882351386669646272927983676186843077857551683764552294976767666963682019853224617300442902385300586895232538731470030880589520088417717922502016466623141633433567629655839379168840803910594469688778266591272795813212603942912349981043818747211096351779777029504125541689707961994805366301720129839826269962395355768035110896984693388294603622960694540061194224983359876535015267165054052739144020171620133178282266974220959657418819782493699072178754683130095287610065986230704222008922747614667811122593636978831285663281379478797006495197666295273411087130259150319810666903061778711000959967454004001231621354800930901581381959994006537409658397892950312234308736736849268045329400323142814725197040326148959216501566381064004290937838665461703714373929390281637091714025499595443274643111785611584018248609057244985268499277836796122521721323484043475307599444721012929056425061046338271632832108705461796538340077686899365273326313628563403786984142302326194052920370003513437320554187228801283166590811063945601716015503407569732967044224202717145843797481600587598254291066327793865277938862258883583541194995837119853135396831905465910045657365667430613813799592342347789360905771899699615075380809886083773727354469230786221460042255099288411386368360429831681611060272393612253534087243970550797672059900316726888320689105099207653573853460592934507243986937422162477307693509826369750505939401353331701182893414282591211794099532841193298946470439966068608063949686942150250675005787833269283446442716953433713797982305358033853434064283595637688743679874446536077496810474170878091764943546174523403502954953263396284591721034247612187552860777024886923640827388576634436865246143167421568957681525607875576268590364025919395027718690815556116739976717417080382229069260717880245556751789196681033154147221990001121262883547158228350849745224553909594223903124910988215210597379598565916128238595949920720240783553445704410705549018128279643916641571881701839980629206556693307423991690259329840247492003757750091498744934618282271467460772148731912581658965386386163696963517890730769931039683846819255494783843590437391466896352485038412200031553646779763790504835174659409201733340239929371492942680364324428618692582212388127175951799459888806264708633859113749002164505833228099785123138030183582300138989589754836201953500860433568501110089023763970334426842762967550784133747699467549939996759343865917033500257870642434091376659500868707445826220492499860112530129049741534086199178720087989241822916425075809034962439189174213482242431830879096347045156312698429376088943267964140073451888833449875709719166893533455546790675420505800866538533843862278142162732780994817976798387856412275950428098917384613334194926841257056612441358456526478988935616405498345215627689864773666748502513513925669410599870661470052573719184131185295840348155767167262601259145667554197569459461092422818969322584410495771798196990207332907527589474898451668478398855596948653496027237891217108672621969982751050833057065903611973047409395140005351079070954863336276559259479062777125743307793650813405259121714869226007418385997137813455158772873265096616880747407243013624497125620349905091808335481247114941975851883464851547842892627036578340043118066419298502663432429001122468777055181357881071829301345889733338404597086960176479492028663180943130368255995103718471060078585180052582575093333572452384709031530783130726940657559360812442045263485217127571749506528359008867038162323002611049157580303915028559129489597712475979285457969219550585662627967983339217881268150622769998215546329095630520256512671088200199690301167755560620036717455589032139203213089149252754372069254660878127907546506917449342891850110640447746553213796762462345255277506252482282675062834469545671222858097777967489374883004145733950143207362340679205445587546394545204173223367638212952162631130452871356793910457353445494494332074630428294657494871936669556844110859097383865858682980662161670546363686419232888763343168602025424157770340125102110873668312912687362589014555387290548881002836213818106556289296511698243933341744215710077761935636091266605329446244801440622008152274593686436951797090214918141987668522947436458513212813789445784541765731786510445008601058836793536761355635057294825255941263565406947758947099090990267873920707319082571726666291919018732900395870428248033830626507898965766451960124688626719740414777044555846075534181041893414002187431038466872461954550595085956233349758873933378338933150082100055434881596421895894452433844707052253617578894104962634044250707125654818979346458804379765485683991170266913114869457646117555315715102943924813785138273319287288124268256384260190264247523039713834849444860874742251128527676746085027248807756203991112833388595501778885808006062075707559245718598462703293913420448776781741999446819000795784070605557055246517370989574053352872585720391007792183701377364754767297857563416650615159576315830682552152945880795877192889865543678869444811769245690247855106663997652517607937354853838727769841370733588918207044294310533524096023157652335460408525518657758847567334900035081138910346802897981128273638903581035086574286406851515701251570661565184745848112563181891126849405066095190375799091602675113564721842982564157325412894427789552856855942257716489222952756987654432887533084878167345003399349808745594308818772025149141242477338516855359762711953047330380952229377701208240666582191370309207913663011499071150900105839609621588840099868827876876540268854534139608219884630833948314964340919284777018583465083096541607445869240631954303926668101692261865220724258983132903338308940034191411966150821215339492246717298435161632960294463212056580670780584589564614313070669014744129912262683936315152291575335397312603166793743005647041531465713190200671114449246428378079349677371766201729601031658078724538860594106640958656685673684647565938158068384166363471104735861017546279465865768885554019724509881886225449173408516114540312291345956699807282488874184706369693729886867218098176013508745237527373183559242838461044784605233433236157007426524530492592665772537459199339430485823642481093231829293901794122510416602357985305955590434079351510095997691891056325416951782842540000407223918619946438875358302757787700979734244501174956363089232669343238427631741619867754238835396991339333903188763463546908821721030950961831376358563530158049687183146466537727099332803359749975482197267438685837452889062765378662830102781051469873113962484808114918068829401817951291638064705752230136781517150244192860508690097249133759800549969460198306758616393253057136918148457585252967097411387439049622797783065512725641824606771281416077639158948317776931129152454258055048723256999366282047914539479671908012855228585324395816378095267108808150711337580265948620015667403233429395897618843038147550782920311880211517898432875943240593097001290399972897936466860279433777620036212907760846902160251553865943207911953093549056290885692500020999940572106726010307477230555129596766340071452126205267683937314261973282552872418999911931425005382882390857719921145057038838692201736015635287663413844585612513231521446739306317505793023374362746714814233446610573021211787130625555058017445633624502564990497365140594695964841608885118822389560884710261625335213591920106797782917026711108646195912047465461497379489947109070381459510961300490707786524608521034851471438761006820997667695638338147134020536635915447631920764637138243193124738572105948053285858998792698331736117475185410807667260126283180388553407806615870780577272784861069641850438845909423910923010177940716555861989419141154910290245571673806612543697535641457770988257120766853531943577765097037407512076013042367319662537015999147625995587584083258643017226991428107949908544999019795540852665493296208765981790062695596493542575929719795169747234468913050425650232739718628867881257182976822575831035511178307514062071946391499404430771431860396127559001672445453471221496519471769693870245720431168548397142121817571997126738122429139395861715982006771756832149595166995061042784495270301918726995092134924859155616748377304451340858088146284973646858836992072084089991869861360165829925423151359324901215574333568785443746419262199346902975899330065621010181126934436279719124102083013467797640719117959620529919829658946245426641391284189976959968928279821253456775464426209556698929231053695876422453913879370773562157709424952146283703153704325281574835360604061394544383946348034481582360181999830611117219550228524969727750111810520517626859927683210986649731725975947369480846481210582474333107803470430979492974453136643538191800217670788386943885481466194681661899103352438227918244061033844492447062241043300393145852617937385415144245987752195819191603066656347110153270088452175643926933916998114810662798789819679959159381939796756413689487861324902651518149121248031632890000131600406788546721188431651964808066054186678617722295152270527121730198399449319467989012236056483893912851633152977087672686853640606293830194774199949264603847650739429148292963069234461551995383050518428682150586776299006666091848656080872596483755962273270515403567383485908702937583174407862167553907231215092076905759896948504509050860566680904726096353768527367711063486488340468881422723527013613424767923509544886209741971733517072402117074759472338115040089066694372439916409032480511327709004900982586757304777007961675985307619827796323299266145502437564270323614984966245284948006561317087958473818152477899331142454300610560056315884700262433241206284361945395779955141862264617373213215356311150416694041896262414398959634959628374501130753723901149504506427248865177929924635137561900452762050869300520600873022185258434308689660565044178169168548658863184621133552999387660063378748363292894039745215950500732845546614719789877737136158945880435140582291234234450387744951564085561083768154601559699145099708250318948737581043403075844820141030279539808053160389554451110079713644007504824750785901505350994436895609706227430929389243504699921676010011839019178426180160115445930411917392376359555399389285823226442363625368992142226302828785894345581758400338473776038466669856446396520934754234517647046192432549692141460863928512993696395850350666817222803696914987956947483962034562372045783867388608238842502947667553336779425954402186993911698675998307457528584934290437734148117529712442326083192367402483214622087488404314703192975366573274525011782713970215694951114583200708833031330625711779450231532057480884252039433180437175341640042678041642292926826860541619944041973690961294794897048609267901401340459914473883524956037927366419566160428528538096971381614154051334044858296011010601730017278632569883644660132684458334562950678906820257645280644879411288480495909147180878584829252604936792209653457076106631775298019013855661859693947565960853176969577490061931740383005142544915481564594621278764136212143617572249815295745361702174411333858997245966132129169663102873288343844701882429120769775523648758913985776679586979804300465458118070226493887493477741823177956556498004727161327780153726026710042962178855652182504175903040986570418464169427859100774208186414995838678794872444438576507063270592053260061703888801440668389833081250443611432127484764246657039742157507121587052665889708850269575796745391757597170969839479293635263715045556841963932179657548561027491515228305967060539767608115108601876339763957478914759089862806747064112306186935642568247702145244721344630125860489073949720034530738121849057685989941182447889057986386591354291489507767433441168031672080811555087508268793313104860765805074045221950313230035239395406558109015965904808636925182834220180200541409633430433197808907477973219049577869523262428730713377581465103292278301431060772858158136269938771972257014546820034122887741777743624135483943103425630390756629674849633378974548590892406604201478415979225899234854746007317948585709385193398116601378812284678633270533488380431908224829371282509507753603338468271644029263814411474853741646331849521929387265315525211950683941814399563213208567693904315505522622131564030766805650296154594305607685795252300098885290245779629978559994430445779269690531193243715892323310451578070860821206008825793243136539333130984344254605150062078188678175875837490753776796689525327691768499717606225828014397667220793534945593092497171838264798962396682090962637057095340561457051369072365015602943247137055179828642273334409513036764274401426608865920983541187596363282215887674743178614548309061042516660289195787722453398269294778157876102075636081199113560514398317951590170598825846197750901404127562874604454331440595560057308713361491588590113514350088773373148564664512181640391444891209640047449058770676694548244731848943768092241484349562987425179631978307223360385407023577145821109492252050133821367760139251851524879991853395328984155406843962436680237393701638549542565571737300536401148058788434441818716015395104154302591483589777020989798925166376094635025098998571122138600725969830617727649454312962191775548131564720526771230799073805786480633834435486227242508754468922582967917546309222612841280038208869417649650074689519482993287921558488278327768007355703401499015983665466231089819647780885336864304496335434412179852607163403249523445338312510809561534098111533796066664132274026328306866545781625509451105800997977179947506114001702103144278591984602468688651059846918337739837290986911972674265529695048823838131299026455661696989004264447412967770414241006103722967955791280662487255976017395838767486175769920331050461868899069330065826330327096792029457882811381215825697287377673542177587775785910085445623869160241169549688458613213254952160390748643484161200280593738964056148159667602941616824562484422110222929115400822691173750940361858621829381690784785808652034495306718857681626655430520295703767225701488922634837163440140124084834452974272230442363773864228432965408335720197009267711289775527434793740533637479196749595933281344253119440605229515408527990077553222147604260998837879472920961894152820644696791479922075155502920675906709744497447832606414433152658138015291333417492256868520861237355302998910987140693733366822996154163497539413010051766200986287341592307031806236802150510412362580025314704365265183153853837079958207474706194630563575856757817533624462408793161584455374539018023843155905329806962730084680211250547534429002752821476922620777817370365249285525104040038118255015172362681686031971444600516396240278144216054513677843810413829443106022218089548493421689979780098250218883921716070178999192525471776694133205099495798429698681112683919825655008778757489767294049845706249030492870882139734315207340331139301788369274731684318821129338681868428965801089972070462106287433975840126936533067744941695718654907238910393876994570205559739763463746183242433553946570769493588000081306519578599196219025123206908562788599660290838010472262385313506776200481375837621548623298946366515939129117954679195372594778780348572895472786195436722664195022928905219686638792234388158786710660449812414326516020513288508777614551086553433031093877578050207645637230322866942857053766187825930822821798668621676274900948527982910240606473684154754677701694860022521401992948772803257293727192811440054235588165227611787099413861165640864023776798458890782297737836598995061034033873564573275605296306085131557286903910245377751216459444908425444088604754732723874547047856991435530823952013941941361800514692646848308047504993483781182402451036925601070655899007223993336074934845704994279428783792056819453257060836570616699065650690892849455493605209994632062041623657606097993475350294939272738375637858769748637505343817452334972896706855404953365382338358500062880221312066626092597611247349072592892080983385887169705974738762466732724118931990931445954674377768177555038382441732492853106655761198527667612205477295109017904053585653676750338580233322698887115785250656406382788167721480767973741807954608469050312071581080850102200455454222197963309521118378545526392093707201158605000438435200346920157831067552877502406508075427832892390547827081561636526683020162662395995999947972662837360044394589450313519897881473143317799134890877407671032536818354193928987362243156752355404665555300997784921345419669130674408274226025693895912319093450290899547122642830774425868854729242314497480935175403017522973769718429334671264279362471786574642013706395830517535623068758293282843053354767617033160022498824284108031504647109001070499632686278517099939031161937906521244529193771401720652589510678389544447276130349218770212519665153078317644217198201116725256865400888405794242745493748380049108746259569445048552467034383271288863223973354905976744041663506009522959001550939051614989960009474102165648165525031762902469915866141367221563318243065280555104694591185915872735160972383634919219958760986203090705069339694348167625842132513237154269674904387864459570741024474180477535110339477040869814780598124245229338210809511489009277807661049238479481313637265555557068983401444123492822711088525217007503699483545911345965669334102680429240476053752158921350393444075485060476530850209205296965458380568337595775712340792418050969618951519422177440588886687356514723524678174899501566666136557598395263659679858147103458776873378617177647146961086391919080016327793271039133492913378756741787838943947463628268319357454318384187249857837048104438689936115724122601481363886443372523005472934682461892537067084142792771762476788197872454374655842802327925961697234410398502730737175951615280920677081099236824596196838652418231802608835775019978014271891493630232233624260825198079698015803518383512377862591837927988217773075139669832628596318886736633527008726204397594555304587578019582222782525259615310419279443574782023780042433183892369717143334932367314360770096420950844714116213153315082953575376923509683032225390984895103181917353854293796576941343511293835029750224396728413772885340949251803462305928019977821796245225497904338226639632364405368421106706883803236638043295101134170186538551867593519039451934356043571494073972206367288834509694966187074878154820509563569074678702723630662202818285147391026443205737239758432867369319251999022908912586245072544015314730133954656827998153253367418835398961369150024031782206042869217495527787074986198747327616995520540429139903440673991344671638259086339643735540862678817550275134859967245356845594100060126706236791430524204041151068684420581668245764814699747049875445617151145583218228988779181801514702251506316161156859082818925156451746092091947837225136842744886800763488839798237251090173887822800281330403737488699462876895989155983326864785647375082461366943474006658368613683723494986793725630508535751959239445571339183106884774722829759384708938518771934509969977236251182609305546969617228932715662665409945195217475199539160862799003989463526802081074887502884863046674650712121643148566896502007557280236737744662006625044335296451315542180604135462605048628626923071874936683693873027099598171852624909327907875551774028596741406387923683013919709776963153173733827643516712203159656552681456579066323395084447439784506728464978028740099189403603765293066005403784913287084511610483194956860610470470599489991771578537993416677915981650093152703181111225101274748262358130087053589649229655964451480034315056571142439226996084989308300038011761351225946021417778609810892116741942118387652663380053347904529367832791778930346324003695016001405475160333140694369333659535102328522345456779911017485527340758659392106592602217503806219722773602691025253406150665072682990768247761004639424754728191910613223638144267491579290177288302533753263907867229837885407314394102249570333071597552559857282977936384908385262985128685421678741581062901285363338436431203317675878174608891666498028732730831780249731240056399245623225924617149729830025247023078634176152791468086574453823286950494129973840744052343100195481404416043165303432915267257851427273960046647085473030372897005708192979425796780720118509809499978063386884294734071134254394459770190551952105932946331508167795781149365915571687783814903894817686583909651653598048123734722934352762419770739654092911223862947740541052202515471648144484005321982192669241236840594279134347133861853192107697085075514872340056637446370704573837886370143318686911368125544307335878582724485021715133672928296780001547663641832780268650394843667892096342723787660464035764497298155932239320664538273534514930618058636797982051315806185904873743234642368257934778148209464376059119636027937023227250728945061875592819741366173738038607602247938327961695194516316429330784954379684335821359924327778525755601233962929722458119603516694370852664914589861189369247213905292733705380717944193187812212455707463794819311398652552107163751492023545686586417039454634092833572144023861477678359659212359596548343000247130636073870405894119323955426574592164018937798384551023741667089310312947409555359541427111173731553286924490804114962184869600214206179738849580802406321172654527237341603296253220613035677793223949118684454361860269247739464840418005495670932487428813880140535215924409646696648710979658963310417755959688847093946001005873104988082667619747841149222364500475826620714121291821560092838086594740377583444715915307460533093762338459029486224379866460840412315204058661862564691376597974100795266379663109220270188973650808147966431747875531311228190986638617442812247182709596306466124554584118511166067896065220056054107113265008888156421359235694893392569077949445289338789516098555502934763372894647917846500723653606110323682541528252336836400625641333013837362171478067517880888181901557993795321151448798126450955678800690767823985446000385724172628908005579482214776939882522132635140740594988363858854139703180666619772846235647578239149142742742499366041703085006959775464369212349951696474247022007605307755153866490559670042666031380405823988740204569474971992721214672074259197513986410333170402978822537853850110254708141683513989629232080017369198378058187282590996480901973144603821604893938386945661986032963959079473064480426999973126587147254381636518106890110793742658720476672728281203479143376731072365218870966569147608939878988879651651305875112365207476641777734009121698558451174632451553638612807592233292872955652463394339427929293431378182620014507030714931663543207964465187062737215602131655126008661395400414924232655869667717001530106665565206080955817802730236069539772162799172379804867483162084887228228966714714940435595546895728924241642165549467098901660983586827179829379431801097404458843438497013139698630542289735143392505110826022792073192313587084625561749790010363423677959682248379231979204669394542257297958174952527696760848808467691133401415120429758408543091619647236265549306166492793781815867149550257861247731142507160630867257788151315182028524272469819734179694805727319874503842192967388607816056779388601586475208463347381572614990098839854924378920308912688684023476203154769965021421474693987312611616864096023169880712903611579284157035195252207446046984173895976073537109722174866818204438664506742436864910180579647150494345734734120598594087464707223395188514244895823790843538624285272243829201194167726102767722118444916986116478694992302014284191193023887635279955919579792020681942614469141798150417914284011999475457740745487428053846075259331028904924105021627407755435843702768125567038122199108176407804901187225026332928643040323850042772633078672548902178483138008351133777077209248560506026827392495033580603018932765385613206603636703139614900622205659877658621327317028439282502089313985664491756204589574623643143929091667215709826615297187451767903138981707504653043236424895674936960144951332097029053238953371470164758421624287181196098164250868789797738523280127716587912753435685378826708920374905453288278969271584277091288239146177279531614346023269655195148413559235553343432587599673237475642232103029235286598786679938411457852423018481474319600653696272572262559028415347895778181607442054701661679975233180955497658105156026417314467113285433047547789231906929625971457380399453615714749253420470635206830780061040614818715491719825201446865849670066071183670207603508062088359339229217468956130275500064495468142026174933940494975113275428250690502878076866365394269730817587227551117163683675650168400774653992469380065078250575762744146519698463564505215879914516670037987883321219318623081021926780185723017506201514889120218182797020399297378883528809570121417479408443562685583661697935082275510738175743357010065659860110551288603227993662703991881525235626951076222542211155783470638809032741755525872693060685976325230507908583303452476820785149383368784752414182787815866731203946962591108791217512731374611952936882816917897094063688370213303930090579085009436234703196590418435062932217271577447846917380045276248334166373678261581697254885404126828082967289004301923696911021349506755976192683255449691149931018168526415410961111708452110064378013367781612757471813206102533050699534449917760591441132042916249692941104244640541079545953306369382388879318619748597762937949003306907260456242228419001061792803323927979358381251426410868883247274975289072801916880006713346109113765534720055993490158916524373529880663059444295525487343970327624401639615205520304427891129488185664856471084977262444838830323435829432697970297175986819977730926104184869627528362660624080541934749768738027002423648173983524051339022948946055622778854098426135152394836608311364391374817907435918098930528929378922985456023186374385588232718919518327526797063741198466183360140415216405656864444562581088951921805653968920720566198761946749492223798538554498205262011847412986698241148242059767763651257403449684460305537135043570670124280103338978764547986762786794642507651789299859041985579527256664211334547468063100435036895625277895091476407977579469739821870278516661547637392356455074483873857555421329900579622744873005382753290813363870058902309407268530584192595162004242636188901034732665055666188624773582373867587365743661330379420394026024833331354751897780913456997426480210426067638385514222808567252131655413953311470477973160160791118206251119829148955585879510865064345900854383257840981163713780562216624104776031376995435143303416206544089792360086286801028392146803758003000353101327821250205533981261580233668626950131032006801786886069717112107251266167004469388885967172633090951459211738276199500759020482162445866184817861300430222749035639323891065763728401665158081049810493899817404022606859493265230195497423842537160168196184654250294162139847595384257889872210211207604833502456458461808113511753643150094578150281916092195654650187983235674304634479242234363641997967556417994775841627452887867966595424287607098244982087230211610091063800550363205048234850158146986063639179705656147664963480666237062802563756884774576213870595564984255189360885316115496554560499346987251241739181650723491549536379906194715045712783643028711619784570450334854002638212548710869156956196764819456450581628603741884597138827369216469179826098697590914814118947174748743301529881541279976085746297093342468250061141072922289973170856695991786133756228904716032457554600162979844416972961872825213208529501165981374720124234190324343613419065525317392395932086307856575992279074894623407136191151818227138907911055940580503331867522174507775793844759799185253411234774917932671731875099558954159523831538062697756079446933851468767052524450350602744307061806838120545435253217773951537781752317694020274694552000620855276604942855512130757536152121596504981268539712661674277787256756871240744678721651981763876224087900364596655101253988326890615940478129910797640624713835996953444009418398251481747598295258183808503742370504052153373515757647881642500387953962951831383808838762821098427140004639565605304606480501860376843131890198559229403988541491528530668245669787793480609470667105402414689462211959901211338368411060599101803002338982014536822707747981307231720289752692231681539030199739203986755279085631186331621326353836288848489945752809260328112004940781574739396219630882152607657635360099134495768976956102045668638743908784314604152498043584727665372631098262581101865131992134889790836822504426076692642115244533726143459796140629160256987709541909559174469045270928545155065085360004265056869250582307045070545340048786787810910974868489538022485147132362887235665845367563791524125107091876465191196047818909242033846578813691341899894734898951834255475402360385923152421156227517464435224896289456771254432196419680100758785517139867138836523086660504970809320028904348042272176643853635423742770554796817477546496126322653697366575521857640303366481350356890097621765026809110962558817809916036569093904199534855881979625709207834415977772762705568506134514297252199549106884507636334172851853820544031974314773723211476822513265926317312489448578756750752939197656439859727393768655139897965628996132898522613722148716618746373051872199889452956662466491081030994920573097510315960005220823004256883954979150014390826453329609524216338050512681492744292545974673428278022503191607286918815832015710628365317572912911611645649805468421780778113645858221298644463604261943184460895562719187692456951345911901867214799400835819495728414749584750233148410134873846779574499531628564679769127759433207280342920113195058349602086699669266371172128234219016123938750845230375612350857814251194350254805289681598881075858870730130328952758205462983190095443281102421458699300665919990023088249770082947286452538513423920253615009800750502261675500258813585908444598471465197101185260341999350304754571966073631196974286595117062972013481217912052739124144113660296219761647942381404620844242496179444391597635455610170666197473122353270746362003520929575466878452576178417352672987672405247801467180011092196396382599262784616545952511503985959498074138621575531941304516949796088979329482376570060977333767073308522802568461200780743444310494719327150836485718794986295988231208146524796891347334063226552456581198327983413063417441342118426821106255112869349014390146811570711952661950302875983170071453125448980803953952339860412462119303112809431087094640652340937817373730370258958353200409429098645632720197713002299110005239065419580349955319077662154712506186632595409425689041820316149273123070913695167824078908077569483766272248148307540377309068825923803206100205968663688126597251314946751123925956383135879707087009841778477716800724071134029267159074616630309745561282340740597735167658813676292429796994145185171659295745168683460157173345483219589652066703077221769335783970605972620404478562334411593451349061560361439606264295378499728141425113312621573227520949926199284509998837157368597205453392250343428086246965957310942361771948672931452640109072324441391239507524624648106585134178104429954299464486382704280886691029802696352656973071692109293364985148468990676479473100443671544961060451465463150759335096860733129951928212865958777477638102290321271484771513666775471081198266324319623772109184771104120935334495678227798060277382757013350612128498660395318649689260414697597603223120819822240991156986619635853086208845773916218689456801927503544700362382530854600719203563594232620368435566470567818476046295307227125264059606731226830505164472386275644271464272367491642873217601951427474425427895289322504644316061951698155038470021211862012290519906029183204615100399005826515017278325967796947773727639031160726916924930992994771760734151991801835196564279174102340181856076312044235754677822566328941243360168799784479546416305242785663536307519605404621127502966717065111641097292942808651926350768298983954207386774513060982554307959096262337515449468019898077327822581938616982079987604703661747784820115841746741008760797129420579712595514158848639147286300176298453114534330663710719841680572844312886350093026494721881629761216018155241661716433388507833303539148329714862565447195165337179822667854598172913925828178153442270446083196347406057441739885771093298400366395870273056441601229615166029798278811719955927883834924427296561075742005180587101650840503750767431007719893973753031449273030162349740587230659448484979539368211717280398810200482954664484449359541560418215484515836024137163587974186283093880067751455210358145914352270966354158836411358922791489283173500852484113239130034479980584973790367817652559288756001014559526978607308598620807628376946008498912247333402086189527736650115108299273566030540281588321770659628457271692915801527824496507506799478092123314404153988184127338775940820189952945598972689664364404470420756131839768447164480075770170368280097364419268780235555655323653980289227576267621139865202723911839103638819662652385849850976825252911235767894147621721044814279870781419234905424513785406695635523912838316223421377425710319636525651651405112066144414079761243175675831660475495891270423194925192719601359132712494119624442837920695205335728779099872069554953552674966775186045895060737731386550239349665796147838618337538957232074350346308852168588377836584120786788856699028091520603005860187544547914300398512912102433961554934983631466542284344916763476457975797234034061244516205489198419081651568907650304808654907719088230566657098659905071485979096884566645370063573350765385543917561444237344012679327461634002376056260096096805675438880600167071830199521311646903211868244003797519789608050326750727707820488834828797265619311019273504686902428404728653428076562741403427653280696098752275236167221271952782691496434763076444268841496535256615978186513025603446786958788399263893087256321679089198186400401128145871223285345207070435272020093434714661155006199469453607485179613589542424229994939831919623669280894840652594552013568272594305008291473613977489278447779301828520113294665423673998540561931898439683675620459621529356700903361472366362612509783784744134898547499190036474025018125734648139630605403241688949201659070148104528334812826685897286398082319535759101300239839724108956456115204952128396079706684115566871732942053517107310442396709977799464641350319570964203314982492045096174290282405832744679455984050374987786463638506626828282296857685636356955864112255571729565864043487580040068917415271022026947359536445891134630677092461037234206029195816054140787813221303393942248705320220167706524214276292057222242726922940402980986031446706327746450044470648184538060291016264722391221396370893985534224288609414436093160292064589920434214328642898631009179006363034321222883439662310572321228345581627983904051530812095684183463659612066321286970739306427807979235502908538716770762014109497761911928497697024065748079836653500885602151178823550491209762239822415425092338545777272479389054275090609380026945215184295810293836270514528862548012594661435521822565986744765596346716901085128645558447738125897501469997610871560575991268656308469381480275757304696075415676465219357381743086881127940319615069898403308507096473920989818500875653019088872056929390526217603077080323844665431147662035674520232329784828455080206035912737277036261249024013656725147980861631705139857471999707870485525879046428677916419234199245159712742955221957922240387210281067964379191948963717572296640943678266111433718817120062115677047712401521209910803571069446538142507862210389729372503508507491726525449224306228734262775021063481804499786741318865581744987927473736877911019964116856450424856215246825310550599173257706223264577924875670997580065089124829469696883113622815109734099246909609832887072394875876342608121740502829778188329921738263630675223836798570562667349063319506243854769667987842009335825665618392011990691898146629376431226374822580041281788317585976858562887161887450659598533688157661404171668651773295941305145322852199295718851585699700309376425825644538169503632249206153883688631534533798781316040239136000528872085948022368709426169958603993481695720023601574503542060158847203479618092617394672903221196423140392440490480078771455858117007818375342842750133510472858515958742662263961075437137120536837241833479390442157543737238156579120264299288182008611592271512727681338488454675251040595059907230401851750556470919499418943988884449183499487397258855152882270810536630401137624243002242235814412019721282710605286084261350054862104283242367166664185321991104431709329556941869409177639400777183442124383952223954981181935210320405859641036645541088391902301494529902428786248846703484605678428516126437834357054830244507582841230650904954543111597407613320501909974712296803360405630834886255173225442284361748085042319248846493021506072319768015391170919434475352002032570266894154449134702794583470891373577329853256815967374633292904257373035411673302837626254623835202521664949740695899087033192958805406489924545719633883956491717156826961404666660206452115140060527715725599437182322782683077871685953067011831222102796311814984680406702764383417678168536171382644098274502476065376922914037872574389657136671839948887206596209079682185890308609391892452470248087043474863868460090423956561500995763288685578285270947031482720334298157806305239108101215967314148425315135035123357964390019009316281134636275835603132955774936385580593942796829849293058960679457465196700336648208065011649412166219242147464212246504999196190555900322833966356239598133463291653580627201523024993857680721258743744134801319390788176452103573887961559630834236602069812635872645514470500486177684654799380737653882454245139154002025684544559913230647364133451084832970948597291588727054483084893469972181427063053484360924662221420847893261824509562036968766521281348226067748181602355902393832549016316238608335713989966880788947218108287605736080865959013523768644928204714021684296233073900009556818880731742959716910484793990232924184767223745580157425105053410810774885071331986036179986949543281926511750491777970524765504442299451459798571785748695405419429920769972175292672802127883308894692266954084262604405865847118908221209956945040325116272486140795527437505701108919751775646451449437992691595966876244806588574860145604436638242448112114177925943209156738925651904719628842806025851227435441289181115167278755802923038104926261200560170348773154684765660368556943875564098200535276047950278022030354689280971036616547411560335931428452888875699531605939591601087417774881581439102458618716650915324742124581101105346218283315845000039292156282007509254472184552084523293175637395314985261234244435636454165556583556409614584000854421017858032811104169415519542188716275764272199362352468663953697039528112833719405026195346470767479423275531632948392425369114543305619660380961427712850054034547606566403765357830007267872622161252085695505775049974878571173745481760608388022163001913132682061776399325639286894245012960654189226355609080410806471826796226587678943597946786425946856368101005815084175434551744639741598914643764022676823092662763622077601212264980862335636601614894764482963273609814373388064927965827909648807191947352994151978350933778556718950970926305354082471986472567907265090572203261936052595080804008353054681030449487649419314471744285699372882144526066660956074664832779762160128341716652758910558321376734263086406649549255974335540757754429786823952406071961326697292005337533865735389305706686865144881376559765395922041942974716693413657728940020112385891795636202490232706055361106659013576909711292359916181928216586905709959410328296619697681822325029842941382567906146446150352938605313965452531265986489971054247639025907483854686987841210687482981651088736519712808208553223753737073930504674503576089204938698515531840904389233027707466540257366771367083138890623603961869728185401012782859350102838951410366239758780596234350255531952812743608077827670547240992998471980545231059056298191859295133377902986274966660927008732171349895100873478827785889703325728581585487740541533703842313681059521774066496023342666989562933391217392937455186401660918997909096917182950734734207128869785876679326695056605917011510063612353399137495911208252900169143496415701117136669607396425532595190206026999696256499240072532599033015090370968412294436981963770280044296146380052116653701757185076477118306291931253590962186517611611360224643232554236375652610334443444812996056336618773419765139278685098555007440882381109951607221548146822226774148078891801474421161552719800276857112180809570072993907788826685512133954582428635983282037282101141724913204830023123273937231730531018343075203660364721077516108426027462754941753460408185670870389621454978619884400275487855587103568019348770337324776110016400996639520018589209479586413862222303399034778275810548326293792114837235542107428542391562251202046639576549969289950231134612312976021083790141158208564985890735983813914284001515412214511374835666648295619906161358517107443698158192895282813219813593001016701782194855161151918892190211931400254979242173666969106214618389878600206940873239087404302802782874341740142684985571952930435238188813335211176658345087592334470648326585772711963853698594900116642184051745761710634300760822168990733198330524674498518323635475961086778474433170060331015444107686911269378437281611911091831971053242453129717797384053321043932048028294121156823466132797603154560043958434227800669732824974593459624100920399053710317865240499738179970906083460146709605353471266150524084259808349882628664766207160605876225636652553754876541641639234613480482600828144641878644467724377215291062524205451153474793834907858256446438548470329272533452120210781675601768826879499892700610771282927965608039657020689491581109476390904384126789873589912227987968638043052089562627213850940567882924569407481544011654378811380139604433765952114394068943122744142890381199735222564667964618885267367833364167973264087476127009160279759484805361447338181351636027765393827771661168859220845642424445835253954244316246762075491351309947713105256848467241336452164091698629071132770929705903429609832950531771717220873964049380205677833643795095403295961358498470159501972504043568206474853902738856879224478756021166445249757625418576439517307875079803748666660752281797172227410359201692706019593730394526289004965209895520312837386619591094236688469220551245142513346023178719480306626091209010901358452887021956139499054921124434774027283270007361280814212053294008661752593138815798939675960369410889572936070513404984170401304449884838665066641526573897117238038954143213126863507288242630520589821630174266733067367021092078060086180148597748240847873136030581301448201159199612691982890696700021661353628492835992921964676047601698559661742464086605512431931756787510943450091804369622409987041232434457137979935615163378987537090475321890219422961370524468099732498997972375093621627166149287512612470983629351857000287987898745231435436229757890613055761279001334438169421228034644972804065547824948559700214279625220121136041725255025391903533553763406716401194194054555491035406125101143981961328246071740666893238512584086601257125168949439452264699594448972950360743838586826703433992660953670738232182737336052152598044230924634557879108782558510690707471213914956982433761690459822747359652532895016291172837978021490927921690216835933299497237932164056598448828463657260608632855486962784691791503203599311057656844238194212278027221838071484927918282325009000527024262461918190726045466937677643838023755993439215016107165620878084229356090301052429791256268488266222905190884389603636148386979889364678195587080390586544053915474044971635809372521244885475343833151442952721620710104939797123341783182180176783165147081185696699988542780060288934918227824147538609758056949932512719593018601950111975988446154541205686582773356428298426279012962012803844942397408148856485222447310590713217859690966400801826306971969391511302549037185979579442578833091191118607341327845792548332952932305640205268989219298539816333614479831327929045144098793009150532474521693941218849035045335519465876224887948145265606089047104676243714598862569328254544579044076240527701000675964408100770834714037019809138849302427629117082647589820649261766844947827994589477169747684002468621627280148950481534468998593106352993865957229196400221213927444559445090273534064592017871826402951690767524048942405576681002845918766559079123279083312079258879800696061961142958597368816687757338157275148043532806837020092437146806171132372030711680164380561938960465119140145957617747390325458648991919431999956006585420770110799645352556437036693525910145984184786087017920823994535630333084534817582992238146059444313371995495720845618483899178151473106023153374824814312377198643397438650311685615679173151666871938123886140869758883323285103575012650614143091731514553531835116137419724093093448962588611567930359763114127464632263829925449604131862998737842529004146904738973874664879838977473422989524639687062219336893237930206841415973431213220180091943707246942234297643418862017292598563150679452855011365565322957911383282499374822218629837182262106327666336353434168312629783886512854023278401575498134562639678400819765997880057912869165352034246601149843921167571403860608400884568058081921761798936348147819043973299686241519899306014862384758796442139840095966066006729060873690757153057820842429719472085807772191002664973748769954483402198128787575890863085398181073865878512657340415441280680893541104192435641418871318531445059237590475106205222714818912207997906898980485633059344648497096521614899225111802530867580889003929103633737438784697074956287972764782346130985483495208355541572610571450436059914491604887219756035029740593823227542777930028461496494243204732753554413200978136893150488122280450839497965903229001660672479293958018209550783294013979347795461946131073318785736090988915958692206892406083304984633198700613054877986213520888741870569993554264138589716069561175685547011128620239295170336198382961608592546976023408965809494234156925054214911970178787136795815149512672492186589595860459719936283239065319231288933479969789894866796748530147808368543032071850685109148108479014650959809732998676542534574223556641181475453277406480214788066176721954889833024979524671258649898471717454439867629587302019007509401209184108943539448076004565083059865783648255656977391971085201102568107725028055139691058697853744735250971416813096432237629962729789730341247621555505541146225243970963197503949110313755114266897302130921836646019784143490756562703510326836311748107984547986016615008033967732591888359956917368702632486935864852723218053294299999164739390960815202667337397050815999926320127482111737824325784935599797350628398983771821200441686054436089637920817592957121607213230789684403189853993038137537794728544217348168711350315369262205309165180989741294107987013645160159903590683368236229758933833502617277763195490541246444898311513012994245555242056112629813648547275690149531628823579271056934304181246468797153989024476876302567773166252245134839205125062639773853537892774083767421171172670438688346195030877647967023613474066650923730569702079294418690603874424732129315623400048583379888383170782696154967612216019728380095258614146480909571626490962879445617437893668812971389633747168969648166028509629148329936432582328364950179497849165624782689687598902887915629236683360880795759966492613657432479264480483941013588499405620898210461042378159340137516703352793064156019295622862459369604480411742187677937939017110986859693586271722703406299305820233499666884510503856365641699497405180166358838285393641817275361525438564683401357499801516512352644742337553443463337378011187746151589206540004541936035407602986224524571710720163746713528297535004413882743977467709273187875727650912443066922956933376927002996910395846410423145404198296273280298683964286712622057737847487393252608367503709049987547940425198273258068243569926202807459354425791439331225909420630918640546470441974672180798467628444739459321825368536182030246513119400445145049474965828950139522360629932127456318667608692202872780525116974079955069379743866742188871861113737847573382152975281676781198428458017415624957527314724212251843599595604327832372973641341667956861115924432601856588542119963896301129612457894246659456176843863547751825202940969257641743314911042655475637507603410275132883123370356750808053641791864112165408838984055172470701733620673507057040956720456670896949933887064600051749478481056597806276634275460799152787218632618320706351277299595261160988243216064809468251354468196254825201725987517979045493795534152862299185503408211283972733101337612046805473883316967578979675574009184444368547087248687227268322371081918233382883353496023502103575783729060662895527641985115025978694611254010739470970408286376761064813130728908427392247017939089466100651255612293349496026257819095032079198590706844332823611784713230681888367831518660749539489852597873731219404402216522635809108885361341807403669791360790185459582045321560513318875340161408477936587666767632683497930085826368614978243636575161993612542606608490589893814540271537273972402389517321155583479901926905070110387031819546873085197890858620691529128651523247284435941840504507666812186520575560800329544965826262540531623132695533212271794958977214625295904499357885398565725600351213968061104944985411996891597447138375009817643198376823565196103704748111217500752827173082561508485116300924002449321352253193521007289573356873523453741318138599636463506802419287677438873424642222626529560347385617508496241811430443231164873212985887697426060987002436374028412720342755637183766621488077001046991653412795491755421057641491988429858725478197447138189881681833151811149841280973831873820122371935162982225665496387013857208856364162056457660858276394726309979532203205865875397836183854421395917979257810464264703160052874362432794498162242308299614837187020541720223648332244748824408730583212588362798571091609058621759266709423742601303138922725077186522840785449251203589436766686251099786082824946485172444258749202127852518920755152792792765256242823168,
  best_state := some { pos := { x := 12, y := 12 }, dir := Day17.Direction.East, steps := 1 },
  best_loss := 104 }

/-- The search state after `7168` bounded iterations of the Small search on `city13`. -/
def stS7 : SearchSt :=
{ open_set := (7,
               [[],
                [{ pos := { x := 5, y := 11 }, dir := Day17.Direction.West, steps := 1 }],
                [],
                [],
                [{ pos := { x := 6, y := 7 }, dir := Day17.Direction.North, steps := 1 }],
                [{ pos := { x := 4, y := 8 }, dir := Day17.Direction.West, steps := 1 }],
                [],
                [],
                [{ pos := { x := 5, y := 4 }, dir := Day17.Direction.North, steps := 1 }],
                [{ pos := { x := 3, y := 5 }, dir := Day17.Direction.West, steps := 1 }],
                [],
                [{ pos := { x := 3, y := 3 }, dir := Day17.Direction.South, steps := 3 }],
                [{ pos := { x := 5, y := 0 }, dir := Day17.Direction.North, steps := 1 },
                 { pos := { x := 3, y := 2 }, dir := Day17.Direction.West, steps := 1 },
                 { pos := { x := 5, y := 0 }, dir := Day17.Direction.West, steps := 1 },
                 { pos := { x := 4, y := 1 }, dir := Day17.Direction.North, steps := 1 },
                 { pos := { x := 3, y := 2 }, dir := Day17.Direction.West, steps := 2 },
                 { pos := { x := 5, y := 0 }, dir := Day17.Direction.North, steps := 2 },
                 { pos := { x := 4, y := 1 }, dir := Day17.Direction.West, steps := 1 },
                 { pos := { x := 3, y := 2 }, dir := Day17.Direction.West, steps := 3 },
                 { pos := { x := 5, y := 0 }, dir := Day17.Direction.West, steps := 2 },
                 { pos := { x := 4, y := 1 }, dir := Day17.Direction.West, steps := 3 },
                 { pos := { x := 5, y := 0 }, dir := Day17.Direction.North, steps := 3 },
                 { pos := { x := 4, y := 1 }, dir := Day17.Direction.North, steps := 2 },
                 { pos := { x := 3, y := 2 }, dir := Day17.Direction.North, steps := 1 },
                 { pos := { x := 5, y := 0 }, dir := Day17.Direction.West, steps := 3 },
                 { pos := { x := 4, y := 1 }, dir := Day17.Direction.West, steps := 2 },
                 { pos := { x := 2, y := 3 }, dir := Day17.Direction.West, steps := 3 },
                 { pos := { x := 4, y := 1 }, dir := Day17.Direction.North, steps := 3 },
                 { pos := { x := 2, y := 3 }, dir := Day17.Direction.West, steps := 2 },
                 { pos := { x := 3, y := 2 }, dir := Day17.Direction.North, steps := 2 },
                 { pos := { x := 2, y := 3 }, dir := Day17.Direction.West, steps := 1 },
                 { pos := { x := 2, y := 3 }, dir := Day17.Direction.North, steps := 1 },
                 { pos := { x := 1, y := 4 }, dir := Day17.Direction.West, steps := 3 },
                 { pos := { x := 3, y := 2 }, dir := Day17.Direction.North, steps := 3 },
                 { pos := { x := 1, y := 4 }, dir := Day17.Direction.West, steps := 2 },
                 { pos := { x := 2, y := 3 }, dir := Day17.Direction.North, steps := 2 },
                 { pos := { x := 1, y := 4 }, dir := Day17.Direction.West, steps := 1 },
                 { pos := { x := 1, y := 4 }, dir := Day17.Direction.North, steps := 1 },
                 { pos := { x := 0, y := 5 }, dir := Day17.Direction.West, steps := 3 },
                 { pos := { x := 2, y := 3 }, dir := Day17.Direction.North, steps := 3 },
                 { pos := { x := 0, y := 5 }, dir := Day17.Direction.West, steps := 2 },
                 { pos := { x := 1, y := 4 }, dir := Day17.Direction.North, steps := 2 },
                 { pos := { x := 0, y := 5 }, dir := Day17.Direction.West, steps := 1 },
                 { pos := { x := 0, y := 5 }, dir := Day17.Direction.North, steps := 1 },
                 { pos := { x := 1, y := 4 }, dir := Day17.Direction.North, steps := 3 },
                 { pos := { x := 0, y := 5 }, dir := Day17.Direction.North, steps := 2 },
                 { pos := { x := 0, y := 5 }, dir := Day17.Direction.North, steps := 3 }],
                [{ pos := { x := 4, y := 0 }, dir := Day17.Direction.North, steps := 1 },
                 { pos := { x := 2, y := 2 }, dir := Day17.Direction.West, steps := 1 }],
                [{ pos := { x := 2, y := 1 }, dir := Day17.Direction.South, steps := 1 },
                 { pos := { x := 2, y := 1 }, dir := Day17.Direction.West, steps := 1 }],
                [{ pos := { x := 1, y := 1 }, dir := Day17.Direction.South, steps := 1 }],
                [{ pos := { x := 0, y := 1 }, dir := Day17.Direction.South, steps := 1 }]]),
  queued := 348619452434629438257898485255871309049127608522778417547695196115331869774144183965845206813261510033651874552026330550552178521226167952737676439177197567326024795769233878944971780262607339889658777443351450405374922624947129989508291451595140756672617081125769529117515611922128871528807964165431806705957526565922766166054723637625774746011789057249482887070529092680179061773554299131864489888832634462632645674038412398780981684507155236287969120745107428747473250969845748671053333437266808766857865418901804424819524343694822088652567638430117236230176261160466254765908111928427793377905439318816394812246531867034700928652687749748882400868621763397160399462833142759390985568100699299689510140818065840816456930828754564070601022257386325281481993924170421471433713547895885424784121876983314030223701792157599479612649832591639551221457857762685425779321459424017749902606856020348562605434779310257143414444578936278186952323708149499086595910883880619273046516766237150175812710818150165458408999270716848259918975484971958523824410534409304434697562470145887142090856977208022510126341237224286891939679871860472042923985487029192158616927035296531967662664007406444510092600585162897258138994009801368854581450618119257120368823180400064037188475500391969841533572898855001119911370784992914428922595137388205916529374025594033856328545097618142650531167833986143001572207725461704223996972855280431487221914614034334810392103880034257262916214082229059950813170649238869520032988572493218543365818971059921829157031479850394796307556240513798595717190883852518526842031472746722957791118508667607528830201947321186435493380503322961560672418621481207805671551716271476939322851065380028780296064647288600212193103872128701361689336981622595498257613167935796917797420089629319874199558622957152544918218528863676354723609545751989218689763825132635570529678341035940433779406712264208366694581560974093384345706612329215703707968673979928592336293986304,
  came_from := 20595207532532843191719023933686968049796819840328446475877216909317635688609412929572937259226344538976135730399603448794815080679663047835435428345829003293164062888426111458106332436291558770971099591466241905498952970890331091642132552475647250103497667051543283204264333232867673016283515277566135256261407706126329927086721865047373544994247783210843924100681683802651442684313134646836574522001454766622022887233052751595552051361829369016011497654683188440578008021193072634340903348968702027709986083560393684174614798048244502024087456035696586892417866828291763619523830334038114251181687712207243681270776026317348009396942217017358137719583704453904449363695264188588094092901491683869210823627298666806227359283631100462628520813062637007410140830463347142465979429630282482087281815586282500429528552022361538204190644325246679800016007416171735433037942165678041260750525910838180959647926794281034764695423055877601569337852979997183081987552620580490116858918107516659481437441145517196147693129939002519257832577446040723416993405143888503871807297033165297456694330836087400807199742888498092322534648058793456203160724980573042276570662643788491006401035709475102698337590897309926694718383312087164233789275578681838581645844597787223481031421537263529111136302439788310441979400502301339457988679145335132708426429577278587082031448000682384350151035243214950427589291913164170891832229550095616466947866442934469120623845777041495490526498336642355762216905078954072753828460009714498318130055527891833485769846363146285147477487039942992448451851711211653830290894861890948857562901219873133029502779777777264680793354681455519673401417124598387865018328214515411283717593502112803790785964413817848733127974585003414113036730370683741561023529189750892528439348105488977409799568205475229376400878033847806616528360958188374353658111562743592074268085287587101942045453484513163061614675522550248421080692633251446989038942950089868057399729047958193449076502480300291568675031036416091471967594134228546704874112363647627209800892762056507714631624486160744690452645762643401119613532239847374356421795069591863003764760563764342362651040744901715708168857894880331217438797613610387569272389591609861751370985694658183846110570724146840910016039623692048004452469991550712869001573202880267830552957509715122282512366329672805363371143651341608734134942743558133788952887888685369792750722733274819567705545981850042443405788989740644964955613005260851327540908053611436160095973651594450369760554352798049499943008288145906756436301300276486708242852882499982358807215281054506383238361783547707317010585447526708548181720519222856111993265817581472218016401608479610175586824386859609567624145851372556329231564626201971087600142249159882388066497697935536254640114577944380024235401846397785620992761812028809040288537430712469974221078433547189150313439852988649912331860355291781565500535703022261138743063366736951255046943476427582699040798749591559251031024546588171717952745245993665498674981959404655735125959219089511419609962645042411772926855837163353340138832822407038897347513494132108257479137029971606795137324447667880901840923514119322061805001896587337864314433612201941815984616718286974200584092190069101113994957771232175972317829880877382361364090614702787895520004806769102506930702123630940127522411936143324429605845132662485179413524045147461015443646703608086415603773233500509863448363208595886051806813355746670446187216641739321191386137193264097341753899182407367991967719484874428393369702940489258915089382956550596809060714850222273217145913450793041476838028265414066111582102127552931795240356099123914282968289895973524975891927991961527708540560705441084498862514934708856135225989519547426143319164798262138668571871432993817888492508123236955186641566585756136992043327929635622635501253222206232669854262153884017137569953712272361930898221439996608692331320042859671020878561229013974260810020232765732356411638537543708230904843121608172451205171184905201359778947426848399337888697041775290610714632422713577639915889041118669359175700257774369284126465189033949055277104413176087286128930424711901445666419701779263467747717717419620227499557025827170552986892369405691073266827350103639054128171968356961387468557963859041202349971938973033919223423954041808387704489958091162104050329559523894522962319695705786181026363745715914349079955399006967169285385417692648881658753310861006163284047160403833040217114621166603726064584221178317244455239549049641093528712952908167386772315777606937827125457941262401868168122653459704826239140151831808093611884964648370863508273628653747709953094165082058190524305827995588555656583694557214935420041086131628616672117047456880722331767630151449503107484480742420027743828511026429516054236229433559471321125670606396542898180269912190281526377306633445714750705876536587111661045247753117852787406509645200461696843594302399861786610704050856911157610524570024793103617506434912857523922947384703303968376375805224233040852414088415512493958267127278736405782462606165313031685394580631891536983420265706771233320643394574197441567672835598790943660089577814660380419447599194053391411274644228618209268364664239395696235938081297813440430949109075711809047752616443208405795331002304452463003072324120208579390429276068622869478901840556193823817780881284986207725779156336888253572455947851722184998130434379395717606650460439280842550377123200571157474743444212512176346353419332731898341565656510507861179723117181595764442334125559256768551335338040604640834143748167703158223720339473718114705894416480735141110719508249227175493498290983600929167230073476511569770581815800841181908991305586639483362488476455895554448593407763056329544047481592853668312273870339291325446744475775600940406817582786203695502247162995682695901069419122897635755388065961223880139825958584267986568162781333060755759984711834820450735234963206097261310398736558219429680946785197069745012849029803952170046608305028735950829319085175613054190563482696556989765505612641085244773762124122635099493557259073960405925159563702303200379187398906839823795438263108689125050482633390587533299354701149673416093402548399491136896885295004089583659061107415767793043036919928486308856713753811415713171858515223017065252619041478520116354890078843363655343132347256884316799745079317781922794720725302661452109947449374544194437453287190955866770910127138946139266664897892106486478904271341053505550253913179024769222002665182616449824385158556454980404529722798380750293222831321109931088232025437800525249245764690917551214700134984462128116100344800975109111967518717167690886496768941617485768553663359141595136746416539642330109403329145981025910444307293878886805337851586984661148470303027060689904354720667504316946727321960196816218884053891956906841841661284920427056185250552664084847028596278714891403447520550622573520549580979629204350203164547765619784336854679379220946733859853606606054045600713860854589142719375548550237682695797322843191592039863684615224320717733925937166401659554458495733232199771200952483168837519551313831196503197424683675237750897754946289001427257339619740684129805999594636131697647935586339629151294615469211239556309595809497869510041217551230494443573974975351403772787602713499485706453782708927624241856291974500260094723186402980750455253719724416183575210173970253927761669451221147308955798964401425694722862395633457673121875238343389384403747187839840990959506119381115306905537440714344905018341955549759434009354627123355801836079084334346774280736155027396582172707769863665759660220413107532945410638202653949816452602582529371127235321728056923883157564705750863468474307097444784975477216376102351548258303199704758967441551618618649410934984229925309951907575445998871296549144220115612800737894202913261203659936665789304210699668801087506049091431712766388784380280296643119746063094338923719278376096890741875054651637924382738620910563916475438892771900920915882798487641788576304488789726572664542765717685102235828890688877594604007200873411427162124337897522764176137186416573408347456414341665858025268062348664969363932324288560664335772878231929015706639581976786223332867122009838464602906620080839854704010251777878491276676841348617521572287620603336364657176421729978175910109863576826053236411880380898206717041769688595066320495627051740880322790181856019171652762170624833976872602297966875735299325990359015450431229669796631553427413538584941870621862635563400445200927798328343222496745651896295855900085985602674859145865232594064482481881558162788273732479056609866703069771662612615162893027038077799558712881311189922233514578034544623136948252152789480359962233611521457943989759465701121399462491669685673395467346685754985573141800923496740629456274999181721978592763450671575978324996171358359640395694737875332431481837351063744234424239331101643271379927869593251960197689676364491624981879616958239704825189315663081798719523808361546423028830846247268527283309219214017154912923017076697356359228032413316487709648776884199334008374437810498366134154986758600098243731223494303850262402930854296202342373221974690938138328897669855070062825001183495856724069554956637257504057440543955692128175529901315848164335971095853828159465025721368057652452426225523552446063167983016931843616415825072133232843192140926568442782274220891647342920583066049664687478730158705253771215369303543489661482699394924593227264189780136515231106177304037936151699064546891730049206789909293544394002053575205261529328668669512781803185460122020808725045408399686923136629431602367775716030205431665405373505781424200442191597383405066370774904211642493003054126828976364953482709826393390047132709293020842535147756050458334863166192026023925203041816460455243841348257380541889115011824923460288064440851865073277379946562186718199118984949146350785559276403662652805372368247090260451140103140890976366187457084663662925069264481988348954900325721806620699182888721086456762835434915814210024282706921604131963753318789378449335553836572508035419747369175387148946867919148986860926840298285525023603350886028397576990370926560137052654384762317811853976670734735026812882062430313254389458772597087617551284370717881513743116479702424287290578153607003548734037768533266991836751843995299129442637482249738369408952066461982342583296688811928013603941000978676445317667354090595958463290079161789207683491188214516982839387716292290164513560210473689021092492701586288852370450002830481790657153707837564543183067987216289508238771176188767226333873837801522053152376651975166511933672699839100285817056834480056638547899514063263713114270767787711460345789138697983582480569356518403766548725573049824492785345431067280915588243947545563560136088064591041869566924648615207601374230327020642000409888778758165888311631151945477511471342671352382971937556016650583527856023953763205263562705619399452822676409751322934067107697520071672671214144796613764104652417723601574505418839589464501586584236166842566826848258527685862354969124362054859096174863439634283809860137583940500568790429243820452411759302813162882523459543774544848048945659464003955436359869058046134796784093602908901086141446259041613806167178687601394071063488810122789432415971606282343651217622305752158495784712140453805083172003629867744158478662542868048544480676819311014205000156513804575888658066238518604029538043303556882567800387546780255887409319838629637601717420868472412265836842210494864066350745015678897146906929430096794175059550031959347552063032625411348106295798167525037850429913975546808110328524380541095145004114536239993529734504154802583016274867900784414865773671969071342066717561907448713093967780697434843018418299075866258228879326841017104026662942727911143607673269916159885723233940373105643591546758814610621536789142177084378233079268248485339887235264252514845307010833092430563086030889424822139142386726858344811413762114681245149196496219293722166080391461565524651836332035184324748630505640469118987883102109340875029671581501813462432712195908660676826880655152375536153704922398286185613198330630591573415544923289819899694303570414134702789779074049336047308744721868601299833840108564798220138808368139220030955631246396801844834009208298340610389011236222152952812296314673960515938370266242165201047587624633389242206702500058076426381451888878813858672021371725108034639905453350897093432683402343715780471568632628075401733206548839822588573080923349274994503485001098652976894889937670774314242674348027403835661618721990387793580692873077893304027386195884365359624191517778896279185669477614656555581868326907997332076990645041599838156158943411319464206087512963243192679954665442049728988358079646045701533856392249366272546261849877362654117236015452712581515687622087570947804607243884465881966131478496768180252841858123443539922832479354995859982377296193749026325299693565064816410551685085478128479587262371900736951828458721536294933741144469808452691487957552758231659655078993038030167201767243175812947296407090401649629391223831433947447508483151409036753426258393385258954456734187716276506967002663742352220155557657895024912753342136027902950204438818795256069711986631537959413616018059099575330951285007119194376746758454045256884622481743075526479055341136716698261149769577197458715323632689373299308501941514962735959718077863729644983343945554400281617767776431491381240989540416410294441612547868712458047250937573264545226950680275967646107666482438655669688451452656830656859747430853151084099710651795534001982099399803145532300120366365796088302951640289568367574666635287856307569029575383636926253217879412227949039197883352631305896018168579257584610173064549303683992244984826954797751428291725860207992611171691626491625524545059385512241917876917455998053261106846134752395258486889431412407176404502466574666674846719779716984488468822215290355481770970625520763930728846720737272575093097418578477354519060008908135670565064907937962270771436365927618412928608643820329330892529974597874096520600709850749770725798277141688107796720817680986453838393573533413762224729485654751803789394138283039471115743318959950368045333902761280519406674200525789517870045382580251097158302006797539716126745970411543103054384001573992443715101346769353917994958046640388563999925391377549021622535188966114036680560656625928983656811604114921993496453682805865171535442495739082978610534387095010750026642011970369182522963275340392909588808676181497741551063578233409107594021173520064234346858894716125654966082006758057141078023421206498062517437639590542375024634707523478190540855656289237394035385459329488967750663150307536514340520211767174604125492498832962153776303154676914980284731377485027822211889953435526494756141577843138520536060854500641511723189924400145933544791359836307262826547604153487624764329631236538531433703198868866988533342346379499448015772172973470153380622341849449739573411619206926269893226511019472918654108203268991463200176105707401172193073226433624841075782030560443125609949120570482923225815551114344821212028968390675586735112821359568883206075659707121974360787268219869025631371283365455781261874705573115723460144484043586677701959970078111349673435827105755223434889502708330258947730816570759002438655922250481492295763999790948413295191105249515865164496930751335257012499341537863783445038537286657408819096228322445890022268545734375135107673135458410280744385165498225005178681018761873733970507423822194303121144774122802539794549995842990782803125002395436256455069945790236428846065919716357662315210467616802261178801280465577076518823645877997504298225581019800831586320468502293347062558075617038991380700102442201621456457270784723336913122177330744523270805946205233603827945760435496412238415202424661235526368473229747589518378024719264076461012362687097390140949550060395808574734742987812901453067120704553924015556144615440690509173794921792296170905641810389569513579452781451015218546026034355616278460269047562026804038728186362623060561026746611063959994754074659914762262142456481551549816927353784361274508066088157993176250500198310130776435194377433269179628850068830165963617491729496443869770935945934717825066520556049244129801585542774027916827256524733216855066627539975934264856987684179857673210539441136150844901783655906243111887861579924733170243527429828172187767041176273757033303408821349452659576159973476518226331037994271928891317213520458569041673873533378573396542530214651206778943722050155954131102540216754628797927218474813928349114518039034504133832923213412992996813839164081372550682793125519669078339903065125881667530689479742223320465691790123749661277597647213325255294090528536290552260686346080870291033585039204959961291346285723584167446132617575658942324316191337349597092965107239722365690545334789073465487668343368566004689624777387264860480568572915879569297447452285120939774256942075174090616802716370610390218923038563521804439729087195781598395103951712434117578122897226926998387702890818247817011620822825204638806304351002830656299698245251318662643404582869559428449168760076149556177713174037063389224207574280458164967016991614532402926453318671329924933592405731516014228252192848047679346380887867902660943706505338309388911899526752869289901505771640977437224204053943728162227942952929165164094186216889369541561213370783328791835896992179742383593462299886944354717387010613205036274097159068454650380490822612052501082804058203240883492847335861777393549539295686475639830401989419260845636136653449753940094100197361131697514760168119070302423276947253278997578271621546541407104818494793169738861018156586973176527830054136660250447799423195862352589441975988798332542686399259558246148603492958208,
  losses := 49741013205785329196855635049906967494117503007650441372244650825622501964863598024427905931787599613470295453541886597853603054517672490496737359491494903936988499819632131470477576463489442161172334544513259014963926345385527510564576123440428481172716069387031413802179276750082813554423422605444415967814426995928860159189499755034729688132820976909268747396340494036175258671508865448969202092364531584098199047258325809902168298129070218158566578182918173630629086262426683310103836660395512058691352727642802847530438182409888112113337222531852383589128130523170509134655968487059908903587676435855498485714910118552571186283902213161357002200604398070234721155372063898608368999848499468778561389947173325801902247327777842391941492199131117913658972173032289350271775945059108795202330761274348670378071653408327882067188951649034131059089816573418952351588800513489708417344303952575565869239277445479509466593073532420072278650297029825091911241269476688609088765772328332479031284457132890922557093398512505829474975914673475188424879443549231285408925513888768842908269046360210365396106220224031876630119860717778992117394290545107953510164327318113526605718283947085442303296474820904013264672424536769699850396370925707578682749180258417921036734565927634892158814402904191082052718829589127046242823875770999087736900705727213758220659269885588120778067131695267656879169012816016901217175877825097009696662353835299448645659799280915321551569000663651014025053390597812265807454723599661212124530971360907464254390346871593608234163246692797721997445865964317916102745901392409030307286185302725204348779070313631181354840783869225255247333244428172425499332383597550909735415403490538052109206701807007874886545999369245449515319282768493708072233812584509316541149610006395170256269945907526986284766628595735783868407944438164602890807712187413626090843868762865072832648917325487143804282027589561660767340949076121160717037789223485951281415381855389178395766219686474576974111266777920721679128480627868161967244129459111109751410078252489162312840200816253903637990159350556086356168321081609928512142506265958135602365769926997851445328963932020879232996540455577831719779465690812670233887068009232950419122870441573973177271995400362388077462760105002510380312986270173307043750499907533268523131736406844808247626340041313919021586001863013537383088740935665371574191859573193000839613786003996379059978107347016202226833971970026162949367947756764401582204616414121461579996553200291473613447333861071020256143453152130862712787903898523117365295203816790267428572821957002630615771977656608840716096652089831741760999176073578276728933377299327175397764065751839922959937314149725930632217504566257110178803506086487792831926010283971867966189608034304114065012406922415082058030656644667730392719737261194914947862243377548656960135769985347060689411854348219252794410801960115819132074539830577721431682049739904383335306266113986940463729697100757284386446758759675329978565109428163233836770336582083021726769746775107421958545328133599273832727100717725562635349711760144352478972552091356890296604480031021324349256630149530086542545173449359971045902701666334211387177742139270167031385413334066867681930302014277664923829748294641894332644832933659132915196815076048678497702791355646481090723828644102956880433989461167671412478037933921942723914159392948290821445987771655465192724784285724342961140790259841808374214422875210192243688395514257599227147492126786484114033750508251514133102857182362156449704207544017596700868907259609420251097638619838504476178635626922541749019198283324071921807389751632670130862994138687755477272725392406898066032451163102398820544570630117373854270261584615292665101342841141247598295465805595935615285689553389156475458981394113670308332172361462347114797978890552405314263006977347160624365538757390709040151450526918253600505472086950743088289090118898642223331208341178216718748434442317061627081555872470787911379784403241916208137048289229915709924961704235164730188085406480177936613061491114036209586660985535207073109361308727022791532600862290510751673315285245982164407922650513527165291922635005103423875333325598780643291674836186974610767271436167569352191431652609528296525160891248609018242559359373373163083903394939152830552420431771566913831321342054593246537474995318145875076378423808918622398787351740640232403630750901189969902469743187223437114134118399413710881978868628582623462292513058655866658989683672430809853104839964908644825751667526132018390191473545846424271726534434620586367905171713208542337633671816332551664500932086139333109713454305798192032223524478161371201219889702894538809817262040057966751371876060473211414788726880486407627980692883650057656504270218336303468285251461755029121925463190627728838384523353892305791129909678438382779237049719882841000065550578922551265002009522197624248429841215923322621343356481210366408059274114548283521440636873283172648785138665882444560706073321519079455544889224793326039014140091714549744540618405239757576653714021083947911842511727013626046617544318053975152231326798643805720216621231919866133084515982856574391039283844803101700739741115457978838697752854324408155861709732251653464331639223858713148190828086071580724269536119606106050462552043038285966441135491976159619664830912082621832798285605400671304911255199634732067363730947814427182972627605316218678889049568115982241609922926838639307192940221392192837483091586506711359526934319166856900799995275262522913604426251617097012148119604522951970980425000764118641499016447963269566406675314652178591535082117131525022335191252267210647868349783023289109972037089877602955489148565370912925688718599548726703655039849208270453064693914039650302806144391947087379408069081738276265640169243402668622797724621972101117863543450213990804124111391257772895456012608140886743176538038483698241377569553136307413757859776886113781153274629428495756768410633018310540099078048253381451753289211618736698326680050800653219643362688672176292886430440130948653415477503762329250926691772294658653394875588347160993280283440944039172885467941916200634912298682070596283418840551943020905611297302632249641834441077397371418935206428447336765632554635972845660229318102790425959788694227633187621676386551652271370275027148745301077118902310099169846511563128459219730695109545868705990716796500288586852821480695569997754751239194115698307088091428448995534788815099123079399579782910829888591843559561769073428038462148815705116148319961170603016822796960321354431579950021435175745257018288601115365293197187844133741597004094810813480180566545949984409396521101830307913100346066605602853421219596807734562818164162895537521274129435795112018910406725308275370565027507411653217237416724268591622672800845833029807574100946464567299090761967375982380205180688762291653409155259881006404995794196887918424631071574742429082374498805071920861980421105607023412206254981529298842908716390669211876959434617447530827093032301910598148426540078506361103708668323697253899750992144894476947342197547021027855370978451651451039243379549720956369720597752239847917671715386631610003023619850829638390667323435805432451868071980645944757733015296870906130482263211033151210319728846529167594674996281101919887987287902765627335733533336965740273890813550210459351155706251143631059400030592580271507881545296648483557554464272173052852537450710083253029622540632589486220978992850687204593059184096485356736154034771601846327262856419526666776784862002084581403334824609416105631995599089163940297379043165051329522824823150190506207302803528198274234952290679465857794941569256997395965179596804861254953728200498562369517070540731838132147342569638499281097703480085366632361955607126519195320905480248992385123171777673741912006329186533143990356057683261148498437630572721022304588639795054397356889558467107344561983978966834775637760051813880368836271929830052828694772052166165242450574747852277987408641782550032648089550534206090447809747282855974162020150322496565080621156492480381780648666589616989477692009965999281295384143596182229347233516704865388305228778143374069703195055216382503474778676053174023396040911999288668333265842731436666366651823574018881893626752657453164296305046743526919241816561798866132799024596593163004119099628086640718430924656440698974098150462797344137494395061193861437889091105430832421880628469855948781230371888565655451334071732493898532778444426552715261070697347419175295950159137425613639969963432169435821565225149204504159207368013064526142368759864800337635118119166571313354223044995864167134140633914059496568653120156159007535821135944398011361022071490482743673582781871294007517007734944632615402547736514789443965636667397117912530488518475492626801306126688277503613203919385558964567169496154441623708222646017227194845273610665075220690937994685203928791363578849924625328315243021921664077994253101804683025288040522770412406917121060523881876797477218945097037751911957672135121515297771696239039592634328773940115195968190066834442258339146772477980753423599427328987694521115419979707092899251696247304610133018601411445929527319721986149533458267519920710207251913954774902319127779491631718202747731900268993105798264826706334997675783454387284705038458494724065855861421095977620981993329841968525330538957923097982231852237633703449660514879064142003018376343497090705336449410083857000940847625075631865036840196830145963596487926462466015563827046829312551734527445297251612654761735043471857480404481570914041991259032430936723057965772040755708367682269827647602800749878444799222962902630500167013362639989109095704513174287297516359579872746816729570195015164556522928859595229166729437752877938194065403239904283426221480111913250559702132181613964533304771560643704547627816948342406136396762514564665611215330948791967302907263214845692318031090685387620811941342252342266816818863434231223677244372873203319032076241976690502176634166282086318894026116255834646877360936624638335867297258472266920607655286436652050186563381010967454740173534469025470403056399356063674149362431074974714474662955157806337618365648484922196653945576013895818778838272864721395580118076970284881359057270150987055750044202889210553277843369149257228772103645095856572390929541128050676234790677012204259864057433940115321864321689081315263109332085905164380172789851372294080128385441436282140851358047693039150227361681861462779609153201882168684275705521041083559678908844729374711434142794141659541139429840632440243689780956738285555238370286458437503233953454317280653135446936585284299509751617983505694529976689158046763039286156243523098166300785181440294078502257795480716569361990031537415054793701716066594813094166950578509605045350936799571479845346979258403169804800650274057873220216397912496402866606031886659559259189071966648609798127948824110944114348278826863069851849997927784558221996355903713330909699580770579683995223330543144710326870964194035775123420954342545604838833252054746076509863911124412365354537706504070108135837913671696730745108465371561497371428434416129397100539126944516719023550910206585289829342834750640777661208792716471412635929232294377678170355622509095509089061492765926802968690339649352014252846023413643492339063116366194347006384137974505763549822651840339878519331761441825033429520696332489826621604662622212705805440971629827763035108794715400325374946234114504356819101211009478067970730857015635359399379344235338977788594787850327219730114080570239118150644437263926036162394580053816941555584852354700487688611050020146230757937898654262122951050956566374674234534296128432210222514712437818088728957850616528098495070626885057559366034332969761086118083790479037217046166726639352062143992785601405162090645541811861450794721303307663526118886947664691424003990024118253174061155752571388995669221569199739287804608849156644491549500650537576343108019965938345487815630907360645987956743413201099559886026368480495345843272348913566760963998938984965585381855704104642633155061806592229233157202795664190088155446680661522277215669959626774011682542838528062504809715603488457902508777405935992403289463263166450199706083326486706806322754122585908489878375668846097677763213186187768800917792691274321766324624287947661984608204541635838433535295156670163203003988409729770730587933257831801072894160510743285784172123335478611630061939751434048660275369405575309311386230025064512392514086188915602715117112601524096960982775700945361181597676689431643793378327139374564508959922900472342326460916272009801921421075347068875608366967291635609827584414590203662009485898118824632129354688424282426614001702176377003414845419436707818654959531088906242659161040749169600196400132106709294356900779076890558371186370944722845003830491392963736147873385792226725877048693987284778462039409680756370506092762754341258162253465048943383686438411422128585541505222675439109445132207552499536739215688383469775391228175295734749727340826083088375186563116200901827152942868212111564680665737329369592099085205382257834712477759946129123026318580825964823979802845010601620896095192134971385523422367344109290071958325234189768392393726600175794447484855206570944780035568783916932330924415198400586930091072318037324002338784212857396927197513434605798761742789220921763385561315162649718733670373662156119125470655283399943003665565604969639941022650040537954218404492737839546111720520597060336542211448901181667756566921568479550943365129265145585005420675643092282375066260475523652782855531466348928894938312616631630600133792219666242002615779911017744040486264994728386561456295372462704471204344145393230062377262244231490952210343997101596380378149290559096958367903126396848302177637939205513664588270163061393182490343594034338257527689894756220801975907052213490147414580124671964215895654247029923920359590633314335419261080954890301246571063004386727470920835896684542296863157230357430642837991460669713248571967388590972757970688401848336906964212980411601129894797182182949299993185779341443915148927635581186152106326839023135859629586267262424812017592139948272645057128515791395616275677732619061850710977152609191022077032736088895407701874272614129964172565397965103956628205951020299684807011391110687273455315495697974878883397385052372074570136569657514363369028483375401267593933987388087822369243740165379202386547552099101988031682236778268905491740636757342962200810202409434368567431447183859642930675111782256988586699588127855857108761314160421437348919451514339949085374583698781539408136692168758958059135116393749033863065152328307421416779270490211953238644689164381259925372570550066201628825718730343754996357856265094059483446699097393154753782375461418739485066053096410633371375175579911598634484242337213842433173692724041118443038169007085498471234877855637496163008675462689579577473322285819511703475821787116363241629113165788561236973292317383147761541681351237807113344520830039091576514697565735108017975023607807904368168224524418783857483794521157139400543411363282364741677507423185763774073298712911154379009359524052989128741567207835730489838198597915525512517062680308665403831497425021968452217644952050433576180955523971766885640569613498240374648644453704194783054458711673163083600493715487365442877520567241943863667451778475485255780856199633448382548654371742791863243261197183315219521839079784397028920039843469063441075610599432563867265531190656112272715901090091861457592472014661330832031560243779085966485122047588979365651608909158843802716953176375536360613783790754156758517861999756813464356475675488921738909622065619354129738129761297988584563284357810655644432804468767581578986312346112020925857531035116357830733912115722949476039692163542689971292635677125173541163160700390585731564016836420323756038093237584246102740220763385689612354301130080355528718197012227900855526533179055790285369129340633413719635540663924662954818419113823906292226712416158466070742838864805091867942428299282882551741574432326004450331943268672601786692844714316657929854023460172606289158805792314423430925555727985254577768386900964335007361284528534805402777001784471717347996637456577525156179530316510434512693643600972118190255739423681364753095089243688770761433332865150533730971938001761797588502151701431069625210321951439017383653193992116858400971197976218554786611047011669212021397858290149221089735944895488006571471597194603508785467231439615064958698208956358074491978567168151998073271225713247911465292080794719116528663234032713810181619679382031137449923816860404056180024075072104044920769529896375087536134865469474597681068865589133609330312009570344063248492458106540742466106657782421333455055962381666301603989153472015499729089900283583925707133951765539791451806047985008157051566369812363939140720814904690659222315178895630480256691066716692934402227111555000032548612013166099787896418984694538887140148751627691748341433826752044788429727491857865991809383879943787173660643173772546191893324354967688391625329763207552216984145329360526125201714529426304457942282567526974310328954002083042662868954387803179539155179342390801422743415709776605344486599813806195416635142607834040163025572337414630712085787047543186895343247745198196565067414859679205014997481360387673269586119789136143765035959484593050248824875313269321786282707114617582951785573949697306865870175830946776081260984233303712592164887279190555236694774047158261380176480409895225555044998757319196696532111520371892173771012696162899846430802557632174757660469449357815012013726903869300153685703664314586071227195318941635092789938527115568512837064838976547452182398615705450223173363751994272627600042829521037237624385396309300890605691949857243496967328654456752133951225478553325418778806481954529753394007020795535610047763519399340964398584431543445449524773996375758630618697939027669003359198272984565303725566251477872657098673572512112637036962994232588942773597944663971601736697868028479382483683536988183579728063863583710855141471015606776864623190101547383301278005191547394813423701612763700959762364224744312272529758058429859868074129025244480063174540665645771858136016978166790105857528491919697571260203430055655560814088849049824531042637574723422523808587453671966761795300597352175030340168189325913014991533549782163544438561681142352844560665831565286573785838759870815837622238547369627039435186065220366016567106793448320423661898808636278463067656957418172694472667788973715647906600945912353685955686465694970485526860917979213144422948543050420017141007763479749914823760885530905631387635255098581702705703894700482966820006692851122724694506739471365691342444814242759783947943169806335631909988328578626011963651400372013585574171752769466602328901756674763523546246450181421121565816767827490724689816337572832399232451046990945536943657971551794915401284191832504555195534292336574966534082354140123855901929164019830860694302745735186410614839374940830162862056707606854005173513560768069665116183589676861489505575948657759555779918698052010732204406139647977106649616416881953921306353903452342784585145883194721798618253551564700227153788507079206863439094119792200213114788599582261235655079333570601636033684220894037113201081537907367542703491326777001970523975366451003106588777324132714740687441391886447629949549047421133509267905918697330201299548356418021739315722181241941700466209631907419017381688766713385264162085218623487159549978340624987511388911976807496598896717712012479161713086813385131763324479236597764319320762304234538841136122855300805447588124620041859092728644948323158187103869935700187519306920980757139373740391090342384805220306112395294583896498976755321038814569336155791306100664309800613969245689567438643654236870247533415115950986696315210069845522971903539588302089571661026276072327450758659590773796929366741731182362570338086228388334114850066192973548007070252115728401614465578499183300189050184505417459184952323642747622646601567684066668236684402019595864261022097290747093200071514236149603724794639537247510480567333563982238578641964133712214383160257779055879110873488716261997100793027237082119445314260040871499330872771313724451934523095839068338477225321212268108305651853020009009137840900640303773401166189695530630574845342447400370485835621594839678441212697291365190024867011088745248367951849936649105472455659164176222049383068948021099589677376239227040965303864942262679680421212445774327414452374929304926988821888863950373839757918419213075197164099885060588811003341215805846321442965671101559339193986900549984748074323619854282010012772393367966448471342609717821525586841089734752246692634703276140626946936138586701754065702886847688007655299891606224938698286453134783472715187028011734252314494577732068339443093173379408115529701346549568128731132500004702551144752259957918828397830232653633116277702359398563154117934491445585721968840146584621714581456638617294275262738418846856805544960076960974996722917655766105603641252014436487494482297355825099694762353944791483054453911791616265253308985596764071588501311303682356135744476347605655566549557614623868177874411499549815505117080941543626807100447534938159147206024239370368319272109089826051330033102186128849351472703175472387215386671584322793845407673965947173701929419213412550242993116821210600981697247248403394746722484418580363501767400670931056077024932776793743525457054924730239468113044840105384039786195696923557786962061209769611937339637992245342789910838057863105549577384460909159857895646880195834403511658840026377516712634245049988225665374467966913070314414402079806072110848834553014927833714762249145515417747322509416514357394710283763873136505391991221023657227896975563324142109295393567266101241365808285059092694838582986006270151714279847287947600257786854532694358209587323609952822531447586329080248675538635712507709336771854638410932658465742274254916604234980099640552164028153654405140407585913175740846171862637005171862806306982221510786412661678693481615409127049902922106727011359383882684983057376137061420857509295681417152200702703013489354108625196489794116785245053606046856491654193878328552136349489685910416047973023548719237259374592883256924056598804150926754623110886519151889572350131202442362086992890336545468747138762491018247849993609531572883792353654515966924097772689012785572636244858556330728740793693312816682346949013794297529461918627817142356271495238509916419649387581318249157784730181711976205117526219580862046386224644678395359950799383196500479017476799522317952398003364347011372596119770732305887845520106334976453054396637685771402463184112283525539928304864041906409779788718061219674502673547642407418259620940336844208639316065317238167841033389544327877176211727377263887397499208203546758297560938632299408532488679705684959427994631549798655898781574097225375373915414824218047662460236016793155747139743950151010037617401628573270603205060852907139307618844709347670672104666614753249772336128856937130087989837752038025799346725420481858569361186424350577368965519230715634646206807501035247464005162571960431657479777287589214994412502007928373714962362212167195820542166420102906756550672021109124956450327131639354770428691823203395672996394722996205155491863063268359203683325364667009137755505883527576024808902140772374699337227310672589078960990594270662466056032319440297879664093286407549533726222015414327547360250116497375556724179657493401495727377583677521229483648351380715869358991076250522504696124202673157076784547963028901737192944486585392962788224862585054071755302510968364362150185938615552322173829631743257421068463857900454889813785323483284612308611694689539285899000241144416766789959056915912136376243894265538209236258579655067110134412495324009598588791575272550078589188287371833648608543399061687349174014168946893819296538063510598003283877805334269191012264811436338218026748274487160966127018466958555421107326589230815683410338154909596869307345773743082849664194655553315082309283497187451731591929533349128190989428532585654095612431791855501417034311425725064089543230216682025761123001507384788655247118400010867589232949058359872728749048239699318031874757076272137505319559381014597761103150653288629777072479559368781886101226457029835971427593065033596948957645830202453465053031758183260044564589755589317218694725734165070442312538554895852616691655516050314638131108462288686507669388809061842540881427739455037224505931389012291431760155413558050585719602124680444091989558567735039753670204612278400517328758249846422578452118095119568096682467172938893098647439820477317848592994412961103112674456774973701095414310351830455254811054079190853892192776378673282463744585736543330455449659500660155715503009034632306946457075367005211735378255896100334634403911339257830154530095246449099528238894148254646944164931095161356414539290078994849445858057708504047305547884834613495594097623759065485559384263292860175805654716437715089275663421062599533243086505468220817594674204654299899100394546971589015729612906638360991504162492491897856756440559434572790568838376242165920452856745777822237649950939466388475035821352507483574049248445214848889274654479505308803925014920337465756791039383413279685427289290945252542469525083386322169413581908508584201446860486179360980547333927841800552530789205147395970126178872710874869477648402523488878095789059578382147421495539635733729416473067296287694791019773653942152237398581170853640956090618918977669030392412197281120106409821159653335572291419754220677446355735533760410782646924829727011606070388376875165734235005090316356086028712659390468993377632306471672004960699343198290058753144341033116054990297371381143661932966013822940313455072841684285975819616648435645894518007318056015179954989412034458946994328305145717939250769643300099387593865972251749695909512220690072177502245930693104510096103397052548722790190644454738786782978055215191120940910071145968801017218337340319901522472843904727254771903748797371117333283534228381302601653870350473448927457247164587113823973368270757483995846621388806957648281034448189201730529624820077091486948163009858972610001463115861328323106907877669139796490389724051627055233999417988791115892308371853769897696281044424222848232904899679880205083439890063473898488284500457075530214927997184186716292724911482926146476027016585774479601510115131643077326327013460414094896346323901759956349634095004425940321257819154937223465134221189113307415517535717890200955558454431757274149603929739289782801866053145146983227242598490809184654058572940605495769459258483291253797864983126626527840634215608172094147122993762483321456345574933038778390207490919634126359002866162278307045886099873044792427097340412678745560189935894753319108904182711252632843153332058253835846283813256598751477737747865678791967944776509921693325529303730465788413916923394460793090394479380764205754948366475653001876766771493606478282248641010355378613301806846864368033854914390646577536642979482443679268911079857339617442439869172910582317616131208101881064480833395870398764436821848517720952309610445526743461727460545977176621441282363699510834528376707979378926893068779750833657335655031487225962738660434145010711370880080713398731434059688262677144406066463089630570997008812091565884573712273115594383888989467399014948233129763885154280940925069352324935994281394459996305514514016559828906586049479708444410558719884958282849370404249653864080275013933042127347478045071581692427478275272523879224517676002888117249366835203122900417563384637219785645612880645900032546216180873929598969304526002172924505114016047238992096438961228463330657812358139990188377915382882623278759771553288320395956949718905246841498733133621088670179534053336929272427199141927725943150538877464548302598354382697443774497308523091971614600605346089104889392958760250195188789431226781301361763469182346723197471130029490020863586903925393720564320461990060273649393180299922079259741986888258280254363248981439231675922298977016388798843361264931799876755491297264597879755285398146638024899355399843096328573456971442888609041896502655186431602063908356420483549217771680535935713812813955946826438322458555793860111278830280104643075091198263151298216634919325830772070830117905904761537150560775206844535148842490349662496182585119400373422987430823244181961492965847184489819294430292010477860919746279565677866504224873988255491370575743167473189457290031905202765430931296810765652351991858051386318870019116783294738865717557883345294453852407416582936604314313060376160011523133018173539695581356139314388655999162253609226742213121131816026393523567736132545533952367899229942159174076641554309038370588326655590676268596304488320728909675603588741354108262216950326717020141667963913985199153793122110705492176099342516420129778423020261379273933084564024973143507317843221472246658523729519230451120280341137243617745209613454641383040589943052292183318788940663606143052913182056139126747500266286056196575889484133630965864022181858470596481606874401497151268205709745780520807779335938007216038747196524700905190506216568732227465844583493938623898287756487603473984941971586767724553838784701168545490770931447861985017085809115324433807331124161563799230052444082875794524389862969465712375596901130344381276127284911548129642753633068321923352868616047423613964025629857404894753409069028024210219252635823648456405719316050894422920058954449950737457731708943403038628725130130206120194121043192529826830112614168101858426887750132557287520242216030210025291645715455538547689092809414109646231051257551895284538491323077960369097301440949518782597733965463357720933851645041883002171833390271269644295694333279551386193733029345543589299575422200213676612825424515999664444051320751193814663113288965062456185358221426713962362534505666398912515489906207153132190245186643580534045600552325113257803119421678398823119750847204614860375024195384538485727429625592502846581539098821221912053346557121115117112307396120441256682862137675889608462418190221395089385075634068859837431217887693178055637386590387795392392185476441002077622147452527664171634726921176352148989585187669435679930569537566418276688126211983052875251834989811711429470885771850123982631650469722570167787985432279999795194562060124526329726122400874928638492959414139797616832767144502116972671082369790626499312605946151371693853956927321318860560936813198382197799904248266659088176013744548670219157615689038954836422913747021102810308147686882383640732982204952462719051758699081745395906084975115002473552207048218498775668125507576131066965226924549888814181703853928754700424671174868904350997746627448520855743274990042870220709201434054550506885488771398784800368814571937549001899196432207254205078498794608139507661248099899878463353974641752661988767295193393809996770781658823376854581688059946859801103676414175200213691496146817127185280663959277129891764941906770941205527499618341044532665025589145603072939528448143085973666602187116475008030550326281401302409148903114823014202078080384781338526256114994824894703676037731065370495744744639150222135383884957045885037283503448427535498117829749997294794797440092598512931213713894035465906632129649204921170329183773355010568551927277602263933400255695469959646906802182978616748933878262843319769112187695703090432614080039438076917145885877749057985762799793995579905833903301076813278326922818589302925311452117400564533341320276036431768488395927239301943289025654566027858903644324273615384166643838738612200794296055410684759158899541313550698981356218360999134452537211854994993439466896647898246858865990522296856430887449252997635955222520498818924208109002725935570804965476132369066805216920313482394335390097886220465300437348566548782295026745262169759583211129720291399410031539595337050171448762840866031666183929390582674100827987900702732943629078801462838725958980248233400681873065052183444809897411138587890680290701689355548843509428367733987999385780626076795140743257361501937162525938238088875164025504221751961334979958871094950703798326537097204617696311108712260943361330843668723292383835367879090811423856213457520846744439509235046347910925766253901958436198335936429877484025260467350114939882719490568121038092573538982002591402171696995922560818537978809530181817344708845625894322793205477017396627710109538925914458299923872458687982936423286209128526250016089027938284638589498573486055980733144720040969912652518899741837666722655740931948879715577672359199837057006476707709329905357215982806907120249217611957490938107062447166803115543825946092249821231257417743279824810879765995729754953381497244882921615874518467640460447102683802518137190349244574517908629340720004442646296128090345460134311858861190962695381323428249755666110835988039763066173684691588005412470832340491051269064474941446925526502825016973848389735877740490918502058293090724794715283094833127220729399657444374179405370121549047268925849733687163280752177170043656432816289926347932287384394544846001259186090239826987330920602288837813665284533039157217036088859129803713729519825876638628439166475373446496255342931483078058338020874160144942729968542239734781530648960274787413211494436804501597422010935905606972655328455621424715137848821838392071379690191818001756573172639157608784376693184316853474229625842698752244026911456818823217490181206688431798108498757367043706739724845611212585820151176883326407677468055741016725496069705758876734913022094816621224096761194396537046188585677560194300614871936523773031841204645852642893902076836851517762250783776716410766655528041234185081162296151885681059734394860791596012294043435809833766592760765691391965066207797355439203970634935090389467219034597191937610439226912681536343247187282475910632428305457514593345006207281659481447741991211951594726787844489589077728190228101178166128359323516188091414928675879297862171723258480815425803085923256343777152686939357616547198095506811994351949143562646835650598049730967525086596069923568430313726557760813142957466031607428531043080051724274440843032470138715506771253808624067400821262341887668829238012989380598561680054498561313323460950769985165903100495698651812030694142654844734125271602116918777701829778894937388021774404383815700798585920170548065482805299969739467349905156367288542324783523459180423291372901011249775377982975581776602154538384540004753231883825819089627657107994364906014653161091545218614728131721445768452680664380998740148255429980880413633863761206450048771144031179675857191227952166398059209675485376507673714268648330602626458387834904801760433993370210426206682354841871736311746837376183601822267953451960465809150115462570304995258750393745704330140178182642623842234768630752957528576696298896134818299939457069125494310549788853296409653231788391893837591530725616683988783116099696218800209128905860355218047911851561777487188246446312261736790282264369267384378121958560949413899982137158939235544852009004862715506507181968055766121010840210654611498332926267598529776216099865405938064296953886339831686947065462857603895655377268418370400838360787052909535805408496786217674443373252387706437884227442212272212883651231919586457337915180552433729413559572408589373052240919754317927018341424659807634434071587192416297312242692202175276572143005531367104485248472609977838561988010227341053553262247323216452753008250608262515408830871460449352470502256626474852811723519104298914003928784063913382839125301502246325390163589900489650491095719838690292047645236311656593479581423505042120623468078413221885856343003475617875449506172062654296620422476308453865321349287644010719645396204236223643938346944243826715978772626329632940226777554918705945569091345755022098854455718002684743295393556923486472470183396555261221319239723098380060706925684641502760211122598862566343267870855449344765960628889346056300238502313356402240158265178852896146503544617933900835801034458681671518559950441872271361524838938116723148352298387307443971223730217848720697496100186724116223470821396042090808830416921910368442671200435958095471936679673108050623622999073791415684739451479803700879948854196209230130964235476680484035530843190985491438484365657609247947223723011147526382853052834102946173027584872731117698735256834629744871165610715920296164110577083309151193679637031729782325332287453481829123034959440592576387893365743872867648596468695207967371812422102644414513858322293512725699732905717807635227252201571458504576995791211004330441874602914301368893479508701027353137549854908749890156240349258152018829774168038186481922594381338758505766405526668513784868717172843579829973671636598050639703255510621370334555314566927288547782785318400405252813406812263336516222660343724525395684825019701408556059348644180405027257362624690280192598628195022775180971827922279052539852212616313602458287553534500150082543516574760041610507069450307069759130734054508887514857109772112747363148004303576948199043157955556678569053373373033052126525230691951263443975148190467777446451484795048991720511343751290603216643511178632940548024733722992515964617256539573281260519061720325165797742659747880472292793423926364654427928897240061086264910399645569237871835626839594933438680365470594562162030841291348992598078039837383587015222860996455138318923912103916450627873906297284823532429144152693408221979066372964815339423984952639251002829802137904309726600682568515472505351237911135331678826384075202249442962029202740928038753152693818153569419997765217778803692915147195562061758323148315512878455806876601145314619491473022384373659205405938113890828133885430190846952566732215452116911298318926327297251333223202791934015866100068204292151190923378021263400261973466469461847505988535923410365696927572184865644446970444619497205096642175049760705213400324585588503006685511951054682681972238571104903643476033198926456150690944576654700158195754705009238286039125975800365862739128430030621008657069170845885682076253337901924870288214745844249141864955386771252416212865506543184192894008911901479202115170540088208979940798464340468984114115820086291387255939876207239208199949748279988338705132887308051036803424154134125303779906224295677184520449738097967856729250514146898601946687983431219967481319325640322772953745095564165096270579159181517820570078975398953012696116455498540656705548696699306738231179543031843513141950492045341794398818795279878314285277081668999045016372122255126222112517916840617021828566603777242091636833606742259230432026808348332024316943112755579651741194101992044276286518693263238422388320162363438927614482333898586882647334791859614749293540700045471113088100695068501613256645963610198275072903044242247970785969590355882030856068112875296859706786639306972601368040192660316863782518247513690256426949529495282656198811797819172691530590236641352742554962398498444112229093747585816518906223308614052849747069538729128592543132498366818043425818570217566531410680966311798070849938297328548559719578948309649976363089894303459602211674983395718853876096543860255129179079858267223686894391726167209648661681476068894706442288921730291513376264415283953575970117110437547731900191298755545955882274617625099259737526109926112465537071063213605796356482749829879902555774823965939400256024657530740610350165706869398876231254705279103700274141859092300870656133585617769449762266620648024335099280310993118098029287132788332681326844557491296640645544055396515542428927561207728119632782638040672388590630833239478507539436817481852595296795390117065322077624027968811791934429076584678084203764731090668325844275821712685039258211129624670890956432675623186732824708859398977947026410707347026292906490278417473938232841762070384245533981082991554105016450370612716213973857714684306867114317153152374542291511883260752659453772135381337650918405109738810985015370596344385717812069124662571578654640112666178230815569094119586296958796169424560296840581483412652434365439545600386572801456230862356673935508909942358242504712498063974154316606854073776691450542830535740066872044152821175357863391287654262749513792919708778681884691653563078359998868081139145177556542162970812652873145060908211406711920408571960028690163822144054384062703124752522483667048648348148378452034008618980061412927584675767677247316871215363475276818992065947379644655296040894914321106517222085736786552113564087863111685469374342362063941329899266703221591032164305170423495216777689439500921748034344746315005608589081304702357226033424681935450838455104758109360475127328563693148794852454430560005181233471998013554506519859152339830836638685435294519185107779388058645500505007536628402591189711530330569177190528732515953817112232656408740793787876110329999752421404903170904318478566026987817953817641132181582157924789706426085224299310896923850373161061988817472965175422731065462807513789643652303247080792935909314929536351695378782093099191879582322721400884974064937014792721542368853264670262801402218873988559594531251511564470523417634309537702041120257552659082722816827981224823921876991848515443968092045848561899392007069447425814015368584376014135419788821343991114577222040691099154186838401928271505191891323826607452619785803999925858441260980195293124123287198675257683017248903520822979093438279728415533878857793722559118893259796934334099060286035448258208100660398706034582134351131103538607039815162811225821119255449303120456569716807192800713541433617059115004179486247664515987010578755531972033485127027246975090852024368354740546860310582869898624236741639758399897852054567074947566722063456546101657784232908462528059343575272128957202786674770808418259112909010237607623176554565890465599904728298192896331052044551472667555628160540329900027377740505405451035693683632420328553349855419214433070056978722107998388423348239856242449943284953807576122009904994840874102178225583988075384939594909959027532509003705827764586306606144043577554334910771904955199899260931523140661737515160108934823105976456937258988637937639492515189126450470856991895897705615612462356705353672513809682137495849802444338501966350334185388219070661062093165658918279228097720851490717555150456611001406356379745283585687691721355029979267138237275608023413254395567932858511917718163666717754937893843713593529785312113159500043124181973950343040968716171955196952046363223383646429034060919027135947979399389756067087571033269432696335903858757156853285443918299511470716513043915530580376092345307768758304177389517316893894942972897438904288378714701747196765731487013487774043329579716574289883070886665061189485032741142186108728491032578809203993755873263898108865709193819372262108310823196463746669576950363067358225825446971634398386824743169475281851868867708871247404876085728507017127244291213452248869433979740312604703277526769722176417900713189666450793128216333927835538290764742888978879939498183170320777766500230386145782805451147134726707891649637974614629145842251305584922982047092425345278439763638654622197158270076298943509547325169022397273455329192743371762850882248633704974306683578306583731575778191259769656370623011957158147151225611071620666548521660956443766591127014093765985289531821867382906274155589267346691021217183543767363028617768327075882471388848792223261646438682209589472718697080675924164983052607273281696596000676606173918663711057673649272263062985191644336435764997962742723803598747948247910760091557775340900595933024863345837232741238726339105974599143235925510016425425899917463258889026463294319348591762791536974953436438990533482234154543417942155036744519590232125530917115429911302372542765945124671742617439741963020589218712883829484991807422047920511746370893553070940543781562358076802158816258075598560097237170380769944641511529807284756530393771882208764971387632949619067825564962733888838466934822958848994579689366155760224145337526868435192344971138532262026946621902965996783730920684961180045633415139985360105505351694303375681902493652057827088146610534667451818963386631047149113548715572901551051232709636678582611183887721974385107628926912850634783253775560995368731494266628029328151535199415121472694537580794327092724278244552219479000333474778470597219935526385642437885112251650333750150747007970152031239638359802029694568615364752613083494040812741013721346361336525366830661817555367036961816861073934389915419875305500068836889725985664039888952134376311558927485631829244492619809897509262959408214334887265539041711292958858789653443752643097521386003701764290697359059223216482251285220028312024055452972768069472980006352890840119463995296280586134681518880614321488959701475905981679058642460719130998751117193371095636863799302008710076784786444694734462163793630017872386996350877972749997144853143809682142357212293494721441194316407885030899737198386783809438623536357790396127174646507379153324590738653058629376225745052002522740744980194552400554427669960491259768029088317322820143131034686996069094134248354345456818444112154522522014959671258232055257683214722369670806906216748764453560112184708046983906982494359769975883032653463230962930338778211732522144546974734472372662687340990655536144207112201075872753212047817247898753765104457186053666762103951834841224482806106186551268821231147166155542760954945496761981858422143571436614743352901061544227901854856626552417352984929085883608881952552953203464781277461049386495213771355537306897440743229479892071682886911084634252496588540886508683838881499346714336420293716909371283073742873954894703466674542267017309058371369390575337697957857857734642149104531707694336387899978975941748519731231463197816813340596386090309606703971361877121155132599780636790748796219264528742115691015838192562636982959895539490074345629650537690584329326936579558115868692125167899066622611594726401796340511994758781888042128700596447781294802351829417853887384514103728399001522162146577266175051076964952302976229871893255218347364771136465871854881328694043791695816679045929927095592080097778333160275648694845456844850067124312177950469018317004403606395481824083858058582395006581446895002094535631417791379015394553606007042602739175495197206221864000682614294399334589172995243439972950766897828254326772242522568392915249831088600834827686212890077909393783279354220765764385536498789120826224961845957824773203515148598414931828894909558489042936776482240354388147977094695357062748784434331259467863254468516949909577575104585025777066373710438697114731302151451363404082735340982153619567691176257232960156902048026134195962052374515015038821195419416504245668295725140661516187697123761578368096637865492540926617137762171432356334846833910188631268686295992906094804821319382004824555038688372971818762129396535141516256574359248061889494018290328640829740390845061821206559292346770389444516130454400893544599022810061485655490442958592589072276734730442711537202294049977089308592313031009711023660074815323721483837207383800337105222422463487779972076027839101009591526438074375321527128339007117022209821126543146901031346546388600289695127415158114818581751877888475481368904659322406570521460803556701075132277681816077271208279825856994359283007249823202387419811735058072084850585050036899586254858831738155217270863245929498253193775221089741074808912319667983962168337262643474813435473661820578915323752410206951194662696583476985891086721670861484642043667916315471854001028437087514061874378487982618374250893349919421762966974735974920005594868065186887930164758005502417064686385426598718587780722390444307466343200282558694098735738223935335074429124631230002873250083180965055039253606514526260519110299085258361975106464026893924593678183796182639616309259380618507820935658423573325928479359026319143618027595087982534756738373569120222952923700487340987401519984959450473817901032272957776911947854956721824203075027858645849079085171357412106106910117151684342094599493876820850527234098814830910740281270682063979034953990056865236023131365032345385006895232378282154888819315272772288591567170098384633760927773937792715456127942276598461409229661162898137796034289249560428992386194993402956059835291180543136281416548687056664155763125379087403194003218309159935535150721390876430532020948148239563182294911254775044587284634368179805471230336575270305596394565372526600144945291460303128999327955967369461602725527611329240435690927879458254723768753181490003483630559332425322028529491055954599835429717305909212760916231977359259729501938433871821520737078109399479002729225693853343300015713738940571111566988863679564098932479039382480936438060417951979866242717827238468638316443035996942853954728617596795506003908940761763736020463902894094047213696475944470163661621052357870240639836630517788361321492507853502405677263974023525377721059332122926918815174931032591938478908194797642366291595929778631200617426748501449475681833465295805900890679682532307016309262111065724433801148320010183239799764181484673301429040988998082947231023093953270836763592043768144476134152190896364734574841837334032054448351680594889427441484820821395709751693202134478606488035219552688665025949054064316894037434180003875881356693041467803987435038883575295074875239519162653236554564948530263724409429466404338779454287566232340573447930964323635755915406336995522646191403927424800648385082050441575945907693656197361469960455444015245161346780460439877223242460476708684573604179357839635406493158749396531093106539837688963501986876170168026606592828952223782546056358750583298330416517317342327333599379081421710775072712571200698543747085220028199671669944290909750066035911538014746763092147397727450959982075406018461937025749751649881182032225294909294647726633315858381801969816261623431318110297756898007816412425232268380187552257213091905460531449607411879589841434595500942606901862286898230696408540378907892545068763223043373372319775990140121874331641934837822156336286479597977654597992312808728774288698082482576859949167482234163393883642929271885647089132684214399272855174124648913838203872602570875581455650474464681081161898392951752035868905228380673703446084013606160668209565127476685556163863048601258295535226927872440300087990385616286125992797597175834992759924781626009565624333579626882266966818762497619683458485396805673078364680691011929751574162606863873453151622070733625144466090807619798975360130764552904899630152395856066509912588730519992463579298185848633953206814917541843556277257770071211006548433966748285989095218454147119522235222076085982761810145522437713271801957798239963380980211964747681759726666479275149212174078137615506539704990440628372109832071384935039801312698055652073272648560692318588246906777888598756451448865282849588664209963605519919572286109746881325816080655945588676029434819187708125828997008727059020295672601925747118670659443102053162242786320038746856306817751493457297056417760929082155669733207297576145889659261268259701641312750821955825317914878363509854474453624764765421667759401479230924479110684358348621957954587414326204776817338803435364238466691444686664201431789632083334872647977266874275215887057051483041595070033021367351115678854282017070456895551378508775339518270494208424678463222575621314688417811370783791118425801919016536356517622952435077430824222044259046369770420761167000014621117060978695372728880906159943951507398539804494116766209132124559799386711146199928093289310434695895441660146530344078457617191868395259571856200190700772090628427848162100623182827454215327699931093722448963645997802985284384532226536305352982309799789586113694748048293321506244181916529487933085125825547720969079664112902348226758733739590701260779408198433106513772311780326290048286134039064301071957366955907535461958112472574828058597228495864550997858818428760146152925588540400177643927647461387264812011013258018666323609653964482231637375966255683165214051570746000353005627280924661896908533511767771878178809543658190056478810954173505349193345326531915168353409000937442591363391087861625040378373079801671974626621141857144079113204775326814782261506124448508861476306496009148299280134469202125149669206346118443197497675328488915067758883967149543287356045949989552977882917602959824214604722205543314991733061183775085761812297083936880398046106518737990377100541867109168990046636369895939805208906759314640805411743242377485474124650825742854672415020002512182945858550226732719717448533447990127822881878799183286367437923619539492741127246064005164502948955188265158839535917738626984985882895884676100373076456701862757957760519620175698089935606249702968280944409828803515330424365751188491702480759673859424128327911478469328405849073668743165780201827901794637656823578478948149120106186948973092023431362777221658664915148126896060040533716939540516276455586647843730626121338551353139168866043285272776896753522819445904871520678531482920247572301427537687831093305580737266966333472543564903373523185563189988827780724898634693248699269286362089825810861686171853816847450695518063509640948092156679530124722792361128961662524371905027635650535108658135931800396636781371508988802097532487818414338577397952177885748077410692693168416067779875487346565323202756787682729089432755518886806047656200636751521314753124991940229873619343469000301501598162873176657416587192632133649514055756686826425919432814384952981633209097246066390790011395678050630833487779834236959605261371845299788625975486114089894008213471156064237420747424692262781782341592571775221051434277045710849554807669253066621648028302045296609733484187308860363211400276434196335028909647411206225078636695591433895696769412666165618873572326587731476599078533561743151690950442211231519809410462802584684969938104882973211177425330616653128318417311331762555517223092394967590889720494891893895880236163123994286066545836583379248153156017802376482269815975314863144580727533646298519964182184952738560651473109649662688490463315944254865217892625042397916484070609166787350305290488806877234150090142377013808041044908755497466383444853080139119231214522845355704396777790050154939902287547384655367908670142290420898310014665317209633281944100678010176396986401240394077444461948069047190692553374992773690994620669062430285491247018150943503124130402411486406697033542202514484830639618471032606906944577317867780900282412008161968048676622773084908299652777017672429252831111193147827062730567464186974210900016676380238086171587995150621071091418416560837399479695702173105380969458858300485771149561699404984146105849200863526793576744643742295959152289157152755835439400690455012611861065697063237444468124371999178196749697225987549430531312457986532147779619331480775728385656228039853639552086200164675565053348491433034155815013399319429918080689768973402279140490267687239352322418295838245959225897923338115003628846173233501704812355137195046158392264590935147302833367001249091687707896546350582353836698842847211285968807452597283058602307433018942878139578422748649968007984578828914178957069571498860877335324201183244041581523248324684271611006200104085068787780426828061567065533201493805525767972870958588814630974955490942498502763864199364768482162777893786503541995386756098826756886625117155167309572020277017437061467450508658150263286673814627456883871520264037023480685312881091465065811130036787049467609956637612502485097925052416401727004291910609463742171735712543541337258174304534244009390092673290559099058094455991380991133638278603708510763606296463043563694193896888895700141126641192072756471152685378338529459677584205875461487149583610554041888253469761843674535351942934473800258620073684333660471619306900414855704035419102343167650708103870116676155330393070577582188749881825535483275589651193046781870779299200903944061306219784808807638904484257661973267913363681731114468953049491059861705997241998534818151039499831306658415872587247373799249630717158528400277887742244685694321731844399817627809439496064029212643287538276123669073805338235772926927326875130098270575967849458872272411092092498351357756378990811641179037431311226462381645409419299000812051070780916949384018693188251957918433458916846946225548542127119982986090435893747511160534430285739956941434672415682996994083164921629956802221696897403640756582476512701872101000745651743883244195359765850438785228510467670137154139402647247218390817637664278458237822289387438719251142659743585141562780915086141907098313551191544009280903801435104815482159719916557330997469365343669911256641734659826557607951235975730873378214279736232176968932914623024610990438144954162833830373221522806849599887775978944656424646420164824592263443106207242280431343600376955088843439220123004252347968622311360776195226579602909557415665772540510321178276950855169851247221763747984955562195917417189268403412621867034094978633491015425558506804782064599805737194535287017078460622653906927005449741785604825400585472889589294074166021992733625468119109115717767532836131862909980665935899872529145181214437344643470203929840762778596226716775240036472535615003214147148546157571743026552430538047359434713191930176885397524414160809340659007354878915435785324281587112333395203204124182498535388752664516612029661965223190947098601420822580742672141278336036589303906177442537103144678406123809811916058075992614632734184763394072650572600912293042097917441009305191828651587823492373360737908047864105338428201691047090241507784245326983547236627726405396421851849299886290941208993424348594246483605249853474566038705751933438975762867690960736286381830960925067643252269827777796501055462169495385051669370066188182639666430635759073583932876403237616177353879295248824218862259019581775961456903369060755020863700249261613387398619631561102032667656241452922852044894845428767052500046572603970516597600668662143147509646867798618927996422924889713913721281274593869237888422985878851834804817871773070359268946052960391794422475762060054001525145197612251078985848637093049243962839220255809358517307117134475729507609253473728049341047253318601171188102607756385582061681069752612435198462728687199182025185203907512132044456127006239034922698490936155402912327612625265786548058235799728395850664937694503938350513866562388545129054883693367338608092506831573394754637675772378058662263252185964356816614357029075764196728776126583232641801782566839958217521981359385193785180874917237287010125844700321099271377353531052296964623026745134800749850479709464102297414398174018571407545642796608781190711021100505344784536439351828976060228718648366123663453231377589212477218039128412642218401839477147150751898473985155860614322428080768137406658198515787048507147792504938502264443557040464558253622443086866437875931341006185852633619306460504211319941995150565284754034260320821644323349094597666393589829453937378312949837896368643976099074999336583264179687817441425697405411917125528566495543661475679576566425892165713569493930852474312033578389898442804207473133231577187443774145737875692462312385319396847265541763723235455661934911045057792764142601419824915893775660424110053247929012715117727396694003845702733867626776348354496450605839111499377275819876590711834751713780466961021737256947017604213092669645506963365440596209642105186672124730725897448626707378881846591501637381671174508254523083236779990050602572557650583288908158013534799959411602305194516382244204832391105296449975825298681221427814865313743417433287812354356466462787658263756533828420725883216932861816840739537876630124015437322170878761672954174616174477305888766860483798879853795846053306456426624945686588757845110491265632892002461984507891542646607445093975858988103247525111298367609352181802749067042152123850561615560389764229288433490503532306983080549049358884376186590922273242633862347027294135162052223559785075703964774159032451041459550732579725922780242206335589265374631135477806150036739435219100249791390110187789647967970849455751030116703023764302948921411410654810013085757939487689446077068726006095621675698014247660906383126194209195483393347643461369333248089639804438851783070490228058472910153036022393924222720744333803653067967850157335816873054561776395072963241801092348999285459981262682083728142662034879876528980578897594889404762220609902951865015321394972039097518073921602793773179087928926330002936462076827703311728785351408930990676030756973840762101774493977163083917163219902172611131754718066067439859483423939803321581923854857472757596205844025673221617198309210586420681973071159376870750181649880473210978908101085221265736885376678033300727081876531510511507923003152358382968239734321502448729899279311134615972271286128921858340792991530500008777248487902668640973031035343425827032128669465696114993267870763540328657242052159347248623541720472791280860921458368454424950908316596994669893062226687476801074978334831830743725193535590219134692298173549095502204809229786816261163003865941170305153305233702698321693380971273108650853749460425520465056226134083499163844267805415782620541384880741093547800339122688400959878055782490716085778373709372040694668329306660242421195536000865863707222637410806848294427470206268787978656616549992842460105599259297168330364164591733749307799371977136708102028823155586498856244317446217634664864616885673692867512812870544949618670052250879114312930683033028599551572015079956983992072345752688445833921596696276906530248030186913746421573163215591870158319508050981731841163508296131706568806156683949447026129807407912679113048579435319666697691186019759935502780733414327919431240742157478016351069734928287565735941701755895024695047837511560705177883079466039912226915926124219748205283150241953121685817816389344666294219162624191841324353688770855036201047067456902598174220836838794722267406404750926788629143500551018324687806813213769933553091754896811725477888453581859566688609973700729216654334311804258742010575991831993362625795685145493815321635167138302933596655913145838095041277938633536007222304331564649787483153190460758361304716356356951319040182335242177992862525238253503593965104998266773551873628466577723418400441605389098154132020443616603818621776688554535949702503408680237096210124258680739702701556773090018919872970620157113637636523154364071794723883156535625419921948367252079866936575553339180290727373271284284209688037091783810564175956063366867194786234828654481558774247882185271539527887661145394643313070319514231180619220475852073227647534287655518454645202271061382771455909727321042876544969101994513652960686829984997795764984818412969455320683481348113935148045351024576371046114672628203444823745627733652136770385248063721487104394941128479311624818940097955966725868118080964791985088990089299333897297186986598488420198572084702079782152968476036011052202837131258225054200492099713089237439067279740626579337400562417587289916299721879120800725967856351637156362608140059505003991195940068020282720708335202161762226109325272465619563525271594098284262981808824076655003237911642607837532305228024405304414566207539432174884572539612570424123556546817127315110487680838036437705220053077283141513059191852098234477265969406755253047432524426857246672282512213550905305498299332968976022839406538972227738604229804557962097587411073958406885371537075389884823149516905032133769997424331492636977913670086798799552259770415690779307492184392978817768869044174959639435969301524526553368402344258493535768475735052786780151656677379853541360419562960299611624277139509006561028098395615758775245479368391141773337828134151469641440382628118177708529389218226057590075776971875385581266926024101217536392035448466652291091350700544202281952058902721906673530253588238427219732544762881549183267758160183111787874300942911047813464166509588476264314929176647765137452188795439974042726121158438007237145736670479412978815146940529086814768954750119155384631075607116094452829470933461385618770800475148419756022016868452923763003552802742725060543136683824116194996992126495795459189015167401827752777540185339146698173002787357091782180111345608021686502598936953168584874371152612481844446863792590650638969536819499444011390032919847038762749208129261330383874390242359867871223142454667935666275354131954980401680320257821908668426096201518532480213665557726192222090477822034860338367601970968033584874774967100478063227733970303198397915613301770173491459319619321921845244906518988020926642118644736847015889184251452635864885173584477498509252711320149047108127810935857221346673144128423522731683492018951529207380892284102837684039507535108105105667703919345932776771463684662350484502963395814232305359745003175273635837318560746320848516622225295682644033551460022767301156821982292664438613060852611955645850535043433690806605307122822303215733529678736255448941861762044455995204008713199377864862330384074507874733120313406002826126565326251242898849095141077380213754762351905169107017437019447108548142100374727393974573254635364401961810582306965419577570017979790186396236695299214465864797394620306220074768857547700267655969781942976839403559285191633040277013504375427863839869263589424807786318825156872095395787676830669885655889642730275503299749611733561132579736561088778575715560628141779147621735827361090232539996580197239121204831800883592171398901551027510373961931128628362848519170722754373270377506340486688780011069793252904039057902882896746299621522463863603264625790116518369638945464063423189879493543923109632667761420261648007113023105064026819566204889607211136932525854406000677862934622096750132474334164022200839807537353115044641345037273077435148934893106440812533582743277197986362186835467628561833629127636925509890707673318211065674733894272808334777860929159598039799432164450090850048537917200847982178169182561979893705438826835039087935636224545800649257766273420437028473340443883692906103832868462339227339446695684724521859060826009945020990683464261411985478202517270135308119351793802576272063960112390828980117792822691243769837009717598171916778089429331391389935927939540817189847717868953914697537140314594353868901632806917842317145936606932706906045004007459382864484504536971951385712687916804398032299078711903371338107668232385067302156000051366231834549142221438530403471884148408776352834918565766599778248379249272375923400670578019788971290739115301128849650937224288857253815450575882426894880215891719282886695217629428024293989198719787178826249369316883590772869517669718561318748841645552238790374199291876197093649330276927440651714258408029126003360651073878459991005596150978891892348440332718860928416597727413207452056899970656689824745928866353034687956094873906949429649206545821117082724710463595725783895708717781411941258111049779283363076791318302191723756656602117664276327482878356142738436590583616632222028737191174899417264021291725598423538609873966959759152669094378630919959987987533754992849728985914964800868047773519647193222685446892186665751799627360026942018947556531384862116326773380493477037876948855358568398086472901844931588723845666669783679950999122735730670269828237560740793539613280688748444594453422871521231705075142243899394728884441615464113804610515691865276575816957793837658516403667274391243053977128592137798582018855055307935383910750563278445470000234860665886362335224878380618616360060216355444671954483970626338092333989851608658928848750051576954729924897292334352754962544905037196137604472072839031044226637789698486192162399923801456164843851919635756940512429422247452456686512400357653474549578642431050044864976236284421153418588507697722179570543296045240906893130941021868856253534418980646871635901119944717730179937570552810661156987445541514160260098343461479885640647066716297165537969953074599338143393381124127903059712261110277106936716431334322065991045393441837594016949777116104093960933026678024218857937795954855667340516684991427881631828083774257378206021478018440167284635299920736754305685773311369942665643665398646023827289977745532751011695916717753601517466095175549026565013937390030673449946935832583990281935528797077649956649333415790084618851083593962351950828991708635385107853498092231670667257116976591404307571533931800505101729679506772188317931155790785066273772057062192291037567731924071945659936747119413254460053910438397775148098765014010188806494428271266571431198718784209286910808036397097028509199263874924170280833835713273029092874767409323970833230149827702675065347350361466736095797341355989313442508987392786178759215793192256256969257033256902785050224647111100715422670238704042676476517848759349051692199714631005056633638496029137937515943185858094731560799325927571851557966168661456561160057820089777328186469213464601910929820020458802944192268059210535516371307553452129609842426250009132079094364428533943993938675368896814447764214586216790946732370310471781801542755218017818139733863176588650014138666093714975509150341138052634250291284599594806982357495223293752003358618973554886810283428141364256768991653639649153513472433660603138691050644434096275819715134498508817649991738031004963397719895871776716280392157672232119322853590554095751459048054080176880543601694159384166224685960936258728852553565982236967569915944190428731851044665966206956109203986579223911386356105384368276477071024350899274154427985476440472806814692878018056815635590462372613086253699978827131366462999668839002896047370622504066711536268303710853701024971905797198057803972688305964200617431803107407152729945938462457569198550202455923812516095528341401476017021013721978063664473881297511944847818026204117194479013138046449296313917654583806962839031729373965439133346420046135153835028008913170542097733253741533293370180381609375830531279727185528478181002370686804278781753813590511251191323886508120146579820834743782510192029781387624599470128250884310172776729794771028002801067927064966430549519022951075881538219858209800607087509841974335120326721725828479211536748965472108851789737879261817014719092917192445258785812190629174300453441572279841444020129344983578997789682538580227595597105039930940369165666057658807596975163731703781028888846340297336241235590447022591940810121398864885320540038673601505931031226002816992545957888201777753380316484190179493809488083241362965099485693230769199021748344990002194572528492160958572112288421096772197648910018201045583720101468247375570599409006065943969350439147780094571089314790093075287942556511368279998394794373810495546664010610723614980895849093849643526134347368490548742466375836292166689420459634818264160894314429888533854584103204418173046239892490092991985449128591471289163925757258298473727050114413813434746304226376584397555515681938970317270798263107976925452510603931157977260222626299718886825952848473257321405435402389574542796427951786228333571318866594737277708756401803446417418444826692473329900343282696655607188144422653555473836378897312380346145314161994516959080955957093250750602515956640535119571915708587210532781966523268059808647490553461345081424450376813248512,
  best_state := some { pos := { x := 12, y := 12 }, dir := Day17.Direction.East, steps := 1 },
  best_loss := 102 }

/-- The search state after `8192` bounded iterations of the Small search on `city13`. -/
def stS8 : SearchSt :=
{ open_set := (16,
               [[{ pos := { x := 2, y := 6 }, dir := Day17.Direction.North, steps := 2 }],
                [{ pos := { x := 2, y := 5 }, dir := Day17.Direction.North, steps := 1 },
                 { pos := { x := 0, y := 7 }, dir := Day17.Direction.West, steps := 1 },
                 { pos := { x := 1, y := 6 }, dir := Day17.Direction.North, steps := 2 },
                 { pos := { x := 2, y := 5 }, dir := Day17.Direction.North, steps := 2 },
                 { pos := { x := 0, y := 7 }, dir := Day17.Direction.North, steps := 1 },
                 { pos := { x := 0, y := 7 }, dir := Day17.Direction.North, steps := 3 }],
                [{ pos := { x := 3, y := 3 }, dir := Day17.Direction.North, steps := 2 },
                 { pos := { x := 1, y := 5 }, dir := Day17.Direction.North, steps := 1 },
                 { pos := { x := 0, y := 6 }, dir := Day17.Direction.West, steps := 2 },
                 { pos := { x := 4, y := 2 }, dir := Day17.Direction.North, steps := 3 },
                 { pos := { x := 0, y := 6 }, dir := Day17.Direction.West, steps := 3 },
                 { pos := { x := 3, y := 3 }, dir := Day17.Direction.North, steps := 3 },
                 { pos := { x := 2, y := 4 }, dir := Day17.Direction.North, steps := 3 },
                 { pos := { x := 0, y := 6 }, dir := Day17.Direction.North, steps := 1 },
                 { pos := { x := 0, y := 6 }, dir := Day17.Direction.North, steps := 2 },
                 { pos := { x := 1, y := 5 }, dir := Day17.Direction.North, steps := 3 },
                 { pos := { x := 0, y := 6 }, dir := Day17.Direction.North, steps := 3 },
                 { pos := { x := 0, y := 6 }, dir := Day17.Direction.West, steps := 1 }],
                [{ pos := { x := 2, y := 3 }, dir := Day17.Direction.North, steps := 1 },
                 { pos := { x := 1, y := 4 }, dir := Day17.Direction.West, steps := 3 },
                 { pos := { x := 3, y := 2 }, dir := Day17.Direction.North, steps := 3 },
                 { pos := { x := 1, y := 4 }, dir := Day17.Direction.West, steps := 2 },
                 { pos := { x := 2, y := 3 }, dir := Day17.Direction.North, steps := 2 },
                 { pos := { x := 1, y := 4 }, dir := Day17.Direction.West, steps := 1 },
                 { pos := { x := 1, y := 4 }, dir := Day17.Direction.North, steps := 1 },
                 { pos := { x := 0, y := 5 }, dir := Day17.Direction.West, steps := 3 },
                 { pos := { x := 2, y := 3 }, dir := Day17.Direction.North, steps := 3 },
                 { pos := { x := 0, y := 5 }, dir := Day17.Direction.West, steps := 2 },
                 { pos := { x := 1, y := 4 }, dir := Day17.Direction.North, steps := 2 },
                 { pos := { x := 0, y := 5 }, dir := Day17.Direction.West, steps := 1 },
                 { pos := { x := 0, y := 5 }, dir := Day17.Direction.North, steps := 1 },
                 { pos := { x := 1, y := 4 }, dir := Day17.Direction.North, steps := 3 },
                 { pos := { x := 0, y := 5 }, dir := Day17.Direction.North, steps := 2 },
                 { pos := { x := 0, y := 5 }, dir := Day17.Direction.North, steps := 3 }],
                [{ pos := { x := 4, y := 0 }, dir := Day17.Direction.North, steps := 1 },
                 { pos := { x := 2, y := 2 }, dir := Day17.Direction.West, steps := 1 },
                 { pos := { x := 4, y := 0 }, dir := Day17.Direction.West, steps := 1 },
                 { pos := { x := 3, y := 1 }, dir := Day17.Direction.North, steps := 1 },
                 { pos := { x := 2, y := 2 }, dir := Day17.Direction.West, steps := 2 },
                 { pos := { x := 4, y := 0 }, dir := Day17.Direction.West, steps := 2 },
                 { pos := { x := 4, y := 0 }, dir := Day17.Direction.North, steps := 2 },
                 { pos := { x := 3, y := 1 }, dir := Day17.Direction.West, steps := 1 },
                 { pos := { x := 2, y := 2 }, dir := Day17.Direction.West, steps := 3 },
                 { pos := { x := 3, y := 1 }, dir := Day17.Direction.West, steps := 2 },
                 { pos := { x := 4, y := 0 }, dir := Day17.Direction.West, steps := 3 },
                 { pos := { x := 4, y := 0 }, dir := Day17.Direction.North, steps := 3 },
                 { pos := { x := 3, y := 1 }, dir := Day17.Direction.North, steps := 2 },
                 { pos := { x := 3, y := 1 }, dir := Day17.Direction.West, steps := 3 },
                 { pos := { x := 2, y := 2 }, dir := Day17.Direction.North, steps := 1 },
                 { pos := { x := 1, y := 3 }, dir := Day17.Direction.West, steps := 3 },
                 { pos := { x := 3, y := 1 }, dir := Day17.Direction.North, steps := 3 },
                 { pos := { x := 1, y := 3 }, dir := Day17.Direction.West, steps := 2 }],
                [{ pos := { x := 2, y := 1 }, dir := Day17.Direction.South, steps := 1 },
                 { pos := { x := 2, y := 1 }, dir := Day17.Direction.West, steps := 1 }],
                [{ pos := { x := 1, y := 1 }, dir := Day17.Direction.South, steps := 1 }],
                [{ pos := { x := 0, y := 1 }, dir := Day17.Direction.South, steps := 1 }]]),
  queued := 3623451823382233141094667916092194353269055446203526433020244691504843472275481153813004687008653326028267122599073964850492191374601885977386632237132866552465821018618302996082411115157472679895716381550125198791802272361050093849116255012700154132346768147381616407559173911995333901801014974695000623592372526750125854881652667546597359820065916183295966731722796322023053616526505191284822486576787405300320829359928211660053399276146551240712100377581053323534921763580544628997987241170300634242740640105389850192952197966372537050572661511578981952546910152185026492844787312129095972661191755111805453614320016879675423824097583386027184500075846045305324055817828048506206342719015663196578621155979614277242482531557421697813301904945857887503811720555141411997267389123460421256998606410194153286425103531950934787080664363161247825260350433809244256751425531501688536115090140227795574526815067017697233884833572704584709275199830077823557896683620335247764274664551011288974358502486861284752943898087310689010278053056871502949205759514462996023391769261886549615664911107050085829230763573110794579822629092088360888074849114474375473515252818363649179057122269277117447656535431358575826937063669760,
  came_from := 20595207532532843191719023933686968049796819840328446475877216909317635688609412929572937259226344538976135730399603448794815080679663047835435428345829003293164062888426111458106332436291558770971099591466241905498952970890331091642132552475647250103497667051543283204264333232867673016283515277566135256261407706126329927086721865047373544994247783210843924100681683802651442684313134646836574522001454766622022887233052751595552051361829369016011497654683188440578008021193072634340903348968702027709986083560393684174614798048244502024087456035696586892417866828291763619523830334038114251181687712207243681270776026317348009396942217017358137719583704453904449363695264188588094092901491683869210823627298666806227359283631100462628520813062637007410140830463347142465986856295599958990162202706964930716087583709171833560007196690946422907530524696861375727874645746988657393962435370826856057530744062237673174284741064375637252306243546820752424795125242340856108010814324069145762959572972704038111046599437418659538408262874126525349822447867106989435976778602829946919193441820657692862589121073361046314471039916634809376058275382266561455596518650770845847897428501976155569438265175816630694291193257095817841646689315442021693272097738026794974631031795890294438614457526714519440822230046670860615072628625415605272409351452217538517602055916051258528765283475839533867948778468272615595837188736601123152235983586381219396997937531050185003388727647500837514707611261964601438069586139106366410613246269711199127707259956042610329161631400925776637642482287246062052478968896517668305314486065390973896744118220880452294313564954411391987030330806023352058617524489040533027778390304062073570746792925079300486390215708537080155682343648810564164510911506130306338278120744894302177607973066156509284373776214947919182754860558660964140497581417084376293133428297263002935802715104595948943400282287819889608439240875462141111590515963523280496537856981649389980484650391962233602882224024858049399518720656976145807834678377170053319588319155389862587638599911137623296371158860667120476046101982529244223594101026080460819664005813141378708883542614078303695710129161976504923000817917735298763414361897004691206757943217499801628152545735998976183278884564625443980508287980903257048960521784235107397797941357652010237428685203283491496086464677836557757341113888765310827495075915029603990060934025053693918808918225796433063983742427284690000186348294703672966404913009229100751439068257938400170018664664347521719169255517745076994704454636660864298817294350391131107460416079657625106853684778229193695589972192360949881615739452410441638607032598130715664160864902307912683959135791508677108374865060076280174305844759666493463526469478950784335362185573212468840478268841964093035484693181888809932060049839000736655039107719297214897088734485508018140413794726858941391060530462297407617217227259842594768328043205252975742239774499797330315920437109530682215936077431580433348638031943247481112962892375633363983682743920486841788593907495522668409382597784279244467718126900236935552432727115308310868045433466229247210696361121054976854619062499743459891056971097383680803835789452017246554910539368953359268778233886829019708716700070115342724251134095416547921569426806132171710997343620850251964877799939121487756074316515776285503307602817671771584237256900027914095924792558581188835294658229154926160491687203435949066631568819141206384683583733586436258035422320080131609557018047495176659470116881323739861298095573141110481960642534808431282262490671185854051533482259053548986195563479333535030291346183735264681650594888187078191151711912780876401878415771859090135202022230683212994249046349488553908572654759731663105504157643941119440687098836176774291609995546641038099236006259095276368558285034252852087074240978891832793541348812395114478372297268535972936356754897804678786535888512956674521933791013232294865948033655604385889409185617091175477538379583876439901821219738453841071342528953547619425830087309664074883289905807111044322511524415668466599726539822210174270560884647690736090239922742425515895249204968888450485221244229582506571769014662465391446006902489574904031693578498845260487530985213442091238986025384013326671130297394107790380546906676811875891552092581074724885192829415147305934621838306352575319637765472910689493717845791655808484202838959870024134572573594320911512038081514073190092440199602722430590507723348786609079731283607829174283482548278660444294218548972332972010700979362287682057959799153794241285683125698744325895339924114388536815914962297874662923893999057509075708695431911606994261901760944993150971446806698189758845775145217662966907078016827890147557943917432947894574498580939963398921656773495378482918541675354667271360372537308156731811805082846892329759208629009030963309251770078581316234254370197633015042811293876878903056762180012235134479520554448569462449725642006130703677105429679746214858571951989971781257309200964495416240909845726930973794107567783792692001513683564597525031625473194213170156209174953943148409492219091142839623368989396265613815099799406969253599573438315177570006554228799153886320199218898167634074595310464326348211837799002536322945277966155783775024460656369360140699999133199059818952493951763671435415565055200288082981160088171254978881125327484457370189319381472732229116323140825904502493178933875800211064701098715375701876387155395786872191273523634504144586559141453054943512790442685037737561564901288570164996983722993590399454206698431433486814440928715410114990037459480371312974277270667697572913898175883654704273939423108318540918979164975032021627721788667942966575416335333034921051817738460966792890455121065181212908666153955657127421860202191356470469820127646489095681525391464215798702033999889120686911632873147164702957410120984948785977230240811201974830724243244152901153602631949124907344407529716666423515099825089972464895674359523825818649006519904437533337587433299307399032204366607576222175926371049286865554367661103077299649631552339067885420400696463734615339817363616554430969459336770058987233841697432034565433572878158585804652447530318670421190860138160268185074338062026853069785787598032560619051981034738755398167008103083860436246195949319116053580641507038446900726886878265817313469388968047789697209637160116510910965033499682225384511101835189385689285426598628759273261089317188835536730983826420447562270796081392032458405278546559822323125837627256840635356362331392855185834091772083252252640047635363261792355110633224085249136999939050148963537018358085963364810578115374137111831873912208284730983832347277630918493623104086010139036885024265032696240900972335255397431662792943714656682732579216513289381847578318997469046540061701901160912510292163578098596803412214938583409989663206970940677390957069817402854355135217311650050069407480325792121886900573270259280813748380533697524324417080007049047777290631412894531929973181210269200610500716574979323523836278112519269095472566909909537562978631268285302591707546140356113593685026972360914949460633683214680013138286754096231345128714232634722882962558929685753456813615099223452640940819585439487217194343347704620669304654377010954559106505417989415118203353984144588071032718940725120566551885554270665408839618323466866515130949670430877376706782497860737072293026176842948222078074784982186060125393132195618522903233711759114630024029714554425186660732689574278543739243225186432699475719166747862349472504717582398880691455387949093192660204483547321410561338718276271629950944686905678033016156932072994631523935730599571996355757642054987898891146306939939540034549674811533989634027740905745155960679083226529223836237850567689090624125568950705637004674042488027500919041403958302937511916852150462427208761269631793907300224118543500642575161453046190933972587464086683901203179716846690835273042592479470061058543811890423022126025829505102822685833552633938878714242700498302958610364735752506483148328955562082399626539097160205662349615627134775655581458965869300804684724706709144175192154775061134328478569837331794846242725959191723242267219619991746308586917908236150064452706869275866711600278214564759812535477762230966414712038296130387877810050018047618498298851220627458924078926397908603594120008072294488663682799432632343178176367037705044460519524307415763987062228863783615704513793764313919009431704519686707330831715549527899400738097316629573340337807663279034875934032868848314427171305802784607930468164824731033767457723507498588641210032879332164979950745991916856642734784145587999754958787069061709836592049832602279017580977023183582432515061320839311889983740005901966638952464919175546304091305217385116843462622260362311690257743392260897297345094749846468294856445117990549363350769474770837747067569352561212919571853912960522232180222436696256956424202343534855222014470234698844260088871576741258289898918949310216512466858855873440149848744559376372660680989787357712152684057564750979823479338095353114376820049035517724827312178759718335793495849671664761692191633421961711660971946265901778867111014638998903419830755612873512008775801667754923526899981766657939931607605679548079910204198911281922403806170621267523798595731585324273047336324014858817049322840387700690679582740738831091272353200068560367080277786300307012229512406973349843177511369084958382330444297563859344409539685693326926035984185586017882335890301364807032374117081279544895777055806409750044211199660089697998382294775672618222984509403442345532746829113829875382847691317720858429537624203484449980994918330613289338515582225397160302907413920999523007086814032379537914642046049060285974629934707070538927759067496910004096615655130711486908034862553411060843528402586092355034481599305533718486741831675078628265119075084480978421380337485046756434230896298947371282165751325559114665242191741187094274903519020293006290453976959013474107313581973360069181199278491567001334453549471237648328245706596204795010297803171543932715587416074711875494981522421169980176198179050950791758617431381934888197870418317077483142618346758438986818556125777971236868604205051389407168300370147211898161291046982599076572134436316908411906275173712739630411767342101081281870424304842794059591970904202462571633512113184522980377085430864012982385937710640651195193846620295565465724661276713340778131181058147482299973946646698170238600918640591861132920424693912326900469333749716731958440764523570073744606051314392303231616397258335848975015235335590814074367427216405037032758121400107040949000302816541810356628582027375163164846993775606634006915677660405198070214671954614865112368790843744238360809344365161136396916566457441404100292599844969192078156813603043205598621563537647398673693402211761296509226662256533278807127836126725510718555863268487785582333451683011649698952429335123226714868982363377634057598848857248527977609476085891548777764105144183013179170319108605684305265549954394044437926346885661397826616338739906133606963388198754454483478551542985852582276252948242744891426580733044706826252424343554261959817143344145382265221645809999690980220046532209462965052725589890668753455617486997416081269181020264490507295740223011182883112928484488239080038072756066771217733594582439970318045878289350087543275725942616982961025305144018406912493241987521403069620463108439165442578044770930440886135179962688117479518053535785528456618620805885174048072747108306786182768272712540622105606994702228132052586895790390327410383363633237010702025637498544976318977787353543419889237933683300309232023972457737325592057922121937591925618669798442169004406456111493538876090012094194921567505530551505634792151787955350744850094502061222340455932769886531138975959296768393295503232355559895421291736619616279561558154046615686775275011825393172400523307444192454405773226424580006841724999535406406474870608249269454178479142453705218990760653054919971315399212667813569694076401215948428465743992816213763804872948949704042067760197856827331029565769357297775538460387044230317894985731164143248561996281374424353293018001620513027364950838903922092936787385178693970381241214786147569431049839694747047556679565508277214335133952986855415874147563685577397720010245736468537713737964764437740251586843878571245620784084026602909130711237746199466355916237568518761130135401038972524091379931196221998298965290203565123511704260247397304146380184899047206969954517784619321788331612895401026421202716563173564788713555348757568849569000908451814009106040266276247776735097936949978585459655147186760624540935723939914853425581465401623790225065486054645233218029642536692681312588242193705723922163351172927671086950397512108072305761546077979895502112003385502099144494785174466841915052852837331380457397819178307833480720754677660722157023323500833354406236638043144618323239624033386918559191798749008248793007689812056172004139797564368378747446542334365075260960775366645172775085896731849907318064056501233778534483806553368288511782458489301095888010733098966735047490448999993669696289432992133390825308560482909348605367278392829122690343878216630205791946903616632721053001569997565094612527455208920786675878068121321741927222997709879833351040604538595832408886713305104699036567317168608004821435763982753168632745648219819861890264769711076832924961782275884708829458842594362451345936196773515472497138351758293158427759344698082461225616528587628278998740105110303840297039054082354046450680268958430602229322392590057670216634457456632115099681509783357260281089371872841027235571155748975435679097242033972368150513615731717491879420571891070437071941273546906416178917074688087171811646421239407598918781548027061088337483603523175837837851028157960453655327123705208165235813201935374115052258501292634001702967519192743217027255469570227056681356664694830002550021725733663190900628222388662515304382235837500524262384693761924094295039730047781002731742971275600006382648705796626911467503467908618811815565595838234054057686284710764090028752008444795632495289615967750541804144214171495147018383739540673095493659472453410678889561591473655973373198446891274088533766861678299912268842646131064670951982697345657552429345547752384347205832850457966388585684870150791431996118195484830896623735240407803217013808704029672901624253175148366204940567311499846247052782714412253556366372716206383662630066619162296793423498863871976359310192065767858818686942658433310132548937905761568154681657876222102659949117274157598434158024070768233622564828228757022217824377025225496372388299183849852995859960281976234097478081273512071460952031668616436855458540696193973272950831847379336894594262575889389995545211200854251710187281875189198330147310491801660044815923721950333171863129012887984630904395220614363587052253243786987751291403320451352583442104969442103942395967488178167240487418619712933134862401202848074337476905174653822709644842319834765026678604805776186746998048155632380484605966162043720092138543526087974471797957346961803698533858911162809636618361809277664450718480296398539649685536609485175928102838445497211068175879723054078880147403635030127954278580748623373658165270513029831192189732999437083959243994893044795264505957822899531254253100717071318652658599821524244783286159740068379523368738878885919987574417783744474921440524971707849590658899059128822460045569916110430193353926989642670915820847671214652806428413265338538488314531838455021946090139636630938590605383058983791762815718513734416282843232147375348573061636053907205914414690223977292328768318502699323619646528573542276147682093976134298302750628880699177665466286355888762509031472605694806745282917629776693671523644806017536066987676998641299603260034902502605020100061680505850057480712568185014149986783748150726014720880947729669276554426908049788418993327455190597672089263720023565917223564681789347905081529523160780292984845112416185370491016617437525605965299759714660695947077439018919945689631075035510486321928890227864680597186521331365852101733005016042593770836294413272494695199628142296252607923157728860597684924389203411575120732448500124136555695517132497343541811097860948582359068933242543011437181322057239754321606656255374338345657420348881177673352742708927666652379017594273010904464695543601263310241431119816704635020080749286661658602133647501953109427873661924660925158687824555346204131233734796519918293228425206451725358123436057688805936548223264144643986241973799299870324518168468747826011916684973669221162177015578892124327661775802551974917757053228943162116471609438810420245727963087984402420526555253905080310906512479681629146127932541617955592295400880676021694699397260232502935753339025609452876262730152233322196158945747267562357557349613231911048132431313377525156915611543513368976975029244068435179140290984251503111828401349361030255712279385210039867627180329841538181923699713333909529612802798920040607030704847827819140176697476816207365226926941053589064281115791129244731552926388608585643165468677248514841320709158156796975261500184319439456782020195543084659657435175167648569796604039576227419311888235471889470994948802277959507250494792402586906477584292675970380832739119856091917325745757280340821334586913577208674814059759397768775584916470956938836954192153178391134476176737142016429436663796665566172124871121071705300929378741671373834689268974183604997863269245504425369553386930271092969946893092759535091838473461712981197163146047370850552005913670580006825267085808308108375675094815983262511168008993063302826154947025382514165876573440613494322518470776223704087308184842925586486804759046896195636065688706519498266995380168599555878284062545225682851932930048,
  losses := 49741013205785329196855635049906967494117503007650441372244650825622501964863598024427905931787599613470295453541886597853603054517672490496737359491494903936988499819632131470477576463489442161172334544513259014963926345385527510564576123440428481172716069387031413802179276750082813554423422605444415967814426995928860159189499755034729688132820976909268747396340494036175258671508865448969202092364531584098199047258325809902168298129070218158566578182918173630629086262426683310103836660395512058691352727642802847530438182409888112113337222531852383589128130523170509134655968487059908903587676435855498485714910118552571186283902213161357002200604398070234721155372063898608368999848499468778561389947173325801902247327777842391941492199131117913658972173032289350271775945059108795202330761274348670378071653408327882067188951649034131059089816573418952351588800513489708417344303952575565869239277445479509466593073532420072278650297029825091911241269476688609088765772328332479031284457132890922557093398512505829474975914673475188424879443549231285408925513888768842908269046360210365396106220224031876630119860717778992117394290545107953510164327318113526605718283947085442303296474820904013264672424536769699850396370925707578682749180258417921036734565927634892158814402904191082052718829589127046242823875770999087736900705727213758220659269885588120778067131695267656879169012816016901217175877825097009696662353835299448645659799280915321551569000663651014025053390597812265807454723599661212124530971360907464254390346871593608234163246692797721997445865964317916102745901392409030307286185302725204348779070313631181354840783869225255247333244428172425499332383597550909735415403490538052109206701807007874886545999369245449515319282768493708072233812584509316541149610006395170256269945907526986284766628595735783868407944438164602890807712187413626090843868762865072832648917325487143804282027589561660767340949076121160717037789223485951281415381855389178395766219686474576974111266777920721679128480627868161967244129459111109751410078252489162312840200816253903637990159350556086356168321081609928512142506265958135602365769926997851445328963932020879232996540455577831719779465690812670233887068009232950419122867819390631931665149076099326744087956778983631874639335316088665091686471155516289066941890615382231576932262682095362669502419406418679329600292995342346687804880424654458209503704567681600854508235589695935119729899950933578304917640246515123504678391753428794369454713784761955184293716778113553830075312119802218312563646117855553020841342374125151776708689093022579362711676669471535298108645990830890453751356623994833053115217125361850930263273868681901031060943354030574258606444362396648453339440207873870097273669290220539605290888721390643348666940851921122619946955947011745633130617179715897981503705027543395470127850133931017577362954613012477032867273656629083076657292633509198788278168108357654390086614149608322598467630095017188219693048650185576746907510922016829392755992481838487367545895203268998177812540731402764594344175842229958697373454765407191709272348467805055308184019706077370083098060130136069307002487879965821586431900653349007607048959537926410359131857677223571992128820570823561420570175925071192092597084815891100697075571248503101135931972234095631441422820925841150030035407498392310795784307081484338949659249467964828817034726254833684586565196084605387933710147760922514553313667256943432969743931063985569300636183959810304808814528449649426490247871813531263608393243074861175533473189863713143196285028070761231706399270680851208921732561610217847978346033861719102684859913823247819534671791661759517009293512406035822871923990728937296594232359033981805522765551127715890252091862859951572996433874775992990422982380716342065073408983444260115793818408840400789345256568383325637312363205843979747219637542979041848645371280320112385914300203232270491550382386834026747253822404204458738667433851138952198848005547569386621587350132553466017594715079578121671146749928036037711817932274929267213174502670684797153354423769841463718976587929424176948982908565678654634256066306447188810740277475022159737438088080418815201475474877945207360557484987264606452591552152758098345806498710484223954895021925350357359976864114796860997105173642530705994231172816273513877048450305676142201433481478291151658549796380932562180788161307369032037410426148813727044756892496335107400846199250454306299905394043668269508029936220286799802055718614457018960652325140857876193286936228810211853000188676026452929195704030932649643137232210134161433466863922285002864854293794868428126756310964272475280400703633298175793379661497791865149679840673757923539159914566157072651172902776912901778827853162277404667460186253860449238203938569198786494996508730655107924247503665693183062243361088215854735912286170918462513607632008407571532094756848424053910470848440654942763217966780863207160751600969124259057617098169823052713452228778657144004026446574118020348343315192796954795383780336336875508134935462289448202581196935373599551796418710763868444924970807841318437823706805921165040171273698746112286191349984021386709605553145948093200712947236999643132505177975834825475284455121603716580041219874653534617224463818900205661062513452033839347728835573839874701920645005636368294064812748949996463595482864334985318740587843350792454452981144315815224315212418850228385804980608251986430438826185504479478011228350068004061277228522164645261136691365706198238940906173910227280288055440800770456909510212594526831183558254059372574180245778346781538446056948670078762659514556011173254994601638207660402870306909103144731629742098689267800779361790792855648891473432399342195778988522348213069376484272723940693688815875359992690184590036456834631292611583209525747489102975629843137054348561578835217083102540072436752233957986071936475252484239392305592459638819038421682766068992196814792647650117557201704712530037703131426885874304447127815733274311133187461812747362382335956689553196300509729498170810629455267967492001776888198713299155783099051846490261662802806698197134281848710800867288987093892798120295063504623536570097245750386299404997812371290179656871111525002915983522106910562387731472993627718604260847436128211707051408348781879508206443252944237818400249406419993590994010677689997476588238896507841248977348525657999614342278589535743415670922545308192309828583039280020900838017018750009804493330822875650073122099471703228483097128138547858707421621935885655226135847343805615825553242066650653625386532971757846287278813942843738654666394397335642043274616940854276418572136312865145725268404512453374617261172478240305646172708869962594742839396861005814676699652108286614458065102205309573618298368635983242688803668081504966383515047895811516053340270744290960778793541900332282801169102333436495477505545278346887242551425461684477842335123552435272961085559763885264356743587634334478203460592657135183381202167977912845804186502468943053220054764412821554014920247821933085177577125604411304228146160992358678106810809468314950921356397069377729683608351127426745051011261104419498939117034859953608761365181164724853032475720445975435864709882275364109587911980643175113179768756361175394734005641396145269568238624204033221797716399130365077842613397671358140923797534598686623564759198078628395030585595286516617203916304644559543451422359357587119634366294340147881239232375946317446331909107352194239353877438097516934889001700645647810132690404066536695382951379715498979295650944799309795205913856765438977963608495283441248363049194493992850976861962831591523537207442477276230221287441790385007041287577967378695691102685404420827707785262666833252421082409926972805736874898493572461553701107771566447582121224692037823199604999502627408100560288159207414214585705932640756818514755304478743397256828667150826185622329864015866719869442126668052723667724619061879345574408029987581384004613347654538567021789041359337852943756076581942813303363732593080417649494407223913057608531103588200480287911436323316272856118845596252207714010325331317009024593940753302191478436368162625747532504152471070930288487435302141029955873579036872173152311659746841577130770091779866808725962072806975850655940676061012552782990664268320303681439246760324147747121603924741127623330193382072274140086191841456666062468496640069759147752852330933304807519999951107265164177416634634878181846861364260869054353349376352919666215541480263432721041008223653586320043802902847536775727779330582143001475186629164688571172618307778236864969174402331654914840867789339956407694240618730070787254517375951706026461320491381642885244537829003086836672768546415507830701644508633309426375435128625780771329775069406877072037588112980929621077969647203110099865294139666209504658589606158390419773220906632315760130373536134120614178763192946613996189286285468425298242006104359321643130792280197845923294337210002163769237392812993361203103284474420414893513023797513625600975171844937029702027652402485207219054471263985870200997475489490586135808123178050807422727992685284773170873351766328947751880127237542484057186861157816116359761918741866420939656707986426436255852232926415936127732882448556151809354402483930548431012533034878938003628755622329682236343915457176498108589349192430770848697155527484352166638164009543623646563351617270330227342011727401862843485151820795899571000836064910188296235272331070202810439565531049897514798051600892421070235277106890218677021829183516052813938750411145254311401056922207228678092441766731450333770662123104492244865671229958552735349033463602677321053871200250551938903639536119223695114824653036081537236760975360215042903124949380553299621298243108587660359513655047658950764327020237821874471620113874519192684763629207859444809629369890331995207970400876366524970154841851899367606970788492396680096655906800055334210502648050661011874278978879538003933786080751087903645090480637251816982860519904694921584077126710805196934216775399701592988806471671203022511314201033275109961774607395403150595358212108344141558698364001063794657414111459230682056463848653445681391450021263391877005727915383413467837656258882109985850400939453510181322830708636665541587171685590732184013337277296793893070388901290760432937133352505427746123744935212258679689619372222049936909200482049712281050308779806538406709566766581508871896807124296584379775907520588449664867611974560202225398117504314692081604193432462611422809144995184703033421554320681312809041537249838967417105623127044456301913196380313451752514947322723495487060625692598977024652562839979035108992542041866092832239694098594468190127207148929752701867170320973271000634687660852520562503336513302397624400540822984600828002025801558492283429772319088112943150874932524274305871564706225276169416023038710730595058134485660142366400508381442171160446876279402737036738140070029328423083197205019060285897542738175248804218096854057628973529629327235669081190599864782852075967700312921001537444540093794684134308489694249868838461038642989901370247765889134606310814342775232938601464662603819107113418670563810658790872613472212160781846949306855419726492290590569195318169505282164736722208406439881341362448124880905749612259498900810651957305781777402886199861162560413332257458826013550992304558087322801773967698362069929567139056807077253932903824997594229081603221096907847378554692180795075785685863382608431888847077240845608485287087724235495344305667120780130741798679927276673105072466789471132295731637176305241656238742930405987609967025762610061108960810689071029543569139851224601205393430711137398336384521836186438695380037207587380485958462349559640296486678102748157931012021994447558912772109145757111901777011844697889948724558472327037904363836488490534921312091391836472046520640569632572655888126158040572411537100709230956970310728913279858837758795569274972942621077547549312307120470896237612417437793946617504483002840588073794489367546673750990208072979548721835116440500195890441524089007229791352708013864862700717608299923111053097442068485135135176713607047248234455960289694402634509340288952616733868830854335395367928679779759949587236945925767799382896527546565041110194914751525507979460955076833897501718168317357111180348803536445706203572691849981352796613346071656026075367978536788912514648551128109213591854577042228584110315515791911028078581782515726254162764559370870764133842343388589840263911563839874802743372359821659518333639557432915034869524170466418321374270858909681290098921737249483699159148728057215257570213130456283140162846727576968275300343710382346600347246532061686635134986811837138297792105103043945247156638194313801247069232278772274228696013806995916616851998003857406713779264860042455393789851172195274595929089115385728588985883910340338801444400215082913719342657978896645332755755602276217081294070945289598814224309636949051173225196231610884704400465797997301775199517711543304492484065888440068689825342791804692638839499322666732647605817965806897801622723491682827221084436747569957019493032226835465898256963447803848991120985430517501938877726904195757051613543114637451197923752083146509786002305023617807326136070054256588450447936604409932791218043177208091135677780611220623566193632877780774846365649617643960014478726653736495276206193459282565331315002393635024259599858616536951699478155113056291877264319022518218047949563294968023811976529757537688142385279931967175472263450669365858937275431468528935159172980782368702191686636737393099524788654710996688998466769700250152982827721141506386124877709535855283361184993768467482440479453316227481979514957935014890860697168856525736179825473400132868436186726138345191524426946296861903777825108300485819187092233793600429204738955444609896138150445443659382097970693238835788883544253918255575407458470826865639774238101703726226161206180082757191304703197104336569681477901633564603102685440502666379369281795370063804467482202232007931989905560192809085166857309064805427942058808532208420006532116501184355376146206283848947190716238238096238295510820590280093840880925486845029109906851321006633179793595353753459496939213981712364804930292976290859196802738332206384615273270852309557725757382217941276711854466721856048277596102614852318424443694836131822102746935533576110940226881351342316569365680036749751563158422259278044669058755998525336750921888442956743470743167563913900301484345816730436486495168784209519056199087325372634514526922690137923930061485652488799942502688861202916795099486042940414148748458733724928019630357463609238171734019155862297060474881777693707594961705426017454745139382999698189744535808421582962774414782742948099769658343397769572146259720254064807364528454741102347110208859847954604253767873618785155054067282634420981281299925946389092729425044114222911729250262119752664941128336051133725778173918456697572591144738751737893402960070788540614205722390181862551283962518615708680359030548417384192262541867368657457796288400854555623520110731289567232333242345179996581890350059468602530676512790672395107701396512788249349535525245181851771703404265186723307932611715874283307297644027289538950233509606231815384812866976978266366982314913428348560692078754253312281307753992956360827084508992801029676612449661363200460756829365839039891702663771480827820957187638663884743364422361144275244431145837223747017979946177423130109273074242038360539068814934252204329084615045447815629986526061579316886615322718330666267853488769214425249893705315542140025511462009866500599799915235848210974892335099396870985706949252137388179124577967883144034545497959672352812686185420485551382371187475382762076665049970924568347720440202207684476031483066489285024471379455310338897344615048664031786620323227289124478930511813500447202471552849875355569383221446871307639991337341765778722249654347986632816975304521577396405168590894814003032041989938939795625286487994677794500820512098379855822455118759079759993600101231792988082529486054187850946328797749397584838715826108191309476899947142717200494982979479858832823917309416659729020934385279586818329164261463089965432124717898310594412600165232778749190199904767557267876339248084015337794205485098898396247551418720233620597740300281749240909896249367064116889325123314387824754424713725238282019864173328491028759515915298175403567676949922034522880484743551554311066740119034897517789733444863959470263129628455861108549427076142837523047423020267280848240588209146328416466943945741129659346439404984314188748163971718681842010173478324082013523693604684806024764428353435135246449522790574822390550965000239925976637939647602262915151961643577891408146464660830656378526293567767578192384395535165244847998452740173910838111474936309809971824141001601570528221135213043989252547100512435818845917517051235589703628161789327256793447948413426566721875655375277434208758718263644954346148238606045035200159590253802489489761823200894685113111023419235432783063377859874497378068150690730436030310138664522153350805642536297540537488244577407049096857595615878022209555549208557402413053035614991620627537284310161298336789639701389052127338510700207682414756413049080728000348963217475609269018208136348183894027365801604291777931350651215925831993424144292034790866507586930286151622958763953515695219776582013286410388068548142031016932011947186926517255188597187513518800176616394622357516849048800775286232672361803926240279720178148641141300016427548719541534366542239967878143301666233560609311714276803556447353399492967026854183674391871469885109311726794511408337697662944396410805507627889008701534377209341914317358214140118605694297841588879531194587487435281206711364968558764000850492028774548799260759503477983550827142107548084022937805747671627683996381871365240139038649400199625545286570959358024781524589802845967134260512881180781308436993093877070294605426380912653415825792684778102114551928680202660789863439330656303738157828545144633137921965525379045018646098158806103686951631750138147934719938199231952251514573925443946188845189963204711319955110882077554664330344100778506923675826396221395611851996729671820078320776084018322513796510950942422198724510411079942972510962813296175805723077277011891537375090201664650737646264945948246779184562532666010664600977343678369652874371314963045572319451424413292942191985810130218866920446417865697609347042939575846509550268802552029992973388941944662955828275635345135778067405403407506949176376338196740790066678946259336774728879250174866231348196157279166545814061722113228355932483346444100951057390162637091934539534279496632521484812424345940823854629744459990224360937251433171149081906905920646395849444926850599858260049415043178529303658777381192891654428384542388518910372611586985834246970008086719551576788233068470096626459665308774629689339515311636459268697255508158185601363526431172820763258139696853360407462030117155238664458996666144378903848304423788252321746184092666090004086330013210569860887533125412495937483860118020830394335614139805884334760249731625931585741628525263927101803413181349641785199609748105188168260442752733977312638764762350625913177944417815655886986274556642136165336924084433634874783502010213685448107052081267724702600205843325714362118618430949752631679192907683668502287195339510475394516252368042025929045710356526494485299921908412553193790482299743987200188569142390323450459513259631544522855003744508212709383743630229419103623203261209878690197619622497953279505842089189157238774107986783453030302022659666138131551543075573712374360424798354801013693981405929473331468596618584119375875788524799929144520320805879146193427599131236930958003588124965879887875115221285935891275102522246680634126089040752028076354769250641045955087146790207160228379725232234203409425954557492781325298828403954297128650395591318464157502047842980345661638129192047488307737364015210409493716906317806891819995451799059686440030488389639454887631564230877071344875951791410477463438525874294110444794234682165953558594828896563883773477869674498715355834473089676582018978330469270351589854729339765119556370263489231616543083259177196742806960400906328795067669424937500032513008256771769714154287618534946085862419995768829555884100292948208562789735139010810170367575365877702077422299643146094132969926771424505580396978530305640995491608795667016023325245093110991400048075763295075784490705825870993891591091554428811777942408154575317492314916856137282944960832561333238144366389856730916729164377980553802113227115953943547091681067627304951912893340830862751268622920825283658912143128801026247837445111522714070531592925454675780918290682510760510110649483207911976601846514644642705075416607589309854179440687472397796563923354649796932030674455048170262715912925320074229460908687544765291676670701972320035326519172083413464876707577556061498580276905600597665502486712716335856838676643416236496221007126950125671257104088236701805820453721612183006870211192934502191193552201866030974293244361088430575516907610760226273089598215030395818631503644273657380213720825965933294941747211685544881676467583343426719745840424339538993963562112343053412585865187172406682128581733150430786613429075836418211602913741871495511080329316376489015012230727948455526933807663591012786831314082599660913001415970992317218565864013699072069667258151669011129965182901810720515915835564909120483826744845314307844201110386873512701795280985377022397479158989926788014880257707273809821781266798694026106864065960333997691246966335701549062538878595297799431074994252941739456950397027678754078000289046527464060156164204449820067102240087987192521662053209169628463770540091599406223949542202738372361490468333117177497107773026880373554073376183470061413080397391197577998982703532671108575614411065106724755444166557822737100772992823317222478763692677565982129824252441309322689330083332240438655108146773663158362229711828544848631444817005019514628092063318690635421134615633176332531273962300917859438465118168633324696128203279678200977358673339874770022292114789533552194492095300655159214195969092616152867217301055361242271136329554624899872792598207414976708861655217496425709015092564265363826061116414410727886038056063511064446452719233042868863061355900746977952722676422966917579320607067794021988594418761971876204891828607243949460780382409996978893162939591541129258956713791057064172729669158478607321323153649373979036048029303820257504405929391838666401726806514197084884608811223450230593774059467318103362970823094503878626700610975859566036589968492797753668025433394344647143603818340153567247019525996909830908280290898368253494584823582318549433512926300497545682855515617579027488258891512883758204736939633592218979996505407614298085965146366407416700489497981786680483293532288098976798975874688204417103640536254819924148119250475380444766611874500813023782923877201321892719375939748338024156273218038596520199265426842460913875607491210539937414257888468076618465818002463610238441057077138620706374881439605266738736541092473109637863751139089555915441901182795401203588509238773229004893113013518142430624616899734462516690625813281487247180212207025280195752599610741057287232813091627396148525896827325381722759103021711380078921481771856830190206561174447166127857710527315259450379014869281979530852797480061354324038453903592504003944089145982985199272377459939803605027687398247686698791225834177614048077812327040640909714099052648653230078128427471420775483219574457084199421287503967935988246864098203428996020900108375474658074855084814911421026857149180084877160060680456600247494807418809135562416436261084931258544053956022989172507912490582594697728192148780533669997620028020156422508893691363806660988742338619246579567201663178986554402727013127782001360261976995328626958418228575005533856724258295405855390773052651258883652053935813509664059528002727517887407297559742483772886826747431927919924027665342046084187227573674382279428359784983902613975121452485784925653891640607843961995908300031933220239252458324160553712842697198443885066344015667726078315438664099692190875909720569317188968428167137429968665145644567899648501203519401481474961639764785151750361469116901863107224931406723796491477973579417828999839256808248740818439239863106917000708226524929561897133235028946256193212092469748928619754024921031761402945249566454349642046576381548095307026056689302075337259620827171640450980496270382960331791454629858191251356093704220738359051324510053042623528177258232799182438260470265218181624997638539118038367656202445378034643229864148893929593218020124400879642246981435925404607695064155106978881177083775558383086834328017543676722247425488654158817238049192438720757177696590577718377991606062624107209927144708539691084193895841278194958107588131240593257877155766421729780204249067659611403584783423974742937704683432656094166968568909232871314188474944470714394569552973372448133534197143712825059984217052421607405998825480586420415688153083857205346877379059878493374415397457606120008692326902457040144684116950871931605967450174775367829008223727279638423583766561544145378218992865400449320259246211900476743306177229475359047972954208770218938585204115139201721640358218569472205942034047975675412666935305743771918633887148681909673466470198201828887397715494541822253135374932042827155798462489517980425564255727165472038582687684749575912852062480720799716239308216440030428691231560525360416032433724464513129658160847493128826696755708102221044315265737177723955747940764877040811162974445320095644205787136561353996485079882209618063905467211444935834995780665194662436280227248608776898127138182374340463129103897532365319731647382851637292831537631716281841839697583997026472219702493749655897406841197009111605897341262936398790265281107216001539495732949856874875878238111240795241794028682995227356339872637535905816709651779800574833361579272532683771363146687365883230955302693996326008637375780325719258469080565533529969915097056527850528261504424938686667741913081149204213434330912969064719037101687319538023352480173225837359046734364056663320866139199569213896973179046336411556679789208300312859242312195083033244540682712179485356349148683382296097685485120223152649356461883884596728207573491656359435480681197073403116239444817298251134255009739044017339117330700769933491196786009379847389055687746604850103294700553053830895137240544705341775299490685705685048095427678488759727757540710604330254699509035751242785821696926761256739139028315057100007070119447691472903978953048558880019909015263749614601831673482077411466479415939431189714057554081621509609639353846627405785858706246089353410057173044864939623544384723586178150069624745403786449703979555810673572689987216598043054896853871253291618902107520495743290655791111374899566949711933528529482652548899765505159927708802953454985166449838157409829328067850890516300638306216199289214970904988793334602646059207310346600129579274618107916814702146575553301993558094537359057428540812305839690276236813435394461205212764108518601973709532816907110883318795320289167966008377137984445556558183244110379389163508907685427854190649095966096384740363783029097824899223506851361218214272604728690192907195106737028363826132067999976862714413702412708594030353618516379700947498669019838013660067642528940794150644294317187474742464583186029113205451911500532777789102663174685210016296620195540964412887194258585365914026767048005005480964338963023745720983819824539362025255589062797963606913775021005400919245382812565187129037400533500610973529574573668902723495127356090633575129571476016718564165300504549167895717167340722109536235756602087878073356090131329676065521136791935114892152243510116494605206818024797298328378340152208049358072605144383278409868811774310756636207082348656376805361909095053836781720874837423333069156630573710552876762583771676710541858889704652391082116424768564832539014330519873619034621064902559872822489457671666924271755814748212895713608145393561155711562365390294042933087936870714555421043623142175390444918118150499792932614985879507748293548068771402985971855155545202591222649416239359317686296486751353089847293401178445637430492806199959410736737712136456360469406496819717283410220991025130176137087832659544514607675089880334183166234072056984733718131186197992289059846310432220780876803908113814193455542250774353147802472052636674390443904529895591860667053014952379373479387321623478998561576809319460564495649158959799757258318763027777691170125853596719760103428611266949146645106087300821528912824567967244045091481465743978976907692800726681345957257128453014272377726183473402794721484703239091651160978578527309606129346604367067624238720593540418863432693857459826023080758197789232334319534474493982956858705111255624989876214373094899875790472218399283744970477286210432158302404321678770451680520973765734332729000611855132724563511820091944204139223249711833642183330827074245165530395096052311296469840656596025105359072525794294175864327614220615427852258715074786942873527709060743610123793585701655490029782747851250565130846297101753328503850058122730780036855109687484155171723743139238327757120451200970440187116151196517875397295724539550679720269552954181185529503980472642626506080999625242036148516049755733901459370679859582359202629048395774009651636415173478200287111317185305993889842739922816516606696295914515077276797574972219549975407633091600005191393164641334508523477099727468758450145779446340177067204068166643048503247350261525004981127063674010130283195479823338287988805100384320298516751077220563909596192714252193503871931483797153277668036125879823381637987364463476251756418898956344824021991312421670145732201579674016766526743343095741096988787503572320552615904992264287392554724154170826338430335413785700217283100750398483839027139545051025797974719557130454134477533983725818571520641674706614269770122277298076183339081685488798206490201494315600025419477434711089053596677581515915023183101635973542082172698869859825617286928506995582528971590801342982855872098010337052602858802561720921194353001708997936967823981323690621152405613309804295391271474559018296335401816975877655511165955884454932507516450313755880866448864528767752014844532851678149722986097391048523082225773262400431629319328188115448054673714713830384833240961189250070408575683194850285080507530607883489965371466144037856332002312658976523048442716183818193457193191649342067067768861861112616014844418979786677595247612248774390071132690053630300746153102421908587744549505832899560886638904937600204429837537737117362734578650331534991568307779539066251885225415424535507511547798976551601583243213798411033161127957003602938239632093608690624213138448757053792256313646146353635710320161296171371018721278658473058693226181508780732313750786662467506380970142719125390712860780798634181154158388429396976257419847127494423357883272144985834290638639043001444635120925120687177178055833939359210719787228745752306558027890807802887208018018554123241638145802126957217184178048310710522291139531671925383202580656942429226039750690291861166768881846600704206585674572197800330364689835354836716220872791270935308090761325953695481940326623846069829198605953204097178317850805176250422070100976432093638993868369627498964549797515870002475972642605621084862503240877237308792725460803936035504913414311747040678535051105372023508784918179192917186927735216642285926801259934286497963532568648550493248003386368044462711090037564906161879158439562349406487704727854001881259773536194379205660990165323765557905506274890273459636422558302822729410176417206654091582333952032475695062532325015353002354993260888708392018625269490582852503442968479309227687575801176883280251996673703013805620240770950670887384141392757126434418692361514810803516224036537417126318935651101503593583148094333711236215937025802243827503241138001288962952121885658797386665858545009117278307709032260242049399396899367565276725047791369044482949316405668756976380369213601356551886157510529121698683627517745048139176727117898586849265136202510402603529510737797779185503844067229617580868771954741559179116704533435734486987423897703956959493876980746975480612560674537793773461230099045462778596266753093781725403937325960154315251727263154024953126361405492195517880129690468783951395960320898254656727149906291354382648414366769190171517132563403579593644489146308414742732879762266056163197619796916900565352860072319738523296160580182261520440099917160250062137888645147656648519548452651076424865589394415793932491759131100962035643779661206539227466111399021662229855526366359844281278645905664343321950940817003391541796057451555727231407495729747184738506035986510352060585994021264143096578599097614066456993510921793322162174108908359980494373121222597629495608852172983510137305946019105347272771532054466810502881921710148083224823788163676185856867720234232462040770682572897134883319448170570586465566065892351376067090464782397709031640750996706145435014470197515885486943668583871169575009378482521989239381448864128472053921274457265674993604830692951715996507335055349969899076571752322641141677869918786628228954335494125790799347145752369854781448329144507127699388243496805621158002415779407703818466876654561068245821064678977653833214833423559821039547797644424708171514681719348054715639536274179724560590592045466847757286582982420830112449927996226288670295727083470241559466722472063874169939179364292672108031247332598193805429567839714367655350929726600465038639682455003701526393851010021636320067595975591521945050586038165661563038936569951495907532940127005358373532519107024419715933856241961392122482305094089609531010663766791197948090090150141643465018877097250239459871050601765289204810731423131918052239435457912796443292872207145790866031484564558664598148134955078614356017194118073439404850116278912962207845023627971121349613960802612769641083460038567725594870601808839597128264139439263225342135999995005778597575957990050371685317217736897002450943518080515732480448728889293605977647333526890732233620443891206148354366766033451461566877806975265527021392519282336728028934284347142761887576011908259878715502147595426029400957891041833489795446098753065886625236150632419828143584614173225443843266753964587324535889295079173392229376389720730193225697237840588585769846389576826928733072653857273779452473710629793448574637074976413461901039147192505392793475083239161370560951703014886702374268289972282746181734158925085786122824955294773910560269954252441201489932741529868879512560936418216236063148190548640918450129195678195696735167432444840838499468740431335927556087940126926331602086466572535186847689697516024765004982910091125385059778845999672971044938686609402547378566274082578323887964868747339191088514806589694963644153402283873210950276446094879650565470858174247176372596556204467869216969420508336205937854404459353794485378340817413069495877292871427575090848331274663719624172524558533532052521166509581211879501109232752013040944803011842274648278728508702972609021412698260086067096426577025265838797083473793012591875810359922575704725281831477421654023759586096071687720351208857284938652516352194360601795291866311648162864089349132914409169100412368834519825757155004750757023343949593099972369943154380251491052079787968021166433237780085602194377175045863393284090703593603435108165967271756883416355416619792206492329416554779943032005097250231978265000202530827658678964956970636902032174213524232035224361788341728440041519895750620370117402746153333887197170259640481857248388139824631238739547256621507468467903789242400153791279392189293612129484143079701203948544353785789260359220583759195126023096420739140666559505945743440708590949352774348418939573245061558778768448505721902788608504037007636233739239362517268854884582967358700224557441599077140396484144134874819209871858246670234264743152989952060687134585953902398316166387356195690815411720816268118758019633390162437304261857688382629575870884297886575613514046412461310220000811016845219940893223463020243974343066195032018405508472366723013138398177640707899661011878560091420700708056831546627432047067376014704308724370997636575706681996133258972357118823440815996281826753035322031609959252259766164672002971470049677946685869821312200446735465882446389094989024267991264460561289952174462852625954233366382545488645365486294737331207446206013585560266879727139636575999598672198339296508234558867703947087473334647141679126576247633217620676905945358995857700927469175415655378866807253849223069464859958403961096325509772487142338046375431276360073934831977667655606578832256703268122066788747658521597597115761626157601803581671397948153021038259471357983037840491338571994408098144068732055339300717309586204551764980411744851038529926840550568454196465022999847010668693203651032129085894258623088835671330879379002506058471939110539436007895025554212484141773475048330103272100638923042089066588854584466490591986440739982829653718247750598514790671604060235436896786898432592074391476261968058552046633804338408304913837598764868841970759552273117807524067305487600572617485556782243206539132628088890894111945289061642100559299536564519905112672640284458991648669390694811273110752124380590664188564254582180733803924332493861497170760308175743839988330295105917829600774570121304174035742788609134162145694085820060924207957376975751533370397794381439612002262142847169886089521599519159495197024558325624981738853419887162216240174022228852239586672136998690400423339935483367932405776471959648097314358317996981316029846304419760108791661941217128529946751947111729424970015962231448615549198614151345232532676307747707543567408384035771009528891403173021616832130573133091986184905428590029236181830372797214823921709299258203036445011951105722605436317925777432489589705148995160587376313000854599112753767081762774360249167725707268309199103134881315939259695143235066800576855800402932308004929330883824726896018363244681929373568867078150250634967504142116504298943600587018953288074179520532474682316221806739093114271370705841536291208460563564177794116019549641609422914579155229543502115278102613306163154159698058645693184932880793584372418263226533615169475440946994990755113273531929248754372646744768463877971171216032612228416777268301616295250655961204847217934624740767080746057975931334095026832574610968412258714361034167802325340961067226618802219310040206203120445793770623256005264317235102140854310973326438888233701375962189368275875729964529868287494087042850810770475577882443377108851621455039873955117961978868958022652215544729823784160024328308545521255353169522339146531083663015839053463622458776778684037639289212235583569658748307146653028218622160103216626885338592413884085673117767581724352051470706943749502920634359837179975880273298155724816094655944064195137370376990367433893332717521083616473099790318788766482730870152291868242849981579877654908028719145825382506291516408489249330019486702044441207950025579184713381517699875299933598649200040568972284799161152214121927248231388925214797449636796129340422465808066797387427840641669801616450072079818815542333499139197400054333997471820771501028496888044008330277444619678789558564517276411765372586079670505831403139429623512505138406939918221347917197338841451669604965668685107873746638206043103320280584376993778905449878035425934285571542362739817486311701661849325575829043433906683359192419018584966044485246319409306954205975712428835561971189875345583158591331047407748641844786510338380630859969594836840176820355814774112989912250733607759476616284498871520698642645021381666866722086752617327104011013595725808677566827882609786374851470112446508831061214486539969784433293089635129296324124037688180114472438970573843921263340691819515349317461308313996698755117312473560309201982331852144062152483716138716474883090764508038299893919559177605511582581641332441260808881739943304985548920174172338837996389995197072988834455966124852392137014821628857229831964529554303323528334950137299899616612596823744576066609969053480378593378547404764245133291805505577714329007059474332606960609836185424795511208952491714204868530118918219185721361827599938169037366432516684885124782727409229877665281653596636603764709019115848607444985877036704032989096837328295659030244023505807744222820754595008013386490335420986979632256838748110690470196257609246994128153680562473087004066835578751190462624103542215820188482560995135835361719640442564292446872253830075810247541153464020064061394220952168801383025845704581114979527739487588049483129994974703669897206648830953330532743467333343496508177302739561157584163874614829796157988740837328001780305118906600556844347464584136498524362467829676301808890618698062243572025922816947418627422816276760343726662653399027286390104039697374175533230673679988731949620451720160891175106315609512645442640770739310207845956181224919187232284555531895090723732408063207111401974043211120169879926880869469462248711159853186578116982584162736917478896724982922430581984213071063446532050005300698439793806022969364111254444303002251314476318672643310706145634709337302632557277663773853057631303507706395978365783168662836924788492553995026286593536339051791109932588519274066721684431888048227977917252745119801049127772721846345657421780334579389709826236564117029336302679432378239394134512488851185560026058035418515498733763645940297717851659726850428015135727914388841136465145880686760011392909662361934159691493969468887705010157886894063750571910850960504078009247726334877022543295590574216661115983576141662617364842644906400719266908082272598619924840698425545563815698042844541836229746919580534683649421392626880990835160813760986975585331284495946331102818626178361788313759346002716853351895411136672277979643524735545835896283881159206037866730000487705711126234436017240178871653107736713111439218664605440847435587593202797506359575704847255261043675610555421121360057570565401075172032308987569611707316325150057918210453124370845680550465747715903390198644351991161580108549483173266121122130724414749430135515892900635308308698209110501223178463523212793559160924503959278901254111206593612903360921907951303217977499778164945952100853010685277470707233867779672905184675787463964469890860335037012810367965886012482429665752128309097318380876959195120214198364970027004705984362727420588092338967812102740635116886099207534300684185102780688194886056141604766967830095648613101575467664233192935347719005085340799766540753542024653764949581795321161865725152290017811414978206851841104136347328586990173125011016693332327699678727894026406311543845504730287851504641338016935768475109239465169372363588525657339558127988670774203499368412719425843610214460677273778212896857042448007517951239399107116696744305735959562275356438152769226935190265725716105715062596871945702726652943170364764482718345125717045445954790063813974970630537034762309918826695977171366465627557266210734301719096904680503615820433890710711740126774162011174591557723827156940712077646662761655010586776978836594333176151814739174686327550818112050111039163218248341884264160537909377378616999160007761928286462530822378781252095450353004171138594575506049600988999408607834862101713530317815527931275323558448300264435555742389582377644964756071454383439902271449879848594719582303059668043835179116116582014461675668991962370949417026401241033851455190531127189135176345677303950292560645170488991561155404318655145130647673494005339905292720444409698934175743706705335942086996197052035088165736170356468290179622437368696814876522715686859391498672006260049875859468637035108937186335814394310831566406026045251700804370161369952630466376561825019486748416989625308372897186617938224268525123991527610641727798746816333151879402284689949355155273625591636983750082404380995892290555480664758936297876622909276010165385792312575846631451740785197012235659799801329546691978147166066164081626563462962199160023203418607327698492362009168447762886831641441877805846647435122653216352024344764431556268432844517818811634325141893704097088817430795483118803346612663140258216196684408444517907632833889126898037908043365837139105736447544920755024872432143878948277522307928245048616596091685802959559650705672612472103904080238470415148381557192975968556140251443498423559414593453475563667042183517087437048542131453837822442782673116103864723478912365502958491940202904997128566255784341663897234450344397950131213122797676945013227706467983026130339431873730164876477928207622086994281108643259749995813687942433805434051205537058392115015687721334124128318061541234033576704708647703210707926766145173007619438167394322766433941842947051457285735819311460084292603448974150529686934633575193398310168366613926614129305176234635589288225227110403095050869891677286540396509846473283491607438366079072777725053185510306729341474222914705892643435535707752531888696994296575905866682329281865578682387165027617225366066373902345168359981708550700407451338307114786851197673183963655453014567432489216359431146443172427874957686004945152599450962478794833099442334817749177733141624379139629216790386016113526149340666678773589260291988660918817879341594013999504908148975055365416010459143331336158092437875052475381236121280533236628582511754308775149915156233537281070151799364178492605088574957253936798196663535897725230428817453361791901000515640363702582508107204111774550120380114849372836658787700844802484918080809040065874632440883698096880174745308606502028247846424643713623713584377324822327648541397574996160766950037600625567371288175748695904560287724177081617016302398674619325383876007773346099487010302390644895613418591835331688201496308493988691649895953721024900949370467003289236076148861469855762377159181767347580787246169945788044564459108906993104774014585860824207885349652718614773648715687406568430455666273737759904918014226882941003227845429362206623791194930709518451875501154245801117489168322565057857332472653171177008632506050271788124593131078322048033529645751587768801110173015286182405009440545566861430309715687207111980243799945474403966623757284916789590464416958731837689615763614161337851643269651922250451598920364743854698619556173172465991171650891038053042694325818310224959968041297391017032738511918866478815162075159024432650717107192965523764439764427535865865717742604446396138512060376681802274162605739663892674814734472861968002772098176315969856714960780768918690546509794620956414110284094588031414070263575699415004607659044597517273585643810310964356597408630344046247968354790544822092363798087885299482536792217425295566933239300901717783106657003835200970687593431127379229936128480792587193930183068872846439623186295444240885882818474249450755692985632274281961086245108393785294837899706384858131755000710051201357682936581542391439554857649883081966710008691384168837473469057638648280606226506960350436171234888560545296857135842055587019461170788668668277253899903865773856741038147454121461528559674489548404994637638797217441435721510001502155970048583124473055523609037510795814655046387119911682726703550307376203138923250277093021186445510853940484389256639289418762811793092441523116068334656487456485436850773900341006610514866507363485195438654814340256878082940049365229834735273493170903200828247106960571594332196102632478540287396083588558899416476900781005328429540567154874274550840469292267152909442771705295811918479601643820461893692375547050960681493955855556226358530452014172361400649020780955570537204053312584592452602942492595624183652900006387756204101766556421399306223599388895516145508818951779262484341475055888997634492875253732532547393303362516356804494425900680911642929064061768256492681659046952583866573351956039322556884702990889874840013658577467594206938957899377433218839569830292205752742151585076109475194649577945365171179831976476431508398874394282350910001488674117474151256620845017636699287542711887046755255453839613962645408547614103417565740009206693734316805479520384222121260473937163709305045436051731901171919758548244516478845201873557987583928326740855201249178149662620590412971876757878541368743357037556370889795236886261218492313399539235375717970721389586248988580386427682307349091613776804840246250859163299044169361411677718400551450649867392983486497666962203221730187580604359750972252335180603667555381856828061347913463461831966993233044878354239267720919293485369773840131917598169619054815675593926649881827516866260428064119318693617222117968311500775473058302666249697434487165118805276324399612929944929991195541085161420465419774587501936437181450109220043301691126131613346186837852005382726035969308631407339759884754547912158207265525940841393692599373384835400138787168029777060667843347003664747447749279801264062263894947411955212294621545521303487133705643908437198381863051718503553035875959709470043061056068904719971531608994596897820316849619180825282209360743764467189806533735494190954363579316902492617199109774114606351325700723148753045092176133227893186202885485606860674803578137205851870937330669188700025623103108029042323151783069886998398160658602739617496337407721978830751672347310191392220187495026825748369806707599853081208984766769982618249879248937595106390317885081450509212978989038489018997991346754881098764936683787903078552361512058094913670101272493438243600092216858923519395192319490271917504976753484053612881405041689510527397811671405208836810023810357743163601368467088258224767362699128962815491434984761829240982091971709177640630209638962237607500658711543224801799237932371015197506727898131417832709624397767084598278666164272044177818546633214824511974539684305308409035948747540046377013030650795637791128139411540880759209445828053501733842111288191704739655217400716636087964464478072261436416430155396167991297246622536026218322520372817401509311465791118052614325841280207221532814957507957044176750040438598456442083021052786618232280756672974151979772401725671807852095967776067107218851853094588741826777303805251611556197525849019628090688954358450156711445042129233579990197440081834764579158831429017453781343133875754879418627111363621752080513710838732724646043971855746283011677688938155830448145982015566150525585349902688732144137376922245890091373468354519240449465186717317247761292212138216915843932038440916518792164334186835563301668656192978771919283151298023945204550313065183280358788153929954345465208710469251415758281090324490574035854197184967827359129760732744612448166113939513503819284307808026548424257483281343911292777012827906925560769905088577357427609181647113872875378485127228885952646717856545545423375742226691785506057276344460905562278517994906034366228921879726235640902757599802522228860838267287493069804422915419895210024406447377435013353116079284043506553708403443373102054327693097915949868642033403658447885878612694288992968663159820887912986739159148595837673507957108310843298374717613163963536221284048697887007720874936247609465279305186899051893461331394260515859687487082255733776584494506873139272779750222683266895509950820931519500343597095462586974816931069725715738676885998269379692888859414809808320230841711441940605372195002532783931877608958722509342497170037027471828997326880949910561068608956068282215745991643630349643730122888140455234595174821135164342235247490168037253046917614348432080927485389181388085389194158389411113831145118152943834023779068996187055074150855556200373406417606894423994986609005474721136855653641280461487987532012023195764830215319278466838007632879669438583058499338469196511543377805878610342768837368213992994142835180380824623513488799781059032536000461413442286368614736483327934611346087353193035312596496561798717317398467570079562726929226831341256112947056701578868988780687864904361133984238152339482898020561435874949267445998313877024742473848389240670328450835275406200823728067604976075268351175749433068478076014978779457602976172756301911229207260011967098834212804928971179544028397743961737674442152118317691068883442254996120070724056747542604108414257025043763842064183847411665358336920697589153287046241715327991992084946220509149903037539876134663205940435889703248822958445455368456060332534791486298947736164500414630878795995948372060536901433998494181895710122409820939453615960030917375210631922509279336113904817350256267170052274662221637368125675542417837212855884758765099804070867027291368202229364023757525873633535637535950002700756445140509280002781467618314826561316042369353223220283133807961276468666755165150507095301020986135838577106580238295348909708808271584930294726280304987689723711823150962353461511956658939477436405654164313685688244054169574056149539338120675348164802928452486121833568044378057914401691089613546688686967089508487637542092862768555451630850603747311752066344397427798746707974398593610964302197401264582937913868810986084900860596964097556106339787088549675875420563046522399481606688993672500239157307177160381173797874596535860362380021858731090258718688644556460430312970580608301788845113456952654766902025114821278618848244357268953957736737988384068817608901585357625452939664026842961309079767195304810428208445568641834229176372977688642335137484567296674745275975665916860947150951715351781276190598605962491541191977208907811432476966107136231811044813412694434700463707476599315872612282125497522928620049258157890451287970011409487649140086652274864743963772777864468154117659788397221191063416496083478947690180343123309913936316773315131647104758705138289539263131818325696301317015953985043826435416708567813655407362581302536964946839381856441105985694612075121392541344298389524608677771959636498171619111566350710401573301209847194149495629151822302584344451633721472479066385548014626845280658769579251197531281924594625578467328408228817154009806539366670058713356258221553987713146046244925028401696389322306639003358821758228091103337118339498919448481305564582485167012432435954987502984177398894144431269497398670033507158543106042262538130957028461212501613059955532482176695100669444526106582203068194509432137575096567958697333122211964466031635142178570606898559295570714816611201436446770457107542970346430858956796776639441356802783771875213662324692893422746459230369894998031359890243661896840727900586868568833064716592750039276603506581732342208429096207687382225453740117850630984804027589261527473905886427027885083486151343845009500004075599287784653776690738213726415814090629518673970224131090767058078801484050628810457825983171786258754355924560368503065154628259095881995436233810014725554219011790325761836217459398016942053302323221551383919579677739549882253276570489106943255845438151116833388650584569919657801380456644593655504454639175700524007197229690813643637056431769660776671492452935958539315053953334481236378135148137067160266146404880416938410292683267302268972119195579597495670834518665273430330649511404298797458993666120797905938450672821497549335629880617517471306061943092449842825986682513653296927613418517845859120521619577112888293628131090457212692403843392654333368740417652168604326551920992141147567880431808359281438807173911220956081539189983605388649598883987709205396979168484006538959865011234389481980894423583509139375798246938253016814580993521186906324513350747567419297101255389275597522083742900306369674723361746028363607214199232364925428577825078581998409742185659574969917344769437816356677603312733512876129480730579413697915808815339422710489426648149942562069042171485020111775608832226121655352656068012477671823651036307223492592901562849265223996415185275062120874586694378508286790149420757261763409805780272814591796185878010585851614302445176864684554688091639868728864679216314244176265262258726440224938077760944508133226024354034943021565362805633630613070745499157635281451468191620745542333956322439544436075457090172663566808247541332737471631200872653501902496178125119574770221793833178203601510933773495558053869099653091808672304852530519555572119475503609932581336338738879939059254511362151796651012164100988960302044292149939468555333568944817748371224332250189859127341769220372774480432268397575806996405072938846075522391177586556177291215897788684958530381293293180335293514825895644162589783917013142903054298180573917128830691116648297079038971799321457287169945922096083549556753884845046324346168852466170655918421940574586611098607928234714676332151116133580743736733570065889174581884132098198487373192983279423922367698419077577850591017001107243066387013846497813224916829103158016572629389255993129665562131809082156914943239871729006768245607375313363406389769420756195545748401632235934160883465761352544166379858471989449325142430777310170831893469267928786385495269478259898082269966276143290094682422153155790194103521812420572726876757161198007232718277613414382334423920646803292421484188534577922203478894733107906984868163086606194450642124796844382833942009067048539453561289976148922392854197887085127079574931064525765021578105628236256921144671660130753650593745923702442474768937865642032510621816439039344629232355555040107298460389226439062278791759707693236986594675059562021756725996874827191860868836637479797661222181234137466264206970874619559837852311592245822456317039976580911987760357383343271721467026059148578178517330701483660387864658659215356078220911610047221585821084151414762634874462120695208476751105317031838807230823056782563145715208312940451923664302251541212333684055050799161056798074297012750141089530871328907972306705926809782309105656544277831359024459676557939022526205613818073868452125784995230501849495062198490316754591269554399536951858515994226646880051928816227626051411117884601865524037424039764115883690443866847417077743617440728828993062439603422023384834340640158772548197115306672334376584399899979553311319753206081939033079580022335429676940312010165003248703745541388069593135483747905444030151212471966379161149195728585675361246063489548692211380783506682787604376468822883970263267495998238916341504150275686152486356993920385832210255664596698389896450484270516155339033870369143508450976559368117665612475216008772046656888521308514108752687611292510974375500972956870959392718500746364958977273745898727259358172947907737508575892243750502493236251360924574258835108327149478814229730570537452693779759276668628289920797473805004715766451824094719387937886232944434348130395135751692186634114563107544198253608630625693754648709875746228096701877048963316111131102724043797878867156200582684795802323526402667809719532225621381262052967380036842403210813580316936372704105421816350493097745714209633783603623712852698002854797868870094514683680774354868510570483008626498628047383416648968087798877871597470555509084101809859650526364665466870463980156711393778171729783761637102268891781520929723109280484483138245724306388143281181365522611534474607069778210526847626194140083577772398799962921209896302842477575382157797487215059254932253367585584411945586910342915341057909137857499347329887100099730098212261991940254822433353778788628123262906533930275719339151272125247614200499683796676062425642040341976737489625271967834069021796583380451192695743081738673671090547321545932654184595831130693120336503979937638776038637683010776180043640862166097007505886534468508071710971709041448716113950477155314523030604399405276716863926763374338669470238779663051824568911765049206914894406813648921072929070467523517507494148297847458829915957245935304179975450534711231887027278013420650936314840819211618957478823508500502301717601762071991448309613344777006381501913142080474719926783961887624691156906603030115058890977724885265633399895133829521974274684335428921594723342187839160363776333092007456530175116773484388427910764751162292139452221370588325494609857907049449534507174321158808104072322598079459947520087547957896450110082394927077060696237961808229574723005737442223930446806910755139591165457274465627741008294305854251505031216252461523002281633330207613181247065239866790194899414350365877761342419342640556045204647919747354109606926825411425662451367994695326302602088090092421732110945071808632719722728612649660843813635793855115853934526707353169984856174593834353558401458209618584265305669733163639878258483018722058496692355983506089968406017999112158362709990126409398752556024521055295092461455666957225999611147459633672544990402153420964058386279612174372882993851546550486126013137722229137881193673836367301866019727689971173564683415035407684616377378649146850023872571546463287067341994932974221900562219883978834070431693802225439252437820975499416933842836167550074700173529577241332842691245176765980919395274948653271002482784046291257569701898374448784859806023518794399655185268291384949064819542237944826156696617789511253592909934989734867616442521396493546819263947414505343119588251201185609753325726688584485049594137108179307210500776581128278629937851480695062814807403463028076060838639299417004221839266462773309425325470294313467055946641908390950044829625489200213673544211168519395029863299859574615260779770780131581183476446214534350325538204347580375835846723454417090776475708737090018738633172366507321818138072857163201857113842330496393437186943886987269269411872917648286393087472808465061687140818723476416753247655834351390803208766949116376358954080093056215588816483258322718440779857072200993080864946819155077788115120728531468520898665718397879139738266750887721252872645647527261087625106065348019786826326257446327526229029931599318722639177272468485770606141551861924189258086018061792544784848152257179656429331207615624268318119494546728399998759799665583705663193288800174258743194548337047863347619118112564894115942875150951001827860744483058944837208702387499077465124318585242992540207031529818070297934295016596291481260272540921772423896684027175937729151168877695945599137246637859545165270315778780360409464284146764176412477542489012785716083724195571529994979546115436855446506055033934699112469519362627259158909223647170973262912879820822214317274377951677368797394662439080036355610576895718900526371254600207660352823553611397153885483950423110988327358110149838033398970925832769468181764078947649190088690531995670480967358021026161569289903959287508373214626223855431195555659859428323521853184316334568712917105839016771122531425228153344327602275679410575553135705664078138232052879369859515033424069753104171233484822759851237828371782172228277761175954536890699851998307913232456380509358051204287489806680121650980257115281594858988925022358271647286202901859771566856486781847578583319503482058158856417786801514990877329844197834989957456662609324858730653155152184498723727359069010413610884664466398063413415185066224874104286327779921838378415474151784099613617320129250266466834688611300603919651589436307950477136436109028296239332822630385880023718613808122821375703371747450578699928910590637365444798371209290486061893689793684458550283105985247487337804633921257896490504060358025364455905812302128757720097610653530825415849647148256187135135891189482628807180428435955200620654467369545461623331351765417396255908938022595031249229651154275200444689555323472560089752628588624421001409809901374744540822783625244618165274954205368752506285795518758500917321469660589064179087229176634273499839710913066419919787254949564072765831680787503296686027290609270962011470422977110077233459271295605775094122112765851356852497003862037241906309699344157091701915805321747345452988144059388640437733772316572911164448968938498035272585964802433595696572220320849391107811930216331621174436234048969561746951911601406076164021492007426672471570224024181615993247250029339742312722864478552985064516419877664617177289670262580549674023727277289852976900013507159220699887301912003419867943815783656296725225113009906493976842539083037665397087042878982907128455352400071456643529915298326315693763536135115650303035078216874915092718869919336148652254126737067260373080354226041503598978124215192661138476482226255583252679599521780513135554033861529393097251398646178157791649717512000748553663228961234674630137158761535144311846521169008273460260211837238553009793951597719682919409531438216134824453482740403707841156526780512502795755468170087217024552430489493415607069274507956822627837717996186202233852702039964473919867614018254054717932656166675586502268871983042460784198431910579778931876512037081194287922193163630054406810799874715310152929543772738176421000130951548486434837184659236970457363950191145214320891929208706783706758066602028491158237703215249432712434746036623439618137387339061594532559961624709133707669238481685183739172204853413211034100770987094012835365251849347735744731028619816317717637230642402656044225605935735053170346165699219788343166637358374692450274741437055775559059069963712443798826193709539555749779733381703926600603133250367679846541896328320583695253491853973343517230269623762525015730035736322783103078347827006478398109968679566692147667286164092988678268575395949830794146663943341082192852276847812062048812008719189106280212903787529441336547073618870838798659883068998445738657607955179570234402896779418382259596546380452241427431385246216781096244850737215136107642175709199639331503500142330714947326446323682638691762827969572005628086319554549667719716387905900181566837608609024745677110266103656237665132777361822933058379746230266899349955415427240070387858589616641094768409810701940990207607711614606262010028093066983218844899961329675955283936256194194710218880374230531841470519639217802492678220448853945244884166980167801498159526910406975832531602554841838734432292513395935932485078391473094177933502121221335301789925606437148518498656821595485071213454840624987992784527509002964586550779669159773748710085007381787329440803402778566801710557285083980809843254665857590469348293039965792846981219537444259601901808191413823030395592911123033525518820292241243903818880891244115779441043723698236297081080432821690455590827105536744470142609046212025337948243214876127583580746261379048700285762125671491441392597923469956871987723447655937750494025071530196396499507867446659816992880581380236353028535074161114887870325790374911608747421034007805199075459321717449090821147260682228080540270673184893597781344793169252568302258490357616801116476737116363248842211885428712707013436966983803152789798592692417476511345771940792423103116477567571845504736424513332062357526923281023008657238095664811658415025384901319447561632069905732391947625069506055812399845159410155287951830704855922835791129869079191524429785859182636786504617281085168798897191668940920304252054057143088451237793432556477906566694522161093331492898852902682364734534944488335451305978271375918582997971183907157107230983885089850715935855235415071928335425824415983394721043838701411860269006198428229897897451944912015813740932203553311871913547485890607656864121777897032998866950098959237576982756814603196662883922441354558503183652845742776768719569965115282798333397421612280253556192219255427493881515268661054049878510323682178605747413665153085757289260936327261022413709551562715295655214810726561540785389748829238325001280519306516867286691408590587817662635481325152788045037033565437296765248301566776570582127055768252794533518467211559524732422010190485416831990200185228898444422247437362842295135839174923918568522052170571853499230381665597370815427278757807128457636485012745788011402181410528318639140320514402327184571770349958804612077139679146018693950411521228361395116609790176606852546825350924208820344370239336403031878274991390708796837230804766865027543089433660545081817106067966685640025199820950543014909861495082837695747954377357769716287925487236872855270863652366010082982804367852734378730199643641806054247123266468204079816524753979521093255430776521231444047625200622586980450707701162093620040490508234687449178401333061094692368932855285009266920883707177838842943600518070550716700001441933808765044629557711363782254655602029697509652811339991345038102348693648518257330968019402731522927061741654932250443994817385546584664282335227644611917267649947528391232747218554982498429800694671226618252297543748722675507750793572963983314118521351201656285436694498706084675467532733819592199026994459474231742951034192129596311997841038540882804894306281893731986553908612336761261477448727831157529722478797899376251636069012808740534499608677023912842854582935363378874412897433693098065538726120871213554356339616016342397893860960150259745830337310982872567642354989692133099883521397841292549429085848713882347978564428044276676231856960461139423179026828892812727224090630564966425135356245659842780617589701462942809623000748548522460599409539921619418067470681181173211390800740830792571531842115915308850200285109497217200777261488268214078565025950212622636077399949733762792323798238111857647196939991764780508337047347664597912114955501475763755433924192977503316753800674713067578803579281988841748908520461817022574362840470998244997657904103358517649770058713957086534264974850709196930658626430233115051884461382071428437972072208850783643181156612439020253651622476559064406578599975347714020721421495236046870654927149739184126978400509962046016193734641116604789812847356610383379958453791215151785579069644913030167129414611237414848654742429468366378428322481919095267555359003372634988550045228144303530040027002031804908752467555884628582297290346202021067904424978682477809034929587821837883387445260249590014584479269611551450198919401526827792184919731295567706088848743812565540348067539639165069690487672015649666844155085275543165655888248456726020548858850925860474515452766425329247065889407758585856541350412985076950577646889627397655937004609832889480769705605553641485877068548387056251402107943855591306120335307991207682369751551915413487069783323157629423319025587202748599677768733567514477885904116688607130979572697812481191596018047441066396956038849505197656027848500931293995289121697760180643450204540415273781608856915324747544153755923807226794328873031403533484058871947142801211900644315313084889317852337785917649177412378014808689335381653447180679437765940867356640474827926247904568682914404164478371563852716080240105289436328580569902094429590102656589844346809944911106385749313503869386650157356302483188189566930223909123058181054531286531517609779809292644712104196353765025288525176350445690284924612159471246349529891218411607675192044431479392950161838418292371132764978615184445379850096751388399514263031924075107304334510638464078920948375543406643410875251119674539420075105798927424515907870353558339454419417158726136164830870738064144630762284881114443601607649359573684646257650165982972435325184963607630858367597967722664886266724356093619548962652166786094260446044982979490595905993568402793721236339815307428318078274376268909396282272270092432183989502791623424116371200160369905458519013195817943040,
  best_state := some { pos := { x := 12, y := 12 }, dir := Day17.Direction.East, steps := 1 },
  best_loss := 102 }

/-- The search state after `9216` bounded iterations of the Small search on `city13`. -/
def stS9 : SearchSt :=
{ open_set := (7,
               [[{ pos := { x := 8, y := 9 }, dir := Day17.Direction.South, steps := 2 }],
                [],
                [{ pos := { x := 7, y := 8 }, dir := Day17.Direction.South, steps := 1 }],
                [{ pos := { x := 8, y := 6 }, dir := Day17.Direction.North, steps := 1 }],
                [{ pos := { x := 7, y := 6 }, dir := Day17.Direction.North, steps := 1 }],
                [{ pos := { x := 7, y := 5 }, dir := Day17.Direction.North, steps := 1 },
                 { pos := { x := 5, y := 7 }, dir := Day17.Direction.West, steps := 1 }],
                [{ pos := { x := 5, y := 6 }, dir := Day17.Direction.West, steps := 1 }],
                [{ pos := { x := 5, y := 5 }, dir := Day17.Direction.South, steps := 1 }],
                [{ pos := { x := 6, y := 3 }, dir := Day17.Direction.North, steps := 1 }],
                [{ pos := { x := 5, y := 3 }, dir := Day17.Direction.North, steps := 1 }],
                [{ pos := { x := 6, y := 1 }, dir := Day17.Direction.North, steps := 1 },
                 { pos := { x := 4, y := 3 }, dir := Day17.Direction.West, steps := 1 },
                 { pos := { x := 7, y := 0 }, dir := Day17.Direction.North, steps := 2 },
                 { pos := { x := 4, y := 3 }, dir := Day17.Direction.West, steps := 2 },
                 { pos := { x := 4, y := 3 }, dir := Day17.Direction.West, steps := 3 },
                 { pos := { x := 7, y := 0 }, dir := Day17.Direction.North, steps := 3 },
                 { pos := { x := 3, y := 4 }, dir := Day17.Direction.West, steps := 3 },
                 { pos := { x := 6, y := 1 }, dir := Day17.Direction.North, steps := 2 },
                 { pos := { x := 4, y := 3 }, dir := Day17.Direction.North, steps := 1 },
                 { pos := { x := 3, y := 4 }, dir := Day17.Direction.West, steps := 2 },
                 { pos := { x := 6, y := 1 }, dir := Day17.Direction.North, steps := 3 },
                 { pos := { x := 2, y := 5 }, dir := Day17.Direction.West, steps := 3 },
                 { pos := { x := 5, y := 2 }, dir := Day17.Direction.North, steps := 1 },
                 { pos := { x := 3, y := 4 }, dir := Day17.Direction.West, steps := 1 }],
                [{ pos := { x := 4, y := 2 }, dir := Day17.Direction.West, steps := 1 },
                 { pos := { x := 5, y := 1 }, dir := Day17.Direction.North, steps := 1 },
                 { pos := { x := 3, y := 3 }, dir := Day17.Direction.West, steps := 1 }],
                [{ pos := { x := 3, y := 2 }, dir := Day17.Direction.South, steps := 1 },
                 { pos := { x := 5, y := 0 }, dir := Day17.Direction.North, steps := 1 },
                 { pos := { x := 3, y := 2 }, dir := Day17.Direction.West, steps := 1 }],
                [{ pos := { x := 2, y := 2 }, dir := Day17.Direction.South, steps := 2 },
                 { pos := { x := 4, y := 0 }, dir := Day17.Direction.North, steps := 1 }],
                [{ pos := { x := 2, y := 1 }, dir := Day17.Direction.West, steps := 1 },
                 { pos := { x := 3, y := 0 }, dir := Day17.Direction.West, steps := 1 },
                 { pos := { x := 2, y := 1 }, dir := Day17.Direction.North, steps := 1 },
                 { pos := { x := 1, y := 2 }, dir := Day17.Direction.West, steps := 2 },
                 { pos := { x := 3, y := 0 }, dir := Day17.Direction.West, steps := 2 },
                 { pos := { x := 3, y := 0 }, dir := Day17.Direction.North, steps := 2 },
                 { pos := { x := 1, y := 2 }, dir := Day17.Direction.West, steps := 3 },
                 { pos := { x := 3, y := 0 }, dir := Day17.Direction.West, steps := 3 },
                 { pos := { x := 3, y := 0 }, dir := Day17.Direction.North, steps := 1 },
                 { pos := { x := 2, y := 1 }, dir := Day17.Direction.West, steps := 2 },
                 { pos := { x := 2, y := 1 }, dir := Day17.Direction.West, steps := 3 },
                 { pos := { x := 3, y := 0 }, dir := Day17.Direction.North, steps := 3 },
                 { pos := { x := 2, y := 1 }, dir := Day17.Direction.North, steps := 2 },
                 { pos := { x := 1, y := 2 }, dir := Day17.Direction.West, steps := 1 },
                 { pos := { x := 1, y := 2 }, dir := Day17.Direction.North, steps := 1 },
                 { pos := { x := 0, y := 3 }, dir := Day17.Direction.West, steps := 3 },
                 { pos := { x := 2, y := 1 }, dir := Day17.Direction.North, steps := 3 },
                 { pos := { x := 0, y := 3 }, dir := Day17.Direction.West, steps := 2 },
                 { pos := { x := 1, y := 2 }, dir := Day17.Direction.North, steps := 2 },
                 { pos := { x := 0, y := 3 }, dir := Day17.Direction.West, steps := 1 },
                 { pos := { x := 0, y := 3 }, dir := Day17.Direction.North, steps := 1 },
                 { pos := { x := 1, y := 2 }, dir := Day17.Direction.North, steps := 3 },
                 { pos := { x := 0, y := 3 }, dir := Day17.Direction.North, steps := 2 },
                 { pos := { x := 0, y := 3 }, dir := Day17.Direction.North, steps := 3 }],
                [{ pos := { x := 1, y := 1 }, dir := Day17.Direction.South, steps := 1 },
                 { pos := { x := 1, y := 1 }, dir := Day17.Direction.West, steps := 1 }],
                [{ pos := { x := 0, y := 1 }, dir := Day17.Direction.South, steps := 1 }]]),
  queued := 7757040301793886854318786302456683151301781179693129852697216168366159527535626734923835664749098501311940906551649605842471076894994433200466502933336438650234177683223510600210280557838542935877516381420053067395094598047579547166984965322638254167067672793529091371573474320260542571177005326539292624304010764144549848303415055732214419181706335883821383108596228530902408223624183860796811521105857485219998300679274739223949924550288781007254103198605735489491438268630772970549512297603334911877276195531063234480568174543283036034230168768450243304372918806023233982999031997950812418915740806553361325746030959913029526267370795273837390674742014395059836233117500493048290432097055613957167977069588208868275524323557004925548788803852925237591823614660476348321998691346747887634985161263194928468275524640399241408717509492114996113431965018393564454554488392909602674257002154417063851946148113289400987507311286469810161442296817184215581302971202192366250690394397384414147282707405126994834724741561169981031506123433600956567643522202841806437903880256413135398198350522321859637234895789434733878512725159237909620047827388730518605536045910443884790054347368513314264087544274123329450663440615213715988895222295361731299624876870856994012121887901020328089185578094947903900845911873281785985071752068460850836409509527552342101678502794164105065825736306691902172299002788512391798425941870813050230867960143834057056193556097711600254841053585954622958247414416128990968180960880152561096244366813547508908703835172408543342400156679328713364756457084558236510874220736479828138510259047780879031773930478457696156838590646345676620816187392,
  came_from := 20595207532532843191719023933686968049796819840328446475877216909317635688609412929572937259226344538976135730399603448794815080679663047835435428345829003293164062888426111458106332436291558770971099591466241905498952970890331091642132552475647250103497667051543283204264333232867673016283515277566135256261407706126329927086721865047373544994247783210843924100681683802651442684313134646836574522001454766622022887233052751595552051361829369016011497654683188440578008021193072634340903348968702027709986083560393684174614798048244502024087456035696586892417866828291763619523830334038114251181687712207243681270776026317348009396942217017358137719583704453904449363695264188588094092901491683869210823627298666806227359283631100462628520813062637007410140830463347142465979429630282482087281815586282500429528552022361538204190644325246679800016007416171735433037942165678041261560060443113330662333037780902083982139156827555764314727535624768149026002150492464081589342949310732903071171700525807057353622064984920776328963692513729767792008365153663865473768391228688631047516630601413256782919307704442544945308544887032549965713459597896760139706509525857748449155932483850476331388719027694482405565366023434003229724634850783827806149509861982041823276209668841204061650995139645155605448115679921988141099875998571745091047036451944989868626507927411515714067423148982809946505689602327914151660197570242294269837815136877073042574228110129144653595862483611825803813254691647712300834751594481253025762020967342436897069378993567082398281823031991776125524860074531341503393301974718865914723721398705851754233630591143863417951311970280291043251334785405766720772280655326620859071449383811622500377312498202737287504192829773893648301269897616931796780070582360488207752995471296152036957619096291610006698465502339243017998600961532575853408896247015117018923368746567477645209465853662606196636079964279468904795246849890422358232031079343821890340364064663284416772720332071370510834915063867990051317820036583839634103411679059756129742034948883474609254809567831605296744750365902447697638659087517260157282381691599743907140623402311150235297813149116807413415866509733210199279086569527499489565437964080430097651257886076612042957707698865827731885050111202810639117415356125178419478560602413704747720963600123648930892056760368590875920514853845844406930410544046013204322869489206764965277656951667095955208885857847102528997660178679048364047757273976392333637869860209846840981692883797516540645965631863145960121394739956541159387448016388431817693711299790536647208404386241141000056070937916679321073319310788498447931019852581667837529886033777719455529345470226556870795248310067098464301855954251463596026148736102213950159863967089107047966466186644847544220335882881882769835674420663762910281212815827247911976769598071355765801040022210671370416717310680594426202251077172464073680170646241050738576853716894209635140782692922286294797452652623219184655589926667750414065166254802561000243908545319762509649006954290709264662458069190805513163045893885456347097020621970381960968343003917826497731055485216875068560032512951541540161825269972632011198805549531178145255344652296867895537721045421130970148957131249892982639124843908997601888616400829134952841477438551394077176095498391362697767705732784081092946992511488540498922507302920518271798598486784291983720562558925634458540825655233012379551872667990417136353551311489842967955576697465879700243933305498420129236690401664073995939624121708504011085722061890895173338911389076444107816043177250544585279910637708581957784210666674864756550930520437826004655464101711740320467793554461608377809635763953334824565829461732692139281535048506996034623145572310390364620020995555613381140101178984373383848034858761156830412642472386123124526454102154162358981216800307864300138697863219266047189836506862883625348268362345511375303849763012001422223400213459306170575242535792677389773992228020944246410824641954253889686142448207326395381183986096610743966756211695367047683307190423569745929225113964536818477783623982638393500323929409244403925766156678614110684022038693891684196326205847642744650384940492488625925677021365324880263649796969442305711701937310437361897815679130940857995333946893571747030011929557018267419875140110322728731959056367397764078708665006806799331689594078256144688191191334066374477270897682244536551476829720523886032521169106144878353799141744136222068989030710436042008909184677765102437186301236204351136433250298522820648573818347052462100894548634767645665027302341316177765809153106716302144452079816723059389675382224341031086155109449283124383299572963747173134596174550734485153791598950971564237216432431785424468222796630102899426907741526813222714122316449704843276440439823446818466449911412061650517141346066834975456711981707930308715609537008326009268297654658243819425338379538062844220045054449663963689606474236666054364367461541451643380970367953687526646164881245865894209190542187210958357896884472670993171376765181127292591191855605526608825158881381720859285747124679282949453441475891921877734284046158584314481336088415975770974310222869996323937517409491627528170978294441979845503061258853567152658243372313581486328447461942751971119510396770068394281713607918436520993380170573031587101752174990593687013369293951293177206971746497869201534466764117436522184863272395962676437173173912580809754726633816608490500738939318447491198198296417952591206300782965541429072798374040799258801811508905045582406767020040467678679412362229309541804289595180281268331974345669558669353925867984938076065315587894440876416439779136719293945649896469243271562334148867439393366703860033992681291524289099795060320284262095772974617054039537009469672370333392469431984881882088289021975839991867500659100793902817132315347885339974046969734023171608309456376529805802772508385260176478291846250850046768405820691675900671708876336020253714387713303058778791681380469899240334997948944977108643697501686518049686039615199652604577436130042541611905077476675708634176865197494317983724475119959351993619617672177028350866394572454465431560490728049859500902510732756488482308098540527686348459970496435868757745415952287164545655749697789839125058244418723771785080034289699763139175782236334967670209117928089121884294976463845330276098541252150143723915732409437112658050188530615371484615895224680694204296120324552899647399903241231506979236003426401666861437135052767155899874907570729360884610830292590638357967330479685081874168642680053521933578932064871633661252396891793652921778415896412756764753256781205196813059312974532734450700145145625681642067292220069723189983716228737895329201950905682078104939881582286235264427380696391421974996503439817688110698291323715851861779243142907428997285557954625161701676447147243684580841035255961008069919065314782598651877124800473324000494844694844883674890757122061916255695901259405282027464531932497234473424493093824375612760153589743433504305080593962541972847871292227489793141165884701005644917121568804974898928744538360217507538598129044363958638186665941456659318028041577270676981148895519703107556879366951216944978714729533364175250744327869978800095087097460508350123925583602663173395891606753965078617678195042986391545324720977558362253440719271495747715329307656436866074760693953231796886522632450241130383897979614419239827385912326044381757307843623151818106601530459567799754469128357906999738634343823889443849943785260687590859088076626510124029310692476561484651633761521725813418463337829846595319284342230909163723731063940459368648850432143372251039035425945896685250614026072173571158497985389970414824094834236345591557790848342491391955085414894423206919034518879226691990079647767789760254482849178235259244217061247447868582747984466367675919040742289923576346887131149107187825281165096752507087381762053161577664142334909796154173518451989478328369370287782383786761323628896002471868858330172677137124883774244182378613518391429343244824407133727985577059238966021797390640424000985370529925700476048512634325732499743972870077446794320890411518384246186682576773081082059919689517871465894437032462112372677227216993687939082998897865007697017965178171757012945650865181754188199312038774360733060370138692576401928842360186010137609267571235330401450712879633261060064808957484876789348016041371024040488825999388678272794830677506724769670942593892956600218157409452755227629504504805563931413671043904175796997040677730480156229734433848490891178842983725452364565254986552077912605008822045850369785255672654184014642679811794944490036572828119657817107957772837761792257584969748485342873511293273233623868814934451382940064510048954996739930424969673070641080163942455337304171988107707317988345682857620752325987040499245532608665922188059579681952840201031324395824127136522219665961183394873938965420168047955008879155432812873178952824384394467195350177616035666462382157108121736094838808587832733558037410605127453303565106349880023624112805653839995332769852315452265355890354690371584274145461925235152562730887447990718958793693167446719609945476222714960429857203165743764402591060119340089617792013123965198203448287448032994028401252486741555429037663366895626492455502615843791415479328745752217070354135130818892695908671314478752663987177486171382008644867371418262680775104372931616065192160245416281930977410637861938277882645958129234316211742698722567556264106943895404366724571982191004581028985277435573164540286931329649591769401840863826259166181748799772020096183422380699468502337690831289367569865029168869517708742971291257157596823201682551177104164840402091725304973465530818404791992742472286000127247519192663880899644339160260128502213914933203461786110263913242186418995110895130854960406626301429923795785010458723994093104117806910887975437250659678340318908233766634389476412688425974941920547311921462833383014323469298414100577660870441389146125562284232201945903551500399846369516772213823424892353662249463298913761725462997160423181030976138356262265007193837475237150579933577467487866478669272430148485039868388614839427709541135912320329518457562456753578983353702201976788231469655600967868659241046134798003301492534629035649591570029414074824820757598477940667943036610720113913021079616507679759649061039891106113029776899268882997061712294144831741043260233786101485157259556162460703514111927699531070539785756715057980035883926290584288224527973056022298442327704056145417307747031928847888037593642787533008226133729217933369103007144669627929557046702361499974101234595878787953893172205325086026642848510481826003804232683519588224016379371046054376754141454014644325541285917575993412974171410550563470602547170469128569454608251753714860519167041479118674149637323741894675510359148061584646523137808889570852414012257049618523393263171651428503172491292415709941761776131796143458541851774594275683748814615668438115687980936685722060966730213380276760205142760304381535870991507536582663326933756763918911788877981149376388179087806475066904176166588340793959481199939401093692663364491696912827839023200986885961854686275286362888227406269762800227202549863168879875019883691918046043627662326158892426380496931732309035068808588497554775632899881294954685292074411532034088740931750232912401131303548308070770290037247762174434282714338411485102994510771781135544557907945374080981340748803992333169656108067567032902030264144864654404039803270207159258573677180350482833606725351979631644221043074550566041122170439129005117721137018417503807917930812916936993773851837411055275402918117016544513920898837778099913183716679946695477947685362782235075956389434769081316769926017369594786652995409032535196219832311194356765418280752079454819740420958197743375276411073939747470310925507664349000787425533020687820804980237342465639008770179023428505322826809124943698346472170154665057707689622906288018915098951966791239520188655800974100849327109321638633450186888444812779320064844513531546410334639747677307492514811688851107635747057819522010083081351335803878209848627080527930752189197141877811729308544923748036805430802022451541126724241462845000060083566569571070195846641206858596162663217075549010557731562659132513415891980358341533206332287518393640143844795257547368626568557165519339919185511865770959797861057934767474563440646131088606464817424998595316823686029532931672161490726824162510497110656391810096585482566827676061547195371293528512330032901529825090762399852977881879271066508590990938296131554409341644377455959707749440008091724852491282912352661530089440984990786747524173488236332518946872151966391573276221947601615797965617138273809631308094072670504200788230057183563688049237036393415793654558968378875760586944844457841411221807660839957166965421564937586747108438326003101932333814392526079105182904847939291612646146383702075265253839438280061236700487286294729901732639035518427423187234255163244187649837980305603331707364735082344042010524925482439306468396336282211353610560008148389747338778201728236722441154202343314410477341847993482038191686032807876656866671994142899283944929297109831944361339112129438478063645269705634248662935203782106622024779175433322358245814297557508152166851929832794853629277226615191336436272444983371980511890615785786966977964517683765167964254437426474640807471706622469100655830333863598534539640747092419972318002364373991803300374990702453769333584721918473508025743913793897361628613949067867626457587443976483336598360038729059601593565622099008527091635534632114065538771497807157242568150838021873945646853077003254581062566553284461879119649370898491156118545548080081701015685584479132523894769328807068439915599283931724136618987198494204050033949658069067777192632134340058189144217855671238275648464939250730866809693221631412060847915225276725440345307413423406049484490607160127271770696358393182687433825028799496756586017636151501419240786796197594779041440757485508563937107420998299585253539276513639194477044072815414159309281302624038173856987911700132275946020789582957187936653266237602060543384524123090045421803556850381485893581199333940731644437376387106875359933074200787789005627852978060087852499566509776956126783358130157810635001820067232483262660599279407044450157384559434966836663642356173873171352945772707739388252414209222011721339731775196486509568095874549774133558660669988684800207264534300034442128193779219194974307619205227865078882713155091877960234722922406821655061037806563858801190441297800413633106439320862599413042052377514025988733459825743782513615262231554862143375902018582125592493316948928684989614605984133078293345544806419248298879715950162027493265237153974470009336710129127685797466841670915846833134571071902985425150851471294343708047421793164698478402027765248999315976865954648893424784523712576310778968845101160501093528612426872174929331227406749659996698513180403056501892326011448559357923712726801231038270994327081166452372856079558149458037872182018709830644668226388912320933000062433572128584463810344062663019206185340609349813557201418726008639579097916274668285327422614763762635529982153386981770858601855370387536732407376551149241908763210396170364493384511684925836678574886638869776882420925882006197235533908823006047767392663496966159484661044146820870365121444729963768183207477376108751654343371929779371369252622472155817318350900029099169363148289391089244471382444001607055017936492748126831106895011468397723291839652756673093681642786780709569474212728607852762157670015405726631863898055779337457551202060878828785838696453646867201471507366110615846430846707299585395639204857185688282290267282814659613096734790967421825249355291709176169012057173991486040513690494382476989965478316049123233125691525652778705348905374878196475043838747602651056485972588140632011194376558133714446816467868416955196643445481085937355899627121010954664219639538259979899753465291820731479852532628221828249031600635965845762526471712070587052380094126307611838127777093144316975854245535394533194377421768590187478248351267424810197746995342081580645749466983706108975110152104931066837968018850216584732996151250393277495957308903628400208193292698676728186641614783224972615327967328124980469393357328914609007138644421915606283595752245803643142161187852185438323442233738768986913092104233664030409487949922283956682201255346331963743009057603165455875903663135412465592474407949373190100280576205960943304386664719638878070217349432688869267831106677396057093075310830370672988927914103354889001706268126410642086766014772794027119851228237535793832777423585375308702398009229509043258739090553190664126628248632978856462763865171250769942946350365619770613237538933500276630123907700265293681388546812358097076026838016349758672938264028228752984063342250131272798926731055400322473995542609221661878909251987477987130146952687501591116927746442065457583533135747540883721356164023771140973440750737299816179586038059475079683993839800728070954159042220797984644707841575938021168145853919942827626340767491833176296286430596739298509830673440200404920860797719043263008190906345506232446471880353446247764184340330297458624853859654937540237452443892315630547634485525006447162134143474155617391203189795150772682392441203557208434537436138548692070514400756715096981883180352453744682076738501355218340899872937782681789405574157810960732987291345914710764231487559678635043861015275270742461140148616384243832366332102613471880240621720602145295669585631979584429174514718956419915833274222507575265579228980967930035302017951802347899549709768436513013431174642347509373460036916466921574191477047962485123019322166123966621452231169801005952156650661396421571232293343051008115212288,
  losses := 49741013205785329196855635049906967494117503007650441372244650825622501964863598024427905931787599613470295453541886597853603054517672490496737359491494903936988499819632131470477576463489442161172334544513259014963926345385527510564576123440428481172716069387031413802179276750082813554423422605444415967814426995928860159189499755034729688132820976909268747396340494036175258671508865448969202092364531584098199047258325809902168298129070218158566578182918173630629086262426683310103836660395512058691352727642802847530438182409888112113337222531852383589128130523170509134655968487059908903587676435855498485714910118552571186283902213161357002200604398070234721155372063898608368999848499468778561389947173325801902247327777842391941492199131117913658972173032289350271775945059108795202330761274348670378071653408327882067188951649034131059089816573418952351588800513489708417344303952575565869239277445479509466593073532420072278650297029825091911241269476688609088765772328332479031284457132890922557093398512505829474975914673475188424879443549231285408925513888768842908269046360210365396106220224031876630119860717778992117394290545107953510164327318113526605718283947085442303296474820904013264672424536769699850396370925707578682749180258417921036734565927634892158814402904191082052718829589127046242823875770999087736900705727213758220659269885588120778067131695267656879169012816016901217175877825097009696662353835299448645659799280915321551569000663651014025053390597812265807454723599661212124530971360907464254390346871593608234163246692797721997445865964317916102745901392409030307286185302725204348779070313631181354840783869225255247333244428172425499332383597550909735415403490538052109206701807007874886545999369245449515319282768493708072233812584509316541149610006395170256269945907526986284766628595735783868407944438164602890807712187413626090843868762865072832648917325487143804282027589561660767340949076121160717037789223485951281415381855389178395766219686474576974111266777920721679128480627868161967244129459111109751410078252489162312840200816253903637990159350556086356168321081609928512142506265958135602365769926997851445328963932020879232996540455577831719779465690812670233887068009232936341383251984212336618606627017603386719479709109911516767147697227507588886796721286224955450171678667154304149426718964924182413552943968554232747911876056747243642410292721649535823467462933381958741933277982060877036125248714779145361039614103085544261770411921578040214887228663460169883721135092476093750333713328181310413548558192525238087420088081751903869794622143729952553579085062406200574436258957148548554129626362339514808062755835938158992188559572902509109030546676041568255472842992593466208216253156677361310743005068266495695292774161024300061443147767603476095358863905853981479666909064944700890770510924365628310116371557946891602926148466263456757815569312664495200827006521591034611265861088709044746808831935724310835534191880395993164440745867444354319647998467985882789657515896210873429672593100369740586331543454937495510713780780705411801181133858678800362381329464201689412985479513821305120787418082312271771674564805392531377087254168910061172321358976486180001415685056927726594991721526611655412053692526907232422332898693642760205878998914180484095365836944450804852479297131402752619116062085582449937326657487698366299025410950158559461485400981947190680980186467957417301928004412947514900881456068882388608047295837428121852202078531418312367366624746126971828370271340269826509835550293764838339114743022674037162678585173804319413069017500783945990565518007345568781784708759842479291606707143557296027503963742074856497929027295251114218265259261124778000925821213283331596600147709438534582398502505452488154998863543828868390723921886952357956366112055594224334064627935297555080558223471364315698896321829977890640981726703754256441881183824202752337910620200777562087824265009364085849438499222253491966808376440922761739806926964821021363912866143293926533175227878514872347226791465903175745131830521670387550476250010753315051503313990624663517673730729477796277799396845298090270228181312273077748818647698560027805067781586684147933259816112597197664002287330366066669140197009702668740148435089533677765647477890154395628642248970286008726175964852761521536867720897099205682820483469039421348012885771406454604350184894170124050804183427314818512666198524989215202432807378009545898028240840600364086821602218634560147270525495904080496776455666962797799563705580350227092340585634392166302259840616885797799163675714914014023822672799025552892862825162209758935682998838740433079081386935265389667965706038791148850279745393255173421630915074508277750076877993065667236958548126849171169618704420472704926048623517262146997835261654676983274812994527206466728302058348024306550711627575048538345092526454200391600062496968409326958072217603035126195814441056439508527928337144559648107484785582056528081647184456752568869786133496040685148162479012296891183815958821375763609630115184569679080653406376067071241941120817560139462611845172628726924310767640005756609898948785858232276829826359092459465587927899518529496531046566092589968416999126345474949684705536385300947739164474222720477572186262823509491381296990416840198263364953027115843472367250821721857390744602386206246830977561447736652243941787471918043206420056984850000464417800864931033933708138472179307103653247080295123547054769707331825973504412958289897122933701273755152008003722527665074218815001845763789500368696294216298415870037366314648583175125432393520421184409763439607269820099069287449416475070992741418430939799172469596807443846594409350363569063760337070078137139575971143740960002872993071931478093587955556652179751476895350463043972393601366459964735849896266315776205801467975201965538270991248935926864547545995787778438187442159214203204544394252987506638122593099026916259678999963037078994762141254676796967190570397084974330509855171434535702055357036232328413798097677902903863861303215890706416996720434036993058517019475059374727380260314863232115096532401704826555267945463249514297342558957687723272104956182210333615072635684081511426369726546064907761715654263553280681655238453165463175660461706305992779599426928922076126108566125085683335322750318159094679813518482394778355395155130057288515668277224126995647624555066702556708149285842929371428645913053573415642467236152582364961543658577832670477174839460504764234899593570934024719151069021074537334622006322283330283716714774311729709260700482230638273693259338630987158966670860708963839214255813132576789410030810894802224059087001553023064125616718553260685021954979853891972153881510041155589654856157311676398241869590476516920474886616920304888639919577712195174051929892733593929962949696397226870358986423400873147148584320523216522952994016479015690875042794833583755470849199939586419595208676271516171845042059840855699182482809391607684935812968421164574802127757056200802892408071574840030016750786920625748610572940022116801744589288996071175298821529063304815921864328909030730318494872551234722484569633058772220892160552807192450253985932372107533995271456733969437255280878276127907763558279563339918111512647454617929112794809250890926082620330911404159844711141226899518476724922489292906276098394395145884713827531232034265036566633238966744653806546849967749430558188566721170021347514416987713543078578872829805998990949372340912088265951926593884045618522473684047331986364226357179465013816513322221107251185414066190741884982489127373563357545017184176314276031093608943433455615458361027624954248989608154757648582134229921758455613396768099195123036294475299188055585619057767164789789514982122167493527505354519556625133309383403860005876564179812042516296844067740871712391014466785946972953322812028827021503341120950833847319730542285827404027239318725032695941141999698418216767039214748652895874280432097987854831769700121573930243066277441527856609189628242211815704439305364881096996647808481291827748211697936078667697642956478201027177562230029885589192964839205767520306956388067947826330630162466010383892794838545721442850625384207806820589169272631912035742907751532636118833381423678713419229477032471326997890097260745939154367676299155348083916158933383816762161517613508219131477645402129949537069321650035690610745827550684263460781066060435644173839847487375242042060983602865741976905350523743344328138816017492778063146682615415562210721311703835808984867929610492815191858794948133514589347274795627506863524680480798965979087522027393687057369396660962387650409942437403215821566282325983854945730843848926867733630938812388686650858555354024811579569775977426293540392842902893915137014306130337763972882998340570361638696947872636609367251667297753242839665642038020760827845142423603183931856617811415122361464580079032423242075197572925717441992410721819233076428406035331322618263857928633213681767319181308054087989320338239359896204059226147166841308697881288172331027785913129594571264093853561214615001405316263736953902556766699433941702386099234679798429958609562726319292268324213933285671742860780934900682093597396622959458539189391456199410758735749254002065956766178607008265814754787958965065764229738770784820466734007518813196683539692557398141829672089825052160671663200782728364071842866429652665713544515151910477005122187674952190006343930770889710057387216675336867088388513219826659960584278607715548518468437239989118597181906427175115126106758952409608816068314606452442787992982512053536722447240752706578778740832926050419863139480818704060368426116481300065571911495730029769726316076172207724012034703163214196710710353026778852677932981672508112824326272848027882790907197804362712648657660067387562173073853048039650489786956211866289107420320934676534453911803471148810055959847961779068475020129742301644236562428044068582762107553768946466912886717193760560052811644820892579623698876722496545637568262546425923632022540022889793436965503537169458049099106087995254642059682361514563109790324220193242106949974580181081006830271384739025188209166169176517708545283335740324490432695750891595098503542222180404613110189691955852958577606789126950821770141860272230033889848132345530368161193091433717186718549884319922901265571732984390198988860173583048326886444350889217599020508706206325146133358772562129944538097542717604414601829645382436494727094491688236906518369524748092069835640052865711293162770574422911883198698051880001536731354825376933101082740906588444409278304492809512134539512296150656867905635223023246103488321716013452093835200836046823874056425347457249647644898666270207771693913306983079391350245937823349176560702696231104326319736771720195888051032749736801944067248363191705887348614099519071174124458379894488675876742249759854323787087119587320597801634873614897454451814479028795927769384401909653438233664910443434560534748095665459524462910073825151698581046426071374221258176252361519798283465028633390713674012349023862525846682546839081874709399248484701309637947694989102475782375978159772601554836853629525307134314488005745682204406168803487611528444439805369231628677297663372288777446120135870726539104491668141127703781677089567561615987134039753698454621188249166502980913317865499209392845639079250978881548200939340413592299144549428667140118087535836557488034298621217972309877697266069892789349313360523786233577980372520590146308411486571613382231967286914012285219510564790702359379729703911170112151395655894825040314407101826498273834165033345559007634447253965322511148523499258246338114025639983844802604372289378247592162504397493125110833352581569383405503098976002538891745366433415051343428211163441920164006988859467552952641904309956491307083193675305965546676168067448166682861526350824368947671023861694791879903719686811178296794046065874578004735112133532417554165085552169815273190563004451054820781159099684822887068932487306691166673419950618728159791224174501069327114479719020388542174891453088767690694498213660896439094557509522197153939698029723030591817497613727903540677816397452197571069958326987656933592195173241447699982968931718399503265023537996427774094744406107564060381082606442704256283131861286432520833132948336313227058849566228500375862766024146784047411690450361467190146288633041789742902577479661048546347296110860380364479373165044847625007931537237639347809185030020031155628123441559375182433563318590370535655040943387177641737633451822717532549241185304893745141555048413809566090188136297908499641161810066803040198684382550877012842829024299429915977430632730605185073736595965702335669374455159340860962962724845589944472264753575404309307236614503029181973192212683408335825803861210625228749023433374863986095057884461940783331288949370761262936074619359654374677381842964446698934395933357984348426468551492774221811126294296783316543179034002602913896804936094185142488438478822362601977554049495306516965234700040824354340101090802455177627135465853526793166902721328489300568648443550561348849609821871433723286982456595619848486750480362057642483539545260036484011838733285903543599202216370267128597816693056840641267423694345725107324091574840871015293279560826519697184947288619879436812371791015033465589195275873563308047691012805003130244147566330814015113339541158901598588987224365809598420542398236278702489008790887861327364083177475684183085830414831380082038466582525792346703922383435790668639470546380019260260380403463040474711817613973928409887220644702350152027916838726487205922013039579065782898359470812863969995364934994193911722010308866951263128449717542326285833568242546508457301145994042898456177327432157857108510944984389065243033251423621687882617644676604588716529124715898245873004148593532584677208771390905925596479181193940880950291961174304591467576817274693838847448657029339454406725453283227145752030849310506362899503931670348493343096605544688540055382699549023929485993396135904717810828940182221400639836335680063255613705360430396031786124885472411032827552109661096919035788019904873971315614046236764601371119334575125981213930178533224081721075421329573922773229301055044915235360727846367850699570381161343052184489546589043102969740586473423475786125153689417828883344855009100589029649514210852642100879554911616803040897186524553034364353647673784271025088197580880645751791255509164617917536906513691482550016902827440504935461687677857986676734524986435705415928614000203614863687339292422036241809275649366117207231722715002708777577895477184436640283669612142782200274096680591789644374076600151574023909919808550482068208736634526942531147982095288354739563480286487831197462797254120076129684437586434926908013913887925397751512951369484068798582340187082350447981807831606421244766241536873687351044835006723680655463700889253420834513412923489120856141910905573163410502135322261375118680539595061163923245644711340520920330622389856917003361175979294895622748184679223862042510052440913462931219514529933967516378087396262986753089819169546654300880831766187689738668127439589449509643247651710655710038726180797428522806366723912454770970464872809644949593515539829564165063974490417819785743996984950475439136821366448315165519762786399853840134378147184253934766443365648959571699000676578542954003305044891215461170958185317335202161218207327164059828487351435562272524669118789602717807000215410323899802867006597624425685240829097684281269367513959680485104956584378123287420599348161207969999171853790014621088313266151809012785462156915491254711842243859763629920424068358282727549520631345995896649422324509493347328117071353818343936175708006179338461839924445476221783485290064697749680556484786809947911006552661059353549679493103898818206435537018948868841023219952944869157732176662122167997809280715944356573698426993822159391484219882496039077161776426832419073825888373009123841620759514534691743800331177910844186898352592105116480912198374556114187934230384100302751240228298448609249285074280195242270351645046252555528966440265450738228697017968316782368394362618778847428013456667698646207738067155631312880012893195254224571840496836416369141686663985510336722197438933991245558993792375750753945802590872361483067966228867866603826546818920996657718747526205225440036204577405603566896456577837303276629301118461542169588696002591070578835871493622676162182891249864237814713066763756401810526481951560880475570663333831973226193276630494861517307284637771499542720893361508102847412945576957283355943191042225523403686691200185187956011310175098614252968926709628857180267988073855626019169418704012840690857284443174490827585991865787879865608372867902052424343015020755532666505976256285831946278212265229683274724881925768286824266685694973982311828355264188042806917437449852493354504620657146435827079634895514801549799168498632604451667456098145744341052916910572448604288503094406804472398597085802166665187492798116685591270304293081074130262204146703079018151024390842878145470582096959802868923715953426888355363863074189563356702666776140468063378234420160390014852595519124290968404579277077658324694619909490655646917249551371480133203348790317374343856983545556470612878938708951691485510201305188590887617415741771709572271877816760472424199539159484298851098457899914798916841561451438972402490058396330968473876022441384872092572574020374936553654377423386818850746652347761541480972448427264206438115011373288219543758878172008549525034639935967034583507908046993827316834120830918941458375004115100050006057889936804870112648800679654314446067456763585552694157687681934862937506723476211259228047904943186357843253387694955391904791577019119463889299752471328140127158236169709057347344674837368497901841150373807781108765834988287767285101873073119242661531139885272178153416700389567337761736285796000977112163515961120388021511983417894562573270039415746907828954834922831010767823778167260749259972785894210868508302485140196595012368246054579252466492944818009337659253491309907919029276040298776431685225621096673571631337630925987140640092971111049894281543292370592724443350905193371828007382684676487928651947501544208324929459602857607988982756156204680322851124490525726287208935345656468547545524797990728683676191930248620158372047588565553578276782903912681179957261927693271048458607735861059355566311825644341979554159664991217202888536123465720226137099504740838465662245739059803995015598481927968936650962276905228020495223370132040045748346859330987090395743324699047323503105250621294577633629354916517478406969576754142963254096935762587992962267496993169500267599436969355255779954437431454780050983444819676205000640491165504430775951096515471156951333144557397324744261731476015459590382580057507360509185470712689682126132930599547245957334392499466910653467243815222243169977709390552447537711862163251114387644042419649025210679903886968561763903605116721987724298606959323884353176574658154057513618917301131584553300438669526544834146772096455423965934821686704732971968436127596010129301611878683152583766568289426418859759468187616037147569270633664601260578262201861173844366067838936216581857292062511594404674974771581617858580033928130689240875241174004120366504362489876328785588445336661979016036131891378030724190285442218688870423187186418091122120358756727211377925480798804144141334021271054394556293365328071092633666562039272448928267639667981818476583249915199882648587850263123192069325923386607030967427541033936742485147138027743250149734362174160460219953433813483051627013190855847024548698702758051818477544177570815385878401466704270274323064774314417573194425597098585210029224030762153207305667238806813911450835656729492843356576566887959493395331464962504096745637588296905150401334814800473563722923674556995488648006530666107598350837238832238191212207367395691735454295662665181285957761798672013074813245102632457124315769431121452705391045677541004354770153106530274520591013147314215335400942616488128741348508740945155587238933776515539571136265861484804958954147924377600224863355941729068062074249378935419465630346548113189210509360132953217659124444488794532206873961139577051088044767135434288824795017279706672320240647916550077537509815075371380011231855646748600161506707556956560119667018516724319634192960588159045851817149511588261060325182026832055459484622890179960914854944861134095900653449297376193322249235730053099500370567429155279856935771842044397519566421834222301755423397513413070742580895171879210831991594863514939266418344383175183299504443928289475852663946951803049211162400049747303107642154489209965572953340478725567763765923120088665325755483804130541518459309827135777510557217921566679777905751389237556426007055417618003437575457959318079740962132643144319427453532925689297561619845798566106296960563055148804217154166586028538646791937636575196778166706642279978855913885679422250908775289408363574272010070529351380014523445386728510132617976973144399359091805275671955288463782341761485197451480696908293899002199049221359116301352081116875777240864302923265212139415581636880637552353323580802950623708790630713465656146624854533422875432981213961654774099560524512795942742230582525488320301610211580023285026955575545380941765810964114063487632095606481007111642790796060901353890600450421706766283893491587342689089920709053604180495088855714755646048447544119616410668883247325046881334606367210424254983725304905258047031291686930637375112400326987393918221163236212270013272241440042485519547580717441799651854284475587150760987967254182745274797568979156753497975319297925731835873575901457124782825806020406717479299885529853508751169172026514477701966894052999909532935623387260998812635557480528993799298639516146326286911602073250142798083092925983272174544148812169600937144419721764304221443747644786643894617679222410955524325621610449203492601394633629186080481206366304708208063705710060328355803301537581745588793555099768070154883624131203805041316564313426441159284796702710491894214496425065887711219028120177138461899834081996943268878562116041813587547119508294313261983977464715341241401240646990441843353746418833503430528493072201555531369534909657838184771667352522495538201515024499975836932422277882488599553191995726295080594674442464249350131908779129490305843662057247515741460909367455822280511612198422279923876313323543578695793508101312731249431994786619267904428947966631713311960502361548578910826666684681076232984735455870890817135136745965053237792031766711869889693831512443345289628225664407338729627579115047348280052878494137375440077152486616169903567533297985737050111561136541946870474533531029641647527617915508882355707924282223822333766734047700850506657832486381612825278713578323167249631069128102945366153170707626919695171229919102290148893012253264480961428891864547524800520797532931548620562963760170005354767571773323613545587731892500075141757969424606944687085263286555443967626855729192954601755108119970615493107009517216330941250595889887847054351091938955310727271667525419377937533113795726836564625582998433503404734163687174671969977826694541827087284774684747570068670623267651354206475950071149848482734305386690217803713427625570657076175955956226686614790687495437950536277812848563606482433608240704862894573775981908489826213254089307090389843799653712057132475322437705714894534171383668611770036796496325051689416913312096323713658959210391498320832932203539979724692444783185575967050068717262017766533095569279387858922456722828933691277415530066178176449728779550924472502150986029238192143689665348136779458608391344251049610314804536452255603873407061593499851668691566553818695500467865876864535228196522924040361056166153581853019773951559289097207931520543336622957129843590893178612697904055504863713550284625637324502510045875859038654051437342052320128335542765982737781834494965345349817402005791560587092906241942993362424093644884900438686937077097419994034751648222170219043383818112838634817394854726046554070291714393072072328590028787950440864534420020727761170807558034884287820325290852612874371473517894297404360473710806461278541818979452303575641776557868817809589060452977376647382892647835056726335129861814601608866109186153400339424027574106925185374182280023571604266920652127077827216454991527599839637603689915283148519891438246993944382281932568444543141279593627609543960365195620610985226629794649650508607415475471041939510976512591405421518673180853866740618194175280073061731656609746961155213582851469364367138665123714854402533872439144072550897730757655448128468414670693684330439016048015875945838650599951660174526264768557232597853390356560582185727648889051563919282986175299326892072288357744198052931301334437375573140236577449296482424213651650586603075997739220328049716677991163860998220603455345849883936132490204634107965967432286999904604612137138470452709858488084599896210593221024655374982841353020908549363529647232730820690256447473497253345421874767511252497760401991989573527461712018671790090653900577853775370278233713729436720455584009579061693819732056150555319384289782598434164851014775773217953072985431525496270254202649932493051584222538430601544652134738097799695989401939161939848969424626299149998369816020695018531645185356887545442274541656528039122162103802269117119658116741797416685730609146816915834143790105886957199788164326937801468088037446191415662730987975585194876400076047401700565701795185512742384095925545547678700333528509925673098198055100784668174567258174396921742912840962255951081889879871612716679459646035575666510849958581561546395606162445509467822964468107401050843021095611861863903805789464864708877215678835134408878894165981543750774047867839312821770465193935247005526203187929493273617375011972831444306564066632989246644977657426365863039783973598617137914338499244127556050137566409308731990598546695930891199177393564853157703855147603736906657999786236577069920139158257398866693099572720302477112774441999294151325208981633446530542818505732382162612769905361918545464244308709039294681887618290942864865646825757223932167863470091472964703892452287502997752143821621422519703242420833651129904851555210918029985087809373831730760311871995863174002029023738098286806506752016983949566595280230008928394977290987418951600869049078936173749874196719361380255676950147390735537592672322560758254727966854551713760222762807466994540142231006757125740701351468112316420797955082107783051634852638708558927403320216929896793647075145253457962682904123334381632204538843153603880566733506225245742333870545845814180449215609500987187907757123264263968950418689907829065364310068378040123712943945593884103516625838231466114293759286786014963393784522108340759838539473569965067968885977697437818230421116991310451040677423079842402329525536728101451598725319637844980212970655959895185941493044508576843232044854944861268698695157134687865706642087640497606133647301675486912811387909201384749164290443847965572208211701760595182162003314334173911617674193938795040318537113212639836547119495525780022314818957725692891276819516639603263917850778940021665273844904408170139785470255291408814106568304286593077520856709645624097958055317175486997190194541647424134161963405259306994980768485115497715448887310869076861483151141983615548069601738139439245938725695401367541375719845417178649426584772420448051157364498299205266593017835127020592498640139194872957206502741809115580538934091912800011773196315837820586827326752235477595481961580950115028126051810589833475833743678210073946627437733253940610403004059507943031736116170011133776942915862125504742378108547857078209305771449796562078627596330766766628138368741004866743540971924175326460369322445741664668011436202762826806997481846201408674644100773495530074791820331933810710699249043106186360544121147816909625887743423405479634148189359037201134355374843515495910556784419372340337499671712871246116217119583982832275140359650715436977625600210195337987007153870718044356546295093627481717732896860380693800312736662345377352587278725719527033786589907502365272613391808887908350706940652045686359290398055556472722341845907767591027115701113578808387226977711618231189363224047570802780473907227615588271410495309212498458162072787589522312789075233431090895822621854528031054856836356438985769985173759747441407919394478438519872472280193741253356520962448173052099365846721493549477448526465256357872846583727148230748520163454619802569804231317076369610017135698613542328863602261275878682657156054606615676689262330710651751005081431055908020983128554700559171513830322142852634872870122039219319041472712176685001699059360083652595656145805283253214832996195143413384426209934229428453421165856006003975974557554403598067823330710454991239204322148673486665623517167400412365593940373584192845608785666137613199460016033316471835200559959820881297098132489761757101875821159819972474942379732883766284011041980963429525162380276670929244403047963945564153588939486702527444957740894905427175746338882759072541850188036469270139666433981809669789098238011567572200523617044838652030242228365791953842422028347186875088630043475363478029525942990534456869129485562036402829629603208876168066092672735451759518016742444566087980911727164209592848634465262837164048525814535638798430229766157516500983613373143731583237255007668084274705128983484497341164841856065837151394684890136386222746626935982928488933891007198052498755344185812147345316259518629361593528625340251918479645367840034160597856731598650124599407689147634102666535467476215619438207236199083601011700687736679453771265466416982053061523213013135291325553076851666703959268450678594914106044318021419053441072870126698440844149244280962330181061597653519159139690536486670348031981695211272202160245208539679758111392210238277982943899827038441785358820771626036573255416754687933724025084934045291858504611149690028464808860831919773527783062913576745893561533719979588930611257659791631124112224276980392088405432826093722668710414103593733675113278899758947802829872233914832172491391403384206324718662040829653587162203994336834950027587718994631939802599336333313485423737090072608832566473083075273778809568118507272909104600705973910446366273528805305124501726998165602408465202065216323330802913105297412234234714246432031685831012243801369495173072907407391563762611030216772888510409485490416641014521987361463941620368691814852749616741021088975503222690628461191652967335022563181803499121260693192961364004436344017614218773852097288103671289249098810815409872106571501559836897622486591964356568425484617538477300946573582454158344347859462400356696703163598136163982454026340873227022811726214957571699079021740194619540966268906247783257446573238994892082542229920689150987063240100478556052513678989152562570497681932871072855067367582172702730887251086543670417271995629975424182766498409909983748237306818292723871494436982418594883608609286543846022225486837696293116918572831103152293913701092373570291253416923485671368729758453854040552014253038537476686952178995514662329415330459474163453769608656996719077934553195755972321927980915523361414856008924660300610901918073100088461389357206371298915890481600786249178960329235882518935302014510464039618588535393996536066849219520354959009953283559539209957708742259158036734226283032513765117932741194138278073065735455072549294870464636472190279028900708670822765290515787805624810572897550783367654784633867392393875595850098721194685125414168164705222619454540022814409710271770087337068539083670689652544168400335519978694327575773234103438867372995037434129344893609470850539905030408370677038618506369354234404590820301842088761895428924196306374844008836659365711597995553152138001989885436429885118502286966620114138559573083957280780480135308130731984963644070761275298833601834801930927256671460757231356152759244941908105344941414889404488491869416212414347503864042511496488879512673839384359497213188901963761416082626717114110292184839062780560656616706389821054276711003159633136981515535694373998152643611932717262042228226839300048087779868980132260490438651045502773598597695307295416039709483975697400520628386567216985492994165248148393589575113329188341856388607696188409205904805485815521354583103732663551110961667500970236669774028403843559813536175913629257324876789211745471654812346739454170397783673243491757210721106872855148279305464787128911470186203577593196890652971286885384516599914875055758486405966225510665721837298154437403851866156302509203511543616671540572062181283941654348827547719558943950224819784501631304568701279532788199691426653230177251636885915165174055255170591351050909750816556312002145902558876733069065367198914777645397317009705524837212935881570946671310277964091790336869055545209913983823483916480640039037953676440134994032926953927683514155474527444332036174612862603619427119830020519041130256180577155990816878208573630880580344919766486817061396089332274873002696300472338658675772256504764308675279848837214320406891407182014178900513943793808596458066981955506486832013592643715701139697070898732977239214954791842091558820172098533612735632204924156583213783843470780064802923923266330533746395316591809440847106161463455059985027485331961555052996047529089262474168992701338249369046004420262031014502565341219252354029706991060559096352177603921630161996093318480029261830625471807752542578303213351944123116824613934378697955456902796075365328929748882254454808782084785658817356620174315968524708431251623516979254294810561766824395186792882978916607457071773751314406835684825861976982019960475742722564672034776731823029629409657719950472913801636938427648651619936076782976659569478624323894955711168020155580310811697557402978509518478427252977467922521842953215693537146150779193392920532373980119338037746489879428943725048227289096855692427566779510991096673229390166872028934292139176784525057422731423170046882617507379603230300876813566495907585409818547803956465980800975440047841329062973433334526086078457140925393497595547130513960354192508304516482850404437797255253038000554350043971151672811551617359240534808221842116428177705161311799285604114183385692233441209601185388215689134556545918160854939784378604270790196980330480395655039054783384228436882100223765722314540768352855534850152298497560770598892379802978524127094449186132488107369023938433748396518480312121056455458313630009724348463515955202357615147997792837893963291815070285048059012270926637870370047864037416742519330775663571444959723563941822306380613560673058805042128438567908812974590631147137477549059834857989125051787550093413251902337160207785589135614590890380996292882360736103651625362333255217527348002289761937031738516250365183891943359171494492588612698793043909599357503638128936906862429574899302752187220579625491265868442565568145637099037779814207253780878651158418675300921824479856934072679361533961107889600386031046789675874659285047550518846021968481260698561287726656621749781006352032686662716400650216094859009014222114390296022248085973382660509908803002838621071397500394411302905770366276800780511395752170422197137846732991237189686221430812316406961785911720539150047183196613569934937003293936681843015518855049566793407876336048692073596746505333739222528020410069420544945178792113012245637155691670231563146828897200526593893439955697214389275108972914860692565376839512575057244669396544293573888083001704428648408930371001925555756035119066309662665002548331172804840846397881670496318176407313674153640663791582177705906395527179199998829732088485272187646813263974232871436019915575097677672277363523388825400860635821169732878681986848268858374253113480118717529359753473609702321116015834276609848963518139126455425396046318502674219048362845102581419273241151252301109055697107901072425508672304605656798592478782009688344906924864294888139246780040535654378179882143031746968266400019725520628491296587791509480950416280702905659793485721388165016575089950537448458522593672467646029224919062573433225225228931689820739315401078457755001260741160449982896794261426833014959563929251727083439746061868540318848673963059889522963934083741144981539615803529641278756376312711012586599655858633509732975818578893712366534524665818542837907201681908194650529503278197085771123971045708079348145309811850415776965213953788083733188577845953006572868005137988291188658303319310623735239149212039347024450903419702957162071154692811077451491999098082820322256910543932731166097293589931432187450448320150012132645387702218514929058034104445309485312526389376845815220763409359039993457181030722769883695673724028000425040368875040111286423664826272261619428399445661710344499720124114886965783951870456067022636421335481956440246883113202924318235463701198349585970746126000528649892114953389232283681126865688286797588575854813488422510544768314085282699685359867183690232933211556580422467912216671239921789691863673551622118430019157534920165426627849251153076152191638044939119406927580973715012999774065923139987121974214071339024385432682339841452989499898686040654788579933138724030868408927408497722182276141618905420546688611806545566438092909159833656652025013487516431188941196212129929266814297230464205724645537099688824337864353364541691181934637685046631473189613985878670535870871221246065976133534249855025323096045297662186801914890682093242330187934554827743705338298566530043781327122100919397222028201277240887511404600255003807694269153076011632288159704314594020255899417102506543970566523861958509829967064190342778898262473447359849008573172498957640788742461124875121222243380990679103548686491764652292604513036266856639240693617655417381168770385134262776729956438242753062652399263650309838096099615493573895489996998038134985483867944922871557555854897527574045068989412530270519040191809224806712237549414911443389837328786330558187693690579329775210555782416840354468907407099368064783684881241715605053035575311997587845919076166861705340408519869558150908970851950848572575649550145472357011377509987396104937284036795401568059456733990414144464392284851178210918145125431832027989571599782000827187334502229001530042807024294398119706399912722230885515680873833498517227996552410414056014861353421183103860587418325731210160805984947817580532619537175583994449428744936422565961403825783391865461017271362979651940779369633100539883734186980969502794345918407484478384571344728866051033070340384567620988151043128823792736214681362817470851593410895875052137305317744071502067852000742965683360132430347673600836735474169042637045462679844247247470810970654652136139254224589474924936203560757698692078031628580649888533895080202382790069106839830531412198016676196731683115039434408044317607605754336198146428135257879729839257000383736925138026486331495207704974429578238684714481358187248942688982838417104381871253333702067573526147703852045269257151381775872069595901248710803926601189817532426412885740572433446717547977642835115920292520480503500651530862654167257409105340378806746462772591351245397644701545880322879435616361356228901082280398053533630053457536229592805350352136792878676029788777937180286119578592541717720971125730381584010666603936081210776874235767272164278994115738374489477968995677546547348365004645352073563111021198853999271486008731503195675927168127035740806549832840319314072718455918841276117819743198892105236102964036198227178488972222990487627042545752169038202587335755684501965619708607932236694955118933933903661766114649665871457448513030024241695276797895322700187362423004938933792405328524247316974727745638335516795767719891274913235897982555445548775847701128839265875298420053275872785952123669311033833858402348984051416142533491936997901595802681311464804260664401425774007300236762679385645249037239108712827544447481474739237248159285645963483470724131757784680195523187060202396622569520255594818590970391423109355995685614881335169528319677163331105832222434953421035932542458020145153891270957204032352322925164595042147796979170517456952123046254528452284538115277706686553291783089310505769169942991783991293501245484997637691561671112576724337752312548541933903046875908240397050797707341528121983787525203091400251864425306934891694440465542962838861096278707783461451083907818102926005726116912522475165580250740163131713768249896302884208885126884377545592092658335230351411800972161871199516436572306954998732217699189595603877128742219738671393384813597385435164367810379207205864980566900299629691993891811746566901659600418724621120918039498790965430008867853676393772744845757001521990148871894514897731288527801267435978506241027309058394425340408206611478310975494232648824520109763748643833146636856520734386870889298640741710247178794976740990092674658556664421859194427738481144408754386225016704105339251772208841029992881868863423388064617844214449031832801968936596652021012402129810874905821005605150520356667196756776309203029911119266546064920221650605663998048870679637722487572875953869594699496535780963154309986355827411656340946030517994100954243417719443065050891987670545683316973736898197621316957656522075416179922924421386792614891968412668760880226497378563255199586823739506093856256062959076181523204825992087393070383247776606140658993354456288356097783125140155112586087197370530961778597153178536218054524547416293050293721022606159277114369228126533201272598369611141496889663773926643682697344844954555640789507020499768308141154104345217299775598887256601717146384204644615039355577692699363576116136451351423909256318236388291368823472942698658154547013553600191687677342742281813351846925975867452809687396864380362381287704096387191414559811506276941836060078371637484787334174213376555312723965543001325982014532164787694279169424354640202527323429039694761771068748484323737110439219423995184329847595763436959796514184441731023838573182714124626580366065615499607580145861245608031620196478160574377716804252121706466273429066237023888022226366042193867577216951046445938757770403198839647773198662210776689613044474142512465368292769716257676050780601714124112504517267178256821675501724500493191823075396050516397526321083387032316503620929684855329355980410131169271976935122220060845555213114091758750979542541171882263614042282871038047433919751712227746184534891093242425841912743085216945688740434950415647694727919507386442819985811909072315689204510686407265858688635069535747803296867452311988003042159315064603052956552557621347328253680260021937118467858198365959055730627182487164005345652836509808911336692026883536672137035749666701777945904017158085538266929106310545139610673231952706045951195428465686736470398615293167265997151418278173899516502610486071507682418825176178512589524682290542076714907380592944748965736267136172388240794845898915143146918803261099471761770428062447307405622481205842105652225623761404634030398477302776852072976153541665123457695847337081660843717392082393389319001537142705416247940573498178997459230349469567454637331017555696468017615328674002927669814725925224411528705542462308917283761087790439114668149473675657722544214943739711751993472458128982070418163245875679909518983334703249276912642830064134306463452759305352142977570473373937473387877699907795820933876589054989497429167330468088987245912270304581002883410397473968866786192287726983860156611983533337106022085218278544102913384704466223577497579699062698163924186682711890097779758561734122144389996219171309587359098309661530282527859878763022999034316232858928499770801656690604021630382759427548165081350317883264233380505541159454854562542840136616663005464187313262927004845301527419823341351195196932849025331423646703237625254415717109862099710903514609210235839511211373835851697816086013306911964710908816916186102443920420561192520543108728518283902004245394066854038194648231633039892226037588716805635669833542920251216107901004288141292496940769809667065157018077767696412921243671948270850657594868508973512990134479092175377576182032370571981358575350262097999178745807194131501916002496406698629692292496206597040968416101574343179633864840782104064945018630781267159063509400302853998057329147548055988273556062416359883089328556522374996090212257506147470955267650018322038983992279397179176339962016490420061107661612426653446492469542839920530834058158570294597373186377363691947509991456864480327781515280264919202637727666258748305188686952778417261010767526860281385146054033016016224725537561637894113626345448725482178097845616158871878846835096276983730145293893438927551579028688478295990063683327032248650765918194639849491897814871334900053065990626125649765657211915963174883389628250480252216946039386176223228883629905420770195209242592127721796985409594994212933634934211327064270903228272104742976238035292064534949490103744394172447258900197276837767007599516746687083068777733366456441046458313389752553391301013210616812000810799100824622345595570737728273540631502746386128266354557068023251709697236034720361585035097949185889245266314908158837556687369491203486930271832421570349961975860054924203860378269686854786082403538300295409548441045234347185856024553694696273588285071044425905038272051472812815114069952965912046532974047029150183709494054622274477306381325871130489015573456299473979785082009832648452684742011479597658501447133639631353081313749437948740056705035321476492807474179809907005297768587757474515321702508691315264853133794287290878645479064260517922605474436606655122888339785445060477633726254635513904661776427783544676457707345247013077204836590100824442626294851919064413968543303456476005487333321458470695742775640516819688896140234163700811944473672771720186804800486288539824624111940680160739011422806843776800377040807479988436853080827160333879635831038272979692346856892320267543704594541135958194169071309818078328331665782421144141363125206982953932733627722449724651758753732491738245648763739038811810124922423136469988412752719995300029179204677107974529436348527121529981862420720837107457185205505967837429427284088264729059787994119619424724231004103153815562422831631774145789600520809620869047909328660235543325557834961154190760818757277699038532288573687460644765573153951190350836154053117623604329348948477975741499841745502850381067062292853464109116342639733430565678502912289658261566971351822594812968936768205404540739656963058749024326675298456399315981649402262968372498454255951995977327039648111346464362163688619600794643227941201207472779239350272953014400203306058441549370980776050261266591516491088001335649858294187706941265245914175258366459586414069503857011013798071735995963932453500268620791662307771072832295573032938874953761005189389304245989666534026604405732845657479824000322060892043568035834983690374183504061180949933808653652363608512873463364803927371164558648635748285124151153660485823451098650366473233278975364923789055517382888274462881779785278600702504509976167660955274260373865668256809557596135868271575522944565822666597063139436967678767813972467034766386684714132219092580037153154871103136875159763496781673575404749475532706749717567970799814543793718956763944421732504929347439978147603105239646193642499107146644623433211655184685873953021873158332805070778778450496845189678894735444063776942463889983758488456553902760537430439004238406313975054547478632293005960388574352544680329330491164364297189292522595714659162350929928568615231713708187404536012821386220972890219640080410249814444233043206018854408011565467027907334510836206128733652049065288854815600980853525699195304366824935587423132288077860753911433915452266902810838799273266820929393625479445170213529577547103189517103484749621793183236878756528697175570066552686272851985243580717004486187800005850388120166184356900165177797748569135863773356828232894601136894503629646562785914793049083190222615104166686836196953922270599152309571909218781577868923985065959329586196827735978197511498938986684140309145839726126087361535266700803643339583564950582874141450127420636954807416733555993602332336427511046472682760871952057355501897680802584413705976138299409944504920828780317953879332151322566633969601942281919930354698270845957119048189808648537737050699715253280676712536058768074403828043563850591303764621435032838997746297898271785538263248119581572648348906168526546401875044289699396020610485158864568861227430295787472517330173896283738957176094264661257022624059470049357036305783598036297782897453644094077814376881044023215311880334223248375453490986156947966056436596101460847167248671125207460912922334800261050416114937831781053854959764748199984661695713220657627630568654757284976550283302460716644883123530636702622641112760027111445470182753067226956677758606602201614857545118681661674106565085408550955617994213314860199465870658629937925625461294159105024037048378332873220883923117257697969144951132023767811958057355800615008818787024365269778167381888334455378565326373843033569018995718794349548190081301610909005238643888951157915151716580504941160269500562420148177848284755942876557384239944645463204812824855819461334155386104606638869730622130753309372469826157727150811436886934178207297672745191652114530972765978786646494867115251004615562137561036894497577493378595278828970006374596446993132397059478614597346366259523867713456846503359228401609054534432305135090661218559716526371828686045337497048238017596291583182586864319233687055112497037379286405201577339594971197463501523382164519559732349191442000829120453623139491786945441078546213866753574221466168938786064913906843416279406965049014528444667782376129328935452890082390176374461129457960306680090317895355992043315038793779360749184450193563000663567489714443756690893794960612772490312834126448863326622009397066670979615575401742987878161486487762617599877259020265159006006404212227333540504063079508685930643147282787130940360144394663420327169523302314590487145288885029624470154108828539437208680224552268206054177231337212503811199447187708227254510539338360116481188671793470560958778102384196402894425193086935385678768432022970361332234665890417952765842495689409655006622217804657893491290828131032848362236234531566630447471738111826944267978245731733449018766180770155590370292971354462421561944573982496606083472641220497896797909950826912533741242260150510619260909224381419213472323162177349397910672423945911617612300134803766466509153277145089584830865458339224641464231118651141289725503597521689651908962990952887605835481523146272216063900664419825605853988694500422403450732406438466089228538983892648631927057500136003043671011981693825186393939542708704897237883770538429892574378279164217037591040993884687548719306781222020420620938820577845042128554621503126561819980926479100543910573545730835681598221928078680972537902889335203382408502826902435557872955138824241030662817085143848539640975555785092308152287959402708402008155345294234530978427350375138164105845585580604535381023479110163886547851997534991991381506652033150337189946159520889919285720452222613470461344592372309836262707898336988557387086031390162124117804656443974039415181147960716385444701932006959111782174159888456363402012245121839995203792221219360699922035365889539127224578825487876058562127006367461110731697760579433078109718638444630399800301444602146490710261060134355758774391692347983224434661757415720420384890986826327098751210644736796703293431159600252947863852422299388044971737174717924332574813023974670717623735839481726061791579325334082816316111472993074383011253606722441387042129105489270434168119187572543262110175393162742555402869221562531788125062592618292060430928813731997545532922575200307964457481453075142960552078531906949012159173928083911832519400650951584583317671050396993846673031657642768999128533754124908598015060448179901769978076223231419003091800772558850055635532335044767441578720773492293989990720112845201539901781175952497347565423867118825120692323182367783123639013050118163600900601919457173755188301123980930348166313436172994089903758707829635817368390151092677451964763003787007175357952878107378636696208008148141855890944650990883614347470447040923165318726987323588772246998229075890768870765727302229122107424673102140223929478708598997693056288052587906339799611469668922796429421049546224811736519092536779772850929467543407916949496544799892158212129034617500476102252166823404155216021641923753809843263213447849031206132944663924217940192275665501274775032103073738702095357042818120842618431425642433778188332544323669944146329451767943171662094073484469935688938229703035299223295070337605748326937778168170388115110677584815973846236041633334350215104731824060454514973809209145868043319163657229884726918005205178107321324847227813645220720668069492614856417956808818899802340595120266196838619092135919145822808147432583502407401638814264582250923904053857045697320287840861504626811667411039034118275821350722301482304066506764727184055537465996830296059220473129725234584059795408826324662368282087645403248585930304341633518105002073844464150764867476255620470321510503898503165293164675822533614761758838504438137558733496919875675769255759296131223730908566507318749961249769914866657013947940477287508575705598021548449925725777740284507631001471417265665124716001967190870911843983336448718888968546792880968857499803716957716987536151279858398711943932101483845628175926005485114525392860708781789264365099057668072273677613358874291550390606714807153234987690677300023136606375543599813330471988304986776985065801706176814068035619891024922023149662735589195267814837049755747939880161657549938640150298487013035271601870297446345020594524470035089781810760406759683682854101729839130721889022782014317636741730824722355796757231221548331609512334072696309164836776729009532326274399053705612013874216148569818394153934477687081893368584237682466979725148911499015839316779631478536087938727267877283718399891647416161837648041713870310511527733266908887855025606143949509655258391489965686537937263620600037982380052396693747459072893697843596291493697890154444693842122636929143365440052797951199607139998759903220444606585302213179924299239548414778865730746984879755797797270628344260194543973781031807668608383689400803864382249461419361732603260636328127150972122923117359114909946859361234434882390058244153480161230797314767287342704180692292515192364189590698994399636949986514080358887416688457619217715698223145798140261749749546110970393079239074640772641439132600343248239856693705475880130728982436611502151609320021159111691775751735791851089346324821372577588117871250257259645476029791434193701342292418512873566799597448217983120459128608275923468456054308046408574765362370037833048796483637938552483407756638919666265389253271426227455924780727882654210316027298098450750669727951634625436902920102031395094526549567009652743449799276894018748394429610483286952320554641556472835950874087497883174989621353293945793112625625986395932330686010894891206007966885516603965063416237525608531323056075690301922685512876820295372284488453679911847051742138508340408355259546555312423811057408148646479185176173491517160575741234745361744678203315399368915068736456643900273021716662458058224297423355068757875744139889596799643878473503275890116821374705349097900379271400216833360504981814020950873558470423944451953653441583943582819454833811764024205664996981550718969381998726455519244198004991492081505631643245766526495797578314082845594310117131702876472410047087198794286411767234771777436577601965095858831698178596182010655572358368880254473556249149782330687506746555656776239049200601439130246787982817368662341591459509203770419314698430490473676479025335669273645809781265826734438225219668526348826895568945545458928777026854046500279421838681411126838261151201211892936549196687323397809091224416996586269853775549111075447206187773556240342236202149405014342923889231748117839365657298734643175760708186147911531940071732930837909710528071588174425233823616282162198185241985626948357808455165583703908984445409053570418061587909012455131552707662142316299414834627295582706434135262091796765363896943972573415295325900190367912797238641701164093933624410062390706522615000984003498109885631298745339574126429444723400660621534639987749569810274416082383702791179519936874433401358950444492318643279647466787275177681340635315539594527979576763856276154548231062445822108348951472833573882481738460128727466692969630328933188947812131817672933720812952935983738032022261151784982223574627091527804545792965361626530454158193796040631281861052902436702277484043854117754824288599002996560705309926991494618307537421166456005979195793509079239278007207109347144416712821107656840119163907970766365496202852581984826512359275111905951803626501235501830408132390390455151059993643867964616670358363777337411131839372245127270691198752649681924950568939359804296698210337785467426156988633419869044031771408524251939826888668933265495177071473706586128757732101688044595469540828714310728458104347205700854968595382710012073129995812638563760111080986531408932705646616287883303520830259775175354407304395979519143638595323837956717999251519520389354500360011471705340997659330706689957078626330301202454768411227532885154425292369237734009444140711408676397395970500755607624895820251836740124018299101350246419029146576220966758206262489961180588468159547781231820334670956446302370365317513060023583028725407468013706251127976261280933327402631843507627259815296641770725090842566288724392375308153399710043467333441573026363960335566274361182289605684639776392679895832873751073088887514243966160158504361805858885570348129132921404603900734857411416773408949930735704506364845170406831875946089002590162999968513110471035873797161299454880240057342977053468400965059142835075767190800356240837350540355044212223322626815521875993903797253689583652727508554964454548889015038821642102614335821620733647375061617485032460260734814058981697472635773540960823738616063094943274709667377803719547737351642484585454998446712893817006854911926776430144103442430199254112562483832535286133694902540272911152557640180341715248454101714173010277185838131611024095194275916708605507256253422745819519410033442912535972047342708273934362351152359202873764061930817348148591164631840960205288393560992067279743929068905382929517850107313734579728118496398042143102944775730314810821315604219172410859361162351744094663514398848098559955707888902803161906460344638383706653141124194728608186572381473266010787900956085087040636705840103120959495399143258046327743599947183061683114084554474598101312517802326919193076717580116283522706855818674408950726339091791602054467515853753494714207703572797716131501580795280438290086500271818596820743446304621947205785789505298649188407755691594999171590605561865283379967412083115564830160081273854683168395120706365563083117857279581255509650355557984048835621650994039996689361083518046015875679786439333731678372928496813596416286436111224244653874293839095681180103683145344521537862611545813755936779445645846367960497696904529996211004986574396588609879345776054976804611716513526768413911984637941605163146824457840326603987465369703517517240699489464439383521634825575995500876786008781827680924756560326264973690476197894720897132451055022719789988986485279554799949909765268767535634324590305963792541857778514945661787147712119932873389836510390005346942686080746552538516441558343487036644056436459340613752298994637984087574266346231728340244959671117487642104488355787353633246970717749055373528069714261700485715793576886601702212836169965870134634350500182069369650336621377234155182344663859228201058808629766719979801437363990460097985183858558627259812728817905251985708286273359360154048115532250043003297864170158271060338100001604347019557034578105455346612305628456999077547588229928660408409027539973657675942590442280644198278156899897856766559109052271895145304389114949040540533234788765994757952891124112366141778977458500854880971435747021844450890141211930052304647809293652865363028244865728352902780914402149545667162613755157990043818277054821026549926173040212438608314348437436881290454506568294654317383968191543272956398852803257412646834120388167265957566544148796895579882200377996530999380778993638962522435525912371771332283015807151587614528987201501296320202687881792775468111690154795935595306885986296967510156206671657846305600318489004604609971445787742923311317558370839167612356799344370127919210857585167403465801310862142890362121330779213566257580855391214681722910249148629567720860241840039739707679437042805325259619140224418545140735796719759545953060757629162444434916310946536653078788638491995691284026908796580155638416408320598620579492991990146253997360328722148164843898340233836136420874374053337389850490657793383151102689783965816798214336527586424518425238771792349408097296521351056799909201799616216639133083219797195830253320530786156365629854358645856995263275623238929979430342716703590250346779425761230792295692882077198294130612073914887022376515982318538563513420404989475209121461252798700517895359705208070629395411804041282350078652182990901082104277242355129352318598826806692719188207649285222096032758268192068969359507868801434678328908008042754366648683843543097164362099243070984641684323798076429909026038328004303972743895392436354386159356857189786142322969227966044894232788399487400434787369362942308178508321377855132991936531451064555894900768898583926118552932623782299703788439821862635699717599563482901962361081026139786036480439608534100864298955275872819088525312735084849757235963497890597892428371222759971377577965089270670495730314157476426677983720273293352309040606108259890344061442030179367636408044303636040900681631864915514300178155962764213782757551387360611170074329792758203038442054850882440688434337513158733567056359214242507056188400921339030284114194142013063273768545623651040985706909492469877498928252109431202501572803938727225818087613691425533496478695958122738684603763155196935414078770165214127806347973639823550652043460106059536110451642541952420146357185405182643889593699066759689879741592521815366457333804661575420865371867235507486344171562816621421490569804225683602141058738802419681546404942156055442604061412282165157453644622181929755136338182237143638242597134640371819789207030723503602134215271080129009587287038185099525425762390893359068666163730772054359404169162221523151357200654837107975531817628196482368661025301608559184093579601614170988660548821273239945206278092607542763324453122002063225388471781322180092980312067007342511238206307586365399152693741632264949233735074547632508862868494124140384052586338227153913812461938773370258337241941237541242137508240177066457087382872658658357082009082444267264755512523170367774024287814810941999343309367683210340148489867768402240167416826104632772802729928107311183660371780133752831999063622193655254466895442887506280360819398995300857904434218676715639624945391653972690361302670188356693115360476559578158112419519848505763974666641807422976731705024077841930402078287768432201730965039072981609679271089531695364442431552828757387545488904079403554482259930768441703244155101177621809843767834824680235088527978414256932368759830775544654411794712086388189321824625889036396676319902799049184186046407792619471788575494895051360840152646895647491029389075218098623049515012966544739237990648533928713255368471495081065552516049708501544070941583955873778563578007311534782940757832157600448626007854383236755483934134158554926860945803959446205461682541862796322500514564878400811936540665062841451438441593575952434270340936901662873080107215189443953369256401440749592158563500828747438654381340331395163209212037300960935427294957218907643684425964041561761004503028319752121845257216489784146154324480367932768428213618863268605518531373291040892227060365124643942019711453471584114239969804661658008209404419619904525352926210747401070717569754047298514954094497289980846240567856301581268626073206392029581953518368830528114583226154598140494841297500385618058366227450927344840362255626350676459646357785161699383870499914406393847122499661951860110663531761749657268870289458729407065505066019846780461418783724183301765769449630539029850340648121312539585043125113991154122594329863312932497213228479121485016578973814312358310899554108637872909443511193942000567461764774534193372279332050555877791050840776626350761870005239516525361438279135221240323882724856494489547175048375871373482432341838573472065511125076129880128539986630241413712094936577476619857446961962631157041368596863351667547867491358064762769348620494877652760303853982914837892465994158747594873311227302453061992805334443249492825231818694397420012834771877035953841083567373159868110086515043971385387988278507349754653852757318004050820814514758069511247750527660162532226001484692708483472921888256021675166710053503197239152212922012454221236130691812407428322662990049821171742980137392870868702807720416470150088066592186501315617326629691696193796829999428983471106280820352403221930253515081612677940234820916219002851598291862990324974603845153882406208489465011205200411212338214941581441911648989148701159865350454446836053452332873159204963743706104904972261146167040568610649475540609094264050929689844573919214146711963930855626898062982885544541748107052355305887858190660138006453765062288012400029423470465509193231504980119835773120754998691531166147925985796303765415126461575590885907971086800087353424476297460104027636495169899219135389764516264800913892168927426118155668296489357143190107475556254170930932164679654108042539314457323517830432643218842761043715261456454400680426717306139820227986519032548521515393486556768193466842119476786082697344162964870296788549100187272581809509699207651783938663021776901669729576315972167579167936544917827622040400567255424420937925869271872921523234117113327150848578800072288190815993931348094582689991453873171066289050408153299689077472724604453229239376574833683224100971861921052355159914270098207946071701304301390682231482562671794866095305107213163366266742123272793865608757354083829860081371641884082709420688337495705637356090447074287305874246301546877201863935854634874953705766035860790644164765633851047671807507277819704941613614668205529853617122811888005752979321029363445530203765386713915458282896683362635937553042691068015689205028094623125218178007943046175862681238872458741730968595344361396711056102917861439070655598308470049337639386690874079329861626120110394334297864916022092989823369993892013480467292205700816500893041024053895362909072810303425808408594796143389352775229173531759013266467415680412283276477808235410113254201383232414943460492730524091700105295549182588590145214331453349454058973421311497320614506343279990343265789796622732036031726697936525092118926504124388716885991496271797136833916359753961003572087598786852893068291531662310174948298641313570250179995664973633576795758165466677423516530487500504257044494322121751554176773892510793215107581803849565551467539412251257599360830359353929176750000925513046785501655828232965996251059485179916954025897775684221548636661871189205204681029508352159003702671045469732950266533037888150109724832357539233271913145631740280211337400388086443601079455435966614617602931133332769285515291787891750157657199887949197000385039561850804165176019987117426056350973862427515610502925159831017797400818362413113240162122722717101640035472918713461347596165286727155013746041533443503208890675301603785003830953528075647978528255559256652529367595161072846091828207643813342079561698695381786068129321510771145100534196350570867867938444961425304178772380641157796705731224242888306938809140237029559135904637468345417867669189751335265626960944649056120465501772471233428333029311153115732003389879137555409074175983133632573068877368828734280188328044098641122221911428746877921487274999384385443246494954603544908539864850580002172612409804894497874400736972678106052453661548576648998529801284048034345777676120618352192263698164866325662421759160559384475788528918046911948100065125992399243547456111256038211044438479348119547558588011570233923768859901926772500232144365821711874818717415275114299947941958945229819313928536562544032086964567127967764730970605481255239188892758722692560855370805932934583091085417550578014082182716383079358062100342907893401338076315821154903501602696480601079691767464014826841810302721904499271793715937612472212629998455715549163401858236449604939604364938177660231531807622477211714699168311926965281476989681340458417505291019894872147778461226423098713770671530644059268389011620310292587367018267496302485596644223446469856853344607718522025023940728848566289246685089253647882514106551484887363649224178660170585015191787236227134420347335388151047849628158939766836763924224019492717991037538455819357790678699151104897217453711725395429525428019670886609514059910621971133883437823629394029027067390603642163514575298662206738150463134532889955169624738963509832984515379736386607829041231589990746042721102529373429098629111538724402648964654447183485874860659939737256621881129714255590305009850687899717458432841887870624470827362787252965655697689774013208372653862101826974964076971480864265642445168794181369040253825932965100964851623052726927387500077684388257486580705246902868344994263146043675338960019308296942135570567827603592654470657825399061035358306530769221013224837744256510566983025696701166517672250060977178236030574795144876313589512237972291413090911516723558493451520549785259476619602347592790347210581826224946748523906006403688205303369618202262196012911824463943012564571930260978355852091647635326872034908912384606298312781747028238466238045365928480701970485533495284390867256786410423453430470464943897172010559143096459226878341019383520309139294825878271285008930259902126379013570987111073955541425341540384575522800736503237328452443701133325967509025996833409282785965681986818805090027231636742088409713341378524763502111841007198266459220828874483881513016952787381120199520350130790107264700892059910592824530264338498845144366403472069904953783183689116772529389620748396737606293914309667394777627358972678123658852432623603166556583805713140647323561514073256092994496654756270868859497255789485746874852118345192938111900274739812321545678727755410996623164357889832292082657746262720799202141349694834023851376027175283194435761534141214720734901073909088584623490334518608250187924021547200753235319418085270141061356270711953397199957232942208039928396442353482101132317212028130283478990627597867746419861719333475667734844980229732430779940411269944491313103530025797192643042431601532635222655956082227425130465255116613510146492369481335131424694112579270450614416487182871950879342998402618167588913144815615232402147732313042769212479643454126626030893799713566931178102162624267837705216170063254128688327570612792212443597845212743104551282690451557304883321048163095697241947948918321389444929040986704760046753507295732914633961935732736,
  best_state := some { pos := { x := 12, y := 12 }, dir := Day17.Direction.East, steps := 1 },
  best_loss := 102 }

/-- The search state after `10240` bounded iterations of the Small search on `city13`. -/
def stS10 : SearchSt :=
{ open_set := (13,
               [[],
                [{ pos := { x := 2, y := 8 }, dir := Day17.Direction.West, steps := 2 }],
                [{ pos := { x := 3, y := 6 }, dir := Day17.Direction.South, steps := 3 }],
                [{ pos := { x := 1, y := 7 }, dir := Day17.Direction.West, steps := 3 },
                 { pos := { x := 4, y := 4 }, dir := Day17.Direction.North, steps := 1 }],
                [{ pos := { x := 1, y := 6 }, dir := Day17.Direction.West, steps := 3 },
                 { pos := { x := 4, y := 3 }, dir := Day17.Direction.North, steps := 1 },
                 { pos := { x := 2, y := 5 }, dir := Day17.Direction.West, steps := 1 }],
                [{ pos := { x := 4, y := 2 }, dir := Day17.Direction.North, steps := 1 },
                 { pos := { x := 2, y := 4 }, dir := Day17.Direction.West, steps := 1 }],
                [{ pos := { x := 2, y := 3 }, dir := Day17.Direction.North, steps := 2 },
                 { pos := { x := 0, y := 5 }, dir := Day17.Direction.West, steps := 3 },
                 { pos := { x := 3, y := 2 }, dir := Day17.Direction.North, steps := 1 }],
                [{ pos := { x := 4, y := 0 }, dir := Day17.Direction.North, steps := 1 },
                 { pos := { x := 2, y := 2 }, dir := Day17.Direction.West, steps := 1 },
                 { pos := { x := 4, y := 0 }, dir := Day17.Direction.West, steps := 1 },
                 { pos := { x := 3, y := 1 }, dir := Day17.Direction.North, steps := 1 },
                 { pos := { x := 2, y := 2 }, dir := Day17.Direction.West, steps := 2 },
                 { pos := { x := 2, y := 2 }, dir := Day17.Direction.West, steps := 3 },
                 { pos := { x := 3, y := 1 }, dir := Day17.Direction.West, steps := 2 },
                 { pos := { x := 3, y := 1 }, dir := Day17.Direction.North, steps := 2 },
                 { pos := { x := 1, y := 3 }, dir := Day17.Direction.West, steps := 3 },
                 { pos := { x := 3, y := 1 }, dir := Day17.Direction.North, steps := 3 },
                 { pos := { x := 2, y := 2 }, dir := Day17.Direction.North, steps := 2 },
                 { pos := { x := 0, y := 4 }, dir := Day17.Direction.West, steps := 3 },
                 { pos := { x := 4, y := 0 }, dir := Day17.Direction.North, steps := 2 },
                 { pos := { x := 3, y := 1 }, dir := Day17.Direction.West, steps := 1 },
                 { pos := { x := 2, y := 2 }, dir := Day17.Direction.North, steps := 1 },
                 { pos := { x := 1, y := 3 }, dir := Day17.Direction.West, steps := 2 },
                 { pos := { x := 4, y := 0 }, dir := Day17.Direction.North, steps := 3 },
                 { pos := { x := 3, y := 1 }, dir := Day17.Direction.West, steps := 3 },
                 { pos := { x := 4, y := 0 }, dir := Day17.Direction.West, steps := 3 },
                 { pos := { x := 1, y := 3 }, dir := Day17.Direction.North, steps := 1 },
                 { pos := { x := 0, y := 4 }, dir := Day17.Direction.West, steps := 2 },
                 { pos := { x := 1, y := 3 }, dir := Day17.Direction.North, steps := 2 },
                 { pos := { x := 0, y := 4 }, dir := Day17.Direction.North, steps := 1 },
                 { pos := { x := 1, y := 3 }, dir := Day17.Direction.North, steps := 3 },
                 { pos := { x := 0, y := 4 }, dir := Day17.Direction.North, steps := 2 },
                 { pos := { x := 0, y := 4 }, dir := Day17.Direction.North, steps := 3 },
                 { pos := { x := 2, y := 2 }, dir := Day17.Direction.North, steps := 3 },
                 { pos := { x := 1, y := 3 }, dir := Day17.Direction.West, steps := 1 }],
                [{ pos := { x := 2, y := 1 }, dir := Day17.Direction.West, steps := 1 },
                 { pos := { x := 3, y := 0 }, dir := Day17.Direction.West, steps := 1 },
                 { pos := { x := 2, y := 1 }, dir := Day17.Direction.North, steps := 1 },
                 { pos := { x := 1, y := 2 }, dir := Day17.Direction.West, steps := 2 },
                 { pos := { x := 3, y := 0 }, dir := Day17.Direction.West, steps := 2 },
                 { pos := { x := 3, y := 0 }, dir := Day17.Direction.North, steps := 2 },
                 { pos := { x := 1, y := 2 }, dir := Day17.Direction.West, steps := 3 },
                 { pos := { x := 3, y := 0 }, dir := Day17.Direction.West, steps := 3 },
                 { pos := { x := 3, y := 0 }, dir := Day17.Direction.North, steps := 1 },
                 { pos := { x := 2, y := 1 }, dir := Day17.Direction.West, steps := 2 },
                 { pos := { x := 2, y := 1 }, dir := Day17.Direction.West, steps := 3 },
                 { pos := { x := 3, y := 0 }, dir := Day17.Direction.North, steps := 3 },
                 { pos := { x := 2, y := 1 }, dir := Day17.Direction.North, steps := 2 },
                 { pos := { x := 1, y := 2 }, dir := Day17.Direction.West, steps := 1 },
                 { pos := { x := 1, y := 2 }, dir := Day17.Direction.North, steps := 1 },
                 { pos := { x := 0, y := 3 }, dir := Day17.Direction.West, steps := 3 },
                 { pos := { x := 2, y := 1 }, dir := Day17.Direction.North, steps := 3 },
                 { pos := { x := 0, y := 3 }, dir := Day17.Direction.West, steps := 2 },
                 { pos := { x := 1, y := 2 }, dir := Day17.Direction.North, steps := 2 },
                 { pos := { x := 0, y := 3 }, dir := Day17.Direction.West, steps := 1 },
                 { pos := { x := 0, y := 3 }, dir := Day17.Direction.North, steps := 1 },
                 { pos := { x := 1, y := 2 }, dir := Day17.Direction.North, steps := 3 },
                 { pos := { x := 0, y := 3 }, dir := Day17.Direction.North, steps := 2 },
                 { pos := { x := 0, y := 3 }, dir := Day17.Direction.North, steps := 3 }],
                [{ pos := { x := 1, y := 1 }, dir := Day17.Direction.South, steps := 1 },
                 { pos := { x := 1, y := 1 }, dir := Day17.Direction.West, steps := 1 }],
                [{ pos := { x := 0, y := 1 }, dir := Day17.Direction.South, steps := 1 }]]),
  queued := 34669663387120651335594316583104241953374694213963609860997945705056203552828388929371724007109501575961905055807002631322408901982632359162091155373466249099121841492827927655564429476862286865036459365315834435226924599237334060796504045031453536848558538607553616165482006187947095433873498830072917112982294711650708632649626789010670338540007534721344395232866528772266754841744891616350280493514747176529838595612817980848280990986770370413871477601578678548896394188791323802706200002847063563604293071173180259080050330309885023772972824795937951168102941959393458142281169624196291252546186787787623831679985908355442909887652025545739198004385065900472429319496034896122583760810192464272088742131651032494568585186371279752772050048259699700732478309218736127931396798810526563553968525948757999629489408378507719536218403066684348362654909549747512227225546883063743203567538575448865492690840967202968904869033338226732295886658728421517039355809934201556948009918510452718706128030910051936598995997418596987737950877347043455683418788023481593726382676968391416204489360556779729444866074619285289158042109733864873871282975867762873259147778348693414462111325400489592284802054330950815262519365323412203091472705724600334827221970171201007368425850427683688360205698937807314047476699193765392660257728780782698837033099405630640155403818745194190188468498238387664937326437543156586906229883797504,
  came_from := 20595207532532843191719023933686968049796819840328446475877216909317635688609412929572937259226344538976135730399603448794815080679663047835435428345829003293164062888426111458106332436291558770971099591466241905498952970890331091642132552475647250103497667051543283204264333232867673016283515277566135256261407706126329927086721865047373544994247783210843924100681683802651442684313134646836574522001454766622022887233052751595552051361829369016011502934874731365610205755424657132703848571666467651244924426985522981670042751751218098813912992547268551271095136079308317348754700317009754962386458164882021353619585383478979634262102515107279477616045209701063911696916588361812275363866799313180418762034450179169684210901759841399033139360633196591108159057123230158525303552221516474939050518743003651806686268719121485901977458954916537438771728605488351739813927737961512313875995534569032252240696691492596554891732577361211299045492782553508756407016253374126575518677046768856198357051509175954883969918085266550513925193761369371308329316782757077958431835561615037604789255561065963503394986381708213346323412393426394252509990154844027861176465563891656183262683970014376876553903235720058189834114313041466807411248304526206152511262299459081341590560675019439768736344318389043092349486707264671051413700437020119795195339486029193094676763555212207195557322015043301089896713191953465045254311707742401118603492420460433824559860077977559005175691728706210162220477994224573709624647243691632801175523662094984776236069562451743399373381441856747098809752491796005548116989717557097060708018420246896903462414375363347521504305189179903970760859139863060333766308036161486282130847994371698426357311846552118271948892248497955522982585777610052588972782799768378371545581788579448730424478790889818131366887006505399681353863449676762429833166692786912598476516484192637677338547630902887103688523053431405027792723125222403827712728508590670327063491286630590011401223801423330481278434924702272990390278864321190924766134052220564213558844272227494551047091379785459949405748463903217402346098103438831284340770326359268981775246562560209037362290363075767197851695560313447446444604844030950577665867377824388573206018281517217266178222582303179565564232213041588826784656921901318897451332021614264796326584371084644132832303392839267050220588040300726082844824385007789520242791935205023936604494630438827893710232822031796145228736226777389420278568311829238560006929761085642545903132958188890877755961067382262623553437528223127978881061862545817409560331312783376854126093299518509983371246295747413144863240386392360574188052266486344186363408721378849700131046099250987706076429193485176994132178204299944330827215293294422230286704276306208379563454391926892200924232037033295745771360697573745761096069540195752308162419628849261936520329037604345222018163970119350273471438964137417699407372269819584173362981843573163177977111649684194753905162513087511152713274335706996317649356380513815309744132257976400628632474270871033982419784017219565925086914617194973170770063266210650583950846553627065065290337229201981361674580197204488348964954260768676840891423367511797298795427855069344632197734143837643047206141291929777973868250279423870668838850475052200530370954901101833547171023566019051742978675409040772141041195710641063658645326985014343883382858430053796143589337564914853198286763454165789190223179422064432374641464658316190294940432948259155245392222278431927508795499308038070480988535387550834707808602300725267663984378172298198695359751449638523836685408048314280320259304450689330288547650202719944064899977211595023372756015083179993644624812177621661172920326009295267673312462890348268437156069894429819352853636527889270799876300109125112608428439745776159223600994792650948239102429298601554334457008397241663386866720138118102402046405746039139984918332443672243391390312066385180985769337969663869095577597372393271627527749092466205458974263329169676309116487940879274696669654052576655516976017914503021986692546637450365213220872911489803626386276441406904068376109060451800335321837775396257223435035206273120015178878929751823559523411689333200526074680253373810153036047825741995143793070824995678705154042328321730211954584499606057686381463159193752328314321654673301479031910417096299117973562161730378408864995585178932157475492202124947699700514109329689524020547786267044699484536719111285150504234664992716066572622735563643084965675655200096022067743557503784545781735108146770453323215170916204546624218220838179158349576750151498059166914025026624346738024689457205395897771396488533189354190691585330880331022958976040861934138961115978433588471836293043432126503437818942428027152252628781451934746424204899724066198547563549238388784419316419641728568845130101123161455132052983264930798516419228455734421475694083578646224696455311724844286647253750249189717330492468875192465320038181863680239839303796779976483729603349801218929250169987465948808499645305833965353430649066282318421612838213319240411566391884833415822426144760205007856314153372346118001348221553319881676110972020963395608449498222422187357658156683465602999275290365553593390505762409248532161498843591596267059701512505206971383089742749233099388463642000592402802570104178530055471763624230381241818527176495190192398734901330479374207958770191832367321715384136374340483333663224401559466746185762213346589068500153180238113977064627468219622031197666191912384117219541644440332979860566988506697693129204281061813110577384408706054602148462890943679807245606411193421710015120720984871812564529609143003429746134686985256006962686969903863257425430622472274012575457207647284642432346526230886660075546821844717873873344963693282713174435563934459770371907587983436919503716907531574633702020289668014330818450846624504761025116596873630317957486851090596269019672598778698218329316698916007459547158360160112233495184477314535921489799799514643921310288144075709512250827079995141210771097222345914145319209022819571084443651370440920135778264679367161344082617738119707391935289953742130723859804226000882855946695172916656804362547972666849996936720229830991976436295541600849641544147471555678152120538325373590749130251887678199023024794472043830354888550424891262551686043053269200191628516732543111294641777042163032113914485917419252051998649261563476233227839673351421276224045242085797742217870718909764268305258582562244185052724789941259820675935278636615806925390067035927008395979155505241889715026754327929087981080219629768502305044470499519176282261545398492749932650505684973053471599822275982792930116922593930472835398147408513886966170851231634488907413318093023796292174350841977099275970463506488079589608061213501482935197098461770729222782881462963197279899134177174406289955660574886917267559711441895729247136287187960262804578512528152578330010870859288548185546532974514781507459910487233894277023681229033973521793379677225346215719388473460922166732849660312526042066978947010259542723979209677419178162257393502722374176452592982350028862876822319270040383819955340437865500705227280008722682600181548085969043233567055548427866647524033704755432218290370455531292956155112643729019115514669556281519011837086140702518412803528180442440444081739114167291215517177064275976956343258670629877526474393105160299333576254659466639584917983762202508024573634385842815858582410554978854943021630224584855110870321180987077823284707952603805882862579886393792965981200364453100402035690213993017221925641427013358438422743588233160379805711998207783496803293700938501992543550634441631664276894237288085414693816942608068541824502411828639763074580127145096263209618468280367647013542366292954168296403578124267121787587476241544408364796449370624986422939022039140307822856373426518323610067738186490913383149075130118690562862744509364080179007501953257340516723229219819889165339055550467680832067663619699479826814087827349309393017919842235464573407406706833530980016756185637161043147879660697123493558556508425762878740336557812465596005532259944121884914304428614809434078216036398800995034259960475585535046399936105814850531266794710899886669560587862566646377980602509261441025700211535111039395460728209441246649773310416100008311775650208298216038329891045087131743196557780131374496455503933462538920198743640100183183073478898525093852677163442821984881552562199548571548680674900447974845813244107342165319378557754180715569786052592268986451011064170712860804371850075440429586541522458064430553341848508763714007767291129879817727640477459319641384728957407063855325168716713449189139634565091794591838532788759323222698088339701970122933686545026625968410726142755286094885068182297800455506874742463507269804375744184802420275009056438187594387067078520859578157906098847177534023944591205278955671958575422725054188614012321286735185509483245101608464961240715992831492210765607177024495516002999316322353272821942935698015106333770338986105911342502638331582944953638365483251057689739240013135490356796568109120992840416759549603327134619416419185334825104902834885364004763690889220476968491326894636826889872267633411157615838033354224658434822208839997256307652277288523061578420905882365119127311779240458489891211584569866915125462522355045526028258235222910473961519854406970951237470414804919103797865792790084593662734186227246596112516243700115954950623537356469252063262117123099137319553295987894350588238958887625871928771192697279798949547037704066073451657410427797791749532357653209104794764927952660317871152249872656538263257616384246466253370874282517318916534786780638764765734757534392263181903180333472420773444259676079413933218900964424345501702528429018942199031989059649741531820016845817873373623160876802444087765202766104943342508194599697523983918916713129269014975906751903058923524328848126168871111639029504984496591118147232782309118231093911674484724822665293341818097370319201677603164535554082540376881664922362928374416826237784219891555504590360607576579604860234603498809884723383617402229076290090255369242479060565382284030379905048819604955260798179586625674918839172631596357008859097938068693001979543878761253668351431466512187462661696862035943494150525399868622007540319771242648437992409677544652423870098734361868549750231362448425569820076366430647369389614121662986362509042475695291119441997886251444045749471022773946219689596703215700534691935613548041350704044912222314105487388158915781056242430070278797138352899905821510619392581745680085178235399832153728061850907529095802654864748872701204394784850174068377047807810807512098060523856792284373596976614793961092938542099847157368400796439019123674823420978598033802311003990098584019174818891311566062750968634329139365856075570209228199553339261307317553671569494820254347556065524597762335772119216908160203721620545349798425911094659868637439177264331177740904858493069881695343559156343787474940613975497716372696555821785558655173343841652512771888974820480206560742924264194577159927699867664970275604811984982795857723007417800644625666153447016809711853060153172475207723143772043032270654370239487814567121942164927073320783572944123722851545967013201527643186571698706204017630832972774692385670729111925189693467562305136492116205452532203538947929553818384905966664066502702946922568602486246256061035112596455824638690579630307261053583589121911834550636038015354228845103585429947817922537619675161310833171793714281935657027210640101814964008444106385925969072824175808864429988434662216946326377033488716116806100114659735253933990527851068129958490776471487384630681360641661126265943570800942157422278131981250861148601915995356893777744247811926302111504687778223368341890161159538881037388360800673413038420386147234065917633190713138364682240465421332662967370460000919060597324282573659932554297452547595793919674946297460439859816224532054597402584733151363334154280936600044389848940985225888922605085642455060326543891600042510676401715836970150413463320169580402924096919289413460487360785915496770383867283310870801523008225164573027756745203753867520831462601317564878033464707246684027979620045354336550608454140416067753209586905640408672446412871320070809194925778735682025122731278567623981404912248409799909275253408037983963716225476100287736641909594906061034959735582217025525371858758994166575164294569994107776385964362946571823349533936273836084668053924478409893514024632823756801940670162060885565365317256213755578193909887924475872276293101673259573523764594231562954957514299208375647116629362784549030198652529805798226944634335686388865013575419252306830608457095978948565251083550716254612516840830135968161474933416731766929070950874364208090557626853121723873018423073346952653354684161891411140405417792602719380171433841554319521272731586772991221932575919464201733191376249488218083944046629044432396858658198589472166220567715814764638678781360461407609836380361222961492278404343879319292890399828494660330800144866916691263678432190155427851757863998305430684658851498618991023722202810076015070570329702849450891567184505536678742187269971918960971604387991691213330334223903552036933705351041786038939981045534017061609748776102989585305895820813758588271584304148271023965046329489410031503391001284693671373797561945458021258806089158606695752579456648114464927662267082572362487560922628863527695803277233937376755080568698235381072485260626679685582309122198021662435862669838435037344894541188327517701682524434367490308634119548077979241315491722020278110396158469161770165389957959897444412541113561086290815884589754688796686543895699846690565371691086235693315844217069903189157106099260202696863716751890410544145802651071978758040296576275189176353639061119677763652293230184718777818794333955087075129363616996414247368455998835638928300558101267171783916131582758109581827555945535447540144609163321433962182311710109542835302505964625044333089294812493009629329524771466248644835125500947475849677114615412940798156456738643969492017693819482602152792119392397046583879721911109341262833400746680562125621814426567832644763348177396821277356644518770493606801180622244594386113093102134056158980652425001514328231176019847829311106045325678436366510362077338697794387080788301878786730825842411608782479844328331108108675511816662854258559860748991139594172633129116704634110461112877496672474718983586754746723843335870117049261088032640078536648008231047977565357610602739957713828951624242959893069764437619876351466185005529533933823196740453974467822953478283361994984538904967281678320661623675716292030168154748965678936307221874862359719585375107385859668109672775625982703626667457233864232141228594868346335227834405672846343897420584933128256020570216459521960605536798442631091980322144717521720844637983359637669712589948470094910896024393946214833064405435549426196608694970865568744456714317026880287851093913034454216231097664311499152262623828864490483079922121955781345507120350906184404188029453946960919914651137649411754789513977542824985346030764705837826792491361923664686032460421349701937786324805520531744786126422882430676405286274266566437611093326168727249914956064371690776306772757411050266884368766411210509013213987595103035080278785072241839630946671095694945603819905968614196381974608953412084754121100276164805198513364743793103187934453004714654861736293867710010303752748090857875225501721133254849493553962380349616329332045122865780692913363281332830257260652000907376578463860358064563396002954296872798465162495316049707855370451055860483682699153666470950886247682547771359797539227744134627195963287099152239956757641292124665024959010670614807799236971014837700237819207510364525878281742067369001861410286181018886309429896140575670811843934320856162154862082455158035004758290418404721802833382195228663288126032895422186343010981114943531324887529848344787664777310831703533022650019739993447658246393104705555450875587350248024878587755465291051171173245198172990185700887532020283642785359658078698186890596841328835515865962807545968243415226973715948780444454828156150395967114833539609015468852146539041152190857079777113127091489792043431527859168217218607465904069174883492574212641879876937737537057530496275212534146684890417828386519266137039560772542735574742668614848999746578429487328280455563957478818253650699513731144906037613027611164751280796075203522849620704313005348961775924401456355498936224660508508217662068317293718063944198189772992272389072593112076631146793648270404540172759928827983986853313353146232255114555514643727478951279602709528228424475381367802736718399595795339078215394183044554667779068306070234384296826504206852756668587995791302577221828235548505524850461530486828747226780208584479031261988268054311209563260719517996126465926459287895217148084745655585217797057350034509409665926422810284105364924239542458561812081814029292763109653997439552955403808542030790031847022053094568449040816606118254615964982807224780775389026951656413676147910573515370967619386036790470017682302130044882052398017810067371218859864894068808170733235392593036931979363244537213457017925315691277025596263948897560717239768445983014972802431385171113311095756057311766798416457885354634466689336731578213874916258052834534273446439961769266274466372897538571803656878102513718314141686560305625584962423573265074234559435168655794259715028115006857409115696037514098899956623860639032131468262478813299423742431022766160844638300595629357547139149083768888980833078834575572024319592963512488908505701274378672623868900891237652880174432841139389241243804796342371034840932633677696634720999009057176347632719936135531901520623487638990774645398213835448715707769308043693223859151579481843376630792192,
  losses := 49741013205785329196855635049906967494117503007650441372244650825622501964863598024427905931787599613470295453541886597853603054517672490496737359491494903936988499819632131470477576463489442161172334544513259014963926345385527510564576123440428481172716069387031413802179276750082813554423422605444415967814426995928860159189499755034729688132820976909268747396340494036175258671508865448969202092364531584098199047258325809902168298129070218158566578182918173630629086262426683310103836660395512058691352727642802847530438182409888112113337222531852383589128130523170509134655968487059908903587676435855498485714910118552571186283902213161357002200604398070234721155372063898608368999848499468778561389947173325801902247327777842391941492199131117913658972173032289350271775945059108795202330761274348670378071653408327882067188951649034131059089816573418952351588800513489708417344303952575565869239277445479509466593073532420072278650297029825091911241269476688609088765772328332479031284457132890922557093398512505829474975914673475188424879443549231285408925513888768842908269046360210365396106220224031876630119860717778992117394290545107953510164327318113526605718283947085442303296474820904013264672424536769699850396370925707578682749180258417921036734565927634892158814402904191082052718829589127046242823875770999087736900705727213758220659269885588120778067131695267656879169012816016901217175877825097009696662353835299448645659799280915321551569000663651014025053390597812265807454723599661212124530971360907464254390346871593608234163246692797721997445865964317916102745901392409030307286185302725204348779070313631181354840783869225255247333244428172425499332383597550909735415403490538052109206701807007874886545999369245449515319282768493708072233812584509316541149610006395170256271940236592722980679089026809947509512169246517597665280606490541609855208180283967191635556758538009077692456465325903618390189097845382541273861313709369607614268079783120669725699519013818216397801501949569164151679562027016731833234385413564508344945873386250209604237432499855949429843273470859523331036785531588941735291572547485348927234337597546350150198532063737854662168564565160210189153894701924672185895221306759311032469704310769935315537659911266693780956683525144400544406814633704427669313632869948586241864114508607800639871017201367342189976497897132588985497954054477369653269082442743967546782420903163837740935797220242591867466430510771555660738207340411195750146090636730096111661991601466305686988248662774122226794137707321866601219328893283751127617914759442085902735873301233600875505819310769637154888517637988834571207277131246111664179406080673584240124265232443614890933106821593526781859009418283099806196191753882507706727535836968240668424677471969517852886322898844637184651908940376112964775112863091549128104155435067286461046267440052238907493806352910976473121819503942784042389597610161914167744337952865892413733733478898898818447096879485779288055044388187602128851342251046737046109051947664892086021596339559511513096638535503352271547330893226022862519231869606820129973000485274812698150440384475628436120240381663466770010877621911365342808671818770319218783954818781278330765660993202038664557852949455641213371184744679772782259601093543655318685227872353007920649113216795980126027642216339490197534395020786271276342703937954674844520790920832621897986871644765845790932239771828122703537628024299849863934283034715272221550970800643726322776235750074833920901714831217751618831433070431755890085053646556320297981749368497565230153063542446242342688067728621349199748439535010439640304500472124180213010367407929257395615584782399549202236488638688729697898295804682546441158784972674728055628553837413464807994361381568781637661326645243959133823287700848277788096497548848923853546701960291919266291699189141290910696081029661204708920496774386035203973136485850014327082176946579127330238148228224652932185780916667714991365003161545257408287516843824159227785641353554049577612573455361433896264498296225090369162714060889564708195434235667136235844940849500851544904147258058927694793636650817035760816881230933615327391680490190299884854829377277767098401627938245654817359837572923228426838348098378339633641203322436904269273326400022127238145695821169666212658486468705097556946936345924630659624728270208161342548237750612240403676560926244902894255713578785161662287748542949467521237420820620898828454421521449514562901579499913049160895168219856396066616210161268924748941596689634172344368016431329650980058392154389478212083449995794240179518539595652830790206747637557101544692817740027057219887520015845276333351444792932659214091728188572257575820318338977476737767802797625097554338172140528488013403870386633973462001525635947255560481921043711395298382568569108771811387769360374450233834506983666154090069822573097002752819137096404900949608873207446484697571357003919681551627179060620130249569755599311510039169847800097038951195070964375827467426199647720404920497757318448734022549175414173527824502102204311462341054189080097306941034439274018977381130081982102101474937153810666904949910738865471126573973240073982388453706576672274674769758159367423239667952587453336507743027473275231201170415303389711931691738564915008672418749334094711244384083635914239187818457337893397779312150601261368998562782932958811591730200185678787325674347210975835619756710667548025857710094905417852003420844718135890129112416548457077224131298869474455008236907949971289390884785346178984969535089989395320104050266950049449103252793667391669254666010768701179429535836790992684813255666153267596919147450036922161265096092261595342207726037914567204994884469175948412964692926369282193747267016388134574037908139785846648898666175409905160535426055078768416351975610442623421392801335582340124541420441857325768448156352373703165000969466027216396189099800033277660615582663891204206302373136812475892312619762932714172952488300826026821545315328578726072190852657272069991748518765574882079610206244858710174665722907671981062770961468787476759524882601005099336850149594568876425898361709960123091801164685555777869489368084160585919973759852448885791103219996206837012806436277008702624653120750510788420086580666923014158076695118331470873753991710241616442524510267375901475700188532584565247586314387361039735029540933856451295021878170475837280104371191216179139228158567178459632681461992044779538948084182205143499022487021576314800379227966103470990777599299546473507444356790254128904181201688898458844891189105360455057977980546298308095023715770484554459010673735653797207415914583055257127043459138597905575974036572591649718644986711058370326864007262537542193138708862330922618151263429876100434000075135869502268290995669399344351118423123563039512192572354190101600443627629630350248974085909885622618995845572325816997487808103135335102731818323908430544152216670821236399228198234250533658895808479553028339895944202889290986765622251342699529345083385406322608904233913718707116116686548920182153368187568564660039116319783769445437201820178953767994219476429286654590658382943975504512852675105069980343309031175957526327545171238489506363736726849698418344884557823992439050756420805672519054927691783310982408526846850242252044517643942889377924080916132428031860934559400618348323156238784365432014929079734967236363100260767404613641093954230574529841001996909978829859745953249023615557690501552460324725942240149425789129282763023695501311574367859499066931803171587341281015764417138948578967147866861986066299791790425179160812455298100577625382283212472187170989535174356628320811666682506401708320621349375394799568152759148207433500840617135093166698925450375172375523635098758252188874645585139114046570058117170095116191892464221010472418105362813842859755684345683186468260793305338489018864202367574658327592160203027159861661155529285613246253211127692382353858403692908488972330723205641354303794980900609914046756487221961143155262768982781062402982551362855439156846737979555651580443663052458487627927001510887002951548803699573794976057103442279238428276577074686249008931062756846775787663652866653078624459994738243990633455839724126989067090769298798850142100980194808469085422112042488375903409880342113568956719019374710853945698881721684320132116852400341219148642562876452269808928709707652341878041444750933623325233029060724930002885222288789806407362189484417118697498415994113620089088936565409235007769332272280113749617895719182414617514327745027366615649999151990369520707226723662782200177724735252867163072637511552004343299677625250597027463388065973154868280073261411318392627552744569897378218111978610602305442799991697993339895318465679755492574343151337444439713895492650202814362645163081238945853045055491277083528232416288651517012853050733504669458134470285340988424373477958169816785298168472238250771028197887051243204896647660098472789411520421414955774651245528976167724013515174383021895622385951543541402505113035155141074738435505735078256625087807669355314344711709805072075137508160733756498968624182064912522020865632843271188326691884327728320523814000103826094150806882149951347288677014131576400623931247861986175773567212463459911330803708776452139925180245330666995058745641075248640418507278243443680893045124290723183691882547768788566298435203661767117189964342463096370905849859087154492962232903475394434943294348289184013174670902895116136644796531976560365187458730605918897853742804593273360476237914139521542953228653356384781477149160989083929050388236211284435155663822106286149046872715901163274375223400261257284612597280605737106460389867272256664262324249975263947248454963995049326258384495083617944661615745168394010829760176220999682804826457542166302168485238186765114231398003518582857065002222757849161647658145416578976567988870500510044246676438451766470142900927409524209634809736089866701653434449808180899976599239746203130628507724170466691167367711987546430091105216005641334469340723348742375967260008053780095735272579366537568224049242097311520564716370490884746336194971664760152783157151797614438921917615188848524574784008637058051619015143903454077554305568123330504754447863337487003558472378968145670316182182127941377631679768517470331164514259054951909732778845997890505312309443735678951698188969341902552820074578768533846372277569321344895461035890603890608970990009432704400678473801893025697144448074938252266150278299422549801707244622665092603390239029872279126615710793381660600856469208052198953744506903999884436137680873904118182488749685764572700137482112847093103288674670279179900686031682570261596770660013778730860968730223578789076982096570726417915497960877051915907189788643466779404164115697367776255843094241232627276921626425389432262867842055372777052232727459445800759553246253970957303700350324335106275365892982389084907270103079660396584572423902202593851084771702331000975485671629054629131292442836428498330970452307004968797618141643112050329404995582565187239525903018193154356029361917390204277157851415917550767897185701972371740820176116692824644145892460402294850519068399199203101318324410394582850645999182383183536484998393855874287337366023979763026035211660587670253204204232162913227613930605674177432001509120664850003024131264085464475540362217428629252173389081471496506683353011340353072288866740049419857848628234852836367672845376500143552978426251466703690787373324411669982722827563915780405723185572498489489624551599838993956505040517751308445184389102250235723997829608870091716439902988216264498157258574394044268279178177856432252822829182731585699186151634968839743473458909710991950509294636294416449054778849841568157064610640653588057952003721389495427617935758359384029826576992034507366154270301284040305759535838997174366408274879140422715114986979813908180291675940800611680381035507075395228578914445941539422740847837212332712981918019903141039241924647412777364956649649268059167786846809151250334258908261625365734858959687869998860268283762556047334286115385816119682681572934109755402331854123755565762175657322109345623747088286847416150605419146153826024005724920307725148558447021243519968231302292638632863344337686841214677733148031589475282332631264510935091505867808382451095185309028484219746935427003530844853156400020914912829178085420049359075751531780780328066883152157018095646021213177369426675910150180804460869675457236684720353931044788669954895476290579580239724374942700682771829889252579023063299719042948336248846826375991130506590433267705776901220492513957171026981682710123522276334947538929869852234161249725177071676295703714449857888224365562827233894941497137013692116578176878744393133409736107362122096431762831807838163241751127323658339320143981298778188812670961410161634978888891563276623825358592878339754834521594974244635241617810448198009580313970783563281188498457563508757432578417859367397570339285697012928100280720146284883089886868294404831543654142096045822028424289197125080191049878984910558009233788321678704381895814366763001656015932955157149260891736044451096388371637230366807166263409628023113309214636255037535914168053693175826042710608484947752330943499413722864765964323057218532497560184099746741481029604321890861791210777238240798062358306115036464188133508169335025662393205524185689871900727268233943176000934054407754109832414319251163011128003072635629526207282869367099598686630472054556776135117816436098101483268120833298930555258866833005982838724421506549343523378534959090423848058209756564863144297124020540653015570713319382448896497589800946490262341370563007660444783066486561984231247031394975151338875152581978735797132580443418700549437150280549805727091450038042309734431919846862960765675094635532214101814946539560969547761958990828297954205816291822586963023624983420503790663220788237594849973237064667142731039030234412778975004127002517403444200208171347189414427601004440546469002209021887746951243261384549599374619971503183508808890259725436571998838210686560412663791106010565446659525431299459138850455529774612247869230884331046643991152162568466154771789247135402390115083605885708616681817230770822793478951998382413812821144728612279141537556523580252078517025808405580376438906397169946936352231135436107601511077788498769353768800514717862102078994598928148648653630253293975890806381900310545629454917881128001564866377155970526962225223527364244242591881758627592784199194716979192276425071802092674926650825551337449092156683202055689942469220334784759378998740214223237694438712815888184197765962869032330414522172508892654660996763316541538464660150111133118515978412143661824893081221724404113191730301407170357970363037172511217030438844931379681078403788967812988493063128389218674958156742689448164759415485942062378421761584836334201669520486214588710886402653834925809762760132575174051106630830011761596435416959421038255319537978629545352744188263672602329507763996170105736750424155905869717484722440706884247449079022046783083460092187341682853752295328457083524189988876538368635287024899594341242044058373040233943987505965641363288507528587640324571395770305662945112935980616527349199676460435842860778727488760730313639674217425031738877902407268688638936043527579481663280674606347485990505194326760219073559502033474365650222990319717443920226846725765774797176412085870276123796807764490005307560424587021038079441492010512966816939145127800378161027309887373159390770859716534695510372219573767646946169675089451317506250776071023666930858105021790561834267336464366047722724656270428703404340607029499488972337877364295192317599665645364637430258028610751646194421036423097209788272829216997954229055051260593556710877994887440296238024691062690502824881114022013065979750518703834331146181305307837937960354619313778146210775766510696498926399589925895272812899316973319068308175123661782326989197048741775411132884915656590407857339534740565379367954545360862774858392031495131542780001883672943691146614234544609314307324161429261898233487001305486579651646192091246734622399133753855066141748735317877770336236528568287265907239356594416401230383676843120240689950319040727211882091795058565283092311088266893528409698626080936562247492325976613896236792182716481953077960287425629586809082234615592117557224500605166143204310510207447722267728119961001256271077687795759593242068400067006769073528706983237487722379461022142789186207661566499436675653610206978966827429339923280703553054888726192967030590439099021926472131045342527660769443974739859278510279524459840925256602611036023107544745677750883163676332743113522378610426543066347497680604995896280935015014379041970905776256557932695390553607244649276714730738624133516455768144059130042516509475404694624357853185008700487273599420191276828604078333695196116923158104699466500306650221523888499855890361921124035634368974354896102082961319558031022098680454176091663610310473457393577191106180384707479582396111228390864223841516171474272238523863461116684091556504544615813216800792620504343268592259280587303225091632315008135782824637176710400133049947967015370427627644919995065169423541327351398012265067666930547775328871397112708237405918829006233776565997107404182241030128099049553103205946055782340021390091616481010683355496854505477613194806990392585640091293231334564118164906952517017583843132507204411804955625903271470533064186794452665317292884181601595134990306661263955390084626102950053510143039845505382977899452114111165320168089391143210429809808637854209302303140658144081308181395874217295218331094973236734820521180281407305561430262879676082091182449041421519538391550255767488191867074455201835622395150302568986988713300343851265341040442902063045879830561371502254885096268005632522891447031717084997938920113870400518470897005939063934877102761501633927508289438294752527924669579346812391017621944025007470588308183796589485725877589216567102943085336121527069921021279713850239241919975825266197000256822997349725995730248511867065618289452831082185151027389930394256191323860282773457343962643726016145922776052574901479949175934753844385390399406193928698726284476858693605189337128390257500352892743868461119189206001604263555032213289125689159024311957223763561045344620207251634072863428025596541140962599449837370322411296203782460772622973453679071830969785166767721334756365537127329599861486772415387548839260184370512258826353757734388675832612383784956653051727184259467409129974244711610304900546040093447561317836432145764329592113386265014850450687237118454670548063893323941099531005926942571757902339483082286306874393199918825055060952346160093937484062749310723769485844657123500327294608826933689850753410694081931458899853121560481715416526383179048202884574019553625008649106613958449440577653454348813684906393630888113473477547389909244675875055757935631864799261465637195457524106773070029539326875503812069896301718851784825136084324918614129275256914805424568205633689110432331515292042344932900914330596034800073304449447842531578253494572496137902172853791001276027600268240911065470688811519597355787905075746407302113869334681560815889014172655378702215697586064596852700227350022758552914114011312559968266024924627423950046942590508180814224409856315510100822733204403656900002387206820954443142102135209569617453396920548305726722196012657193580363692229732887128013250644366163355304668310763084996098931529605173702857514605840506729753219139211389542978532791105606046249078176528807894011966089652693069639000161798037888021068980173698963776788859259931479146293712471077726028575648840434333145265236272564908560790599660563763521378274629675979675761291773562382370423119748345913251904808696243637710015081773715779625712306545000571835338584567075235461556241900489761536394076012558810354930834421143193704097382664093770333774299399384289067238807694483566873554130079934414856876561763294712589560450430537597502077931541658521366353351752966508173656093652815578128112439374197581612586504870620249706182371207670630192750537402128411968775019678813575050346287666199869127814165770201435221403992862416662627718694975144092943158092101825000153775074978642009372880086669502571441549677071093495122997605525614749667414881559139295067402774421341378095407438250815342317607754925659660435351536481581512073453976102401820394980620975472264779274314930220380378935463580836148151178727871872881228338691643830443581686305249151486128422201738498453483394264007453427267100743515878699410140035276819968794682299847926475666474183273941468559977467359255256939637833528650652520796109238220045441836216121358280426857840986883024990782864164726866489115956947656278817150487162867595241389661464241524552509074135262509046689323473409015788827096160495217557101384344991327491329387660117583204656337004813805275044313455661692523195243556840027283906262001270945130283659882994806096336518335858153879961260818389720447239058647544079525934713852817093724755908376170038810339245602527961978457969778766303335961741959945856175340456156378629555147424832126412442162439354048344647838498850368222640262268025687605277174448515083032492879025180853039565120314432168017389768805268696984976218620765336815953040245232399525057157428087316681247171062006550698694525611154723321144851528711213513797681844581655960237908517647646954939150219078104961970332633626184809896391772856043614559190437500693356967105044484194142963521645958257988803625435797262205707156705189330863935555074998032234072038262590952554752936799531742290692601082327118280440770658826006619102858399868775649391227140441842954742085274994063083006572595941797260913930223658945987061846216184903049754109595656300326347712079469289504622256053381673538039657095187868077194334280532160636715317477509056813846391848408581131441619923774637468090971255302583754574368958640209755445821385271438019340003240719108084034608403797636270727331750304061005079410180920146069859554794107938552021819594798087444061716076586473033320956239139251754791266827099456557948024672004036186315973197384339614328905298854582036874022107168259268863256292755434519138908402733292056425760824698565516294130261421732932232908255850847529633310207219473553498419038091512765079337053296466462657685641954496871946798784418756732711874360674492460448447816599829138918597150271307967665908305886235306591272023684946567594064147927414707751272814466444742804771216616936802068131709363752576121928965885269111741986546443645539061606487700210331941900951074837286459086815924693740527038873740520527564786929987165293342919319960355910732775874361433373448461137992998752840923481365730162124650056049161551852131029719668360101843925098520135773727198457881712869120878469074694126279798786119623534019359378787095943495533748733826584841473330612669570724965914969849858011962096666435821917873702842008064686837203325150990531982050235410092145507658390998479302011080807302125456394301047317168426553696360765831816075658386891259304333092341585904626745550150014563054828896054392320898787555740010293421040592781984771367888470688565953492290277826158657985621309506286589638500795856065381873638903816188475403471960388256502513242552550069408772319042978005848291466749422435913898667779781897226323977061186827536072243830017229001769430017663625955944873938419338108025847752711708313990014893256884496165685765555785462882626451006345276420257996614022144431324990620669358571084143530675253977815780649989855292405373190909124687265153696819327903930292670592460808429560115383882459731297819618849376162079379128127991648988275199405891198726974084560167837303724992753066166133173200689270899195534422374475004132977148911044392428585637321027751642602835815217213071971602953917799969438511945145889959735045945797084862323514470189758035006306597721369341769197678175224184439453977356377240110191352228682589668984283240863886190992158018056814946559758859610924725578201987575089389186692753491460741332610677745156446916183815627340759465004313939256676884310190504417834534464643511095742623526018424047739955560855970501341450153356287097417083249951109856612589943679612570280115131614173942293881629633567087925565667530020892975273317620821253698119389026441468816487434690300065927505242964252038081352385208209056976836418607595637144652620935364197533269630201262269711321856287363935168940616266609732029545769790387241292501458455664243154945288061443108329179000927871380436986812318863428403446862696219770332067928210059218333724665716239234868193599060509046830953919986210560906170241448896363382311326694191487563114353133504382166677393452804885038511550175753149950174530605622200706414182467181671533847831822385459568621028666175581272599168516245635820849759865211891691690018421110838732730523146930016479991215343845830623276931657614038265973289297241969692983131140905734914175157113307305674953292891209620004327784547422972455411969072622531379595481475008887643027433840416102025107915172245840849238732964436329144892140924375969979603624902063763620166691086792172575061725958150242836571098184608016032218341837941486356297995671346204039021945691017359425708449707825831269897789684339873021799324860351030414394609974228275619480816466296749013046850645801097450482936827078070074736556008346610346360414250629425159710525400616783811096206071915572837733593183385086803551234955098714170626190936684903873975865955191045227891258765312272537333204593095992459230143625517497143265616212287718081032006949607742350078312760154755467892862890176910441560696294454038131491720980562545994623856679297165650405915736210135664288392952127722964078209819207859349252397745127118049168646875584949958247786112072592455149403658819237413074575706219030600097683628777329202149749810029208441228773512975370881916929535620914676938722299470251654367479152642419930293883087393063935775477852504974145651562223626036558673358029496492482983236539049395605844382992662734949505923132808651546451314693679933286057718400508103228132231619899002358479232551780504875513058547046367205055109768831869496717043894925691016987409932554123799756311151998188646304067163775231787371389405003044767094729028256478858498508701457834256005751402135646689406434521571617754842596988167123104832567280158507667583351490735655705643337350930504666281472712026942300086505532737469071295783974633597163630627878329715699552364084419105071340559222998465004011820193865167948722804684721501802037640946600872810573038936583985472363633026513707989794761249980366512802124795432118595688096507518006343438716926827125884648495747041613924341189969282440354003765326183173580982478419358990647241912212557965665525909327705547472817952851886303016160136112023056958237668450338801565678093868555085061216471364542633764066499571421544407606105234473796875815412448143609682062671955318104565484093715542812932836444843358768804530110514761092531874571770471713618685947172760321066814639748561023218284008334671348781284459924831119327819107417062196496486750097509159423596495421777776989873915720531147212824382839406458489137023854222982193091977306041567123074456116871761692568319388295990279236462771513526377260411778876790431606613236252924503687412410736210170713892705131908579979502151574990940424696239747216459294955609921547663842164739420375927176143962692814611844245204753484198572322752168980674934059297429435857400009316452531493032439955420643303228094490602274850595318449896244646104118233812265417013609767383433845351273799632995561775051217615938519888398695191581574104516502356629263839633169168359889921817313311364010125212139935756224000897025801864668414837278468924685737414805864227982806818858804285636281213538422985455759793583025711953430601128651343791686675866841476306173738099758762184214215168618374714230205360893734581154126833756186576322994439082809290891181604006958807021730909190272949453263799528394782182643287583735763239613718090958983502637310905079730817738114763817347307871911367397822611269151438223198171343958965010528428348003188197434164103020874941881000379508325943480012941825009479478499937326374678477926822667314958195187126220916565626580172087670790491323786567135796617236363273165901989829097223987838363685254761345590135241416499006854354169526998636569450336427814875752817714086356460486289339393674576065411700816101989099558757013733662112923062429942937666604178481315089055345385068384339601321394484829599852536566131311640461097700943945749412273538178306440255509414532695295234854076306512816894337351304237257416513431417103859035632392994008679743192184275571798909541857872588308516000713581128422160488361394375328032325796300452855243601799398404745783507044040245755457695568579083912781669786378074287529843734086922253351304290900204581895689217588285125759387101566750770624026122862933588179063183877792340643777189788597286478456098503419876727759330267336907359634990123893442322522039699909050533019812759003014437231554742487341202620777722834645906433180787064497252509033718112624600569771464178722308222119827854714594855392760287515370391670848733385886580171601771399419088938153594295133161378506825434570814231812917333835124124060265706834385250149464237538942393103930115545464612606521189438551308471363645217720460171014101049181660716974514151576731584438203483212356253781567607264736439749309363621680830770221076945954509214368845077744233935545983633139323877997178648569562091949946460554943181547856038749699461666276489603989618274456840232499635625754703043666700552187942445372846494492061750892977812880701539177254025418808298035263132482575913902679413778120167615454061486541764069271109258409172386764361150430688750710800894122475565295809746176630522220368362693607587400590994203744751284292065675265935709083712747533701026661573504399776227168218473462138953480181640812754958292663470195158880951417344430217539557658858376098605449949228828633678424706242294706889603324399277291748904605406217205266430099347476652941487509924764884110259739798340957314788527562853453572047109992565238581316656884215359214829592959826439426565528336259968569396028505283444374884853879819420752205719683987487213782845430868553800725965467686144182630665527802627368986528751698031034998203771767258831009124077609306494905615024262372635801268880419081371428073803030518535123660868286700543959211576223852519798923840233750244608692892818433888193076260966039486591381875964618114009111076350347145048027618876410685917854972204469112621822837528053591134368371575983350022728994178143854561901039060301156917954195317918015396021151341855735360823235340341318660903069690240444658301988302340090062953302149856994090902471621172967364231977388604869938328953637415701007196793624519001621744032687766092676999206944820388448345574834083017641841428510863485308727501941735083382840769369782043545528441633220887538479172890779637728377455406051729902750065589604148537770262087146879205269966369834681244668777193454178359508262882067157703561563068550052600695646724668563967066103983624454333287520802088415775179539471022136212911022331600079439056864311089163273584234378168562492600153582998545212539997015513687733546456746710593109284577668554737042971828935001740594796320299202325152898752014455801103782028716344945815018219012865337492306094540066395586838617389456829916580485381363255790431117708514295973737611299904126190776522528622707214400860350148868572079759957076013372348402139920592080609082818910146639236870193479170836641971495277863364566506089768850906521304529773224481243394094773559146699637817949424334392315036575856442433012763909561405449134017541671085489841557904333115307333055980872402141158445399666073714339676060544427313849940560045689900105139407583002629903032051559498614572942610525538365670352271355851244779155213413823114624162242937521344216955739314508583897754110887304179545947218506192445093596840358785999243487316341761501996245669874353440576477764893600193382732217168986060487910920581777262199249691154157869235391013983059767670090126400299443060415616734684170842922511407504437736416464102796936390029369769672592183862765544344463416800233609015317912762603780498413419281132849190887741947924049480106668272758778630592042902483348967909529903997204072859428023157073093311066406574157522941030433975979965203808839629675258410267368356555392436382814285577906166606676004262986505765501859282432025195637328343575955408677540824911832337573575255782014005115456960673727792185745761377138232095414731427652693760040175649733807745477436554714804345524814788799439406220270433645877985452134623441638173586845502606139135536282341013345153959975553231861839278956427983703612288267246750523540974225657980744203040629384562944576231409859349052285407176914357050663465249950346097814667087134763784112051975991586967993452912187790229414540917120549710017934291451456134044780761980879115928004466077605799045309050459174860994500743494831041287766354914456090180233238091315731831344645157663050379686765897484137922088579632692648536597911186034893153131729068813772007011471116231943828423707000124631250538479202057296783454830016576569047507662856696836684942239677046742514242619813121738737420236850097246180494591711950231503135693705460799756673160131388179925996158689874922768284455531280674249011019363517525829341152540725645220435730401138908794204627187948902651015479407231365502807904219011421874373799773122986886506472036173052464699039916939707235519410675748051826859623049327444850259556263481657851645502219545897464949363590298144271269437459278257083599060970371441534629886667520586717806807161698035035174380162131606292692245035047127037349389638701726630973243396600913310777931371339089970908195507438741827764714152820228992839588882727112009918482380309763614834753275635706517323634016587730061291088649227403264298001883462040278767509668386224957989238559032148406092656436636404017937821372801440855880770320699927036382719614884907014994514938316413945733081062749294843616160526698714024105812935529392242351098930845682440666765065956804081818508875844826910409408035396799203139188553739825502798278007681526138365518187197647819277012835891991824536894848604669081678482639630248859665051899962467693914049245864575280994678322476982594466355057228547345282482953809764371545494171173019891754744670286577327335117847502214644066079316331141564828616679860144538238221870404524145924001105416613875517734960721679607065586941564770510533879335364097426931596174130478958983798255606025974960006132031265809769306871822477892965876781548329784307999300111923227425900473425592869809267839033203092260172706957762566925884845299245289028526274778108610924403820345961019380718395266102607590440116980855082563404731538300779534211140323924988717839636118126638667044844118506541480470608896575677506769779128331650650538930129953920845065778458633832876892776352535805451651114941173138544561085930697377170939151011043056354279864622285865438504703794822814643240861845915049279927139997894642079201665045557421814420313273225471064854376224467980491136706370228265903672448211668677643814797168802142034060464746800442316246216712685502904252473655783385138152163880489791595516157230051581168328506343811590887263259484642255411346893911455818932787182284659226205912594982301851766260103313665682382689309420406841739840095579072657394342610176168195132051315642678244532420840492383808207222495854386677184890461922484688629440890484752365918632640315700141280911046550989441280959144705230970583489384122774285176044757728553720610703440222405986924713019693659983946248556603356981107496863491231856821513587380626113671282046673590960446065618841154323712423317992719542359579011111930443944745379263986689049070025220035080901695815518222442395826497368542236724892189782514352288074851488158787830763068620762928156307686839676346797749909089830831929123213895011065714264710175980131219048860063854876946509716559393306013469467186803802926658057102943620385830911250673651499835209699764206475928248797825489984847989779745204889587054501376606204368567161158489097313877816156903279787494987804664670601328157919637338121204270798178025709845951281551733388858747860906770120947369824961566282363198855536395221784144460697478661135316918960091985985425385805213823264130040810534416717874832833668005482463805007740915137223248030986070645329360248169854993089891578968422578197101503400266986811400992808536831041122877687449325462660935927479778219876430171543904508608118452718340139634516533907724506248250228091709957715217590728558077421660806859798596913736956148973172741840000370042290017045526186389880734292567793197432271140131624261711650062442556089875365220171128621024199006264336836922912773793636373599166301494120546544310975747916162216202527611065037571626788725030947996004261463209167638318820989844295346765633735376742488792791933046554077715932552467338456700800652044032463369695638560939588367897211107514254215476015007200456906058661447549478698615814327787106198379750252132340303609995871255473554186440432205743841517181906102337495194472198077519655065858186975448785167223091737479878740105583142612075349377343527726760149951202377395605069215217151291731051266644889158907531033786549128104151571121684485222102036109246406729855712979567992217434823041131119658467052898195350877124656062624052437418796543699062933488906541732505254439315597624217103345365404221875410299643102892566660313166292624650700937533088087535824522634819478153676961847006974175456973012128554728680821862817306364191015642344202711966155009676677534571854077568034228004301214029944772773345122903827449059421938063570622690662850122879030815844537830397585027494871693920475944208626673181496396283371130446553121148259429467047845072758198355054674695257900511866255565960379555100132838658642655977844214168106001101458183118458698373951577587655335776429562575532887590083464855973607972024594715946803552849565652214439669276427965781007092832112952744373866093743398786177990803549066091318593815545639946855490449313759476765223017205969142664080843372669428738775697377560165661921517921636871292324267293245235690994473564672102559548481886053196764136516138349862683208694380488867499891400183380637767185438132959080729832265696212671558693780623631058716435154816627368600190046777905694934494318969012498706372941699637745122920090343962453096762494534588088198056171630217776652908693776129838833203178896273338783475649472033999694850378043045987340188634183874086175647903337224238928147949960301490625607205341915613589541582095556243974989621972578119678527589148572557835353415495878361704268766144167225119350720495483940875699353241573250824225378071414349917463734520175554349198999824347591824012209780649075646255238691403684870189217520945492144446094723758585557536946022676045030710486562009315432858109065792667962313787539238904895067539478194146452747593558076654650671372513133025425284530194016639541143451919617865675523431050246046056852476762864267155387607248769528199175102637991097224552399143887033058317796353637530635912157418083756367392529307678765224956744142419923225262363661219220468835368975971245729288293870363231928989295839457151052940941135573394546421700891783257270864204825682245112148312332669381097681376580582500320457653758198947008215162975482487223506972777899139456795160563236268946869289254786841075659005669669680784479160226499295801305866938171791613202657698738714525999438932076863261811274093510800356712044113382906959634651330311903860525493366969323822387688043672839615394304117168821037733427201764421296598352859364699282041396663357521104780693659086210161897998887715852207475910234752789578713876973058781057354846728739285611641644683036097473378489910875181393261995649536785453840481427908834920766024672575843122036866231402886362719375463833880906780275086256445445580582295474978085943604820844216115994941970153807515739449021288940237519018085447046813311385972726339059224152955907045899507841214907199135790587192909271195337177711728313583429747575520966830430471473173657242908075133085125106741100227077488408927888968111351912288639743521832356487240128941624229892849090913678139978029844125302182482795021471149228162688213170000576512394167173672764933350933337793256421397056746451530662188071096686714096206243824953443911538290931945140789245855392413794516228674809922804213485841211475363937288520514391733324536184115203998737399639981124682849995307470945143253837540596944084942314404747116180679709417560532854412270971586602756919878898687095704444991417559687744702434064459845091231617448613670125814970485293628396077482874458368322296015359825394312499719275978767406764076591562538513824063923985097474687434288907174472602374830067839878034568760823496365611597089313375777625753220623029410581881901439484628559465986073982147363280580703555768892624952794658997365698769649623223624192194290307303327349312231525887451393645770562289880297445560653482551524527998033079916444679393554741588834966485876631670031153439435543110845142659405367005473451348518435978068218583674337556956958649164573316609233072658571237682612476252370067810111995350970833662697477298184900448994104249699825981841642965638051741315635929797595421240001766666115078333859358573981650536363153019626687442614819290411930626100886859725835429157757966239144823413347423905552724268733849907388138629869879524572834978887976603294477909758429489217006176584489088748589456171261738140970156345832449486706779882011647298204756674377182412163950658821015169614533295484577164447887306467799580180620452591910588377167400156652848919941659062790255524668882871908004854823271593884775984416861688533320865110539474246082029484266188320622512122969056806972271447752332588309923238672205790777867942900952718883083800965452917978316345238743152631260772506380073391618822973570804361695268268188336114397967401693936121376322753285933819875856166298105986398736675457148154342865099971538619268639474068250592936459241047834028272029853037650915011524129485743207993253860757683042722620213819003190348868228248406301382322841939709276860015597807341480578050611816712954449544516318219800209195459510354158967050668943435180471530475810075266507093825533405865882915360886797967491338182593494554948726902440282460472033974178636454317377854008417138711738815621555216635229706817382005904623336977804750899556802775791425125328469204774217705913915942913928184306927195214104982180264060876488721290441299747904517457688263260024134675537605867924339951164593211233599832791844707083452062272543246833379910241500599718474505618043831729215937346020770613221274182898772594287503157839227391315532483729118958696633600789521153976834588818277870701377830808293896852544083793279948697764895579197391749615112606530597225128511538625804244617806263804585898202024448497536054998754258177408555782223308712722314815511449057580185857544977072044853312864131838651791098943621541238432425315372032436440112122007487253454340709746437631395143289512380541845220771928150034714401306864654325462066577146213278244897421438006299354840202698106464142077156941788739996018945205315450581724091659416963324188698404610653904633115748385399938726973506851534146152940390799002858074813891579629516158944005312551816837863847965240108172212453116120234324960340032207061613607001140492816610566628689213169070238414647601795935294794921410312988510144862467866129644844812913653976617368728025581604210448429325737247618279176591413467883643316207478885527866516454824443591179389709423803249821319550590548477147227216920265303278348607894753522182925549999478009303393186328206717344532131252943250380558728848214542153062267700555828481695709091387786135524018072847795543049840998398585663043569875726172260806133269114411884173307019260266584486156325839240539243834966875254653256998219446641427217172529975185405688427118528734375343795337457937705321478502952893872301320927421848772802128906006565140749195408433412441886667934868950699288534222451612302014056851493509864760529962782010708928689645738385643706021839853238547696961601079013426212055060247443855938179328460693125201015519364729160481986647108703470622586662082053779167051061317534507067456625914244964535436112231393842784322826339681381979705853070893735345775192943965678593319749828398792539446506430793769711580746403802644197603441175209143882259477299553265541645028725675787648253979435692316482148445175328538326089461218479836610652613451102765486586132307546214612884437110202321670716745256512538324841221427991402874616969605763728922556397398655418534855287994417011020662704126100602289276704296480194962450153891347805568258897939884916429003802256320741979331889601274096088205184001348906152836059337756325480157610846427224503471181152604651019977182986776757880955164072606199061392541304867201583394063701071553299110780028514954828548797239905060930795101618472276425691448355032776835360652242788385257177571046631821366747821367828031995681548836208458054215420962005946623858381695868840465444960482338151550316820276058285567772868993525030838057761511317576381020499276668894238764172076594628938719336842362077239796500746618266569835501332352423087972169941827468490606793129906895469790898354552232751136646069608382719864010773516273374936727950914861147015482597029254608127795769458977134200495522226151723318467430663571352238499536794278973487453905271745873376565750669237498979970583323871019973601690464344554231442633786909121768921472305948218775797108236842842592935884400800317194647826159870198559359445568016230403290445119846158021611278943391632599295489379237358543082991899782560365916235343795203651873506960035595921995292876068713070618299640232096507764228521631069286844710172389981810974179528326193162548032742331341490979888579341144540435397811616103989822591627259602795574201789161016389150522801896631728804734848798797581608206173252600762199472888592511990968108593535045145290110575111077808897593026305362927921026314936555378407993943435084807651307930144186398354452972141808605627598488777328547462287632405343846712426974252578104092096448569137187061880827033776686698443482405120975149362902803094824092193314026696929665981901053311012732614095130218320811975675834896066813668975125522335088315455470684642993653546298895274378720824735389109200878139699543136771307107982421206426404053488771671939217662653125432474069028567712909177881301457557153935259298784095835828673330628308241076384297244596364687244066955039460673235969569326387615806057151586341252049013373048458446606290154880630461433726781239388751810923775213023283838359455811557647901326991469899509652799507918686518349587472355513446368609973609015339300725622211283761267187575055182263461476135352820296936875605896205798819268068037307768763996679910953279566326595197103642590753967502032655235089642344461039211949715409007487096356540452602955212621424039285857617494584358490753286490158248384106127051385810154559970577352084589205160243540382827011227265643861908992765722507869074843780189715018035054632654913199397346253920803419472803996705774203562014376759538219350439889040585320069762798131889243437560707016719148522867992726192883999496553154741207497507298960195497715526888841369667329950877598881237939630694268782723530521045035624574225606483379733647732166546915619659385077637408482104913650189109402880754471733524047804101310149062467049916270508154135709838374448060232020500416347511895887258676068361698283458204132445013113806831717027299868876140917206890873294886355334305709779276200376528906670577612055124640955787018493201071567707562752378013389308213103731337997500943376802008721887605701633028919914257845082917524392985377281080741860996251079391303815133141113370201702623305965241615853852507539895560275180921509175563079112028665293144983167925061154595479925818819927850381463669769509173149086362360446649435328144819091458161515855496055997657815595837309419811161169261323029221729954508267303754838382617856405948607562982410344967205114073885383477245104479549042014635980147032307208676457096941784428709005002308456993648938377185114519971875572012574396979000253029949430475960788054698786033466399950461291965126314569483523132972630657043111900317770528432191847365767040567679387830373762149983620463289836006041086244887603532274080327134067142490365957417241186457286264300478051315593588927774168842196312395904768179201383426933263077019885509318721128884702129480577004991833846553323279692761317988873247656409694606494806381004169517730164914062441448436734346229088880918872847434187388386083826569477471249752214673795784051104403554795206979821882521504451701725555193269567907872189394810159440822080007386511649346537852231841012528202367962788695623957230066497018575943549494966996706777375681573989364819261679260822699578965835224641899985243898889137776467674157207847097187365504972338858315038073118177255449690621899251376374190755815249967003466128025547855008424741983971284238605783480786140795085195919052795447916524403371704476591150029926936683053917824638439207966544688825824232111901173303552637258097040536786670854465230949539785784449244398730103867611120071295130108479464148557491901974831522042299238332316466663275055705470838493548933884318993226195110083155811775667847246597486282414358215509468434251552588823810313771688179092028988936080751117272770810496985467791746483150711021420196440135357991304279708798794082978820295389510650581246448940964402178202623473694646523466000211343480925868777821685336526176285076301567514405760007569257870054624559013425301182455986289192420552257117896830829736329586830686998994265165032756396457238433140962854073474431423394497898621206923163906339210241683474429643591403647168129485918934756624749017116383216740885585974299953029176527632969527045396149411542553420588665329181365980660174878644515861264647462458583464511354450635535566113343085548392933060039779670023094059774158501482772212405703448501772487129634344527176710242346333265464985231226067522684255164853745601452632360130271885992878853064445677879551585556488522179701483342582507726656223119617302869352979417325683394770250885831033941852185024026290036685666103061205677002132938510362656139189259916490562687185867904611146595128241301235152373299407936439518114558739676965024074494976295818408239056265548149621457581945890125333204608041919932568357110997296452429118391376318651257472173320237061839083433441150254070585404524404971738645400564241911684664945532395134810283362242302689703559121482901718509096412712985293335957008268721174143593258922727072172789728490924155858949423149361852025164851434357092437779827862942054114586684195037435507545024173458403911054664674941926263528159463585751513989295951316619829594807589543010885324648106298439758454462967449951280309855098677503327698476949491903819121562606496626333872185718406394475963771624980120914690603417996410028328172944859140623503406181446806285583841785893875068608703980861778400890418875193795946937203465739026653060561493082899172310371766858823039716002876841377983147931310689989319755984363183565026906492919008042298556504220821907738847151117557876181184725370028736708872454094989218823178630475693493826075975630480580858399870562753854273054584229531074077153269834565211245971734890153605417464033469790900956747524154099317865227811110551004333152959573862344100770607158113870527961274518590523994950632209702799267949989907281645250425817238092023380420792192390846868565553183193651602536633610810698630148970809541814716655163041553989687589388646386800198946124629488076265056586412912519749419136809685837956045560742972463077896071848757601726262104304571953263257148193133633785959622909974049715345006542156148476235711059878176178032620541818581282176146490152801473594805667714094353906560824972541073829516475129805232865041134248125147182984050895819879208279659516883885443754801216295582730292114450478925587095811496678951558144114503861390323995732286082103126172234487810018801079199227286842473082349404040950456030460626669443674988440606860797474434513511785854338426807983271138125341996818938575416858891171362297083094369883897218195323361454723574012038483266943725903735001094427242353018463322818271669451706850450596814780930601580868156768890147142279998900348072611937336896416632751029661526927248352967764618069702847782527703669943635194198718748582523481348701085472690401810654033980029429913860545670181535443452743764774916172181509319619494634661326222001403922491899671500505238598150806417083196923366559189481628596956536769744632398557584503729352098995887048462226297693105905017010817857260667153788628765910684625293098231504277312223105286938258909328182051739291555185658792240821110838355562603567214251390691294184781411688134005629453858226152779372398607351569869013472576730214290670929175136280228162145434859366990194301884954528744582355256131250747238100984592716670851750786134080071945028414829578812248477588240140038523942422604091376409740052091718841993184546243050035916644392975506152625526772383500467465619203535575109202504200012270301639250520548094293570874270306593587286765059285227066266461087716737553538982986837658892432243475855919773965059378047554397081167542723684053192665037391231833508035592914340733243399647970864184091503330867437091836179284894737971848949959199485626506739778060794172891588302654392290534906493670336368629382042083012679940927899198284089858568911285081956981866308599774671795093512110983316454658271775930139852698571298454804385916227595713570418586677914815156092785298010761528571916400188061356574280751244557113988120969231152698949469348573745705282743663183520478737010401680836325437010501817869350238005558755867031478518080206155779826306178859375911055372985180583219009721379838017752301188979808365945166091019894953357109388601645202845513688066367892959050959152285894133475240200016958816428592516059236697772487870726168517301462239400204277982433628683352796785358151324503216831044501382277157651565814696216563357991315810777338058154876173773476886566988144944417821628327382343646388838397339470533664364934169015467263259182955412816949053714201456424483047982053956668854904776128016475639120147476847423146061591588200065332888205791666868362868431838297100848332035652405536522967918180984167950913200806690727958355223758837639788521866906084744127582790632860073761582412004562408924389497084769007635914345032916192371623483863328489841545126466951092663887385202232349460591314484548459645907320670214353544690481594173004675511822508675962741824576497277570027157636297176997927841962744612438674125780951057323030102429362558346983995806241511588182174208767394604015166492788994726272935111799272251579393973812357506969512508552739736227883031087721433085103773658138449002591533362804778735050007788903023842023449437252155939975763065000206574591440174699460456755159083600472796621728098786798197249777948741520865986062393941694921398189302306347914049814010996481496204994449616531531452538832522954334052051874980018030948806748042158915963247252378508918429174802583993232388610279844342858195246486802227180158351234368595088772315464133513663255383847034909355250354483851018045364340785239416661767444674768949982188317651376344562312565765217581553209594307448402896022952828081377099844150644740251254542880578049793193204938647288732521191789194160427010930033503606077372060508912153465784320069212546976859357365436759653573087410696958003845533454932783649142524262162907771922189726112058202107948005822754207394374132184866782937249139534300695202903352304529020686612588155209537969886262764529818376529347862646566059436957862232593898141738478704354757765227932195522881408446041025195740278632775663086166445575024554167550893008824088091045903041204880971887962948382156331821804626464843119796745585491800209246273741168692644491113468298595295888051747362797530370179977667766108995825707838132362882283601951330178459809119113332305975050344151351132521944915854166923199541397439121240296868470889735979449836415267660025524152676919504679441968858227444332061121064308582531967170803401891617778873194880925118834742178221709786247657382154743693105997076373784849468672701754835183489657352619835513352636982405492917725395845701411370426647992319033367010416744603678730299580624061734764508902157213564893297333584511008925497128064730543554264338366435785260165890652740529103645032541543015129624763512768443562873745244522912405392219219688805879207740409726828937572479022039763299392427915382104962595952358745571078912819549843264776528204778359964435675211382491299567128888290528664731842469266526374702468411050465961969701571672186264557342352155763015796459100405760596093624501885330913769555948396239344531977634052587855482873043349748112312948711955059657496291508865700244085136927821746532586523491870739933382863811213465494904507643643411982416285688304849571338429295938453532485866668089166555415159815598122756391740016616341328706326219395564413273963264074396202284142814317134559477558725498908549329593259914487076277251247596690619798542267595140487459269980895766967245959627921779524345690997826674999991259697613148653644399815621859540319925299517617263954325010800149298715936793893842141534871535935740577248851448532297083487747120652319977163013129126041641084099023662274898869429502610173326503626656863684174878952924626991908304641423036765663606216616022300141352390921753277704375220511925071696968131058724868781626937907904987707750484363062401058702399730618828398760108818767385983019446153877190129892096284276824365025357791586595724838779309217349494131215943434843063323437652721134055339080077600913811004300037806083496593842142532426685675900819791199235519349225621434170550849686911581442189066985850163180779169039624903967077776817124799206073007141411526214821240005570658809770596156909211105151825529841238234497033818573219902943178825870671659000043976191040312372137767142528132215395356517497437863204808914010375395907114864556329851839567514846425756284376121355277606250726772751561086153510827425913602914906596821211761747092155688784533785959051049384774337771126835172388100032725634868891530098039801322782195909943710365407929641678920228334908763710689567303667899287977007055382035928304785055990822376399246038493035085418016711937245892876398031881921942548322730026427863270013678926588545968747246412183480453465763230446536293391168480810064636655140025193547650600975376507359164769499611253617909680256439434525722042680815576409122896310688517500231239074780785795373266920468313743073212080805734548720498317298061263015966450393168067092519965279165365803152325131956611624932338968571818238649060789561286168503778064239310303304782913137069916116643613678948253615674759883012187287404265235758708647385771560307983422251832551211162159907079222294473892902282800102456601349367788634507079422226812587577170991364336942858959597158095714939205339855255500634372659203141913074609860610222344173236960911122999679992207249001284913674131208256452372906475812676298932971844833601632629941107849143373160164526561299090781084287101722877407701917053991481250824960746064166518422305558808172842897858392727330299916624635507153728941737412348836496240512909987251742081973941363577404025703442625072562050808689597172809870873339921216734582175139748050592192062336048454392630789061959449930721335757776555022421236793885300119201497406699683566216206258384089303111152403957125063124155500311081452131434274202625318404867634264023708652631070201951280695408739753588132449731305989522463396435702509233223604055930489804507177569201564296789269188632140067727584396737362427755122755488771436431432162061006664450845084573360490527890345559425497209357105305572148790732958315421868220105390035390304969511506031785529159947411012196269882315681265485622728289229530383426389339635486497304402250056882895284049258610118482580046844196874268411338839616135927187739994720584275897588578229122744840313414895007405208555214205469279203413707055820067233005155366969966703067685939981944977281446283814271921910262796436111746610461206329548047473222583115871459921184275857689943473516935106292822688471275460583276294769315809702387697507856174013369223208306912264526188602282441524945306943778551942707683553189905893567524971886837564277485120481347237689931763888173485184514063182532486095967250609870219519728634991011461445426172790543794698070610124923125868564424929492582234704636112766852373948114555097915928140088011185860503962866108259387124474849353694769731931141881019583847363344813783221647661200339469072816443753077143051680204270032132163141677003610079876097369460435772794267628359921274206448987825050493106139848362268671920528007612686987382019438022936198016531496267437760674197200516256035286639061160799787575414834118331392600137763547692394697490215802560513432679294996878206396788202289419960358039468586379443253696410703342462839893212729018136433211488784505921309334268088719638249760785619768625053566671659123003389192408355990217885613393208164108296567915932494057658892296940105900004309090753412660953779130049230229441805402203366618372273843454878804523662334281301867215491702482537131301237257419332037133973686357135056862584708920100093704942309694530322904325546711843528005988264830240696900643605523482819701873751633838720073332096754009598775634734147010494970085799345282808646475740908003809886531967563836215368768812721404635503609274113064560008134599177791614014032548621752452810989507544030813483597818750182947766594777449390994910848782280431608268275861075786842733582094218017441396963970729964193741021194926939527500023617589848722200420074497642732360830005618756971405182609471785259838807291981807552550171099922715026572701719466450826455800379079990602411165406720247408048560728663790112453341890172394123185918581461632618050490418807763431743672968626712189328682475059563124368290734040126135371235338561718692019905830555092176388721208746414094209062135262550381463483145843510198205459297449453995864814336508543564088880180440320049626728147132893911692988882289861708422050674928656004226059812480832910845085511598045749157155628673648890604726731857226172567411013995627093135961161019491962558650375914457725995137417081177606643941186203285245664740891049216178071076827599321955617711267715021308471654454336524426197847603436736927852250203630016013872380589690633450996276615336980564424937664653826363383754057064311769545287141372096864224972747854107571984672997664563955689958075399008650896129700609317070279613020244410655953893478281648673092290512691282654087488976600595914811175715765284935924501180052143171195505086237380433904891524277516257711134613012414297795311036673987952269761255663262879511254254872878759738214430042560713676784098013273166485352039957284454462765955025779470234349380925407125066451317585375092551711084426840436257815810039239798845394955996237018428905684632082167423601777645904448251787444871674248212187717693557598605538446363465010674096411329224905262199511308303793582042493053352663635210090570200268671802635965811599517283427557486078876251333225518708988740012512679811009672333277207440068499012283246545531243408932100613200014588363143226123369839722951719654198394117504462137398314129852585081249406794653391700173237143210149853049016696079053182756188094087021684876454541116031832566734622637170044064231668482781045771592270638196444775767722373901859551186210975175168283107171292907152490720253786176829527260830366551204119594643527022773935883436940922424512114819135272187148810299818172361842214307034824352677492907434529763873522083789999841739510225476490434781855476583712773955280802756084739977340744654239098728768470964178781501956629513752519121160708790167443705665645911150862192401375570320049352140151057239732124009391438166759411994857151293061003743264582879294870871024347045440646357894381363285192087620525905605926462448075817117445262748549322708530793364542617732657348545740510316832077757281089826976159402477176243360911416253442775354433750529766232885089869520013188879174409709774459380207983304210989085935684536697130962056600664665482447216670260008416387790439612006638605696399500223050043714241880224747394434103898489445289641919112221442114954111176612464270577438882826171520848716295858435877845046875933528419147395533459474861058239845510798325418286824790277303238485809588872098575675544094469338827938535560456909388218783600451939172049588930893659886273975300628994762077400406677884002781101816221677259808446904489277623108737324137293309099457198594962988065434048701931753123351800859996115510859233530020219049443130332088536819611540253763983995995125792958730704248693011496879795626481420868861177330068199097229975011467605316646027128632397138943462660170254006003140665737133368747906618659023604395348479855073437708271100720624681225178029835790111605077589562319333459043388722884915805876078263324344950652918749991306418305398186590309370463513414310591136473758634187740475107017228668893337571110553043689613190746395071193616170730122299059374129241436188333527485592205898624416646163476313736927646604981408474319685036934250452171165265246089191583934364341751114734677321814226950670624950865576683255452023485286021129782032292592160577487848901953810580245109132853133875718616700374130888487383351210584390141580657151512620010038807506431791646250421629823280546750179263193541072698624254264157040050730643664759312296256563674576137920696517600569384878461540643401336613924596985037485026615585193145006614671076492356278671086189901727626569931312931743822028448277881632903146231612096946999362258876527255488417276309471881565546974515244350482137474814263639564703020689898590150407862556457975535821185903690004237849691743908132603837066348346707634128112016315742505372179925782055586519905460173491804583747239390331338937352427230967913485043932906843296035694473742986870278252628417712868377051319022380749980975531719456779659298744035226480739962227406842118896563632648401865435375483915766336504293572449735556672002633279669243763747635854887871302636179958385790953529029989281056725101322787940167014169945880560466381070946045846256193085095651269284352270709980968621674560998364004009777160904008408935402447804177421496423858261639505966035201008999999597542592325673182058486695954981284726323109150113006540273232456018914789737434888749973174641726557198888356708002202021371813614364309322101265545884218544400599250156211491180423782047319674804935768815878868204275567051059229340330426209211228519942086994064272856926809733890596057914952840567923258824877063667617822029777720055386669750446454122691581678491994502102567540649419919124717330900134338981675340661303529646104974085296805457419252728241498305924501247903113417626033609155515107001622341915392314101195493932060452923992867652186658502482698106303083810732032472290309081571169643884474483952292249392372174000095469679207925708939227118421671060305692781884054117746698628746974943158927293748773951274810932030813752696274139880564925688898616614308419854019929447123671870794552742434032100141388793811039189429243641025653962099477541432145250081671427330867275922865229138679523912069776638970082796721192742090424217453458884309249926953089817126252168165103362041312247499849391251086922479121008282188092923819767755733330073933493205484957939348900436103147344971636581218855997010581733401944687963561427910873355339675182940130529498768978966691152839973454913972277811710852793555528453533699281968869902631958908348135676900117242342266856609094559048578588963537767386576017565872756042659158292245552440737245803341324154214717964166675146800470378906549057823727872026364612875604154041136400308742224896901093294731442576396847211929542460981526853260490470259032571202110792662529492659402771576598131166362528311712780014381060083742010680519671206013794054024323785551199220945437510194643891317405275997111185280732930337011648292534156027877277221667419152264662556274175919306846911608378008530538813184040053445510531514259028423487292303918020905424442469442516318032655102165411295225094417550262158224737774335649546473234561345109104430958031994906152064982218216507145241161210952232785063245899140013457693812376811482901444028687259206945892471035582327807967500688902078160092630783310270858804520621797622635435357430248050139242040449877430643952766977602390151168742419367480645498549053321943147383197906621910061132792522815917954628703006178939463200335271825249206931964237703121004615308657482754668004534359459748930115129415946020033605989212852192635420771328409542372401539452457100067907496353149208347905372385997866435657601714467751583268680021068582657289153265934983660275607975494616253962239297414002415799622025549598480797147565266160973184390971575718264904418737770895261706068357979800631547557168606612353878018144326699259267986897884066652171162854931852589035019424065301010602585385985907602989696656358645329881388391439984974858696828941739002169449061426448983462294325580647995334198058386901459001954485979373804761448507942166909524764881177674680269375084362858473871895574534420844405814844584045352760550820945125401441544626580483906117105243298907989654668262765414578266717133758522742270161646905064036226175595300582152311285994423679211245499315214751405005740643874815748533389504553390481339144943671778674872781996402920468845956742880304152214527408174218333547394205413279810840146745496970645606095575163727865288273256995632346966935060485286118666484147295441795037528616590631195888744521708266717428267920088183271398192044310570113529406940366307711687225622924653108339189977426028252265705254789620350753111661226206428678692763270753408372801129752786366662535133154065006427186540461271913536079840255368121135941495357666652045899550527917080248353021686015264186772806532220292576961427811184395426467506513240289885243597442650719902139796344023840068601374901068440703373224410159795009629498479134592765722936854724313649941539754626197731985187788780237421577731820456081158524644441001302650256502304097237953258504299172954428136179812716646734246881370496548523714614000200061948574124024492834724108274241167146206496518772927792425067078241991661748666477153966423367991842455969693167155273743646019680986026428648457344597267113526365781564325983816180475738253431312719249423437054797647609088739212768090448592179089917230080734239239304859208362616322469567057248949152678614076708306295619263159032263384328823093881567427436388853250816451820430458132864902547905094654012670761010138979348474075098977050200141489654381826187237976306887530145651009812905732246102050819934770503520588756786295916836124730142749755240335172640770612732098280328028071913814722102262220479994800639841723877032080289281630342042799894735079221408759507619409594486994859371100372992,
  best_state := some { pos := { x := 12, y := 12 }, dir := Day17.Direction.East, steps := 1 },
  best_loss := 102 }

/-- The search state after `11264` bounded iterations of the Small search on `city13`. -/
def stS11 : SearchSt :=
{ open_set := (5,
               [[],
                [],
                [],
                [{ pos := { x := 6, y := 10 }, dir := Day17.Direction.North, steps := 1 },
                 { pos := { x := 4, y := 12 }, dir := Day17.Direction.West, steps := 1 },
                 { pos := { x := 4, y := 12 }, dir := Day17.Direction.West, steps := 2 },
                 { pos := { x := 6, y := 10 }, dir := Day17.Direction.North, steps := 2 },
                 { pos := { x := 5, y := 11 }, dir := Day17.Direction.North, steps := 1 }],
                [{ pos := { x := 6, y := 9 }, dir := Day17.Direction.North, steps := 1 },
                 { pos := { x := 4, y := 11 }, dir := Day17.Direction.West, steps := 1 },
                 { pos := { x := 4, y := 11 }, dir := Day17.Direction.West, steps := 2 },
                 { pos := { x := 5, y := 10 }, dir := Day17.Direction.North, steps := 1 },
                 { pos := { x := 3, y := 12 }, dir := Day17.Direction.West, steps := 1 }],
                [{ pos := { x := 3, y := 11 }, dir := Day17.Direction.South, steps := 3 },
                 { pos := { x := 5, y := 9 }, dir := Day17.Direction.North, steps := 1 },
                 { pos := { x := 3, y := 11 }, dir := Day17.Direction.West, steps := 1 }],
                [{ pos := { x := 5, y := 8 }, dir := Day17.Direction.North, steps := 1 },
                 { pos := { x := 3, y := 10 }, dir := Day17.Direction.West, steps := 1 },
                 { pos := { x := 6, y := 7 }, dir := Day17.Direction.North, steps := 2 },
                 { pos := { x := 3, y := 10 }, dir := Day17.Direction.West, steps := 2 },
                 { pos := { x := 3, y := 10 }, dir := Day17.Direction.West, steps := 3 },
                 { pos := { x := 4, y := 9 }, dir := Day17.Direction.North, steps := 1 }],
                [{ pos := { x := 5, y := 7 }, dir := Day17.Direction.North, steps := 1 },
                 { pos := { x := 3, y := 9 }, dir := Day17.Direction.West, steps := 1 },
                 { pos := { x := 3, y := 9 }, dir := Day17.Direction.West, steps := 2 },
                 { pos := { x := 4, y := 8 }, dir := Day17.Direction.North, steps := 1 },
                 { pos := { x := 2, y := 10 }, dir := Day17.Direction.West, steps := 1 }],
                [{ pos := { x := 4, y := 7 }, dir := Day17.Direction.North, steps := 1 },
                 { pos := { x := 2, y := 9 }, dir := Day17.Direction.West, steps := 1 }],
                [{ pos := { x := 3, y := 7 }, dir := Day17.Direction.North, steps := 1 }],
                [{ pos := { x := 1, y := 8 }, dir := Day17.Direction.West, steps := 1 }],
                [],
                [{ pos := { x := 1, y := 6 }, dir := Day17.Direction.South, steps := 3 }],
                [{ pos := { x := 1, y := 5 }, dir := Day17.Direction.West, steps := 1 },
                 { pos := { x := 3, y := 3 }, dir := Day17.Direction.North, steps := 2 },
                 { pos := { x := 1, y := 5 }, dir := Day17.Direction.North, steps := 1 },
                 { pos := { x := 0, y := 6 }, dir := Day17.Direction.West, steps := 2 },
                 { pos := { x := 3, y := 3 }, dir := Day17.Direction.North, steps := 3 },
                 { pos := { x := 1, y := 5 }, dir := Day17.Direction.North, steps := 2 },
                 { pos := { x := 0, y := 6 }, dir := Day17.Direction.North, steps := 1 },
                 { pos := { x := 0, y := 6 }, dir := Day17.Direction.North, steps := 2 },
                 { pos := { x := 0, y := 6 }, dir := Day17.Direction.North, steps := 3 },
                 { pos := { x := 2, y := 4 }, dir := Day17.Direction.North, steps := 1 }],
                [{ pos := { x := 2, y := 3 }, dir := Day17.Direction.North, steps := 1 },
                 { pos := { x := 0, y := 5 }, dir := Day17.Direction.West, steps := 1 }],
                [{ pos := { x := 0, y := 4 }, dir := Day17.Direction.West, steps := 1 }],
                [{ pos := { x := 2, y := 1 }, dir := Day17.Direction.West, steps := 1 },
                 { pos := { x := 3, y := 0 }, dir := Day17.Direction.West, steps := 1 },
                 { pos := { x := 2, y := 1 }, dir := Day17.Direction.North, steps := 1 },
                 { pos := { x := 1, y := 2 }, dir := Day17.Direction.West, steps := 2 },
                 { pos := { x := 3, y := 0 }, dir := Day17.Direction.West, steps := 2 },
                 { pos := { x := 3, y := 0 }, dir := Day17.Direction.North, steps := 2 },
                 { pos := { x := 1, y := 2 }, dir := Day17.Direction.West, steps := 3 },
                 { pos := { x := 3, y := 0 }, dir := Day17.Direction.West, steps := 3 },
                 { pos := { x := 3, y := 0 }, dir := Day17.Direction.North, steps := 1 },
                 { pos := { x := 2, y := 1 }, dir := Day17.Direction.West, steps := 2 },
                 { pos := { x := 2, y := 1 }, dir := Day17.Direction.West, steps := 3 },
                 { pos := { x := 3, y := 0 }, dir := Day17.Direction.North, steps := 3 },
                 { pos := { x := 2, y := 1 }, dir := Day17.Direction.North, steps := 2 },
                 { pos := { x := 1, y := 2 }, dir := Day17.Direction.West, steps := 1 },
                 { pos := { x := 1, y := 2 }, dir := Day17.Direction.North, steps := 1 },
                 { pos := { x := 0, y := 3 }, dir := Day17.Direction.West, steps := 3 },
                 { pos := { x := 2, y := 1 }, dir := Day17.Direction.North, steps := 3 },
                 { pos := { x := 0, y := 3 }, dir := Day17.Direction.West, steps := 2 },
                 { pos := { x := 1, y := 2 }, dir := Day17.Direction.North, steps := 2 },
                 { pos := { x := 0, y := 3 }, dir := Day17.Direction.West, steps := 1 },
                 { pos := { x := 0, y := 3 }, dir := Day17.Direction.North, steps := 1 },
                 { pos := { x := 1, y := 2 }, dir := Day17.Direction.North, steps := 3 },
                 { pos := { x := 0, y := 3 }, dir := Day17.Direction.North, steps := 2 },
                 { pos := { x := 0, y := 3 }, dir := Day17.Direction.North, steps := 3 }],
                [{ pos := { x := 1, y := 1 }, dir := Day17.Direction.South, steps := 1 },
                 { pos := { x := 1, y := 1 }, dir := Day17.Direction.West, steps := 1 }],
                [{ pos := { x := 0, y := 1 }, dir := Day17.Direction.South, steps := 1 }]]),
  queued := 918989568518132699123518596464831164472641356378713134238813122342213482925034529484194438976345530400660670917601296188073340589770674895732886406512688768033516597797015784050280794213722063216278328993593326508025256569043978704411595590444042159979961255202261228326546766997643629335085512582300413731097346277488613099361576451524072149202963230665697306517911474279415801809253005942657766510634399742998232543703446249595136364279718657419109505186020729547133693749826744319870958676839896466402595761654403395805794625604307672124617560321156427925720929894966569749805016335276368731378804589579800945807262689438944033872931141609300614651504084101143014676868948563636626959499521997511943044707785843683649861333561567668199412044245762623148865482539940532946134952385929466847468243972136875398341171745202829212734094306409493648864269613377209335443195096922304377102791620700172126954906082362378555144017112386695326712720443440446499680759499009209252332269737821621670448440568425506895983857779602273877365265930191590330651682206218365421628136608529731231735847415886844185708202266966518332332472749744960039695762355163667175348421446713336822298107397976592197378070484101892305961924980369043051115786895221748690018058154065867743659454650035337580952145129760027117387460952054106898280353342968254000991397675861018344095941496783730753492578123602128464893283651023017759256889016269826947140644153594028335567389507984008617772647339982199174598217017746138022183703742057408042748891589896248544700748380429718189049274244014142782561265261325410837502888896588587098490097194122151224191061401087630154731772308521853669354504619583071072063324474512973227762914832681627279064119750298022731208753606905001450701582870032306234321042290926633077859441447479262503178685487708471651215802933648706461608632204753203906636163671240125261718319416132886585370374341152344398231661099974746526363180269141268473156538912657235147056014856735927173381706857249069562923231042883536741951631538226057196804691166541858544453684353290038882880042257795368845159712121565352247989993794919384966234112,
  came_from := 20595207532532843191719023933686968049796819840328446475877216909317635688609412929572937259226344538976135730399603448794815080679663047835435428345829003293164062888426111458106332436291558770971099591466241905498952970890331091642132552475647250103497667051543283204264333232867673016283515277566135256261407706126329927086721865047373544994296048589095985232908235990492759341774349213574272012069883839558882303677617080605512988762196916763099717949596687287178948344245665283998680975145376261363610356215920753264727841214257554621331841803357463886965148638499507272989373537937382610052734578531684309060213005020656748244115085544591215647892393303711070105983086624802061362825371003995251683816663025447588220959520233010841011950980065874744464459726262412475219986030288016477221064783312547957651172147188238718293849321778536355347202741418689388099118697554268347954736358742179300832762226919589502628581706733629986972291580483569936621277148637431340524918705255027651481165424066359519016186690530091995947384032862572506419750449004806808365879468759653074195102057227341782791721014821068993019525451291711155981865389436119384704596829774025666070956472024455715989659980915177694460508942381842755842186275351459977126984981549278346803387400880224197511616380157369673178331016350332051711137845281712679422903995320933263770192807814351622738959041850825159563490114672038858311713384658738688159625210236321418370665886332911361951772726730078486259103688085744188023946027906272488833824300666183683740058917210749989092004084404134968901137759838233394914574884850169270616670468173167576631817715589275848588195986399423929516122741481526715902081381002079273539871983362128820904800380516773337631510471009164054483290529352170917752740561462399112532225874788386733891525772810216626305206982391337882147960805853391049886879424362003498405666235641372871242044864342711268530797035889862111483334853448512646805675359551885875890805413153176119892247904477981285317328145628496029138151248818186006306161885461744191779548401636006375549414162164348599781862577053916745732700396830102673946945261500676041169100945419624736099869096211300045493259895475314857441692523873276897833194518894303224367347316496675333893021847760538045519065877957532425318616668743611750912013713031801831638433137526157839156356874770807165834029456104136804090131300430283779440901881170367398884553627944063643152603802983263627854924955608133315676831414553183674986481681100541219615564526254159825409336267386756617496716413189095862386650016902169590387063521976175297873086530821561852852596590669896975845023952802104025270787328908549912183573030595418756902677020084042024946934673565174580853286265262416079900835829378297086579930825742939712087856188146273661415969838433838358120908547722400203235627862629828865298591631378457524373750730012299224108252203345386143751886139697007203253868162254766697949305070280403107699670689298688233943035014845986860324873697860924866108424809702582397704387919779795396553598172341921323178291167809594706911414470118122717421337322054375363149074447921339489202352838865957947901015855268067239305099711381768897143945558286120381964448363614718706062387059644967286471653746212082594751314351834165350870066393867373589402513464613761573299160678949498559118799564231675559573708134008118131829808471765336692810214255369290564582699593320024099321938677194588550355357212647731628260510350627830137379310929722585168592472816230184896393018105788530399935711355623656573337247395884120419552067314864576383459416769360005454708456424022346436610979382631358497830215307715094907484819781484339336907939754727446882972114933816516905468842078208306474371040240518770421457044862196331265841185308788440445148689516808631360117098063245769240416254793406534826396699477795615672965841972112828949212210378884559511053047903566280242864414158415178096227027229204849862130994499959144140975435591847291234271806815056153152386605994728654382938340038175871624493806303723773042827317864759027630857777463052270663869204848318910415079020211753777047102038071267960014346644657742080501308093808863389017323827743904580489042500070887302968714582821181973880640354124905731408117078775505686747522856230656604262156872703676339776882676152130532302549567528117452900246234212062793992624545642026933610008239895826243592601842496045061936264921130533423750534756842254507345240270848401663105380960093031201138344356701768876083869588687973323233217886078973247609313414277794157862930111145370950570034685900430976787709834807665165035955017991552391327403153944118974066228002988430436424229100359589502643320165870442140309171335523525629167189317658467006960177381462399729285935507755111256537241033425892467039614811299841648872560428678975938468923051137592218283011522887813272681226982258635996617011388287993579131725862043725264816614814110487473520322895423193935674751665978401007047542256982683332197451687699713301866412960222103496589442569657182497703508368842097424088634069928716336354481680272696113954381578702630079758346657075662465218778972205290338387578220807573809099675911827196396544732412271888575664950719711562258648361531569172497408210330433475255176413011069772891163291934847180782220749437064737870569798653799288852624572197161386268473320155413767143731896114307694138380833026518542887942831398429798433737918699037151583480647035678086030838656011721006291338021928946539483670860541529575301038073623747921397678175272903019335180867082605465756289051228593765264394443778670264605300868037236849224524109855230878159467179674604480256535884521239958347325254178834965683089175184095135284174947724567949717750035943937366941486292074067002617812673966934559818636606349663596998917807194423988112879999669085890507846773044376338847436742469520165832841273189842580672120452387463055553239895260351266610287570202349949061096689763575823001376787319296202702093674775858687611493657041904243970137689597321630756936264613476270857293563623046728436903586881778103431587689998368720338748853370213998484548985342060627323750996305844858261119212981172960888909267638913563089894220400039967187805166487718834809460166966153098539717660258201127040491989169274988464526100979429072591782466946441902995285616947126614769394857078731899339199037706428130025217929135288507328337028693777891470314328995354343689294195793081596796627043502724148627406115284858459976293484476991620867423180120040686688428935300606065731472361966758534364821578963773569965248034272906537654302513374334984804199801070146860404632387949718626453450180965994246059776812288620973318042533485067551877715573310956067622097766431952418557676121092794600684897456192664896378348230421998467421112735018161409708756603186595499446756367958369475652289615998684403027627476747404732819280740351673364512432090201573875743215981581339501750014365051563331817315221559497383645171599521263912830929747112743493774640172547880967297190621791550570078453083921495805837923685114867047008288888724628018397234051290486577264396041330315132892134311345644871152905605262688199959181190492289709277248217110492117401724099023308795516363032582875794875221198264027109227465796184062952295144874506647628662977132758944169126253178717838270470363670453542005569008478172082962892696309961483307323945164376130110496292111972004022859593493003541294667104370406470373136841915380836273289427034847863445848254154767506850694453532645429548627257960854372151738458444811872471758936020647878151404163344590502481060084688386905015914448699593121887575097435114773447408712253745343850613276152110431474134389275563998418666804676572234750732585949507392783612924503604772334172165775243194370724498110409673649282585005330079914505409229196184701969640106518119200951648626067838231587214345493760647682664967755616263938726273906748616914787422767477189049268051055402516287066305867125537295724875774482273543130701594044069863504928038600957179036119766689614056862707880488448887399134883415699576375950990136136058638370849374523581157362839388826270613525753173691042863672285826038530052614787222642193523729724832353025384271265362068753645973654338544549416394090101010800905623011636273013011779120059852379901633990968326862046378610697397823925773005589214469809194038710756299560826625622835682048414992725984737553301663555350179109442652252396768233507555097473113059295757436421698395679125271003870979464540238992158668339417927690645144271093190712768513645324385863806284263145394050760173604406516502491139518958357190354597695440654742940092036736583622707897395525295055538097357531331127837271052424310609662149845802344696275286951616332818427170937195762122363416082758156847543377784138277103863741116290849072415117141002203649384497572482720545372176631510559168509963783175340133522557163070924680159187182361938720835499879072992296603050755812988050129632364592000574043635512414998159843859459435316201882162779562160573108737139436331236929550426908232534478229435633482405818000643603969775908687627585505550180884635649721233811805957896118117568163689821975523270041711576028653150306800104016064315102169072616637016909075460622213083978033970745605875384539530134905082463856309818054868630874897406116890798390153360370540429614225478561117320817537756106663364841291051880416631138468204092202403697838605561693845664131002834251053413378209402570493167502681008566658912677866976490460466195864307894024857786732637589626326380017427315173653021739611124439682872120245607577551624736578491132005350701359117832671313495100078947002037516630576558889694690998168128107088751287068782966971189995005881103457938784224336738899852365264933281080962108762809903959422408813495105481078771427573639623404465839301818297905150155617867827020159659217603200956084450209161616145594800707741398467204559481035691180173154100242335335781068214630148057569356878283078967381029646288422424513061577230848195164724489132486774398115625633744979688980933647693167196306540768546167991900191126085111854583456712541541921608163964367451594551997802208661284224080390666916583606926385570780993556480702570348450873283929471132189260176664008028411622200450274901389716918126342500494065230318387807596242137883844129892699052081433149835847104322307804253099968536495722241527116778959053078348333880272654558446909564079571720510119545929309115908153318237607099646773508378853207691707993519771313274930587262992655082111558372792430524145757501677394924873855443046914888964994261540134690672512693019688052476508042636340691519397378350649598227796991412160958685489052352867465532352247855753271873569224061586096513392282424711148526077092471579385072121427376802702844984634484806321734769402417841524960970467659659648435927510396467505000362145792239379092020651952758690043711695543834429442414586799347261098838567627663245629269094005847263177747724698813757651531607946674407178944858858529681189409976777601000303693812989697944429423544637885521263724137681556280038367574607029121940980793939089518506127783212124488161540521495234275508390806964633119627720312433264461904989510772050222575241890037055971008726404561579599358559256501650560836744383738256364561024924011357846668301686350431729468685076778958931802074879234077273675340070185906860277510854500044139798080189706994537521205891762563195114995840322867257998631896996062884439107949451600196800522977932325669487196074540285692330314653342756434550930037637374678098844197909867666229073801034774085956781655822181709162433626335210047359890025220693872861897032163697157192348785994263152675541431548558314774708785223711049334067293585816376955916760742563573575480858505236681172066720493656255123923671979682867086633292358283974097949692794594397510726555467528597303412660083190120083228035780634729653840623839306255074698042360290056128234713838298605739100614377416412981528404329611130216135253142521178692625897887941563847715888612182418159136553887759886505366452292955161304620826484464495772385456941711532344521565448098127150347077959110291652125658071053121911507668780429306002018108214891446632259902113875801683821236600270199936708266450926406924326041117595601151945274249517857750445210521580164451697186525920110476527289972810276898318496528877419760355243383774596596566914865141446001865324860257464600793693854507433214055605052640459691023429146728157839267490883561925873058700501760943956852692534061957223037329425625711251967946721601217482338823863112211144587244372873057269992377245460336946582498527071974915994217685828506320591595235854281824320209282296673634894279792626621497412302845443863577400643544641264263084214305116320276559672985859163962276606928426194369463597856730837987796752589458122604327991891743624203360149044519898260385738311592761487242235003960302789902325128842166192228996465329591953561133773871603683846918886603486155358645245689039451922705904759552643499149969220111969502707482535325647621486761274975594627899175259091627957509128469085503021713474540851096481541614329404774623683865905231849261107741127891401089148658290206560585642593398674525645606411307873386390348744166073626645219307344848352638833422833442871360905406417397407150859858577783234348967262822500137972141462200770723182667036290233939806950266747724644733080279710203518967183852648302132161420158820998347697068408198610689516699954599488585265840821478114304078432607397675600878077404891283832264204571905791748427142702497215436691063483622364030497563463668805140533517325777300997200432015132465665883589084367523611666949373754895269318046595715160630613065931365982477911663994192067496226427667763218696212848355944180631432292929105350447161616247510819736034610337499297983486007500024840296714085170328548291106492644942309459542000950734217180966615318411521694887767168156084214512564638721578462130193172159838153589753622092503895169410621033132197521346891297507005486547443930665838086733485938279121303323190734247469500150215258144403121953932999037221191091057469504344429720946860655208518519401550284635217964030460718335168964345058131904118270731628955350036111552130123589655772043101661191298924633133502749324576971767386877163203749914101915118949039297846776988884061499744998889733043169485113203267183349736421930574821348333308688941941245622901622057896493603954829390854925981689409416350700106318285616646244430206708926246786032196632867810462161638001280949931415786456017259098424346551983638470244821879060187338092583385677226548352000371441865902870032783201965479376038325737774568044577808460199248718799391454871719239502143977192698935942551900286687752872032121867257348625007395478097555273179157544764257428553748072300304098840611982667025409581788317598163308347704587716384874018299242761392101044163637869589276820018600048634143018058307664426066882581011986474950196715372223355628007002271400714778413193725784048912701902896037214665655432926782726913868046923943748101683257401472296375078685926120070435044600942323021514102822558391308773492355637036875371186475845038584363908092859204004088492085275802652078723321261288694085012731854586168953256623345650269601366532425620517576311626822174014456779809746985085853351896693720350394832311826983867983339793928283979132281896070770837578285432939816679179070231725795789538196470423684857708975061526005966685736101166904646964088323964020508714340402540409034898942816504963208276693922571642075183774081061639880844684264019657435561855184149304077624649845556775814783649856304753605934860116748147610927500184042267887875082831146244827899371263972258381592380434327745279814160180413482150780860527215398355711839349933600534423258001801388665374182972359206510299213505369462536145198696906422646026401480507966967848876422750531611992481651243403794910590055357399605719227188381824743012882941394171192134920991039631312804417904418056849164750315857104211669937295038097013089310109712061260558611979130758740239347003506051524402702970966191051439688976030585533882733803909325083170905997689977170674054369346099806397701942448997410721320587282949975826394438679671689362944865793825208137903784798537168495189644321229793174185486251301011870962944017877319112166234150175975560399704092652858677973262726448899591166241717651255935819207655599037585129414143334816747170097909720409521855786706735674830516328390698759883704711937425831359056220328758503315248932239060566586060581465950782901650868285756960229042245675439721424622544788871057537612743977227872847758296971035799903545451102895622757006063572070410547015399403088327425711993301793968230213087373300405458012067099694324766822295149154863642449588979842965494818549033559433206529225621197380472069043667680511383867496197201606915561205798768796342590529045981641141069694045197146825218210789677074271842301953089619573318019516525237903355596192811764830748283279387862734369426168611969323200519620362397958355565723373130417723381025661014546680631180046774507936306628866334786781696922850782377719627420371860114233220590110262435497382552617809018847101821222553040992276736984135728944837451373883135026466944493168004152689428485621169971442604018910506696747742689554911531247233691030889760559482634064063612333243403137726540240875985828166695369675654181650016012948505624279715388689259093527357132369392741086440411308124905255925958394445435037306627232097633422148189226225437131507944091605284282384481875749644941341712470895754461305998448220119323764179585272325422378464711019869920728221947359111745258670823856719840329940106629388651863092683436028356791240101809933201215786726537696544501454050171859453341248140816960166941853547073543207971348342731222785113230267578632133687439862963620614909198336,
  losses := 49741013205785329196855635049906967494117503007650441372244650825622501964863598024427905931787599613470295453541886597853603054517672490496737359491494903936988499819632131470477576463489442161172334544513259014963926345385527510564576123440428481172716069387031413802179276750082813554423422605444415967814426995928860159189499755034729688132820976909268747396340494036175258671508865448969202092364531584098199047258325809902168298129070218158566578182918173630629086262426683310103836660395512058691352727642802847530438182409888112113337222531852383589128130523170509134655968487059908903587676435855498485714910118552571186283902213161357002200604398070234721155372063898608368999848499468778561389947173325801902247327777842391941492199131117913658972173032289350271775945059108795202330761274348670378071653408327882067188951649034131059089816573418952351588800513489708417344303952575565869239277445479509466593073532420072278650297029825091911241269476688609088765772328332479031284457132890922557093398512505829474975914673475188424879443549231285408925513888768842908269046360210365396106220224031876630119860717778992117394290545107953510164327318113526605718283947085442303296474820904013264672424536769699850396370925707578682749180258417921036734565927634892158814402904191082052718829589127046242823875770999087736900705727213758220659269885588120778067131695281783253605868150269456183574456573320872848351228094641826175651739170344152909318108621631029615525412999035882660005891434943897621772579341519232534929519270837491191960725428383621536867498433654814579501027815773624371453847960692816006066941630337970487659108855525290865100186413777671343854360976057697580063685152199477370977548810068060120663067892310790191718090257825064663042237951067449323734867356451468372412905832336407770185233790009176588694837227460768827491167812372729044559892563819345258082632043977788340654015079398751936821914501416409931151621072889496804180578255709514728272500852981617434464550244040569793506801553375273476162681529884142182366248841642778916159452795466593889411860521515786991607352175320192787867276191330668983717506981598212487719437072408461361427817549714095692612030403453429186227562703041065530656927407426141679612765421581078978778978471076213644856764616084912446938881093202394467358829806714809722033984244312636716628024255449347401423106579701630896988887023017942623177251580386098677200809671412786873434510253196835254326928089099423134563774143225486120765510946227396541707707472837621982393795937840379579040740897883102944368017925980622986956801339449035598690761222521158941780324626172683658767380514264387092072258620151328412883672871303986378889661180835566813507481161910063577360486630478538677150605135357336124631599474063570578278513998860314812707271063407525967392231731808340619711420857675185596403798511513366752005040682502148259986521377855659902504276530161195455698974609839610038779494847288460421477371503769449505369423520103865776457495022455748822263937632316134697855441992247711485760906661901846750899688851207713435530948557439891460390465021571555872820906059385851841498520113668604817372630986431516970896458258933141918758456613715495602251416506774107536325611071248033262411270846972306936377608978136694437409993968843076013863746720018817012615910358613905233081254365654040165442785179569357121201624397425504892430727115555312465597290179530651952697540962321920608709523368789086981543674054337704258008957603208670734653811102474864019144883628402612431928522448633297053748516859896035985034177172463427775274514634154323545914825107377295349531498969421659366715977271619367551280617508331373853394113760005527396947866522350944033920071673305019023867356569130301254123183039004460662734244540878376448777039171208086576815511749861056229216000155200327236606137258497927709297646866237060162387481696563425607053492926757765528818613122633119168320797313927447486104989321037075903516534301618392066491263525215003914826623187551759461106716702565003524983269668924683128356222282606764567098379008602323652621296154864670745801299941738036587316462661159131347443544021356535682766226194391260059261628740592581167818737099385961479911718385631328417618081614365762717883393944231575098338885943990742072438202382220776954113426711007632648524638234484722512532544077994474781434375511383794898406262960771688772018396001314672310764399417434937382077372276625301625183994602899320958010052019398861780632810442791478369218691808506950071151648481095776587953501936809284130334140728536899257049367639995679431036115125549896784544101993144082085512828230703060125719144176519052347603656061715802639469509169130273067630906836321646530424632603454367652056298681518325758285562363342722448595748583973411147454427784933704685690043084117149256537452606308602664443743084447423052293569831814606735525601690440879099553439089087832430164806711062121189156971537286230667290033828874238916668333536404265003213053865179050663686035019550594436898269244485331864457692266834950526145184508620274205823027279353927402498982589666258071571155647310223447926445528161463990237118050997570057061694513622053440841343810324538641772255784919214354365703838190486395354151213201143456693320526535158772106000501948100920388959484677423056867018633782475519876791359094293697333398004237046801558999930209272299841946691113229976968123273940500484870660739167805723855832744320155260233367337865877186405612583913572710312470667881956747201614526181232485605078476762341929685712408616583621385572455528166451316456984007574016626720083831304603995717017038018268483309073805835196566106769601137431367769811298735579376733267344689839396274485226663326085350409222267221831673839319917450765711312254489257530408884028259762357151138823386991543903503530582314841954076491211553334178088563936856755599409698064389528051177582786830865054133179040511411480920951088682151630305350143503107755186145402274135838829046514475530150943533409173942951675778429599269111177105334382990448382156202486215380382556503153291169181684116376215429049887720396627451663594406174097803407852858740051530036769335931534202069555816942305031291968656125251835282837085438158517197597124811813380327818604742482384849138923321892293800625534208652627186371808750012195074299020302036793433754925841213689815453559456167841407245803286406592523064854214000800165971863269206080039735789967440092005446870884402629769893648167764263116649514284516749469218104462105168345058496371995107628800499602857781407808595574898920436543480189010108182746624250431725569100846104759198833769790785891725663554661926806683112325805785647167168235423799882940105477732865280687621196088915669555525131251428704864227371763764522634400449710304445305015840663973074037498153229705051531110471653330446214556753856351039414738533369627586760902291549758910179247795848458690694173678749423879875299505409845020474523080455213180709755512105783740428039748567983971992810331658493310521203335051642636623130038136413738118190182496667488755715125968626027163280681962101021960668643072362490649216333277039337804496277392850625955478730504511599758246640627700971095218180555221769452354705746844098507564665194212195121186825559973578618108032690133734974749646029584900437331853316951886112280514801293142373507517019500662967397629454152946411547097508382137311727173245708446309465426579300241448532647864057432015902984723284988597952460796629353109795533451888987874794304593653804149023107651391108157037803277998251812514207243525167393833919558284845709124753640867471645645319503432703532165420256924714080967926488763428208999400437212609063476827241770297551703247717031463046881662427056165461513379517998332839454023684039611619456119116016422722840100026882281251916847808388745595953411157036728006122896393614786636333905646203130391288081165294233027110223178587683059778371484410219787209270399741111970067922040394393009940188770965751615462057230225951943115645610645606479041904277868132540312547911814544648442057808426960975096304211056617379852501635974246749059181214391877795255786578790667976263700570503135218633270255576020403438073083373798588883157664723938016537955267444241090137310966419159328807108335608336137880972360011435516530548008997958816760468789584167484728473518328196791883179420330601096346666435587462177410595178326144372686538364831248582658626390676529743033333384882323683267895146230259532910202299937200861692160743225526147357198969709596888474670733829418906358053879879323269787990750328903200190607660107266881472908452800557499255344948064048208991472786407889889061373558046298914868339967557861677067426864540016620270000708400905147470888291154430670447153326774166765915141162896889447094484386651601898917726566184603210440320147734808597917094299198010051288800670627145371268981553789767423648204668529588958762902132109318540332571602257552735779878069805915429084083517803662707211031939126652969546684465238522358311490753815491549574200072550704833584375631108363967860387546782360417046306106231483149076880931541747619257353394009843676091532027861358713894800145448510468868906303517821844665985051795220567855229625564965626997914164719398075109278070548446595794701522611074709314589696597492660862398077947667796108482677945312125516525681432814363626688621202794752163597394701984938795771995781566437029113817980343992532530134153817841782380122921270804866239552771254311065041712718028210435766630360893141091427373756466984721042677129393652237400239751623457103473810258450682359621155926414641540038421799239357190002307738489574163868911898540177959587991023033926092842886619743052540658826575820986121922699607838601226284761724136280262095686975058973858639271448419870949203050657967418403520778054244453377637375636172596588572066723507003831844706311066879197593220675079893248162307898311600450758235973337087608811213065921794257866442287752008393908792393265694704105358961853899312434096015196851930991624024459550605571356332989722532162662893058303367686308074443526353855253635835916413945315252176667912342220938649504941525585863091597661300921705774335244365041862980080833290142726993714846064394467078321824168828967735552238946517088127698014180381883016622748026576581198558256850786681540365131889768703330486071942179465770624720665147959550614859973948407936279392486603643262620595772182640264268621297855612779342884086372628712812048008098022887443019214633667004466628914540184106801578301882917227246259429104321152568650123239722959125018150302114055328434604361808451682414974824604184653590507910705791771669081118183793886419232945563400804203511628200927266121602109978532085484590573020019204493100741386346410628368233522274363364494794217705416062487242386169966469589409764627176230312510176649173862469815040065536450585291431450449204683569689387550396179501125219462644933995350514609298720880315330174598388517762088561743703044548928643140177094721266533190044954040969801120064618851129925184499092732654843010014543070272357055193210455866243140067123502226767252082517956744426394703951600639234475990277935722342557883223483022887555004756854124241483617150633255522123755086465246903051657116081702325768949102427281830023941892675922865527582471210339321210330623707403898633245765841949821953633182168884778098909741826076049586286265725122650004332972345976835675887773203106951557097751370797838750018723343500180392622296148057979909844748904794063338182049576907026827576917989162559585275927828200896286876816296155326543172568700724449308886061692565558412824985744869806609295862905442880913626487267372839555073076231835751441279420426920962489777238646735859538995666483866786256808783146442566170189925080520813729410176064434622515704084630281969755235457698408164544819361027381297322762661185322945916847438700363768672082785221813052559408468063109559226443913581207279492046609907438524157914525045552569833820225264830876689956604686829956204237428803545117967312294299859598316352879906370266653600989684249687804835029953558314569732048102506009548226898062371200494414496608310042648047449127912756735276091005366384779095824356388744423245118041485640817309713258092405573912862121056066552638667690363358926029209556104502900206925349577074199490113717726485543963920568880986417248904866459565690934530222790567591076240702434548611996623153987409262328579316749770124741724643570100003726968985186896097800584427725048311932934886088931780033722709580889291981887430935619043249236969547181050093480266806640517705534770590810101381216450040002332675878348758885661057011040053293209615608515451071559498379766597485004801401470247986427463591710906191600783645871143633791640512742789201409158617883783851511885604283363952602489589435152542833091503672370563603187327452184355794679507877903403475908323959441368313153398879186469784587210510686244830158770083067056761701394361868065993595802167331733183470659804266490847338865407132506019530913530299879012125447149232390361911739683711116051076045467239417863302221936777887611290268641794124297377069551466625435095524188801824346518203450321161158148235347325750248852900803353849006866893622848473288950370045986071466134308491584306270323654784775587886522472679046267469147900799788414004536769214587784360046079598956474844757245755408051685508659892189855514805646105719853178415625387118578384505714717726646073794798590821579540396960954796990722217752458513718140344709613492742610986029507273123126404112902555484673864367935713521074468298310410708978427938823452224554841306401562375392955809884546517872029434128100581501139280660749473430158270590587158138303115955905552963260552612225210272831098769406235814290940214460840707120995155475834059792180700342028707158340379208658332704306786885319047373548473167846478146732660018636457690125681290456801796875921853563035856439089356990345567576686817354872594854902223836409501177802741282073075526719690104244553613352879603831988073310310963675505934741959852982624008665643747962634328738458012288209033509356211385340357976335126139931070770526039271607737582150486399592612583012515165104492882290156345084342500359083752436473020237984317594539342067723541422648196395798507673271737161246635701057130647575174179589291631294395034551307059546858472135998826301586767495161538403372578128592851434927530143053525612807273861509683164715109912326982385509379784061849664031107777676092732206854703839646532476577468196162781916506668469837277803191810592337992120616364993307592642102673978660597832119552596702413808326836658862250219294838495764909712996196833056372251371435034264668801811778954838463038679481429377873016422197924400736031052525794424411813151119277672409327637215564398839839518539893783594558229758060187873680064174165699137730454816941349995153094806371666183522017782674400819484692070006661824243446742444034355217832982643143533867458696533936269170694796009707378435032810093712868913687867196002194602345745456162017325926241507911033013837682211311732345144634430418489888890065069702171364993688215126088189938769381155704782968283118408899126419693094903346593458892971124084865502413254827531592915261533685125039195622351398859149047498516302410232345154711841205088420382999255182287742361826021898172862025914739549180231481106702957012307875731687644609434994473204254449943304016331620992895016535064045896348010261315471592339971628652760054253647401741882132150216544789220228315625860612129970325510533658428693910789361833489715078863179771094038216311064732879026449731315542305930313069908828452043774850124403081167967174170016972580714073379960063826623142026649314750421507395267531138828051392642795352556534357321444119971781572392551717081808866689672093704392205072705979690743880829237474211973026284943121929135899845181754031973837563287776792960488324626841182778881362237642767152172048811451599970661267633223501841985178520843748776435550602844192550259011220615069302637136671951234058230033494444572118305234498472798457904691342879920064889231084155594200716930534163103399809414012113864282114138374860762725686804104868955069137570296126026638742935103901047554381294871648518493796733055736992117170457418746519079987451539173514967255512135933007673347559768458539126435603289045728230239846427509720213130800742627392564994610922332001243833148558412588184502007164653692755190485927442016548496047105614371085347887724448970029160750529517566305429383754692661516942923528604113008090642278553217558381932899587115679496663609962749906308641224061483880400578944701680259247420746318800204191753287098969713732645919283185692504978817833852564935553781611049742501403100695568050461355232638921304047092725318925778144898945101435431423386020187952804517796879790222295946410568713396102398913843917040777773902811307552688313350500603951675302906236890427383252474119060339499785509255653594748685819392797870240139129338736818755100348425238820705115823234398581403547168938922409609493372450225581356076605182026000019462851318240021433205155182183920352876817916465596672543873947033577424575288475809262782946983894733927997637851829906103821125332962134204462901957898134535714653960130539074745375724858432722085876024189639540054284295721034054848117322735014488586719240714069858778261540426510503294853801740831503566143636058150436574803771814750236868114402400569452956283083914406628272432184035805674301999434667951855148121151919400120637357058202220033676890707541365170905503802252542814974564747758642807216953242809280146365259509542235418210758288714759197591286194711136738010386263569912805848913807500941291428564699487286028602158799222949317404746739060655381086540170470756731819733739888902128657948506396502910354061785740734913576041069680519971193096864607250932326925491167209378201594585606247602188297498197559440395260176706209339260809396390977409637907139468151089785586207367010374262001198655828132042773284014988555878578225284327565454616962545561592401974590377583410016752562240116471235276705932887509715515647618927080560445789387655221893079085684100817508475201340327325590465041096408912175840717558445481346402593957233425369768940812448921533867330723773541293026401379036074096798307083656063750101324330755729982773157204968037966612038906119139953814216292262548477597709305804616598298392087603035129515547690432842304508167289128956045684985926137613661770569231021662309937633838329444155401408381421563339493111768377455739834191141344237849886177010984416148562414512957592980824994480320955608848088237546367291128678046084033702596378199289937350513075811559888002057366876719278064111602849841692778385622917530073175939431306009209499848069567201129474676373404471261173246593387261947035252291880801153676036855865489703557942894860248761302347031407267905400791924931502674493650375996029859572556903168288937111494588563164403108864706854427606104276338325576489647430230786604595297636408369435347475767729894684421296989788194838647721204772724009669449067165042760770532741398740090924744539646723247552229755755669433510562805900456851291330717441475240997473499682401701778218761045119785661503319950998918950895501079807163460591721086426731440794484185153242454221091005823529509884766801221998276180958948238743066016118507055208228421595882991558456264252716932347254178132354993153586447906685861388297286472040371029831500723643714574922417528218210551890560152400419700652886401829782679483406543482856695664621354364033085655279442692434125953455506759127737380184711529524048483835106646135705045175395704631550819110362967853282985696676249866480379300761509401902455679191790639644869410662479425947548894685000432302257627870635348298314017394021829738331249424552972955436605306568282709106501721635442280530358697305571066409570390559528826616533056569104102252103977918240400083565422979127648040830222131611625865691672995543163925865903808053650180518819758424906709495060388602447037765021955009330436752579984056822350653501691128576542046284006998261401271212928206252974502543428600778588569971450834963236081354476507426117419023125473877690197856512905781063154671955073469814890358605156793138786464615593905434353870920200978627570282702288876550773852715199673672021911093972502478893953528158899687633475086919631565663341608673479578495044145689226323322719258256341755622281271957737944105725559646583724065927994806701239485674270383712235903664881248924766735500588092658921278788759769084723424956047654631997043617337111452000795631415219911903946957233793243708679539221175813221594719554827452836781246037119989686206338575263881523985648303294818373829545123863666576523390142263624259933461363374572651131505106001484348712538209443442810100428551907903266541442583478021617351920218911522175628001199302051833397859704873730409765773680062507400059647675223716666828658603786578106687394457303927668490629222318794667223964510415411573705108228391929448079293116906927811677645701922860229533037992992069387743966826175450105228926038211958946686578654387868732054956569064740593975848890835489118447700763556246697227047889164344724838638294570440593038949408718637752186879379617361640186238314381923869448132578718615625350498264335110201061014614937052142509328481398322147294319652060718371519030073372078619526103607086225572762752839673643854564499229208547924433364540221394484646800402086934092493545277329651610414303710624865500483439455641848731123204578726399589602853729889068902533962312416872805192818194717897204214458589980193454046893451309015762743662324514065514491135369788463971515302445773392555516082146345006079915565153883931248305483737696801133552407581770765730065059074935330229201093622491550976233100740281917164928295398653367203927773011034897701051308936255193721084091682528046095842405430303685211807068682580704824478339897483270338047721947100353668334036463263593441628047442017742051316241349076712498333020728669308277103715667328579124724077269293095100981901827316738803182619326779805918571675147739262039396634074739762324786681910045679631678465380937068204987419885158421498116046959951824964969864527178731015395243682162493249217439636601869289745846140991805810508419597823400183063668778468235433047913230403209297102570828044010752734333773262028833878052276385510184770200820442301768573061705342755055893733894681259164616926499558250689512680238739500098832022173183429197913350716743069776641150105134751475955729897815422093287883374649450963928554529198858782796094434856056984264578985574115483076233576096944466836200668484555848872195091711441757697896404509569548391816670095671632634229709444309697057315793382024826858676058133005846471295602330077983494074189471287753313511762284995894772912748919295523509753717913269316473637803338690311817096081133143454751814738881462976104136123950299815735551737411071145038946435462460651918998092605393812984188198710317819912956930565860538880662750839302040571923960139450003668709378622897330771454586139019720241532465659356507625237698964604016354421531010392876674823178867223730288800750275752154001436750359434178330249975292738202196493266864221317105535209970927616826388744483498501261122894148050986461595495767171558014546639491290555603597173999098213403346408674962624256011431762974834322945835843245171206661283250356367763192591464689607529469646445675848490932158879909349027633919710211886985903929213612429924508506214356982522094686839086763687982661601387556504566240967827725116523360167576782008113533686185269590855106089297347787828017686592512746293082092631444204490600938843064261629029879121387145422839306017533206633594554182500510168228512679417204564642187156264880469557447055094573188197764255648882429670140372262151749452138124113599264400945350957717068509265340251067938378345546672847179414194109957707882197423346666092172075581693291613686949553800329906765191179980324407820064295956711632325994154338291750376391913595766636975442358433651423650233049357571751977630622250826584932774472617964567062275403739508350961185710607205328496155861018944064284981491356917974026153285520152889572765326704086193189699562192251229540393943103605204230060496742556758290141937797690764068415280651863465585364071576838630941779550498765843647232802985850455226533673628255520078026777821150843955647087362528385222090438708651835881733304657539155814394041096953647598088073073212292892264314417828857426540189838064432236029044131949224435890230172143630796321490227155076590872382708447848279200119319446999513425496860757324719569550241055597067001706380080770853963412823057088324863906093698578225768227321328092325960332928344519871463151156724214409691778997820734043013920366890849294644300264288029759876788907850302538390209641054679629595146469537421185451446354989730240759789655481356174345736801693791068635585566581896739088744796315509766730553227995631019410442912273568911157946493380225607816226476643407977112402511424287966113806367256492870686494763201336032018451334378697630515799241867860625975823091869046271788545420960480525951060938619146246424144520649169996687472472784355562225802616826784626077735547187836837371407672540237377516627060417492021933853794797137025025844796326814711401341862761067539914575290868982876504310036698849244128750475893892071535374643784936130973602545747175493317254957014052560729858220844342255351834692842191347093973009349240478914897211937002926180478174661169075089942989470898575759833745392031748241563753698656160183549585590411551264761142637719087292562290126442936272995216594478470738320264067986957574420757188789006772519041141086642192219640003495008021065764606608006863551218868335144848617597299488875794276833533290331326953017166177528671220342165178389003449804388869844619563065704815607400951994650066549993538229837848861579311239672549211552641773896754812241445815272715418314496690085199251130242255620716320954010961957025713038020696096726450083008823216444323943963630757825323257977319425589129072933328361864176245632558186005714375328657586866437535768024663628784312898695286037584329426415656423970038510453616065419198214378495587727256254254678360710170215123702651042661167311418707416469272151597881835147972652415513490432473648964706711815113889409946054448009136118349386769023165576271196651797883612752262445488778749132082712624618909480271640194477218332715283277263719535351220782395626435191426145533632268619588622142270451122755165852014017071010900270722688970271298712932423146921820850087618418962524259582704914115478644779008100816923310857653782507093133849181177539368295964838165494438602643113931448395095988752602246746803319914868024498932045512866281649365355680054674508465425154006864374085361932905619176277611917963322129212140981062432173471154072235726467326074315091546107742732746049832474956871043691695819550879660579003735301498953921363645810465877674512835410152538663929369223941220643461384437254133806999465274269707442369732069291002478365119233304461987052374846231344543367716579597728681113324100930262473441964569071019722907777176105661700052742675063532982656700945517517207578323897973321756952765640338612284529589188290914395434174752265611033613638710960438364721432770129160212109696997976875356902233450313321703028976977354573531337398011741972213519973002190989859946966850151463596091052934786893373194803302004441332377427317424604023426452247161308616030765739418849444809708682433684365485455286334147077157870771180872887162542180099373898780312175582391797009191070885333785366776682772987086756272177948943604630650100375967091854041479669112599141932392307567505898124519128744762311526103257038942842414042616203654831806699569541703951824190930241418172832848714776610150622430313420736709967608163941586680984843464603875459899769064446325313077367309108609213165164859517196241523910889565014431210226791824548198180518744318408095844579294783712555624851026517774036116698798161479298655744230151573791586922015714124778986140453523208943694915458567586678825569830427535129181810063419824396804642830132048578277749416463604591566645996768990107898072610486595793938287401776528297403734187783889158643795355305328372951752610799230574119398851680039749136009124115266908169751715261549486418862109874813432377715277874605287303643562299203837027604758983422699544460202385584008135686546902702260358160985950267472887571917495974181662993257671112757079455261812687269037831144567251492838018223815394535051942054744965812291756427131493680722514944812285282492475781055754114079526636793790767207334064115831741139457371866302340851334684282586440660929675983082577755237748882131591447419271872135486234648071945225926441368303875599442058806040954138714695389657916951714292486601736985187007441070065968668361768112914813571070962314992635303507382534950864145468803953263956861400390554997402065184345205021651768293547958118649355180742680372037975383038977905898912214520555741729518304527030304866323060085102059241446580493904364305309996000692590144116138729573434353123616491656965048765442502263731086014270628166603905162255090010254245983550727783315180568982537947544942751152166987760938772763604115636452985701386890243787696124090093928252511665075001516886144436852873002279437854451729154371541276251984439417536630392755183318118722168150369234893473207584530860178315923700393047495103018916024257654247933523108903021008896621307308399919312742326776871776088902317662410903929206939473047653458176388518505289933411913232154163874056191706706902487623745606376036535567648450550539818586047911524910863492475507331897704811988253744629150131114671873002569293640138371399460665798084328003560353955758116609539418104819649667351116588812398876075334998793653052227685397101987073417122825632759996551340243371317940683746421207429011866489280563891807259653587201866468266541801658036099486361650890557690573433702638701682226899711751968048511457561887679232268064224623076250004363070108760889471642941669494553398380589618199902907693374633817253411224903786822746882054222144665297494230878414814441806535507615122185292944365621798505326150943733536187825558333526807932182796895869113144819839502011612218171253805749959210634850495233709048899276027492795884422543242297446678023290842682214197893600542573034240351689692629981509256634672485418949904329407967245004878839475705581718451195141066318599322226574317285446753275940624801689121037326422002589025930324469680434772049849122010198582775187793311777972061992653126766029761461869947396199632890630497832814494918010102675462779035994739657778813627363311596575514860020876723451564570311400949995811208001717490337455609124850328862937107763218824797910840758972549894190380644522204733802677166854348753595068751646917802689198120778808262303917910105816037909247385041814916244402885107940130017204878907418522039272032182902104608607554852632199998888153649568089944431643329923942093153986095183717339403305328035228336960360730054641332315261030292441996218202738617110586133965409519319542860083440130785823969745647823803651377404654186162284994890904384456986786212524501131992094504722309258714814223114191938764242654759105334251726682519555864744399128022748065240449773661629331268954010439272983336351514464941926371031662059213449140959620911376737982704352981833525239712109204748619932282753576040757250045321335048760551229958321068732739253958531920102380636413090085357171915466718244002381159790254802969699290994120614709257310091988750744313862846590125744503816595309849497242802826705828959448221668417542235493271073759272668073863957911093184797822187980786206802889199365614450907267673870459233866755277509491329015902881737941224385114815089406166517072770889326581702736444627826419549804615000453696629442890372724136132621711463193699155497798205261431423333012053258353127784376394025718784847238718307253819227055788399970851495512325808257985239815248697534416317686287068952267351262523710753061383508887053444295787822602505864098575844390760602172028611693447875615818271676655743410943234626600140332400863485799193755046811833872099940408159565047566866542238108344400107892380724520407864416363766481830190446169509570449063534911897767997987401464490873542120681391500377420205334584204464343537070626853565001314169346510613814561118355496428940471803523318119976405683418363910232013370086552635375053403422280975104345916517099028499390243912876406975374222591307614178948027125830098433276144153522997607692232208434924721876329810139162372804492591905232647341350271232898862180495284129136285586835267819666121450152567533441181442994338504425198981266104300353653119504369295361656082705564191227483754706431443372015332398395558437057896275506807909542937786388338574188012925449446540035250720972205607621518384061050407048010880694056493979568231282207209589659598638618533350095593385867169339700902963565532509846451342014068867691688731818440501007000153275299204402669354904027072594310765646040886651292051372328505105724071329430710795787768949572878894184916292118327437107629678339633491149200524028954852825851713819183819798052583027471185436707573249357818495696963956150757936235952727682595736532294966750859605377244154765891483300240339873875938026505219487446049203330981197752785986577436105629273012666097263991070060358306878360344712341307379488435322875056259065075615569201485427265150960966773131635056012023005702830537506560864858503691788020191139601215988111625001995422314691756579074960158208243242196209364004767864793114622292544913615178043343968570785850031310248016266466677501172223895823975102894999198013532797734407365160390781606252501654670205658805135818599273405595293170406614394621551674308221610380224991949491002806162958640774519635879026061497502456837004001780919135319342778687939687950451607890642881281898937821741382147913114246238894589473324614247368132892099174536614594697113184621384641369775299259798019735369951604930176582162877097593748279150734826028379773077139825028334105064881185414004136738814244699082491834629028231955274175106711792923779926997699878459976952732871219683831233664023023657231901929180496494802302620850091740039998096298306862448552534926430957402780848711546048635904966185672888809298607996476591705607036551390737308875800505883753766373232069880493520927916785528794045352170496465133843869869466052255088982064790734665356639066193002874513712297477653683243742056934138290249747220096396766709365692790301012121115789304017704331323897702843421460225218508959517185184917410793563293173828322484044964281168557308472357694479055614275785645272729239813505607392521788579891189387949328779235304308419823599039070586394087999717618787977890830343620216160382685680277186232300646082784590770649889905585787136109793977940196647799817271893217882214006128596788292827940351447612383678360105509306255768286324278514523901043127538864658039116113713050023316973173379802354946472746650910707957082132074508545161037394992553516139778266789713787950597462208332819760382474761373053162723274179683445322008233597278310614834230521763123151426673253447264783001670836837534823845489457357372106530522498069735336575000374446707662996110649529271668360851094311175119996645358927202075654789336264526674545979680176483309754816587553837086354961444973500030917784458339176984734478064900271001105812622059721602159759229193777420741706143154970292939815845055287510012021978869743645998574160352173654969487751410982814349440105931334590322097403864182322980969035468107270151863591063232195540993098736546728466161831035786257732252893239264991515479848370964060426897504114175944381369388532640281264358552673019857103503815333759480611912486734112696556508672310401904283670827810415280397655254387198893894613605622781597327253796704168397850545364993201398766252412970997851578026760669882981010129768394685618693180039202088465397617548326926778559995086733259564665007005838216275539409054460399997456720580323043466670175389033118349612139061402650026310302803546237389362752845575870957732487942408211318032232016202964771000304591678878891930388529116759199778026815418642874429390541546630051569561734100489324017415050935793503638892945435522430030330857074414531541299255873954862774352713456457051493668519658540871832851719164176371273756833000874035366496678396185888431329825429536824505474534604542299745704946471306259712735618668734148107186308822824921010384458067132168600092297467160181083891366261058082220264551221717478958271571959082426360426573444411043090684493718174494393473996183902111827102947289589012990781500768218480578906909555043117653002014742074110808472314301877207879096398274076223704070530978302495535472185262745181718165273117281697515952939967625248202670702990029521596960410983057806105076898020526927835016472870035984159052731144453819270929688896255050669445492749889114869177054086450986666587284905216950161586183636139140122049648452673277667187664766373217692126660775829742977228023877652373504700838055187586655570432678798306712049903938935282481291209648369637664600798582490455993480287992155115324867176929935045076738170443898232132022403580595065255653483429903753364332596845996898307308926084199839527344400625706023445615239907344493524179393191517312823291095308896076324267038774810033778455911209022373885592161078905999518006833120980178801873574384195222399170090389516015645647186809377113287363106104463398588258633888763107506436017585373062205407787347645327399956061044218853897074237880263377924610876052975652581216120589707846336284302428507118463334697875823161536460577116440037643031551302507174482782250639662814749272300663236904057322427913730941365910675839799898484553759543891821333387933983623360960417447676661392928109616961192234030677533012708754737591582190220637242008887329143207631114399235687764880682043319569741034476932505745009381598473295257137710927960143530943680401684343101409583522653055725592598057192056201600967276567477851521870384757021778980210664385441081286217139070563434305274212326473733440528129323821816544227381390376698160685015043723424578218812306506317646140688086186794182686203144781563146166024711882810522609577384417986349909237912025699972378757899207732491295210776911435378964235809637412709441584196544200424397303347705820488900761265904687127779750755420719465409455863459611308556701524374835552984536023824255360733964232563364636930833407460443140265060166563603704596770578870377474597035290280280513260261831545747366202135890555707480760032629781942817782300100371150543906926569715547960201655357991948332158161452724790507146537829913421534389319518949347489435672853683840335452241937483658311204278599302980885445798648847753458822088572712505423590331687031151526645234120155338883295820081469770747973142608306446027188519470569162627598501820840528979508268369440906419730773023772232798354497542796370441973377943728188317909352972467218207932542840734989427068770632257570078355749280355518920840871224555181402410529521463988074310766382499654033143617420241094517730745866860746994916820324873413145988616683504878881291834901054147452077730529555484306233949829663828825876425352487948713866457424960961895475736117230950142189682266054377228960797335406810361267152520268270894260927255832731891209842536802902822415038149349692102959060993791810825021988657518973990434824487280043600628262423335620441410840991868691267534910968236044044532916876110536016259990122399315266246536601739525876426706932394879654218614118547647356371549609156503956062156147442001208152673168994899128604757195693216038786535113159236446092071164484355814626215441854004605741247599582950410807817738536241292732901939346111018960940018077876576225367800362770280548603633690785146209047180970542462570323605613043939584255143302411046575675093925345978703397840177438222316081674627171478098941157593535615187477784067135704599089160561470717352440085593101042330070015629417571519850589211011441464172227660588279240932037800102918621606129196233260673563281542412483889676899382374695373179754415206264138321207642578837189011735937503259063188294635813327768929374370547090473013773913290040726621640984155661465794032272813809112935323378865946143526939839841885432579865900197028030154605447984530835909595456155577188233983939918292339864058268692269371958261265121653622819364619991501388580717489171937526068255328457204763852174318780424199529317185749690491221345859715631759684887070813002704814840100174230915262672732523344584283171719253415252699307003311132369371603271207473403930116601841656626235692011773306770697052758789873215464736026931172881761660582326331478420338578307891796903893450505505213757766014306734879859694527333169655437890778322291660305791220070331796527770591797796217167582587821573375823956834629806710545822176637276746087275799146223167432127372646788734609879063047444627420330988715093564562809009447749018744426203979165048065053917937469336100004393282887031334376294023771909787371938372167935640012301399902601768164188842286373123940774536669928739852353216068176915853230189833674401477457557303659078463291945397605114152175853385004230479776915178886677898769407730779441813669503438595245951615322801085552183244476327294742559014104012964510503140826214381799608501471287254487974964205844489175223482795029615535575855733477997824917777791639932239026113773635992227995885034842318180578743821092488054352932158094397122021312470374091274125747219635851119586963082459082891086355291249001053104777766354578944115914251422215992904124989662520545433273758260473724843523330744324969525626117091810234407042488084207772974030021349795134464559315120846175107134149628443081510754518495624000665298501762838283153638435056016320966684442329670046730127581081995620418247486070525478429112701437054318617213921693388400843782640548471429965617893711662207071632473800855655559302719611891668145193331412607017256082309769357998840538759676849636003754082750697372764911452946404729684192700207421960692650518795056143109087649107949246193243585176407595245483227090890200405294759300169747114523510553231984721230946196099512008733404484422827963810719752171573026625455413188108992894173645890956468865802095603230306300115866264278118553236440314399883821954593523893440613405965696997358251946391386914137910403398081752317422215708375458859158504255915760859434050755159633725831037499710483890284005465528648080071982071380930925504220549515394541321313794226415744079038264306819263406823238369015340369506769740025955407914245243101303376446385788109664126090794005177343587956466185630633828463555996815893969709468357262609213400760623796797928726958747423987592358742583642499186440459557838902970278641833904358529577804060376611477328923557677197643015866415908963077718632966459598907200620801304024665415210181090987355219057809212133307286366573303106256551899755686048997717239866685588435971358501579092577427849078185968126932402304842380986048784883096527007939159185518334577544800265874408129408819138519538086418414049690359385762279278965371267552018772436098822219513559397107610826943329435803475791756128562814282075122030486288330508069196835307674450650594187908011616508115704808493901284994927271958476702231576573164866819118584630274982725979225609428222396403220538429874155428042613536545443095740318864378591485558665173648216337723010676785172328722218841394185858519806524601721421966331107859745877123137193560181617685929549052023144661405603915126674678585676256573982367823533627836621813964546069304378933695315033833147781871652634842359097632154797148741208728240901658459746520907559548296490682798231992446647131649919586310567516788611384934047378275846648328465992267318961783798274566353995056923379303896913673594537831979760856686764717742003859713667480253542421073974858204193625005178765150682619332734940723865267247690544343875466464891929923474402646398486461121607404106283010379300028196003195840862526700553326618629254430532794147712033992078247937528607371058158841608602454665882590056369709720149139116071580967805417758122179038778422816869996361320408978431836832102512306211157828503910167678227387820479798504846795615295397484337827657408426845006774710310182736228064288327344748871448318568802498716192410390531756647934913991140329008792119345322926463979583083104067998186872315066401464609972517554831300049216804320529871193818551142371906917349601154003316890029901430049233768090990370501421857181441736052979847846753958661390102688747859491171058302974380285732252623558258555158820665523867811185552034875699017814457415896086680213383194723113782015984115428541718573131333320548482069867114524236921928917678751725768573255443566010739941368235973956721499122590424831279024054321000602135511007763579724311123089866363109898373518049379807454385258268692038977506685912529535979264855811073019221797694145399113841718640805364137588263137694739305038733201993012858069105238174043101114826988692192342130750203538871915768384110321132534537639693736510968498274121848910048379707116719902332086488143700536945822444233512227960953038809369417923065631297715065888857512773067988242322445388567298591994124147881860563399737494410114495731195410482673306187865038095574216993130600027044315103703672046166954843382129189984606255726646578987110823723987716165448524793244208587390333082027513310229833361691041981538142048980410885455027848953909004681636392360924962814298811488474760210800456094654246624831123786628216563866454743468284461603373110898721840765161562613766224976896287216580592528409249570035853801405523164819635546487178594012188697235534200091141856708352679745290155583219236239965946758945014036140873519878204487110750793205238797481210780162450574181197593011938916015868627712226713151528206361787229998659052649822989733615579818687090633595281970917055047842065914292832250165150151673072504669366297784486644817644383592310533330713489114000104853759376733832401496641878022803415308411086521602473673715572490374478375377130933682413569764277660523721409365256067767819891431624698302028484362267382156549790633050340957357610103429633513356900104195692564440776530429113583625992487857965448207828795650902876137145138640484736526924444690538718203195459081748649367742994441366557018106715878598614276685675766112533096686343626656200444851853620465440841747973276210064262309146835754994725464561602881999844730258065841587312632220592165539789292153096285555998817648564250963670054760907576668742750700038524125170968077886557612701449116230855989209992540829077930946609044236229916111364187551365958617332042522573907362543761686635910559212384263213747554503947146300329445231890480339517761456000542650022568877765244427479644702561808330856220758185111531248934747201161865728028452093529927790362455678061426290826109939410564226018771067766861840105892496018479790201743858007115840269732207734858192377102412419445973376671322658761701287387489743869437166294502280233558617954058550436419213604141137026389431049029258976011244976774765594335888124624948042508688699677763912829601068398682927006028538221625707238341228427437499546711409137808450579091168988320824945159589398806751167939328926012121005347585798573225866924744849910698156695545251191130056995729780637274162356784333031348028474212340620622862949763634812216344345760296437968804907679032884442088305984082985493322544670406538931484109183058330843985610051326378734457723514896896316237795184241701997185150593568685432921429851214055040198939592614634479575581812305684075934808521356378207958611680271499344610991819918380257033758386175070630114620763556394374461771544664780435022335388880252921032826810215429393891108799705131274453989199659941586914382017885384520544542286347210838091551493464959612840935843793691811681737053048815545943759429060276579349284040455707629133278869746507233392502102848871523744239423934540122715137786431341834470066985403031363674262954045376830286661983137312621138334238646409319547652451808875600994191673564127966596859792588415619302671969413136556854769513985028499145244294549393891740729000722415290007999609438463110218639900155385724066742339802463519503938701383007976967542381068776134246239923428704776485927220674155887358441079439887454492701152061995416167895566797825926757417301689036571699822287117410941001093924233141454155954606829885379136084533570080365235911563525367380418247881450331350862509907526292928831365042006858277721248011567809247461443121862003949793305128856857592620747673106090268219952973158652404933391765212099648531728148711105682426342568209324877842488917498525676568199907616283438654714063262855055012416998091986657301398040960290245579326499399051444584342119824562872081673169252912763614562060037955285796884160520704653089102655520035058761050154408877922762216936194382200491113054002784513863826442714445526059522422246972244400001413408144566369393973150489743178696994767552314945320345713527222030967248755721128449865165125713707823591973247780154930809744543428732791557225554242200939015082324195786684862349906231763769983764304878172736323368139026194590365755387248759653118911299252521887123986125327085546183489373227970554587546295847543236093732569585788934025313889742114264566229207212736899253273604703023750987644435753839533505608063780202257890319293583491465933677707678315148611338198521580019203274266769775320527008488697523419177253022073656958720928791421810737436398642866135535391301439697827166837252117509831850321103126167229797360193236279298883114605172002491444140968839528335748051663158359077691169859465041650296693759962178376424449433973700263903476671656282997377020226150931758290558726692794185873510320522055508216109832485030359965764399256375868663473321931531356836171408564566142644064973528774426711976277244424592576491492444458911362444692950622182939803349221356444483770400233995289646474336808321388358069262303254506062525656046451366578682137659887123768349335035035764633580560634299062450146167617469931327356669249565143269302398353290697021068104290723447957599924168150123581601011029166335990438750402398446968019711163847082594487966673990884882588958766848410146688810527900899252842853137514394754164076510348085391656515851407057029484133471581503442766056308509190770797821493605746944521882843860591318223457134685771465157700856282660091896472896484096315514512453028395743538145728912293380187257341549815717464315539706711850701262364187362339598428935729134154442893068614907471406795078792978645077890968045844975728895526943843751029047900732763606055543613450252974723671554921581432709243327237515337128251172474165468083287104009665406847294491295250627257757319183096812879981567489275537121138969841208500154023597110386398793698116734790787528581904590333488365786600593238649283903421345909270589422467617898199738835990820801310684404477567265600315407739683996745481673062047339475967805450368170036314059381058599694120316964475178469943027888259738683772802201985078220034390830010786110911555649863351904104309820139140033706487003941817995623263962473055425772510433700118341894328885999258187289836166975525111044455286538966050251541618934789391765831566662118633661276097733138204794981872187909737815987469448410389253157102318135806642658757914100235919437184218990592914317541171106021506144239987611229645601809789361572531465439810320411649342694046985877531908130932235478034129271004841993538663750741474486090730819319202214624102712947294362935834335602299429392577394829112293071291855454382672775989738034852224782488131726670276973896354411315810959458491847005554476590778764027500682131682627898460959480102633966815874233887216368842431177219213453508776135374505598344572900419741110169150427671972536565174976764268704711054215638408255497788434181284307640402521632848013865049844236885672768710782643996973809563211575711832463072300069151640778039648990381817663929898647976805844686934791567818324667004368547649401817695586788942326693425651859150563638234894022604857694194894126298153453444852362545546459109384365649085232058326730630611949530303780607563436803338314635061458596767356339614514882528521932464694866787548263374344422453035394144913402261413108914378127490837988274471144626048250605446064876121023424049482761108222850686606694694509721271443512345260560773771687468951881578636568592363226658377215664980897189781120358220542345845598030824670345735394135566249220585419105477777194792084720864969733689293513569055629969930666035189864746633954377703691875659659734130491622321877887806644614710495192374494669401436931818679100177155738532588824256834072362158358961020770368306225986581752487798095241139598600158553945331885741026038865738020310700952343090995903152816510443550071396424588150243371086929640455031481505317536750584679190354473589314750914215760246069083095171577257387611108282373839238441563148297369112994296151492567116746406049066024216078079401762507088481669030582927125028874351754960029065945351094010123693714114532887228274147604844903351520901606899599150642584070782104466981083175779569984969112436061638107407412892978587107522106690200081047441803008387602079965084618494925786729777959002730511263566725340997941870606297650803727016390805316569039523561043185367372830386918352906831321789846338418836256170072835017949556091253682165376269438152381907759679093460294080267954518903816543462858133737775899037695824055899251268261066850270257151063754066769449197984539665385750349417961476474536398065772519440141873145424277007844795186349404382375698266514975786517152984418662409817323500225786927415730183024303805449181394663349029155840321773116129285842206187048102533377233579004172526420965671148342103009572438068242730023920710979950128275305152516345574981099428690951267065265776909938867469853967139466101236356796328974112031600992312707552488281678359324833921820328055967589967159831173876893935666052262905240798637482561776776616967248507374116035988838554896841359125357545360544974192568417889874102292452898835443410733915102371902275673022196649353406522335652209438953596810105558752101726438677834952079136446522357835855788388620319235041134037947576320736236531253065499873027845264902952180184375811369431721057267538077860817249467274494781520383782947574006964799287063850527330277766393786998527104598845590216178348207425188509231962503327459801929303777084803624570436190274361989871087879312201476001944298905658603282568536775120378322249066120638646732016952387873792760853250318336413534051549750439773458872790474759499019937809707372432518826297216682255403806535131836341208019157316587595543204567291724292262614735809536043492852661248990497893056981353170470572758344632147381385107864463940364555469865924099569228969640952347654744225487205129350421920046411892326737516775480378489762726564365748336415368193979290689084063644116055538430007504492778092933749681482946559733486513080007459924499300917891214823563471652596316474616592114184359695247538259232469244239364643525762312227462165249783025375180073643506447647389550438308387684949057574841891991435852889795594209535423666032522882474967728143446930217984981717756665870794294764057817847857636623193616945792989632307490958794108012027200953229043424478751432784476814310458919372023659879569128794567962244345963983930498319454381385076806165030676556449767125587917334091942468415826177514818505441510261890798733311012736766923696907840937287507247263636801604778768125168849504430242675397059970943114946173344202496362053636065900765709143889371360290037810799590487936531932377143855832771585605318029795989957492743305367465101880465760031806121636224417230570328130980310517622182666297840434460209719489847118666598124752107292498258343837528125195036007199256243415295109657609792293848109894901821132980344713060551749981593505237279344776868233489218865380716271747613327220207858849256445500614029215287917292239684738761716572545262937799656173946889904792530718624885203187989552166843948080421676922998508846024563742647387584178924120662026543232116906365895028816592696971046654395468127899953975832823827186846021165040962648654414241237165950851244504433583771784744244886535355965603941587066506060020095722776004480641953205913441268602273672100345352125321921413993266448678685922314351449479066494803651621360721686550824247853462702471536574939450115467442305051357718770974430985809471541178043107176061263119680439831838985545048238885816868471935464572231327821769930593319381587250902419076488854758621049977605117659726000567069874817332818390380652276388697560796337844879067439351484289897195086969344058375554294542743753941027032376630941857065332217212360112186454421945140358080331301589090680537380861922737597229325004667339214500630422603035306356185752585478032393329623772221559137396717234845652481815635053185407831611764668693950117809846769032537880001611676400450084410484997546929280505575241903262557430628207208426265370765256499545075464428503204615056484090125470706511341319015616251683766765465678611837520549101566292927089040071647253806299591972496778304657518526397569163934859821406669021046939315534923397093648529110259339811954870355688909422056197610939830538496261890371002100022781500857388502345793718222066692454747683753142538630592625892166245282070891867569281574104874951751529896943163613157159977543306972400429055580013296959625903832061215623388432377625959800359688780101441163149376301866594509735465823578903675673692654118615762633653821964519091746042120380424849726461172728818276904984530834834850172084926285034676381208907686418764191601342314589791722458240569706954870398677527531948935756452487371450386074794561049003627651486524248289360399314801099060377085190410632977619907274119338558264617809097667199032569483397781019251328391087594358212741099214148395087017261319264731651592824114441459239977512472022516032700103199626812771238843938196582225003854726403487938068393879473486496860255878290720905032984915943538353508775044514934939279561698263827808698477276833654362954113962937290813789544818570919313397147518449734401345991491116821669119839457397218615181060037614172696628072349631433002554778279357020446305672246778972165588481349540950997165303948666921220077166448351129107692664843538192362612047987898203519001150924398316233790884763945592232907094408906366211456507263969972591614582497861392303086970564278467859803919290124107231710662751106275892570033949040628619780336771206794566701569941256055831923349091249916706924109196891040960828622131834077769239961374180794106689498624461114112141213100744069068018851264836660628227046568932288395893116834170705520307941758605323788257744521560412647183718847323857448726823651752908965324849771452219392961794834675868293622112606579910318393618177984729790414432220632058832714346382526206599429500805558621277042646559031191967257154666799981246923003813231368012634179786484291195864401358738090485276152592100567141688124668634743522455856834252681154244839288969468147133367685550446036667089015584937128931681294732533081173665675326001304167429387200923682464507141667322697890149011907546983898326236483095244544187702988729003931399789120285609795618607037530481882071999239392127064918463749475865945088060447885959295689741373141399403402852358902212970769093398801085520733945615731449065432266781832087498956027515696784011455214630701320099924936423265341921511825646938045640601861071252722625050518686635817475493816289210392968086789806592550477954670456010907914726899721002065752554585679683661330758054634072815965185435313114387349502596105952515167473964029891117550588566310012357338467952197092802755658039220681250521444172849947644113013007915041150604441979365200571762102817573038028049929834175410999056849900521809952584776798754508602201840319097355240570497696316484128176660434753201267246544430280244059288424400759171914427078979790913993880692116010079051144532974032200115131833194043149730322177892788163172505079344468185987679318258836275111512458543062011472935602195656696392658075988330342020134591901212029842983017055694281259579117301021174836244993501415159160098848371019758589495024821316196151084877812038600606899169872713996663785912940237300313420425161411179111707792887178994450501212676751589127190754442881570618149075593112047313831797085471751230523172002514717285561547228897188766320879585606944531344772012536811204840504027383403116208034319346226697213136640672316437802960755943022998144458600853004814105800048757999503461712731048558894723611706784063148323854834918152206329482056308032226617706000126534899708615069245396567583739131333871291071562389821927386243885296609836884616813856086005269420617602907254030366444995841382863789772906218464946289704107383018943620998925145978494643890530362457254808166350731491851881995363878396420029070280013306678765572891718133035965806363442293442209438524575512042702972664246259917397007753252610843750132987497405178029046156250487165504403990987085992118681562254846089911340515551594669719917662051443057236515030863646187786341706575845846296310443854798797536304238538869235074630087197617578778335087229110279799054320716375375683503209726822317344540346182317828581963545856369105218134257542184344706122675841486679325937492731146758532578167776453170566725591335225039794799559641315733307828568561437490364312380146331689647448966967767625404607204124613464142370089077347869779567620356428865447864015678577747911055298357309255199335334938216673045904254102526627962794603406406455030969748139720297651219275920521150032769457504690246643661408824484970100164983614048196821608665689615364884538420783370543033116795483814203292509132064979223622812175541283644925991590809449044879711982659444034437769997207112826405046685526622815984478888537580418255634881806060594166032284549550909559702840112875797200544407304950796008645950085528969242378873147585386767952384585842297508841138161592015968768259614885570483270781267902348268537913040070648996724986284772428842073738340969181500607783354872760229218604231951657648900787672107878254676299065131302507001689553852591135125463866185516693201908850959801538237309800069852085241660437203989682480273962910348747497429529207595252523011553813017287001489275678504743932421824203123282471952884447943747238235089878712549162731371801469347248591575073808283890233816924261799909820214478723993716832327133170651937658646398822398600020208837867530250768456280544423477445097670076320688048450371021759229935542874636503464149985990832658676275185718274645690174749525453084877430004452964261693273171697672294442676541929415773328194344851369924189232344993953581808467932204263462748482529084947700497068381741679686159347658456699921739339901425452196068534228963575334778731627355046063934329535685249085543700684041537919431259314338535340110317023306916789157161073153819547499819305010615206773955807403977849726516806504351184647078662057005573025900560026550254181424744411559371689978329028804130436065062794047448262578498628945229727074683031504134721592438267636153342038728318780540363765973634910904263374715784521001530137799485092458238036119895992533705672037940612083398361186185529121547186490964106417365420808757266854606477601584707829496795093639723995221918773862944260920713585579855371436359624976998418905255739375016478852821804703046269147616734744756774867749270239548049974616590557624533181000396827177912415527779597903467063251159502007906590449916227907056372186095494965667080410309922105978216203756192772658635624744652157612833512730182629501114829064812142761615213731086189232694198109368582257342416531306024437907185559926065702708095574079865679452108820396462705287507302128603335681045931278651092596568347636617713860055341213933159631641332037040497101089593102441127469297071383581564097385470612106008933904353547783944932580632546909081084847033510492923701317307624418451753679018353713321713836742823171791393104274703273762300019638197059558522657656254402745129235613841149194286155576867824750692242896711784471274779927171764289150383658159954019038131576775852807533343820251247674003973329239593910631360829587261943850708381337381087685047585528648203899530247806271676053530439978442090629666601149130363638196306104187545970140450249391155471334373496461546575031295436033908856594967757566426622420905959283949951343631343585409495143513145650533512978296185072622934601131517291642506828293761950008800600415552897905383188254872056340858362719576375365102532641116723542736097531062143126007902975588709357035237328800920147196116995272133755710604757217999516697690379059371413319261015862925460370953176084476917821127582666894500570463914618931630812861195888851217197108296560619203769145563457426565828591517443343519771015955779407771249286598185588787298795256802226004631194649703863371431879060358517985183811238964630706197939324817447086837129337790453632373088160496033434651592508987318722908469844519197771380746594322979085634082851606057488358503694809406081003399683607798450096372827532196014887005748864869989432714202226515866987237763935804106261366349259424169243602060785305658837189780777174018198388223183859547958383769769833273154335450948539127230961051675858548572799288673911529515772716555779870139067112333752100706418588113542823810790376865430021925154604348196857854125529457013038708248054732434545015966454085630349398603225819158377943391072432717496503918689980954797587108244404132816747670711143942846649785954302956519847173197424888775812049521937621621222975443384327106157407414686673351917221090365033122287923646016306651133619160193614159064308287753466619311362574883501762959307198953979162191854760826945176217804761287697798286957102339632967491346183401623934830713542653239358705190547468771862751795000520264776185381088785448434304339530032241342350770455590552619050079260027974828683086823344603376727157274294232052958424354135957272371418745734976184705589057166256024640402825954230287727949488208877965703914143275264274270731226164579207631613586823521607413230162554364243195382294462537339452847412887143527246135321110246730365476454091737187119161780314816829216385164582329936339958318007776676789260511933806293744561819663933203152578824647612520053933778078674983299415003774632973090985993301613770657151852258093210023783613451472235997583816976979504411894686036685834169693009875504075701443190141034118218105363997118954799267307555186447988624277202136852706502550359521875747690299121849100764272488904724333802680575962745976734415683207366424787715336597235423581323756165357547672247128237772511366287169256294330839468136511997779877761750469959851417305872950839999477993758724120545582741194528674591233649141874195182688676402543034349478566271183563866329108250268729024605377805447312469531452332976628402405944087052311970892654952509864213100032834750387840877621574215255400303675370677318228480274541555171262877686814247915741889913781214414952430084132151603877889196106241140466591728700226873566944956857893203250872357483049656756044360558595258938674140236010089564221616537515880329379868492144724857634585416712892275702773966312825005834967216337395231066091972422766023941650513967537531099956377625069194358612598676764915436612874027966564649576346799104690282085343812983034387857758667156520440756005750285447888678248504698181411282832531212087880711400187781494667062410671073598460842861166765341887009640943290139538261663041742598267719389792242103903216728573156643830145858447242771947191649383113240428859053072870432775894924115605826694092699740992134818677019031685401691053978444211997876153090579912086733909340955298615069620951527966705626402336773077949946186817394669455151372309275924390479954008322344262981432513981482452492149785996169632315175408291105410890031408382650583679863413809955649436797529754743087714947006546604279208545294941952650444509305098821924631032768949140322204276604234743506441250196867877139647176975149538043665588020758837449236452515007693878140466602181170296717192468275509617655232898173367057752694943632747076160745695802160178455494313025600686250446522714774178933475140399705306231445172878598231559679348486484102908941641246608515988601138187119899315557648028202101493787121490189796308966954853614995162057234062897764227474447994982579491182792586849167919285050955902595369285641889251938382756148650045622294115840686886296858865737894598223688913317085793979044928263224709475955269318031036251825607504757970166502817736547929774501086582967760680585821205016110781120643420851276318857278272865595198034969688339546071568526206575322938399843929419179035014853548402702851987797329215090340157043067468446124210318152392357832614409318710183894364589907925099445798028107104302042786243267525602633085982584623396949419107506450129424059680591604404718503822887500356813920855862236481867649094628110176189485774393230966046622563251373562879266984103415398552457778447862842956575112613915811086688912821584590608828040015882619040698690753557780165672215225797269763078444346441726841463780489021627970358460927824803748042770147631424524274736116405436638275346618734354595603022067037306086503007733983350885413276326761653425906228096460354575597809083546476218761977340432370886564712710474464816063217016891420901421485795711370789140544688999700946613751318824599693087011803353107452493067931900252310313309495499933068843904725026179242473576375742236696478809488923445787448704431065187449609940909318188690934760065981184285066833313879973022524014983494629719579884753178619218143069372570879157263504883442363318667911816585812768280889921081457478700256781564093716001573205784384734729883274236382802971039972475950646904712161074401261712882144566124604116748474441776375530116257155069477739240286902003679698939606448402473943083558676570430407985202892153875871715318633846342379669464914445970284567240862903984199295985541779701658807783299167014993099237219916385642375265448732566850283218173393591690397551778671565779938719059925585831732112598767405384286202420203094381177967882432349602330276536690824144144819344438980696444536252252880283292126651482716489116796912676869963963775198523359559165991822008927439556437990302616654690153500710928859411611735815657764581321557077716601681948191414818247903620020622259286576171940005347149824842499928954336453799632421137704461767041079532317154533759133719195431596331472901736641743704685065892751880625404800543751586425922689461531037444760479511755955762925656372239969219230086805120282827550503710092903173423846394790603433766664443710133111249414373051295385354346346756098309607799703756720151830928938022196538754761085334217990411289395666147652283181931250845036065155494793582446344173057830682860183599856331532302743857670813359421148039863810174146171967424973905933125062717455241624734277005577046879565317186147794875823420127882139312723276726024917634277672376737907419398337806084909914023615972852620629930265985155072,
  best_state := some { pos := { x := 12, y := 12 }, dir := Day17.Direction.East, steps := 1 },
  best_loss := 102 }

/-- The search state after `12288` bounded iterations of the Small search on `city13`. -/
def stS12 : SearchSt :=
{ open_set := (12,
               [[{ pos := { x := 2, y := 10 }, dir := Day17.Direction.South, steps := 1 }],
                [{ pos := { x := 5, y := 6 }, dir := Day17.Direction.North, steps := 2 },
                 { pos := { x := 2, y := 9 }, dir := Day17.Direction.West, steps := 2 },
                 { pos := { x := 2, y := 9 }, dir := Day17.Direction.West, steps := 3 },
                 { pos := { x := 4, y := 7 }, dir := Day17.Direction.North, steps := 2 },
                 { pos := { x := 1, y := 10 }, dir := Day17.Direction.West, steps := 2 },
                 { pos := { x := 5, y := 6 }, dir := Day17.Direction.North, steps := 3 },
                 { pos := { x := 1, y := 10 }, dir := Day17.Direction.West, steps := 3 },
                 { pos := { x := 4, y := 7 }, dir := Day17.Direction.North, steps := 3 },
                 { pos := { x := 0, y := 11 }, dir := Day17.Direction.West, steps := 3 }],
                [{ pos := { x := 3, y := 7 }, dir := Day17.Direction.North, steps := 1 },
                 { pos := { x := 4, y := 6 }, dir := Day17.Direction.North, steps := 2 },
                 { pos := { x := 2, y := 8 }, dir := Day17.Direction.North, steps := 1 },
                 { pos := { x := 1, y := 9 }, dir := Day17.Direction.West, steps := 2 }],
                [{ pos := { x := 1, y := 8 }, dir := Day17.Direction.West, steps := 1 }],
                [],
                [],
                [{ pos := { x := 2, y := 4 }, dir := Day17.Direction.North, steps := 1 }],
                [{ pos := { x := 1, y := 4 }, dir := Day17.Direction.West, steps := 1 },
                 { pos := { x := 3, y := 2 }, dir := Day17.Direction.North, steps := 2 },
                 { pos := { x := 1, y := 4 }, dir := Day17.Direction.North, steps := 1 },
                 { pos := { x := 0, y := 5 }, dir := Day17.Direction.West, steps := 2 },
                 { pos := { x := 3, y := 2 }, dir := Day17.Direction.North, steps := 3 },
                 { pos := { x := 0, y := 5 }, dir := Day17.Direction.North, steps := 2 },
                 { pos := { x := 2, y := 3 }, dir := Day17.Direction.North, steps := 1 },
                 { pos := { x := 0, y := 5 }, dir := Day17.Direction.West, steps := 1 }],
                [{ pos := { x := 2, y := 2 }, dir := Day17.Direction.North, steps := 1 },
                 { pos := { x := 0, y := 4 }, dir := Day17.Direction.West, steps := 1 }],
                [{ pos := { x := 1, y := 2 }, dir := Day17.Direction.North, steps := 1 },
                 { pos := { x := 0, y := 3 }, dir := Day17.Direction.West, steps := 3 },
                 { pos := { x := 2, y := 1 }, dir := Day17.Direction.North, steps := 3 },
                 { pos := { x := 0, y := 3 }, dir := Day17.Direction.West, steps := 2 },
                 { pos := { x := 1, y := 2 }, dir := Day17.Direction.North, steps := 2 },
                 { pos := { x := 0, y := 3 }, dir := Day17.Direction.West, steps := 1 },
                 { pos := { x := 0, y := 3 }, dir := Day17.Direction.North, steps := 1 },
                 { pos := { x := 1, y := 2 }, dir := Day17.Direction.North, steps := 3 },
                 { pos := { x := 0, y := 3 }, dir := Day17.Direction.North, steps := 2 },
                 { pos := { x := 0, y := 3 }, dir := Day17.Direction.North, steps := 3 }],
                [{ pos := { x := 1, y := 1 }, dir := Day17.Direction.South, steps := 1 },
                 { pos := { x := 1, y := 1 }, dir := Day17.Direction.West, steps := 1 },
                 { pos := { x := 2, y := 0 }, dir := Day17.Direction.North, steps := 1 },
                 { pos := { x := 1, y := 1 }, dir := Day17.Direction.West, steps := 2 },
                 { pos := { x := 2, y := 0 }, dir := Day17.Direction.West, steps := 2 },
                 { pos := { x := 2, y := 0 }, dir := Day17.Direction.North, steps := 2 },
                 { pos := { x := 1, y := 1 }, dir := Day17.Direction.North, steps := 1 },
                 { pos := { x := 0, y := 2 }, dir := Day17.Direction.West, steps := 3 },
                 { pos := { x := 2, y := 0 }, dir := Day17.Direction.West, steps := 3 },
                 { pos := { x := 2, y := 0 }, dir := Day17.Direction.West, steps := 1 },
                 { pos := { x := 1, y := 1 }, dir := Day17.Direction.West, steps := 3 },
                 { pos := { x := 2, y := 0 }, dir := Day17.Direction.North, steps := 3 },
                 { pos := { x := 0, y := 2 }, dir := Day17.Direction.West, steps := 2 }],
                [{ pos := { x := 0, y := 1 }, dir := Day17.Direction.South, steps := 1 }]]),
  queued := 827584907020677409563452213890321402740007684828046084765875042409827527963994708618486673927912491528574785665176428196726934490926857866723289677492375510825196131514037658744481040441834196434334399975147872069837251470214740143902215324149635336015687116903739886594545407597503336729664987761467766864963251458180910003341997791461372258054167575972511234122780717860784402320306354413482888065318931655327627943009073789457062286056167634873624474668185890175661340053324811787613889964194052900555854384953594281695679850335176723037972836189826639791533212950002223754677313602205601041343712914360132560794724716708063349961999818826172191196673316844263926768356133876657879094042445585706288492132308419177514298197710239164724872481772612034420301975124452282930050476374959488759797703996660935235805429451445841133948669490658367605806012196340815123374068473480575702109976369965839004227569209427522820418206020494603391909397096544350359174159518727486974216678135959607595827772372014381471648001612527342990399936067938614891783085765298501245364523533181465705074033569574177761513426271077937259479483603224652243190576559788356917333786164978057102872139158229304166056246615258950716251919566044553632278516577401139708633229272732441619468928972851098714119920740181468235722885913908913217210972765556538887680420747903926645893285823877821340645478484112061640766722112881247147117787964110711779750357942764194023375211622484539686434239373433974134783793804074771800803412228181649116193707095432185165079219071438841167654596208275818078093037797769918005439378451829432139334988180465406128185008427081332655329881465575802833434086345396292078193968030045573978502163943502837031387872672852040358472710097472649081220573105956515017293812192819498255972474675601677441162795681058738925372589579926056492762825590998491312842465838996765348407290916785594619203507921616896,
  came_from := 20595207532532843191719023933686968049796819840328446475877216909317635688609412929572937259226344538976135730399603448794815080679663047835435428345829003293164062888426111458106332436291558770971099591466241905498952970890331091642132552475647250103497667051543283204264333232867673016283515277566135256261407706126329927086721865047373544994296223658827368267149013105013389117596613663732639776403279369120316224551997475772149399624593868775764662550649983952024904589766503811395147028347667677028859515388240524783099480066192034329686997344962380345003730261595680840625036376678545462225446519364966706077137840363072627534615857566616364400068990073878413951258716096132135968565580809657159216502285603480762222461878901246430513496377638006471985924707804265411768264889910337241494428267118818153921198353679539433334747390330586944461907669037166847495335961531980612535385174998360894611481027556655357353293374113542949334943970170369607450137742877681075278645399465678934810566483573368123359941951370029603307211377506425513929285430870572696875588810812256187640062568680324486362374555779554540922993457543841746451698499485044736003342260003272554142806476978537799395587105646324614934104280739299523104130890464546664043756128243600210322675979763573108437677955517273214488596077717971823278265692732634418282781596046922398472206605600444448639246961820437409616680038811721520943751344397577739504003179647962530896908004472690585106265733401774370414609756373363404063817711574372141440294957899709901616185974535431577976259043104578996137414523289376537329555085499569081352815582014774188414433350877741300574257778173466258210959478849962430186084744257273358758119540103830838158344549095410541832610393073425918519956847480481463567498643662017310121714510068419074182717287024953670692695705245046699512435668594223773766306141229878503073963854897271981648911060715138498098358541902047232018849231029697046825868852696767321054441371454440601920499013126371270829152658764400497740055354198881116828690634920834616482470974539787288279340014268303253015869355265072867302864452259002311438979976535701346727005944241163172341707739278973819687960613896113024479584649914271765908108186742620731356946435077929003391632809659661031151263418144493647810412145153621612639828217717009188317241884915606108729940358225171072292945033484332147910462098261742714290155673010838887900596012106841540483192827932915196019205367338667867558008845624028231977383500739599766564541526103485165148229066111136705037322835194987914741304333875863172823393647718667573379153568672748096777517568022152411077885723946670355064608520991167008253634336809498199229312757262816763000673792312339292949196178974634482163898060129168725069685218797029339479011723962838103608550073864677122349010873246199692083467263595276218756419969607680823353360116859742595214540956235318911762898605854729428745680468499120884823007903429247715588848858462253886198532842010703261722268236141771156654313671992986942676448481855770254916749793671513745228559979320087215873796600802827880159069167702786911461807887099322572025713041754987074693756253525550765707922500883645302174759596228158125658907054393648227778131459461065732249183892250390691322188547177172150493075610688609959136432336839686033357229495071163958580289548416526641662839103512903226394332020359070267533148877597168626106735194041480251530002933040585400511169165625209984237275345826160579378950775453465632812214510970713816326685705872659349476965962549817301071440246201526831946728151063760684856852334227878826465159520826282788792459502264251087419939576379791169982686498600570150562186029708346435539380017965657131296877958660978516618925839941929238226441699836406586268724189654102054078745254001720870552220269076725265756989948435771544972613073869142204670320640061468277788564546824002129806351204988410892552572566023904259726920408471471180411400900874028217075372888954437560724884642350500153027298207140312290890787217582178874184421200627312129214242454879698619586694643564595854406759886076335961403602126903649360502655991745515989882188663810274780009779044920905161231842199877417911319871447079403920839253124153403392286760321634044717277091611208136018992358897879192898772933090734690253004328890886328655559170320410074947251912474151176689542061542690165492832360208243610950138122346725029449819729306225431278516722276795609927031271541327784627844157303956461381780236415485392608818030753576615830682472980166036991925673717333535919810497829045222137562435219870782147206929331731301579008521383486503342646608762739630025392892612917113859216891354644365078270567880461641592464566719564142313342643491065597033249750592022545026360602215468877810456323718531559929997143159243309170147996902000676543954665870041880553172000832105149506448479972845694540224149756835683491306998249764863436209951794519903461269987267410659080196434695199704315130213650428933168040309146348933403572996962678908491405322625933680782702265149388993683332113620514316369796133962849643031506934694918738253947807580716449398871762453384006612144885664830859097435172721214606326684761853995884735783023649810482150055877578358809839719574356470675008314216066184045753692913390233136530787991788075182199771735620894935853151498054709014659164222656494783068861901636302871640126618049610561152618783320884074426117764782429183508942476216491274086475768423357202259669077523416885932191040261302078271578376449809398658836790868395138863396902348212518218571879357363370403986233529329670458459835160811504394478088841632430697476265225419772874045200678158514230097447211502024508961001902630291108309074706600493238239188516660433608912192885213790535563910459067534970291354570474843387862035032869144547169524638957934928845345094959761666414329959391647309006781620878835667572848344839927593027482607410388577581226593092095102018891008677532069218104368197934642824741757233973446259619065355838182967445777639779802358203856561932310742310430952507930649334349639649502121113568836552340241049106231762902340597696661472483744525383431510492663285379096266067882590858253316507590693501097748518046357780819598528920023989470772909187692645362646046992683569051875668438115024050462036392212990160414541220624732934128149673859410072557965956921701876729719573494979364420943759550556016217042316344206165527093089346837890073943195418712564360790892352928186064863383087874365143373877814162368541245908419914019258808409080492286877787572632842462539082031555183230329575079242734874623363511550785909611075480070488611235244427044715837644913078782315217782465703072166027746303387965807748883522854415008832717632481977972163862973396853643729692863193187089558803521328719487207914193859520573428474651930941397299292513044806099820457151383827519932572078164509786071043676964040406056631596241529102999411959863138948494581453643206957221875885615320845531912452055796929596357650428192880842471037392345361424349950107371095245522238818253913630231621573876401364389096369982621912775933092653303427741170410740158074114751723097963046603137012827396851524041682576560009116488494649080575179228092922975889913088777150763625513330199296733272473599295892381179580082796613800144004185399689189455102711635889986930004746022008600615391582759139859066987920157375878977364271774007930905146579317306523763548928318118449897983603070604634049951688910090805028075055972103670168742001987744906132230185617843823862683120512978556713179841806463114602081278651544171411913916569346757920397211846727053976179839671860242923946262310222443929440792682910531767201462979023913220864133294865853413511374967802993398521050973934264901856584850030255749271717378621715886327396844879884002321705400832853357493607434979249841496346215356410550420638222314219788146909693828504260026041677725073910534601786973671286405071653180340640906157114793895544623460233950430866865979728984764280502971592428314397372128631264773267200499055908075590266737589135886282222944947719575738786733749478678941229517842395277121075453977601504802858351494235018215957813434040018980782109375216189601198092895946599481389185154935484840677386520955800645440118975137257581967515337267677359988351560421279623796229153174807920870366941792993401418990710781337760003787955065504623066708402646163139089173731079491126457087572927574030120570378036409757532933760780935207181265824372683986281690687994753980988651841509036036927686619169979486079508510904800568119128410751155971287639761944654805078405269007404605291080168561575270111508541497738941403009307297225709017186346227398552484422289994373450280301138481427230503654112336776439020088143168341852460313903364785035622608398463194838469037564980704487699717621737176631147341710678734945003922820743509646222219954203047575977302251961461408299707798740963605510960566368517851498572539439951391031269265229046041248436543094926504109938920130259887161546935016532093724434733754958326797125645461723289650806035929965093915467216378167239080450739272370506377585245541188867720607213960448130314584069638999004870180823424245516691569243170184307177494749902450695320661231198446204653023993624822459527383832777592774826854591713717893726205029920856121400747761789059712842428673822203639985987841346298520795622415292270393997787192876235428010576900574043678095260536819758501114605915812674990173238858532233844809144983365527741752642438048251798507995319379787694494148099356282739747942695855395368292753116525789878975248774251132004478659476268979137876337499878819690137807989485265591951048951115509499335035332399226004810436699628861902496012195441476999539414388073503518348436060426524119870040421110026527632512473717714685463467955052751883839513737073919299703829867282911596511430148932711854171263039701691779234144758203794173055070772794621006442317212147607919401663958159162028840757338421432155357556744440513179685843769165527952855518410524226591441210973587015158384077931153517299159385188372010183241070838050714634478195997309175198332758418693988775150118285779848074096406250566105892957680189136847233129841231209253691639821147505775176186166996963451940220224901376566057626024606307003700174447248157947554604162773062340992597178220028188967033595811388224268262249762080158943818182302121801506302083929831162154468130435431102131364277399236462386043433912639732943935078032267087089714968089156596031049783401638227801136869323284142817091010160385692206274934145703964465036756361041437921967357893561578371221717656871071207876356645549079022739339429109677092396535614534108389008693924446062503573941778521548846812144418089222293945296711872928334256022241593099832399017641757923719249669020328072914104548744643363272606967971701581605196513597744617137739229039287087143036143544728249404732948198594218723024748614357015080437957281791233261055849722487890809681994031308248000116943607734067213076621573614898754710094721142734510778913295565045279406482917638827671504770278049217962719060448663302142739805866253944121949062782565281299720514852204859597994566510532586006836886382288271163855530164389403440537703995938127688479621447876252874519366965377687957234959784854651257232516214092464474282148359144191398501493864536058363451740117882121985463832001201952544181979544940570098224526929378571931603004621627746882033286886503520333600547001590133027850648454792588978235365307013472820602234784998585318102964936836337172580930570931208409452625011599074509791969607425569702840363914419848420960396651849645659138609977411577785916542928527271941092048328872494825390620114306058544535398787579833676729596983754894138530415847290666543390044073782855048774174487549239670419437377529772342542074212605973420217322400720932235578906551221812583982152955084706552984741602249692507244383459944927446539788699609747779909297567745284030826640908788920798856107653406389496772363735220019695338898474919414089697844700748509229864365014793609092474253521303419383945786332089309313891041923291654843910718402685134665978430183767100028152895489661251263538330146024527688458463935973976408339962884094023881891831437826744574018942639300236431467418474899980514706680940232274742555006556479647958280542927015101153092056794174182829505583127399229198823359157128295200791110134980590267769371517404071348112179466135757107855274996502741409031694395911802739444655598813330946627959342900517362984977508351003351531992074708472491857040200163358794155320704827435697838308209676435704041742257181998143047555991782302064910630309259047465791466062578247631274125314798302571311506638729929867090014935521420974524243375725468067970009397222073396029447719158021245664687880098994346301083800532013165555948771688317126240455544777033964101069133112983973759126939910002271159202125144829537138174347100521058830031503258082401134206977598155115636836160732985532518483417441529988397514450004496212913576575579084520082640993245039807110465888896869860750545987840025476463420976367418547289513540999201606981955434490775865634118442159787104032350710145292914093491846546839773082294033929187255548504751281120991150510019558535860721411019910426270668763572542069947961759702849542879030702835103351341015370333423051516712231716054191281559915041536090320500704791502499044825026958264069221032817883710443221618083291844770011287369253779820469175151697227568346895744062414735174652133915980305624928304392128319472525322225654673336186142115577326512902599760071973523728450099834587258351024938480462907144648049242904139172219347703311397528629480490269286302306857166552627826845015536082179898818567164885532415255115444398637420170038768984740319054803735250400543005875837312014886822828562714338576642079042237539379254063482301852644056511921243259356010831903122653891674440667729592543193672428929509576826682632961216271978271283734441313128141453030438556144809065563250452915671034602544007909347425903108829703457597293604476035795626826859208207511710382373483845247252519104419920622663399459841983600791203105813958190242309885390629526168826794036242534016647333837220405165517500678097793452809080763778614120990380487174018259431284936756148757892328836904749220531996902556152340583402822217605412981691812655994562058960694259168104758253634814481230855089990958792749805705968379027282930802453326202973522044328980578655881757497818881555724195363867152162804788986340508845478556999622307250764333650503650684380938296819224775818270872440818771855888520408989092753694501806570728987199930831684466575815427843529577867203140534363465831251068371964320764109253427501520076122126257350018869289292161110068076520247318081716716910188454406990859914676612477422790550050486427876692761277831919501265522604320584265654860534865899290463024982483237619281720208325270140123556719240226650363762317762508333055202361858849351569399859546544192086914867031014222715669918928118279823609269339416570374986575172837172568476240123029668470209973673567194514255631133456732565395267963881887444967241006098147079439560332492754488778859680495027824459481234245112539030780383830608774963309951557370721926554607534710124286904955262753792260643309195236879464357534179739402021058911492333306606369254684193519488834895591266286988771515917233648676282560539457499240725114711949021935971238880169699834497305601091907897995038836253882913258838968730722423438880297751699129540349520744271261497508821242281189056922994999265942854003405618899897711168623812258286911020742320161640304225579285146460881554348881464008595918997191272220469660473610051189522937044428380057237787152932227362983485864670909731553803536319108216435837115194496728981920230484787845386895313643638150737745594991073341222126373070241744165218989616940307164787690444967156726431555559544689638100796848013399044743964580660244463716595110822236872622026626531576746857241660218285248005351378511660461789347559739440284925033551032852218989453107626186036373696587938434621156574344242505492928008370394123301643506663379520889059894748620117512802843625750144563921738510797905082407975069241647946916286913180733093101594114975060905132176228145563922182356565164050750844715735561631071467571581998113746547316652186041880403016327706849743392088753464163390999059783585401318457547445467825478922329142262288213449154960081465158852292395815491633085330988620865903273334628574537762287390799313998813245574763149097037346737208630772267647850388129652788726048650203852753965322783547639583637654923673354679282500540731021840555141411822127029872838136036913898882731768251407546784202531855063904636858131623587723820185160211434910575041108749616411379438062305364891092788947561950215375216773282518285910824444158969323995042613121396195080218997227648908871003555454786451500629006379502091140521937750341528304788782782015229731345962714505611207561445410998998294956745624913924877143179250373829321289468065761247117094469929985851294596264560777519700955122047541199572748629001524621736921552612060279788120358230035440265319692775715526456204139029312404643152254809527098841020656535993272501204538602194367381859537288975176045815036116396961313668875691168648242889116506261873823854699544523384232571606980511998354523476626349851524729084054129669059262703573279353864401741799908795665394206983060253023934994953176668232370742258975226961422670853016772859786910137085712139932758529957077635691463021258882050899901732872466115077902121443053069209515699650844357060343000278447067027174560589233303242759209970499566591917955585249125842617961025182607134597706516738242112557972956575732137636592128016764879282009947766714471588709988433157486450437994857167218347765804098902481140359160659956457275392,
  losses := 49741013205785329196855635049906967494117503007650441372244650825622501964863598024427905931787599613470295453541886597853603054517672490496737359491494903936988499819632131470477576463489442161172334544513259014963926345385527510564576123440428481172716069387031413802179276750082813554423422605444415967814426995928860159189499755034729688132820976909268747396340494036175258671508865448969202092364531584098199047258325809902168298129070218158566578182918173630629086262426683310103836660395512058691352727642802847530438182409888112113337222531852383589128130523170509134655968487059908903587676435855498485714910118552571186283902213161357002200604398070234721155372063898608368999848499468778561389947173325801902247327777842391941492199131117913658972173032289350271775945059108795202330761274348670378071653408327882067188951649034131059089816573418952351588800513489708417344303952575565869239277445479509466593073532420072278650297029825091911241269476688609088765772328332479031284457132890922557093398512505829474975914673475188424879443549231285408925513888768842908269046360210365396106220224031876630119860717778992117394290545107953510164327318113526605718283947085442303296474820904013264672424536769699850396370925707578682749180258417921036734565927634892158814402904191082052718829589127046242823875770999087736900705727213758220659269885588120778067131695281500726120485877494086253780961021925761158244118224928866448697211100572765516476078023745457248523777649204517227871354126750914866514415698785603953528345703465300704993376522577538982679516566887974146602170828182792973429058254335151901800236765346930143334323289791736433301121297580848072851767267258860566507396046139797638415873344769534862848660177932449219710735340065579408214426505330909789712544189644917386686456563520500743108125260093949909390581905488462236861561606202267753275639825618679385877032920938106261024088531568847519820438247499396902274003787020105101498081761301859424426205320565002283600415872599259617956853626705156471927203719512563724088698780827763724316099161676198676747301677472015768887210934893155299255575465417371412685518490993509726156254739411201103626242212274329746814754807010004719564528373567442113430846767211646346195174996129770661258350431638091602744139056667362435373911546179198590886679288472313294323804222031300394678433551968353244774486067904397326968341510594159155630444860757487597326791879134819298697025469902931885935564605007239039312185043473504829928101718481501186879272978158289126353871017653742931394066428266982487499565154929632589407232667237167706630933590662403040464121505220412761940878452376012673554404451710686494104006615451291434832775672449826976281279798205630455039897480925962616797237143865839267735711441117428964058002556186783815811442208214355391229969984931042629825840165195156465658837597977048517583974664424867591982233906114913484546915443275750515060236872216524418692282407944830059556139348511197817682776632862125721087124956262247811277095381494555722433340326632791603579681273610824563890859832831972399070456657634238207762861596810340207125515219818638332482575423263512149858693380975590636440448590972275612596311773909243746966754746424681832264355032009934501197667497205232635519352945081210729707335569445513755926704590786037240692482913942535544231676219419965144325120636210241623015689239472916634125254921395086276537105121085623875388328474775784914990037504176245935706929798984013517921097963337106716348346372581443219102959266187864553350805245322817068493789772649104977135140306117502279887999474369727955162749337168755400642975541174002074966324235652306073155783222556742214580556376197002185152425384872332044818455723082918394719134979813595135814312709198956650003059319432309923818961776911771781642863241985775177834639260162448196646151304901699523444286550929693259629281737992899009092901686512737159012114686611712601872050805615094815622651972439504688824890981453688605902035261253020440942025473665873122306237333920156394713227900364674258397807357013992343482016598704626478890676749781620184268918011136955760668361075134138128851544396223465135311460493376732755859131468041880347608315908509006277634208222086029229249642225156163690064486129632877449703299244331888904453777180789729961618158274022001760331684430087008091188334965490430922541232638231271219728169282222589093602532012394859151705254196113441799875639022611725887989163119056494795891700681754763220275009658258308769637692751239659775588196058974233436999288892472368752899471709421300134008035386539461388587223912898396829313961405072564263410841934926752651846099221355867099567438056658524075237898283370014760597040936382577387120638859861081542425119856395194238346874978126998457386410819830739193393997431241746045057695180279582749384052290342066236923153344367297047366752121237221161673327506855636432532010049741636899602746985305380103207705375795136984636027850136942450866822016782006976208024919824510807277936499180185323282099298223508841678521588314519001780187836447514461271679319777159247121194002572652878558099033958349463162768542476359838127406811887487313074507821867973625731795758839517331102568731416669708155279975618019386584073397317561425627502019364285188715380950115096034471238589133272404828561705394593830820717059227811742509649025684781767596123423934685194495329744341247204779545569804093410251498907956280486974681817889312088790731323791015618596062680425944037323078685098232665757026460123888962515648280336601053024382803994692772247998882623505011330263725157409845581921650169364014384554695612721522739554926470730251127313359633338085424889139720814237750119275223431509232573226625812183008084639942502474704945252752880681862443151479145349432464544334609730683472369335173176443358340118227702904992060580382674747236220667133977936686689361324919961183161699011963615276907995457597143559762506979694507621461590477757693418181110792043437365703140453700428566941459954389834457199965202415837436750489349265707365976332363317043973458728294368552998938157688408841684657114520403850163872945792153812583895999404278006367594541133168070441391250202532103940361587572181396005462949671299581069382670421870335127964611745397598908965658962995384963692329689824352718286031034342019770114861176465102630058019263891697594519591118120774305832626855585964770933333140880797645581115376685697197130644072961323724615827891140327745161568986770322368282840766471014956498649883509058439358681491756033861962369214213816394009282742973675844216619554289900640199593082044622281535015871770214713890684378090399855131875790181819022257866182550712352282079727648598644725619494786698716125912480825830590639129649587104964393830502182565314834281421832583611072125466071949795884277478918383940759119680548363855987070872038716253237441816636499835089555936394273049317896973840547639821219577977220019818494915996636538798923830313300876158538867021979082909890350346073364266987590066419479339440848052243263071824317390783994351714694659052170158771048572668475547646633392918503625001082691366409518916409734133282825873374991271577819534860646495269387260431737054268317650459073996204994302123702520468728610404001231699817389240810412607535928625847481820013162028991430644110144774951717962226455021192124324616020916964255709176869260711685357352662035464295239981038999075045432526178737066486096573417322784056521485126903795140526599446101072404982773460927771434852851074984210297069808315182384316399697124574747043442796409615740782009160447521365484149563254625831838207602161708236588426293982786843659747629855416469626473019390026127941085067022160670893457022342823722832894589118233295245182558186342013710598368688638448733150328366046139258625044016386859300536459830944908679622205469595364119416247293482915707074798192731182061620029307416154214676841005650841384700862324058421956788077144377077909317326124460480541379344331255171788469954408800624828897822359393473443185171295277265415495306539341192406087373129498717063021617470789718741233960335085432252607202140503816781416518202314082397937405280123018811734698850461015059240747675594805053762360020557398857702878229600972172873574736726114530805249486794645077992303803887760819046811677227710620826234780252441871190797688400676831154659209636691183416167738251369841014037535522503842237185637917897192530951307022642192865292277915268727904473019365071113996548360952418557657449956999366033795333013902623555980115817980033065530668024123382622400167080486178592818853106882274437058854637694852889380811864931012409215973337052236330830886819203197321494314715800015177196179214835810706172767836826201519928304713975888012716656077266842351394385013366572581481825986090278739944354372043774221085438016679531772181759962530912443637724927284343603219007434098680396163458298590099410797009503829909812439989434633426798654343593368654116590171689690396213661107307575652293992578730871845840809347244306365912751230460937405307285640159934435820199534256630042523580931888461896265181134272323008456700537784448749799670408757295035089098553353536879625753819326967569756918623616345865214101415331589357742919850655924614982408967478756348117053835633641253798606225689640197473628432012087362616688831191229557912689857320703777733215595194988591185503262324649576684772020909017193007926748744728038766594808083604468908652624505558721622057443168571878189898628287198825258877677264066623513452031908517548637719412889589051355989298019181156257044788585548986087546349495539589594804427385000024522457066009968059013548017042871881424070028623652819007587698753995247690975750750690843786538362590096872896315179721288535127693335659831614895771018048416604514228895490211124265291526105355509672583906482427509512518379169163446590632583156912214437031220182613231833487505230245029721321981192922027633311589482395516913442362177067094808601598738113507033639834773282291810885228261072518071393876802337143503695793284201355534991446857286846984846341118521875914996876686919401349283337273436677819233940692633798251530802649163961252671005034310971309185124272955407640818395729518319764284471088796266042268349348575837175490919813757787127391434182528375333455879131942056510288782389837220166768081441675084769907989879173533239738113542656130039264022128649110816958751665284081640241579870426611231797628165626109435903683719787561954685897727215790400986954846798269037543930607629763244494876360209972157989192655805558345360927051952409079282157758480598984429690979412291006862262486130742176950644148431614248189574087632993526670798168841910317655834517767502578312424608734651677611532075215625680170530592471008670458278178889463891381928479967591224538580797939434177501061690105590315906192564506256866281674434978448303940370774218992740648299065539925663162678650108703800790408009082203116589007265786583259926290218422075132637329364197003738647632366416215959271166949296326712583652444332112847295182359823443490658502600330830651667410864396871905276151146014151940113068018657976188072906545559522318565664736652546672538406624947367473659758984569808257606515497833242794932173487610311989880838043390668102216656734752996800780081998473636166055844606676694908290220938794620008990962354581197369355549941039693471663910721800359896007783573711137378839298998796893349590638222874597656454281664787187144009895493345315726347597614227237501420596757790375411938941540565162641590929537583416007834315346356285485986492545685618209759519814248730498163106237398667120191367455411738449659440727882711101759712298624056213743144466807063640574789706489760266421531405004846021560860481133169906423118224566843161325622983494169497113678268676036389907565767351472345459056444499377136027182702493962165407324109418733524596390259970273297837440729209432797186967488102548674715936130849897760924221864279871669687938364851112330580004601332057064094476847694500064522125031973708183442117867276395113723630011049218439480563160628665677682095783877867766791155548908084216430664991481198877244778135194639164633821867449005572512705978381725153430074633266991872798369779670568668362795508654934754192696421014939763401137407486345870800929182385173935467738417402381020780214835303756512417527048852034142991074288217258318472358267587260232753784161747357918985131246825214434226649935860379735135011417300545613697927049589836946131452995227236872677904389872656437389902413203667926551324368705157004615323748553677065168908469867336210404629059017065327875118506268955210501157179733759895352209566615241405098641978805124482508933052981707411658746490807079860975194542206672170752951959817287094949929193141083271035787241343418383789814011761823114269078762423726994748166617113853271793141732279371876204454864359249446477232752882466490883351234435268660844439553504553891319310743551166780645544753603301819360236329543595877537286393490697539093953609953881362859589599326448228109608619860986827189580782574315177783479839364853749531950496303762849316099340822098132630576775566783350720490925686563125086053130416056048141197511379260122886899846659668491614282575312670680549061382913972404258804658086152552553159611282749393043947739712350156118174003988310754454747258931887985463131310255673083039093832960535850050622103762058573595931735228072003889862563706055550140289275401639599146791629615038443836836860393706094405413129637399522995904551293442191262158137623448505353334489319938408509951094416805921109138450972438350374220400236274032497342074626862334478186517971940146614790305245388677619958096468957348186112969440417695833707953164439085086238625459845564972942156700477103146270400872068225830086001957488059500355693606849888635154527827154746463102371146042328299683815802664181032020108765579319273248191411762991825007003866291067160983092619820312470794936900077932390219409122285182975598847000660855344069753998787361852108131376410348225836698308303980223830168580503144996302746067528915169386102433817079529575912692632466238676336973003469869600867266830296875688572164242040027566885835666260250800346572293213361327323175175291333741025798056937525491656110145471054236244161190936685414583081085432819238729808357700157726804929757196553247410932568381256763020324165379832453973279084256183157219127355955270188526691810484643287598637813396971585784610478877518833154729231735172311520539706076282737754796879841140834640988337175242286098694867190216112189260959400138548352369177850967280886895298313100867833322551296311867994776703473795850621909737171562127136297417941619924829467224634290544953692505520604444995562411358876943277228624952794913202109381797378663680307764580451404531236038751411723132303742789719765221586107777641652509483540579845981031912503264226980135873802826719140155302478943527264990792284485554074744487139437396253520287923522554545725669224624129865381413009391874524813552729556322872039218793825554995268851191533395465776087446672248379134001426653226609522235603901990967678219731582589919147099587536457185909182188829190384545215367520236851767364704336555937776395749838518501477587676379459768046837561852605775196862492514995377327402128931983200703871236714017545122313836026710104671253621849852663315831892214442131561709870202366189340381068871328866806907076884747826698781339426877656990881308729377645525325579276271051247406572814848858881765661593042667935201939883052135224353818560771558971322827039122738854497395980193431552605546927341171720869829038333679326883295960156191861116006159667667908270367259795249842341856272960933745028706137325340618209043538654042265135426015410047456771455871723414411659419997108954870021739510952109588584200104363953999107644034553440376370632145027258637868200981603663110808795165127755628576384898146502779052801278627564676126859007884924505002296199817437246388476415719516445371737448730815154466570005356652433066343281254008236734865096263901718906811061365756945283835856877697781865300590748553818357700988542327083339996834825762476512799912495727565729573954593716382794471176938459570036411160194279377539628205952151602557278089436512468581501304462178551391827776243510281843625203199775413233078401061278986876331995631187497863539423394211558165480655401008600775090607761480628963172943396534326335110146233724050209089753614925320239652827568125125069261241219670080581387146576198452702317778786904189314699258376399004950010943272964981445810491588596776393463649454401904982824409527747603900226145594580856884981821558102017838630955514688760544511436853783026177259502916489068035839453565434509042468425451402595187591098049670937627052522644924703930526560058887226428641748065017499542211746885863448861997770374732038869503335258044480130372399375406429946394836819883452190369154054309298387098900231998041224715873585163598249826585363544236737971266431762387590606669075942826891865753996974919610862695746827188369055435269849804299321470201479778055065470100723972077253237633390161867916608987416160465666704429608098729051141928480545429103298801769728111497888747141109300593101211374194831084108667362747285913934321515350819190022997211158794205631022460921807472490926998851085272803351486619940810703587268811780585233002499283490805972028478626627400157599767774322670885100239404978111677611928017342612470623405532237432933295924817182164930800364529841615338792672720189596221541729888122016445225931943231119103573774393903204168401732056516785009226225646238829211313769155174273053594416331424543527893290387424837220366835402147028423742619051468092284745928654819126771332476839302553504244376186848221592165727172298376305748684746625945429571666251286445380537954953804113363483657983947268283196099508854987734131809384516801146986230241576006102674225251763477501243152777190904800102576698676992735770937516694849375060561171158607310039532164130091651785087638936212536470164128391546556288169418038218778165778051832954114315538396872850319060947121156253902457166140218575625644172212558277968009672251760773727591522663057130152551645641733825961061414197911139490003617611934649487075141293257713078784217730854929101119711774539416920335263215870036725635240899732708823777551611616162813385345916594188347357526837459362300090291230663403349110204754254277913310490478319045509604734708131456989205596031471140105755945162138648708563071609087940941069887375222672297901090784698789409988592660139244190593398051441975788930009530039128437376798046968828981685720534020466634920929964058328147175092750278613851710427186990309237599512924565677400474779187466842527258788113148691428554106085346779696767657259692416519425733464449419456537910728025116518860278512448124451708998399973342825299843931235233685835514400048427964837728511085234861936811113466799854069523241803823912179382508615307545898976285346463355090163921664891582371403036724098300326042280408898718201529925291579371658097373134414584747008532379428388194796353941164443661643425670205031468226635983246804946874040046885132691804049127295010062065722164908346592075744505476588632034083051758160975014546961782353753818265659383873251695856845558314944937314652543476527619626234688973044590669766818659477828727606461793079096244454758124286180666626635248650290169902042885472292445133570363531930943173971489161502388750170656986470903252080678901759834708362492572023197223736920153825763437566407164930514387355887626402404416510150159071325239487863341459536421192337181205762428701927589702985238773923204887084591356483984349841504153501480796460460684056407029363443331381510153433853271184468628372035264161871297382779747822841402437196418589925498069227927468308338713851567455997376002999036631883703786290585380704494869729551256922521462106719055136840484410950816776501702539063124469797640182021732726642665720277516115307930220828940063137968109569485293734507267971254328129793127813833593212481208485476620177868252498168684941192531636971875139280162036454551678662853473609333295952027251667609193604544839959037529698119350327194960933430605364612584359598948100382836807382281170659178602809806212271777807108634477122008151563958219336357277294893026299988593693476338783082842480825832408958192811902020511204386476257723956268975977732606827940795598792195128159359107454625789806646571110704720460852364330114847735433782575142770150866143561731090379258907966563081969216950379299083536052256800453386729568426578842133937535803690550267670628912022255289184092724304445306462893346035582944899219440044739332815472087082015946979819973222050101805978815239326196381172889368375453233592448673496612486220899540126442641274626199775078972025391650961980832835453462224555960743740533335177414432063321854765444770059373135664267808644590959340533169473318376764462107432785126642561231546889584437837441093636425293044156438653559052166110654181709583477937058378325126483897714693390595759634264276390796663969053498305379119251233848629335136482266272075284276886642792448991980046355967220828782935715633211419134246427965164203421053652615215718080477985770664587091197488766983025630768101074185078981247516609795894918063997455189601417738973075143735873278773886540917631529160829046380426053396754232724678172392900916033558284801492563136732844311277133012770808883983669989380619128197945606264073527990754026652618768671228904600703956737039674353893534746609990165510422789298630214479966494709285577200851725021083731763590245044301058808234768148117190947548358683677700384032136424007070848125049119759898747902026074517088041965386335644991238370445882177642760274130548216841059497340198402279304053584791403070449557219489652065648195647893626515969700697469620074006062821222547868068990236547647883040817228217158718648633789094863159688549245811897183373401804422692747184284430258943957638224116317997215405223650227879266730941782474183388678580215340715299457529118307055603658470567400523029127308155828731164334094871686531640103709177440551767495644769765206535527251803145658652296978831382571438332327362585182635316287735561519086519828006523871755333824907051241023222588877802281902793823321736889108945108150645602038163420723066780787006360255873115449494385596813487986945168136052989629527866524358981698987020370992889356455250623399833397784030246322815016295831213932018231898324131013592691759658274971063469796351437779388306152408202991928534823502536127004493865843217746958141586001796147422856425163927473328443259173750807030209185561781226042703631250366389475869341323083690968469401787562074118031437854715108970938042709448496952824141055039690678452957064287394223801631214899188004846670472802107292329855706337864441562215904166235327439697850861804577640147002970094657088175678511971594511219274589121246655398798066428283355855635352169827375519159961206384146215599960103737770644180551763172109999513926420976697999736479288227272850297096748178951018889777792113970526195493134649035658342923752596318522700782101730385599175567547537915404704587057276512591888438006558358538112745140632377128925275109484650379281446566412418524423823252312677934896733448758889638208618106223974277080723723906184373833148345316831559462485551077002660526543698199075993807567128754675529328636016864002966634311767021107751537513557913571156728065870482804829544678459865627923349909383154878753150125897900545631659442026999405747937637949814684628295104994289843938892539090406894936206964170669315208638035472969718616074786745764060028659577690772259410430288174320293285011988127715630010426710177944038609128651019633254396111970721630841811042376471558028041728875178362645066530946465516063700895744383111262676649627119305101316664675307646406510262098159872726267982412890892146699970519073873703917229929666953738213248529874388042669995459119921199136983286066304663325409436105028937666803025505432347485384031100699581372648181223220974479503023445515351816887791645292399692059010318063824046334144448836296457843875852498425022961794432469616125850788249028388109876620968962138588874584415535979634885203193988149107180783772504768546718023178215321845698230349040377582172780174191616663922100088128645699303700621386268319808604286189879990502395829405480068860805918557512503330894259661370806957513317436085045671541115392651005033645850150351598818505496417374684017606466076924978633149062408090707127928305843220175159166071498416382551381864344719269685734405566545078018063363633105634921619556038470306302901292974063785125795223081949758299570097418021578878978796231468798367580469219078819516352911481699332081803992531690376565007378940136294156553926194452933922524922030794841726023945024051827580032149371951884923462958278122883903019920735185384144319592027905622535075746811840532331293014607204781108991605378355878038029429607471345184527100117381719248150875179411779963861954057740272938836512328653415400041545447674446973476156556412860900096226861175194343599857071227607835018176029668208622270024298705258191897043957289308731094762423278035226443264513837397675618443624499430936969329900799701051985294491707839913383627813350633100019427261714106967270805221043025368305808411300275067300850637650955090563835909492494387408646319987628327560441186477191456184412481624399642078958155818893259323044501830579552096495879661121093787381507821225667389177587343494497417002800056673718295552111226122300039704383427203253389205093272787651141396116944952494840120065158687973151073163570290256847489877255539041695857079963017560154099151499189199328801920463882305324161427350204478528738139267217509694751420844730592591325897662758913184372170980466672972646130094477483028111274637182538051225559994320423439575678634582618704695731442944359753975473971277506508483437336958480793435472962231093599149326994273027313458348607904737203262726295054856572980798573902964216918062895730504933148018745130760504821176067723032130426878325060697787284137722433277600974502677645464950826590338749343215737529033031187012394119823820715260687628252320395043128143758917213517589429976031896921034743358912085300349006609577358042186711474422981812483943404856456888827036930689878238842613002061852987850402016690779259631209445183173331589052881231759027692620161440154139088937724784692000878086094040779791308825447113428844809467225154377761937258070933341819148682637072031483260310109803431404546046469433464827763264593310001913712705881824202291862161084920106158174107457474448023624717153813286224856613064262337584400794946970526166149167604053935771684154975873524074702952541768639908626742343729791883327404355671245566057896699975457141362954879917030624230287019040426709948903532878198982745991606000786658867381746576689066159073576202472314466453989481239166892616671416876090629083554990939028743455398390133854983105754747342860597075274109129090815711295219410724341511735050934384954979067064989075545599357497055252890776891189231517082319073526136811950617941394200753633359904378377544658436313631749234208393826659128822503742097650600973850932693927539780241561140173490735244392310714383544266374093056781770073979738628135319680397630399951513803968033966046975695149850463028989867128392112603117612637202823892096910408063460081057679116004490645797926373493832214367320819246596761252874429359110418608871116422519692880766584522508468356913878017622057023589241859060200966559993449323418826356252122095661543068686219517609002242970024848507723859318682982694471878428171798280089874296084268402800368598648803757754016606245968155189497246318975369236799940946606128442420311077015786234886174324193003589252013782546343859615879670218111642764742725228372863775635824914741751246978969114276198501126543358698264609953592323990139011004501371710099799568154783712428944143731071323458937833661708086321506484149469156035698890354078495844714607857444918008531208257230612681406561010477906396721931645505215364021781302652163597013106346763016324220661348584812910143767687453062340818699456749444794598323999523978380417184280370321748630912116971735513491365431975291381011472984811990962453467156906136788742993271517344176144300457252434518150057234474995296296438596478855910395296010240193141542243472003188605947878910274567090455210824152608479965897056191733477244137059274985208634611739404443480534234388500096036696890440791494596858054276148550189443473662812892343213429786598258920783229551071986890635778418595508341268013450605704432427189197099337703866537704571147403512695809431570751997128311465487747625303204496969153067960349121441715267385401610768043387156419262683620748933482414802456013249661651954365200325280356070457505971921961234992131559803605228318603428298147936798598184327188572280450238736473162731276299209427144087081902119477101054505465140442920688210848083403461292729198995431747464983902298399805243564915166062994477644258510432932180643177778726844640091950777210193436325138334782473790552972136015278103388182005453606982741337915499385467245621537787985792405958633350677892990571335955790611964430655575449640586418864043458420956465812933550780150611105069526170138751620483204765240217066676391916287793665791311360342796831001442853065413957493664539169527739790014274229121703612420267455256221162468399391257443675169157707458708653509414854162035929660997815790996299655974063228388320341317806669222641318710528479702276521532119873054505372712392999904461289349836823715760246308142094677255414361381648665276492741690939631480429283463172916130862383158376781623097277556921326779945544625258492149099115106017092180418851482739184701475622574446264764543728161813548286053474378164845123487549488934370320299551230196682286486027642078676183496251923356208689596780731048170948368705761548556330311717399443783173253861471775797998763000328803518872700244744039021612414762898452063019920669479751015109445697769743578722351778834021997323310992812927072849944764355608110530725927997305511732305698399844823263445248553632030267321905362607863854117686518586110747313828559814538240761448523748561377752207243311231683071369701819004978398129142307623354294216481189174906128511577372996830806686637853619781736753614912317563011193124943133801834993224248543211097685728260957449896491746931509962856971776435233986590828732932592382040812777873429930015165466733734378186668883233348768007391445941245030916650410443428710258013093478574754142250906184531337118289859184681479322527608162060258520536530879844218668722253683701829011963252358702286433841311762870255574777037846130031971875525991321274772821152465491022916548926622248997417815103319459125696400826943548903772522737417221437883851704286527492829596903938904088295640611534095563270581722361109716788568459171290291446505506370371369043858601922111111085255959336283272917122494338537153599743244388563569774725900524963388374890338111553781620649837780146043625039065959583588729526171454566332403540513481297590149339237227194786793199838990210704438843037649375121202817114830797830222815672093669421121821121504922508786120764768796530049693138391907972525935932953658085019381160612538038276421961335211009498367672509732482991692561125011380875648571343619310818649687651118184928522806464458953141739851119005605088696882988623675853288321805929954141254964150480087101335592878618188476058517722122498164289757223489484272722044376892811184123114619675675560418925788117082424794724735683516370454551859512456102354519158975841340325990872658944309035324812028781443005139171208678476824394113107163199206763503267165609476548047778942695692389267874640730066425554789193735646717200323381756063447211020370443013390186617552668812816647519434149571404229601339607268084144795132172662901585188126537754098180853038882662319511398509899667879762671569345383539364137444137028819711233684588058986488351371943166938917646741032108522628721047723044080031777668397861331991783306380362971257894509319192589646024036618497660123536784125655055460784245321804785033306959700793538828433106138016236270927207017450115459333770834197127783444753225330864537946153968920945323718428894911618144421806189101506572479377039022269932345277154768515228725257729259295130416124941136589579858948832925983969613593055896287000828029380494756625169897191358422516875633150716669040916977784736599291627950136620304252373234641823996089973339128945649615916172015138784875939707737299402741665082560481423303328109028736030088532904834691757391513201746271039896484147307695538125098093274474686540659441823456760837562215634652941810546789822305222406153051088303455191929261625219478888272011724274978320525740842586965860248678455706339226921731496922814261401156906131974079865974714142067916949814692811417942591826596955228528978768083490343738700735820097317173563590241810780032670500943291683887832636742621197648085819418013773981249816098159533781479998892703376992795879264848686691676782094118474097731938819386373140063077573021538929180015037739158168617063732430413307767728528457381179295270172676998816785725110321058470576880135722623599126272356629088931871685229704517418688457786591209015954899690879062322283084506978968245851885858023559048660076501287846702910091704629903043455267438776499877264750385245129609274678766986956951719183706510491548343954039260637402580572675812231620901205748321873045796289229177547270032854592230727445530289581392071636538786321693716751979862269988441269118884505114229700993332999731457210712059482913701832341002148383491447598465279219468320790611841371598616264745483226654244664406997547946866574217398434890241859394376579783394857318347117345896588462709561610292973450907811981780368473323098417434472007217806075409859725131378975673451934430874972848349327617446998636403556947880005397082623940101583604121159367287114666666876649542845355570932094884134929309957732402572679261947841906683910121130957528894809897783296970963836568737023764738955272524222626124748533244475646281780063356789395061571112422933630096085310519386924362565359261446300844913708641359909855715174401740402025657655203822525519056485798541781937932320229513309570562188802272145373815191337942998316900799719853485594480760216316068757349827597347627375572330829257331711085494455389805929557149137973304411773272839522146849425172596760456862465649268422277793041406604422547674828055551265406926206188741207577643673439237747943887712318643083576736868517280064082065116542692297823534088512295527617028686887118247238608270602924481602899382468303073027983000382641886303227612191808336012147157562054843797431464322167251188557241070244726570395109196586832688612038778313777607914515887553533762165004454887508891488582045924518602956205546919611158308985891703478866994755909821905452763607757028209785449735567300469799997345399185713999494994316437358744500577925337629191197672106990193639619113487696727668801141991239994828921016758266759089131442952782750077453157540328976886164027203451777657188050344443632618911290865074590825972506414805238373380737986307852819450251744695570466270750642627781598592332023203111727499725445675497039273134160515577059228428380352605953458070493349307203727762471479651213364540888680075769228732773487910200953576410610074150316236165532562502237314266586438072202610164438440141977790397593899350833581247870717599883847873497495821889237011887720910308170232972555603553281776192497665244405258967528537499680413270508179783508244384159588233039999481366152344647899893514215315059902120863160285574800189282738713721968937043832673194461715996472636389146954749543089069979996264356103129432466367660201083844060296872647727800960506448186356914856704109914640690848570760191200332956770000091597913907614150172641292028915472411075923577819607732514931776539321216893013667400523817841020448795049947554508325306835868306513685522966480915411904483004212223895419016675648577424283114283438866148624353561325102545608893143730826294002122824436495951709541745241585827728584928343169735110277913420275260052980061882786118303483037541434835877612686283819072573039400319939603635703844792747181588427588072739171150145053759277315657004376624434671118880606504407651975771658431140785779439949635991138305821727483154153781263177624443561014559686708980449709748433824674863354791444051677509279650183790708940378930123976677620876054081811091672396901126256820938453484678392866619803274014410740654650921580609431411209684222555212413823071911313575082800153626070595975211351765170500538530621550728297141760003156227803887324137740837441928814250208522394132780715781298103526288729109120180648313440031226804162783262929089054238645399443601141041101133930021031936948077119682874773872655789265671147501108105846428856835335372552983986101069014342930784741517496925108703264636727509657122681948211483603349685218682455104632503783846102830686268938500143881099947979777726318389739811310236750610284197424515621103394462088738877874833888566579358307215847519907661141527484636924080852694737345209175145056565043736337324781088829757771861144259746351367333930545282647817608198951484963975057363201989431733075615717133263009726632469079479719700114574930655303666087685297979412873649497589683524863789234597296171806764277089339363148034701780785530248520274079031500221050738027830038405433512820094497863900228450318648938512770612853764119546967470839075579266346485727220845526921894193633867212995365506496867073865370914415769345105372425117118190914242194061579998502488162663300744159359691262236719764901263062493295620164846287392822642281087845719897877765159682277914676761564269436460717385808018464833357407036024031292393318640996211699490421944482621398030702015231061080047609993942449960097575414775097210930374678482093881379451041450297032685884467667508203428560609480348483605790976325962544047174980867251254215574590944010076555900932392327466221157604775929929989222481368612812137516621956280560253774309962857188001535069491215741930798317359040346504640476755324097274209747727750631222609581592473142799424855853341751420214376152743534795837981238856782387502382828471404061046411893244948298068889804975482485728911646637252075312339665625981421144446315677966460986433121513123814855526328186512429939111849730994432021934171976302249004801606563729023080825790319222740688209707819668762626365587007485069616638236272203195905954086377661298618251251909711708249406282564504211400525022704545438234996041135711673392946126985098363309753330636208787586739268968278406903914100870223719197436063835224830554519670402401406126119926331297174856073627682185261406770045203343769798355852908793005608892442505005849975214473336128882334099615908705971550198258625869747509553175025706662696348400506930183226305714806458387097406966028307403538225415244618416920175034377804760235218079359628769022743935978944517577653662057344435187584364819562821597567824882382972692889560548463250768730674263380740074350900271261233357122803438418005484585016608363733104295459175547358830295283456919934091834497692906552391166022061265363079308481622790541164897169318975822354143903653877541035671421711465044938837949965537588090782844723139840078290566349981309008785857302306926286073009592493809804080389625482149863139341695764440398315391749554994358943600102764758682100672339287831565695352090375198882822704477331923242812158236076858449713517121078775221009202916457302166678545839735135152605286980310853797448375155588566659814416907871786283659834139425027434649699977563104476633443809534188799627461772048607556972398765106402984617861707147105894538074195195159012017159929401668452667530366729366652137301260535301126014586405043723669059339187413891182739301217258585145751882943147198333874028561669703685390312375003751455727365146514478240657484711631177459502798352236947506659756515927416596998391447069479192015862744222550018313345799743371929760714016510873146264382074124443114960117979070703340905470380193115092842995345650104476115857561709673833406678701172901598672477756748410753603162167704924548814501306935443299683984201805729608039999771809722799834111037077933325212923275908733245890265421894262675998030641471743285524559728610564646698728981129679905117073181417536440888488351011988882634247969252462560815943151075165246177753086284871387142027399713998739502858594209498900322272428917275131228642630424118850833437412084359904685288161417477611319757461806061937037931610348878009305097705407483240493706583528124472628422587359150273178278286744887512811834018482569679657991000608923778863520772874219817850745360597902260582967227265147690639965419809283065543676353841809602958188338648962558431988221214244359505798472348164087013665346964907845290005660904201258929599380472356664552143878662222749346707775957608748655336909720142095216563095466034683813782552771638983289005406052851663623226848876012591212231990359567471187554410934059102021822485464052224354776707046131035257147675194245835812129791303761753077816115384892742306528282104209081325840601821038038785625591122796616993851522505670220227199756001961043138832294103375235840435614859466287772618756847030825109569322652798091815982357543715114487757894787992147612680259564925183746351821023192351346917311852703405370095189747991127705047789020049695478250980034136121663259755319303138428635524296703096624941519037309851543884324512597550108917140372533608417546430525697880922467337304982221580169075902548387168322050237422948351839444134093322169487347025527198029025427465847105279089212854256731811742682628078901055691587005135196402788840109441263083135759924052390308551169805268996246276088680534464060336982006266876061290462844919040688374832124758595235026663760266136683690183903462147103457848563012851216096463260450889251941182109503659548384362825346971962301677236170123330812378872537497439651470345449558676376269176634363057704458316067231479863208742611889568689346403983347043531270223309461338937274695416378848420945479158389061871789094711317487608507726747080419825426462375783574365139002109004013827452501574933376383024244616418236667784575996468298396495341295039578541113357623969184667734312124351066498528888100564513649556444502403202944857333120964460645619705836547452076383240677243443411005100449638204518452219743921318841476243138225252879260761175536788694371474160639050881725768784290604414067078411914469396878031810048311212091149741863575283589439767294192173270424425291127861050473264277122434630439040467013729421731114613290016346026639441725888812190068965616365094203481809622705862085127528518579102243518595315795649535317715252187995682291111908946904261958476799960628740284362137102492305532323671736859847734546934525757256653297545944003370024285076878164160648955038173370956592254331466961999386623827589082348117052590848784590690394722150149532297564227937142514928209878080750468923787108805423496994419102560403804463520869075768647610309383847249246392158936609874626546341704410169301347453397851822710003638148816066779503051823189770169996598089985070302170405169907661438379485800231748083965083216825446011342913017497839324388082237343285184456805114315646900003755543329532196657261111384342984630138698654173910608180820748651480585400560718720753935907246803558474575240941096643958764732996881214285642670409389828706101079811596406499617369530321533849064416514343150347186154657474363267966137214220547273744923139714350068713684658577725794320571446284550149158820016938448261501037761560840504553880509587193572915093702298481779477614396800016459874443583598946037393897401715489412410648031511192758428362371699778805365823528959913237024631118410281296919758583911855142216134534652784606951972959245272761693680000582225920554038995232918534141253018321165680397110807836647006986663097526417846934720120546235134492947496368415005840262817183697343942795531425111686165286635501763126023638239159766045621708185650598969226877035469112952817153732660227894334821740767691560407752160219969164300669344742710372234129850344780055063512649613177752451353452745772428174800526131892790906932100939509839467812964616376905494018175900137342029865704957870480064395334739675479302399033691788880542854684855466087353129885418381544921536746965397464361665027009961522209051185551146073123815007608689045285662164058650182989707798648231042926999570836547990655300671934437403425246205910396370626951089881179027925369839353130209190770754288001076812159300514784690645125589805024550145332080142095810684414955987780438894005955648203932054606479539876194123371551487197441629662151716120018234886151225776320656500798123116174582931048481527671905558000961863199520464350037814587933100015421110972949530679092220434362215631833396071839619205863275666540902726283827902635676273352589566483493210241680627453849342196671760168277643577537989251906355071768068452975334124565742042051350619993985348780541922106121825479375645248532577982438307930903681075696939288619933616669195896187780594580258661852297487523765344172257523575123296219682306800591472949269168978204991282594246707710672412744317700769428720965552954088118152159822083419403309702683854367092932171306853355153764737484129024359328682995288772870941168153127485338228162780495409166998420891051023753578833936981058057746717522285914882325045121912402201861782865271798025377820404751478829632336742222912530943685101845584201850265735029062247936286010808128548678066675644988475996196358842593513722586465615129000740913795877339867158168980257848474206076162489116147572429681560724458402982045219484670178526216695066297330072356098553847805466587705640365332401494084024062641036488105013174527823849424329726028343959470962511153144359041438576726175689231406593716771098966467554625024066012932667154280291706612014977768800566171077367476816945316040231163259421503923359946400674287622169185351407011114455026155243369246976713507951224409506785191033760597113292269527701875191353623594543347150540527722182987273922032577790658141710292968883686671611116318114795950836261369290354162475437554929583100355664375031746652876012087690343900700422149688050606524194219642163401754047739515725777086751832162168123663063964247438811960115413628468922928261133185656278893201115544957598860955443943069378695611071119341018031908123151816014342810908201623865941047920252586455682598500702592289775663594904661157169960700899913159954742976612801344823725875478488371848437340020523390873209928296558554383480395740645514001270670958918153460150467156992397014078730831500029808222081690444096472301318344044422825694564715532011589788995887273149234166967023021564138009320826555837378771850699461388438470344844818940883524767821743438242756766397040020883845223112982397696873288677837488065071001051344903057107983076512450430405289765754537982051398289368179518032518933835086027124359599296027707269007705641387717362170252562543904931468961065532687846300873432059337982782304456405890978212772119484809815585360407260325576347157219489069551963185503706153143845121859555901321225403424388415711013051071010683159327455491646607965257284684869621001451783586897744845379121706964551387251788187850128062217271809440527557088089416295326090496258098607589974760757099911739253145606794427252280604715489604108294260292188690519326697111088033483018158070059479545193559593809547408996009968946315903350156695216674683914914205541176448306610322206930672454474309632523477991705903140265424536735492862463377963165932946376196720603740282974511476730978072196580038200299336108564454475856861945677908383461088710575404506692686905238627340634211066216646331125137843703835133756524575773189174452355373516256374656101499938898689057399208057549614556520903513936004028515357620085224703611794514286632218486673332017482554025400236189972882214102497863061927328583920063862364819601288944292766420033944814145254702724935623834630150926639451842184340711640416541110408845657882487891493850342222259118818388978005881041656098241254140246047090622214977666427296001902236004271476484036888331473841141935827459616114743025179215329491332490994280124295639574336164915844165453870689220272365038240330554096365435566047476734997651884733619867753469367465430181647543667080190716300486251008236638857409244146933164653882115600916262675063566424487533833712624528857897281803511847905289750445750220389514983406230434160902837219833702127984191802359978471616173834982015115143439673532661685558992424816482845733922114314692296576036071391870033295375868017547988697321551324609521624566387404836845669554237125501374409798753321447242333459874296580298928441031433870118017450224606971717528885195750169710329337531402814838887835772132561018884399001284866432487201732795753393403395379936235415139789455159781845000814527943478698878678957939922494734525974138255487366013752036425466568529475087003588691829832497770832795605425946863357796002025374349541664925653142642333528443045526327365393578728716309646141187628490234179701064710791519192602271779745275539990395908215818765777574447824220325608312497212123107907377258395801258363102085350754244202344940746623274229287594173119814913295286206384046166650172702451304351353824028762590103513593265957293887101350618810574969296547256372555100012498570030454902710751301718032874072437856772375838677931235573221802661731070735010726133854901969638322692273077310004685938201485501736007341174836804348651404089672429385412464861306026779639990016636750362575383919558184243419187350522020331467022121968972959245778708719747845974093465159347364098454576797626130537759612732816623285096241390745799394058225500085191112400881186524926531240327290808929091407744544351173696181005387923034421489783403898197428004124229867704686369394789036264474472461451835718737366541199438354801770827610021039312521287189147336382017665709700777578804069041906201244320277660460702908142171737175456409421721855547533932262605149519982373050753760738857078928601953611380093478052515530498410732850312098095163532757296108349453477874943042267680510091924742093759703543601046846926375011474026594688466279574237247834140395637751945860118049366893279704613409465358312160501200433665924644859749633904584195057757487780941763620027813081594758487502086879098524165605416364265121485866117328009979388581921497130118001552142923260258839098147986796778302511709811064149425487784168627929947337480839909924597345874766541615771929383329234178996529772322058183862706901012393922532745497340996233019738970466069959214090677435278118423328058817188109419744840491796506770079303803182270938050971857803805644716027305748216018929469529032763907236039623559148169006552928896882946630832373748131058399530905418691352553402835229948624693494151847377221568776750536615074159702681242169206663184178246232537247064693852626226381004510535098155734604609814179795425351880721894267870228971174238672536749456182476354677677939546828936529330230530828645178745753944323314922392797975021547478514693906901788892047885670609418810487408054061376931621897243089002568001135506709383493795846430072341710815450262606946981343039134922191636934670148274848992514174004169819391533025676395175289946332850272127873737609737665467666814834749248166676378380676413426278252653289156391502171485518292260810445576765117396033707586574409904082570469418753040513314153760057549666956057642729971321544395991642372669005142078171566777191008442344118816470963551061962795069479141593066623022811261268970896039363855019748517495564391856545450650864334729855968725682832669901033385857734701157019370203057181937043633759292952794098406638067412426104091560620205854446096990946707227639873972882699467478334915812348260889807640878479398941643455340792566014020316790585073051532220186182525301471461982907640292193938559228736533400885481478230602308889720926209452336952632028596313101869036951052007844952814720903502917542283162266984143555405899745150606973141179578572784142958346921632429135348140593746307602432606869194283923544289671446653297172231096980455250610860996566555193204628806681257641181064791039072456648166803539256710550999716194313603323525679510403717877135661209452276420911125596680516687084516347287852477279490742875118375334800926028151567233407385372630142988652032158789970009565375432080671312328619271927234579224406897341954289288278467118504266469366438225599499391852395925385681360452449795953956266603947402378824816352885702582254668749384758652010854497354513798284481935200373077957930866244938152149633379350822461667429874256370728926206036297989587345413234946437126941919749940123501801824468703916165564087848767256494607522512246682016083761346967988200937933584362170096902051806880170590655290730559038032433713013882551080402683326692235383886223407706895960836301521284399274496883187369162765257527385619357318216183941589046625376996450135028898249242453355053394417643300618978731427313267482245389580389103707293902594817017588581663666408949873544873748874601954575166818180714474732761681158252398585882404248496500841350629419281980100263914358019704668289103467177678938345516300248287647793220053389904271291392383355502516999991407972989754680939833262463951886985843527750706908818633049088053447019041750162306216851421229601936286742006044327203185787134107312744565719329429988840027105927307491001469135573290558216110174483219108905090870072882822819441960006455534608924178731729365906452733510807475206988422991757236233813310878473655537166775583224200350937708398375586765422387147765891299848132310910043225298709585827159687781806325599206218112770429846014791886255375703224314796061536309643720863827910855283281575051259691766169748424684303045248691548857442825002385527400209530042797697257782320178317141632061929043681871907284250603683986442539669535811459536040927451826749547192256381308565374856286021153911935564602368391834537151502794988385468137035125319969136306300683149513346157346130237414921774601251480400121829913492889629387845778457657392673779260035473072656246649266102769695518093955323743099198389243319129123442028955966824674018657290466819886000477805163639037979263731965868408985764108906408109522832143338905145924517634413762031757154894959081839751967460684623560736055891418589067126723695495410809999955923595402419957146720236971433689566123086144957638429911753914120630275930553864776640245913514859297906835030195827063556146634182865724092586974923051460605338254438267672132864075862018904770644124664067075637877345512059657528463432454073501534285913021968167407544276686643296975285831464910234265071772002403671326735363743990357748232095031544684670473819652994780178677608926680895825315970428425667469493266897770120098537161770908154393978268294259259809457874351016943230256948968964002096713463273828685678507310273791362029417960372429008576799290729737360377583635305632571779585357732656009337248407957626860996475756897199340022917171241660686634930056037380419478524124483617184383229692187039415175089009058667578952448533638343708789341082714969235006810235430536968178612431465161897684132621871480745300841851953003601536736611481696489945762213976980636903729954965326607580055153430466989587537532917819898357319523297662972564629268610884690892689415443023457731279294029892174925528937424124683701688994387333631141221749725956632151142077733949826009397877993639864691885824704586951132036323275126398530942968949152170102805114930609602303380110627507219026733605990877108307090664179167343868405059864410363035497798931996276193453689390777943776553392931381351929274544761353459006580883656383446674553212903763708376830435178480446115992719387445032261936791667801816681373482014061114585910407751903619553923154760245787324064808425441597222406348631563373992428886695586264407547085066494257233400799299364984059568923446283086764616260135677549837557752067577564984692895120270529382580609360303914593927450579150896160115754291803147461937282124930581897419657130333116040059018130126431461928486473656753213174216130204692219792563201214012427296110116503891442811083764943696842905210419450741758468202044868058790726484662016421006289582376404445641237639288661973482153595296024110156130198930710799683988185494872171022678438157599874751711370375427016758388277838949367716310186849134722267177769115173207049898499185402554684834836451608008909805043985161294029589781941230093298698846083729865264885133715131958481672194815120054904420473194171226063704661401782067123184786879195574901305401867035903468127326733875635144119027317202683670876582797847486122070272483484473221673713222059709717403885189018658774053084871535788497581159313691107765455491588396128534259440005297272945325475789024150857637331433945226274982884738062911154951662500923747533488512558246813068868305001061894796597190850217473855532310592736148783282789720291031699386859249479529013605148201634189376379847930688585901960933743140536938372630654425118197708066315722408085501092061694278558789864522059879562558675976667623855750046751316929655452645278659032419028612695030766153374440103099058200914374178671461293887159863291918769600617458888776271531665183711163006722482680817248860856193540862798076839730639082354598507127676111215213769052206741258450324621486478972712534243286437964650815424881895477250498013023921376063513685512420915793979044191161993582906210474219887528867543212915667157771750995790789836748828917291696993395536183658266251763643795892929861332750908048895052499156414142983211787119667203273217327187313123134458777171946259414474308832243703105937083612081866627102106411303487390208810344171537616103468331203021617181397760443941473593492810868432858540513832097672119363349560473732883752300239116341352786253548183170356909405969680237603717924628026966618623166575924753599359539981133567735240829919852690108562052255809848787190806177285911914310872008249633377792859935135525943789749809984587578919773933620808018728035286583699376617111355679708089366920784805385085443662318231534554377071079857424046719671657951710120071577188071372811725967568691158899724557508714368839264937079350936135946394227898516829415529834457700057756481379579922415591167342743999082936694508395032363373170161492770551249289076399571354485284679541679110922304035085638908523973616414260271385053310279924834639753942076492346032949302446992687780739292581275996814262388755918946482741964393348969760495185690376868316896936614862946247270121839471287494456077910588076505887646101328784799533894333212566178557101880584047800825892445031894205825570499032751797961936502683499691883693497304888109327025755716685661633530376232854008679772708964358591556354571958741198175541785555004764650732656648900595497229959355141446629981252081185799668514480527379917884807369210041437058360862721073021542845708609221848991872702633101110489520066631076354895750260169754217564738668246965108009757410889054388408658541461360786283962400702498430444736669009480498906453659627087326371054962320128573356241273811542319163821659807321046887181079180667935307184303889658698513112797153922060300876167550363591881284568174211914904633071292698613235181161696712923493260610775893883040962856724816027965373381342892501051461231688992153263483941134999956590029105606411455292079316406753309073916795784341333049272810372383872246954863516414900540462290654033566789548918059380403720872731229167973164574386020852077488868282924703520410533448576884999781148037939420682942975452299755123961922646024879228529558324215382152196369857927321031632391489647233012568972805067857995011109013832709058481484682017528700818087697801896909830877430788772562250408240573804517519801684930174836720835534153763998016322383654360676353181793681822328500906638314927992945198133816005183832525557676200672518277655532397562342917225104681828662460281360858934877042408069223017993453000327467932624331479533848329809989141781670988803241009246384128412096425422994722109130510213849244737885511414857532672134469396720642011281355219072518202338157121672103760969574440871723534917860156884576824963366821973298771343297078959547841492348608261728495122536701070625581966493279569515211664577493292072519849233394303022677725018735721145407581890961417301539358757449922705446903106060527651646643680882168321709672417772698085396468488970728504946530153009510495978330172973631990345396533874139288137346747208498289183036648816125589981135369332647642926730815678458707623204472707670127556102996886727528222250866432850644569559673958624567326831924786421085570843733553455415828993554617455700089704276379092914532540638541234422109578330095834384129510037580748438627702497367939345742725268564944734941611200228977794511802972614762765365237750509269808587342322701421927299869303380034764368031035835949335355918923218374058896932921555004349180596777306272637501540231488131500649844763646970995632684516814896467859816176223799877709513487096414439283204682535495253650639552058991241118754134082519365980734063082830425571635030048359845513217643537473227202173734945451749359262414188451021581604442467151425968643785190697193921023973884899198412924442206402856632961238244543282278318100476756050918296311851352467038330102844697830291971168744595483066839288823093183817521735981441647286957317017745303452597520158670269023607802644279164339528510910474144761665637357975773838600542532724771987720647038659181742937420601800378417707251274687442707943487621655485175991055128552559911548656142883812113171611330545467341688731892656596859800458071168883474836393408198988989403794058778515467423242868128964844863596590759379812437886947782856404142596600362454560787800295373039837365405740052564364226189595388116535796554187164246402105053633050849079949108874463897069533657689799088399161539406624232884602173361946017653923413592341493310885897366508292083203182338218922124584716604324711588378724829375429534078311241107385862697676416667222293650417384422080646922146937960954910962847535004345592152290065199676080247681989384331169217343595509974591555682473880488412924301869180663590463795714541414470059176246658015636353912534657988999663212617102749742442134916000051479369763393088494481065852131772728017485046618423960959966915931452976062208417830505838055530325274667958999972626031470995350193151316103858673726656055328063848176380885634303942186172149857326413029301548607852060614140723023141430423213347543695485870549430031179011080383053096794775211013177757017945166950576416646938030751823188054941894508972353390070389784778687259094834063005335995981730135922610755947286415226344770687015044080993835537528522789895559327084131196800551594506591289174406513578544332850816975195125499232668870739490035702917463182911011503220891798574265693741968321798137144287751444769297982974653742345806485437628011367114122406767402128440489962343094230089452481965958153407063556547661721669470745068935180905471872975338514134344005440686401311831288409970940823106111584624515788431742293346636011938222429193566465133963605354785270658720801174186747783191124346623698642015559302894601393078325506493627517062118355432059700072419671338127647426384047419496304839353393642011907364384391463517291517000617007370024685126292998483960394737807361348380481399028061897338833902915596899080553212711511340638706164778611859774479545890330143390163040081017619319136907114589481650780805812609359405733595024450167008969980934413270694975634427989986183363994865968439215309776154602698282362648916551060078965922644963108100359559168617306654655605572989068389167176637613708087454628630832700433797129410182791669250607351761963883960084194748577021341812368720921801614632605973845825104476085253427778213866297863286905605283274766491658135081068324674069137414089156580667177735803501055327503905253728557246172744265629579618184635444242917422543861933530035665197275617822715291584762664453703393394903473111258641188767994757217645081747252509441152790525979457671661749223246632367569511837279025509332488726690919901995522308823904671774395946788748685708368046422622306761784381834945734903311693900661481889413399100350776193672906947080907720758442697417739417516268442884738882100397009289168325273422983710608605203394778425937917478257573825482693102208382494853589667103852450087396128124335264300055254136114874422461940277523888282590410057605734390648953259258561720524656077923086675371922964895018181886051729918779872920888778214352103247514718618644663333577948700674226675438113167348301640631885996994371218962337905163474403588698570777685167487367910304483594683537603445011490707236170788754645894632184300674722007392939910909542754921354342399328702376584771803050225368601672994442480261854500465207888802990447695857183350920685869472774703880191641164854375477136773812392984006707644828735681589621638959489126529965932471645929200967933711034352084407742572525234524477446668073680517726563976618249780757133859759234409529920513097375617769172360329955222509260501988057741998453153065818038973488799385787774723435807411709971052043531115264210746771888132333231875851131609863263218172258557332767879589542552776350780842549944629415592059589502986480049010331625978534424594965339438765937035903027540874610436012040626300831587386629782849883946554417901982411120309226496045262012288591832557362593210369026844898689397533946695057879466449153911021372614457977398931401546279522259319509070004334742461402920171127360311202794283537698696167042826403088434363287345248369551534825697630233535308432174474778344682069965087421808430529079929878192877699588592840004222823288434719480891237024279233472624501508824708356795665487459836809983118057669151127304165246697229013079361622730006222852323364213451142683573808739084329146739826127687354548971776155578745688901068861030572487837462243412012110889667706389081387083418193254813649882765597326241571889784318527948912221872161990899587107518807748217815430238147293333687551325412272907613779455574114224108543328105775771605728898710247226373014807389860081500305776459444329865605523487110319850563606198467214010680956657535243021769907826993458988072134723009823107037838218712722538219933842820759732171970943883181137940377651934950604007116835422055194574773292170335976786580058249526099042390066014974910963496458831140919381614365926842816804056391635338126704368083031460245885562830702764053368087698134884220389451581519503178911605749660407276881313841569793235427856887206780616654010951550971264775080482739305468039660998204521190600552976474867303498643466711167941495658327355164929319128187769907760773816351061687903494571697208999792802583752473332273304262978184152673951274993732900793252880797415341859913659338008930927517532496333762358077376620578568688995360994172734495263050645799384841252011744650927341956189322683473228805476940806335541288226437677350153087071362838217383747380456126728017043694234806756860612387964154167512317339973132841341538612137973155664828641620412417945381019855012356525268287205657122615233286657580810524432554331749481194451434634142138124107471921483747629547485072059841946121025759876362869176626926988437723686449578723951839084123579341676336213736432458694220313398100709019976190606388172258036030887519042019991733449824058291077734679677488473882468146054752222743320781745639373231525926868317692337240447818821774185792578900202723500545972158035223371790130840996743038264416861359040611508122758753403731469864792845495516661832040071242117287945646511684662149657363637888999311135543925487731865563592255690147693399017424311444971468537750445385212212201065836731741516327142985320470875525840510354850255692934425466856289432397390170858960009436637742190158891794968618879851196358687089262826620568712498801892082070350594385436398790781633831019374636419704367049952111509942650231117215416539090992528048436481838164885821030960878557618626955473242577425623818975429862428290371761250582172210221050856258131195622984399111424371488007942325985134406730384192187600947772074664004724814905365539263866130316035692379844876473456424265075063641306839009259919555993268600729182180983689934546175714530551801088898309516737929536654031319392748581657006560535427730841261950061917133103438304853205230729424594095015540617554537205632933168036412709762395623711948328977103865959195396135617371061229090945481844870537512800746651781653452856099790142250929813486009449398796326368785994850009038195159266733055820986597672947712002533378031985388821326141346064643118166912822698978765928101483140627887054081000516502635999745309193304904838787141709361287139203448408315123591344754787410730342792263685066289232941899350923535548087806341458364066924295725702251070015850711600519822908395801342373339444413327588096533281627176583784383482858387457166863183354160354822765089297810265963955915532821682896353272303436753455539499978184688509711811621049494379168951196238356274503061247984929957276658362734535913068857806509248345787144848809916413329553009747805965158417258861799220558983724913025041863027132925156311931502621624869452419668869349759383357102118856438978787510297795490050743033993915551054786658829676639439364759798842645171149686537586363037661628090573760130957637158630560743264129902687028840898015957681301844436329434853801983318663051722111861908719270291737188615395272430423805724624677468224343638673237613633918550481874156300051515843065585567399641903659144037241571900225738828422115653219701891779163182786353010111083894892399738493534458372661217053932608556008833281612808396875692294683377012168776486661564563528284670731612927316720730042579739751284035662242588270471470877270375948737115729480015180599250325472035955266440251867061878773110809185173605341616788607654425601038919123546499311583134075719785655089225885254950318596965584894179812399593577972190415899287187264054764031137348380557464575960830308276320767188596528208713927781918920558856609369937360781827554911674496251130431034615081209452239301455980467704475409453613106872180454466956174039779595564841985966655040900696507671621986707832868104426252534198268465885040302615063240725824618093287049841254614751526289266899759298621446059494620601662467373711198107841547807995462000799229110428501181697877679149606968776537213293095056604753627739852873302320347327128500942939350787375423169028022746979799935856877858626614610694118980036467777280444767505430444778232455694948916132032153905863399511219618621052458579823376131505037156012133457223083159922450782069032192155563900505506440621813136038124857847738175282543361639411253365410025058079188460274111003330535788873498376707088747164686669135518548013932964078717992336072976588094594825820188184086955649402545532733267494328605774333894577751103135804729612291762214351990290205037533551254367352363993732971638121525841130259374219152339462212076622865912750037097158640134799262429107517521351289939999353292637836929406679812578610360132599944442938060863864569856,
  best_state := some { pos := { x := 12, y := 12 }, dir := Day17.Direction.East, steps := 1 },
  best_loss := 102 }

/-- The search state after `13312` bounded iterations of the Small search on `city13`. -/
def stS13 : SearchSt :=
{ open_set := (17,
               [[{ pos := { x := 3, y := 4 }, dir := Day17.Direction.North, steps := 3 },
                 { pos := { x := 2, y := 5 }, dir := Day17.Direction.North, steps := 1 },
                 { pos := { x := 0, y := 7 }, dir := Day17.Direction.West, steps := 1 },
                 { pos := { x := 2, y := 5 }, dir := Day17.Direction.North, steps := 2 },
                 { pos := { x := 0, y := 7 }, dir := Day17.Direction.North, steps := 1 },
                 { pos := { x := 2, y := 5 }, dir := Day17.Direction.North, steps := 3 }],
                [{ pos := { x := 0, y := 6 }, dir := Day17.Direction.South, steps := 3 },
                 { pos := { x := 2, y := 4 }, dir := Day17.Direction.North, steps := 1 },
                 { pos := { x := 0, y := 6 }, dir := Day17.Direction.West, steps := 1 }],
                [{ pos := { x := 1, y := 4 }, dir := Day17.Direction.North, steps := 1 }],
                [{ pos := { x := 1, y := 3 }, dir := Day17.Direction.North, steps := 1 }],
                [{ pos := { x := 1, y := 2 }, dir := Day17.Direction.North, steps := 3 },
                 { pos := { x := 2, y := 1 }, dir := Day17.Direction.North, steps := 2 },
                 { pos := { x := 0, y := 3 }, dir := Day17.Direction.North, steps := 3 }],
                [{ pos := { x := 1, y := 1 }, dir := Day17.Direction.West, steps := 1 },
                 { pos := { x := 2, y := 0 }, dir := Day17.Direction.North, steps := 1 },
                 { pos := { x := 1, y := 1 }, dir := Day17.Direction.West, steps := 2 },
                 { pos := { x := 2, y := 0 }, dir := Day17.Direction.West, steps := 2 },
                 { pos := { x := 2, y := 0 }, dir := Day17.Direction.North, steps := 2 },
                 { pos := { x := 1, y := 1 }, dir := Day17.Direction.North, steps := 1 },
                 { pos := { x := 0, y := 2 }, dir := Day17.Direction.West, steps := 3 },
                 { pos := { x := 2, y := 0 }, dir := Day17.Direction.West, steps := 3 },
                 { pos := { x := 2, y := 0 }, dir := Day17.Direction.West, steps := 1 },
                 { pos := { x := 1, y := 1 }, dir := Day17.Direction.West, steps := 3 },
                 { pos := { x := 2, y := 0 }, dir := Day17.Direction.North, steps := 3 },
                 { pos := { x := 0, y := 2 }, dir := Day17.Direction.West, steps := 2 },
                 { pos := { x := 1, y := 1 }, dir := Day17.Direction.North, steps := 2 },
                 { pos := { x := 0, y := 2 }, dir := Day17.Direction.West, steps := 1 },
                 { pos := { x := 0, y := 2 }, dir := Day17.Direction.North, steps := 1 },
                 { pos := { x := 1, y := 1 }, dir := Day17.Direction.North, steps := 3 },
                 { pos := { x := 0, y := 2 }, dir := Day17.Direction.North, steps := 2 },
                 { pos := { x := 0, y := 2 }, dir := Day17.Direction.North, steps := 3 }],
                [{ pos := { x := 0, y := 1 }, dir := Day17.Direction.South, steps := 1 },
                 { pos := { x := 0, y := 1 }, dir := Day17.Direction.West, steps := 1 }]]),
  queued := 3623451821694931901503060747959215416646218501327981906820855547066055055966032285828576584470445054262235502357033548020960438025680693312523837833071290541653675020344383982753631364107936472279680086372186997499053654849219808616254975968292755993960141477359512746272565477394553218887981141117526610436444330418972105730244350198903025670170550287164102641953962111982037323811518446365341915264911136010579157207988376311742081006087527104383146965644900854992841626283853931134280184900402636878566183570710669851411700003498384035547956548194996561955896032571149281439034803598770066017669388086248141580943607941199400327413175497935865506164075184397599327323399195686861490798055626425914467197851163690004911187928656360610797033503670156116280796205209627962346502635466255771647691303409897129866024690379837553513133362774355170019300867010574269038897541077897087013912409862986296611137181413836165272112185210416796565926973268976483877402327639780817934557564968682391285846964911875086481050488547713478811812643850954218766881953109182693692675097488020995824433262511898335139750249046798055326933510448374091129042700970961808079463791438420745620430415447361118682729695000800390982253150208,
  came_from := 20595207532532843191719023933686968049796819840328446475877216909317635688609412929572937259226344538976135730399603448794815080679663047835435428345829003293164062888426111458106332436291558770971099591466241905498952970890331091642132552475647250103497667051543283204264333232867673016283515277566135256261407706126329927086721865047373544994296223658827368267149013105013389117596613663732639776403279369120316224551997475772149399624593868775764662550649983952024904589766503811395147028347667677028859515388240524783099480066192034329686997344962380345003730261595680840625036376678545462225446519364966706077137840363072627534615857566616364400068990073878413951258716096132135968565580809657159216502285603480768596007509121800933918468828621805055380194130876473310739099510952413148938414317925981442711810121420832516064061528104830248764131229832173677960500137898891257577135050627992185966580872797301563731534121796118925714605958414521297184076778174960147643040233331543110999513063965068771371776224217361367107800678467690271749962029512376974127774512026986422993774999349550259275772780414614645005884799327000577805899097473018211329095063378395927024450424235499716364281273086594571041763376627530230791614997713817538527645752094316571157032158468806361068115472240832956617549989019763723631950572106660653844912471305219007555680856581017810897220954544421335481473533839500868160652488995540533540041285764883922335746621636097167976810545376028942758607015283479988715587508329248328420796022122708201765639525881457731700992980426303969616914145949687594773913370489570631476917146501168305281033165653555458670054344189250385444198440216596199660148141006901567932708625987114835940137266038069980148898634491319981304338609689114120817641206617331493477832229794630675507672290210546836897025618130784874985383848289005212861234918812503208443714252269721662981395491564982982050579756997421076932895785224622401727297076231439158273519486339142843791310794873976574307734396256203233559398229730512259660276037511089717885804031462402117433068402520977230071484336408310479997403755595176918816856726738532098906463389035291378829884205131200406118671124603245165574568027594796760263643833441324921693161966794161576199250171796163822369717573536946986299726922897194585041188773422260176060807564369798694599559794910307448376883600062621475033048779745206141928356067024028335054575660487728993211772345031382045540418119492873521647885576483623668802259734882461816798768243709339798021739972271720234287445523868160642860235988096191041972294964528506826373194576699400803258346766216649132512615273351115754516779609065407460531707008692367172064442938689178449324981216104772610111917670132762597788069559202978943671167351165693422997020946815265361962279897571913863478256696660252159371775483791451171157031252732079793915120598165597422189779116300777284886456354086418343825852699349631943768604363087865751579275707905603473506542663287330263644431005294911683959675498709850034562267828608459036604013712095617557711361020634754174735327523289018070361887466100159422938453432315277389957583528350992532016328906054244149095711826070155793022633150993969354784398471820862317935926755209703429461993832589075243983663653792171591338866521611125825503242530259286729764650241848618865816671374432813275128126433956648084117255031901558769915436918036372895994722378802368782587052317339424018109319940526690676606636957906902231184132416024057223497906682239625959780627591160423750519717845593085759107481897448563291456552509118728929420907364270513843741307635111250993487935075783199577486166687931743154606508654363437435328689269178693851486466504443625844179525127570225471017964364294452275493105091414449354357288626789046421333544098248814370206727356709310931487146217253174409361605355194474256667129263860534737451527683842996900186651115948850296255908127730340035943467914022624941408566438652634760917076460515079273293432559826971085254799214456495991083126417375418396600897830141449502877618999948796647983516836631233972930812765390816033604874419417360562605506896007454050584393468513956340636727696140875337298322005915597058586928370669587948911832318430943123964610599901748959598914019371483883036832213065410929808432649403792430459288393964146426799429743899452208609625357515973325881954950319941445072522445055019115606506148204449855358076286459113196328632438980406894215594012507431189017544488646954883999697920543989831619300817931252929918048621397532352326458091815090073949996313322383250174968408156860078644606510957573239240211225621718124011055457314920308756181851494852465875473537897732568124840449578017661280940789212734212371098143591204061825779665750251874596526801464086878108889242278815195056938335787081904002618655276912253258543156794936191253494383637893507248066285054962149207520918707063096127779172674431227673264499849043319409143263473314272846496070053771799661005633864006700890660249037271741328755680674285577665969454555025857469158102969692003154766936533806028442809952419494473375354529043150220755395356311690366885267514729927989163894583465280004336543158332200680296380356384591836460660818552321949025507671075855309138533285956763636656983756573595290428423296067020816713777676326671784917066900274738180267099190817413231014635096512292679087542864349589415704159077309893510168231993661853200033569066885913899409124796757940418197229630521032952533802223225542984844869974929586665308853493840488745349597989384953412283230271053978831896371447821706257977078771525931686232227757115010042402244513544063604542396854247886271442134084629200236589720231036823111482530186862913570331770681601160484182229942730104446787472088585854194753958663898701474371964008609009520297045010471527527734757576162180253498147874687391717353527024180719273727969111048652923279447326373523202319629449492977433467754886097222079555745790072517819295256216727202476620542623341714935713136522347325107500943937544824671649620696957433966963171299941312146765794742563846903708044175890124153806663249219876609444959101544710708968692142897782793068906282646185945487823541452210044991173114767730988884287244653606296656993283493694946369466961645167327369399721775738191973115373697357201199247072416804388243430579805284746852918176229717700008395347989366219514493327019117805944792218380424515400407939770193649545829546883488031529187049600435084817219529355822474817620549921768026924191067598049781211662851827536159266183271810347200295709614881288298177542988085382076787531986994660344917451834558864025552491301764106330360454959792915270379436339093989758089985394215355229597697719508117569193768580015621378757236159594326011300129138599775295187214501760730347332055085233191433934679426525556219560431609416681970769906753091370394634767304701333911410730327145089726398941455412571669267823618473165220515248074792150056758276799868308821991162968161028855183685078927625175235134988857575752407038668637274895100736460402230005795759627455544532047797639037855723080274158283888505205048361884168391704202766321934011033322691092227064540571781341634654422044316701340489386039345351908761162115078302995930327630312556776431695528608129551343833684994730319927978621140871068870087294613005495539121174019584036213345499517954792367902399191493546228298905870098769789648111957811937470598867227540277180998239251051302527704698211514562669358096191701870898290852828418568050586813062687712689613880164567290244933932401450111031058663306771251157506986516760236260274952905166713156800573964362046500578234583415599346680286675203772076432246885280804525565928566051529477149404214159669143094719213527483488385731462926680733038842194831506119890702165967499434208044245646738584509735133236291993426618110977576164430288847103493939760780553722839875709336134973107373345752764493638273785654429189183517102767899451343979518706380582307718803891693001200427984124654336771258130557748051495990071848130349520368717856822482287185420393628666937287287776935122682051815425336793157947566084389459976435851712418379397984176288783891977004002211600811530090854387093337386917937233791201122729880064965305495142357505429578630168454547437812172416404171992657670915328125252807659544998550820186926965328942567679415250447712519724370750316316392398814868172345214323905813746463440798076024608842021616998821869541584641597419174021386883615804775658006017793237007840388956721401842757192963960249216110036560089549655421782640428520773119865600542091322753862447741439316499838095779206477272704549577992902406404713523769643227045121509343073287566821408005829394142439506683296662390530399164757561141520459442114497350794097851786040618089387879530766033732375634214415890529356831241095784346610659130033888240944229233759350914867410832810875635672693931578780157328868103758795184130015145021143627522549655370609597363471579552669625809073714453833715802497441779051470194137434646142074002129535248426922364191233754833846460092117353109851839753224331087210438721953572739914758214299329696662378927449199813909645390675305939879640766914135018135798029727670740149752823333405448633275466407122741516887854610435282865481364751516451917418189881442815819039508712577194501454097700351682907487805048929114943731121003687066712496356512610965559677952755456201278179812333305757520167796981143085018428721705474391826751618703127067462041829221217559650788864182481214421300950390447853330838783317226981553389154700693417218292733485008294734717569679965034334058937040852221186413346506365511132865893341710400564588059483809519491529126811258583757369756145303243969326828859047888467528111215716265475842475024477875043732327659528734921046395165756044120908199439148640117440952412020737971798026160514773384070569474846452375690317727023687585201350051469291289142104538119253609630737163621358038696356387730467665890473146600260464879753340781820175817824839070518157923162866795768860755681316697721838842036115338866743864440293276098025367299091300432438494330771347214139949552945605857810957808015298597224613608383436779563988505699139888572859674330342886086925897991410510843686832811139643797992750206283159501091102334189357141429765612853709032555821648465173523439894003777406250431264410071776310091866359098836172437086589336757436348564130757358454387945532988751847319070523589791948645720886856178897437033976452409227958185724197701156486269851730708977411061227292616551801395212023583745232515006547729857015242554335186373480778356227465249550740206980210983035494101811555802266523705085776001698732572130529976780517705314163223771189759851450905273986835469209465165529208428231220896406487283498618602698278815760740487377356438828897167673144916580073215796406607904795235651890825014849143682258851426528611296806386379836427788912091291505843492085583992485207432173754705010192621403498398184428268161888621627806101201358855085845280917811308681463564647216896564404293392512568093407164344400048689763993646757113786579783388245414438217308413737263348115574537766361555920161330409794107824101416789001250976115573670720615821824686856573908527207137210291198620301389604780540076257896247177992258973362165600744131566614731310468217415104788071715956372387612090367297049237425630779100259042046998560794686340237340963941662751677461446779416791015427386312781401709337617945121261599547201721366852060946234106331952992270364337197527764504846918202110630247068319187823400956785787832938090705857656954166592088185190406132937669523010256218459126617344185264559987122746423468629704017844429243331811345807887016781431016799155057739621997004997624759031520907156107309754432799138765097929992065029799494398420335050295940556795473829335590285209842269297771900042907476304277408336919740690807802049472961831971617139199454939201743312257178193353034215658734715786435675097544014213758137579247353003647272760309460169884850796874206215557118560863243757460422783361194412497697688110121339032443892036363167513564624281840356461430584775236409924146967496310125412309128268261734627391295679496269589129204551996988725755302191830830913318443738528355159472986532115028622553102871339524299409918285645946813808530129641292435245427893363994558451820669647523511179042647645169183501183684331570299814732462574948275554368131981835024912154482464441818431265196645458758923270029692870100999649778902297109644274755702979644760970440722909854209575722962732946375353223519673357957905680915958807515907237730457867584378914177764068220102601758040015536695915140676356719501965316166791409183848903090153333318959273901339495573851919808285208359537237563805371120610574352054578937984295574620545723277133398901734050278370482053233903322820530823989147004365576494653500222258227962763340914272651320252990082178966939486647884659878021663558996764397699985391728303255038783139469434281464712528191820039155891110537906764216617300031081361247752684894626220868694285571126315766892920586572908760192378877475726029762699649606285200064332055354030193214421527011825413341621321297752959376042628461291047917322364925299976611212953365041937570392670769682418279846533825380623389686949222001371622775256636687012191212305884027412802539079464668683150156958722982966927846681357211674794368053257683472733853824754168435104666624987399275616130610749358342189765386774709927344322331730351659841445386795972613066946798683430843904936992409818262302255986990098948944653693150463366017898017252810485635887830343218282142940935901987023505354899808080302973187483957915132062944134984309269082364746898504243235820410134370389062712722861189890074209776773794107487469478437703104020472925356712885190845116543205690769112944552544016701794399497268622255520721810440973882737749672265404286778899443954589313233356363363587609076166824433466446381484138449885192643301443443789718013956578786067305013817606295569401964101851297961187811738532627149670024216863171728884958718074059588181373599927178733573285254225910347635682638919606852874542704379170828860564940165390635014964305021429098767377229244984499815537044822417371069686282335159130128095918896007365872618229429508813591236814810084846171418684515179756997246144120268475007978410543214026952750105198123101601906016130714319964580960272424452216383057774180994147127026549363093755018473485525668991186234754917902396486711532867292635252832053072805271235456145877443384584347901488550089003054371267520379821265076684880169172450748746765549829014833910667016568058712734241483588739928101177738611645194950559928276183136358617447212025750622166822924390308505185887849272775008810785669109107329156538798707244792134374676903019177721228936267553835869387056168086369786811625090515422103625968529032796874116137833960381222545338044941631073331551976495661511482732974457066920165139427858679280294162929615065640543795331557373911020778039458491913408512084772709035799326514196762551632094802274389682525221654423527983639021424576092926396798492594015684148920744034940337591661517247571371112657886829960891321107596162915861202472641205750013230006899668412488183634288386155558194255519304718616046621880959456074360979965505727896787406425821946765269903866307595440735997828566999049085638524911443445893081515110565080752103514300537104460228110751715111820742030091229575193927248837973352476514415325948358490399815150199954133954653091811260709247010356014777553462239002610008037745759953977466341223680122773329449095091397981267684287773305325901524676674877875140334843214102399184068929493767773054484265354845007779513995043515922876278531229673951168865070052884129682332301972204181443011991497549819605444885768815116325144727182441780077316426645053203941607879123857257661647763731590154277354465991789825262032282397290700417111554904566310146905441103643214538359558960168903235586059739164183417981075611154758905398229760017591267940431608896226363773157193824673262801888805072357710880957510086079414161346239753094554559312328801082684976866202720039620217527557785680105659865617185196298992440881742045918484633083167020137733298446443150708828562064837923005915616905153811309188938223014659655686114524446710315547971326025131489452907505927142763856977303664929547032972344918015856877373844994507202181611527121530874112972180376379719374405187424116345700289844307294346409174983989637571400049777801245446087229654775083811193330775051678189098332190440778795279052454699792143106557931752723593119333527700063071844289897872533717099591597775654498887030581589613993162819508278982694839147087835318268849515902662268023124554237376216714780079568453967877581580242954479200875929994078044856337776747851013255950174194495873660845365648271842403943733560081685328856042136522459641570851841843281423577625963710394099605398063731237872984196710626482101832553983492347804880847340585124107169844098335408070839037557659455057297212629136196864553357112862408333348791974553885279729290173892674517963929755135630773091916692780330585771515254380949478398044141269646256307681025173923227419509533647769823520695466860083841167611392751457901046814264683231031488825844085475325323111063830438509515022856192905740550086733306784591956565560891189379851396263089795241883334831043554237578529632640398168669633382754574595656691492072457432697636759469337403620645664439838144083141781339767207976253298218697479947421824439826820124472668101924012983029410246082335492084572971874259693387195923397377430918295622410819008603968270999703464033438771193431076835750852071672277568355405414952626375203609124915981785258752980298529932080253320422040379048016345958763217527682746539992381089023653189171950330746193251774803013925185071301861319976681472,
  losses := 49741013205785329196855635049906967494117503007650441372244650825622501964863598024427905931787599613470295453541886597853603054517672490496737359491494903936988499819632131470477576463489442161172334544513259014963926345385527510564576123440428481172716069387031413802179276750082813554423422605444415967814426995928860159189499755034729688132820976909268747396340494036175258671508865448969202092364531584098199047258325809902168298129070218158566578182918173630629086262426683310103836660395512058691352727642802847530438182409888112113337222531852383589128130523170509134655968487059908903587676435855498485714910118552571186283902213161357002200604398070234721155372063898608368999848499468778561389947173325801902247327777842391941492199131117913658972173032289350271775945059108795202330761274348670378071653408327882067188951649034131059089816573418952351588800513489708417344303952575565869239277445479509466593073532420072278650297029825091911241269476688609088765772328332479031284457132890922557093398512505829474975914673475188424879443549231285408925513888768842908269046360210365396106220224031876630119860717778992117394290545107953510164327318113526605718283947085442303296474820904013264672424536769699850396370925707578682749180258417921036734565927634892158814402904191082052718829589127046242823875770999087736900705727213758220659269885588120778067131695281218198631682989751982582501333054342276727113739413948413254496483857136793021981626226129503447600458669842925147586674180858738196673766509430650807835020885272331140500395562201004610781271157057708774387926230286550886591615519865962646519595955457047391298906183516864225248600620152757241336075840497130716607828912373754451363324218928670796463025990685201899486276421023518121947505898752793739519086454796838973842096690988744112349519803499606866353926874327184372275688359930622328984420344787057950517576188148875395583941212878502760969009014049438733278602349400591020071985376306596343942246035972574411339959996030530159349731385498837773257540826386439833150980129423197522474533120134558330729885197727732903380499299095679279011158439885650754481744806876357931163659855983974574611504372074400155809450823641157887742952308011696263428492516324303033409942738656958459182428482312807708031613348198408092585766382510482856388310851259329287161566426473989602647124119594586651413924892034129573882224409500073877655168543424046236681960533054355563140151847656422990603175501196429424417162492483142494022038276472760001116467812717727560405759470774214583947380687057425879134454401217946759190514921797255094403901043726247636621948739435553855237084289648631355409153830271464396423046134013595734892113102425263094120888340543532935897103272163522971207750811839287559386861475129971276055652531922763385533454178098969741058290211116178130599552618565103869461241239134238864788719575955341271726153646622478550971755267446036853867995696287348496220585122627853251613845210800297463413923166588876706552046234673424001373297152464593144414568452885903461708238471268102348888067406486822327855268769411471018003126053283102887595170146397300617624138159504816153099996285985478097639918391192734215736433490445374145422454379623895852551003808980616328157344192775155503820557806094707897608735741646103295297301064758014066326902083873016847271128547678689103769641694208839039575993950049018852571473647613087058085404294656502625672874236047896986430614406430431175020116500819943812161518093665761394243360160822889403105640177859319747582526969819341548322838085088280016026274963373332307572205080866353421777996700196401115219675999631141744566566220062439397493329623195831944949330025611601257847734430865564125408076678524247892952582270059378582529339591969758398247072804836620962541445649989267449775121491451227029205787791604047989277869224328050796147957773264050163518794576621684006400864152561879594135552261209040255765276390918491996120903336583508593784557359889015153961132923519205280938856994463681839514800041744277520311710640990533537754086142198043941310780551002876795564027635687995438814076519737326363110976472076533051149159333188514587431176408806934465894486871589653027322064047927883434350613092466535479718915423757481073986140055834566535994137996662645991096056172100673971000058432545432648690370949820469139213084865033166626588882029731742788407860301275329605194427015497686682435623951867022265005102844716587083382308197399529303126298132441337636991091099776907033882759577801786227589465488967767093630999558503182342712807216383293823960174225244001396361662334181549380840457966645793624466531653201035053379911461480688623531173812700185104707946503742933755165388400139871729999911607864718057941583367500652864963782299610259295764703466985061636331516585547188893817301314560866298961843778072979502171731483160065285780930827364596929837526886998103084437733748022727070464462948061845322098070074999579052963547505850888486356136569064120555919970566239796152404736714428742459775812947629459135606191694686019760674320220416515824293036970300741107033198732915683702523719794305718293820534879838934893002015999874771153622550589353759783932217847222775611844292703239057053005343492797418153711896160279369827752001517544923792488771079356556154111216287408376485761368464608843902629243415443063789138570906445537005795536744458973554608868899606730093763524240267124656538379377334813279909810265994491172635932063554777492047036763633443052744387336223463238182548520596864035213219325395067531669217821491473671045409271863118012110301115587557925403349022589382398332439853150835651372221972865862583005497091051190904621164455968587545572280324230740695253595836721368313405918719482550962812296009175874482828246624799049702630462818545254752584215299639170076253079407668111518870521831152471276278816201229933154788541008073436915046179131490705864561813530651355102692124662548488228870350691004713370083810877115651300073647020292214778024352503215981281830669983191525644410980664569207486594342800986439001827234923391724244427969853844652091826621934015419236834565914294778531799950241003098553332075681287824226820926865532300254423038343186069792220715265455920415047476088590184502545272848683543647141120584619853691941907841402874404807052412871166289148706994359345753999070717844008998962008282585177316491344703114569040220686366528951173087820973247502605464315156463399828572090353002912141396446118631143354440546601587439896631581938966525346707986974023224008568898906264856260731241534703308488140134236340715777756224333251378330683859890253159309070750014758781174152556463325766190433068312168966894929637614186288252370350356149022231615585482635095982983927923251215696127370212536899695199436748392818897164610603588019858374220729452373608264369661019468271346836653931754961429666589908666294503965108022258585787348966574868735812851368337366666084947717874281986627798862873414664782744984948140215803394896014953218230766883178494439462283485825432833662950110545777123470731378962660928296109385767022161430140930112102804907985706363807474554461947907373518796985274357767211275950441034452843925861621917651892610053080644836828825998427789762078885549900534055779685589738076079457823197920963905046627018227034723161943701146406887236109305095327203170610858259971396651729414431611291570366299790123752198481026738400255761927317575918140118500288418927766069524462155286471728523272111231095010492538745000277571431715013281489192080866665452613636802714301846497031412601872357842711450953103197628811343665349632563418975667865072771394531329567748124096152942008239441268503774597490318142337777985971047996913632364148384574825495539257277143510508233170573536145236059645100648105209928709019910506728939627993882565648161197878534940305855139980854217106716137405147137135730692128294003712123432405598068305954241335434289822230694097240817947964034135856411062871914058677038402452696857382465016254587499040627607770736848811753828767608059229216656149001759208796940276311807240283483976711271930120136305856887262098623224593974278793829573393783049022529639207911470463530623796899479265511255472063350550829788717236294411913871543573796795804988663339339891240452856749286845562798094153682847108102816780076002928329442537364627206840567366880561869883042705127492217604760512522632588504004508367497853237845291836080062362459269748772621113098417390353825299781831456528684079750333301366587879820524957073355112750562984290805408187761016368761445483140238399535956143634848567344135040590839666593204736776677251027252311481815782428112054212925591699321116363421908015722489311188906037995156681360915925930698607030262395928177827300258575725586957438216003277062406634863913200795374519610536654822698537337140186367700184430599525078152714612123091002134771506022833590444534608774428274605511092844456436217217078509088129482607215830937892855494907035811656243028874344121731987376647075781986067570830268114119355640938626095835951922867712163191440113266026318507722425755144314873866084381651716824159653421924241082357838995509180871663830603851189564064105112292431545029478384121749770546668458249883090024132935362343730905088300152057496916123678693103783986069806253439565300607174953696219284714728273428818945670495116862044954647875860576528104229611531115228939837321026416846781218234326776069818725283877085860749822647209901943672582647890737109595496115887417713207508419102030124276971540198310643101468579407440055128055315765695246779127916376061929522849746778556950582263707942821361608687244818473176144315305366837975913837378804256772237292630413285863934008549006857634031126576124345041848528953151228194717166437382442789642914425966085052772653489353621104740911945903616830009166850290742460635668862048079540704623547087254355895955617883362958896389471429070646264800530054249848606170312128628796342027979827842013796597662560119039627793879596905259761183043099178106998293923408037733680188254261782237508929967601260725324994216541815661446397502946665170477920157607901579018496280304560440868980915308919040688390324816001254378404526347076871840341236239299275019871943209842733083181687386622776661003290185591012492760551984620111181773422631278932360691571061264815023500836836808014028580438083471821151287503822731064285316380377437925662258278739767149527088281779335840010477582311608809834157149256295078064192891708993656061085698588375175480007256718894645815700391284755335709693681098649863915803602384381539821682700401185972082559327662067579389186961150752325364471701082409386022258819956258966119806665104873668233788185146463889999214541056539476780278448846039170252925104070441493893617027829966533212610735242004710801596624598174327295897359344757983721277785274484885485919883659459137942294974770910043910810682895976533231459639555533520749940783331141179259643577440199497013816882610374395423188412105104276948861738233186149128084437791078767049218494733054676702952213623326366197557099132772523694585575681550345771859909158866633084185109935181381328448673739668807401677176806137092148837226441382193477527905427798465075088864780553685747390897175472656518655002312510060089038297581994443046799228223873640965684302044547129885685223667441400802881242543326342526486805137368236906960624160485836765627019549312459820173833106608794542302428100634559904269252138881527599703545198599182130036525651569102387798365362054755482561696587326199624146554653509536827152813343987791702431220046790897790203062040180280312427933141317716127248697451166072512762927593169262824853534945222567832991696887774370871682906655637035273826443752207223272104583373025137476449481607659132718571957835399333857926906773233638134405260266139619285369347204453730249266158231937884000445731370280270804263950919122038083991174205570021977437978950975905058661172997702393781875482977732129376762347388643907931016268287804194867000767977908273614362133336827691620870867227606975861547131290503578761268470335132991403340743308713464600872274188705265667060483888309541163997056432726150432590904071040049831794972714481313308503183663832285235516886381337275369116661387148252798332019316394637746798548243269238091112314885068606662172868674167973623311040283014408125968860121383759297353996447794843367210991268556350711815290482171802859033126849212749071065426081208127607543065368508153902802084011403482673445797325254404070534761220848227759194915213152930188905434063749985825498389986161316647069452635317516468663662697843328007101447006827700178045350675259639274400911298192815683703517783579536822303468986733693006021774750577344877164037322267015226754524693611900101950555068939487287537572614859429274499851090784873425916805062847507585174577754895845563018399771573784726215093494857612305352000411214614144918527706112665048961492412096316997365785674399826207263743465528150025652829963264162699174438756579304343538040790083880277546109406599309086120290565115030330811446665666857050010114750702773245647211533999932347433048152003192736140452263414986354452052256281457853525613095950333065200045818796379785852868242900594245755993163433304395735458252778507949248663869769166993021075267694538770352092172256933484450670099971488955701301178033897241096515059424303805423996596549186496623487992291531421659255159209682518665251136451984818548894325229299798076667926755793288475283482798656814099262878133706720668802702950975677371593894641728244457669408975695743874126934878729682257405308630621956454030634611924318212599112394403554410208324102974383736512981274326860428433642370622097971448765030355355601996461174133341148380483799417223034605712066309236349392791890364236965068494072926990099924447575594858346100865165375591068664654811698758235273458601988031522087217748470706352358896403063564481644705132981828831188156979873763364298405872213979466502474337542486572561055300624071646076217067911169454148473202506602008793332385810625843373400895246571292909872377600083083292976563316393177007987549705466390967991540026797756936533418296086601042043583348237979399021506843196502315789075648075558880580297174419872873195011139297378408784910842674227312150018138409499242016148151692732977488583422005460684845246920807149529698601629010835701954330767666700187687643393335275751123886250650078709912810155478565722111853365783416017777203337488817152031001423705484124658399647316618973417765546228401098854089280426948901197881827054860973803535728752639017788789097301635378302488944175525305112297057537331456744950360710581497110119186871904302702166920284125951012803754071485283369778460119498389300812750457619917934023362404542227231663135708445056271271976605622011000900927782619742135394746514882479353796758777453013765254893066355332348483840637049633693168697148151244480235686969334478744604265044976909796272392573314470947796094402562583639993672334226406783005083075681054892752844698870551879235440834392238695123782609908933582767321821953083448970191360077728744677724598200986921820328750234524922847325085212662534475012762942994613157563667696671450151195228596917547575169983126077040677829986357305806728024268420351906988597746273823770806653085592031473816743365366421113132587789843591856754372738704965210623808241133968397753628900716034374196581958239092169033232368095937420737698244904408488813576902016011318680160492612267197689169425873239929659413648072513549671877164103831036259847681387245095055081567556486780012987888884803582566031806638306589075721141247419786848126749540532064758978328793088220378746928694040819426447680533182053439216458955434306909485174037462571477692963525096386227029747183445592914908887186250613715439824687567203197603615167930602438226298768526339257369194073696482081181973728222660308823005365094298779133586663030771571654014447025202530559690077344796606773225687311734032358680719218971922316696835109222426122222215698183488847568268762445832293489140625036786681180221618591985543630134683190925251287860715176847184805308918837576494798978124081330880532440406712371547697666521362780085011914445796999794380991816397013601354375933637747245961255717516041370259540807310093883047941414587701194004103572347930054963522508815956084525794087646116305712694986012035083142120655824956620991607484040133127882615046131330471800336275782221086574448233432774095617996725420445363386872631968993625756631215846350276015854068936621276534496050455277641315363800288864723384230142751533348617223796825743640060175789123827929797751102965300378761818657605596148685627460306254988135166679537585540375680858382623499869453917151986044871651321073659422783083396879427043917373206673700568422669857118107051641916148955622511562243965973269751127839226050036241096328404354727700522713972094604239240136464040519308076922690910396006481384912189185130552608854699525108109006525754728779613206762911711654374349291671163087564054059061257214570079087519585484277870497743256319147542336038693407173274634601316840440011786356782391797104202723401760720700444640509878080768369227941998666560985466786827397086783790677299967020507945074665803397886878860412062736872802394953584881074581499046980109013748197991443058967796812658440085846600427421106726013846099492560524984233332723616100136406924834075619561346584101010400405095329741617679318255002860290344370816099254265829742582968113629562581267145879511741018107484569963560749430733044009267888876689104721024647741552570021398882338706409674406620876057970849630875011742755092511923224294459678951622653581138423579562575279614038033690998113808586071614884475946887180828022271801046531679948597735228617913463331250872671176998468440973131638758637735899386487880577580550495608490343197380938618298888483187451726437369239435135563628136218130404601457088288904394803191988669946350996767636476608644147610457619625045005409507420465142500653972192942204853469859197010970567559140867509261914818025714353992864331163365985508358760148733557322335744573110517130322847359706641616694321420132912634024461965304334445895023915704439744794306207204711703202992224438378544741773853595296434318063849519324542972912977412135182888034856607167542648175131488073285805623157352918435993609531935322906034467161142497362525765330627748385819145116885335801008395576408852985347936524925396241739929726759072119506250837573196104113826071151753351049117827741860093076293811442252382635613833458772108588556679764932734598001059917381468889725794740127996785248876111251847979845618757757758893651899794981830095587091645799647573435842008787958025474878027363835003119965088200356896616187214942491372766247888313691631762349660707958005700169087331212935992243848528852629996371579679717305035069492626116395013051095353578246322266716330393063119646825884059152120680074196827721973857088865904055367364374029462209815549017860893225907913858869705137609846923129857932728776627192759401479875080595042533648077970537467666950751942599136479315108772488157092317811593926997976954621906979423684968941000258335630407831976296236444435950722137865324623474152946720789144700781924029469044368291815514160968697461559416347109291732178831383417842818704081089637593157849592063313320667896586966390910264083847202311533233893967641750550442934010007151891457624093166358892511344947438806967853421069038075702337891981303343409566690592587976614744523960349664379434367701208903539160261003722131811140192384122101890574623320029750258281304130944507689244222367492363528594754418529943032254249275769648437283879533436140439202170740134421357336043643822487614770731612034598993928456050507826413946027940219408300355078007947667882300943166893520950623118528318585785602062164226595495660703590874576683220810670253172490705317066158396988540717014753625058397372156165295420057306432797706647518704537210392533761077966064511457140214592814433581782785568857616847334078125156607566933339086902067883262360853004793340918435067338621914235310998049081762447503060980360214333238535774610746107357437326258193054383715343113062483031807888932046584475527480319743511743220993815310931895463070541490802196895359134402670227445587747091255115452009449350749376155003515333090260703444861537140768516394374203031812496798058638782498972318389634809494492596805352569242124328684169115063096819420271299367616400805860072082435600775385354267126421814196026184978856653986260271782113791789601943853680374017530011092900834139269380282422953317411248515389808945425459212188144192982033200811530689019645667037816021763607754921725191816813862059480007646094162517697141334737719661770229322607978101817212758562156673368018049483563722014327704933294371838595998943047657444616457612607688335336305479069742170117323825524431466950180814875083250260754691356537248063810871544189597174938394908504410843492089548496580584995671832877308074783260813095310249548040968677073816317330794529600464142821350240567707041013826156951861696182566650319981029317697337514959350308342174361088706260692459378209910759425465007822367944571116971075122364588792510832773704222558616467030348576135737887825381014131331403589258981915408881867823089426684051182709753625677050371737644499914042805669817806054327822059879135021282118249435807098328615592372570512919616315960909483758681720196919950099827843945964415572586686933391669525200099830824105320659127125077175383807820379656814017055555557264145418878929115866061200982121465660366240294672388663096353125974599243364091436230611829554555360672881917845742944654251935819705790236089335271081652999697999549395934161949014972365713254554508928851453914072764673148402361165610370444107987529281779362077443088482327428025950530283364856940504757818369690685230718613468952231246866447512820767813121070810877170741495345225504910211552316587995134736249449641747537337529515063513011522801678995150400985155734979974117110857953718871399290240771565604672393724187037782536615378752572971180378003999932337153684877095079059199640926977136612631911417810359057219959393588007172578153326953015469200118284160664632275260356293541294206356774146141204793538838498909437323235819307664249618662601372170275263599675949839095534228415276489366243411798088150680259381483248720753857802720033821905031738093517566103957417715709792647924051538728931182174102690646527461406156108956187793979443111620386745848628948901782279053668900946985527991934288668473217014589250026960926891306636116392118408401526308633281397845653086993814633552039355080328797459419813863592411352962749077227692113320298331220847716119300635435191159319604465684105789913920454942538562718236077567230034057235942844419388502894801285466553608213436041889166120705544399641907195361922673584697745128808609242071006764659902502944187447475579404438142769263259405371298835950250242173985848050641295144959702846208294425093573164865093863967932582269268118164309659972136977245006491194235095432787952553837946650935889043178013856474007249134732243636157772649659741120035458940406298444096790886720493517577854071342729085832265600218555114474189355902079471252499768301269246667066535073464057558570272983214065828243467047642235256022631613195045032755241438659447983309883962836168025259158293923564052133219064823020667126491062111851461701063978726838932382871963313194600702853717148939374589343505243503845580139654769676249849096740723557502676451677093388372387569811317896867354626342178439545578540659678360100155346977770348888418361985577074294206465884170113459479626420602989080406407482032021987494165026134090486907280975909387900566444061091911395186347678038913283298113238639280597196105359601697734571739739253523716304767957073624137339136354267284982054334108962071592061094759033624305419990278222343565441543118195552178848323447029893106175298061978793088499901244707452943143448620265058766507847564660795401997525973858972823265243126696637201620662595011066590123331731757989424119211560805897791018404912925139116705114489154341661429161094051117737338596906218596942290270473022741273328297244586999765002086363439418502112247107565528041446973275346969149331961446963119639242678951366190440974102125634616365733176123606607066652217583053128810286660070805985094352702268364926870151328223780766708116031881855404417224583105768158638080402958077192396725123486851854344652379485869403007473174707359185228675808536549189291979165892851740521928262203874175706081918408627122103234043455843021992436358139595931983839670483952326955068097731997789526408559083407787339497502762943823062471178584035141083595751082981779726332238563756004250809571719837428204273971808689990536801205705034727673409018301275805309830314950411905956939719879920731271401641280768591572725983835574169241617247040451632420665295400368716139705783197247287724804968309998134530852357181127315654481333776657427856116226536733956249065063171762567546191694353845762467542482089551940723673308349763678575440735088612815764476768961137319542159546092307685519722553928720583231624320332462649703650869977036099279645425548139448927048426573047824405524511943532036174912217189698425001309196276015862331349516892324957934294753190182045457627720984487677637837844823356891717373552755808355258143773756332537845736633993857188501764351902984798976685458693685284995819614619174429128008949642004418563869164057618966032792253753101771199891272864891194049086431575006314296333324549502159948865339719580580428199176858498249253335186290570678718263349694102193186227564057133050816144464874419197997748662674289600689512137602077899052880528600630386185249841494395834594250844861788139304674504001197183879710774218770702496133597740679810012437289610599023832857072376476753132721633452477517508067772951727024540687274828079968410947540234924215489508412945134776486028837598320578640540627691908994393125641669673330156891733427942884468006506671053247448039042246591913150435322393342348644388360796147412376668011089156703903173768797514975671498748214204145443908083946091012652007116448127065317333739187922557178982863623165170888526798509915358315560882774148271801599136087544410450654031967691014742679560896988564802585690122831203552778597827424746311201908558488501881852135837231424172504084732190310665258444904292537486177035446769297487956196713295330515932012334704873661484931577211312311492556530456184263799149188999928634108509088603123334256192679601462008088316477839287571581146528681216047376493165940333743755163457916733052632909203330581566402590931685746266521860799754340639022389245897763029325107445653904008346976641195050696485377979949232861064371827475890525672654277176381153987757796634459610695878623541783869883717372238244947648506465782138360900177129829616286906612006699508674862898711846310552534219522163657716582362492338189215791255537771390111984616315243413474912269273086698670681796915354349459411554587544762499584768611632235663847345248089103920580819840041428571178278577474708767355479629643790207902823368230363459487681324746411718590292372146514784374141904009649874220218111125359300230908257180800663255984068797864629618708163610043335216946973965407952682328691985244847153770569630751053220624367577166288087871176931253183238724744756063658634087288872718940719053934017211093576359760376431096639057333544832473201349793885154204889712021922291449686113756909709858385829914172960457931020438521043582501279679788377653538319203799776432307832476253732007722243979219653317805917708255891264181918426190274818504091976080172575269392452648531839788214328359365799428139268782628272744053217183967715804962747665145812015324760811496180435261310595071452032142990847620531152099022988236878343969447372928052439496858078868033851115784403516111776721945337322112666548252195731672096009458481462116260776918614871166861937939984649841181500724183304468309895965764909818358985191159200797634045127244017113436804828929796848624375535880645223790150921124216025239988254062607173458192978710094776996672828363638350041262501219932363454744378263176616419181298554619315643372884304844811313347419953313963124830603041821946525988918850033027575130158813123401267001760033573546987874875200757533762878271432573982117234063947760045207780737217649660529551653233955114647169288900665850383043901226170654718386411480987385013433047333242737230041912992175998808327746121707737026747013749757464860943214389483550248034912252522563600337612220951170684980000318451744078609611153170753489386180214159943008876561502192826766042223454656583754949495185170431595201615268765402357032812418683567940498952568243279856602432349936035193294519080424627086976591525681936049665398216024229168440814817063078728435652177994125309422617724031045981448884916030257841499609938148811737920939170476000551303379229376342344328957797867465315197587344331127779700312822097178796206795876212664264084240334789553694776189530563062728889389778924340053250622320121708123969665505206195921132141222730701376061917205159285616584266564649364675190035486646919034863810882777610465319277477573722698926015982946861199702200084126482286621308512820486182636233988004505140979657626540593230443023343136936945313817997322445705436897214337479607786276720004958493747774300678284637254222592395627475291002574960034307987492842837494088456129725045029387644277337701558459801204272962494416706223634674687821754536266482632357542585866707391057332651018096749282877837938565044802387755886595681527339940659713434863957502349906340071823326112077582626611798214087918500574873377037865462339016812294582180960314461851963136201028780094976324489013214392821646992921532622066350806644604296274235727741812091901991886245665695737499770984572540510259316312943759842703414263573114548375628802786511453912880780993216703777971894374961898621370422844658931202179867641232514930962592167444119003617784693933709370743608950476025578311473247021430158345234297282311912553183959165853898488349640600643398063768628555262703936305698026163367667247945437769654682054099191128071278786243487239239528699087329884090085237160805756713112804865793863300301105471412384367923015140091450723074174444794158630085551744365626023536150112428767045457397348197070984792014331832694979677828490436402040050656483454814889225640199855135146260527849651520131266914624575339336095631536111722175035417260280602951539501104136099042985557856466607188764555954061969218715119942938577693021827155869850075983378665200611717636756850105119884315339091999659891015061815561442656050640839118917262877396960547285503246102739642925474619312202983792964149259132750890542357692888573312076018279629938096835203913227276226979311941821685837591393579657387876693599562417770306589215891652508068661771617406857447508331354942952777814019040500582988419006054688349149717188775943565369758690636955061655252087921138035690792834475470238510141650544741937025551089548021604307474550771011625181053280674272588289341052872610924921704505833044828376955790591786195574442168644843306902584897719320511189423171327521507509051601719859604610490041995745672036087109113931657693747670257063399140958163044621605123964833716533309759319091689321598377740046653727823974446647970918707361195423844005852993066710385738389297208300090870097071679871860839965787100736391136749265163646634822127485920779083796115195506651190321216538885368517779156635079275796382544328543583687348749612637433358486188742867662603903071614894749364548799319691879077765887271153564887557440810300384506588879613365027046624431013675102852934959390827991025082680702451260882263802775893320299618593272385319426588092152546325900283449236511860787346646683256739712628773608250422110729494529471242717448462343698977869579574050782706793484312049082645794006371774992999579096502104333838897967073469845479160066792019086198581037237363369784013713690551800245811345059226315157357330316878260491052843189661658023993566093273786716552574807221628245968722677042371869957900837561428424282419732870215966827277857837832447077804554607660740242602289165704065602641863290054545055862470807577269022192418526395450319659174923784813082998378526734965130231912222594236268750770767782858296895899089781319324273348383090179250530940167049296908494284416050702521902915452113326426454125996476597900798862837445500905902742911080274098361405809748134806503204124836241535571071654392298165552876226195206266298820487012496154198796440185845173054522779665985344619817682407626249600157038802844936142592636741449021843447738443826860906611863115121308556939895387862729948445313573050951799993570675019915455076003487847703894194102559407323306825811314221191818802201879593922171620991804676381728148643210283461252055879481398030069308959103809162893735751864044957531416395576581331690608958149824568773833935431064366989165461368570220559635201244667046719973297172852879343105945111805238880017997103247161570492281427099238741242733575221498161383546081510828282219069754624772852294720510079315913649055326228981628752709700359381830862196816818206651193753986988908489576487681032852148069935847422787532314911863419309592022873271336625261449507895147242739389142833683059655528185088857117491085967124462501760736034067867578693292700428557777230306007585121413949529345747142787079845016552346835410947951577497592855414386019427573017333599470664890175142975613318772284633220815775639479914448470574476108441345760748534389533901006634206135634544851888660148702247707118950573188464893940764943631467970371743256507821863997073229105259194185577982111717233491223493231315679504713106484760926533231984933539092589734191103071653535999355768460616620437215044539920081446622498671381831465453879563027229897575515146501659764932879952206701945355432635597960251635693430540111354439230168647237674416229646133666840580197151695610618799260786442846411951562499404596587452809228745594168502575488372863850318257302045649124436588759768338286249808869181687697880877775223237172480926644812992615974873537047882093198856932564358698120667557817735759844727592973517137982967756836902304450841620088501435931810270828842075845123648736881711561423991372580373875534254976804410305844305015695740883033857433441941335384370160569552343256990916296016962101002453543180800698246524384917869533537479810134372296828155684773080516931537353126141373175626219654219395492393056469981679055612235550091828853006064301244489026974605657179370964756629367387716504076902511155012013633388643791542779594374566538705008246913631462044724925177116004116985233722553035281368225346138087294488465960334534206905327719447561262219473769721913398166832002104300780094441589108490781676219221260234785574531982668305485189692606201449239177127126738762130021678502909459184476131316416890214663757131298400181699702294046554945764132227209693512380273867517187325880396920052805999556569385013103363344750671989221315873864177118236616574328240599105385345171029134657571857953279478693556688545659150373551109978721536829767228198320435770218869432393866701308483381044430173704621813690481853163947625006793685299128844072877254811289957044787644815062769821258250746143833255311037706947564029655706009985036782286503600980511695929146813121941814836141776897753779872039366663552610994692098032267651111527195410684754610402569344605743985233576523169129646682243300328553674982129517126402921485946145478916997794061383182265729207998921415690762583750141031143646173442766343437964526995342798651967382106341477059383524720492179545243814794998925401347734425254417742342942222489397920006693674941899706216636311873596041014373036113850227829326387095437667098124854901934171902467389256507282635415773093186285060235450346271857818892941783714573345739485077272861903124473261735125293792403466876121348059007616195226727502283477088313627336188261459268699540581862686528602584921758768753590726970539785626543538130387241422699757621130833199205629674829934219587660622975134721404327164536506289593157175886716743556439788389078132631917478460700012363257343974791114562271027304264446662638094392420591233877376364548732715814624495243376946364529833171919488709935889087962040528794272627729813352167420749424319797194222360004572858070618477831943089861624256459071824492682343947761077905035757317384259811759602411767132446785009076425933844709294007607553875448405150275345054749050797462984392166774509174658014633878792616967228619084174869663662787656614412218812205827053191319824346311182761434137471400955642057048030578404933999955525148517659021969857748667945914800013353235728457254133867324949224588576229231052929256425351239283483050374790658012276161006205217342640799668813377882352560651578776313673066648133883080329874318009473865725983933267607277684382840227201908176621284041690683419888055817069134997004812561278926167135251601817534914833937843649285313490167479289702218218298318489757867193577059701965359202837149818333911600227871343053818092809048994169923707245184917567481717494771506040889018667764010135814363358735284506431666539589032420675296015359518852802618425550305746314466264515967917134072383505576529980897137746222962743757662579886809338512839557083589632306564541167059898361114779211403756096189662418933473711232369738824414854508749424580497618746124825259170025456081598018016332821892479768579504321801466643569292608869934916788954350044386340659830254421676585375973452358423625075758416431757674055126123162552018954771310022480167881410547153575770109405756499153440823351604033797303549108639212413613292485615412941415008872512752023739433659035680260163200197337164099958863144155177347456383727957343726300996971986079247773658488495227580499086543410048397111071970917062449827501336771987276204247609124997353907442089168292620302149748498616292042016060719446727590629720189402598657858331697688470968940636568841211218675152047889320394516354094299393073834122019850543440662935729935215438579200366735118837489671334773804341774337782267344987674048591286370823528020123570681256949038232231056589136670789285171609934351498615499297285458111957674990366469983212446522354706298033378902579204601674565726875035923544878991294294986599219980748174229015958225640297839535653256076297113407980881348083870549085173331072971390003791357935777470260964920355585640581931967529440568038803325820111715979676074890509106929118433150656353799323045965955684120809551643896332378644081991149085966163997534575502553909031276639282114631964430899396947320769581994795373521994360222528731741924713108661941448188744881478763965329806068774725253425017559239252835988108022923545831490883554339665650864242319762242231113387208869532986281222704569947247706350494070444908177905534535545014205313179890176579135747479418317394490169816200154639872948940978133819183114879899010153676582835107467401309607010310557165605269828477325095437690894068632684886103935410702816990372043265470948227660246704922106942051750626235376851279596644939761120364263848864101949029345894399453234435750648314205224794450326511137041892332995472932053159347199039296083910551230778856989671624849375381761897401765100307226505055310927640939029100157588657384198170178375381888344702155969079443811082622356008568585518967528204802940447273028253022307346387449698433737431169445669552127083239170025743969847912238801206320198216947054222185456010653012232927759910099949765430640571586180917289936825314452748456080051376078268335460356904636035200420434682364667395767241032120835710702404373813513994754143297177454392076868306417850019638398887117751727305812592727888889676432951805347774636141944054373778884342400037466919755747622147791784630777606306967739707679876408628336880122916530209599629436071604195567048676632214249544096442334200808647369613638397244640524299501999630679206319585095997282233811462860039208601610968399184160486649781623728205953176115326379363349376828182933464608833123660885644718592586079072967016453948408339220034643887198253697122643739328551812057854245328499908208781676656141308597083729348119208569139521741448716257431191955495391961404285111891225828500075183353845083464389848220672738949836082029129859264143330898525859784812226871609370721502637555635867860030315629981687925441475090048818811149676160843784936973970044585040800820027595347869926707264833039221992001063628252455159972133908566901867828122706527749420276096091179104194250812706883548735568507953247405620297030664205339337589283436099506081863622543740925969727998263302630063533069602985796462002371538739803705210907035833290250965925644451480850235179407033053429440222954017589658826592011198134630576642167573614402530775068389838009059898015083827732529451519951190144909994154068798277969572685417627257445216023648774185992449290408106773513086492103204740678899805305162652857404281313937270612082492361915745387053997049851866682548943927340865481765303859540045877835000487812887965320602117239810908732009239844565000850909104237513826495646487468830822776884622388522772339794642611260239392296507916307279216013763998960553701635436230175534216853022227333375145045136071777332323387937951336368812042329000550314066239278614818806811075228845346595895292487478716036412806844974407761552945242556643845794612152788281964236231032768500245012723403687832093858864720130919591401460920663153278125354842769342783715688407883080404469732483384785496857357226839286586012415601125273701589992378413795820814053580627024457018510599666201943100428254659705112837994243619546503772946449536241410718598177533585205323731914059741349560980946101420018394314749641345236564898969353143571831722154745533462560391591546839664474743740299508806871565795385885174111711242932741323804639077907213979241964762236067592622369363706374254966371277648724268737035689358576461321002499835411474769556318902487107683838245498811611213076733610901369502801701851109192255123769923497702682491710184094475520587228189088862404599322749758790333677043891602401598347108978280827375537990632823301981245746933223706653870792799146608291177531063995081546523772034227262332685295325340386332710252911246427324112871500377792931567151028203279139347921347799095412847010759884233738277822234597521138271646467052892799383595324832483693504176574344207799773445979194343831258507101100410124702913095281740590219615675277834122912621466592666331314075483082760246858360070779746929781601992990882923997081772594059997638140123052339759448340359136507755920632303069856829011192956683272098359198302683309223879564591848796349933511404589113305433474104922434139349465042492055579541172849808046830197750913597650825161001183119709168689741934713032341273036020573629609623387671715572116230137021656919668853526618446062451097776274839529348012128459290286206770568854804499450110642806946402142521707356888705671006728207016130010556145829604831087821101990120755644097144933589682668651691159269233557493973715751136824087782262717809495903950275518822482480868385373829100124597394826820278697857671140664928092480590934344911951646528089159602168228875760409456355559467485102640931400958944873421983164910749054460227995383233321582588028464316830873895377313910546237561373067479220204127378784957927441272716243681294342989455819621066615394559089930999371157051978205317208311554112893342826651583327191206192821520695686967996082499845868978980144468144413157626845937246646511951082737621287944104191760783214797523085767524012462860362241085671498694450718972603321673114273074295717899817042842319920399559190185895062544294761698142561225997516997891221102171578981909762999905409978197172428787515337874976329704992210509118980791730942528105031919998600228705724843695850262180288614098601765573020041524221226412020456879118507557285067904678416362839880804599818889188695057463110241961240830974610418744350183229148910558379264682530875521930634002181098744860240300409755972823530465285307775836687255405513934239847177999312387158960948365806281287599598118013571879935416828942949378961557675634282537462896240077200123668360795759395841543587033805370714932979698813787503640996640488723075999237922559303831578890372058185868115525239389171077817196592059973377929867387547619801118747921166599178963408929663764752156191085479624579781065737767573385543036806027695038814508847642180264605316916507339530654720772951971484718398822129079553226128878739189514587916502784569096195315886254669711334805078459096734291063567457783725245921493915244526019396239526319133695851738785122609076857286234121710559200906606508969673203080372801671264511849039086983029372536409372255943707030541139050790789571410521706973196309604551182382110775709437619053125064133202227311303026464701922795114401154682851073156626852183464195401012487495937267047356917683599257186269334344974989648493413987988988489910943627009150701084122309471124744563071499764775678301642318356028204774768406193250379233866117706858032918540390207309561395877744493433271635418167325341803634856563369180633450765996288066898104820736949002929873927386656103637954717238319957656503253131819954157190574580644519080521355340046160335220565149166350813566721384787537235525086092013850946264162827153720318083579978104260562196148483213118534660392856822843492863039347641065859962475148298454945659004088728199826815049071666315910194920343945345955153317443186597558117127576189149149116659275511132280270784038967983461399160089569542844861051582204995049117422188434765820846064047566465178099163042269073948686502352524717122129961642234323186851361405410776662330623507609864780769557464331508339504814759869322366241422832283765646674228943199267843792292955300261817761138761538090470491456472674587822479358567822027137045711010477227035647797732438980811521218197500914123006310012656015115439061905453740551033092202261663446573026173556708878188075423040810459176818214717238006294292933759180843226831801506643602087031110877287161741813957351824597948307500427027067535075625190579895712147542558389362694648870419828822007661512778982215091327075005038619321318083669421804285044546652437609006180060422767129369500100862824128192715739833371233308479981149165960067093480648542998095133095630911180694231541194033944762562180560870399697895516491463638046512414587013223919226689517868911508422470571830658958969742809198982498104279690546826199849928889803374983014714638407027778224520737256352156157171610046489195406796482129588687946517276055621507823156482339385925334296676883355357060536533892982426125455104319287154007622880438639919622735403640910464087978367432285773782834088360534775609049754468136062711729183370907043828325772155306423699269187412766719488725607583866067357783611434866562446885451997746144475709143788285356279288664233986866276796270944608351832122255979027107995494445998170944707210225860769972468279908361505895258320828872592158480402071511104360392500040727920385599345806449757950436035767253567939401275599555634530745066071645759240579909752430301900668055612559316303674024424657796485126745419614082909316204641369408593312683507911738039105801430409423801844517703149951306984536900669930795276452852077292060626962616993831677234527697636359263884562834532655966191814887805827229063291365193954235349517693239233371583802344882268023315885917780751300457140879230842493282297830454943001773511830902627856061198380656955316981486121307041754716799281945207582011228498034551526930977076844115455448163547056103492164903079091631570906264478569696116479127274043077245334839793683183501113702808798708348215773778312182434614205916120537840762032361044640775414319535360641591179890822580523364325714358939767164250650817146588249697976126763799816709409374397341419920895142993274688427078113899646631288430707763387795226804702301329976616171381857389624969150612502993231134226680709883327686119600611556680280940201167795938663599257971106982470245689758835328670253144228830991029784312791817476144315276719121398350091304757334729428510838938081171300363533013473857738695334525198086441197426894843057058022666418084510869139184107283430578560059908294717917139108269461542667844787017177255697624402549456464899384957205977545467398368306340805890799700909661481859768310988557068614334521242944319876100578906319380670127535299660963217528511377028973612429780834011379230129750701471905194573911850026041794046351200831425152161323145415891890967869704533918329201350132084235301829352666882463567901874922543809072370732160399113015518740655134625399530820380288162152352365411539186399429665912235922843609599689292285731273868042419546593882100143075790959538500575968687756785026753638438199799825415209818843964002634604806695870137681225880824450656830096060627636402543506810309262633643791782102010668945117385256169481827799223214822597391850687021048863522900520301440833197115062708766110108943448490802837124141485323699549842290881181122242041345740330987306805963656114246730789949347393600096454788753128937635967692693355448713675738204240250820343187702974747586963406942708324488268537586876107953071818849654037579848435312639641899196534578809652865371150541312831587970383575422878966294249368777202964248201827538371661181519392081789321266305822776959391893029404942966490966080600156823674169905924750543878870362238841816434060234122014154927393528839169363984617034261730018443336392358761973214512825504186455088504160508558891847771992517454710448779853091242381636635759679652703030667749822889036017073653616803968432925408348543800991992032228170051071533404758315042637188782665277372292506973932688845951715760720134677700954653915677704116772370073216777503801613083927999903156641129876306241468829079031184619020600340248152741045435668094387363724740348733936350072156098428860919561289783623037982569763331039997165655223784402176655621895600228043519646117815769112637900056122759905383073656085586139073787248105377297167015204766356539257280590771080472692467331600939144013706572529680807690647941212991484143638225119235594368841107251805265605198302951187380233677634101071370613160591552608673982859346544734006415972795025640262234910819138260869073095407123289764603585351828427509611008320127721334369383827382193366541456072437411901775244037238762337564232607598411095893676790268651886612928832005785180929530086244357311919722088312292759726149684284315739654291321030770422077569376572518007099898633706479794973508154548291651622312848280861010613727132683099562716807305689347308763946739211569899684975745415013470423862034102162817372044266540232445558064477758552678733647138118372319177057956462746025309136020228635105397132811347523629342799948358799457373653654710242143559484401090553039741704016209120123608609662187157037913420408234529967882013939823201830509315696210777586124170037768601386035279909719739601852219663233899824168563329719473122358558580331322466524230490931093455553932487203977717617248148895398214226774697151113143073078360128423627289742828885782022670325332245340406452732226697747901725267385749811874174405304571766450528943675896173759097268677960409411333694891640688329156847968623062632276228081079333245280424125698915640077952720952359013059974298146425428908668569909222586133809512576178811711613855338358960040301541674132532621283452247147816681109697406413015659006141607893035419670145892154156300226832575882553994348325025341514433256922758332699780059456787098284990732501763182167802125983228452059782880297210545174129293074716942013336853786675326880904537134178303361687111242379244350378373789619976265254440049984885947691767649215043550167035194237823138098521235341985086012500246632820180737292657175806025240227759603486667481263906269912977362432051437833581099708169383036585109083084070274313649010941212942967215798047279526275340582025348236754304659977270195086559624588690896825683832702919734236441460513453674904922030502587586856279413695421554606784162592041408484216537200284335805238158098367554235509619509542654944090926025263224686947954859578107705533808155851965167280010396173012440490725936761650512133946375715182085462732523661152218900896539877589143287218910930594961572342528411995934494934417866681955826322446125247994352193080798098630329330465412550827327288466785843642287502808280868776795660697397239809262077244039042329248593652804217238106613454787486207725531698339240132515367175119356575706243613547839523536618565278234375528265970422365670570207814884259940067928755461602308913868965250073301045972327164185436147276936765783415823091430876399433766771830246071957903843077792905795535509710343114169751754845102251954663670541492107524576485827945321647275915107463446477399539871804205442875096920836632236347096404322220808710862581903038012827004771232348297216348972100803074392123835984155039940043591212756606856579766797643991075165499939594126823774023673410810852805027264817591397048115211476686811181047832596269854640807943436936819021248840245548915610886321110475193857472349808622875935920956348313915701177796280175311742857743840835529688326100191088470938691214223567589525202841286883303983754526847009346483591509756954053411183465942885336921869229405427539222825057084438280716296235992700395901719653322741969820162507088802959997639178815716763005846883146896257292417336088580864843136186693116773851117547551782438548933341342668906872856221373400974002544543926964945807552239484421064639035745886994575645084947803707943877825551380031809460875143537954751161702415072027665195807412203809200818267674248170996130116563128365294153466112822087589049834194861231193581733950314922235274300477750022484844314112966849105161298924982664294897193712062517779527898944698842914537618405356678223088922311173504598039368307805620630290150685728579791469797364360125261559586721094713995889354004643961068495640333947592603382448930721203615157815095902050435325458568200717377481817325075318274501056577249403221367824417558019750075794670532128128444584622709202228601007665861417702237132602599879097203088754080811454778617289510969561551936949702229525127996488658225415821240893468120250885888127073725730852128478364789306961770697857644192824339899604321154185494294781272283970441802211448104498072362367237220064670887790961146260934263186892981835929895310122147673223327396562591540927041833556899198571379673217534012067657322909043720361034304361396506906999244188572534787928817517879404667766293999680148062733370938533674497230129761520336300391901562599826109954175986475198068685127134092754760346325946612945489083932371577748073712492451942087219702312926518949324128912948546770315643566363936691137673977596264747388161011697465147044178439643464427487629715879668484825756281964103896339209345658166867005572345354104594840414714907348009291405083638072773391929685895184567247976800416790153755740990943454087944758901867428681474435773789082114075400520946867978573804107914040406732634257103720724685483047237731306202213397295154884892300759602640624221213344329375624168598053074791872097548461650289381117922216376636419192331079149126983391409690308056679229513672407695043961075469029792354800320416928394609067618624746422443509414775888781711205715944493018417792502415025144318942219178318109675573401830606569365943819763919245368592354632475988817021563889267247814555909464680623096790798499419206941809311614467175550846811338861288182879432537686041738913056226752812111581351797352656842641802240445932450940860240043478515720327801286846683180045729227305136473686947823826943346096643569822414310688754687260255017964643374725634610179893043875218357085197052167266350073653526472249236004971210717847504408990961604654466500037337798778415904208503780826673665221215877036930944199851994609416405117193388142616681331837577273191652962707984371557897045879674287130360692154920088629812426086307712140878255607609072077750569984370081988882331729383078203629040651785739165503102266986867133056224669221760223935328358075828051804495755628788951783639578685318147332558421919034178554170806128895191047149865909145851973590407485269917382231781578046108316701484586253778811020674276582948951326201974775309840850027740522707230923543511806035375778190108303946639211548484873147046467449574076426479952742846093533246745846941520440376371131994908740284460556359036043971201593168658517905583794858144589491228304590543013982295545939423404291010257106967295852533874337514946666703227605044960340905108213449796202418003636211428565405761693252938382469461401016740630290947400497242563694414209529301964225327971338879126205782581957154064271930696222317111166412705796304194017552663167279369947341595889373721602058314673477354911880997257806697465686274456438272677348942788153314565034745986018558190958123522110224918591940548211567772475578739493753383101036418572544015483262881197097866124109603128050110510196504261165005265636214521684848554786118790375328108588381607366110001138758813934914636123587572290108702297604344114616453508081863279004135900406605083122298805626287977998051760691514476514992062997730659252079574756299848190589943073053013923748804470959613663040220213501609497470737648510563585461504270422256873589691580267111786382948412622458507749443917697864775404037493000235721353178346021877852160903523239983811808054663001985586678429480403125210984844160879164277369701003102698425329471098939059889509479486144220274365233061967728241215463612571346905595691325928978628804252487538086147154923867840922494842636178859386234727826778129308266075773482426546176407789693682353536566985704028797341077819560707237183982931303464666642440271528950824539723075204171594355521703925532781719187106567843627711643414759609418646879935432336842515774547482500212100455584192206973223062694874699408365755312584475270268694398880908973297631913939589704692086148833444711072762544106204419493801195043305674764422464481013188893366896706276000439421031785576261912737340347689076230777658092419472189043624015654041158088582433127658482153825580576964570495681717949459469380660026977713335167791952809606692824598133929562415254819924274711327755840265295003072588590619898870902853872418036548131224192101607163034400201018468247914304125245382942676159761540912133909190027476869560423261363431174369751975473339661374670866987306915431284778070308135938695408761901231392359669072019370451688704577896431865818683313430787076438537455662511154379611449458922818444398141043399272928833076266496970840708379272093258932375965339703396202995977481235333050739749285338027373561067853482268876882044750433587983071913544633728854577197848826191282467080994069153017491338944767620689942900040788055641748082814579901125021341502872205090027040273214280513588001132534698061762590660518709580815538845654760198663158967660087153320286007694754130853868693756019237935961986746836765430199648949699420404600542503785498177224488299070593558026607085132194815163032969914998371061845544347864091256204470294029847773319198249843838558460272211833219580182844957649053729646113626474743132870463662178462400512967333384676459243408842250310217367837728231264846598976653171974393201676038566089287628925522773879870142049137119604095199791291973092049796548346626308439123989149728037567803198000394670777088694329528902209655943562085277951550804657789252106881823322383685249465414780037652156167059575756164538408958153161016975942137614818575382187154870218465553763823719957196641765376288125979430415743179821580748112558142970334723538619207806931441624937104425765960056342355652328655482449857258109518556983617676307068500464948990220899724290275743241913536266695825167922896888237511080912696878856113435398393972891790072583145641214566657244790785496204128923400010287129955900230940513996394956552973917908710179504320134249932507229865243724498986544647490117348730250682418168947148613624136550232402885186179501206725593903552693926019608066198520502207124980202941495960958202597286099916158640976199544346628795772143621898319750764388361583439466976173854184821578254028409979055699605615682633915088511705367958767073721288908790235486468319273383093329024504215722684733734231491643306123489052534562650466934951122465375233697257143635548164078803968150181071937579773646922578456727548737852854930070171416817883026799357176047310466413251424558265892700952047520529088694391954438804818604742719081924618250476444014118935781547092238711964704987044896883927947744312077516412743303791997285864187886662104886867465582994613550427354143662296958646082059739603242521465160651134273446622188834912190475585661544038993434092637546804250434944418256274419886487521519681910428564600038939821460237832708288616365859866063739004225196432791271057124803083709508251753957248258077595087467534595589969862352779038032384160901515381092663547649719513827848147013069492320394974482621492052437151259134925170816749243691133518363625655577924038708096969640835941555223222403208576937137792361474361741515939684355585994928041087660180678364141898282246075747696393950053930895936201730878643490106218162019427551839723168475645977015324891009483800291134884229575490541268709424236260740402322724011836800589543747734534471798351684783911061428025993381230767147474098381397759272826033379522037656143889272828954989828441053777582308076411040394815670707315843814404019369500739670364262184336724343079698991449257348181705057318888933235974118318600003398284973794091951850974972347693053628378851842485009915019331356046516086635661321385891807063641786327470823068354688993917478320726655962331473418085293967816410935443649309796469274872528145185237303475409018891167184799045868531535506134163482012995280427668866947644870753818355233433371932188562406931703008228614338019952981863244714439736575859499593797176043885390182569117148941250584567012626512422656022271725788946928586094898192107114294898131793404909804578242544668458332688497872736314230339751825872859251705310513105256251619711458646493673298536501118506176434507883557427863897631092913450329250919542699569109094666542994501583008639141254776207016817689834659119923168597757896491739099732173029831830695312317659986276979840186976691016403613332079997947144849684724902377632654235779910242197805355666558848590536864866389002796746787902974117557691365015162008353209294632645189764504381781314492872393460537410441083225128206007524371732091573605552835076120534712828517376024509056476594850139433399244415997209400600948052714572432529565306783625278290120054464165426008800198226244241715810653495479857096294385029371423360177429822673292400724731363910017483063032681430129832281586131291730737669397116205288564398813587335533098782075143117123341413768468435635644695347267126425022693017301252357473878029693692682532014447835314151624692696007281847298018565372458717574333437913199541466651411118308102263969201423040289084586762312162208268474319161307928028121513106374311982377272193111861888855472377033178918016530599602578775310012581128672647812257618568123539193933367740179555146072976143541069063097398710653664585230172860748238162146929571927060511206690379651216790217859261768199488789504756499657448757848411936156577991155372729858851489349254406987510767074712921649371702932299566940906940776203689474516862167909187817938110584503620752191233504134463562169351170944289255479794084736206035624200826448654083340845994218816818161718233539911125406657563381533995497587000519649691832100750138203501601262980758219857117328323469667788830934660542641061668952735182774800295928940069736142848150903606934658020237497270197412264057306478632293913361898385841897638443809520172269580585143551924955280806469545127988149270153782275006039302829194793377299818685972674403970486051250161885848986402888358951079511255317465519887985005459595087274019508559975499586017882912470798101285790305263185731300924692591789575624676926118629509078785054970752654894509780851276497609656795743814880613428711037314620740346002854561407865570946243126633388386267920769157065647964939839592796546128367963754642652648852350769940266757635092080511424343708194348286754460261139400668896113203155286397803861369309351236923285622057601724099455234917393622532613527523485500274353748190626998618002465441965910504735899400432860608320212450386657600538811946102806359470702567389619873246413136689088513198564009029697731193591471953116598374827357358542830851036951166634485065807522705061450351479824394470970477598945883850069497670167951940008652373281568291553293828317397706441302633734252338173735940951295782892853868324344018112698042600942372831413551139844068497775216810400473327988900526160332574014553218666466936596311148401141560301103651232484756469927657755645493495190513522578833489645103535467554440821157651082882838202522245863648702008961461824120679137608042741193974975984316135750149637855614884197013230615430265066899333898032367808123092850078121133023725763344592278073138338028197959312157402132023128680146283960697205478140640815564557163219115217757405090116696546282514569601610810605018994557953966037508253788076365116006466206591598827886351786824810173584964161227512605100099466966455719357389117322633241261480548449466993611081885510525055126236429219491326343041530120998242616321557535771555200475596730773073097645876803654954301065649311587187588353791786695211567041055081968944628213579369070872255762557598891940775400502721069515563910908888138237092859944039534470983783046025481784438361970892921153197529944960010326991011403068027587163809668184257695073690948882505690173791258854062667377045206978961355066060299313501497589698390083428590460321707133870501128968454840803551883803759434134742431122847509894538991877008538495658118006665890837666910219591122368433371918958343401586845887286569320417237842098342911278919580986150393597164391850939255288529142236201468042030325572870648787465663365473580531849209981280373935798807652580873722826302392073261189059634950938559845963689121890827025692349611122263703965342633270860627165402775191693618884228725692300666568481092236422366974158145248469777492154868809113498424250207225054043585985657928555501973563573448325850118197582822836898691013769188891035176614947953629147137818399562552193290998723932528035792073438368084263085576629804911381402962080141870366310445457831147184286201519148159846713637112641625846281619624337916368044893505566001829588884478980031759859996076826825611090638802635726170310347525462179136940378289672776883063779641207642111159877131912146892118035128681808750509726544175971245472677367528569866586219145979252918335171912299164050495548914659401536147524156797767975669889548697731934156677206232336842390405546328838729265885917163931212574744914066532303650981376343822527162725053203050281310713940476663421275571588573093831748304607943401246750935360774114192062673367451904114314362084553265784616021382020705842802959750376343204958012397897503298744777326956252989057641727111631016689427741835188347017443973181244734833093127971341447825840047875113250435237760863076143731492183426421838841467017064337781773622372793226875581603183617237240330567907401799207938101215529337461429331626909803293131780042547880074257491505137971576732227958514854052111119511811136134064983684022604673410883361962227086778439067543981049692872250702819003663411099978993218430261621558982097558951405592024515743220017352433454306145881140947033411920511547296600175070415356647350071347222971526871702706598092127651590073945656418494929237122536363162123086952120081436312992627679387689613547632437448770527032959947426304814648717428175358924925488407568973189249679874866807756463174083372014110096715935483590596530504912436689525011788848864575042584397927219065765259669811521059829233855316164268075006370962422409364196122520088510431191156151271400668047365713811479376252872414045706284483224873599634398991307496552557429958535143061986010673535067101583805100019361916482545481107389886216176712983280585131451332635046749846721985545699248931615103977974815100240569597138924882220980454293857222804164405688715778926875194177686335544531892267686001648939603248522683331517992239115921515024691664023558860731845398443362170154296762078096153822485492046504713678124571091554308945901533883114975311901695374443398279548521556022809262809409475047024691599137791599193752635348936236462524939783456362706630297659936910323965624667654773577662305774867250178526410346335670317925138961706311429082233272843055999071462992833008564136079655914346404961253795259517592147952037832800759446485935067169581803511874399616462798518541426949658853763260768287969400223059349382679317808915300577105290985553835389587276702099958211269349025152113994703779004479845127071981280948199080334909927835579505757321762388177066467065666019476765759446763854257999044494126578953531826700790334322693639209938219634605009047773180644392088827617296340494710576936378619820949545957365340668445343491873389554964731737468206050132707558550633433068553243659346287171657166281875843299784246061419129873020071653571518652437274654733701139195924454686780410290735630408985475265483419854385572042121022221324714559896955569366485967689730118654598830365216723407887426433252881923868060191011308902608950459243830207625584560585783797602773550415692490730625828599139953274658698635379690641794624304915756505499420726577061271469346831432184442877519067806421381410119158487106579618254865646927892662402357960936757761350175914067666411282776409922552413844520600134600760015712817366537173324857353699557628685348940046444949243784966379402739275951801428799102881507157272822064261425112264168463992364031532522590271171011324769068532324990783303818422984403679152977955321174596945070744639578685464104240289663408619168667726057494793778772815135778317493375208782395263082831458808512531721866644602540601738588542531529064310368671162976002775981454970917590479829940943917888358871095986818475536066460804490750120800944288909734751576875200549517419647046485700077870893538971297272540026263038258905647020143244497352376358462283416497129045499360756703804679649359236599560388873082736508619281900960525710234372655736206798547963903092594554155910351676153346859738239689477165255642394321846989640270592887006436500863615296809316227677710642049592090570742246879028949306143310403145242939806602028922582824839817791299391929200277585037092202537235077586478159266872366099342959152039090265373289674013874752122475477229953248908606832249173496027365705377294690440988823836570216426583499108564729316561712118198369199240423446012869876612053610989936353270219546778599683182506126004390616949727725905254999599613516290041393940141187724191577924699150423970961368426511586527653620349156697419524681474409861835096026871688386749879689138672894577803380467922719916928064341313316540626654229527817540894958398891714253809111120017097483111703479285265295208591244394397751562910779505270228803277414963289685349016065585181441598837115930568300068594157634991549317120,
  best_state := some { pos := { x := 12, y := 12 }, dir := Day17.Direction.East, steps := 1 },
  best_loss := 102 }

/-- The search state after `14336` bounded iterations of the Small search on `city13`. -/
def stS14 : SearchSt :=
{ open_set := (16,
               [[{ pos := { x := 3, y := 5 }, dir := Day17.Direction.North, steps := 2 },
                 { pos := { x := 4, y := 4 }, dir := Day17.Direction.North, steps := 3 },
                 { pos := { x := 0, y := 8 }, dir := Day17.Direction.West, steps := 3 }],
                [{ pos := { x := 0, y := 7 }, dir := Day17.Direction.West, steps := 2 }],
                [],
                [{ pos := { x := 0, y := 5 }, dir := Day17.Direction.West, steps := 2 },
                 { pos := { x := 3, y := 2 }, dir := Day17.Direction.North, steps := 3 },
                 { pos := { x := 2, y := 3 }, dir := Day17.Direction.North, steps := 1 }],
                [{ pos := { x := 2, y := 2 }, dir := Day17.Direction.North, steps := 1 },
                 { pos := { x := 0, y := 4 }, dir := Day17.Direction.West, steps := 1 }],
                [{ pos := { x := 2, y := 1 }, dir := Day17.Direction.North, steps := 1 },
                 { pos := { x := 0, y := 3 }, dir := Day17.Direction.West, steps := 1 }],
                [{ pos := { x := 0, y := 2 }, dir := Day17.Direction.South, steps := 2 },
                 { pos := { x := 2, y := 0 }, dir := Day17.Direction.North, steps := 1 },
                 { pos := { x := 0, y := 2 }, dir := Day17.Direction.West, steps := 1 }],
                [{ pos := { x := 0, y := 1 }, dir := Day17.Direction.West, steps := 1 },
                 { pos := { x := 1, y := 0 }, dir := Day17.Direction.North, steps := 1 },
                 { pos := { x := 0, y := 1 }, dir := Day17.Direction.West, steps := 2 },
                 { pos := { x := 1, y := 0 }, dir := Day17.Direction.West, steps := 1 },
                 { pos := { x := 0, y := 1 }, dir := Day17.Direction.West, steps := 3 },
                 { pos := { x := 1, y := 0 }, dir := Day17.Direction.West, steps := 3 },
                 { pos := { x := 1, y := 0 }, dir := Day17.Direction.North, steps := 2 },
                 { pos := { x := 0, y := 1 }, dir := Day17.Direction.North, steps := 1 },
                 { pos := { x := 1, y := 0 }, dir := Day17.Direction.West, steps := 2 },
                 { pos := { x := 1, y := 0 }, dir := Day17.Direction.North, steps := 3 },
                 { pos := { x := 0, y := 1 }, dir := Day17.Direction.North, steps := 2 },
                 { pos := { x := 0, y := 1 }, dir := Day17.Direction.North, steps := 3 }]]),
  queued := 224047448418482317352884887242963429965857326222579437110561577010661830294885435279269069548174118678729664073420882763354703207671099708817640680459841808584164791104984771207533899386590697285181319650843526452234919733193536413352599214376519087071140260933379500934250219176898640776129177335150937859070442063534137579019795813620022385104374252671658673980465731239925610262171963272836100176270966771100564958365816357867502652840648156510409372642772928281299118504744604909021498643823228148186746263441007561023558409332601709201079385518410566281614940947427595394373611719573032855309496015603416741607130865301556298052606177602745697997176233368299544761053590486624464106929049462460610778236565785839798078517678839957317943313920888157391333308939623064425517313955866712776173827776337897861522749787025664921762809825547852361808182898635015226074094302870538724804372000075933710302006764547977426108171576072108484087154990430841850808843747765032795644691233884657911114188227511504117400769645086754882073333398852125038794160522160433513409546171796894812787670548494047720108871423754458870240215783707896388703413324713373213300092511422199197454077388505549753658985542210625562938669469236006018785230326598478099847246712227170747282576797895772182484643697732636680645720281700971567145396215136779411301858620384155712983408100202024262101567768451289710592,
  came_from := 20595207532532843191719023933686968049796819840328446475877216909317635688609412929572937259226344538976135730399603448794815080679663047835435428345829003293164062888426111458106332436291558770971099591466241905498952970890331091642132552475647250103497667051543283204264333232867673016283515277566135256261407706126329927086721865047373544994296223658827368267149013105013389117596613663732639776403279369120316224551997475783052753296125056510509194548983569729458672458271413223667485839376751963527030302627805464901927212595708680584895457357954158773972893248707850400295113239207896231473379524408721671550914002992748755348874551819229050776066790675998338965698887482592595870944854517395021669694444459301472582607898752684134226538388146186824647124838124747219459891444159454703518958033268069757354648563563491964588248023757878658256044433307787080615187226998270655250657994944768115298189274698787917934677757551749231187698619120388743674667911301392408475938882406261644841751891307649023379309048583052826170761137553101515640926715371854253539776965894293492771354243167156048404924032277563286732792941511668996446231227846867630970259859597831796161620970289709326453890311052048126971976179382376216798884718036433852025100047421153755790724854035457136844076031504842863107213401035798714966847296803503270402385456943130836559246714057372741843055815067719251094661999478640033254262466302443670608646173311480367714129240039397814543618668158810355405530818991804135922085676170525200063774689089877633159033029469492248859373792783884543236465083672374663155118754386399507476508122731018880328459878363791372138972290438431861932617333789627879277885506179898963985628972372385157433639619697509698651560786513023613445533232551270914392953314899003898206211598766866922799679547286474993466172763422237869736701875285966576887826530111347024883196202673855625496505948725749128154139166485955137259951032127030821321820692411071187651541509220612346201328735978571597307513978260630837663793970398663352989723551967289052200440047861945869970872027807811138354458886113485914940230470045333669658979053609012893114056412656710654144947005611576954351387778106871517546154998798605381785235198485773718466858802123741102260347593124099505954382678326769482537303236484116573755934147484990016379866863908787868776619603491144476214123334953116522475137679149796808348297279333515572682372089266749210313270367486849830650858921996705666446395791396571349985982018296991761610832286729429012504893348960540467414674915573021279083809776411826671652070141378325901062306682270989494305500702291305578364432854320653777927771098029617759879246534650059475526251679107321868082570326048722525514896790872748083988915816384547316886311059360914448727176974215332120801588927990375446011496712233780562512661837426162249697307690081909498937790796235138255141190375401058128953902993257552309341761891373938136821425564227079031713952091248602058660281966438254565245633103191217449987105888991228492411037653124395116650225794582818318487402863935811520780410838295606382169875412709502461392834414603859841332694987237219814836620605932072820789820019475658990430803103014213844713610167790427728090288453854160766440786028984063422042691302519966882436909766141407917292732773057904641660667262758638557483323284522635899991234332844468722227077804516826472697142302477295373511678050596287932154118010581366876273891409504624529632708607057813666487204771246862692003245951865368424386863096941252352678313496434202629347572805724297538858077070681950467367079457727102885082396032282648363992074850096703792835095531874360069859194354565297684949766766170550432691704594513569403315735459357013955292298720600603673029548867291732490809164623576296819343411317431254109433926713830135258708759513795146166180294389032631110303550853654557232664578154518571262493036811450286757064371906721206257738233754719428105303746720657012384397210201488062254852737227825545951160127164619241313534591144033076665366496545620291535911198705207565614200447839591169977023290888508787380049427232812061540257958658017962238054057216093476889805109314797342609051184314619503047202576834917117519841888318993176000491895588945891048245392849428591744129393282703681705978351559781163010065410232616417459730960622949836718049242334710956512160838996816623299338676012919465370465369370318948979055407527236256515466307970060695753856263752443384014817296839426339052394356715075609342784740662569807805131846482435725935140417559964031435232480340202114452908941038983684545462958211378214343667220513565786709079580860463937938825915620435761053756573088136325452144235714752713278372009296039791565467493798827166314331406406876112054860047199008744554558677257438827780051802171135216337582123464757999972117021852402414138925282784901475722806721739883700110355557361728148595817040560291897923791170227693133213839658631275687870713895942530389526512051115848255971151205183042373981179400979918951553157462084736106345783040337143445370254094102826540102221227262781406925683874182208148531876507481171844552283933882970405593639116730921917528284552187994226428263975632565638904107213619170285435140916345726840552844476616741173344684469777286605239269142102472058647516208964215967926155473507731459538732313690682182571597008170520388155512572906314694983616048458333211603581201329319272952065893363549828763173471781932149929105537953496432241320238879403215727938265117941825180577324750469499279775885117121214063958155038435300779209520212844496604466447584923969138957067033828303939322215847957373297874249791945592091465904711270783502776258559146429539699701229217645361457155499140889538867419949208040520918701579459097134150247082590907042977742717526910969792547747413082841966113713537939271055471366064983050598541629991299259819548868567136593489128330837319076409313843668759155123054359410188808002383535357064811390290388155476859413541942513119632557354732654298519605514417417259944740319333947223723123624361692029707384448387437303539839291187038749973708757951267824945004865070395365240229820078759638286015928393966351330138498985673192612178798565886855252546386276423111824937920232036692219114109295997146215115555221008954355932488347928996511691891753286642896177916027744445168586205173701369674844999806969446344937555799907378259291991044521150624901354388820979264292464340523965395083104948077467814442281723847628238464563728180052532040672697394193773202181477810385663097595476769023499178824502965083346507493374738550485042428186799352243151095742005994202356974680739307933724548213283825269981928030509301111669371723057256341753776414644840485240334575191018484363439601099186613439091271428029212126174944423729917147786359570160025781098584665933372360123419652049890739134237766207752980556431694486697259744674403647713348835663465959489167125381106159351651629638570826991277202169508147167258030064940073991573846007254784390522323601458261690501688833749097921805235489868719487884130543006586495351989754502589739546830978520097984230745693277226759146881866411340112227010940067577355155843816785530809839737962693824792066325908931207486999815132167654827628249011039893652353953270149726220163387053565099837829419013133924549421114323937253760049151280285820822579925952700922913532519665195221101357114490402790219745560048472423886494167594931970505717106338883328886105217549532948999604719372464382590282729446608927183871396981115999923959016957746392073608401235136115575296875497930051387522580786875177606519275927529417981621781424592231759073222949651985878145277859117528368505290458464952775360507626989290187097679890371631026136980098305357187984957384392555506700648215619267237128638017982718424713056131450738673924264719368314259163143777604351648784340223176126262038047359480234339011873650955744950618679351048052848393592298743837027933659118270391935989359397097867014873921361078298241162932779466869293462460805124419322862697374299337775802327133786830720422857180009788116973436503857055765628585303341366620996316255546390677253862686156324266774863821988612908223779251435525869274903624028189012607755282290102604379340710285799258640976579900762071902422361556093853064130705338685796395652704398543962894650118361706736836827479106357744087775585754110620768954672648197537380388605847505101385652792674032445045934815088890751716879276501602999476106390607786076076042493889067258844273986232636029835766942913051655165093498579130201849199820714939422959231936452919783423719475028830141945340982388752282056048972156797086347387653929467802859172328977083312977709826472003568611677126260288585127133248846330585591034065148572995760885387346647288480081040702273653688534832845660727067283854172484002648231784495123729543061494316221748942071260365701194364553867221566127895117400401616364287154036346618837387692429830942595206760507157481926215267358677487818431371207564949283965014165687515928612731583677180535375873938727172991773848544998091664547947505226164676961877718583023914115221061440806076117630512162787810607543376793654437387699417040864643831772851471654012136885496225060734975254598254330770006910920514492122930367930675692127815150209577832450465824118661556294066564568562213850332503122145317447906078107994187258617392218834909866127901314627354732342967083617281761184110621406049239362559893736347942478831988641938468150203022429577466389493238025448349680227635211374207977514019773188778334714816913039779883993691915107873159520435442829525443916276814458702932866831243584938610774978688338718752767728580061700967979983071352278903504277607472836925450579604542801650374528190374914106066414355793206405312514545348096956537785820920402215134197516606808003904367360418946036263322298548068071730342674985257717174519641162225804883138147939619809860199452419643369719218824462733631832526147020253215139074610486058464833327149767332436587871089609818261724927765288697168023293847523981779456161657074420275974434183800556367585317603309731263633616166285998548880691562168849480705898507375182363621188737151917441643393796048302498800166810361063149471449935209332670767135126805876515735152183148167405708457086777513787143220082014889090934210937272904825710381330406681095205631074393792098052999954630949668612307157165005273605801894264711950771942421740221848612790665028592617667660177321806723891045732042827193392134624105025090721071184472549249412440200831193929056138438930449889302764638141682522242122967181349979399798743925909336122171981928773896788931136473324677075046267708900294527926123088493101265119396272128885987564559005851248285256849609728168303394911995636196216534071029631697343803807352990457923335301644669022294725689855200074284145143675709550200362921834266938430128860840940044925691231685277509026076482510834736603736472655705227403206916363049960251340353498753524371927647530613446265600410770108217068335987863648669292674201053038468324655554453342843956634144375573787621891870852580334675068281839736315968397792955447035030977830152370138131116079849504470757276201409723532811727746874501586497940373795370205876477877879627895476779059594584805342655274422707236901851340887894346973895318467810198247973013677676843817653316201153730350491242350961705920981195031915989266093004954889436173668914081179820093510787092463364302539501380570915230875515845309437873963165030933057970122222753280718503357992930435263968164024066990415812917980007260234054038084575311748390849619164099750618708779194836127652299448038752034765558289708852918065271659395043758150972625013132811584524529287336410705702746672304207820547820605932681838788753298583972739228657478628406816331965114905683417515787951346298481515618392323383137682144459297329638174663545451611221488051152987996132533869967869022716471936909605556522447843138151845465056851879001541484473893037512835462305286153702030529751975389911398341319809098098436000539265642417719163671433308007927658767000803346351650674979479127789425814317644496535865607615890364768467607018804651985089350762751954514842919295301960599025991298632493080134370901535351099173463530606103240378107941820470466240877850657378456180753664591638378026929102594819899078036370288921003590135005697833545596356532477099245803289985535068853445087158878373419123641176664292422800891375943160344858080456844192985951716303147639512100491700772278663672916375528310182719372499316614958220917480856186474357477155146167565635033779614938692327953868390193002806087411864222264925789743619883366691780075104515642421501164476274779228540781476570485644925085745465063787272693462140326296046797911831101701791832231288515515676311936076733077766477013413541709232613185083224168460160299402215761616234689643343458949871498478411808254517219638715244862478367102543430497477518828900593687932958937687207816264209178494586574528764709132458090609819422883689913560269130274109208055077729167554862081512775595699949233579786533328051712023954642614750457606266602785469684269979137458494121584456391561952530138027493986740271963890054849789244856856135648246523928445583539031863159126332959888997114372066512893523190427797929085047192404859551608573684369688400605473287341562844101144462217063595782903037898662297715075436486973645606536534723787658358390028568963494946998070053829394814014056360992010398658110730262152661424650019032794225092900516981504340900824421855355277700131845289566215883784123636410299635446585442544121988869015369781419797285429729771613758273711117282418446949929113544659198492358522884365917051384610545174202609246640908887728156485059586555697927545453286914194996804542769844468990751737573326069838368670356609062008165037975255311304505413531221905609103466224076268071505417190356054209377533914918118518173004139721956532241259215223681596826429948177433721001841177102871050749828016608474073045028472523399949592547528275075548171830571071718219808501548823671218066420058680754594927899138176077180199779731219263700390678021297024430139481346744689087616769460983510963296736839714223271622752061559313696171046127680707931873525716291370650446368573308143394086905253698369961743297154381300863763237382710208067822942689576769940974107064285166924044664069297760779919864396676264713364702483217658570917393079741646473343045695048470013450677097256020693836281276828233693913610806119983947028859446160459339590967738055795086291290400027090676515683289893655648363047334226038735464981516162925777115993669492156186235593029082240401553573187098113847728122663490367885864440905453431080942050358313290778267114072036640144080498980066652640082030088278028437405360265690365415905505686683365435356325018303567560864131657944454808460099677744580327801615562162389827384938538326255235970442215978470165888967316839951285921719731493274812628864826942548213901405370476766712710616914729243124254748002255513117971836168760457120470734382611680611131208099696504524709146795447354173969438686691008805651135749151803750360554349262004675136695974261295609546578535204170353706542275702829445471017432204631267857411266509282919150824937972511320456510605544964398573051189346451284604010958010688165032930826580134387547759822557771855650386203528452460080926934951916061982172407470184917023645024498267106955410462150740687956352477790568401075397550770434545916987169057888435431496722098900156470077643266929497636406666627561413239968226962561166633967372688811531252727407322398999718843954252454591147798256634660927620474146389450883362866862480521681032041446687643946745625917656370186806452987942882046285991532060264698864776122390288046659966120312279795277457135820046860667493122021081279657455835244760934067513331401420741713751280925727007573360959640579161728420559918563365745101076505943582052386001299358382753049040266654535956978461316104176873720515602685686491948188144572626958710688208283907090871293387611499914049962541434271791258602273021526394388999728605420804593708817877349032555945752626783320163140824641709388518378169062125350731155707538245794462394878594130908572069149030633916563932354326723303522132137483497541548949261679811904745248740689527613986491112277446212785384856741754574695227697961200206874320675481395663601628010221090388552047580925442720446535525153134539267072000759264093957012804356766296760818768909618005922507884485561988284763419706766676026922033039625712162203978131508159096708189330998098350288922463172416520996310594923752691794588966107202436396560793492240296661568333287586180599067321864952004225558231913286623855534631237668820347227083731125666810314809977971344208621146791280364810502048835605435861038684326809931424883833050247080535760261501898394249668455509469933090834903155045081710504131039239632609191502095554888543618065533826402172169842276421288238597598894717919131549927008024192716351356338073983644692322395501073486005160111895478130082560243601780677214042180885954157385454840688976325746642348533254391212821929798510499408804389456100891370837308760914573104984640970012264073128772856046091195749907946488685711814288392809688059135252786829866024776042856080071089460602405095498444761465965368674087861079130704920651655747676311642568586901655470995214817284213793125924586561444045103421846116929969860170213449382048461477165819038181311691719139154069061735492995093614716001335099871956111963635401781481623401982635300437495511286256946922719087710006218816197443331457553750837727451093164496467984244957446404423864612271010928972021399290365587666663472365258933049574386088957139186443746178982040519549377937883016693124096952626663745081426467279745042347338732761197079298124428071303095529613554492268419967422363806925770624059602302461280256,
  losses := 49741013205785329196855635049906967494117503007650441372244650825622501964863598024427905931787599613470295453541886597853603054517672490496737359491494903936988499819632131470477576463489442161172334544513259014963926345385527510564576123440428481172716069387031413802179276750082813554423422605444415967814426995928860159189499755034729688132820976909268747396340494036175258671508865448969202092364531584098199047258325809902168298129070218158566578182918173630629086262426683310103836660395512058691352727642802847530438182409888112113337222531852383589128130523170509134655968487059908903587676435855498485714910118552571186283902213161357002200604398070234721155372063898608368999848499468778561389947173325801902247327777842391941492199131117913658972173032289350271775945059108795202330761274348670378071653408327882067188951649034131059089816573418952351588800513489708417344303952575565869239277445479509466593073532420072278650297029825091911241269476688609088765772328332479031284457132890922557093398512505829474975914673475188424879443549231285408925513888768842908269046360210365396106220224031876630119860717778992117394290545107953510164327318113526605718283947085442303296474820904013264672424536769699850396370925707578682749180258417921036734565927634892158814402904191082052718829589127046242823875770999087736900705727213758220659269885588120778067131695280935671142880102009878911221705086758792295983360602967960060295756613700820527487174428513549646677139690481333067301994234966561526833117320075697662141696067079361576007414601824470238883025747227443402173681632390308799754172785396773391238955145567164639263489077241992017196079942724666409820384413735400866708261778607715566770414152907281575789535192726616351169022101950138676849134060198083280878924123365009150809954196869536717784491508947280229530133212159779094902560905992426886287187804169031156876630462894924893783881481505094685707029793724132800029054069792336256526675745197995060305980287468809496398705336882417487156039686683147778022760602689099103651549756835754412568262873489145920112502953646865939461716099382568072227636123031186739470512914060483647519091694590335399540041108194953274482096173185128061545312002035296965770651463241545963772393207915002986215276277198325652016563485483980972133190694655907688908212797704897347529975058470200781934104984350226130012348417769837211614215799181519008103892058033575489061365644295461065345361689402700930601149599416291312016111679089677451162127689208866962617545545320624664076118905518125634728135978948615025672016056359785080621889613886582666387601639548272727469631776254921652576589009873478674235822920864777229622836545328423229001988010538862933976688949355037147121380821468088442658884500294909105072692694251010331257344473702913073642188998128724955889481677887740405640172787547604969918849257909936514577166015776300691894709594479081332865139939670154532076703950920275528038690243521890463376047521924684312103788449926145936391717218003667741366406204761228357530972392239373195230111611816470251796428759605319071698357158004836889699138111871922406305111531283731114860635847032268053049255052324188484041646249328349978726689749734359753446445292446347404253208224376193467610777847171930183682983607566533253486093014084740435142108852544288506132203475217500698181919506346354916322094941231017438096244181293853719553254381415809286303242851619880015871406598349149857363606249144056189759368768487869408971322285132124927188334739586221399321964978152886906807200874395444864747954660329516430926405037464030378549015563853250965503602844944997876053905174812580204913843847864624825884858252494568095545690021470069075817709044614607478814539404800359602127549969004879537965677583285341198268858622430176986420429745536537044634070741184579933153287596572958369804782386589224270074473348159393020851601361025623126546006877796103877115920036688948356048027242144108997072014018663972414314694437684170295332776230020896903885803828009787459837823155637106840020107999501199291199863062567411263404297251579461442380763597086098512089768767074187123670962512772125707996253512681052881247751595347268413858323676762130000069455653467014789513630771944117676421626786148342133135731005939536257384981771385786474546112376358351876100740745273364222455839520625414062275571379631956531065352907494680673500962720622534688987404586651333151502872243697224164507894109177235048161541977733241332094640718005349405644195410288461241116266044542371026777548036375038155768699067008529678078659135347542478154692356912935529201790355401772249617683270941724543247711866910612805890717180429831034776124207093763939485775468830132453748335223637486271951134074794856452195617432704612680894053669453793226471675495399956355841045808555466710292885734787596444006742264452985277906388646569956608037531683416032071437703867799279120814955204961291467908756000055068180975169491010675656652747277805796370038544559544791589730413288020661368234150757547114675499178108542476434275854980435044251225281937557555392332560078499918162764820732832518864662354510266154934471644494354469619576221077335611860214107602673123739465242742946233872844541735618697155721159683005404683376718350262298795899114194154411958905922140366853113064228127490208611907633387706179198058691911677596499342850581534398510443646675123216447968217613066713004762602870352277562866142998285403097494009713298715824583590405982978478636078815847327166641856653857806128489864495772849465976236485015118087623224629494374019423468728901975892605984607762264114661731262810978252364490404657924948923207552781926169039483568478229845537155386367329558660760327437862559428181084957631437512354793428162261597426987940277332316204578811313151270047407131601587510240050404084411372618315466229154811964252027235498908074610587744750091885255974395006133092636595391781595589592953696900211054954428385384226732174736583929852237288043618104177052543794550656986399558103435984495887383044816297744067250377762812382155994896086014017375609535182963825404758863381787874761015804640799595136327069139405420685057778099139509259069802052927055751319155896814767371514174325091211768962756864468156760410845166808359162132728959921636203581940311666797943665114706438151571294900603465992826854401241698979235357097051077636554779737512977936348757739531612918859125477607720271911665036483503532705952161241035999424914289348379880566676133338611146050467043045080379591257913575249997814782981507813729116507187150676764825580309406784153255931571515322232699476796601282627644491245093986068405989846242070385327624182898366609098200558712692172576080015858486773902158418975548978192016441391461279980154891412495917295687555497863844329106971850558536213347077510117609373551203389178404723909357122065317502206144059422492482330907936542042143287743968695270070356809414767949325901582847434464963648494907586620620885192468453624555752493804381751635065090379814621653802992479454571909466915406791767188940485770235761393765224759761429508332019468011802082883522937785951927448040752467135263954348522625422176658999360018985293161532887894739279649493701724529753601541795285608263389555884379511984998753821342528108373382183129995906594382236996610172635998380027045590626436040436911725037680392565259971271962778687272034771614090719215668817687627726847137958766991969119080533610014103128748552193053308830351120990366566989371951444810737603720129009969928507825238327598648251367118413620223603997745087548096996421684922308951803096470691956344256767878603735510110307933245094128579707779888215867072903450821804506375600466806381213175331724242778572827993469103511512746192611183276127596287871427973848865697519806002494734873155583848665137650559929529332275788362513292050240157753799440136974636787101319810053938381480293791587968671266687178125401912360114444719834224501872332571084170588139144855786151630787214191091606646444672439290990099304938921341785345121381933232072405893882612182517012591916702217261287911004557108592633786701156990398077408210903160134129923440549985857453199269441871093092621152685583119999753696932201886637790385430626707204962947902680569777850609273901532644332747471182355955288954124378424114867005369131857253889533213717540979643334685420391610689707645340829496160509655967670647343418856769808868436213327190035453655629880798262106914858288603022505033175286525328510831657375494125539859567046015209556907922369384975397832826463451777564314351429417088365674415610172113247899277910409583927115644421385663744921320218715815389296147617328479054137500003739303537032822071305267922314802292780808952395034271695226701811090792655346620628069229126573529168918630990048176455181702361030117730672595985654664155437676297792571428558977091547968793231349167926328792565581226160026051514360283786922357899129268248056891446117869275915655834178874762071374414339171201672401068637649971882000925721749519922657804029564794929306600591915699663380848605716420885767234278156526617683145159337297238357254215050608553003190088400737440687839206959943699525839211271162518340991927808679965968785052982075799948606838990022342880894836000072624050272514222351872669084913936658879582376954118912966088793704404046680974927969451031155984451002593911209831414901738204768969944751243152461461262638616999274127500649630933709147480019208246369946139793825341643265260881474818493870031781448166151252449199156838522312227225355426524657371928607169200855880521549165289092637855598372517835592183414010018674660277508938687628572830126451287267718672496136448698414581156884429968438988550148404170653903302808184189320056780417154190079512463511742796838061437320487225467611305696206687522239711945834276741118275576872987959877487664581846733376049330521206016657533774304687104765150984931641709838775767622216214839385752288833243075110104734666470232748262355504541717668558778322377518725539032242677006134089785221207570689501276605902533737439654342964902968405353533131944282297138018021090666304978669791609013533316710925860437364241489203393578814857738187907026976871953750343030744226889373245937815015621526962585976980477350809357282619502844971448409697029061162098374249731852419228839300560242188168818894724581434372536963414041315129258584510641358228035719133611830320730903357344010631310743629374612552373470744524694995437782866551450875800253182764852713800885746525569103206842646636572561586196743569097746714275495778709427782860760588541629441853611268395524089004475175385060727001993099915063663229525514057654116260615054323784865430158352318359759813037945611143029131119229815937911158446547104892688079560688474401407730911998775200965090969525684967311704855796082619689746543324487680506196971940908465627731426617770558083439806169942406205706297151333490388788918522687337625706425262404469937350156071167889587526073017648709426470246381439495885219365744702813128014052455489854371348787659898108173466835043707155833825084082861102330129721120476811023279995088055219089939807451436979008106550024503341373573302435247473145650459339115682135973563558639805433117737178334645353743752489536774789226839742952090600030129107808241880086553923184224149289952746700851090715958652628613463722781496274201762840975877763820812079356906056132274256986603719400424180511109533779417572951844203014593487715617128534330239742690526419700500133414511308663669912501156143833310865364540255213076651753106952722428534860518085186784195389248521692153702228751578698785122716114228310367963483039425328845210589714571359975311908307199832482716212564652184189281097108039553396254614832185281392729534025842355967945216996304690287908341354930948558440809169630839868257336265050630819275340367023680639796040236425075972690857062760919774661176286815933267701125972455329198315025778753867039521820862572653703850098899211158233595853837800801994244402672780082498064704613749608329945953376211091357625349668905483227880442954354212515840874154625226657771128957834219399837271457799245167005929011199644211185639415079953710990418969336724788539083522870369211670108233236085787811992777022352816373898005629186978025829838416505975076140775961375370608414107850437283653816890774989564982887962591748234280800399180609367309349919207628983860430900333946767922883005860550446443783801942114828040289141009449946612332217104117671854208198643954240370740288713654798221355162279895825899104311140873740859624266103468688568007117505361605856127234697549551736637397644841790032023875731392195402543687787554374044990108376417128512609981241178943981775386650802018204287444723774437566744977845793842082806024287645372324514111709327933008515435746620516301842696316449811862182064023501929425260031212839023262348471167326224628835519051270922758894382177910031276347065263157020735712571169214519973396032916308916360451897918754876233185578953473037977304959595638587955472122901435704390737212106710801069318222789094908013209828640966919701307561798952862257250659530002528533560753667301984608877096299858595414112333030610588027379570513055810407296599665423756264441665187246380502173769545849047074618296219366789296078500564986891593054340435397232078574538296499148170155722178652863766845047333057613442332363547491360110797200873249489982359049392641698939754278842115435904288922035581179118298576208049668280814109781224254746294823870446309022548925230708286838139199489318166004339285606505508355429474221395326085153184155114127652092805457210729751574732629446465821482233185768962711875889525256612681268128477386991818412090933927489490313285198000923343713083692827754592185937100286094194814695907062071287280470615117894349956010128185365304048364381373827741082193860284792290324538966471948137947159731844480467174548739487739270698681972738223311428555964430322700672994664368125559585750197921291550385669978101439790330174369232012966070288286919584788411220847856459687136087586311246255205346942202997182051987467695633181344223765878877743598957451901796006899857397032231650249233272822624203326312134083767026536626135232250938452217659445166223141674174059374480186063437013948594461836002522385116700687458076326326747372737196286466456331852281891386875329024440101186536736668670349234599039857374830959705164009354972868875345556906517384595803953059216073473411350421723558038617863439760568299548578124055698420466861060789891406745739911296908471765142367782239557432944580644851133619353726604219575486437444568931585496014968132612315148650615218211285224164709774133332513318977769283965257512897394397217781867247495784609412221576222293356608338104109730659256858075557131361591101380032958138585252633232526758669851169158016676093497271354803053954322403372007101004005212780603550235183326470022679617692687581568300794044217962773705008921152644751338063011331625880522941074293792330266786041597652326095749982583729559589421002721295257951454290202511896810743193577365401953267225150927968716392400203943433500637383192389919115734929851991120697395381745581892681146621725797220291084080786406644352229600176609909118181870051309504634805893297647522024720374647906840810275859437954422314681460789470599879594838873368144918295253774424950510825054608021807455799388045925789294640003588199867651359494339122672017317526942830827689367393380870410947698233669462242835749171736261451165609696871381579979543357962306575101267598254379782213876214247981108758810987596434977650609217745784336266672251655233920070224443516138036227656796734935604012770899138477924396829863192568612457090551970381296483441118467524397013481172609452041320271037973067054186435615008262889588020730934572344615904407305209772433676897429321222476879207757074899796556675700302339723397055522114069766449132891324843679260325816791411499522910685262862621148032022309016111513995529855572791817555098636370105847603925887661186545046157374949461997527477049191223779053313912028505142679873583412256312366841557988876442766791807624280714475236844415886691919069686990628961652411939529006269545232220520016698381213473391672572080705715172491696119179131383767884128323034971824358592675047016185470726355132607859552709341649407387054121908882739195727022116237035744217945258850818902246443470421114849628350374655402948502873685164595720278269687426601743859254537827548905675846042676015871790619619725338607073398812844755302176493625167420576873678673682144491340316475849295341126005303076258756990639473223509742241822600356044247091394704664643002129880238490909395243021472289471733705104488326489598375048996423493073936439918117977962940595512919210656962909175559448389361476731266979408936071083064121415738327643293105563831548059879222751523510679776012583740944390012302678089122533671803332538814962783355256155413283971429864984388865644413158071466200177861308757138675842922194783439559478701350189019207872392199489915552644524822767587859721820464000277549334947594399486148079025884683604152877070469581610589108583269100215605620538547700537956484646458810885701027962122606807255621412642509572778978616998894496699181657476993424630193919008396268325713018828971936925902982807050610337343148903752106554286661536775836344809139831334920853456515003111303073736088054141950417452533513558079823655972928531665945798131780436894680638806090589990742133123958958675669369084629164789550239232396964703662886793426893916025445964740264291374423889710784332955560917638651351018609184732810126053789335074229220369120214940782697306260644593409073204577552358622122249718721379734036427781346696935857965241896171146444025546627951996803992299691738443706724747856011238289219876173577868614004760539053649024934466271648064234602134890696191162379826268535291967162897114510332461969571149657226516602681140677017049837664117762849917956086035703081362732485000954973385285409244771740909987521192060273928940330063175547804521892970628656660349413294581529682016618163207289018644524545987333865620601580221782553676749580227498464173012170139333468652756517704606354813686981183539447501330977967071622092340008783978150741545936513948014639102451802595487700027794951848380482714747865497911607648781376996923542089140124407961043820718447677008716724756236786537539179683383228972182130977357615011987653687520331457373340946232376025399648954146254841861673621538988404960562039879706256970863288268533043119274157719312632838888397879392933358046999847048527169631408542118441282989329415776705540209956582673212606815611032104134107223631189620399864695642323969775830830644427213614761877952494527103530801498024540290679431677464655515866433477937709054681566196403955308576255346585034921025342562488864650236899462736862982292818053399264583201300480032030065708520162072229881417238276405184554574337700717052194447267262884858167534097935274657013206440869605740531233438396459321066143353587610271230639206796133296460155174886464464765436824158985550760757553478083705042716209748009442885629060248854543885741272737299345672447523884061595529493253556358323545755299191970662791862618863362188243904515628369811975650674904585453388955649341131895105926799395892548969450451825854449595969916417122486447543554628333389684322831605086116577365149194154785261119354322249252047293887102298145680373818244338327209675797324753431997675752808297191995907015283052625888132055346951241393185996093388834823138192563523100756077259838806343263861329072770183879975296550564502283671047211811832513892999020998267843104496700877962993337411493142098808431853340595238497138114588018110611160583393643747852292622335065304820666132463962788298156430718128136464988415882192932290515319495199090343716025724564568235232784801599684437245926759094180417716553523048610075092703934539978532992618442483127160298828538351243937262619353936670970850890406933577693670654024872474191091132081893257123498564811793640532448352857286727243093422699806759823417059135351189328345442084084280965132338064913011397005896222986756586136810946569785846948473435878213774861093269013496787091739552996239205492036737073176020219869874221854923790735274760080617242872269139135071677572856839776163985173055614763754696246667485791261073648029475893441057115326579557658200722975478283466277918599802721440299777275032266230326231782867313534742689475406337929492227423877780389203776539403702306426681481957412994771492408103576071088864806346900833406281962534094865900890369455938237081864380326981959619737460099618159132470366365272773165007949867351606577922776787907019765807641721206870950114081986503377793805538576823464154255160504090597076492751674219753124715379411318123023166331952678121277453339067787318619222096206163527099703910146807601325624380383023280472849965865439959795325072861072884542020025918251103966668105378735681396949018654084276721547154496219004284821644256221718032966007432975564632084492928033090653328726740103734962372604253718608981027406475183678787060236473231890841876041319855213559170888193946263983276165214324907257376508596112270453209579390695301460139952342304139378199192966072618502512595931958472440780358780231200209102758974181166140173288244695824271547095435746896438244912846056738207629007713830818707193968700894458158273481497551164096553331285466727453681471113822122760632860209027602432461516164625307272251754331881722294493284781559455319314660352449767195829155660615229324242262156368150353099722491223721603282004537808908728799026671938290164756744394760545048313362942643875755274486417615188075324837258606088376988924586870894867328248924567151720120947246430430731824002775374827077822622793522983747662779620727888797148107162722327496513651624642870463677793507099507272716799539368993779633396035375254015221512610958553596266743585744690305635441560602075119885813756382111078959755007281979320041506386569946115625383468883134243149342502519726994548341277740799130379354985313948170596238924567158104707467139155458587397659051709020610936151289442000213494438175525730527177522763473980839851256636266459855931238070407057195885301594575928186695218117692954464814345842779863280226333765470799607023663268416202261801874755736142978213620683098018083956657296876978431346496959137623006527837023208782595028662957994410477558655047661596461260492905139180718033127348425612604014132700968242434881031368949649637067544207613649194539153842012838304193698534150235948770600190707627094452392028898650788101847443875195142173252626294913717617498863948228094454102251082006035752761415089821423243706157840871775549922024565627928402015673515992198374610010335338984716954192203748764035369308212102606205181235001485954012285190224578112625863730774617917532788507008157685484266664645578412417181763629197244993407065548633991796261610566886566753866330768592788094661779671978423932532906232964641031500280671757463535711489936365772616136460754136623376721578038729703638095095213452030268989054959905949085063895890472416843286801845454209294651446331489300537324847813540270550677886556972256985530168939604181133791483794645674873583636244083069062392123695933699289657996524618330823494216894044921532089306721530166228992022551946787708050200016266437939354454914680953679622937047082665933418660015386224195363847820279916159846914471781987483070750320830495638641485393301975100119960901222190505961621152318255857761491164419819327490425974022456394073768658238261029346846523447048128846722811539443874739672581613870533561758880113480876276710321914525398601026096966052949714283920022409799932544878878781543399845316730946507204996187481348488986966624828325823154101195592417015287439497442755881827406527899188148224691146584525611092567700221944614685949139356043813383498695911009428825903239897808501927403551004704204799160272179723088072366811981894032875103473986508885977128693713390932120708008683260440449550195981798584797198017058972148863847497304815871999051436315476116668402180148871670544072179288172723258493475277300105157436835238555726670887012218965427274941917198385375862073778177635009328657326531242726375896406124454352657769132443308665108603709456008861134720117584430579498455461639595122206132498884528017595256911951094447557567198756518783206609536109403456633429262426934813943845334369469391484883809078356734027204221414946486789957749528643392525018067912625840304033449745637081313366388202660104625033400447879251092331386213909823197367147682828602446382947346999799252055767478446988144579648815399093868941608653528040508057089284162096859904924230963964532859529308388062980398913204365732610374983286925971096610384430736194615360939710595633381502747518307272645904703112016541041910210039418944301291925350315353274495538966302361290520716809156162829386414939974778030661715927766675947274874761869371232739666768677979470266626342628388882845734470408211563351798088647308329623990198167244280388984995825797811694150975093168869630808582411760135201152080946787598583995950576537579506997024141775536189679136724060949833010788907912518537515708935557143455757907774519619512928901550066960298865246054222202171439287033598444695481183954368465419016221513457048252230298744198072803152064607599563105319885506602692111264537767154309833217653084189723905424903241550212332908243252926389014311749879492895880909091757100828127900887744881205252499645859683175813649191546083104334837618045309927359547260827696269494045593276874802781615575374214293018282868524563605197277700314221177050641554288011557686770955991094068054869889904835615337992045718346811324654557917409047286737502859621919335794389616074765427969749197782456191647690681658850418076004951650276867057501134452959687525492056145247134450519785393512042748830215661169176483108069575352374713866242548600735884503833873326089380709075593107263377127356202912306470935833075887682408634268692246408982722927444966644710616943625507305872239303306332942047656960706106984734868277881212074201387707528109447850592063595816437065242039034921217569528366982852789218573827061526501841748889709177670465287026466278810618377223795785146346090847984004838116712262546194191671377631605821720141645506993493466034980342233950270950550856586050185778042174441489094589748963270288819812228035308900694308801467058328876300557264773031904847672636785420811846606164352808768671690465842855090546970258783714834986943031679242941219861662579333325764318600713117364882944495441242843887836441078959606492689716671931267493003498922236637577687667385817528564413593697060165363313635110994126525495947099825999904502671043503373906861045960765758584480651204213732173791036085473714413947462973565540352974576743349364133637683606387575196731292683142269012500237386117769615869683270778206729788935517852004585589033061786027274641913479661985403970275869206389850026600144530877758487184065895159629711186812454586409657179670629980354547612126913387105754464679802410899401241115532898030202493070164592380664623065597285027887026752908584065135006315265941488792414236074245403348940763467579119999846125750504750017801444032402826440542043570606564163226148862794530876414385362541321069371090590880497413810453212791446312136235564246243654784805546095868507384648274391241001514235415147406249486025859750394620959149342078868362361190178518151571945084628621576246493280811247283775668183604831058511716853857345507025785180247004809289387599111476207322524411656167524966102646718829604732733698603553275896239869703435737883244056534076106276659466705393223706488329358389850227098603674036909214832746493964928495390084541734349388651418911805916799596452708364155771081297253386522111062667094857145588832914201938246571467711584669518737018670614756813466746255214104514508565785270856936377361314709893713915010557619349986215780219803650981211625471378076444035430852223510037318725420389691908615347338132062502593683048899148856449197131198443360740144816600924106374134705431979207343978321643145953060416208877425983168119695367247074914842340334713805879994345242270824128987719211378366577557093010815295588784186159674134788491361496848477045465817125288718366494356587220469045832765697549252427247071059876907763201051701418232939454574762820374424969832017793554123327858813448117991827201398493187530452466049098206661500035200632828802375707822512341398416763867751004961825761964982487801483705760331056048837846273555619967449882563303011334481997704791624774813560877890420394259224778327365260058071003734805566647967753540503403810130618896092816272854020518822299971181491165806597132531468728245066043086743847147338646040551228676134057426585789059891539357605863233450087268440897271109675257219056989757905163256891587177270759772828969019884618694993935880491381088291656399968739877913610850084964367191322561345592978021183917668599314737594832688841073991392786877527040345167081210644624786099182060073547115828655567387018483354441626339302839268841937754406259225373024233426320962455480641548355884843796498193955156090936154390039321839218257726224732663486011882476443483242526298042918991714287426787488608551778110923299655968811705014483831694555133434508928209756542141221038933050894204277542622430437424943701942605199305575871760955604320939068619046097598302071129012586488040305001698233035122828584820900923828323908243887781583627113951211845684695804222636342097976512341613492110706628636535372070980970371936327343233098105099392599689748660404992225477971379388795956757209632635109165600326435855097399367617589034710632163699641311943666436514659923916606894348476541345021998593396332439078205805061837410287342495492624580504405638489427967945924437953323922646005499095649979341797639505634259394833776210637668397953224202193331000716948264333669104991421809144143837738039583021411636480809262832303711727060824619652080576642805773344277417878398335719782632272075007364550157350236581308044253700616997090210756384911857484371985794138756667236478595436476269776691627918674671661297656382456621678777225700548012939252370818512817744370071799792539920592618626973743519263456127307094983677056961451502720840458353098612121331165471729894281861870546753139531776679806006196178409292005449730112502601049963544892592993193994497336652771423158270233956962680475439848249864123399362089898397870703631581686943788970085432629381593881031657975058108872705862840265474386337688314897204331609278606539381852870424280546877838261188511811280956802132569037293638099996545497429470037541182609831965659530970464481523870140315274674661422946620501711879527904277689147102509010899624115011518126172300089613138499008317836228225237167281326123861934234437529277388909166671610759130009582737798145139615952504778731721357750774984270924872296025002551927682938307227191110953317481612935013703389714238009389116340385744174752996948325116858181906883269928130213848478378023681491846058674542494283079216082185769733224368337905574853499011164395362153548201808663041593682001654914525181059053351897010025336478762507129501283795462285734124276615613586353313171069614289581427706643955520118380657751196886158622590212257085253351046769807047517016393416516066795340845825874086491383763567559038651848291972104486226404607236478971593642181106962837020088272517402406074519027942215784388000682315980397815215258743557186717594272900505561724740154487090285353300459757751644743929180789639988705665671304168554624946928389753663879880186981754079835034771466465963275497416262974492478981855672027157261563218599689158529780347084638056332940268046177559401666040440440873102276264700659773125420742519161488442355763773301507789871703558867630090973403207858109646238278433965646357966746696579955883458900376145219343438046069238358699657720431318472129334592399465304169223040962117126779162509693002916698310653291779003675095837311377643435490289272324425824289842340914339380308589224998153652148731867312730877163544988391574472609883190554782121546615192841240018978697862822814968766969046082669896760488477156707154193259418012899325495974383844539510799574778410432785374624083342262560109875160173358881686064484835426407716920051941159745543683759124979435443055900412943009394566702315917389471082522469052530848201493386511961794972493454199652082984264644902991715153737079456181791738585759092995610470077057519431669112212082909647110028032858568229435738163099496188610133401965057246276986721121978285791130807957619564518953549973792493323523712519910131598979177808546009189620038761054488816352046891294750331912826429754917109696060873867365764925102099819057558427698933212082384640318633759785024126611792531935414943015089489641430940672597101499456134600614126666942001320697052584508637945152598043577096452632299585456604012737099782741095378120364801472058498692669787289250418659660815284303001858164761842395240530370036300149692992435416708980090572655771962592258101155753575560836078275896990165370556389291474266952294272550102748792425088567059205495455192483868322018640301627181489577919145540459395853840502969097859883149597750668869009286085602983127555502558968418954936863984104390378710828987317317580467081995691620181320616199023840737849530042372785830519516792932985339176539667520673955056434986661929471119827721976003749407879981813369388000451713523400356684562784300974489929603792111284406918091899856984715898003269833854944815730128221479050627956000476894596201893157967169175726594402292353530424268952267848452396561900681547152770229456888853275585473820235976327361328609843488831027568400003410231617834214885370676995206859283133990077501141269266391379007215524912851847348438144803411978579649375106575768349522574482144416605336941382034348957763790853236355937542303725409325386652131077266870193190366722165659368117953350527243401148707511978416506098122884035019090990367857782396273516726102279689876756604602767643917023030636487512354932913543647493281219029444976111880128964310606911135008451236587641999801021196103249530413094092362088301883168951800332542098208729829935355334351899543952107987093924657837982162092412750285710287141121032338585591596564976376085598240780467478864925164213875481341010011552626977639188664327391892530403697173984503100247362535036373484557388789144858399337034456515068641206389975872554938515711871137061739386375222105038159952887624755765539145870716790909228248406082337916985620653129275442881702190318076799763381197569097090318580278735914750980146099698953227482720773261431631929320582867303566125204066946752401432218871857326059889036109747045631901867766512500716055040131088012984570702633260142597196246214099701447326927313079568824773109031904513822190465864860775939579399040721174432145949424392063198261197272787482683446439594883066789258850734031549301770217095167632473061500060941348921959094366245903520503616489474398394351670747459269289418716123142816774748671941009834786622407420615771752189437978382505514810347894972455981007093317362194384241927191210724282384194033836453678331240011350448740100672167120645712770712581443787297061429397612452580749718600695249125331244566996000952343248294621426512186126392835995781799782351545925377056517138884389729829807853307416026331040389766638685308046560932138246349033694884443280894297966931932209771355880551334893254511999101742879204629379803802928467755117400504202824371213245285738780499059907305990298223690907842743958719257318194774367828823167516482074519442545904857499645969733669382963544983709679562013033536705438131276320021696920830251787360030284640211086290587016240403879555615813008927457459962272528994323818018355743498265490303690964250895928730200543364144402627786842726929901196622620520222676649495203076949478313512869993965902224441979158115783121717355776328884591946670022822242739366312112971369225038708517582573270003968397469486547685666205912472291253354864536140732676130846289763935176833440405223295291453711053023084887689392865422297498459762851125072811165577171160681069905263522540038165190160589830617079044093289488212693986074703479184422964357614076328516511009323598688216182308000730459861573778417014111673318201121757758343568147579708889596834591700636250206181904413934357923233396801012805420065602840010558015023826251058267357363273330560995189954730062728406560903771201992435284885150480251143293330763484444222876805475374022531771647687400198425928088410999370331494946610120656442706996353536353249441701099201844909578192382697767237846895118433477750070629396348767296733580082031373867301105898619341895518280660096363829293981568445563744483072994390776028813329090166217423041214638117058737117776221502513124782237604166323093103637044267864236183807700776797999646355882421342042607900695062581253289687822829129422025370608362854204771464124610335568014365479270160291585730659075971091682402588422901663342205449764615036578658797216905893839264312505517643363827384721053443251814878951470832429949189750634273930715331082756616025014033094317448921827988403966318169093233696579133797881276062139126062285780620854394183096393576116058310977035989166673927091689755144929988908111679767980270018795201123113336997582215155066587368189954948733091578280940272915322747959690737449498836480598711111899933639628239172305250395477214055034274318532191026095330357155881245268658147597430633178454642026436735662426020328893401148106660274124771359038424293838033949142752404643292373210972999339203551115738313326826927864794715015122839572137988614729056970348048510551574754274611179113042804086083057513275466754587156191833501299377773390311565200563915369122415515736158804026758194120352795761615181504906271472712001716598153459733619959645615054408184337482910874259233445092921943531554447032643335006621072758499591314107370595797635017761362292742929459826099774885602173854222472618018896932187704625188919963998538457851386504914156028025801218633416776777527640530696881007868152014679046022273657649503520289422243734607005293950942694993351166646086281925952931958924772078102520500389683289135336908857266865757887272326214471711513606038419497302230246427653958381821543308054993253024172352690227002580392562059587696376104432343087209572544509674781277861079390310338208922555819826147163139995107921356117175156502584849403190232042012169957171173095155885873642112972038661237741636711625196159431316039737638913479712999107381826180766846396047144866919394601381700892719798779461077585462214614758164457336856017316755294972603940284787174375579032997149009377605489406878327224027516891152350822641650684308537317632529434368660786756175810046803292919172185162575274394046278803359904236350159019652887061731890812526351511104661792725823773959187046867639927760863222255108555977397830260078492148747027055509967943906517415258396699188652296710303349308102297126012736775958785932578354474575622798335620045217569581441161190084903600959643550329350326469407923015799943092172430266876194881866644693615299924345783349850794954405390417754583532305416654703834410292624033678389346446086050944271932855273858452848809573340927699770449431918351272219860928034213851994339939419264467810685485720019473301991265087186858585537632212454764002223698969515884659817952928873377290294067626674482655473865607452990103016644644212177455782468416369028033915516990861142534629506306886190861063571616879471446950070561290834383506737567413126697673919172201290862349946212561063094795598114326879726685865347786016906000859249556244349987768752432865893446355097938722780337786387270125716559789815973396277647735470346641057856207330654311315868624935714752647803706869711060884366013950247603785395574038471823889795842435668763869196120385853384972087924445646883975338326986093625109471500282495670233668289554209754768572592612316478101392852216434950047404694897680269361048857408396053402047496150362730931683514028272825801419448621132066629173421571083896839641634791749828525130263330269206209823184678675960288640518362002726417644366766482526166335011856486255221191004368031733946940364197409321145249617019840520330286753672231203487690554629102010563161511048505013286812975284582368373761373497321312496717519764188071883945912018588787409262165840242297887395669426442995036746419572026853049533512140404207300776787210322607231070931101403256324249127883570664320104539858898895271804432184602912228410088625489527159175365427798678481413356679314742429453730034456970213814242877671270975032591363858717974097978615905487613959630159524266922286967218599687462871668775526364396044176443273703048933947404006371279198497573114625606485162151967978309821487162686233722120683291459826943740176159566756021070539316281764741964927030186261652722828828300088451657693321811654230549200916532685030531287766081491717180766982617623191469593983980773162480484957572296074595533116078848265112648856419179480187428714192469552466878345814499264517508309162597743792223252251295421920516849664568155684471413858561035835074478289759041866354666903918461166682215289025572206539048081329889534565853488699850641404804831601676004839105480677408910328748351111344381806798772069941312287196921602378126985612204840220173908707787523730281067374765190042017313929014178253097476769704142473552494906795896005371418503075842260628394683338879626420208576642392045467131046778462097617735955728333223682398770483866196219196490611495405816713589945818095462563517015212287986237210385021592303681857691206060818546442575133464041330266830329112318933913996066078051313928541823059209933461150610005393191588021794352284406571665730817598730142029758821918683582967029764481655839676347780823245504785904771966892316978900323005968046220691039251650017540860269150900918877084298397595686413950631305034674553066975141513766591220455565549909172697479858488585196637147164979596392885398219073949267852761147162970204694048759344841391541851337679274414832301060889569819653794795482557780701924103472542710813617975846671280183192802072326507275172115897618131973020788197441880206438551768406220517733825362133280442208655998876162088171688974488500755676165538705720555067849844610055746307796585791918175196728186414941769110639046032007436227599717511281952343143473803656854035454349925138271290207172446672832085051333182470370016998842166887719133976518793479534214421360098895328882822429778411785769101051484464875100760700711932701693970967557481104433118548187689594542717108483717677873219847720061146365142841625522419568437605123423509942751048779203154597688727738274129284776187118405358012094609871361774621574930137765958687192585610664909455874559061723680412633045873963554569873783052400232069244208647769689464796028338463204583583235316164458088569212595300885602059949196787838160167780826285470621348230166533124359574414664338849903995579192452941829577976793649029022267264909693161151488297922086574058908031153332794264410602225639269176704791672227726903191286078444029190434943335729668009475406255967133924720274293508255372721060545339932925643969253928400961010289998872085947847963605739876814717090431579559318733421138154328851324002583373473093492346188036199872926730164683869818419323173707787072015055472536077719975587386544990619069960045068987282598683843285248271763256747898733936191935443572462396784139692586763335390586234590513706740622510444699726909551012977044525201551660217487156458995013879534137869430292400375730688130466596047394652737771320492054202850484423562343613469087527586540940981366322536833432235379898483880763442916562729848989518142785643232477100182808608941468709512160542371846334923511637048213815809057853791932520689876032690500411006158169622444661349464361413809412062076033200191038980410014099120884702411568929950839547081219244161910815485924281467453947698921952487269911280782793702498198500103112200562500965224972114486733037141408846119784309079415404268960820468362539727570732418321555814512578736626464410817670372894327352155581777281799962457150968628726161267598048864013400034797461153060890905316001904219629002979946137579265020045116720677912090878951741551045060458516963988240720262864892975266183103099010850634919527850150788416495151436678757285662018976583285489444596526587463606617574811282879722206361153925232774047697041965126084626603479954464987599177242543178963063090886025077823215104702887334088562518765971782266020245349919632819550616060436514660921033062264801369013418777563121832570509751052030006921652193792643087662778850794238910933593779407831446758666394342725271533914132327228777713572290674083511351522245537081027103002793583693478582263651726361522286424500594762728953525473060838943200988229647138923441741805795807718202829276612673223117249909844672974825146261608926839686927775896488004606456169815432439034640007599352218876446634522466811747131910043205512961543943497194668713356724223213708401438496396295085485867679755547494217674848393731573114881137225870085955913799936922566295195795648515781496169851813277004298936992350918032355380283699635050788074822241062777842945065850611798976179171971151780933713125014702828523256202313468367181005336032025149892231971778749508017313510582356098925497001200605886310010756020333413652741346743313579640674658750669317617331220500524323303018409535430585686744654310239515307544525029421631948631612666484271451160228615851191903486771253070451895502545195290886241053043767216109203054494206006218665493270698836774894906093480832987463952602426953010331670991316052320512258571666099662905959804610344688896054735692657249695821710231153516131718945970314484815029549083406697083923146800053094952605581275337893357849163920134936718137338637840740748134140559920493094997523337887370891474474350311229372578824278022574016717631194497884800301707341555108845417959691303169618112483217503780277824717456139695755038872896611399660766194236275880548692305524214695573849189555158272954243984710735674647453085980989542627049408597752740224467959472535359779358260032941383675460816091668781428033819098940866135699083949367897160170569339918227454022685479475446473053385031538743920471835586234791168011902709312467645639391129872971543478196607876052679795743907673402034775020506977370627657459713504167494586342089473230747511836043922884396949294166086105378942512863064948994065081296659046519766294162081008212434980449288828968716446137247103419805761600962720077132723830795543771687790743348943110870979479074160150941742683038976324317302604128206758601651202467335228740769762034969737736088007524654921660064518171516403826242110067803165422692957188531091112491693488379192637614845643302765768768907327487493692955502294420589768727122325710739598142950495626527858871756615828398212294932278054687274946797698725062147264283616819709308108924292783483051879153420768266467613029588797298839145922767395008747347317961998714874368585703725504636639572780973693617564896549508473873867454092261320084221519182202146430284159028707314884808126067167561341164851802049086122144469310530803729044296828358608417068806135358392262561093536964257031571123428438441941026809981444700073814234670018999382453978580175570952405861868276483670789848689199082905937774966351380586737672830763084780515005747037880945258995444453963773956638208935015110096333882373143003923401016468219368833379364655215855429735296584760254762595458400438666496519790026880154613795849284095920932831062844863300536923742567368975372244546969556282856628343465183062310317031574445669125390640501364976764422158081410713689641737915347827231675993880742280098520322697850848504675546094682046022893087484114541501196144519972605037822262207822922551713610320070029869510104833328073979248807468189771783552623527759192585219095291626653337717268656694988090401262026953023422119109718351142331819531910691892907526281306179979716521976660318521479257672091954953802686052697305129280756733517056920795548332392603188706260662394795482752939155402013990256681865035210550735698363766035003259143687126139797807045821947175068506169586640559972512856220100139450026259645441830434505057310341421909924490794958585801459005454514620850745108652111832170795075793578978284497690403518682517030464943631684009231347525695991580268687557254111282319746868035978433590727123502338046295812127124188819751385584778204739033422439296510809383756652667903932306740026420642076060383166708696812500346227270793061274594734668348147988123282689749325946167798657276624291465562210771916955538762730381004559023345155771204927259600872785145480805640851760532427838586811845598389661956694850541243242504622661057980946594201135369069190729845262458454140843738067801527923779806105100794446051437271808957686259979542506919330700365463313154778982515233796633932885447946802451267823722588521866902799886226946578293487685480689639419907849846623545485585344256007528758045809736524796589372328399932224831620425340066600458543063855420940817523618602870215832051283987066471800327817675129281227669041542900745396190705855072143958260542707266562091349924831277868531506061102815225562433798095768556830962287772829723559838599617193770395628466878920674795363363074378270247901838187907053184016791498623664619219365043674364232649778329972892604035522078222566324675409329217606220700210552544613375988312645977840579754559606771408335744792401848327787231665208961264040008814528564853346680201149466982684596541648578776487329753660679489740715743489988560799379741471156917194597881255631936059668909083948643078428306898369805144752428612115046533161236225221243388622032628697655440269166934716416625478996606960194164152754220474763886831180642135038752069552796051754001922030777538127391016977444717295957615262095953475974587470625507208278935829223457323503425726860534064082836998472143847342236154283218984494252789724735555409879868217174523247350735582498922049164636219609361246573716554985286845793729704505240346570426170316483794858758823751915508659587238300436646405579578277359450215560648343476383248052981144538520794488971238219144843934748611724367804427802088982697957613069358821705281064689331336572263712591589916122525295646093159696844527488522418329479136040111782069864360264186070103405417664930913581385482340649775782520163782089394124068679109340201884025209561025741218997145456651634349258953360305301063936396596284191034712449290074405957454703850800326659315320696643640251085849613549426913044571159329239499735124360674133262570446241894985464746794590762916374268346358086553177972684180868232061036112950460144722629174406562385308652889186069522777109641572544329377187584127260579028632012268807956538852997280139012748458935545119403360054058857194520742226627781619996791657964884149981946516154844993827499791622885678432026823495878603512141515057140618736647096341499009819115609773424345621458838024937941925333555872615930431323294668189653165710068911602018256101736244877148632625364681783109231386112493272690855106311815504159103435409363660569003383815426854653106052001505554838422558191551515221755327805573424510997291237700376257434568998017000989806272739911100418074673926352069988951090950550462330494883400849380048353068394890173297548349596621717332495427674014344441990952883317832614834317632950928555823152567104649814889053890718087146737208444149769891978946668910054377022837455400813583462910916081406875722808099590707587063149778774584452401898113066238764074903876341696932291190432163165814014942686015377610771908027611330748923716068797176504383495126761718107023275485020053355209657223043284714109029060774401309465422966454816720955915042314778861615364259929158739921315816098205324941611540042494128039515924718831853393400905184696757659455357701873559066785957575487806977404750242804330009950199508440538606516382091983274006055634320232785639880082449885789056453666231211886915216492511846061881405665284732441409597860862776777066510231147939719060864361659415507491856676792607641068218535500291840903052961165120064003296898529157432213207221762078390334174696148877833073388433106143131984042482523199516330196200255833598361414279450456729343617673890091208138104044622102251157194061911643295211326991482012071837809781067233611759354385904506440229110514522267855661271101040904434963994539457656493241619707670218930814988990583397433021564202245195667743823799212526037325469391413664003375267118608375136066776126694460010860727503364553256111899550263279376249178110416184137387329922505531556815983451894284170984327324001850798034646536087828037609093210416373289435912453923306945473630939067098536709091416296055227084363105930816750111866454670975725517651117475301924409134462777857441102977438282862755214379040067048929918818074291859209506342989362660299199679486201164017011429945373489190299476103792076721219882171497136998574271368965967910773486362889794205610238906975436486734103470657931566974570294167457397314489949903586213392287152975467666243767514842927118427632743272142035056378654531068885349503976456151001196915601277237729572635398313292608021353963091618629110675681928186778656529692761884985258081722154322403465747996753888502117911054577973839103471095135982410388225114544449264533115074424450183247085868576271988064742695634008709144842444562350003774512772222564137732470300888321225090404163482256530982410518414915048345297453574250840097348636758878339196640688945528554569368034016142669332872248511948000898128112036467551594254826819092966025607409673720285499490323834095330888995722676884767954898157440150080326421423285278394573498597010147074504635915121661520096349175967300513322822056631627113481428301138784642362285859453278849611055402928302321205217732977032652512466029485048869654076403753675739373428509248222713174281841538461818700494396120173111223246408310684160258401118127183882936233196138811736766770254639558749544557805073863613866945537842489357236876289048163927764340201970534718465507587193103866693046066416198563894466271524128096944614798329177019988371225590720387648212226420596119319651193029647360815821589881832666641706474100643347853494038212585721079710470556424664075729435586430682269665570886159158773748359029203501612554808790531684786062622332162076047472937591671756239154729053709305626951788487348044909382407786624756517777314850769702855630375793250362414125104288740777784097626813096178392252689664753513140234038822095190975938661619142423944946004829459690085253978436954206671330939924305291545946142863967990973934187867377532692182560140222699783928997434607512221145287084361350969048365626316401302996740599850746770773479974671351535186161432667981711663673499042121389241521148240630963947647333430115723895678471143404719275796404909701651387501170483272477414688844643497782624021130863059654615285166347427824147626282414258668736354590945999346462828019099066666192573422972194661118878106991236638667500684122408139404945484630820401069057847197012838803623309591245809565061202191517807752277250623767547873927886531879539907028826547602213709741628583589805572541876949468372190531129764514781872304990769662887622062857312073044977348141512939279156955098759945614243696687868275246678511437719984780631810530006935418041920688437646459004333316040917780030236526700310265455940543512233488320373855321292155787539702018344411196286041580130577200830741408779328838281701833977384935545717948978626634947225306549167916933854806994489939575022505832023317965111819234353637755983548948495061670279642580510503684637991886943939608070147258478566613591878428722154320302804976547682225895766388083935770756665956680739871710389187848058884698068917116930029349973531371484640979740412526247057306108011822173619858036952191210486944648328020065612623518362776525430333504016675815190085037495540837724597803285208048423499325004201845960783035861776259477377299720910002117302161413346718084577446889740362191745780545337098283878311806270171134922259157332376925855335041911384660953160094102892647040447294942268355045096609976803901632274091241538792989010391324869519186199454104175564207472508365349105553623221825348687593305246428433679828340773560396086050318227148350685633322689098479068636477107687085138084907139493491490670977224640604236079904730809460325478933675062504631793629964196350124833627239382404468910706108228128823651447601672951226934724835829064291534546267540084430424519438937381482145981181821414907962844141796073572057134715217538627403743315911574754621416245404798113490679639512753993984259303888852799195947300763425319235788627112497613661327532486361160159416099504305378120441844431581918539351977972411366909732146432253671512271681346533165627478133666987493370319651320533328047451114795972132609302071917606673352034341195798386887119208186303183732459890970099931615741607960808524485832619783776101771920570644046700226673254833281357104371014525570160370502665052404961567878994670065503496706095083442389400796261269427882097646477509367336476427939101159788029764019949199309640600248554205258303662130336493186763290618648072745945576745278524538810331155210173136109711807136259697650477377272487585128261516134646247379025165274446923328609810886576907870864092351059052712617919063014265640148857045076922905317510498708529434095902560007817666858975061032355275710724739929632263951443730091145785995291102063211774848458677903755463136743677034574134848736432243691772339004187183195264619047272939987007334007468957478520867490115074062541049456530906121288995205516390520037921410252742628862653419792009901238170907525129521038121304521395203101727409039733323425920242777980862528018902649667912631571031135213565862963762279901551186951520948868206033021422845581124153289842431717592675968281588945200713356214027433512697715045353170058367345940614547258321655002568137482342853004790805209645564805119380276901963960304396289565982884297303253765526597122566425301684458127833133574808511774931980927334391880263281097093551697281617458737349043625081931770987744648260512185574862110486640598707425609803177792744671792469782347081618132700855100526320732082830715939818540953261970827256858800172297207811448888374566027443302106214748413745307602475078744684559105372426175873242059980175252473485040709254379391554325062368844895269472041560272796930099278924821537409863977847336950574793734224581208932357441780583026009504218485019844498503842293626722122675627212360345572838885735143204583898284430606334313288308295351463320941910926232096970712192472743043314947150848620290630141085266128990869782549290354912637653599202007071806782318791701600317886629721732844101107346589122000569530912917977354625405264438174144195626642203085437040705209123184527520166790971848646244757741020192113787610001666917645539022524369191205457105979275603490439329213028047910297867552593241998044486854552123160845811492216382829700329281912882989613850599716631680422663937314761731505265724209416741943101695870319504483652022619905798856525928437321337355294877571554124281716405283901277779800790880832227751646016896115093768032822195695095154416397596662724333923443116119982281601980309905556894649701840942716737121722039552311168675631093504414664559740047524126280768723980480115818733030248772669883314086299676518416026652084842643047378248037677947266475646832233939547879897270101055181263364597647377876909539173528938884936736631396522699271581568758049711323761303006748538043989329491460560944665191504867892387072858369087015518409830341824205003467751392982811834234946533194770924333155144314325153152847854971912755535135415958871155710229198001996216120432545637890064784062368664797684595318402202478488937621703705284483129885513992888572386778791175423862874260214562956888595877020226779323584588931096331266719731672764699248611308479834768465014153232250974644388308590257802711941650286159028669209981060978626641693308938178933408207411279879700984291840147862028155272919633268465520541326824669290656107716839260390469081380496366056624758017228666094099733443236702394622172530088239580163481938406891872088251447991795855393070759131608399237494058787105435525211240985021906564859589727558152195377046725163403647227020307545050399923876459621691721787623423148765304707923323746182094006640393644245277147060594914075101734450451104021853815088813397302366965238176257364208284028899306916809612584636809216836006035350052919357660705616189886882643597231691383124565844287552471508764624016214155898715903712258318371144645375966437150874017300877397195345190714479361263635941056803525623402191763604182341876750920683117684006121360669039629079425993267081857660363098312203446604859184175808707234214044760938014248524450519631511603174012385220389925613655520949228532328157445778256722979847396317481563748770665421049756265197588454849034075585943533716183719619877216788822207794475837100620400322455498614058345251452594000509792308945464217125228002252826730005285064382364606189151072402293641686799710031833489390094551456370932923308215035387832157356614664986409950909140954269519331193495234433092635715470943655836681529237354129108260445242217823597277730173999704865902130928438965899045730543555457417966533167493787615474587524822153388672865487525345126224059314853089275464431965775385235957581301033447299496355172966436369981505177833325121496787947877447756472683264883827934451217314698462302433833736118123988549517947124658570789457184454150473296226627608781858985989804342828000373295121482875910253071676098782691128507237377990933420478392356745170968790609143601168348003309950836276520680224524850201034162854468801881675396840209987499593760975752488185689837811328520044595621001659349297922315777095889686619402797718487242902459378565353647032057877078346754466126586918259532580535929710239823230005232384438069959609813976140432899644252614639607564419239578779152948912715830365603671537950183457489774518783542136631371268677858436365102159428751054927303963286518980396569059350401239409644588686617668509277464822531278029862141996620987029723647847846933668548147080735251930798857564614958543798368569832495958098021672624533115889124052249987291565093578274895876511294062179317037618017499591989672630386080414364964034411185975924237363008653979977300560960004554173455395255803318568077575882556064924226639111776849084865720814031502530983158680907731254686176143300305239211041299811706555566517257513541478131043185155101714668065591768014197620831698193991896582140144232566260618735330667501331042975589277734615369334487959269173263130803983243510597888719552614257089254322342443759137931669215685649292152648773372682513287386611730210450624937096010615133493777034155984070794796489666833398268336733830505919735572168942355785617755084674122748728358977923179610857904436119116792771090386301465240934381765742916606852563379855525459212760675334169138483264409891412796026264179489304408852630634805090272233253952111239221207334440896634017251729693191073482472100852028075780652220766281864668946584852104371352993796465014627674832713718641928788613249467590562486016807809316197070346302915949770565607947773488265890202302840751914034621558258473932903578327563485753130549483318134297167103444934287747122188288903334777953795122763215445119943620604437581139365426882933850091361869161255275248826888575417495564511495957740055192037732348694417364570984505624850312313183392306255538049174739966585697175421551595667698521987885542624543686520622831846364150509905052312526813205189766837909816669950148904106999876398911970532491243280042006199679581516834126011770088565041018322271409993000745917094724109462625521611915904002607505315634071623643499731945941249949265298462082144117093846271394843265626339014919310145880394852351615615222072815484749674942918379768517721032817952949133626058229649317479804602618350744839039253486324490728443454276295748518221301271063896476048249255295427127561119285435737221805647984715073676279204003703348222729845250500882171848621351654079165527893019215065963843745247496643278648755293795628795416933483985253746380067355847102501674635493861940499916387087757929750471379064945616174356995382883693160024572039488654474038281816058588011010291335072600057768917780849843817051806281680516797002966340497636318791029397093319453954161759268414678120664509390404669990873655165832558455489347721725441701041699454707048906925698217717385722281207604160276175878142999133391568332773967025718853460552394980380778449060548653027556147818138764455337380792054922522654793027399553755666166148940968922041058714703543273864150183486914776321945781881850870598376225167217309786454763444012976811227992370807368852196858933641283689856260936985779500407742606211170940858651371382502412139327452238865795102363293416323372191606660942993386468149039573858137848313965901392781946125562538092647645272827023830543197786458723770599839933997746894284216530406121052644095116407523199451199231271296631156273606469015834159163447288753385042673394650658617476904874548531924600265739592899861662407870839603560899211778648518444079407879446512661521844199992992446479982708401406804370763674207681126191890255982400805483024652100268216130881486284245263280729041544629345917937907990781383710632946987024450424040614343444928743677078253166802928655186153488496907183868369036904752844565262824136064760193781906117538137384576021850826983662588047700862348955082869913823959115977248441396194165718088343725691125070619815226463134844210890616908584909305595814006539741079019334571379073004338103340760964943494080663629894378811292120855418621324992887733426746366123046754436926652697883076674705974548191123704809625768121138971458263897854366573314184866274882285147715688303014794201238675790780109394777467755912208249334707230030526627588529542496002272325131482628255368757163605240296817977740050065002691831305160881365110606247760249178432346843410806802034915006017470347467091588611273148287601326565470079321920911831512809648601104774451234622439024240306234340075505679438277526860607059588927587430055707362322479359600944653601348667638796657285027565831535651468341409860109818994367989678283867167487979354984424288023308018016048010009224112334952282914777333045229762866986631095487397166557359236157300803529747655637236772280303701476786229460281344364212557203168559660108422437503624966616519599572770121201489351241399470946662740182037751762660054737642060526378601957460632673853393195842656933706951382581165409326197213053482357478026265862175980664936359221419646638983117634733913315621144247700274845745658138972681397791341636797376590088959413395801706053597727594612897025750862448620638295122319059388232272943283196072832273884232939057369646354464365925733205604694209498221549978588391853590361956305726731153312463522116046598556858586058086330416611829814396479881421568909620442185457217358923614758610676733288335377927483025456231648112787246252392578369447652317151249230326811203076190572731447732536404342017702984662431933683132519772468551358885026986658719173206026042386757363508975837364661510234076094369600289876046229052490086519305105245481442615222212656810076749168176710830485300566189192238568216280304740079629196156163556181776306959178804560741637040077362348228597967741103140609142354270925865911809641672644965371128496351387020521602316917300814302404827683525846891215033987679017080549765739684906871174078070647380517835671872766625680460520681913684821673309645513842798225653049340446098188164253792802629893451633803927445685940183883432145714075639613775210687032588352622720142256802460982018215610849771508693820336696503023968411381529134978384431116223699490173253641414573430779326897921911629458428612350992084627742485545055297495478486565609315067505727038168342194862092010497777914978254131361593569554420725334721367788400219487539838262207305139281284329014225197990672560800683545688179087674047880848831024584567015508762548307770056797161411235981804787711272396286189800831140542397121412475763064274503281424140555287876841091057991743135337503119567145999351926461260814454842184462871833583573849874311048129795195143725739138653218984622618946320751191492789605585126548502818287423944660311285777509276657431724691494162866463203028240113641462115909035986166477412520514427258498670180091810198056701110348981903524969814337435480586113127366875545053010826593352977535406351243465415967963449786315409917757989721797785786792377837445238524104686112598117465959985310836483802887760333815623426081107850633409487551003049943044711056758152249436136577291966150838958953412515622208395608358657383371005965100526813023852524414274672281617415341397059556363191671729233189413741428151698435362619724050315788613779531707693477497257935697268627252071923631114554120613510417130542926777888027453960993350976445759358425833072830827215176420132335535557823412967473190820773575950957283584788895632976582481964050477776435491387272920092994697597391368916953583499822624149362019376229591981267643339462768370136629809158311855902076634685921802996351977771950492257069706067151009638905146212163650366978893869373358257595307247637658677974721982975873368330147383877570189557459000676489540262218229642626838154920160248043974239810991829952823858326209940196054917915684692887714986486034123020535732532110902187703481417290096504459690830442070484425136727145635252956351026224364363604584770338043017636192479549555350899716459292153017161286682863558833000230419700568705949761825849827613304805097359317646405081259080692213553449658886953604629775840509276107255215626623851106396810857899702012384813563497967846340326660394604516593346715630212927163653633909348960810129891038208193012002654253357350099378484666403546740959912695777687536275603107475476377754830417514680580744600189468390183285028198200180742312952704579866393977895335038815523002859832140826121135977718332634118579723671655300420707149741335657197964423585059928078612048009065881328244644219235465928151200847652034979381832038914650199355104948998983657645956553516695974319811367648372852250598645977741419810502559581809432910833793152422043586822463551378647674327386665696090021246288270845511703445840509391572891572470286464562241166860912247547306402932929006355919851532383896765638668909620887167860708168597893089281820004465634194965482895790310531555278047931872744948729536098014588739439647014998479985559042184238284636557864849979024226962969237386907266447543814192789606187642868766681182948509530435985433203856985966875024189545042784512573201860041075440429755680310692051127916895711704528207925436914828207714758057633000163584693751642997012413566199205193018349287706592792839112012423686398436949257655025516495313016868685863159278765434327209456857258342993996219226916682643135787418603019452465088333063268301035479658869562362490673873443520910593538976053538206834003847845028575227409322739260517874483153201200546493907758991012876067009345103750744309072917811632070683551525184782988005419888576247274338117753467643437204939040634308967530496,
  best_state := some { pos := { x := 12, y := 12 }, dir := Day17.Direction.East, steps := 1 },
  best_loss := 102 }

/-- The search state after `15360` bounded iterations of the Small search on `city13`. -/
def stS15 : SearchSt :=
{ open_set := (24, [[]]),
  queued := 0,
  came_from := 20595207532532843191719023933686968049796819840328446475877216909317635688609412929572937259226344538976135730399603448794815080679663047835435428345829003293164062888426111458106332436291558770971099591466241905498952970890331091642132552918433562988855681697205341777107411008961245360604134155664577110704753327156218852514507512106345898904225099128562092517468815858900995442397361563061034270938700535725384853283099464903102305785425514970902663383814390526019243256483424120127821723058950773917648376563753644461994548391149083551604615438978552680307860559475236582325676507861170081093052737283756526159962598044063596065725492064961043199629759733989740263725245588656119670089621308650922009577755163619935795456617891211076265383149899955852643379088114343681323711032012423801148149659335701039127088082112094554542887933186742759565581175755270080254401814174007674721296669768054777871476812277004974892295378854550204834311985269457284248644181178653353283647902585807868964481761307040535708005752596886879143432565368370999490442860634005375092758078587497766098408853687893416286688097241556901337101720874279246359177506142511636242530244087091337469597966801687736393219370302593413879587387009608896813242710800182075273267686211500201074627912624512347996335655383894083349099998928521156049549158600355188227489415711826016958204996398172933157387138828036370456627179193549356222606179143980551133458449613325806950401201615320180165233541533846993434142754346525045838621658847294817915677966548338527782672699588982642716176635322277995435015470268887541210937011624893168473871356738312608798216380193207454458394809458132718260554995173841608459433665909118915766592981333302019763631281684122420998780546476221692531389223586746259090254100487520905828199239749051863497706213127845863947212192478484940830815937538853627754374709745045568439844515090557406574539923622847436907831322894663296588558778974741136169710457285889694238492493788331558727685526044628801806113802135628776109468961803477503945117222191159453925447211838870786954669904612387488347264696735423313107343173428937003050586760509132174759067751040259027498700405079757467532929777994239636522822686426054803834918236169784307327249155801848880051829630555972312442846776752790815775018094926949910470174477875172842899853797602382529864523330131086864006633247763344820861751141872776993106663190818622138050122318529940671161717132449788527758687222908920390885293674083249364832992111311887105446698044320702105621263211065603405384226714753130554606850713620707289720786554350439754061753655757167699982179063143316119465722253064694195968098892883191541374018710509901266817874738543941875174274928588315324498683941787842148778237938336876097663007865246108431608932109540219886572927801154341585256356777064129764387505238220459914176927775411679652549113523975760834022632351228738063665740103296737490659317671357662064462747966037338615602326829504488027036836728639399604484191528469963301106106764960741595768494729120878590475761626047783863152994986201042979737431154131597773111639634934165668396662441992220271622775133502905597614002744130143578511169082751551918343476974463418575489764436805312249084151810884610445374568356432263363714877125983587948128142171875359108786980549672821986023544483332897061081033428048089848612755433577952781480988212774711456545321547165458088663154597580326709244513200147287015631778572640780136045101669516910005702933089847034850343890633079779889489471866570052609480296210543551180715749593917343663656241042463688649158259450226936515275353803289664881394276560750946243148024874563482422507647685904447974707167990540391570204718788165321276570852485933936130646203051281332337548583897942452663806720577754666959441980617542645050710082745430457866793385839407829021644195985470937449037648074781585799627380122958710894191743889840700447063417413017988453963173642900918068565005674701626476741526377516413519647700391118795753043651491921943690572319416673135197695346411594325541449623298356477391493610164705870694748952828399557083161724044393878394409153343226325444489410446608219539780742105601486476357961951163522780390993443875476728188905374851145254183096063655095809213946847881259702277328188088490296662587437417201515032381536530631254972657143222859628531268782638710586541536028722866023908412979463836239372233578129546261120937846764166788090930176918788636260522943689254368583201352670544951183676228333836904199801557412479368325940278096034569731022650951585819798785322473857526122733377859938929553481489887450479340867286241515913848903467189867945954202428123925584537972817096188203088880082230414949791266692107683341284204078213305856525698950608623631622520448727242883027085127958058454921034499681494382184096902400092894738336582342209506693244299623988706310938680144947414137576775330345599263239026275795586191808325003459944100082535658420056795643163579972873702188833865761855797339305440737135818862414384862439719608836550282637136927532232544616857896904311548272674743869264504347692577667151763756644438724573716930190068141986957751481387207652645572479965142171449658396989979981098042762586012462654182343640348573812086496710853770931483174043010412368444343716144188883077702756995063211465852628017423785134565658926262819866796983237787368078839055879179121850403867618448738894158552175188708366078498383424230534213423212939904469752236499480482394227891479089217080933357678932776206038500874058740440974636606801404258438148477821213046713140911014610873514466284854282645305620555991945431934378357928955969863252841302268506101913590964717188163839055435446516203219624914206819078154081272265104817408340233623540366724474944804278205092986008903764282174930851943840856051632057874194283626863906872298897120702113829014241401412349219860641423302981343771272158504262211745199481168680573098089233881007735820715907771016343937683425375976134734135666189358484421168483035379125030171461595870503576802533561793450555208368762535295876384674099565321153357201166284059143898123899723422532286892893960365235709760115781158979030582649729699633998032661719940832055614567672921404800814796341960526189301901875400173125794240733946040080426331619114526887258903991204244978891182661630387959971228841585949747682036150757201197609384986827764589475850212505797398804903257858646469763611432719549745244978473626003103139774589839758919785335931015408870135485402061289466350898774765244360355504986742433056385287192534347303765392400243919316257491360402988275840793767711510701042262639462507508600810728397081237506881479976602136080589647142076284685624490143760770293417554485265869415954184581125946652654999269511361147020345939119143381832007019394092501755431297480152681705127460100403500647832423632900414412536852504636838140584611191252427417873101838631239626909891186983936158839490331788339945895090900605487016507691345664662447379357080625783833755147757134975441705690560088296028135890342767445160809025441041942819896499788607483103141737402337056066380675778192906710571831767406370880228095264288986020887844084336755937396976980490693168512375437482078758010884224185729870613981536002938907083529606304225709767181293686809663273125067803064332605249477102998906825545709797248092520361594884429351583023343389594457928854673549385022920360970466916653003834741657293687485626549544111164602807348926505785162685502961614407701372590562939460616860654347863870292759655511807750382226554619327749177156719611153676889101567627513736521119571271311191737465982292947430297545270968254795570974795803506415719622921462461933935808090284331254516563319429128787175041670852217730527524468208130298311504207973846243483602771244500569617778447634727715197815457811679310697412124668516144422392617332695072264601866306246322856562131830889409000299258250746912067042883987421210623368529118484169344153456833543846774591114312394367204069754791008177193981557574568291343791712365124042231595879909350017634188133163176284230907102763248401758943729590963269038926392014955707669385280950599202609407880827204531523392294373131787293668399073734520751345584444676813897307523539632185299295427040028427098866167195206928996942226453977667317545384450223567808407287041105966669925064336698025198211497676123013403690063211635637652368751658801948730042423374744244297314121603803186582641358244740199438240064127805957327746417883854006997446623493264757035292180764023768085063996963181760232124062390970251496123521654318096116052532368074709298356204088013490170192473064361615264532413478376131286647547169369122628811653450019131759908548523613009598926891690295046442838962705426018062368367110738908175093013374988553533980737667187173770653018090169885647580947070134099890613434798670174172178557977973127757010125899130646815407892102025853379307502255062463958356298160453464656138269103122821334941267985468136739565035597183479048309760003866081883174985839838092117684030084816049401567850328803841892495020126989742060339840155486542487323720188311842802147881244585206962779937859256187600761204976149130255045126383414956166033448246661534201672667315586609401638031372251939412383528831845114128828079609509178079699007634999475531158127734463140243600922084120600203808118764302502267562933071064303184106345293969574363917498121151810735753674329390688481339163751866484003895408260899049789832458526574414599265219590532525040297617713058615332099525767395314296023987170030797873081605787439440034011345686398819015046652605925204846418095279420881751764855073143884958882174323512762489324900390979488381415667208548542587691599617370089333600520976021212495340012069590188926153778161283719883201591010975790952398370871199016787543191172546735542853690885605052607030559252275350284273608621603851173427850207779469169267218572920961020949926653310193498547587505962770650926736092552183765506551000724312994335244361277835661355700413348817625150293222669887414434009336038808862710787868191903718964539899449171876311880068138972440516500025493199908655182274716541607618170229091171903746398073504514770832595931727590555532116448685535510107964524860400006677786756082361620369797536408937182505764983999613769701436210578456742348865392638737349112946810028656674413719883459587979216177829400804760387477460201381277488133486295585386756354342918905842157228248720725692531879154453322115659027749024658495351874936745557867402284985232254259471791584449514302896840965782443199579192520993651773509085573085526093097520707254004871105299881274239462677530348506958017503334056372569636141769409254610911023002877736422366045722631201257079661342930889127240038598974792355346264356603896475267659737548697547021340547543990931500154671176394221816347069209875004091824131080140186725288630811440415927032513471889907080501274814763801523489033212669950528426381940944118483990623443213931876589901779159410673470259978220666207594879731848215109836391531047899401547481447378912407366912749206915578721888558261883387591361002943478392393965796327701463662067202931754821874576922394009854958876877785850161927093723138467765249472288233863449794177139099032619913972062706476656397045371256951831802738287463657940441593088880944066735239133032045615686668030582663759326576514135631534349481772615878999568891480073007248956124784313173370978773320384665202542803111701261175092085495465088229455887723198857765807741463828154344664419502697746866596665369698193937030641020129104949311128872480860060433763930875899295848484834908468164473669745478146298498052111745139346679818564660391254693025946105084847460696935030376791713922412817230212466725120456448445582293932054637942944654302563160244012491606094029488909226189480018108994253298546180746386818804745629504365660698107094095424240372857189525884404231902616822922830410314308601205774927496862800657153106815379228003377082052197497902894431931191443489562359786830293371188677597645698899026873793714718351882878694618017619709623484295889656536067819638329911509432730010003275691565707399679414060932945195858638063662225078749318389698929198896428804147466661523639063388692201898703206800783309253486192143237076626624176914114978697118091677484934497564763725853915681200899755144431157082915819222997358728351689831297037692487602734762806665667445283494905266501936558945663929406830690478364615727000175685742805134911974703225882619459494288729456432626211062551895721108646840256881410351447010851543980767989420630860139573361049826986376184169810535624927545664970784844150048424460224477661452522809225125049780834666352729260061679768074449003017051402821392426468954798769588330928749201370003499765271920344746569456625808203268654900290878875611443857612208722978271997319588013217624930036839872998463405226712889424637584283478441237419970628146163546992449111813434258798121689754728154288280924039675065669064889523431331970668775877570851014065125701299986993630335929027721293561826186599846287655614846592670501903629868168168945871016359810996002789813312327769907477014480078170355369737563683681437029724640882255556469575929800198645924894624284065888067959669774883576567499404857117613283627914884912467243370030852773409984553028252547521917047147297418763834317011347000705163696247457794772677073133183551263155566423336977603355904719689384959835537742870247214211506515041061845442410356036836002899178243483101856284412974977379931582313372521846077346589438260222794453656494956718942305492366040723633667721400512576028731174748152370937259002058687929554746408333894147300441708699335352065048411443847025119689381214172863722238099488411388489431130243796022555968844712506604283886415251675085528115951897003929118886519420858893333751724781028139634137568486381472753577543572119948923543697171292087461785164119266125918159399557469128080647206681339333228860766961169842463551674309666566312520124458891526788551528151901294893653667313671018173613812375097176785867619941502590438385259993406962052498696717643123539030720525545194501524730752325741432838606604109150623867791015478188858660379065603373793570069056695491997829023641219030206306982099409422035375368002204159962789221079670852461939852055899420502039230243228331179089348606294310555156214794170026155740475229800190151402185035301585401460287427402742479614508873134959574310122505185940112104274895463897059471985645533947105223884524982878206734172219761188215827727549700060323698567590988497005533143147812657819629411268995689117370407423416306833135984501878395892742106517922893891444279826616377240092237362290945792012570640008690005557848102613801795328649907124784613206278514357780629644851678412930783270245499802391382277831951806893384358833897899005326422082400831777854944574416521165375675377712757996973933801752979308516156995171356766925490103928801799937185298136616112174225771987473894290140644611774155860040868069403612079109130520814395818078158363349958496633408849007543571005659170815124765117053002834981134576524322939167080962342940737289603129539035822628021183681966481617087642776062855023120849654998071215483484038999760224322906497792700915799621450332237727787248404339192642224311812212491675157516639309784946353743919284383725054102639328462853912842106065475548849994677443600205005581173780087896562799774211069533622285282448523654767280869204690444157216916329312330962070182934108977484349897235057568939114415726133454229682757569971555670081347693361985080754328276376281749044910172016842570495335380233290687419426290292443809265882760754744258768422347171324087621318598893076846598860368452889658079555651157001134661669183007243811339982222862491104822543497041762853876889276420107094689197839461604660484465518800520012470732038641825059466027855068195766020872595788099405437042610713157431596072325493247250459401844909276909888518881951297436251451207493252731577920379893891605956997290877012638267840138008699825293721531549338794092662180878426368263601356368583904529124853681975817230371821263998754643336763859840429299913652522704559693696879797781586108357925210282141889444340431900004084422281919559762757875785404247564424640447030350862539119166084947198401254072667991307261877494560255223194541465865056647105541833551980412123285400122526290002404384399777166337538023516828977912199441638347253930053208969685758974327214987945531145465737001692698280214472856998725457119875258039276584769740701860558942158683145452047319604356100399759515491672380202873685539018744586757741611013448499812907829070024373099926548971371081261413363237535306959787572527516727287995802212120637081693381192944123234433101358290589989819843095418793020810172701217766880877194278755149937400470353074443853567078189733501857971914059288829493874484491739215778429832033617217193034527717619215951573989835799417056419444893702198635846435769930132327022714114847060396409209844180223777847354412827975203676640792744041034433541966792523929422043888943387868614439413196807625662145550558267120859104940112093945108684073978701907411753849499184932414258307152354893491048830459065784276822860299607511853604956813193304881525765383505415729383205264015722918237250234284698009368735975947596913799240018722388219482834653488294202574467291638044911755387548448474756061921828760225009891931159917886586350396036363305188697289771306064726843670011012459757869882916195532306446937846069048090229674550508730397713323910539864354739118581889146020410804116167970092778604324451234946955389605013459921659753678188979816812808446908145705385647585327483033370825725907828653602638934346096132283180210759370349280956921652305353109671808656228926523001694440974757840544920450697985973265290420075936516408335081479213315597814276529250771712,
  losses := 49741013205785329196855635049906967494117503007650441372244650825622501964863598024427905931787599613470295453541886597853603054517672490496737359491494903936988499819632131470477576463489442161172334544513259014963926345385527510564576123440428481172716069387031413802179276750082813554423422605444415967814426995928860159189499755034729688132820976909268747396340494036175258671508865448969202092364531584098199047258325809902168298129070218158566578182918173630629086262426683310103836660395512058691352727642802847530438182409888112113337222531852383589128130523170509134655968487059908903587676435855498485714910118552571186283902213161357002200604398070234721155372063898608368999848499468778561389947173325801902247327777842391941492199131117913658972173032289350271775945059108795202330761274348670378071653408327882067188951649034131059089816573418952351588800513489708417344303952575565869239277445479509466593073532420072278650297029825091911343331642541625644564280137752547143693524501839295734722712760273579978109904428950870364838164974422564227585347766245592203317866174171180968598541556642557781058562178769194853166997002646287440965814401831210789426423882980509804745715174252214138768504998242969176112462690303082059298357442354694197919461160755006841311590057595026667689468512512815088524487766108973142989834056104446910833789312398963323677300256334712444841449694046956796324373051169717922076718322625265740378737477512413365508592569352242191951458522306820612668718023857993352384334835089594995203367639700780145645022717742491777509192341897032610535270017305095551236775768383503121473172853756134597651109740967687665079279936045193718010532122755727057810142857529842121078309156115626363535789856498129567298113889485103125290784838193087889795378112519440427056355948841706069746899072418806484980998916393132322864785625855805957476830020141080608432699947888818654119213348098150792765098710787009284857191267801038305106958116447126401707721766116876830437594742185193434651654169072982613639278435538359538270732047127576092859079946075415059616730421215226778595379684831442562018764360230685990017110473545963509730633891690520328462198664766057179718917779880737909305048791526179577830206747036690202855191320316182635009235226108242549482822717634794324093452758263555539119702828256853268940881252277893701306935466964951948089220473404379306247263319382160711384287962327975680582633726640460192634563919816633430802423276768779234254940473671317742125964383970022079655120467089499603468492290806586068222274931297854861730089668534905332236715807704467347180523143301929725558301258989586858426030802274595886605732158078299804752193886137060094044903209650153438317242351334791315158053300330767062814219404531975364331820395607282843227900196246794686693713411251156406716690279572019187659755386029347426580864133279020609229922053740367372958342547352363014492106677518731705240995713136030651483829066201787510926651738760814551749833773750800150917024947447644751552046716372463598515660966599222429677337994555312590768594023936118893464460513414810800430309709108693658380688200944996732752324389734437762285490037512671994536558370625444312897686012603507211097521521730338777068462579303345049712438271923181415678751869234828765380963662396876188748915618303114881662203943258003460564906636495446838227072930841956991341956962191860309266143466227665595479454488236124270357882031730465097566193778702336010127390443791356132137986667138146262680975268685147954956153173871767681014032101684301472483101433655936985333722714305532994187172753347962673886743769136474204787495359880526188104283791376432024347955071395991539079283403378116870952029658860131752141898180792233560919397713737421890345485442892596039727364205264136470371627431525386873596183662359361171634859762299238058439028060357718800666616694663335830359685526306324375839492685094108963246525077139342830263630073944307395040867545356326070540232939622991322371988530814498166446361186092139218210647427512866156754444142945160903063235591711384353846062757558675505126983459955671300764998584492384925221356096271151133217522319251819902750655563108476446822904041693403997538244307620752116664231544145945969415317794105798529875995944319893982396671039918646792934153188135334007100605776873107092585678994857111970621198935400958764004227783105933611936018027981922953514387461579862701724992026376629033165908904447238828312217811518459967391674793439746276875194154539452698973067998929113513569481932157554502887199743744505910009419494580916229518166415755387435074411411640159654333239790298490116858801813348577138931446211313560008127223011363029382383993943222270308669559138588027125319521914682798968231270288197005614286943534339791578159785144776494185918157786738403390643899989958611011447202479681986039882813828643837379544930931901472930429253830781238072667597818094487632450662391382974486811588775229451604000948743456866424273129578806095476296811324252578934600341834489424096593018744294000226243099717739757974692145710473606832559484259624795888967488831844176348266222024064156732843763739118930382890245404715150766527034652842736771378960321508246531375614294449105222203105672996538578002761864032336639853709360112605692479219266448848107137136241309655838139688379102952687739604887274458951857883604118181218831650147794328259266295036201898848888357519165895305068013811126672124324944368895967250532570777192205105596919668719042846876198887981480030318270164300687652704281681589005817301894995584068865557332156453688876805287742837611761688768450613729885543618825238716248032054910432765941758096372107912235945610691474295181816659441803395223157407211375642671777515399455842308119662180574760952037465044741039147427014974117074616676512399016054279530590454168331034415658309737222713836987475577411963936198769983065062067144867049229660067159394058718045621512030481791172252980171232063274359608408978129301832727443595496576638390123767334355356067050302759918710020970220626010027156922342878793561134619677097839162200926639176176685910624843871347456785691564988982189486458566970278041597242094881641619691484972286065603262326057149311266198719465504411537238478025009387166294522240934431941126453562217197842295777246625574485701233429225995228039448374767895079851297370586752917187744974299248493500205823501594762394905226796194314520824463548421452237017113122516320488163260053738120820660043017369652369821299974584854934021329182744174743805992809762589864171620426207742949843014390117317840732567561446844388657879838792332711835688811247693454812559320885452464076789301099223522366089573201062011075503571003407419516023025545980156825876192449708229488566651016026364728527520441718023523511334451216354342931684679953109113086316882993931541117498740997618426003924849562726039938824973903145102666625115380249077586065370609273728897792524768620685174769712993675570269011674447765013633630593064913908989537417132596866941215591171225861040002783859779044254193043713956439543371167479673132504165852438087248613746505248160831733307674186890060971937194829021701923465258199702195970685422203749713225725662035737704028808355838155849373795038611068925976956671395690444526140305166872068695235038383936416538078472417750168470877017758014701911660308884172362400808735592503290986780345638658865043762909163934930320914841675648250296436194810832940511472279820986494539284897609185199929213175055781790390123729387825858563979768572301315903654745258622410647513286677986554109257486549469825543594938964216963893809289007298617560166933998942403157327094573259011943713032521345971136769739637741693326138552295623113592216449391938839919428371287328425045384031107286114434153141459709878424917793866277354897402355351025647785368316493465842752512790470077538255005227193686043842644018143504164814327908304063089110051658135615519479381522839083160735072524132784950375658529868328257560359732353841525799744308956828820443657703491819990368496903822614543105792768762332013397646768289568484206879598467708535780516096788892190888932333650143473719975230545694997605314136778747420047583634516636661801878911600205288103466108288533844747905828520596416242852210673729013678517926127081784686988797805297369587455394508680087671174231227584716333818328400775894540921127964064582049671229295647213818701349935109321016993122131995004719070977485241997388110987104430345532729240521892250948581666299131583971095335272938724616428829347859251614409794578006651676380041081755133339425802040891416359636600635802621421186986984303243121116198314617708561257715105259880270733415299972837771711234705697566522459554266768045668707565536131719008575343877973086896111434488751332158547436833912853147425157132479150617073604967533469279321150240393432007778799936483474032282394726272687940992807283849638432317591336992045133479296797263079308635047311554687072690815177622434589543479990909940817065447532426732889137013985481573657057311999571280800385334471355357027862725116412995267245827839533143729506145507538356026369471832686180264436924237410153595242118210601321973058166391071848130311341885345078152428877572476810430223107637136005663742064418288940654521530721589414018658479186464401970726509980126094164440382679636957717591498150650959582081211324680303527730161068803180196636497425499278966955183327412624604427265157579065766955393849314021346044622094044641017716060677839821353919697805372509842398820692106023888574686051816084757612749245966759699101653222569504153975518759519971968651022720955048287146852637849003432932854587640891641727923356820999783926156085699037385724994608257650046351963060585487270389176662303978453494628479107427640896978468602494267438516760887331392896911081021245029755083777750613976460305533760997247572370454553651260448290232562534555114096414944823229623437170078419625932397491463410774512392932452579562143223271784787238186783492455988846295830718299251346141550499994072399077087391577780294126802582459106205044102044975316711201906056679644452891264414675547117700788479209191221225418951577346189100340074897908860320542151627537936929190855839053001576751299849046628910403423328622970677405965697361491296449188840936414613497405081307466831782132718801283403361184374875486830225074460039730182674026298624503348385345064780616502986907027125926907507032837923880049525796708250497826571516517548402794713587395165515465431192328343963697022967287020800688277415224664750899180052447251549263833947469960711415601001553378782639253551046729762339756542306544999727670610442330802561373435556873369956045621243656816104968461728152548017186515332221263078291285462222403651366840290071905122438780339065571329548350909853354149727500061259818044634615911669530363123014880231462198641560675553409576383282740564032518457440296215454652053209040907388007976353722548848903803779017881036476167051624611756818812689056935224345538607685600028095111985748557387545029900430967353980119330444672495490297748826741723436577062192702534118906975407945623526677835966185590490631741010299306692466660159628280697953475263065063682560496013434320174375570504558657728184910943531346891628015659616459966865157222301459171982291340779202093666759135070682708623549459610889891727917762274380866412661100951618943103354019217139240796658172725382539101395320250164276212570036100604054346663936059758203437986349320055876330648598284635138529276473532811342289507725261013436918319069392355642019705197307059298055747160018599290187831699925768509318467096073520245913608202713430738568929916346459316429502139641542401932061994413987359683420621782045396853163482920034171420743456666096307936049369180826573526862374164913677155826802138155248435947593859118498769912464535467360315917911185475576448012112558578649448904040981078383312279144266980184783833397022977123945159813303255999255502627949563290098774975351884332867490128103412325719927175580591521508100193953928420596379626684867542068591121153134488416704556405204704426388805297202706268284846966835001090254220988572217626776872182706058737698875600359346003134468731375235385380517982933921818480322955688078046732377074711300604664127847443522206337054373991909534209121199209430271654943552730039095442789075514555791573303205463635584528372175039384119431618863115084080800750483593923524287130372052534068254452107177421835713011349010734238066557369791476609575020102168516395400738491728679461257753513767322718265934275606411588316293463574092897861103326548226838476759784225704748173393072342236107262384088644189925033870293182717945149121071357375314654305348468891865034648143449770263697633937607779642400466455390437361932905624092333949345312889694690965038203703912312700044866839127474086860695521123285149830862194480123349798528138884831094308946853382377769554992649440448728734384642022609395625008839449453598297751475019529916494935164474624642217654542725704624950679809108376341293716439036958056481284535434400413814243478253488665565258928415569197429320802072102999144507375887148212514266693637097063901880573687819373644153588207106035198381229155787723550175922893685704614674146553221748842191051935655519634022266475789810018326585963731742129215829711705576149671036767007633429223107182314268045562189262972668467820901413255256100776878416163334280688887849219553391693794645097504934836494159058282630062577437846297032480471618512909012283794559671723678413380448292560458758774529792898069150250545661823666035654770758626737506281325099672501454582686357631347326351666871786360627870979915372834056864959194171343847378234871999573912066644123123162592834588319113308903616491753907696813793637718341030063719440274402890101183856052669561824181888925490640170793156490842418035024648663028019269594194045339320063869781025323591444847410515218989833917049088893895128253955083632845062902136906613422837327395205267571843110864904961867303150975998440963030433104661105086509125258231370982800681182092080560279512167716360594659701129901286323700693851352722482127225613309133084131334460378644778511457173510940000531836236398554051870725555150362557792224547564753874220827673867620774892463890088649255491712343755605988608743312314337824428236694270619740441796984105265150229951574066034170324574777973756561080404306055893675878937951116433431388230582338812259382951937856689528619823081547462259412649992254630228964627171606919024039271462851836140926596155662528255784322234219515444801715871811006941542729503369138495157706660903794872068334727376931909936232978437016459700141931129377187776251380486652406019969798466223119951463657528541277504351782220245136066391246082062588272134170332825011272860149871877005274442764670741056376458710693466652867490295558734346789085015403047871413227180566241648441197647063982159005801087418697248688109313903516713293003632942753972978614659876913480026950929720654115458688155601347719538331489715062242661466947624156018441086497654708834223772469456157697441948900578828654882212943736301740768448894153569901332669873657948914231474832320979133977889470853722783051240857907712293829026495774406120728853050191119188644251960009671884379681866528931958963600717654618520320138147300542101110023061559752284647141742339541263640100290876126943280438622938812691310681604817809920154115592323212836744560428260852299715893197674780387045558235229159428169809532238554390309228605189290919363463258844665165155972007350353055581644957621487718870162720355945229972517911726764581251919289279837555746037680424187200263786564542372552089407068944059997530736582068387715389647223841840687588193083855880658727023478431732478431557434275540447213994714999692537519085437907271427795809801862635968404575321303808153605041284238152419732824829645817744299204802378909621281466145510081129078641222091147918721517945717866661193871673266784319065117965775832723394384964316270602804116742658697459482735350252555476880376158544807977900130795661781142939711030656556836382938119299612626183613268315128209253685086119203478256605625562908190935941024436827605348480919495576125750992213244950403963295177688421252538715916323528106136850281382251793838436110177855040068155791347154451879749011774280702353839358307272934170043287599924140097126276439896138856994883402610469092668262710282659572891267595957029381941860088232184111890347388609101501528603109803880840916237120477486414641741721714405824640285500404220387035432363314110769851052830855276563397478953867085521122891434932895692995284473062755656684752061417140325377573301237674075318251625661672517959983984960208328529640868051265855849165152088663901644261543754073365358587522820864559999630588544088495848897394207907167015939296034016938488307921717667031894077738665603659806828384872569756143842725301190074073984483697905072779687716080670593753446089305061664314700579541944680290173504784199553480966848547773817000900424854829201823499128309973985734367519714045816131304250932878964634888869786341831065233487049551406116251452648049312941190097541328485542583611006837703187274792472208192291007370857447015701801680463477135945882768013067046100795074093647190062737300450921713995505832948338454842975715052494784748023748299960521356587714630230766547536154390650475701484299325759450564982149110691508511483390720622723630159949678449697213372190294857269034870824568264788002906387182836184456868776146134074703448585384738530977976943821231554769019876835797684336735591094144924824274209323769087820094585716668012391448124920503388966097950245281137697756363050804993138270449467399137053044947339078445026184608085848353115211892702547346045521099078342789677965484476067540730733229865404685824379526072902239258172894901343687957845598700082307117394958389094365507750442183183659932906193098411380318817047717822363256951595217811107583275344099602577312915416080400849563460065617269041989495389665969266483112952676963961827791301989070697864063077884194249088351141438483216301067018203748277462395458594965199193961324089489690879549997874392129269794246041863607279807254333387747363808747545584631481994967942148151661062280271640121952298040112874183269284177433104738638288430429351196181971875803179412122622808718076079195035156105168625655431006872315617121577462700085433071673996857055294193759491820117897681456987580281751025877940583081241412686498635596118167753632769512422562958385334487555685812973734395372456518327549913752697224706770719814620477263689274478124101845434679536549715027611307782588523868797272556039878515138116627620713567141289753466048222549964296862854391329587279734783890484853739218750313964084212059875557096043502811025565234687902271892580418791399322407714229819479694769459301794993769907463808852098024392456341850302898224356741899926572065997362298713150217339810135440542614477044589120087627125365284245840751481564517247263945127578029195362241111225481787898506863209082847336480182417793372750829274553111155432837576276497661699662694944426034253286214733181940480656946214475920383952944279110131151227782583169296770491684798409771453056403918732603236118283983599948589126951749023230824652147710726069508650637178110482758903120116722502312661364115110939648333925589675704298643784529747134317886094423399300556932327849489155256661747636757443640114610470256752858061645452086003375478948221984020581012406026203552892370511636211012649198726822871496618451774214286054103769615928378649920683531736855148901163051797035591653578228061587169020101091979149469429376691968263999205715169259707735591991583679041704385155565828348300143317523519988576215047458591547334146981278349257972710117512912973459356665383190140467396350524186235219282466140171120752375958209355750749219114965383365347526775549212303799731444253610465258546189809831955647481959220706186908517264329620862689194247439011509678263727992954603347184581748861174253821199347279235674382359750604124803120286981628326397851635552636331763557053884719764102289378564238464125280437050674376658436462459569012337459039556206385498360980754016384255128107203185698159656018567140753274601167137430014264258993677146148867682062333699540481910600705668568273966875838068293661498555187899735475957977407501081544747470245424740794849935221013051928283225163835830991706609137080008580798353657061508880088175772806812156463619893334439285354315699282061998259630667173097625980223742024568189423636638330404205575426042933656219110305537891494643050223993111394085690845245608313921057914475509710495836061361912056472164562185680219399209536718080918491634789361332354646626447453559840792311726506462836887140313414465805787532671862427321441844386790256164590098070389335156187042818020907313746411371582202189754070714120727024418571365016770054427417327334818414319888396333436346544697381614878016733476573719741525952759240668880257661387697715031094979669969711900475528235726600028960175693877081437763280361393357596077314228218648584348417983202018878538378635820360895334343343427429848326084512138082136236435524888172354770554752541954237429409649074647091902764299097228207705543697847215257170976682204327256187581630909726537828150855567169363194627902897348280807248037344445860163402605758041468273464884575957210851979875192752734051186309748464806051330446671137995331319050157481502828020751878783827267728769454974997160501584000499720830355691598763739127579150413579287751511449041007926734362586484540721275605783828365243723343130236231002343489371288163393203692285719207946028389712509879286935216860577773625064434974702571650348664285389212191451469334524791645297894243356644263754772380363587689507023409063426050879019659695635298970182803822461844400141730587621862290041919814053506916119381989022268751667060990792408173269769364342356997667059499624978989400951897697530970916019472693585627207896303862079827231964602670239374195581947242685361798812869540308010783839780462613184803187090038844961089338602515675726632088315185443146053697193491050566007241518535151802714618060849863747991631441771535821401630607049905525909372590103374968299339124867335451601703183133622546054804884169074595510054986326821881721374495856151286931633931749597932137010765598460574274886275245688017524083057205308900726724660129517551546937226115725790035521471604682492838300905683652657775079084538286008420799541506406336188786017216463222197243306790579579220267611932359192310031846990861356500457048693636775942697207363824195619470247044332712293535218553629950948104747003401582003528135897926851717945334563343973274258324371464207034426622364318101768920453985158080185361085640762451054538975605256029748609803449961364962397585324841221004406473240963144646529966359412725058182839952767562230955453367092102770018506720562416592427042446312814295146261266202852264959043324666998334210469022976579393364980635894223347347970142679338656441984945710080531239410091303378766977809962029495375739929128960465801393091263632919597105637296678728652212762588935368167171963655612973964212334462251369304052673071442132039157912317707506942750268766013774115953679541889144726586063171630756989794343645531055765290421366781746614699758599939218951225831845659032530350757247729704257443440348490338316481856014846793735612424854299815751775708078297415529645285867206706105160504791415875817657534893504454740441707957507491314615933761297963664605586890877194658210403997777186985357584806986652745233503624866136367634721460507313403653007327151346355057594508333678008797396905932045232063191280785621043303478009754997223287808012702157737187489165195704455792264957418466461321740507797593184974723337614074530639252183510148409773052698965097481646629939674854640954255444103460668136159754441196145847685101314392859684719770982894599951396119414946007214861101090489346253651585069408998921091149050804921673884650435428015787916007724527553298153463445964626546981312656324116763454799395613341426520814647009343197257334307428978380150935768059766242715705514465447028157628217485173813157474802942940551227020307161367020163090789150422545633561267087588503492202984581537924425013062996669068478263996769576059939839999014199544409790544733932777140471932763665050833217532640337484050519463836467927117395716746618385712051756753315532288061733095786365659593027192878770035930887379314931879051976251375027841793983666998211218404669821151889267205618073118279720493585194438017980392437041434676923145696965385389155955969705352203583541429455577219085293122392716304793999053473651485481527533336423255359728661709983328406132271933556545203679540369468175673747690618006761142833544854690013003686977369641821521590315954390757443305242352542393913324091969798110200258274287739349266622861694339522191694112735416333074316040203799226803993610166220272605391934531626347023687476574464714515858664542373461175290051136029774699176440863030559156463646681846566040823303688115732231073799201402371789022107407819706002655536868571496250174045885077703553020400697023527679051531991299324842583953867713533451760507307347525735504659588111940794515980295354179152495132017164885116916980905896864352865490119890703061903397910213591556242290847797206223936406529140294388363053532975973184109673175345079899839713495044471631472272389089504933553506407607758442576415466109546096507854389966239272023996768330962716183660561384338894603651624667346497857452220138213260725676013959486942639136043074457550225034657615145148317062573572747009316748639793493265529446223468214902815903050934448607808385523143070843643807730266950594371552106157933276676588437374602370927051470644922817067122270060278066971670504582281308553111046296254135248372479044966449682501572611603157150455271583440644071539621204285388164519963500742036009584882582620924624085520282065824529539113368859095655856035374908683869463104705101553260513118636147380508841755469281508437201736624213973241952210787266655519793006241795963141540019415907810560299627401548705710384833087386406594465819738077579264108341875356130027980524746155954603815115233197340151389975189903412768586549468626413352255065888039955066840409443130944190477983679512828912655928508027222797328375656754910189747594908461560565573183350062217572319482055078144350868533959973457283355365425044354403580782329205473158077398178965890072677941969551905060208908693933992920355524722298691917516345239053188796142447750918383847060572556358498902308346572970898323392771105948658996815219289720592479513689154872199703950108239048304564880989567781617013290758777966842515582532483505140487436435390227587232703217544983964112647726839075231061082249079530126763519247151750569750392317174837908930873004219055608777038468188169668104849182267201397091589668590628432751806534799359293680852257221501619724320492527855924546254922737969665964425468392952478978112809585125851509650574123230142764369339425002458466903192764163371695734908069267224609537913907561401346844852003209132672630635438949265558199894218992989160244541309521197919619941680632595893725724307083104772526268159722695800087125298965891838352199233647355085977618605118816701198510024540107636870743992734900829722887018960426421171086944584915521217930278073155398902914673551900251509390796959403061626581150347039552711906176607683157124377262462123825196173216753597002641266590045749040392228048663122310321793053786500807713504055191671927394424562846321091946723289085880294696902826861738035201697714376852273766574725747571102812121964392191811477880767520031017358795885039232242715353752200795613654804959790619070631551413180864754339080162267886830832001896103008201415086361213858410023691928555093945459643395222880048562379289838941519388235197173453069278648709472636357664790988548461847222544621283085497159105955872831653934351067106900019994461181813309084075551051258513372503731009969443388344414847318090953660362221901125062182386980111706960128533910253888812373878424755067464515714803947541028000037126278592883968046481371309718222044559451633994576599526260041676415103635089559563424544881356986139005489215489985098874545384309351115732416098239059337155392202993932470518091343981045750905184266907928165155738877447745210775345282749018691802416867099658189965934776710579686256561927358565039870976749029142081472987993118226421231342997927901008606109178866580203505056446045490834224059002177022144791781851818558379726335888329665097066354116036866849659486340565110346493603639213858414176551181912339017394967721779902795198029297953754447857785863021504406754446746883159754464050630354297996875089491906145172270765483848210640520376283910423148133646861183558413821935008826192367284130839612439656784736524455879684687596242397782091372711806371875616834947221932941554378295480030144166056962904280864048629917836780006649116179541005873482537349271617403231072564292506670646827198069202763561554338080789848518153711981033776169021422880868757291101333177101275446503452697328773257174977634753393244174099068352696093638201352369382916618456396125905170120923148969081467360997390598785137327189016246538870730413969925581677764246334227469741286623520810430696263864903064645594068533140199612405287923476633286531108858612147587456124420706253576950761905771095131938319694194771124578217538858993622311781195970186201342566151167356038982058103686225650672146868746080504218946393362244519407216376099991189701997545192602028186974462122841570134499722946452452209781762274833300493392186387053203685663283890131635841039715450982391226017731142568541933233200581256430181578328188548824449148221104123861035236703370017675598965863404080043939342933525896260315661535122794455969047950305640205773936280307541367184859486881336013923166313747778959346972955513472809990098078855748605407537223130261464968066939760390410787641368312865585153645155905380751984293556090678569276769954277750954227168885603813632836014080049164794257642922718867660164187552221592521426189757363368736088089588122066164258461356115275760448167081233051681053041517496148371232397720871158682527850484458386298873886978623117643506147079448208839521509885652301205173358960240798119444008856856573970453263898418390170549103324104866030374779365910212817518143312898179812539623092122736120049840998906406442949862501870288611517562768225964006857047258721489096662281951703397745537998085212209037979050995212629633445630911516320595629037233214048789444912904267970333985680642228497698345726250841624868691788414979082526986791221084348031428911543895196040377665562239238617722788830057200575342013813746188577668059886146010059891202549994411502755473917747335130437082955173638971054202229674008418436963072250908529670859305376791200027672806480168958543780886454508132947433709432523246401597310017060958286233192689569163474355511847233529660076462303510822813972607004764285390717281584874000584029538799202547614245655042224553915433063183423234094238634414392518610679103936229815091574686586428120438312438563082511701525851239312636215834450559475454678105334336129032370741973803186030216959140532815362047950179877167936878518147598737299290206637975404924194489442872541812026447666132648896496236275928070913897636674889911342843386260588704450812768739937264926993099994062708799069269555566738027153206117560684004297479883783110975519465755538503942324777812928723364657439208812823366983441076103236312304453017603299525315028908271906688465960872479467159211370200732765707650566166397597007257593678685194491721896627131596845542532614797884387064987628961663500986382331203229942484611864604020012978014989025292539333025096754865670188189037636154908515105213343402995394047937765018382134862038836431930252259446512362145066931269582559130608871025137750100741759142970278718017643715543421852745751548386473627221471848708710738710724803826037080026052850087539493439150821056874178536611324629044660375821780172866666464730034123045641277625237793391693786841653457151399696783506854091037777174144707251494591174942487305048837040016069510548946283526396866411540458262533258266892877415646333914288129993386371179626651747217610984663014750242280528713875056820609530379313956534678455968141679899616310978995953148527164330218655825454129238098118409276953152696513296919780664615739893360315031807751268410293083753348171381251371612984023371133586689997483599817857456160395390756948596562474792521007242876651775838829542041826640852789481261195751575741580602596204668094161022804977007564565712575783686323947171100629832271847628353815478335249789034723058121638706260998311652434747494393965651838693234867361918271177410898684071653754038471161480616059569320205917259630309901494267665376792785013489194294015476292491875304649588706547562818787218584441491719834846842369607331343955006147785386464344543412065844524917332220149114855184693517783648103266523790291185794694123289030920006456670814079086838982320943429433540332865197446566068821123150136271242165326854850681778402083308552491943672838861852189718636355203507057025925184430429127599762924445475895508746167895412000589153001496489171432005660399374505431125216902067862864827209538066207651564951111059186666192131550924700502722323125979813784917297338564875692243913626102305362076621087858714489439959856227087460528131395322905165179345549872253618652261629797146652389465551455325448017712665267360410802607497771404268871175111715118187698703119285384715020788766524081393005316633557348922144430650235003323415246867748978044243201969819504942077876621849731375983666172058106437445612949356043115045066629187421150637147504076474508450778348416201327652897896281948058301310583047427314483049415472447358574558717544040074755309114153404018257192192351244613361000172993181506436797629728555106396293975263860841971277514601560385305672420159670169048596769081694964731031564123357791608466669286058522711107321535327558672284302901689180678254877969661016613478267126732732289035046637467432040902036439788649055678264856826163637910546873711891261933569156825150093888699781899632444489541957064021633407891052778786101550930928035464161084579727734760125460160144350065727715545773748746020119799696940594469483533711238272171088871951149025651396765219640282882189097344812961534492636429078270997545362617944948856350822809528414586497233772623702281027567799074349710050757116670674953044788291935503578689568311703987322416615100482936467365947098530526355212231521828376250097197282141817673620144740676528182853845386862726142913913456534398905120019085521335712793409426168569032724150666666071856142742876286167644122598449400505039730185334689851725895888123268933116432948043262659120043907600956624620724566245965718563984750895331809380498784593897167496518342544243603061445274508477145943297215365794887652320059845710411504662751303800362356571582981333514005716240924890273783464925621287079607635735123818491098373297465614281230121963966462110142312983922415174962198733044861513458510759437379868858687115286643747085422804396232643253820427364237006060108705899390962776484712445736363187100721522090815807023286422499080181393502394798083086845569794579080914001755362515428547052280456792708793367899909427073584754770879954878236404016033369605996215901189420889587146000304307572590153296612153054917595394206292709714651143528314891905740855231160020125824375536814935999148828560372153807768116421845822944995118618002650319899621189183809674316278291951390047894276454655611534122534609684448169778267929229429249336823904228159127132711525570959721339084838065203347748524976575923941127250057419064589573890334234079577880102546064407095778467308523645755783377325285086143578038599381023210739229317709528465746909307205515543862262620950414790625057025837737348597720309266733152003594593896161451564472483957152399593682579346965747791672860585013298048326297283771944107962557113083032286312412979962829038683472550030795183003293136942592823909173395578704171416746943352308177831303100599949208599831202966694863771317167853698648536979467986568798238270845080116478361627619232662317362314392818301076960919474770533884798547109864831571054509647666693254749477647975334320982392708713002840491960776239275686193694102969218122847694192253278839244425931106014017717639780610022050330424310663314709459983352446797515261624356420364617131276685524665696155576097570746263899900387289860982485347330526770824298781514478898658541025596043618017026465750117558673320311328862221754721871498909888415839850220126195229721507465295505063924023540121178846779326849055792732290892181940962313962106258478710185469527852470196779528042191957249894315194514257742113379858912592436355302295800478506722289966423920967007249047155820167166252113666297727442559648000365353885606613556276432672105123074617732626929160503980753482146204727923514713505180342570061578642485704374601034575974303578152474347641571579516063997575417765859870315684884527223497460314272637158695263587956088455213977902986540196967980521402564122571250631600954806407992103385084846520377231472841842281998477797646254485009954607029445283131518489102660159325403077632572989363793061632015584114473912732664415758286582949381578467856079082021332327421765249657749597639673450366638338800662991086978799336693539675213816655689553042081431735069428769296860594557170332483772106853786019981533291942345817139514258159556025465227938912538397846153971789514646172771123384298968558421025134911428666060113255361445629582772493774490292240562371440649823129557598602261043636925054050860137129329799055165080569811391553503381690160799379923158928784924834513545722416567041631107696447782118794030875347521152713319086483919146507133076910790929106006670871109622451507790552746321558997466397383206735176813597519655152526456213005266731754251047681249303868765629656362391604752962215003045212024904052077637398836900458279902085534193661764869797761771090988046031575308560195419974527688894724768405515897819101043208021717829836939576367767521026101090944878681498909821837772382262951610848379006112320483158203232043815628512498971924907402248769596502765297459569321050176617247148574099691250722492270872603623432423124945465250454170683782074018968201874301841251029042378174321136398788203100993858817279301554383479167118597074205200782181845925909207156521533859793761404095042797384898728008612821420324666964684721545190076894620025895575400439936633564688528700776320526268959321076923875245880290949784600604657876525059930388286861068383127258281292082683007435973015399061428765477663634630691558299416304025585765492168187110027655739731076805373910824883942484579416903608518854728772308203979027645593884434341040729607766716119288362598957679917779073440262579600678017557604356650926470361772840980359943202864358891298136908802893835025526144848956777248890445984910384024788418226395960597743882136853277327195410671996087308174652695883951919511960326041673228117793408347190129321185723794772531474551888247612631549761443786435950511529351993124553177722694940433221198636244611082495754088314855269894037971556805011637025634878600001347014162787066474131188063350584796903168562723225873759111760451004157347487063227074276322876348977654614546938127174269997674638642704020802069028444411824480843771427565247358568750871982442063302468886340779131209386440601942165061903958569739150939600091252319167672161806841154269088413620617273112173910604512537335351845476882552321740028010480039403046087838631020254132570886712983342961059067909900501624198737010085808817435049051199699385305502429996728718768415869154364995969039872813768504971582438197780922216620386078655475980599719759862593357457320900589040916349650330155814881335029144645986027800952726108549594301631942505819701000569101763730876729023048138340346258562948391191011531032572143426467284324352145616986741129434252155544773810417845409901267610144446071470632688463517437056764128939344378948542115365716065679724832041535136682813561753676735824775006909979291533864170124707621978284277990167650573308265868551763761129722362497669294359551046452611030018370818446241857563781210431632882624754721145734257718786899867220882915225565731862730506970008341600936987555886674929067563705852437333003129441798862437454935964194710626528080197887502160926166451122565281825150545999366538367488989211105460339943164624342605242220080877503851077960637184268085226220058605391703693612126597775161981008608177085898851515496900047860705003214319129729787364295080766888339908597800304297925022425483904635136748417002788120486327521326295486193411921590203527501797160759070607056707445770927289950508675283192837948130263801265672429633755925165551353592029289250696920465194244469943535256494401104788296844227027129347927513204767840340043264141130076663866412988982225111852821918560296865436150915400824065506503302498176832101652706167672776919475361003131437378930725674130435673330958778625179366463625525769924480857370177321827839249264464063559342305042606946039756996035301983429200451853673989985065480082543735789508018646664010160548014251395093508775241325997204572543733075392844169821360567505708769302461870915881187359012077347521465574231861228690692062867181796350817578082224568695638657285152317103999053389975517274464396159545844318058118813195781530209169813964963904364009813055971773040697779282327638076563719663176059266646555721689521793736802199584947359575151512053284540589341441581062913159669758576598727940417597536627447665342700716255397640604263712958932792501989478792563769635071675116902193273071725575950685342548173563841298792990449679292937776945303038203638581880785493758786427377256135979703490870555142334988687187223873250720793166098335819657323439665376554603729547464880583197779052791631260823416009616338900563911954884778176973994970297888777966492095655678327815116970061756426130858729774213570592993994880227586296987911146647092072372183068060164314611012641628478265262274465144316454987257352875762928410007946172263430816977567040545861076841225584769575265620466693680551290360911080259351753437526869955750995928452572567640945438789557059286142711727428318589398966722222209976747499003602222334734105412862291944436658912707818753018172653379907961930104010964381820403482886346921301210744440073801213881527056724187378113355168013956182977208756949099844949251909958326061649227387386594169878383808051542859022832924412728390096839430450523877960381276678837880817392920254516227738468230143518985314326892083382301890339078931528610623201113589065229516713233862145029848511727439730845803831116988531775291572339855696133813542511414502799045213931401555329635578860875197639521543156515556501778722174501310921827117876126994521654510909859548292585562964002315788776867969118323514649022530356362300752368543457505977729910027244177575757045513564332081297176565129550150668485329335336616283400194668762411136429719777196738021927456786090168700115013546976618069862853860194406173016218331925159225779514050065193209533354546498980719378105326612079724865944425512796193000575164257443290783177100252797261679477354131302376499307608433385236346684054906071514537893509708561789648424942416901758550969283754067232574122560108819056989802462152903685383929708629154015321091704444904019264238887563830087485518030025286409808412920396820045400358327893058944197186481125226693666507536197002706129833794205212095906737101840417604417513140018637230979244783833508182104855559574799335521339755702096535804052123430058196620373948779100312229087360636509510507400987835297216968881273616449427667081233919352017793003449551485412460891990374692216914630818585676220185721467139833140363485187655612696231486630862048367163555534572392508593476612648825551078620576400128295069271958828478180220859155351800654254997892241416337824189413534562226649944934431554718793254163066591639370328467797037012777617815698647472839746814427940747851402574238696357352025321099061540995448013986509116863492572246254252225306403009409835376288690583691058232106611498643731989802384765068110204262652556197080066682561491676382007091430953988228726701491249960511206009496802206328353471321868151848645454959551680418982569222646140474450297789880526639330823449819312082204654029312732519813450750905525964066825922507820534087980496150725211291431698694863253562992410738552863900435387563195437794898908225979771454460345467252312115456188293371113610927487742533674137458694129623134592331058684396423061462799599078477476096028798970791398672630054834813217645908410462465978869059978057921631378442835194427407114356817937811974738867774108897494056332264330580934473122421180698696507620369178715959903983941007936676785071348665461349529965261887946039714774300672667320188362021380093860347425536330718303408245032010823590979207858184248678104981508094063002143647396270674255366252120318683307063136693854078170005292805120582025309420014139244065494939121759922465311097107610189449848423819142318954243230704916467412575038416445175443695743599546908605692550918187566154715708814683956298961690990115696682404941522125748789512573408165993697069170933948421142646039430899940799048860923023489332164291638410353581282965539224216225566153464217062728228054178300560055067330583488482263646363731534138222823778558413847254959596395702123541661734760828648342214408627117881439513522972448818207528822434529711933379157394566759135835617260297463797810159051839862020637896070440639727604651141356465169783242640818257558557123747433259134244582958179126736236566420115506769161145450908339615094475732817518441127035945501950465490638784781712958546408334029095825950793109319204110510414109920507936388108968972978740518387820441365058875241246923232761055357050654238086817149298120941652513272445084566828222499255588024550544354031459398960683722079913681429434775933018559772581944405605436571889246448047083526392852489757805536883951949145540335124830110456879306950220045702233107401125688524878993085194895262549598653552306571191181292126433739593350546022811273079910164886310408682044767264804354019876845999338628537089729216900859734022361488453182029647892819245610485811602426882452664856275909142257406733294959091071542886616922593620985645078722084791412338088913283297999181829354099819171391786369033615584110663208259935771584463008357985246272179308614274163382203497069885557230360752234250991541505932497486104804437281983957542059756515643226330995654510541953655850493347412268464708843838534960471516482521485717661614776748391023429549006829156223318353940365679402731947840915001544824348103279132965037849503279130655210930568173275514320337950145476136180371890040953623373778952428833785124264366836512942554353141562266438365385706215736308678922682948528137836324001053600613977990286518089566520201608191394471941484707686029134897847219654220700321132737924243651147864836696218723144196925816361251937272415716898426947086617366973940863606527143571512014990614990832537764437171470032421077376332192299467334796423835296552084446860810564665555308702183789643221783894124699359745131114788087557639847604241731871284850336261947232770439582544627784040834450294974541866767047821582125275060546598694813175993791407825972359292623722194728191698747518476880955287788716827085032624494989536845731718313788372420285784128005312241174934499584244822494566358963311674515005124401483467450116756341813009509233102225864822837499555399478874772564681904081709290787712781585137256399399658274711261699703570185925894428173680360205265150560058583201553093831605270776820677240885541045876812541532834289241309182655121942102909671943645552735276645960349115105269366853839316031783558372886922224717154293982750010668630348063417666499554953800636175036097226520650463068271762844679810864086013777529954908404283244304682641490613319165572506048689904784397159564688924637642287221672344416304989165917877762364825471468562512034655288698123386046909295417741319132856892668888125582584123793621273640200014805915534373286313292967100469300155078769626250541241873528584996210219691624594107119137700807852967120371277914571218837375978760811856548262240439847537100994626031288795988691693141529197172476738090934933067881466531756498163928578550397962163576877464203559115827300897083033500683259718679785667833300577519768230205759423049604223398585919259962138731245214284084945978397119465840363205017173530014010755514417254177214791214269570634881787077095570648638393827505813554837755683562677770111378950181473738651821713314071430701119631553771972290383443574419932041594641835675471796935609499595233587766205475037389999232764939301934178986623952596124297892523615163692014614168669826629092341074724146358046260778959758680979527335933354496789349518916577094874386864879049397412548068564691777774973354521635057404170891108324632762657957499187001649418658395603725318178084126506091379468095853952439595557403703899872059921465542112749359495231036869035360840959730492083283508958771483134555835626920316324955502916268777369679872970668860109759086378810389856683384153128083597047489048257419320850859638008394938785650806995584700214681478919558331521841638545033869357945646341725776445609999185200837049043939320026017288631670820586555800758100026797429590655332897615376996866576417446362768327676192513066914100075043554384521574393382039076243306511085178119551335737097727518381904205843302936428078092000059143027938416020092725287181593450256894341071274121647144451437399578361994536835913613792155218475663653976161585962374147944954664317923976659664408892727205748727623452844617628498043025503195701175506453874410022907675308028248861042943511315082106489696276870182060631919462437155399992700421780102409510503578459720538361306442888177821731812991056318992570301453452610568960597644449532059862875496584811493124462535053183906885753640144018043976610145351388341898092954575390591498403608245076467558164355841315423545632889864188714887339135002094583509171947322648462300313060157938906623327827911903972825024994633391008462928588544592105281929582484710459022616075168180982445316015884006105042329325106226145636319995949249873015392380764701158606998210533123836410619741266897983767874193117868839138564112441015593438129116745752268334298216747070221789779161524894116223356576507481481918979939163764262281101003310040744180151941764852696300170284288524843499298378211616285408599428625599850144242948348655891577698327466611248627982937688109987527193983709585983634445002771128846078086569224207017594264917976521343064444267005159062212013718358953178992433072727317870977567534817505511148480569465557662862223680068208262548037495766616683358557473708625727737997284601653264016638729135999970095397633786182376850254821499372378345164721868183620228968911993067240710591474763235699876656229262290582658417035895038516431078479827312111506065291368033163453525415633707775953229965007499358592076914106286399911399543157772173386228619655678918421698915936760223191018440837830990040406694515466996531051767330748037998808984251864603050513717607630450412978095052214143925147150926478713131350044354761275501751324557389929410890839024046921910670567195826695937654498519177818285852859757996400604582804708651122796904747850882949791918800405042041324267289664943078452852339836262132691162346267862545860491096940114590503643539402571049117224254251095494886544712909771448647805027589016162944384705692996352265233635094284690677100469679083608687213717519476052161989444686241030878621541301923123588919824849989511445049212607737259380465575225096337666782208647753432076391143365276730772053257145249762978194861590542659114612517152826606507358633517999737327050856222092429214769421024842107911277836726419233473402201334538302925361567938651190726427367450887671775866696196248985880091069379861466922813658753574959062243470320719815121053156914676547062575189102969412521631953814009374705167240186227452810431873530387331177012824987985286351651573290859975456525500640651848298390169124535912047239199211725123664674120252362006734773128191969523493657928156742023446804142798934359406354493569856941726287040792025117071906220209205058520588313022221884623985025336502848678032233336672560009628904283712662489236930263212072044698023974288754038824981533683111653974999755327714880666584521775891770012463064192594931003792506934718692935847451333718790248445894003623227548083062585183602988595111628156854532969784941422187586125173133156823286519801587985551622555517346412896724445775967496291130850831665927144830539096831650741546702432302951275669081774734209502635471488990274236260390293800236315011078094906911392078696841298949108459918998366534063427283082907892798860650628880958673042227608588209242036564678105587329166581831701092355394040879145100416695251459697745468284590970194216509459009397627148312051896468661714816842363833638006139254165185128765321862259126783938167139855448774848064393384726648185548232370564944191167852215136619032598259009770453256401346803846450027645798832569618449320546239936237764106002948246593840844155407637340151696643378509719434304201164668827154396612442105637578177693984644361751948677806504454027824575863071553166963886309219085339925005365252960547986331422842602048826018137543542927898473253969570089071643774635860988366441311898596063997431224983194253844635587948973000534218065054859360529730207201450190546291750844045167743536076087835241499065441467295740493896533521584524617744368482866087361889229662366677494143991178489059259897130853727625216533766671544119109987994074448535637231073019028682959983211994257734090368512585212794177933522987542374278491767055916186744484888520363349425461560294657502443193986848601074038642376576052647207092205303232574190285438013160041914871791372749609262686293593789800222208293278800814926424903879037508876483425181118193733101969658385858219843298340905698611139149321440342689430870321441454166816558008704780409668937786795887020389225379270355947702132287527117685358273033155897647869828287417333269986770391673170062284096866492681858895109584632743347851368000075361548611886220187246521211950765290879711047475892234780798792442401906777790978080837786469267233974385326708771087025046555595144217757863199734290048955438534962196142537777026202865240218573094440277277106898482704383048785869851110812613936623848860418980704747690099813626869089100403373083315952420926698498944967831358648805936233699871181974063331830598299889145422056519411180404935742301179592035006920865084606332932489396840503083365045734154204618825514925011989901379264887900284970322329340766236820079823651901317063817925885496824618540005779589435205656847415003586240213252459873830275787211974768989824626281750901712835018358304556927759697375560761126540207258814443912205809700297671110743823385788072272477637794545409725767696195045182998569109631289464922252794291108063973462683402941752660950554622404994717486598621306420026257577037873626185591581787977378790617695482430272986322213594364917172738794222839251547537090929879140348760413145294692668428586521277527284465054664263473977097818610138869596530649242531204508896800961634839499468660955521572647128235964039720071837918978659820004045720812213720963991139496093718923225817503842473622085005181230229593790406539477073021492000275748684458881592118750043677470603849939832267399333313757277853322893779627195458546564468835703579205837406840089279779257828584307207414959624791596013951216336089146592637079721764266917460349382831066688564625721815877829757917032585297882747927313044632097236030233245270632416969236889728317129420148799125657637529615018885629107344897180435391013364260862581312743393779896920284619475527015620126446932789527558254804688428292597826491647118703378915968313271175121869614338053703087114228472108997135980500789150069850917085830009243590981523811214991729483594509421918431281268325766913027942752189785165294592543416159577017230635623284952022780847633124382778331375525633084297348095163146687174581781955562686554110971722185288764405758651008935956775464892899359519398449471419156644420548448656398624625677858153964903383277277652292782235480459070224509939069911119136494909184893083915277935146212961140109269722239178911514459381517433920996072491093528928324316877243502694983345459180127464382709383326158175981699851041259523991880122911208059907204852428649846584859736719137742468743018028512209384697828922755823179818410337333295925810459510713022143439736047742486585601740736616351228012717369997085434227617222316667411734959610445493766844452918294748673737966931317954235550108204574197312401036572094938277884187640669968060991711270442090505927564700515747047136261987864339556220915864707039162528936084580927158538714934238084707930765538788716184768858071409837411655374955720738113117296269615581063814013421856246270079792666172809176781304099703340654914676972501860744258953147265649322201176413027061905020707754974595616519758969020248427686337716098753551016190753003314416741941819548284569470537737931915608947042814014589452116137876482060449123184784572151925076924738503980441998595419229129945723213842357353353452420525888668170998863634403057060575046560006413183535175673016287546323471931388283571690729859901831865961340106566936271594035114035979223763238546586420298855740144452055334259758164745231284447410369558887803344084621881512867537252619627457537479178311188442265321467937421897392757108466651054036592063031873613416466362331444347608542642119280001857545072823907162910904993127880547465542093370649391253233661053288727600103367129661391517066000691512192019522143847359044738385765754322536080424045847238442941153258622222927695782603837801369133233594108034423963064278632918035465031286102534075890807916175059812241902340062549117315911356515274772625471672099521206159950032317165189210000236129685075868359919284132655421201685271887234319471925939702750442604816821523862688849779110670626910786847265113135244524940132958357840921480022022034293943375302533848365093211178838603824450419042373834368044603618564433712852047852962164794555689643942341202031168206577472113302840602029607125047528660715520963701078802114212923401535134496324981287788922601539476465754267214246984005877233802855392081998421559503744508896605314882607068460914732728521412238249250205850058664704862430264982413075500471107527790185956707132061229488795394557191604148528885202413132928800000503319698669026150468130300300623650441977319723553163442207696979900354133429977369268179326208080140203691439800088463825417396190252116708633782799160126722344650675419130147195398809309779587293653544740309492960331360997433024010777855328672991267236530900724171014627499198340486026052092862810237256686771794779403868135167185348496428998331584967907489622293702060339540774679727005381757033411490174601988874904122482950416833736531672999894458593666052195464544271272857136554927667798822660964555816169883506867526391368483938122395262011690962350002239923228393395178844909300741068526111137080778326521228021713180209333704979737322053170867367571645548902803599776337963367816878405113763929563753392058042970099986515904528505258972619335471224174009820750041314228998594926471042269381466867904048656244211951529346131970513095078695681764295784647231988327671912293033862021217913959496955482391286860345911807764619412570449381313607285016252298129993666177454159196189385733765278743603474694484043827944679366920880382354401188478325948802727896957298965158581948710560642157348205055536659376869421380993008461924558488572216046588614722295865382364512347204554010008736114572392178148861055060029889734313085631826462115300947286663768400278042590236954488346075369149283135905781762127440695901579334971168921527893162255885675315460786393279869395055473572889655192979995613709972112884657508054323261358401245641961086959653700407011715012857902083177092128552048937395797169353845206158353692375101676254918260933352781089418465056547687421070522590329789228942481690524675266143177358846890112600349938330270807191248640033272874770067847151899687725001052364637869915720342909163559963179010682918205921189254972593439416268706748952334295520652032722772360507592623060685356978763693537010099254663176786312130527437946640290223620943947085956335291143383411774275239740936850101720290713408166938173545746668132753175755579402626057414933803682606063780304793805436871810634713059010569449512339571528873094300329212490765484429103567449139302328569158195595384412736096268742809242464057943624856822367110249392380454245341482417861608716444740052516833578918411504151279087803938301159196421208224095066350807997456977349869592876453864346180983916463225799513388878642326698865589666644391156220725799501059205610191177555555601432595068110009067330664768164913504411288877957520015609282633496922958629469464985845856066154471165738794779002200527927423173690720596208772405850690622416140735703918226259985989909625293925793455167269562283485561108098335651492424661672173284256569915017532577117232759356134600186736798614076631207057368675734491065424768513732594913968620893344815221277842934584118233368982336847302413425216871941214644416832538383822204072738683135722942063229281147000613454027818546795808211264014160955837104249685627871566082064060707398146639378438568869468186281534826128649156957113653288977966019976199221886925826162338485878689452993315670304109038241135326233016943103328896414648031883224249350315855725025916828478205277163815457390674502468688685086276128666561493583291429501801229038429810841000415732119203568668536435701961264133047465431852531692021659720172848214739781027296478716910078581700292096746952730973339656686576884712892882988701297427515183537632255788420835168973643763693774506166516241623981257938048879312735378177597121780785142630205853146690111217346000452945113152714980281725681576711870517495443471091906471519101975585381126924508771218672828439955203871955362689487794689224248144931843878649783603086423225205286084203517720322043766662445731075572266464356604516537155695228372080167085756849020233018133782812415210637628288353128497923652119475845972520192136424396040444108041122265474852457794530048403719960375819614668209557176790789173940652072823109719109330038043394387364430099674965438309191371547979907369167500595239648664538154964606708101387372896704202306452102826743752878317512907121381730166256322902960587083181218883232098196024250292356834530527130166580251839110058823535339218721219542961014559933506984425655600600257014427004724433627680635957118975870215657230422490074098609096837928658385527092208397618327278403921275328549335941178889887749565152612609913097789605198979724600597489888354435600569793657986353072161381993005203911346403241106083699056740981991820117123519093679512712543007444827985389513935236930324206152197653825095199391736728574522634282236096831205465223808801087505355051711724143384975035847295555500856798241962053903927202647807060620075479865363884313159668810471039493736037472346187486636648428653016184385373301868393468734869596779595438463934757702828532871090696769307497206980561988740531757063545789576091523724107868779190483959615650219489487762127254562766149023857108925930754488193283653053589333933475740606591392072300294161169167340801969816199378325165206222336810576735807095112188744045187872589374009811689022172838524577540628034761003907252892058793312882330864237604024684536515596444193199697197195122719876511313776691665261957496636573062781618320601109742899255831339556393660762773482122576684744997632955484536617300327944566617271606231911257792486021994736555062980778385342989554263202126683228961941263700350487619071084725944103792112659829160086983576951525569698468439834948051677160536688825189816575726688930836476619083107479971501746903062102705439198483485010749533845633042864427797403172794208537278018707181458457215648257457133349079551679291404619728039342696798920614430083042264340039554837447935752053210747415762722796453343361972448228013390986607645449225723670592591218639889512118936174754532090105085960922710572905462016692040470890397825110506717054639905578645787292819192333908530695022834808508117844121827048542860208357641741814290459040701038460804072080002275507543535968610034293171843014674323362172757017628484273909267465270602476775981411215089367168010721491828503192621627348582346437108506166484682255854395025858510060447132768546507546248917342742759669794604111510865027499635585365532302790865174601392805193961641698672926083442952175982258277821183916783623565346708978408497426411683343582324218353497588743460771447175251969953349760792109971262764770002714440647086152438376136155633712571671011590494947971470884385176446930652610238614177904297035178353950063410159108798957537923729297286136775482910340975514350033268138530892110910926475863113437886978586444041197375656990748213486244445596938146399363156989838787668828547487504752889804487495328895908361958882666394105424065032020856384754224736938350093210449557602499323484791222647302066296408704935483565647418925025682500323434791215360777796447394171780839767795967532043984615837389229474649240488448852074588058002147851029770384812883588818353545995125686432993847541964717734696059224987552297299282249952883954248119519719715068509361312670288116389001718234700621169582271203214009216259498818512352897198811874091386771715237544287045174226505439410914122227594688647695952527647534853549065730119439953972724937616907839234322181262938920013356004407856672953330298821659690681811947191439806175754922687214191878941944166447156107403237325646902196072990070412338682734667408767313276090820775021859857775525897932511205323992461664455517432831701833585294855361754450170993879322534999646104512877070537372237468283863067475342395091521275432238113053682692840435732564952349521829313184899918972290410718361197013359393317620039613229273498102936960311479347197129460076368563127959633480066152379749519170509323779067562551621826063402786845136471816663685699392962246721949929873894153005741602565780220819814628033092093305542776202101955231381121965244309015849027290848108640048061455317888769445999568604775355990526747976779018114481255755736910048379668357743133442368888780720653491589547558755936075269806478147922573781021060315601642005349250132453101623125949261953236635103432383261540934206345589577742330169723550274580523302854784506538341217804412846576811583145897895837951803664328410258021907919102772219835398583863789056424785069426225381236695726206537315002673473457493428566896320263221969015693353929277757258401370460116028007973512532839563378237278513317504620965524678240713626200050300804109885182079318327645744183353863223814937339725800911092150880389666642139692285720439363460292387850336715010707733828545012746701707110398621045246849505121478340276047959860521819484719814938886196147263884663943665326016198861725102479946391876908392422546092998875545587168960423974663126398146942472918212091029106437870507016679774930559155488414230299040294930913107578387877536554105623328085406448847624665216220845493504629294303192182399027759970861893017237568848778631031751440757179293919150825926435793516971695602620139511002366156898442975324376808047663179822417739978849070728952170523996575892672010513363318769221109675826931609087279415617063573165288089073048746793307989729082081887916574904713873405328516955377052180876836785769388163112848556198616193526793843416298959007923396001339483357434713828048612270566027242499687574503481052437226354501829837373648760994236143490993712743105639694917051293202935832977955716833895556701333321809950989558577482530551506673635240295530617430608741573479089244293460740417406051123620089155976543957696506179230078372974603314167638774811801145435770299587118481448509421804280844177203105753228194060797441882776527272947923662549472114174463601198112871469954277730601128700750768332151016288303649636687092741451220570345903491471610316782585111395461429418791105112968304456441884429312442191671378119592315524081241677331206712770137936274896705448740056822427443829215896134991099531087000524748166694347946683324206374476563105484880584658944110754766444946690523816410746452138928290978485472850890117691002240477166446731476787499334613424721171671125138076262350199135115844999532427110304996568194550290138248772585347243279328412139311515532498386598469017049578894458948351671900643934621705503462893572951165780084995166079615615945590401232962817547290508927612182553276388316831008315204959814358330140796067362568496495439374816830681550269537083864044250752800572124842168457941485556887161549461568842281219897099509587705438805390966160831896054480498737494407238591365416907799235505720063031260391945386664573842184085962610385252175387436496404627441903546125188402960559299521348948760922080388375648385328687458870243089801147786722490781832008068833387064179380036515820050300821563390881318906455932863088665985430220988764106141449744669341821535680970943568918851501232994685014562785125897431414440822362950112594624583413905346455495654950242998157449325926187172072486729250024906429467786305740589905483011315129809906311741851241462045600465061918361780463012252493570899115593095642605077056090765663105835038924433211502794280686451761272028678165413508226106412673450145905356481713694680927455493921825374592218316979856833260228079553063958371847541341629278935559885004699504285428639723719993576223572188242075789519611765788817641520931776612835660015337845492571773405135662033239551931651707037809877166287508631796527321064983023566379243454197557443307922136912421562693058966303790814067741406744103080605664241534851384891881784324465286371738695244167159735666524565976294062631156616116857922671486356059046130180249058153941989891894825568369902212089572968299528995868493702314116828197507407705120105507653696639963977208421263268145026250234260812237376663425438325047914866506118044894621682358238959690482688279166351357197797851598416381023963477627769433431360173387701959158023664868153838531567070890635527671506753412080107007700333498882187462838720302550281115947888512034689479041711312570936146613580359574326352982461528565092481530505005331455601369832970714492062093269421555424430455423387475107191312989377440864290333826344004108954806944153895988924951382803125152394378613805696990330854067718676185828715309370046573374472757809998965551915917280750699763420347933153805013825833408590739318588165673611671376163031933781600149245007400829849398460302411137193106674242124661836256781891669485121257604093643747783156652651964483644913321732039677874331673593481639941920562931879282413404396787636895447161262347516177183913277286226490394444208030490717512808737783837426962673591450251035016115044362928508765745965450408217191183398869125151341581966193541764002839105745582608048315607023616,
  best_state := some { pos := { x := 12, y := 12 }, dir := Day17.Direction.East, steps := 1 },
  best_loss := 102 }

/-- The search state after `1024` bounded iterations of the Ultra search on `city13`. -/
def stU1 : SearchSt :=
{ open_set := (12,
               [[],
                [{ pos := { x := 5, y := 6 }, dir := Day17.Direction.South, steps := 6 }],
                [{ pos := { x := 9, y := 1 }, dir := Day17.Direction.North, steps := 3 }],
                [{ pos := { x := 4, y := 5 }, dir := Day17.Direction.West, steps := 1 }],
                [{ pos := { x := 4, y := 4 }, dir := Day17.Direction.West, steps := 1 }],
                [],
                [{ pos := { x := 6, y := 0 }, dir := Day17.Direction.North, steps := 4 },
                 { pos := { x := 5, y := 1 }, dir := Day17.Direction.North, steps := 3 },
                 { pos := { x := 4, y := 2 }, dir := Day17.Direction.North, steps := 2 },
                 { pos := { x := 3, y := 3 }, dir := Day17.Direction.North, steps := 1 },
                 { pos := { x := 2, y := 4 }, dir := Day17.Direction.West, steps := 8 },
                 { pos := { x := 2, y := 4 }, dir := Day17.Direction.West, steps := 7 },
                 { pos := { x := 2, y := 4 }, dir := Day17.Direction.West, steps := 6 },
                 { pos := { x := 4, y := 2 }, dir := Day17.Direction.North, steps := 3 },
                 { pos := { x := 2, y := 4 }, dir := Day17.Direction.North, steps := 1 },
                 { pos := { x := 1, y := 5 }, dir := Day17.Direction.West, steps := 7 },
                 { pos := { x := 6, y := 0 }, dir := Day17.Direction.West, steps := 6 },
                 { pos := { x := 2, y := 4 }, dir := Day17.Direction.West, steps := 5 },
                 { pos := { x := 1, y := 5 }, dir := Day17.Direction.West, steps := 6 },
                 { pos := { x := 6, y := 0 }, dir := Day17.Direction.West, steps := 5 },
                 { pos := { x := 2, y := 4 }, dir := Day17.Direction.West, steps := 4 },
                 { pos := { x := 1, y := 5 }, dir := Day17.Direction.West, steps := 5 },
                 { pos := { x := 6, y := 0 }, dir := Day17.Direction.West, steps := 4 },
                 { pos := { x := 2, y := 4 }, dir := Day17.Direction.North, steps := 2 },
                 { pos := { x := 1, y := 5 }, dir := Day17.Direction.North, steps := 1 },
                 { pos := { x := 0, y := 6 }, dir := Day17.Direction.West, steps := 6 }],
                [{ pos := { x := 4, y := 1 }, dir := Day17.Direction.South, steps := 1 }],
                [],
                [],
                [],
                [{ pos := { x := 0, y := 1 }, dir := Day17.Direction.South, steps := 1 }]]),
  queued := 6171404934874111711998727632330801915925008074815155673596207590974748359118988882454426183645352312667442692591509166533773899797491183239818502961355252211905775065456820245425464529273333919644808892274676022372527058538359631160416169031023770619954199246857909680208916536154950927031425651257170628015157650803218082363376118809764943594190049216971934859846366274169416751856756185898911210164449987241390322144479038736102590013112531788367273244593450361953398500689422784578116727228447429391222648317127260399690151911411676404436978736959792900722488998218514382584756176513139454838656494836389987272449316288923435547258244769733772186907083118770122838715310490664603709036611410861862594797002513224736158793409242387822416594339936010688832471910426796393785893033586109669754946016208435736395870962033821289476780618690616216455688792560590468530326164149023738122111070269642235417996213350423859256705767859642930283526620690817382464430828515317366581779175213731600103995541912428059275684445000243938876423909706957060715273415380201174122194725894115957877416230056022466946920349696,
  came_from := 27173388581013342537721145703130193009279336732657069812651019959309410352949487004872479708685533187777415720411452829192399287031791398929601834350219528666540519753343471615223005055402723076136102945121453256923591758792032114883667455361857689714351444956011220694018324273976442952615879828692253255549868521916036395722959897259813028301351542728692029407557458198009315015603854276582587363973554672068915286308806447527852272845523993121666257812059929068814949078582722549705505282805914025627618217108626474118163652399699530135611239424490411109069224682328197753755279887942498126646534442211746748848439338766635816045534695017495002136965652633059809101715950801299521242993875685786657999879079114085785468010338038454567682598332549329490699889048984364081976953123340551250553118348737806330716134529546093361467963748225379164996558806187745962756876520674696795433736417745430858115000315619413242487722780893475931753232351590863592290933236824174413540445469649448146480998670084225976564569152413507853277499369274942749387870343138969999564914158911009330049257107229840992909354343970758059603261338525718151768226739162354591682058751937264478236715466325304561976889355433828203522538871694676000405518491772526192663787935640191294458509877407914563288666139113129018655010908484037616213320708808521174645984437771264270150403210419803563000517099084929436644933823993891432484822674775571488679406489302271119667327914841611944413080982948168341649293379468956673789555189419193661472343657460533717575173129892526361697121194193250797997958554970497691407327317130974793074712185435782049860138786837643377792474566745093918277277658453147530461031615663041849123368292339769115097943318259864578524393421318397874481816383575001415861360537920961968090919807903237711208667215084670824338951364484919274336237624512172105348598230877042355881471506370681917214664348688698394256593023565444930554342669523891205343330754870014198548398171338510377234708863732610109775509496614529626029264998545003916367003983885931136295891300894638919557718388783227299530029585704058728505517297909228844916878676185927456034738105107951839801390964298620401231176951180035858121303198212167469636403018292154065568597516958402075169681537550548915596324986880067145637790908380374418905349222410724043514806573818586366814059794370640293348971192786305549032686667356958577455947171839405072846857774923424144054204474917468893544519946453650489333981624265319456528996591866106381818406481276194433736212136443584959991493051325248050852305282595716547711829619812551118010069179620136368109104458690806166196154162125974386184726535327132298623232498876573189613000064441173412411894492730163567109757965322900300680872056828737954826293175296039203163232894039418923428189060094952012205938764550750405594731345143507273591790361490677748150183120657617727503078362228820305520561733683103132485118336872455022454295994112024310320401320899290166242716036941156197146158024656474515155644293340970121602236466834006130981025024923301936580546130899881802421055229423203114735054157307006573280341016659115372545666700202574770994587716657665544388379411209137686575202998540421678281640803274857554398366042242606603261792341101823820918725762283818878757532422449124018669265646542617340164456763526336437094654623393600764608176020859367616736709971090935309748408306149098600662825468194751564345480545920557321684742264679049276225072569560038640392414247219141462100130724108265741181693337534917155866789140749080019479791709378547054033141427201366573759855740526494325783516686979673422141652484162507739784057597803336879257109139788792936469916354751034089622614164355449412120139389286409596444015506806956372021627990631406602922772705801246940577090608781978012187621739952044586099131968178588153965937748800581594732090722010007718832133430420023942755986911116714419826110320783678061550080305441388754640880593731815454389245990334916597787457496137214632515890071183554314078232361592804562699305122880551809972534696884888297031293401701261816626566204813015693564251531432958970632037874336954124040322595209549441679037554377331011979961962801558097792519849086225250548645188336940314587012739340976934540058147661285664801248445817076535149907759398473177714222921710993863710960147541923487609823422100539578267244122954719835928996276738102928434089173616708818958954278342376202245029047654760275364200583468300835832173355238467331057135512387142070413326199821212864670149882879046707199298492427358432676719741474704549894778949129366480348278425471445030233302951274270668486329949261123362030966409787551743514160209896293827948319507732515941100816687708204856722449607284423146181633886813173122885320559165341452738848848885236757552809311765866104365472604515591683606447246720220384458412902993024165300163672881596769067733382977698496370984165289909330725668329216581801019544522175869606768976428843515341387399063138272999201235001160093061493091888344042555600421498910376276571019652100343742743871997359808638217062689717803640727647185520857967164874514869088447520215686887420460898119496703736987392764486638324344768337061297302349807516663296457613956139421151597113351005214642014481456641837547627513637357560184434726664508905088851741078918641698113729745465095028167471614932830251871946418590277785892175010938472360237659885461745928753334502663175087371747628045597384857886516363888736177807041612158092332644453406114935337650788851421366541550141098207920697503018372108185253583071718122654682504583718460130839279417921597960322170198529655022902908204750485075924117421622228152563187903580914565616632343778374444970137322468047064794533582023435358920854308526806259060344132849939549664491645398177526837950366641730341862074710098668997767845536799480901419398256419282725698031226744937804568178798409478887126657371810614415926179084704243618815640914206932916461821304899050674179649592955495494923744461904580414352217949299974237701424356531887492161256895142522352452237846460399215036560185026032605922323674871023953413548976064958232777309576867267384084174584187243274892833095600656259944495697300733999402813113976435523403769909615075346281311403328146610885977142079746498877976779111550917332113645172629705515335555278946780859827117739000918129121676836846130963109739509054786893773112744074845196890370422910670640280712330140734441502832478769120862763282008113052813978561608831703082412750775554662920175544490424035373586896708251317894766561911985453260114353942155998096036716995681851481235588826351387325100792332895151218566901642091553709630079250574962086909019463942682570992506079293721106011074115019253552935907757424590728837546900790674144447155648055153535451129881499494527016486078085896944976333670002696900615534112589077944855660058025859512634952855929532400132139315103311000653133842058592134384467838805822919481334497400632883280218818542891164873673705378130189452401821322228005476491145666530356453474876587939049124778775774267558401786306512362211742353999598973110070308402548224328016733053987565462842501447593757788856101913742358662800690513842730156728821646516219116756505722447226464233377845875562745374779564151178228934054753018362994888816804507003128394619298211359931030632506703900305463124889041046863056966655967235123710766589500419781059609485813519176100089238406855981436637919022220876147152351880774154674845256738909442023372056184370620760297714012855125164669454426835672918019973089939772592865805895901138055923784165808593257598370482241277649274161594926812025384641042696076583761060655979925264249107126857605868344920122401557730861090158230846578187627918820857741738547359700594830578204813418629891945828640973892237504077113938234239638156842895887545234028397265048970808189995026167368679173728177932259795512378494910814740574072288312601827578696086883015681199262483920907295637566259295135469122895643546121533940717884493363511489706576800791769465401242025570271520113487783898863764654853470400982204722957963387106132799935507979351934861914491390462730037045377912973584557521847346420461813801215428297748471334776013507730074289345054832409100446665152442696939015700136376072218522765866082155875545779050151528648335402268613973767180652818509531406452293771873082448892541728236909564477296866276317530715423604231090421772926114740966967198922878758727180094643821853872052192435862565092909615914462470168863174506784547838187137213037559154585120925881133924064642706715625616163182349968732627261743318730336964030249393947731981164341300136814162751593478519239312287577781418060988861547302084142143391669988886928901137748481029051658882152965429476213082701584200464245126715112430183917870545132955841720759909708025605567891297064192010979725787905788335774146001525127559013769633162742458958076609766719547837358766881446842260289835501062426051479574715385004308431612736592323806176963476020976110304615530998930351715607444174939998439742399033927020926816355624322204384620523250620792267013778389804008327783778099637958524257953216093880689920579124277315951563450697086902607581693621331432092703748903828616714735689078289546231371305440132275227959304667369145430674937934042059838124749494382653528993869830984336352041388172253064278167190506210843519144307152004321389761194023559470808865589090435561891339564033617268590426928079470535740387162405269607351111707518008684610399616024060917452949227116307037725503178752958228343047438220041923301921523757672623535846065464854073463313940361957373638390121599451904470029105358972245037390930643938199377208626831285951415487136242077180398633217985323572998675816688527935693472603721244315412415617795448582956424252441300216396287106107910176291131509307183101047538054413042256412425174132147957909770991740317168408896586753764650105427646771944325660000220451972063604860388069858992992145771112281461370989485005378294799259263970404860620619678631671722410483777876399120254694129675170464857340451861524907768334833380535270205621086008373865339404609850572186919520946831227532379411540885856402058215927430374351982827039331334177591002166712993829179575380030299061706037584362483024904658822334900627448243055686753054416821129994350208793773988899637646205064941625369519737853474479443784740952246026682777335293374043858620432085862778265533241999326335288799588599900605432115962362702972175533429728361161783763274952486459219975785315963300808147395328174154126372830624135459571240775048489043037317396272210765576896753439253949176611806593475952121566374222077115313273598939516293251426202110569336240332935668275321912452691339294170555660272605974673789732339260432585284824510438267127555546927996898749929248460049859469895595029498113055798375118321891271296727708886185696742489863723342540479515183791683856382341234064341818796055424710842117676365442686037718816515738926505705362796507852980285149263974773240141381849525207096444064030502678288946709140313588448910809177455512000114451805529539880974126555491499640432526654391368144425736866144665879900895856074307349670315507402094815138603413945469752112566270003388996388908005966950763402107948980829101269839961893900135412488851646931840229015844296614176683985928155474833413901277709066529260385662309221648761011143845661711784012271279051087074176832616989352349760430932517314920293203015720682609498827120209279151981161711761639856799912193866547875941042985981933476944278384267402278942733599573732187730984420200464646880226169260432222204586662316478486815669674471333063745505329283431245432366687474802110034244648548185728897115388080852996944084556144796590254185396642312288602233968612585079264939224666363325290633617287543593151233697941410280016189260693321329385712744888323046616713969922536093458250130903781806571332529551098276216077625456735319506949680478000853678771754512371370954389107151327704730069818779906712308656371498199709885494236462387359360200898993439297532140517141166045042777556882073363280996160399710568861241614696162391651706344165578069257354469487646058952607293524040039795597517745359590094669098076967548368098704543166484259147089530050634882552097589886162613950338510375142456767898578718770441108347452422816353705453921376604000399518540048185540045595799654470763202597451222104730366486445419174158566665523310166182172033879036549329036720541073209578274892701478096799530078869204797566293108699586406238107211617113182649896020793062957326062204254177718042498602100933689493449047521687164459512602410570516572019283532150533315791066454162883614713034725877392956064375715294650762173586353195279774615182320648332968147095210708588084469632178292605139943708041286444712311967545162749731980803591798046080226051443135825717109298090229973967059899786430791991717456482014542230309302332274825746460258764318375641157697963942560166853707300544032571191783426136008719198791059455104197027174859083534690112660803117390376111116587150023346939600473316605633483132444475826347845551023193057758604150790296298161950716489039429363147009277182642037326101329271597524376185076002002633873505944318981399148932732631331860442730126920177851177415145376183989640009743770762732366335997120692280386425626451995052284600643227482239247422884797110727329990282918061255471613800699309545838777977969991288812191575668391297986998861885041791251925326545166028409550953606848310337801641484810394668281033525410427136888354627236508706452942948390068476619826903779823053874272618134212215170760091424971755208368213093747353221668702314120056587909415537665147342958954052027877372913849093238580742157304717464954358204139537743916438382250727467095388215066486633075690615457107576501988355086866557925617792328679868833822947403386684943688630115726518764048437521130477097284101964042007786964128534615819941123457837023275892502521669678377923160245224683468226260201485998640905969999249970435779327418394768314152692959695108079552234882067323128242647956380127544968380169812112542313130835294429892920831022836174459172412497225056010965647432271772960300974683387262752197525286828736080913223753436977578734726513611335048959405591435450637181830044528379843451159991699132031103256457656693846808572003963643575554931986246791605246591074813503474321926139025435589164484472403117612981372540356433595274989317186055722985359894895818743855386235372737755977612331722302232113266976373392625245731426504887789078336699905139363794062685259856170969545831857449168651837797766335301255832501666613128581851695014319135133374013736795491137470036162610016076330131885938282291724779253474951155566791081376591441736245814103410087747452600900819710503064327288265098717477946602842450293964871168133673742342453170758553561662137922446311016295193198726939342978397741608394894811486428307171191300928294685794939577640823021710690872689590205686903432051210808651877823224219102117458504895587892213782834666872549787743930246917797301159420904699054298718023212179613375662725433922835055822157124378856039917085756889171326945188862656462517140084545828727760847924361218766347004597077620832428758906538076687697475855112821751554610955514766875146843706606081712565169348573982355429533153468687981793374873001698315611140214652495895156555304946703352620293901753397761981921823052861650207396336856682540841984772147996759414050709296673268265645803131985593593906071871165587028072003241177651344721113617759270723805870870230360486436478751579019438259213968625277627871946617878836424158463521091983260926719913137221996592177316294344850064830624359999846753450698363991278397302184030596994054560758909134480894325607808532843692634589652845273281425171035005809820950981165567500826571452164222182269194293159211201354063158910178990087907989604714280308571694007119451936830354441327479923774415916810297685997335307579278349525745114156565851817192943748719686232394444266038573503179346008924379478970968169923200638670371757762298860460101768922382543091625504199111988664667397887299049465621744267830592403813024739643579449804177115369685295257298263545367113363160427896645366470287438115337274583582315626775546154257349577838574451200857282274156802007639821720768354296354224417089190178023408674977992840675837109842780096137594698790869308282813472888528598673063379678178120436739435833061108088737716601508207453910882975003180889738704549646381697870780062605544871572711448829561622692129925193834700860402254786888836348944069951352811758237493922046357492553884892372587052041008069689567135488610599641323501735535749295469719158895838052487419972781211321791870371928413435456774376888022260631665198690665882904035089453867951844550852801313825605318749577280746828951082636399228047960106276942197022789337675424859260097650378847415022050108227913373639763649913193939425277338154236154045761654151435443247023643563962403128034447725363658497531479218991781608609210899400309054198682291032468823712534813783602649412855335774212274329790324366634326705381968449050965612118268279371756046505959632180123417800164193748047256809291297395474260832165218345516280210280353005585627977602400873046555301597723186961865963094974569883187688110615074728243980733988879104017825855189377076182615303036776326048891945793450728599472003511789527261059893628092781476466704033867187348445904315303802970015642714327088477830430064438714863148104712902979481414327214740646395158232809871760458348206185116004284318433393272826412833124528487323789523608258385905963335142753298344214987194165728105694896486559269391882379544213488174941186043141668636083096294803702572672282421232406237428605824215329994623046911111110546971121873847819329480336966222750910384342454181036599262070902195028821739603947945984,
  losses := 63946058917236719228224144964499882152658236160435559175796190928183411482260680490709116421189751562208944073456615458723189944113687005859714636097221020850739753058630556295515567056814230522706802111133417290145948158482524121573648096360299354342532353893713432199859406709292103689832624335434113729977038962620678617392376248586649337225447981143940489485599061903803345506135064063263162816201490419790088687532997318114632948748901668378784381531462670554212355025305932236369501437074751672831664739080347725975229367647926499833236294064707675775963753447479131116468694564017800864939237139622529107257175941119038155723571337300193710024722769787775851854152346373066366704759873495349394309638984380082513923829257428272999253849022750293040404641649149570864643805464552871124443206531141927396349996601653545616814822959531679820150828156285449972172115988358079496151795817166843839592653496871920176546081098682272828537689622721117491574310822226549971371340406356699229997968089690371826136917793084844387570021760481433653744912090749619412069554733473080210236087365724001505297034611822059846339085103481897924473194234982223304191585019417715391579020665899587355941909580279560755570509229856887250070006056189343124160913013894921748108670514395554249393634507597418660110001621591030812093628339482157180357854009075983983280696773260590133775561769274482305354469615931268632570027722276345439757786147409112100834425039161006174205959437458464026960928643063204024657495253392439210023978968450908944308083922489383818138913100053177011162209975977071217927252904961361020796975240919518064512065401529659495750600622013008432021079846018194447649522132703781034207544235266896618437241353804588410297388109787786255472582385949172655557095173149369073014999378437821676447251886213579482276438887566452880141297620972914567364968671923890689814341391149200159216013101356561923288148775454180345345094073272754916944662675848981466119721015035909787896052547685568937421862330013559451399615726216373854715988121373657977952512966249453439791207448902954355199719950224644411840560718733576225311245336910583221837562956195120044093250142223046757010549757734754640740629075288830565138628430239848899029281778285544257685874434277468148353449046937836599754486748274727459139314004016828303688940572759642906582926156344411554310548665183192982634838584754588160373982712342639146439265972956321017463906091760698925011097526951390589712241644629837349932673693910065779335812959419503487225112020094062854047563109925955578238882873793608960020626273302065654838125832701473860998779328338313026295407870734608291334731043666046941754647997774557751928791864667405388467494792286507566404822093583709826032985103173062334148981899754512467197582356299824726556303298125400371073749947603664035333740843333514509897972656417088963241854393448586586402617594939725990266649585268357148801364761838704896514448607201628039580314224692808233586943381998819731818946326967147781459875999191407794278900746948893879687482490171413218091247059841574425752338001545026128920900581289567781307318596472397698766202979759440797968489199841551709447243685497393577949981265033926217631121987024878072855696335327287705272830888313944181053428148440506558965303568971481107417631120144241273204417006543846357065369459866886714245780191192363929443934553354436452327436757142319438684745814881493884292221692052124008613874376150925315451185629895348741094739647964050458968059789794097028063120444159085804135897870411859559690047194421285522602299343298915793109864059287631403437278516596223514355380374547574545781770117422593057236854219553957146760470188089767027804881885116577376523109170975291130947031574907007754189650527605240109449901883732833994545971204286037977817815568072686521527342742185867041163653112753276749574305449318320541926281288236725149144449140030302542403640495794351924938913055468158858679165571103306608464959016414662813409235466504909543693700467691632155857614391328766994361990727562026424479863195459672131975068921564090211788658481484546998554097423258831667617535355721192074651661638219541450458852916177371352020726894134956921900949371664415588913695992196228561237926241194746503512630752815005343996831817305129977765913569923303410229834373523995503252191857912725196026084593313955739297676101941378679248473820408337065557914629081581797069447695672734856616596855424686032995954239575975201835429700813083278562596008055637078371929404961335768315046991952456695978913972337713407513180688102253259465550434389251469211551043309099545316748500144628824660049587716163518656109676300166380334436150486570513568821173598962302546248803028107505411289374825464844774255123930029682029589179606927910497857172429697415769899709420445391912045191116020013140269326203414806188860038308551767938561509572274676059461313803209434098123222058355458998690130315146535967044346257744052568742626371190960488278304884080574418109418558655835440991306425288978332126849838237009628107705460937575244701625230598966033015113524239243016403897683891306242779898624029723426732702746490455332079849236395447503804679224929897957001889582775960883023348678730352016980765493919297188066195503498182068433334206110245435180550080109052956253890937592458126223684214125179629072670643567101710570142259513500485518101894132945159057382539333548624423124957008848339201680228711977844830564094644363299409615837956689436826197782878234159031241082481764658509635620199068787517430299867241214897727600710942187805706779354763437353667849768695290581105380308873816131123847853906775111080842797101836730637335900365249026274070976672527204790856658395060517351582033690820482525985298870846539072994194891088112107621157336746197578665678007812951813006507203030999246383802998113903260331235746569043622758026654282136370316992354254056161118696677774113354237281503672833719411883590910168614482750934136574270630306520090890743492149488977343469554069312337224464455530740566438263227732398131625131980822961516134075465992385942187875060933524346852494966523496176806853531813176698371194979118667013554557740247008615081438940516648910065078333483690206686135678754381373274415977151614360155415633489003495988674123272965096651048313931257559518574318642839142434822727829191118578643536403680102754704550677159828607345447684637873067344782108048973104611511393977925827174677517674378363079540209865460579176399170213180781286507700796361850101182158831341914319406138188068335011129968558682034375824560879414178152129802214588922244659030133411988437360270571739153783537647004055396325937966585962068076918240033025772571777081545718149004085354793726499837375603708511003777063333660766377313917627039861933245785339633699832764020225769654034006988803721649473726526068200390934498890699760919360767570489932294550609337092443404592995269135610599765995874907498276778098560897718766639294378137097036889095019506727583868257985272617924443514117968370852013585010799280503417378065285796031964539617221046003908594765347980715010206115563761438437940171607530883456920493038196526758116701521351310091108584523480658034610050918676714967553389001894984872260719281652684390187141700459064087584602552908649761790851823356916014451071491196584361490994335624756448096039995039421204502493078003775287831913308183168210682850456902101046706945273148534337966094527280353512821275512026414709848337592768102255336244418173060398404262918678005888933189139599850409978232740157285950173367016346900657853446180082663037197657551230444333693767615366532747046009476365369792241138336621199240035749311122286623063258167765264257563109857170928704624164951212681691231350802508817170349427711464299686047153726510389418206410676728829180297484980460106336826933083351817242223756567393948259149703399096147285917921047893259881254807946198021790757234486389213440202776275471952719940265639522198469191496881895465133701953547672918057130354361107296427380845256655619225352567436298598265578918492408994432153808129831511835575984840151691403224383079779678110786054836574240834340592218558303662237825152570274355457143494004333727335399700854937779995201659111636529378767587819292981838975857560109928203047972601144059901509735861031993095076205848025134833457151479720223875682514549115725502529444271348586828953166332583523431263492607583375625917945153901169392584349355947385116373912712643963404935874977311037244953883888994234838327884029311584551457731838028524953526825568937946515075813380074183346058190693129680988221629907052099748249126737804671738133773475499824952501945204245817746838680877089650041930212377215271286388939173582024862850353760722340038664544188625705367156332832564991642880278270495209403701156282226612679212727896179731377942448629741751801662427746884954482008426950675445287915150819024109001820608450972155984539806992941201407572270761518332528543400752361331585564812172620181062111721993473731730563967097373938902200418939398324452665788142841058428241128739232917088295319773833387053768605616462302096625877712710011540387788157561220494703781595329284612241398794603661509471249031228609852061529877988697336427800605435356652743239734932433809854511215515622942278073052945042209483744870502148530908508888976733077591759408854934001775550542225421543276056306188069802327513434185275647225686821387745957736962552578543082899924174760349286167657510216798297509068234503464425435623505375735695479723370568402762962804614300813276309909187984793354684805614374230201810144502143201901119210480594060697878176256867647656523154794727051118990140685660378347895676700582088062576765959461561209087590042333306817922058317750294113224677647962204241000349950087120264024170937350730273672532149488759020707609387603445853794258583834839110572534101656036037105400940108892812159842311165191124472439225197539052786959032391972759270547343237426849965720044735037598505377644235337801324730725652845771871926422431470663706037227692359782009242366413906796318815749744659114971714409378986942598791363419541758544423377558771405385108415374863515596166534139331967520083915995089049725263913781675501691971716366534382722540565924489389240539739964977722661786985812768003754872978946749250344040343451587187471087006475375964650001247914143587869909218828743669566596130519934187684902928489078344598719186444686279397098240897613723967403580099242651901801502561470518958203467928650061513686965604463276785410047859504854632874506271487855893881843109459493441601218817091524815465187960462404345099327132376974583592146788493979653193537141811321264522384701985775611920637242548631931949693208281507494574525757286106307268790818296268381180558102211428937295256827771525035118460342405651111363763054274871639395824280180229169516041357441122104119920049595338503215473305986264424302432224319246221467121899753641702488552703041221447722513661505633575376887114475039602931749361847522219967005804643603327374563408100194994134293464493137838737520054555961625258983937417487494550434316284406079520849046926655720165341514968918362533301348963659691865544963762437723144368661859192859438654382926098245118851167048142464522381292627537993865401623551058822970558083804306461661279025667924784124367896503307848030267835013790892098692484051182311666229658991866191349976307442579870628828967070491017223632831203307709876795188447539302638349617567584204513477715090606649143144516886323422498142439320074972786540774628863007383696022807337844232160979618952709564469284240774077085194357480784991683948171759840494930426196825791825642869672340911356366837114356921154340305575435638834388393825319274803530675158788367216514901848832683381801875309656468920360072496842503823842415244903027219119697750249722691008157235556650280979936413900577719493062890875226152693241838009167682157423401415714594039472930724065865742436998441956197358749056593733609418921966515434494398853537741668528433662324043436638206639219911533931011575189131623977962625422128386533431263423873965134204826843389222419305627156715263446067782254046293119805864449646739277003174844321544681987339947964135187586509764196011316466229971220269976791109535734359229873458513469285295606548187455781324311517522264438082298206757036758338308000212461658389487512325011638472298618679534575063345147573577201168162861408179402448026862820717392553819721574362068359317934494580962856101837732121866716266845342175737043529810100857818230823677086139874204846069942614814712921911671274075158714505108304815242608705099540629878192264236889600327557256319893490613912472244621684973750684955660237584213839284424228811867089433458803165637668325000807245206110366720561810037611897412080220599937232053032405480374214910915054785920382129330097283167085352537979881958351056088357817632804125029253888564670973118910053275296572115701150284286668133452562182507205436011387226278165165498612637150872170139670039713297806834278455141128460153590363370808389474425236140254087846075686986200071037657043077809163688506398610348164768108204757750140529292521649584617418469387083700489254330034094642906297234736104072791973365200981595173354170655821391048396101896815036035499257387098034124689617175152857642557438119979723324377189704308833582975482279226310038036043147616627021073649943636848069125249588635786355174310633746970715840807580565234835855772599093933701654759674314122697410897974139527181623292222820124851038406690502181731315187743283276504906651270026268776987478855222403226076371703661750511404223189426232825292571962977317096047064552106547730249166996973947068429148004145503281328158493179432019651269403310682388631708538200712401500319834866950357260701714656491928186050058536356900092712928262305063849415968168146103926699501163315182386533692037712085473552058317172145278243367251955669223304190684055417395493331808023736104697129062584509203474578998222183437109392510637382773340298070300479204904877651025592494282954547551796444884362985774623383972062148424553117434137272859261165720673554498691499163855033978319763062802279474121962683341240922116974820071079575134122580843358927251481246185628728094363200538763012653609602934051389750407079264484805191013936709464174795466496180619201333812054646172712725161392895101586988005835934360899624698795031376798640246195569718657110988435033940474188507748429150071248549723302621454304257909793899154816786121872717536738216360067491535597071307563580820553414183235278706434907271122800233525661184549388584097167125183710060854285215758677653762646798468461222684921481359428188980249133949265562862351516703703568638817374486480101329581265576496501804403048296233469167788772427665013837546425095784019900277460907720958531071463028142091830701928651530864372336454463123117122487762355500446400221952778788727148417424564077016453834619883918519872212084478956209675440527781731165254295469700705503407346567533444218770479050101878214499372863869166097523434398540932769138574965397881367884169155311059545106228163213544334539793749478579752914258739031377340271312916180540067149712338300196952834152540069985497227371141787838803786408754579074449729318838702407246270764858194585312021014600703482713928914891227010806469831771020347332603263784887666095622942684235814003059597001014206485078102277940577694781077730276294019151690613660213438311604966372437818187112607437941333425507043233775181030735517892295460486821556129808825936393883796695211069499222922623367332558378714029113925533008594807139181114621977961912244227465481460386156538743950168673701880138059629559914701089687813631645440370618308389678444972735054877160590335634142375479335360950050212821814244375323285749435586608241420242488881615278487068534366557060971560868346167356761146830573887864241610615103980515004287150720963167525217988988815502186841395352907376848916225609903696784830264836647840135900571830835155541428226529265616630146412086756158846817973976356473598833577237931525210232205276500261552754930962177398684413834707212277521063537638385707962892170249512096001168065038213128080305494795857863789419928623867745335661466141543765628255835845056469797593769649500940481262412204530778357056885666360740745152286336843900977068037580319553668191582050831040866300435132756507590047963336991718894231017905340269869903018998619295326553606397602016091103158164867792882253807355252686145103538430193577957091063787239794854735591512699695363083467720250375804890992600474093361256993403678552513711844615443981706033633667363402598089541826476635926455624284484570077913058364978327181117535841659910998105309464537800084228567621795873231779264171052028386605117036950948168497733990253954912789229902572988493967828733318618754151215780253584460459902117997611956907232081766977296991019894547146492708807034438227000906256993243534833877483375204503324733004050266783659826497648600436168956689622040521919140354051715658412317487029960913216308672432920789788987390424576029844147258584162434091206668964509520637688989215596320758344136690373284341103025496041631268552301613057222493031738026680099525961775068290345640149113430628947104827507845700058903801902855482084854394068362001330316413732368934203671174634684214480709908374843672202259284668217960861763277656161147179229613727140011903558779299967780612281452918208898991881396090987566640953381626256203758085245856096577323804218006758889793345118685025241428193146641835676666736918424969543672070203419399866532416558215790041654325347011851659879785380286207575523008463844433187647892738162425774463429496678952407701038955120430710631032449680618334075551053352056170253064766820825680826788822103212455459527559407211539870966674645141035951999950711788006482023098121218874518180905794053739223640473032945240686925100062387092616799293524388383902331869482571731868517773015386853018206702686777915206135057733053919234294993853411627100824894675059640867165759210444724328577740016050714136656710273166488581664722915671600908466334368879131526528399334500015519824043406739884867307034174473602730178805958278773669871239545174928238843213005279950483337431393753676535681579251905639324771055009182660801177773951846378450641917573440513648373013719219948060506961829683059889658198000740127130089272026150986076461192179703040783858135828239193766003227273405727074809829868592896315367431139253360621438788119104875860461301200912952563170572170907902874955865521961008346411484438543636386510948968853242537659569760079181073715320633676789721536190400662972704102620126770123250817014135755812261656333942886842231302927746127549823610813056106805840465959758301876655695598066515394531656782181360926753681685703139450967312689915137837886204435734578075493347834435273180335059622536539453124967523361691810339408358661113786457680426683770157104719500636931254261300834057745930624846940406321622130232101821469020699283008458242052088909867769176244185837598545775558248118477779451355119439434480634164758346435664270219702942976780752339678949887880320624471749480113630030011400927686994005834093702135457194892591720921836427801075302563092449738335847038112368117825290686567106458221350475143805859629748690505123767905383105603179041778906245416203091122711676079924230854081245330201328825761682802012103151457773614668518565331290978507068270891003552865885039611565206536920472803605554142825914349976747340089040331072244468014216573169402486265297085459988135280309113934134968417558470440889813806555551787952218806461052996155753040556655722532697180736041512387416401550784284280483528543899918183606549332671424195931805790097710930796838417472097255972358527714792731243007970852009484933445518787712482261442902888645370409844724553124906357820864400858874875959030610904155911576931654620331721795648391612522115694693075367754211999792151362404824034483988444803764591565861625508281960201743999120412612723131458990752221468301437525160823783593668792211021812670192189842352631777249027086999251334497472526503813463659379509572982336472989893450363708981509073640770458998637801691512246096182021952557338379260060138954858798377846895408415748461083124422694270438525595376807777167216165666724872708122933169822707223456195864182181961051722407616984864483169654089923240868914051292751082885911072634071648830414856170161057940025639228664334919027673255323802196876609621517905045162225042887932057661055044317654551117425337201567190363986618809150098686004377615391469160450433212502407658749578802918394986355981333422535356431253387711742941908253633076603132674909484675880363475915020707627278057151207667512115354626460741555431765684263917290441692347463080495448785463177009954528315827451928632286929970281665786825796657895602406271302460751835589956650810110706689718916527020965352186907724575058793775964506413774756198792672093035013570420269671253660223222181534810064874733802584812285822182767016169270724309974382109400354840170954006437765274993629534704802696093829015690368317963448181024629957334406882716620497057252577229132317219704433744568347924964320110470985687582890268734228804495325257912588052237445963580841558610948574822325360331114589545395299843080523934728727290991692892718682332295032233979079391772614321773980192598358273734755740752644849711854536654033757139330290510217273818522654180771852076522455810824350546694041066412494078260884885751286767904155666746052101373406183253242845580075690918468124330165146191793173610322978876145343668840523240009205864125112397198176652388755245248544517298427945154498769497713246560252196874173171447799957058667583235197370860481326687102992864415072129438510579064524247299087582410911939180059222644804990077842802610974512541059515716986814610574561454202891736240006816007219400571055470526099172977303329656075196502841036364340997096682113120700713636375699700327837435276450047694665497773244685924461066966474447776885357560149485866768166991728212256447183350506104750688351579045717472798739823928567133715437461902184790160175701360647716615126495575433886019171941459219837003413061462417056178796949358545986803592163464167647400978659337950252429665196899301429777730654662773534695613153550000404276917368811014617498283601851890180340091406360983123230514602639249992589661683591143787918186159589778284899869402542605430342675940192312114018297577056598397506134579001096729402235840023359054716792811980526764111782795329647850429811495050706051219813513148554777850091707452749968620356534216724104666374627529635005779336087194412169747627445253272867656191814685837464309895994629337645575578719918500978009793764376231406093841174547471297986911122003278609479275496058328280839714417998089788214161477547394385086160787902357883862620950790140104171143828745795690027134934296375886911953398911795351559377750888216590406080871234682791317460154545612394233196502632013242094260218225663095959777300203206597573098360363470266655800783940061229278970917575258235683901585291063182393435148041265456734271204462117248834999746637393566003979258108529057229812733031948668362675217658148953340608871403067809923085776297729682499273348554150188193153752695509607385514587599976819909420150375874575064170632900503459768761768198550686980097703530393050038920595133226684457236425856319882147930390013058855331236688875002523379583842291784434357248828196820480931907410404479130100380315048087831671934187839342156832589642494185436860015041604676343876228330242668607521679333815569632647684179907488738938289624028531006926317621637563199632421626854240145962712463121667859906064992085056900001296542617557354553476050448826676096170316372966978899289717654482226794534688016276707354178016472510570366651655841498125092864806087911774945291514298115009307387243552531716704406090711371512061020444818534473097364176859899917998353661751802111120069908495161054517923137061883791907024912578654232516276537680873298052641038347491214925505897490434810816350598004509609775792712521173081029421696562970635369773940643008170328112126596075137519921837901027582406981563809530493046268805699387898546533411816205220175788568416954455408411960501598657104336723573286891677991868726952966025250892496434312237314063351084530018250751732233442083291800362340615714371319325990757159764920821539148887848111505598327933199288624245327456792867318486491885469599261505659120350529827754296870404967132324872560818334268327961978692248542586441120373612756890097052749740563330412423381596978058526889514061139334677373102788395475637760132133230175443845728921451895903605978837031818898580847753593704294135195797739725033385443681851567620059556484471559654995677804700622137197152667578265701359576483186240009332402379734709432823729196053579136923764790991424483815516718207189333974085625865237579585881759546467049590352366590746734305382484088659956938832993492864701305678403751687788426341494744233475949793502835339964641906371147601142758522320957336815292890766329380697457921650407685900396029957691992630072722249715461080727501623332428038194372036506038769466329541944696450164054467446679455564925830995768367113268195979235115709502578629613237775729062225488963758207473843267703521571162324694435266145154935966322778849248401046180755024537160570988392923108117011650492923325899922256423630115547108768008716349463703101100722341742850758954784023078455350361321299967426920623818142485097428050050160165460249335432864545810578323990308875579454937600103145463977638416798668046010083085084215204963708278343746705721119407712967765042240335778549053471080115603122792710180460323176834502272786142680244021571824412919007284775234436157157196268397861222240705092520075126327937092749169246815384807835576205318941615923432577200322820422450144010910274494062983820958485433648963271292213457236044387479172190730670742182480394391555701776370249382062819521675498539641455054867601862895518654072399495610447293188441173856269548624458702678092730805885128227657416432246849320585527691593184555790780469319804936843068416251183907946897957065713088110972910379553733468777634962082755502918364261131438230656881373776274784546738042055361872907720929149704839081449447611693670239610656367838060522586296950769542028670803295951915823369399547346444045237499079731651938234176084017289793831340257981623686686781428664891585239850835250993687694268182060292715105030277507346880640055616565053225617428417207064847931638821452747586814722533172140863619325557898302491838786588683903782707590402939587069821043953526616358820214908275700127031179091883819664900208300658932627470166029033093488345118935476607867700329816628875253107882423780129156443007760914071359069752408488380460933533384544491747524727396037591536121607136338785377643381925592789236412986041271057917349773017478953791396546725042078518896920872223874974317256405239610177924455385583283081922571955714108484137718088543758197824031028662203973973056145254870861560036372577647182716296765575992610266904392600600171376338300972070377941104990382638471943987100802862322799845788317461154845421154805333487109420397692868027798577867056605790213088669696619034290236641109892127450819334629489002855225409407645013229114084015894621052778575417675343847098345506538870952777349778910311529061105371120505373754930015655941183291374543236706611379685966280248424711316505303067561567419373955915021775557637375059198023175913008723185318617572990996590535789401484105446208044318202946107102473283949708810917389434777941620709409457093557008432099832550288061480402511891203666929328932955009564523097762062292200995338367706748406938128400923047953082902073265304995657741519919648968479192795913271372351440100237009456578112708532277316268935197472644235523012077232301000030457367842225135616393707671260371773389336614234828984790280059687968773790432999778120953578603235706598913094329579244659091670416195911792339905609985954480356675652248348933435162695081810623526503138737714751698353227666184676947626085774437688273786424588177236062195820062024664892117346490509897970531443665606216558733850695444532649539764992982120842421015598126607789171515151712415149097561142156026049722399360902022088336934060072384237517791579444197947863299146490825159414897551945778515129313534301164089363930187193811162751977354680277162874041203449854605364473554515510265651074715786762857572224070281516621292248441613059963660775867567514825323342116417475671776999407641180643718980854295042495285560936209849576271688942265053119123484270200832246062649530341630276620571616465855279627980619128571619344387934872369675610436429347516580588431362485741964297337440002558046949477654610925397723847538944530826847189795845812564611772878966449025375223443333651291056690592759541748766409447391818822567777147058001346477450773811940113518172456177326889314214088084925566471028927025091733360465618876412763106664783778706918102816615833835360387520586089823291146570382657161316175117199456943783306589231103198764842332961517164950527966585970637525432155395127063285650320305203598541694542330473588793789334613441159308044172187167413123563085676059916715605337095146253413339170093720265329017075104007180093464872769156902080180637318599695632015262652390423841152563806355878023720773139968793162122905652179550941156169128411548715710043129351589181940661467111897872004775458433426911813194790645306998243766022154249420464588174222302877706132298054773096160395111286147618536347238804909896981815578721450816372909456204397461817662356180992878971772936514113247441754457733027092504239085022325262894740078698181438155191061801338279427066382977099664545862786199626262128444858412793089764639022771605775996363312130393776341317714966080936712146923506848624815574857217143982125264604335650998026196186078992008020800449723075949983738358828960032269650201586885089360319217893744264396479144980214049923497246722595304039836110879885864805953527549900756534294222635865855637639068229171315383138849093075395597540126751559761508136512394304988545292103912999567741425132199650355904419510841011368738193247019085284218781231062965118166034021342138971449981639167211695866575273160207540822919622276653692277631725557933140336341663795218889362426403932865510196784017803610293353362267800778646679796036750342244256148540618694719061082388814925350324231819315998469137073623566679630512392234995063748831545713623551767508608202483109859942430545858448828374277241432738109724008976433821265404094108338533400136209112608608095790392494425612628343545085572731720366881700435277765220460941875605511225914902280919075737911866182032416907718225556625063913985844992969012846890627411176471575286768142149835418042628346556820678427738162896706254869240548075913806889477666396960890822809009978385761283558364739437092824825678890288833055752355849751426360498191567683025658874894143621618005157063816507392301726782227183437384688563260616323576770068099297900148096809138215494031291492650065359706923691879567937709659923055766884944089928716220211871579042964265026543343980256249436641095166263843992866244597995111082336899615560644885515592309760466059501644878043934925920394357189877590377673190700819193406444344185117598628194781484919574510164378173275181002000099887524294482707950137286720297939602205895535696467061989307647792159429677316467747965139655759856210898925845171973496773686587049703366705849699669238007638105955676398382517879696480547267988484787796023260086413885978813505878935040210169325732116179117397827275961942770642847754088696499505494046960002973680337495514328536027565682268016497723920123854404099497422104216542077359101899201348016741781487910804926105598827423988531883856518052767598696474727669883769680586466908211135526886934349655920211321692018358397784704942764870747593073188242534035760425291487186023866839274385255405268657201184853244282565676244351743836972697736773898178989188531208514401445220471368672520026829884629495792386259269023104540225988647388740582602990218352691268252465885938693354762346063488717420811670162712794384081352995711419452140027780433361600337508098525602800739855951255997666311598667752129929328010818498710761617236956620114494277502193586234102927055910136374297045162910117232354176939892544333620022387661689212130112677729467889415784163590110585829989132030455264766396493321404778787883267911412955783520510484466392575903656608897790467140307984910663380525536341368505454208927106939787731121434123175790620692219672963066965200469025618629216449424081226189115518071249937061117936724690130987912957794681122785516297767697849295209242509409725949384162264642916774573044832427618362534956961010000914478212120036468766257223549517708511176090658376538159648449586474791833125649069415908641767320324714702120636511390522270620382527244114243825679680121914423769773101648372763538179929043117860127804758124071196528790453371311187743794499801290972293716269414319516201759432661904415322906869666996727662275836956571992563076313864040542519730091490237639388930147419338873191040340908816433331924442492708283742896762577404852627972456445466608713952217914221276260223883346220306832664156619862610743246399536046600416226266559890726193862348536181097817386408636645884731973753331683662926159569904934989022079098800861901157698823335474292887092720908514062432962083171428228153948023045431805388983522329102785607980005054877628794372588096777391382694440969747900640514832788062722739930765193715795806451283599911002355314074501987879952278759187350268303964316933378762180475323405299082210420466467342041510083910556757130728780955785563288248563338350083332658046552362874010825341803461914194668203476636335281120860624460885888864434100059766698420243973162793694885724279852028036934930289979004649975177012191705368495323381098193447454623926198525476290199680724498647406378155860198297760210362154409084485903542155848758030744244752039172242073098571887612793812276724725692157520881185509340971970180265159023077913486868866604038995640206575641435964241024884121952093160254279767149829273996143366425804949463392354666251000030251157345307572120616438031336867955354708892263547419559724109682831962937390665899845310839794775683829000663362783292789275351987940852132394916253255278276822447290065751178939927944064199773727842715167227927573901620476022146897777723170710056730503244426755533917885990364909910804433559001975077611626067996355612926978000801066915340563281725334986057210840835727461501909244714345770305815549862263612877678452790200776819266348385018574675672357333865696482498822499290409145746404110550165611092484271491428462910193448625113738513359178299198714739339281280030232253466782720102056250685876848078163210758492409444840436335844721106881099728571599471271520395689112411432869584533633884068402179754872571020475971359568654780523634325093923235471986843567745313949653818009944143676249476123606489396647169467210850710420765639457918833027855620294322910704421910306046877545056417843685241169608807208129941243470759072969158238941212273376077040333335266828488518385849943650211184199138192942232790017123536220954129795570880107432219575360560790173424046061197119190298480332735160120891937944797633796047690828182875271440845407271974908469837922586130197879424145341162215148846437539601487514452189065837089811286519915046328763819886619695647285975702417053166767490310550853383750911234654641778174818088760101576109449856902298209056305443975378822612599353757849663598831152036019977551143595793667289573531671375913578876909755963810857111930117189242198186583522130611414839752489882337994828313191186863451611613717672479388457133979780872866395922887875815628470952699778814089721184455208136950728730179200389198850769677906251253118818447725778028405909224782767676438512655848544026064440291527388016516141017696315249545865958212038381801078805818743116980149297578375545958715121107389002068026288869186037643900079672398292796229517353002173912752819648558180003557447922700674886589867059960447919242776956229597903481641523233711409961869379697607954747403677843281417107799575468558498652470233844722579141223049664099065670160814717019121649369304972966135294500184531681261725268636272823941419747440716159071541055449241745045212649133551398868723092777654180301701533612819869195973424221156347017060490524487040063139425692735435901044011394670887045836817455136880933997883217191925337794627689382439746876638232719813563765378708404421565490126159983607721265228419740518384083253028929791003562511821137052339947101067474791891812749646471727936844364573315955362316202122863194575492461056197540685617073305060581976405341890090884438151983238303063968398331570766588105754563707916870383092871958951503383074928165639500111646675499784066946803166066229451703435067969479532845200583272403248304866589977924007587720679920663568016172868913525607900031179769508834580533780489560568975556793416461194068852716717186318517283784259421077903116189742957405827545622893727423959217327352600657899658234459086047504698458866503140631061893282496126677214368267405547612064388324738274336416162307632330366647949748157531557008739501364151400684020538903010859799787454473715449566140492311885918027361038062933234504686144930545844764111588109677205814718158037015418280430392951251179614505371482435467790172591005838123875274738537651589207762201321703431513510504484675868461282379305214743664589079749865242473117974030129725817757224080399942787058290550084464374560729183804100921923762882239990920063946303406949782472724835559599181562046600018109649160468268358562407991541882142027411167421454937205554138338498060296393156681057549210219484248905873349472379695930111823892247715913529364964891967249414012118246113841402397672470670104798883221584354794049475284402974724816445475180933416993224861073604410086844122898640064103463728345493231873246391791760150106987189752320056866195801336876232249019915274333647125701943303387798425217750397849192891475932248399484936979896088825942612284134869405558504085987145258361171480722975928197464946493371406450857108644655371387108320419419765953028951250791600824719558561596417176520554048729804978874007564992752060303072432237264795245295844553795008142332693720220178936816561336855727661612724228675857512316517720617673456898738598339431415379405182757255638305064134453632151900341952966136619330654242121730113462410578131695164057232882124599658382299162730054762284243241530880474778191297641408455772872331916393740282863243516672623526774242574776547994903432947308432276557067274543448712391151830515941705738458048320102127944381379377496522093853044872078699189571558971818324279872634329268633533519313826193566526501908026679871806562164491314804504320442416011619864096932091410223430466274912147629727130955962949171996476484333418397692340864021409272157203471299736920413885062985436205042435482810792927339388012870983346972681206851283372587756048409738051449945791505743667467758225705789459313723296633266774998122153538982970194642821446746036725141871203333835713634190998615963750150354667536549031094364628893487749302316260955866080489714775145189844175759242979542632230971076241261970273577122813210859296701603682670399558091631970517682854234402172401860192428144293291898784249709059040508429492001574868393581386285549305472987414043212058987510197131541217543442566182294959669653102699664799905474641932201504984182978088729551846506121314146389924566251557520475570173967197077813049029958312501569704575145265369432862491044789237215185132807389481070422386759881457188739046748627601504810989086664131877639719599431532757520183478290993117553419290760124166409485280995542758066746507074677055788101070511482192541570349863670276954708181385024124608012613308485681783118574009600268020299187461616229790614244704651017030794062251468627481831743897400973475945314261676201106267426115086953689860289068601469814872810457309505430564779205224757502083733963785255072315506592342373768663711017567064913629333481074158614108538481380026372719709950149240925681598380765721073068889822089987969795987662513876670976106995982826702719366036421552972911350392716906049794212672507075234050789270530079657808579185535982911152922562402765881313759525404820585951839558162295583360427304514196708229666205347828982142931323676642748436847801456192329561042658823624956150414832176591647628084857518645814283432008616403983136612108785114407171474044672008977151636723480126549308878611473578290515336380983084960303221062838919502160278964698771799960800198351961824417734603461384353988562015489922860789224017936615313347593636676184628684546451281109871602781776080488739723450569657180792068183598028066363110956590224743961162320563414528587565888591074740071827984406677102554815794685865074695911295650766262309210983943718033857059692080438824246825218484058234306009288458121271442985007409013581899547188400858173168566133368982505023846798730502412072463280932001482033728451777972815936406189870600955369273708475314021823773773713040987731821601373889121110618190198839455908938467099700396342622324293467906067010749770366369620767244457324599273576638706634019532462692493843034970078449769212651243898641541850231014200205061640572813307358984423765939696961419679289051253336962621873787906410794479289171850168844479327631124818112541635406663407482714470907252763556233754053334579958258584103755094622496510881279614078401780810283001030716209215166882345631659158089466975970606083164953380177303171276278764023288435578249843701557148580643072017188660233174128098772044640969372051526337143535713326561798722497066739311019588360983256390569888183676837690970315974089742451936584100859961486584500916350312198673957231811130901174538613069687062117692211745071259082600147338639774389811575233665955277561653131278518881072093416802863066088333036026026015538011471354953259796964270018240525433916122214434614300204604001448992215587627748795161420769392907493247132440629083516364987178957085955091358097953967613436550091788862161174061280287435092193540394136540253032839618570776652079550644102330230252213403059039364843306597035187140711427446177102968837051245880525107648810275300501818572930930875614251355899408736742996056728762264260559489262054102780006772940696784756196033957815470381786879213060513712926164758375879820064257071744306533625469936861514347386112255555764501487233819881485125281598823088619565281926889790817158090326782935264712882939206185551939442789671519343666141067055159193955986306076041432883845599467408745457642267007968358299638882752738986564005916306721739579397845510924104937879374660675013542597486818649122685733170896435975399882854608310616616043924405887318836347470414427989038865738846231217334539760563047077807969181556743101558132638563456463504939179366694918185423250137437535698019194114804976824188189380586863123318350441125994023083168100176015414483124439351836371038298897766828779101190193052444262060878665197390122316965070705210303377441103295536639400273133680157462446317770961244245773137186420248705775246443466899796487405433522460786956073752399636385331527080717687119731924243551527558999437451309579806065018596039396475827305058858510824714518467200407303858791458269556958172344078447418767304308920005202661581253848080727926468286055389212255668699081980137491600624746676968540425233756673244143458037224569696435211118863001241084178876660941681604814549307051941795330633689576173011798686810891218396927394258614189615155527975635444347448188494990729844260401222553388819865449352546075064395020532802591110586973501569609282509542730881719091000467805593593347725077851378929296134951099615063846397079408868768301680628141420517658230678831590222653107374589782250629965563601065066368762835454634816791006914024675199587447129516952480414673080330168492859438905171861347321718190104869775810261566667488154754730014754320371240523369069486821451937797779321058119309395171339644706210214104228718418864588174748382506612045405256928731281877462433839829774896519691520440654135926686074400252486876040185191675407340086374338607293422879568727305763624475093064234037756354800725604401236363926703475114720753039562383569009225632063264126231765798119165737191655475057584176355779682062341931514264637715828682540110280385719984685598598236702272978567570073303423975875713362095084436061272788226237576498523428005065138200276094950567938501025586108294492545229819683270460025743164658679922754951406352010371867204546567765902378449786335980624862852015707046829327133932367790114420439440226915159112009332153645661443432387012065274644136980179398652370460690586284652075763621341270291826713065892760219818306483516079509687139513730442992370608487724740807932516152298676068293603029141410729716247969696402704267379477994353622093349787610781244149933487398900745142945970082513947455394070427804534766920718410713714911451824547898525187294550179073658318623329533657774899513737949067020237729141874732188143886119330599451473044426826085750175204933987512687676299217775331491085675166179756081993174365820317252552798936325099987294479007954402892465648413214663980270750125407868987239232678424951900073511189875055230580094003111894372588721903046401338310833629952973579013741940325310366315955847829622397124346093307707691999402931657264819366791759096042726458653183133130289620659790561131342029386435693154205419239247104612130164948706617549660404203186087951816731878725803107085464289095341927285343092595145777120601704228635718480301106149596991295899641434426132550792249980405077478065039417910059464240318578758524603943741717663941325635686986097367698347484065843402918512592109145984048819707153505353110267337814143455213136832118435404112611611826732989471055441459984709400341383242066934573501995776223334651198231143013605137405931672574575962227529327617021241094926500811456644070682976082091636888120790659443181492737120502034182499431628393082106773734015909879564759105746460511281001831955075796606960382856211745761600147700731243804139383794195566574879028476283843528704382029678694515025000201932579171603063914253201873536010288475311816325094638036995175673476858453906508859327958867889547024822992377010952885373894483107331159139529784917736228280938348612775970697421644193560857745989638299790966467128325436665251025738766830317940768028473023250800766044171925559734271658818140872889161488795930029728590914196643462515150397935615658879916949790320195372819316026501155717577967220990555573679312073269732185827956264700751006349472660546592139567980695392343322358856880601573321539656816580922417290665394421679259924227363815921487670270952225990098987802374557743730617880542665033811327808192754450510598071996794096557982822743015732605872959047309092836922174526719163497128162229198573944859386567272423877081691375581613738759231591246614294678675537893590035724645037005803518098897918988974038412636071523588136608997778365013853488341431531914842415352384746769956966274172951620156915817545909975843620394734574234948386002888627327742586804113092161193256313641218435921266656014930476240069623114524169950970925547233618940003563833272856731444680573398961112947411466899195862713627765767934275970202684920406122044600856456778571431805040745028278098263279515309014702885628059160166450558324475732040485000372733564671031549798164417564548711466406205925601998235097354855260770573698764973422246593604372392824947930347891093364381970908373158710876443140109290569688701834818517162963691384742216666030478848731015536831909861060674473080522470764026624639068417568702147426729202802830916249684596717339099203107494325745570984412219584038680533190358760325461778983091850525425445181326199117226941917056055700137052618772622046510450574021326426380290505914882871702840967520911590118807359705215353089450381181040366350112557740704497909625201415921230780442650424777128715571991362671828837674854564011433659325610509774473463277862608200492295553689781232209979218990892381986793375517043740738071986713316456108865850483653299821772398795352634967222514503439619628534420009880248598334050086730792312806577380638039702670503446292179185248390771445643572143828905236889362762240707340147647284768644764624895319215366282308001292085365063645587612843092057984210739029595167153110483347426744878129968696617205258057458068491375739859183949624939850668913672384872020721993405592225853565937393143237249350974381783617428041758018654219217154331745584416086733953048010750054519926509714380967100528788499264813308888877258277486342677103180121785040552209807740110647700823633256622005892907173416051028245454127999286912007075216809109567543041875974338700812866964054086758350885406898049246492125545020640954061179789844860775163632267021442451212824521736592147107135877774028116529119878543059510961950725686900493927718550012509548595003675180908700963820352383329550260369945323732973426887851695940613554260237679890594076799605483782859335237801249546950602302531810202151493686177577731226967568857816366722189705283846205188938499662717065118950187075680174641154529143366104182044651735946020762980479512119528867492933642078438288220006959274411504548266012560843853840017172990911794090079501430057424690504839511000861295474107531300934179113008658400868382807040524421048715969520602793434404769627651143751838076402189252134201284943342959351341874355133966581230128881384518047081997211247981609715051160757950796716126362938994688613598428828752122753825883624086823991517029905570604094855156716654800443927669850304699068836799506190495466990220601993147462714586902051705689735008097101238797355853082416208367832381342091546467413258366823744477262723259645386562080013854797670542576274844845869281386682678815708900634843928049292840974504197361692702741957640018565874247063054418847241299900968580879422530322484202329560218511802588759991574096058465237700968840434617475787849568822674199412518879538386497400702618209467741039302277825652267559287823768291911571321213702272771108262104114710505190422723699924761684857641302181070658616766630251703826643596047549610242550775935959176021087084322778059159672555119569340153931119053190419624028137320067221158006380659723469260901952826195991912726393675900010161851377717995858790294908631345812053361002003351365066987528946974539469877894837314605896561129908656503947638307992941066397478805658867301182170714180728683774783525575847946113678794274087815143741013120537315969452334572316154625280573858445497062931380095383547134231276294272703497087394670173977992636784130400360398944636833446372225483383185336143065078441807517480801838072400055503634365028923364409554967066392934106963476979947412251890193426567776822165805727943272499694134706745093819380011215915587499751252860331355859763359056501293708953673069206138559301338897927946889059786040157554973772773935744309707396001409120860350412764892497892327548938332663220019455767638451985848586049279357972997159830176026852324820656758556526281344961910099356411561217519280893296482964833281066067998734948192604796414109502267293289380557317673116139205660553849932454412410316496556934387319620214627544746936367443916421702896161545521260462776876255289213786619931345578588062742971613410486934048741122414877406936755789839179365370979893156218716686388420264726623978830665441752807982483013832181233450133396907226344482779842372220915250805113846281494575235663534037129218783030198378992668152941907409678288998764526736133473452250829414791038970228615428099743738329242784991034710199389201108463037683455530114598101845960682792357655713064139622428525359334662977195627026017726856507131265469480250529137081903055403063983436713833932232475987202786596507324147339299653776985548959445861444314099344314510218048552108284867310964462506713235356456239418555497865365260809146093405403196065670421445770211384001879061195636619861239816220693680385545586218469900773402825048880184924518302150739602840821687668704803342230862724883309935504353477324272916067638726872635886916299309426549449274898380173424839084255096477908390228946870647019601799378100328830672842057501246830564024069054704757039168416530617592807011825719324233124509466074811970647281100982352424507971621897311607137524478415837745669225418785968890440406820752676361209227099344643597170850739286747690535283839178084400763100580632788277404211035110461775275815972577591267318986626372173996450682843892413553327283428189802293237273781004819947466449549501480055332095318832911772946283244002608369269895743806381060653160221937251536323183496739716252356170527297313124597654139234390397305246509605583602837554622149043160011214543977984070412017354045973628075371530008487017427259744275091729198567277776616088067779014246119750536797942705697416339017209770389790431786316315346353419997285350641628719406305838227456528206020109455803662600363208549752803177723580980614486236860928467803997838152500692154017882113267430008067056102374052010937718127951507522394014574489561097807587916955035655596571424315191539317254599884298669498146419312807047199110641301048076066242679074618439659175595265594095721847521290015681107635385153913551546939309520852121239812518698751975160040531990254651172843306321883786530834402663959154262875668004492363622760066091317851602627116720281103762389170444007108011036239490570159477189419782797528913334603005371518602190984490475017813173798044746494830253120900812368774496436691064635486021657578170150469298389317250535833697712059293211855091301462680930549162103351053580250065901616081019109452235031304522013807488601989980939634717227764498255848744522292921578788799410113692260978416248504921071497269824052540153002739479817024449301203177420111071113733408465829629503104820811699653885160065397081929919182160779608157349721861082181748542388616404004852998243407370131785065527951181616331604950606035783401048727212600008367985346062317111213789041379514866932490814595067823919330382063538897759601986708850436799362124723826357446332589472916533661207841384543529642763812239383736986760659018316651068650390123956864461463065350622554769822765381724939561909645334709378052944531537572755351824688258165920117772474649656634065478319932622699425295030118763911101357894279225702993872512549605253088700805839571803512447458679266755618538373697889242105295740209678394393664178343207731462299297768336161151352348879911482459529247549278906401282355356547675542677131506859818110972825264446175660353602143792323120910602774616952789100747251928393890103987232756562990029975127764596974174191000443126897234624900735323848691896941160221542006628088944189564899748192982896666939289869293883378181446094785683730143984137402409110148120091766400346538474379317854762135387738182410512249423774331780198594788433110035665466012404299965906348446684104999994398426280132609029275114826598111765599185833559921156158053011675822413120653691351422495617734340825360871725793412127980378295802318290086906473683683882287934865544344283714588427267350083902696028452928807129236029774678297292393936636974171746766213145892182703687469843547376549596372633658240591674008871992054956596682187759659129830678834062279191375835881592027132539843434313133553655314331492118902514431351633062733452874108757071124122479728763023920090024830411840624053755505092882459908484879102598349144334784830430504622335783850409068122714984117262703159431968204680007182176697471561567010791922250228701396945639270466385612958119390490359058519849490764804749391650093826526100280946025506549386968660435413455714838512005247163093185724635449898678337043501556576745716106039994329549740247276645565413805533164272790128506650657696090294880049388999322337392221350929763519026294849301853655046190869963836715177238583971376275937567015267022724355254997763753988251205361034563593203727790930238707139706460681655072736339857694705244333880425469751461264684088635362221151694228573433276731283806700311073526004595907733494428595797757260446762466536129096420588102207919566350248610433052065677340862204422924860971961519720242786028920295098342755359616844169439793234750034600267996223181996676234388105814006085458767362982549859136468894827977668832412773524421986053392190633709052370592624750897885390695512145065584619973222120649390435675708439747646098926761639708493110891496723854864234056657454427980454950547898591570612941836180131251042844208023354312992414660012531566109878553451895501710579729363909374163195896649709609471882023135096622107128633594536973051028233256921477990710440183983698339905996365258662477690917464364882141663980315775356377626226408801946046116086341454273117892050687498280690449758099987548143406216381727828675570263153055955111839714390729540974277900307528936254858178876568874406036311505460310879813291426796514281645381504257220338750014400958978743989691487911575911625003943284439726649505985496700696123958065048757173015292901206069962854526609040560810324904999044020903931550263816357158875455493881396666264617930072394688568776645996002516535144711207416199893496816061013113152845983032321799881643610842264170778068297590270180947621619856696658537623353357147839147059953158322523605435672772308517474894388471399498410862856256254410085734896209195986825861037642322550366422906343331403606105720539299821723937447146771992078753830029221336658943176189426651761414204087734512884929321522334499363110223592113755690828489695743279201037156034700916777548025821521380608488687983642738836325586470071190916133028380740314773862066650190831294384003986109507035441377249158813196251119680170475091273670797696973676659238910019923157306999271928881338636433775292713497152867318741875191553082067048091076297206281415023319394477405884386123916729963317493157075346937720464139614461779500042543684653903932098341317095365598651596068640737426374218896382504793776487543795711889107629509782552674102083225391388119811796388880770672403537784003794755431022368055443907504178783731991507720779416988598574327367646047034033266540850273295034517442247319519967806729598112302775964011664920998160189601181026790595555751801189408899693379884558195247880363894934712043930610060679938471371594899450561592351731704645061921853041000476920503812127208874959602810698158161608181111615330204963014634438910899930070443399439752487513781640367697343657950995352552977985738382049191270257139467089878040452433940557922656288077386143263796825332312591132262264928948258948840278843630062440787452191730375309231547551509324869713302909582920955642327890482839765018606317466960520889286836653876029780470898848908812514351434160392009437521592897750623308491392600927795219588160191289276081812491228136915083105768647642665660178628288917230715436437790135428587814956011486670516173518370621463582051577405877741823380994862942803235215158097257530457623380365607220426358607919865984702390424731611199387289967937579428260922017895657106158544235440733761635879242337643693595162367059469742923248372175158918863126530572707662819199310234003350847562316257559587918002227816719489689010282742847367088249625844310118770128561757794337707342404090066058095476488938401099684135547171175968468742628451206672012361208864974764208299546290292795283184426131763490301454139058941529630485140934011643932515503565479710049125301215220119461575989806255733700662109000007102911377906828400490994422393863353526352202523629501725700530763597162787726759507684756917142012628804194736000472096524995823092323495641598400724687567650062583089686851348634240748529134796717092593187559282197865662960328940737782810947792020799131381911325110136870204526332609003959817795272934100714664905967356616220111674483409070228374878015410803896809486181155406404522449982587151747219434563848315215745087277387985887648440265937023535280444209935583403677687225339396676667879690574063676908736118646105948636995174423551279701123420670479488239714361492412744440222483125211537911001483660371412803583518380966087107357094751548240413377948893109272358378929414007296029709466403919293897525423756755237842873673235635550667520478010291633633245786269544206829588180364474765895195759212954257366916600664499376895542815204140062689043692973201658156380729986722094218714065401533626181623735281911976645300883275542958390196666059260775867151542430841432646104424104046113404196005481193568898027198360225344575787680336906951632616499712963823943534019715496924098946169815615554327011946716617308412382991938415709508199211883190383401535152971689875743635556090941276098065768376376062049157854919791145466835449361586414027747391365319194312633351678407793574978253634786545915269272739247731197934105903423758856598009792601499565150590655261207354695113256843379246603050381679741347275014254350456849018415792527536302358613973402321102539432613382703524415142144623124006608069976587458004121677264473390100132491361535205338730899634503734486749839649422583681854863558732540944659068644736238280371834926153045364492176391360251444579976269114558310771697637597421127562408311391469825038549732385312846709948042288015255316523451072292721969296743844749632459876808859453725326470397859598400914903974397999860228692925917184159503251920865583727032276998096860773720594393218719650346316706571178259955971154546182776634837641913245219285357323103735932508138006379840536881417229715428984955458813485222058984838813527357647127135772678434280867742392848028540696322380011670095893094737351802487101012515982910653709307697498704864906934027617839346027532567862397146538054853539714708213218428636261019187260871873538799780468497743039938756794215578473384240780767735352891467870949585242981824192529652132351141430060022698273538085373134331838603631580847056625850281115624688178937873655651459397616962636393673938446963485076523438931601005761616056809442635123469547581444315613490369053877250514337915044640566769153436934730981303861320044600191016915235042007197860634168787446797226675386335547143581457234198224016887363224682975707556934478033774812302499714914722380908428095800586134379675602134153508961816697777806672391766847525514121256526503248369416128041677747790581642541447679582733514585554941418152605529393266607925295258917511047710477217046440198440317931086612261278686033373706957484923376412508192163773761018083598985182778754338274056688547169405139788596021795481741636986102779828244120047698245871575667577167211554473191088112517597297233411246477075576064656415573797836437539693521139346970275667564954217716579591483188771491429764809650186510445461506028116904552260135966402203812483994774005539213051288950789047635843031271811342540920459660402398973393254167233044411045846551311213532638362789474309473296912795194428384694899154150546801242427968031760268237812838160722959339427688370179518129073438740792549996257885748803253831040836181657542336898354832583003139566031129032561702082134606509354494363323449562634274727544419479777038994844292418325918724010926542326174640340680873018151068253890693135227888421776159189964833412327850053426233605461419513182756406687185631354639050454863098250309700328461364809183601021926501367339706530039213701630771860367448246369214938959450557222808675514035493303354932742861845523129234253969074572049267754528351432704673967512559641989646083136222985471585970842263460022884886711408916893020498369620423427856946797383969719092318927354127296446302836046991596688094418329482340737271560121403325095600089142385951588513395862177444606542463944316483515494230458645378704045396771119331298935797045753334276615773928236833523847248258734521982461845792451922343327318231827574662786431686853005887495886243736975210112288143796549683130687731103124877635899607971635930181152105280157834492109581385958377610842574478488600144231232698357888018897542992532774294973481489294621255600813073707786668891219525415209074600468314568355168489786784182492937904526630892952731544841074168044405317951004389507374760014895866634420835521551462574073952195312717110606495475657257609751968817507425972554303843338257754190025990084482353110996210997971396090201444530383721096090759209676735205565425630647379271818997016377357439966707544315319469960983871175131838447162357986600340839905160228085052899998175316144212746926923391205833814473688113235162231285029470906789531601016098147044099421221409096579519974923391701480189454383107042103092401338651175712618319624279417695168115533653932749591117377714439078859639642014748763726036054205994299189556670880757878032440457460911651301209034332201924400494043586303148809724698185125371138875008625905789054747409641458634211958805386914255723990264161504971015350936435607568411824540434737375906410925715542441143776742604769919066381498561666892847655071766646660830790275755632371383749183948085487651882331671249420025214933388303645149402722687647994970722443627003190920949403598526284344793818590224538665926642816783556131665052270174963384243516836813615431923965819344120083874264166498047412543700551046131089286110059990788551580948309980056923798971965114620526301803858260777738805510893484652255440721580167280669535163422509757997435138300924744129730978848038052207607248149123693094108095402277354122820021029133545636830434138893277959626351598184941896387045298639828482578830567525498829886007531232867939858613082959478511258220547863693645198037712074132544641478813619672591890300301033823624121359460988270854543163365907885273862564868462872630810799476683618717203644149188342251636624820917422180634404012029816646268861354966599346675058773986385762905827502344914188099879535984514571132228503064022974084075418623463908185512831779293499189554102110572011864411409950965789558533437900648773805768352982360276260605947756966620083290111310665124249987048888429115770205291390798993279320875029152559327678488914066848775092839448430853098158685790424006536389529219117047937097411538223472313249433546841893017195456742796643507070134530634956388087529644651002028251981680193437213301790477936703704979241508757532331687702138511834887413518786188103887063359147217370453890922994078388747337455859579237077699788905858111160985470173033372333267243963719473102576593689236868283577335178585031440348166736011962417154404259132816422846452810771267575171699621883316407251511617492642728178933586807360674358261620023967320191729431659487969860243754649672919002194672498490788674884668083651200163460337275909301811557125240444548224517754350627890756760047804989091488788081397497792842958365677498630722782048920984764983190303147877069972111925481830121450836596758012634176018561007707996795019246933055265175417258625253986164549044798380539881376372454970323709445586898509575788412969440365786111164303214357810531085924826195614070490418857765549070717145277829779229344813177696156445712141903536262548168707735960196217556718057245118977468056640724299395273241232233926564119683523286949830003425071167802282322219004408574606950866836281602966199465428418315608999776595981081505286971777818332192603279301812790974021843710832000805398726621016847614831073154746590899478918304362892973390174765866916631253216394431046367494975232827754198937418375887704116549168420202494773679425923642330567206189880442694328246038287096260333665829549560864489913576834841416702219887292826915655079473788046018189008914716813572276705728095481902552760570977823089400717966270727114302432617484038663787050997211006481950009977000512895690664566799356208245521692891753512093369226671111791512972047916719420219969168029320035939878446100064668570597160394792266731296386423056013570433406172911932752439717338483524587630255576222919676823785077661218800593500377378593367031072015585909227207559793378362343114860827750195234837664330643690504072991232850455744125504110465032776274114687200947199847176559835332180702260092659622059176780075258341115816853815887022126302276384087094658492769371611718686123876196080102131743961806008905139372210446171117220808387860112703309526040611393642516576343221155779902682251571420643831476797885167093629724154286745639056797133163547846810329968922835001440187085824091775385162753789986159398066706124439810005187397360020262005332178185291910489282330712445959628238196792606616341705188648693081035980895166840642012565411200091118585375561617478252163617936130905957761137211914604204126767547085155421413123742768897130402140360226454459861652493106356867626587360991040197123768320264848048272080054875562637247275233487919858647117083558517961087256829543886499249227714679891624601973892629733705348061984326559648502767372804463385102318165404323222088671078287939630203520138451105254983348526915414658940056052337814235185909633196671662103328068854426437459300516130137168405580189865479057322852347955395494429419585327673384704347791819019684238305486558697983023095055519915597871694103206501554521729047157259388241917421830133109350739181416916055851083709611299159744712326114847897648024728035655930607894041575171486368490211657666359934244679020237925114270958885878401854432395761243030577402768226016712422029010599303368165147340940396426284574495021500574903331088278076755332736922808084305863115692030075825195715749129800664427643250206042813216628966056519908990863658519142953334299152143959448818654442498525200808691468675083201040402911857115454848440581645328701842364700685918107005638211891053081268061047713203723919047622779112857893635424766780824461730864059122434574376142087544091961199028121467024996243295596467091488389874048236136027299847174975362949789011010727265530682752862947369971026568320624847913794229511137906426616606051757949193265727118289961087160079726510934022996444789919445206603085620188306829560791226659533050647555858630962306044491953796777616113614433894336209085977083162199626761806909158500371596420255000146087586633960543001906559465520483232300349651543074479385807634621274134978832578791901427244517034135340476617475768816581854619952107088372689391682909517899640488783000969820436251485044062634958185511692202987586272443869220512576477902646978824877446670271777476648165057728254231889925284978405426888235005511981042387505982360128405578976112239654913110352536522054244715298470640754238998726171540718373515523319359145139545700582064154241180381266512765517657605506189487107601486937339956138898599236492749936152887800678004557413835570832770173167774463411360963627114181682707565587028746473661948161724383161501719328104157461771948307111812567185288850964231613228006759839700739892129522064225828462664863068635444617549862666263315065992966139934537818805729517955910683634894519356298669289858349170214542802171202946061671539429510152288912182461418850849278262100853160617057310930467605923999381317990424162545965131359193848570324699934529884450484830122219672008113537966655825286551850516015816727174740632459640183286517352847625095388132247223036812004056556748953153540269321623996461648867444351279324101221415103729760636286556455179185553408,
  best_state := some { pos := { x := 12, y := 12 }, dir := Day17.Direction.South, steps := 8 },
  best_loss := 94 }

/-- The search state after `2048` bounded iterations of the Ultra search on `city13`. -/
def stU2 : SearchSt :=
{ open_set := (16,
               [[{ pos := { x := 4, y := 4 }, dir := Day17.Direction.North, steps := 6 }],
                [{ pos := { x := 4, y := 3 }, dir := Day17.Direction.North, steps := 3 },
                 { pos := { x := 5, y := 2 }, dir := Day17.Direction.North, steps := 4 },
                 { pos := { x := 6, y := 1 }, dir := Day17.Direction.North, steps := 5 },
                 { pos := { x := 5, y := 2 }, dir := Day17.Direction.West, steps := 1 },
                 { pos := { x := 4, y := 3 }, dir := Day17.Direction.North, steps := 4 },
                 { pos := { x := 5, y := 2 }, dir := Day17.Direction.North, steps := 5 },
                 { pos := { x := 4, y := 3 }, dir := Day17.Direction.West, steps := 1 },
                 { pos := { x := 6, y := 1 }, dir := Day17.Direction.North, steps := 6 },
                 { pos := { x := 4, y := 3 }, dir := Day17.Direction.North, steps := 5 },
                 { pos := { x := 4, y := 3 }, dir := Day17.Direction.North, steps := 6 }],
                [{ pos := { x := 4, y := 2 }, dir := Day17.Direction.North, steps := 3 },
                 { pos := { x := 5, y := 1 }, dir := Day17.Direction.North, steps := 4 },
                 { pos := { x := 6, y := 0 }, dir := Day17.Direction.North, steps := 5 },
                 { pos := { x := 5, y := 1 }, dir := Day17.Direction.West, steps := 1 },
                 { pos := { x := 5, y := 1 }, dir := Day17.Direction.West, steps := 2 }],
                [{ pos := { x := 4, y := 1 }, dir := Day17.Direction.North, steps := 3 },
                 { pos := { x := 5, y := 0 }, dir := Day17.Direction.North, steps := 4 },
                 { pos := { x := 5, y := 0 }, dir := Day17.Direction.West, steps := 1 },
                 { pos := { x := 5, y := 0 }, dir := Day17.Direction.West, steps := 2 }],
                [],
                [],
                [],
                [{ pos := { x := 1, y := 0 }, dir := Day17.Direction.West, steps := 3 },
                 { pos := { x := 1, y := 0 }, dir := Day17.Direction.West, steps := 1 },
                 { pos := { x := 1, y := 0 }, dir := Day17.Direction.North, steps := 4 },
                 { pos := { x := 0, y := 1 }, dir := Day17.Direction.North, steps := 3 },
                 { pos := { x := 0, y := 1 }, dir := Day17.Direction.West, steps := 2 },
                 { pos := { x := 1, y := 0 }, dir := Day17.Direction.North, steps := 5 },
                 { pos := { x := 0, y := 1 }, dir := Day17.Direction.West, steps := 1 },
                 { pos := { x := 0, y := 1 }, dir := Day17.Direction.North, steps := 4 },
                 { pos := { x := 0, y := 1 }, dir := Day17.Direction.North, steps := 5 },
                 { pos := { x := 0, y := 1 }, dir := Day17.Direction.North, steps := 6 },
                 { pos := { x := 1, y := 0 }, dir := Day17.Direction.West, steps := 7 }]]),
  queued := 350017122416571903678926098134728618774317718818093349278461038863502146208973330013205041878538992566710764308949986249496441233299316620130005582206677865669777663278024652577370424002390026912639362126082692317221954999480364995662307051309978372430747629334840011095530220059154139063132120351135566099614250061134154019815267816307808032609621409398971860462923184471125838658506035563771023574190072248241158569384314535857242808861759199316477763518852425039631792982465824637523910215387608449127345736557133352970848376285124896245928794222430599604638146551431896257739775829382396409329727949901355893705085412830513640283217530132450994531612212459982330458598683234966564166232005120856133694914438835130009889317312819666937184256,
  came_from := 27173388581013342537721145703130193009279336732657069812651019959309410352949487004872479708685533187777415720411452829192399287031791398929601834350219528666540519753343471615223005055402723076136102945121453256923591758792032114883667455361857689714351444956011220694018324273976442952615879828692253255549868521916036395722959897359840334522579718129259423377975154800855541661817524754256056918480182048819131012463168163802578371294700552923582720709595007196059843939789231581414399525761015591223687828246133135540098252884338451788771081660912514180438579036630953444175170861076774482235713702401042946801771882224508587931507507038431352332804859536842612637105312819331213853440710364587602004775146725604357732215360336922820683514180213527501417600967983452035098658768961806553263200448623698614961587938587743317783901250163936292861070615523458413808150613871685531128165677532549300973165466687278995686200845685062211331700618159997694721785129171220107438369934564202117969737866918485026789986279111263966960694433820294263310279190690031707382381984793244069171179174596752033594572660487173995348187497759196537114563670461725452465655595701287816721949944457717758510471736835186957512195169327316213167873055872285449412541926247505715186208002398193769578354160040759111545774748206162337988106509338264694598467378528449905242069821049501737666443635829192805874041633854371052543350165231569359822919212576066842834624134445860127249646903727560045879471108183280995579399754793889386742916819980898624348150991354104952605707979493330409627361897849982831810009088180318683385509470584732330218068799428078306435832341288310683956396783209288081409176468313094369184382583312809534507710021477808972520273267178627266280977962362002203620851968006081533014317352647033581046552513249790947464553362051624536806599729889259481272878713786155572771589863497362723557852691807525630866685941627488211486313946150351903695381524055051747638531378868989613497105898016564560433879311512057075600738620613079103979824725698322882381220481251375565247727416678837293008200347532078515504280743019908820114271783176043809755025358064679185434340266561599468070335961883152902638826495577490807157443964890965028302410082939061878460330953871838720579068159476977573549902092341986563630836900514832519709675378625023840387155766289696826057135275737224728621481507348930894744320284166895667836586889608470757625001723516365971774729527794547993286600887345873914631888233817751377657838269140199560908377042120942990484076015759854551569972294611882985324114758591626823535680747790339121628970572663381309147178042876805199127792119830564288865437926423178085555947848554878457178829310122142750550847628078289286952331726598982358602212181363621465851765053151192143745156740594372279170062082058894168561461739687268863141312516260217641702003459101082599693988478840541609868942594402163456960235086993069807714143014806467738681033241987458236512158067880436284744692778119741016998906728177587152679340194483207489106313010677065484366257845453006664095871335594516962752572878664790256448538965436652283436752643823419378259034113141153677034383531748078843241271124746875750543422454319045029475890728316569350072803262344722418246414093543374812473382398364122148584250974085305975722457478450087395896254609242610598682654190451761470270671222015222299151986778440455899718993460500078844775963396196354535565278643891009631951848848537203128738163006947297574645912677245935684746256918596776144935394958701519151912640831866835798302037723709972277439896143590262377251928833856897457967705330764600177251192139719666528026424519344841242434492522373682956735700980025888907160973918342212031532973345214247816982478936691448629609678351307894121079031380373148524930995445715959238238829601116771179414968705054654022523693160552111297589496852780368154127928817988412694512288885414758457596753738447497560529747654118333071795385234280512818940404587192656506673235129555434104040457055495415633515387490132205773563586675670098579054019440332711781992097143110289906186032908779578759328264250524789410032987105335588781723687480884702723926143565794050757893959290537152059116427273059885286484319089210608005800424309007810870681231061108256890926108642259857550128991095635463935789782565611052884863579893590953085715321960778940458870217839947072948068070893046704777119549158237423370033968610835899304610698728965066366901213057305109214771325607774076894909695211236832638413786186257298301923701539208713867439524537487606931833959212239986009722301599065181336259392877681992117148966165693582998809253488823080480264487248948830920975736465446426592161649651130855000258072994979504940507553653016447138053492424979865209453337772284547401796364598138800156179830349551616501394235880527729740144833695265529431653414982224188471913372573359201110330566577798450289244853795354988080411138532289274249711566739587226747040076916729241046263213281449448777627070088817016477914705271227987274062295184922232956834796549723989440881954233596556249942789612391479113588858831203752587831309154131617907493933001247927332123446123743383501921819009424976417588048521500296733304755102311604354231693665732670432479939697043444505451465759791113664176698941531300401378788560109825177272988144229227935026727051193127560551609520749849248641126287583838657785997694421660317027752944438457201311162258970727871238831948348947997930159280828311018416094620307012267340275732378635125320314973748571805790763866711505634029633901364222265309971149636550164726282421326739915500469576658300820347361767547886996082090245451525707551782138485824364394695350676846875723547373736337573168389459010259552605187472717980032249404663529287792217617836799058200993377606074139216737466979050134896336340195479640245307369141464482075696034186902478003293591296369323304008515217291442191295196375428051489907780125388970600368731533777015328650002551401832795613306629136652713513418158296755886778757955685024411280213666826209520002426112482759495963783770129924306790756619029007072456497254736590155744365897918907151605353551641375179159750933234056143399612973629619067115362855421098052506943988494959764841521316716863709465257492265692462084396700549715740976673613136962901046912704967740026467465739047318849143708109957110321247583463627195824716061042913141500251948382319708410194821754245076423736338244768724266205449108450785550610180947573539709666815497107814767252242300390624860298672350678032365232513853911312363002361336005795813212762347664568911124201445223203310980676718640650169157844663374291344906790377933421681568774210394128639743353728917354699452748356251210183139520558961860013671858287585259148237792157385870651403768927191138491349063393844656471317228185255168835929913880767140594061113555556380109469008265700742240789221027915921629026912129234099156523510684092901814935081645303803201494209164352161858028332445529538007220324273605218478323194774598096728058278950833663183570609226375030843325436640419310264562184135065803224017704557253263358615727775750684573787243157089097135223555979230212120675803677583511533690388053056456672181018474085383469060398516750280835099967963365931462948574045431256681343783646786433234232832008311587381158789697770967795506029885718989915441403284098841533518387250753933084019658083596840436192433189036506016018794509950968459909871006388401257662485654010698941936222865096305774284201656515908933477999452860939492317942766369859811965340959386455997203767726031393292554979832056905114697343671718582330310672664931275180187993336175404779144117565385114271271336865529972086319164805386182730528854453968971585466736692232932285459671447353503207667156159486388712836282786231295671643122081078098526971377939534509425270209238494281909147943477819768039309001436804542258543573768762835612416652630017529392841557807161929865032042267527005741266281408413413996856074441579801117041125874236062479998359864640703777111933827600759049530251103421595181456032707244349195699385522771706125983071487030059783725791469441298714542313075298010449247757089519326608092185617943315591152687141915994493131501392051739819673567698358376684763062254202148893532528496121036944564081851942546692690995168072184128465646560837125205974129229523801987896040050829902846973727808919029513606419908851328008343464462272332735192769464888045018238256588943268554004602210762404065513960132613209527053728672477188444562859754462388132527798805848705061710594289625449217290528852048817552551839487041230398649005347074470605040669621983216366148223441500567358739364263046401503999669375861467445872177759180860378875369998941734841131569351717949703048419561292127198007817530599990394303702785655071461932040797886530944201773963804163919347380575845357141984610624196966538891285395469819368067309328870829395489804964968160910655731404616864457075055846221607189910630308539806908945085868814892548256491243465826524614324688381917396130362439859555739478425544955198075500848056679559664494057788551771852586524185149010909273316456845044363079795804891211605052999925790914965703077056571380716829968009971467706658254848985055519556084869326576512326270107903260709580675049893421223136360706240077908019459817408274358933408720421252394938718804838750657285979703623920078653477304092415625048405743431860564582434644216252725819867952198963847750608884448566206147939349469093540206736312321158232863351013950366801121290759616570932660940306087134265589606057147983306288505189972834113502458615976922275786721955618761873649113652998290140483034912012918883392581950507331819332671784886109733687161247197395329184121413599334676833141352376575305693152126912193360405786654270226415440978882824450995883628183054802760989173090689391524919682190879036408870112544473459640480488698078241343494775024267996125616258921038788420935191839440497261715650035567579853814756634244744372125150588467650657904059310111887364431706801422326275793713268015856630430227298526155950008102641179826554149454702900969017012120760266878253848347270142983254387081272180548275296871187777978729069944723617440169468859075487461435138670784794743709211702830008009581610302021413131240842144697255020009910744558436822551954682947132270102644191382082756401778876921076476898793925685684966350029803408503382120161968162155948144234214643603191906065578751151399435859628419491694444913849536922615941272168154174091100940422761395483003242312343208690620170560806464238829607216002342981827293029278243432275510825281138412998249244111814401238111275723564010149695528520131791849764220493213517413759209606822796016351823215148864562775942028414866300270726013724315815623351687846549246107554342660353944933182598785463677824780873096057561879179959203828739353341873854804592784678769412321963055360468341326628691872487302629912376698264803279941996729345614735757366343943001012446380676221793549969620687836298786311622151955545697786020823076256156852142287807643995579312468698855907455632352634413388215685939349840794857224700962013477418101851218466498494133693588729151390463767905615248363862723492831886518288103828514295393540029950243006397338575807477136556591279904772453403391184530281345484738249640119218858015524649438319322142565760887135718089301214751725814418645067939346554378953693678222118746285374347253498618264598800433916256418709046943468019337981995571072482980194395912863041257187308520161082496067419526574318199272574190424142631201852713992261563221655209577913653946986695159890096865986531894091879107618802156821339300664869949236864118614855193369500285859981391788583703606192958282105935028778673601685159137204204533365224555163433671104416208194253541978170719938026524856354357612995483308289283069447648404241997933307408551875111141355770931070596702710259154001893914360798631416352019149054184294601020962972889801509016567688691638852738944394484215991349354507137228694854161787131247558735976714092302629498804694086960143721177525996894700759523079002981443570449012852628312517953179506755789346299310880732808502144858211491349341327908523377166382305109341345917166677598350844605075173233874260020321036271413688287792695997936116587672300182024414006118303011310392694765451694337452977049114747259906806719641975250718682971402170006628881981457177700568451520735678582988140539994999657482186202616850716393400916312364486813281445633643687910967592456124073352876054801868949289348856679424139060846193867353965006775112175991000295023636057221376239334514067447735963474003853921977739102536547034792826734612916025591953552305662058152410600357462049132821354110768689192111194168172981331490186336044506468845819459179019573752083971945322830440203487521710805676795769807657130198219525671283782983133486462203584132527332964558780574295593656099719092466358338740695728106246407636439427453961385604154199550441132433500802575758045514497081266502013343069368313421126437546226481169610677204285091034305834411759288850982160135337829058910304106222960634739670759694244112179584824110197770869215572019962491225484031617757088470982120298911395537618155377472575711427038366258340159385782834954671127486733269458302312926371780545275561610829216451829877102585132937101819769357486517039929030891974344207115281379297649569336102139174403836838703163711222130584476588869030490233730635260786118439495717405774909295913238311070588969363010261268339960542157238646446956184036386216509311548595915518429619020552539968029784637789957468993638973944821343913188792986332314470286034151548704162627118168599191921832822201368055164071817790415675704217918920493484596616243798000466609644777478294373587327109419932597064702427867567918810139330116808849960404685682066613561013924765862953054117159723115269777727550105226149558108781687139855536078401518579044033608853173055299780750903605014052357091682606695962704657659375603662483683637415032877355902008942063724283512346409623076016838018537190552495293189275152425333832709224664096228852487993480605381271059094245994187742186898032803551759493473994895176886478811820817259953435785758630696555009433364495974754443333348129958775312343458683791770441896140340315745100040730503643855649751512516224930864367400726943091868651733606041037113398341472599684682821884694255440418013058995416823443594164699364747459931828056761931354430237909641068796877820320238584553631005695277450000981181396516206210984740765095937996483369743960089934430769713698655359055985124843886457984942641162015857352143574579521070862314737378211128765027555735696782306322022361342378575261435031711577489299042896109935845391015700212088312028667732534096241029399395546930822146867753136586397332732128606358192711952630816982883827112418949205343242541162428056190065223042864346217172274477452802678071675686729122184928632830503168968315726982395095922016757754211365693717038393818519577124773167728541002704675098151230509197093764504370437433389300614912815689426110390204754251031881261668036320712991744962276920635433999542332620133096193208555626134837041597157471081104216119138236722002170495134758740346731340406569148470484191703593088923948996094114053487546751392955898500224470371409723676776391754155547025382134675359217379217801650069586528989453713382860641839511378021231204686980055852241323265027716311930321707442840937159372294267536015211399233456288734210032430521204427527775435847346303917131969965234683835173419806889320651922317779072152059258878800047187222817783345408450515762441310290152894221149727606471430945286775502325257082246331747202619180278640867575292365545079068499245631385180843228254988637134321531320102890960755796241439644698407970505441454542657114305330823049585266850852299171812740827414030052510772095383559742673343983115864835949609209766136418931117530541661967954376558555558135110636318896213539319450134842302121743547824834056952791514015682250173353265134098488125848253202599593548607207067687047665803976100834295365599253892511030671467832891972605595483066031589321519290040154897478003279162308122785545963973081715743710577114947927005422537600163646499351504441875764764300667861801632445784131108707439958694133748495988819755332224069196578682819159939466082777903699553577448509351604029546331371095858452983768223244204500017576074814013153636317853728632392724105604047254783979831510868928356292913689192376228892089170351328361076827189148474449218673508833999009416051002372850517660416607155865933167528582066957975250833693993204173282943931649968199010904359210869556808107677874824814958641306895096545696514820610239477463416610507681454081438406828717773928778920582112957741511602231927761338835279987807234944354801056903834507530921623972473191826891921253613663631296623333553477538970200903008684638235264473253472221206731754794901032632906954110761825948119183221347828214579479209686082665545565514428184011265633927763750613064167224425871924779198393401669732344455416576233876678640977387670483151399220580011413419608867092873924044208951746443389944923048509757848455202424780375292295492563113195504281016034606262314817011240251765679602267838004273752587492443255034205374694340396369949196582074232859663887473631453388950340109745887175440993630771345926663476800486624940120093945950955375401301671631148019873183005453170521656823543294830241820979526046066469617644338207299576464983199950995692858939652538970911747634050343145869322732446505502137016401146535774004092168031873423249503071600449204716793426270569911098264559452155932873361871133294549035676452229870027097330879882934534215305213412789302780496592311691708497174135581297382553259629891635402659439259888072282565781064632428251181903950775636691170984359230381978812416,
  losses := 63946058917236719228224144964499882152658236160435559175796190928183411482260680490709116421189751562208944073456615458723189944113687005859714636097221020850739753058630556295515567056814230522706802111133417290145948158482524121573648096360299354342532353893713432199859406709292103689832624335434113729977038962620678617392376248586649337225447981143940489485599061903803345506135064063263162816201490419790088687532997318114632948748901668378784381531462670554212355025305932236369501437074751672831664739080347725975229367647926499833236294064707675775963753447479131116468694564017800864939237139622529107257175941119038155723571337300193710024722769787775851854152346373066366704759873495349394309638984380082513923829257428272999253849022750293040404641649149570864643805464552871124443206531141927396349996601653545616814822959531679820150828156285449972172115988358079496151795817166843839592653496871920176546081098682272828537689622721117491574310822226549971371340406356699229997968089690371826136917793084844387570021760481433653744912090749619412069554733473080210236087365724001505297034611822059846339085103481897924473194234982223304191585019417715391579020665899587355941909580279560755570509229856887250070006056189343124160913013894921748108670514395554249393634507597418660110001621591030812093628339482157207514231404594770685853275038887862499441212158095942661544075983251740562290360722647149104757359627965135671032789738143241486770713595127092239931396751754665958470470255238405788231326025054558324446878154745964736949585229021880522728497014285199208182781803963530205323748484299836407262556764343813207890925409911951091971127578925489470996627519893274308895377003912406604529398173486323536280456941689678669153351353375754590584998819746802391207201135548855082795122348195880725563234222445793724296077165545310305886511696986519757829225342605860190384084142191324399707717146111108806655857065334034028749979539319895360169551842605730644553039608990343754954743238659007140525976330893238591001651839459969058945322305228630117532384684776684158697986190159028190208736990822902617860450473789674003279645751385999150762075180690815342933696996499444444240462354225169379849460952361651421802977267530835941675513289765249271460738938008033697735898532711337919101039076306989871511844559267995549579651692765543999124265666611945905159091845547997274942354368827715206995770350438380823156949627794716953771314700880924641499184005947057339168408537958067341803765716722187103168784664066079172535597844157114310904310962624900370785014709432976960156052874712559469422853025498226387695546084382308505899486684780060951145284456906439373400899711766869360592040425331725124919632626290990854988200308300597881446423317660832324884456967462616929648251778429034261228363225939481938484571213607901820398069324258891371224743173070746886569883678392019483958514946295418721810819188076280568230079989970292372480063076334562598619150610658923146996025300665126823106405887886940703592146400399099789952649519370063965688363675078956381840317283966469469263163110423476189187932576680925387200882276535400986799399710001953915265261368880934979772364567902148486860952894626892494014349126350439805335309130399896482940172468213267859326692600669131044927188425535964005238801794254293478563176302243839670901586482404992695943471979681489514615571128689615805993742408512494158945286334781908881175405003290339623813684831562793352881370862563744431777764545285660116461928925408688789598498730413232953426110461134874908389216813538551292702543069790548232503223133132123432237715210735992802027949703352919624743533645194369034415337564899857844492951614393658880333242649627573436085865988435654808162167244343830333637860101302858974882223924662684104921163595397198400299505669189512362084719045552817137032527529810078349343808961324838933198984342431796048048339943596374590433505366329355599782310407128700070058174469876581167112990498331899971335036377482913055895645864223043334091001729396305839073342398054273514001281944219695734162594127917135837058774008610570149189087107938165662515171826513512494321270401354624532332154493847641552290900448666896358043720993350271727138529101856622907484230759601933933635255581326851321375411013025189751830949608466432196079446095033357466416736044686709445315498056299207286250720761958109744356222682170184500197497184271221337749269850932787941903056656108284165947858612110417645198138076199215473786374878961907352550753188468364705894131051643891304676599655242313738441389275110969909019006594573985796314728043644844962910804385438542964425485172178327225374774824082290081008272744809639256317535657612969236524007126418949753200471548721358677343434287343141895608822793347825218469210309166574249642063611802211522223629469324891419587266997760348215873108669673717149209580275057891908574204267602272195795953675289552138778502901132502250288255575013850143629948421439263146508296177820829510099379006435833665684166201153819034170443679894349230184880194832835833938643023720144017158356738193005495690812387342143091279858392013701030668041867505306759299623518699647069579021296769910701552752696669203881845385004963800498204979561356765018533509617115955443895832126113302886109660457572783958494625405419990667558126937284143446399886387893477372558892555519435416705978659130670396000076568720960198169537175712925717602902541556888789844644600009980797642614970421751826990543095206584040825622644035981570578265086213134354017833820215865729915775705287676661551794395227461069029806902863253705405393267267326115809595026936778949809927918395553477828072781558307226795532632676428104031135894878938076016659799094020446798472655697194935211480642115282102975585564844388027997027042630640956285889614497613671863168605685872210958607962533399907698769572392707719565168564067998015657219605207412705710221365989344138677377260231395028411018841679594534774727415721773940984124671171440271257464440392984260722350720099729535543457388198437297362941551913451232932018219633399988007932323905759477417369298340177851695951280635741244110556109973726661854662290083399261990337290251764381506416685357189399382444462294631645959875251823115238442246285221277213583546790677167704445321885650187949918210500268420542293589006373767003620387591666570711272578617469060996800260444509266302358289170474172927979987458052611102566784160717601560260339590985659272775673847429147787438651794452303609774208246006728637299938315008973173917035176501196231753272528768273538454304218741067764701537233150658234238129746143422339005658578227528360076590276919717351181839273632607345411553519445386417725923964816121884034465592309061981507704001462976556742664041211969159519637922654006522852241602224331508147835579337229910726075184838783490981602086033274233293029999692247418368174841942342402929612739185877938314817611195410774373422366645889072255140225959882987998388705691794580254547141037375759840695722959242468518520822813500539271520008595297031739745428125347136441521285522086545749081256898894831520385000680708659935421401644141084566958266768704978656240357656544691104814524171896327811915115604893824151013230280528630267879649324258965399208328490803590183334345720952732945657624459162582097890335776827079460535112427626376050413784765489288173668158130847907360852477781780869194398151663091626283406472085029801059894710096221432300378811033231400973843296948555128011887964955229000201066670707179482866416153956573191522267591158438121668897584009296086993769437762221127885766179033383225694258245306368440571188530611439738727990503463017865977897023854914432434482565100797972571551682165238354155787525410662517268170580059924963061938920622851862799120505959948562429736157424123867203418935819200974998213747041131071805693103877667518284470149461232080366027335793318622186015644207438198084295905311087536890320103897340483721460977518509980340546203835735431279936987916167808532483408439453048857653945095059329432970649923969946491928252337457056145495746991642572759006085739687168027869704834882227894482465521875628909688474664396213546738219160655639393932118512079158570665962962817229457381162536091715584482007947104172545301362387994533317797278723636859979896979452632893533483804746456515998468673484093878384493594356704775358255672287740605118575156207500584243221451659592037857381652931439964340205900704534166778743209099409945683077171632197293527147931942266784151006221814903463065036114362087242869416452643786093449386600985624586265649162718200389133891873728654014594717523188725326841919287060014483586814413336253434652877263843777050959199745506945794086757649807682869023138025408972001716268346093858852781208420340370935250713136722944456412959207873250013339528980774505763888010907452009740677245950925782786864050927110155420745711052694243847013262010395711526718808674980676240944573269744228781376740698855588102299179336803592044776732920358528120837751230934323112971678831941202716800603294816757122145717188476004477103646590432877285282510787367513566372802523434381851079473923082765870161057568182697862476791579612662681741463628350341835174514443032891849779553066617539731806379358114844745195637521773319192490267164776603154332937669589263943086628255484469323147711336419097752698370321833134968406298831691754621265959468056234496052392666198668399507773441939779555170287560349638137043057937096318317075417979869578910470151657229802803449519751588291611426452896870946888011566392891397029070714483785635682248301539368484226917848449297545856820950157177045248694280192601953510178972485656125799890591419724695106732942263301020464242605328926741870765198687300479132437121252904488530441610803021852966647124903971218030359575299415882121013148219262406912562492926430029458771595695125561774370704602657330840146205591492514872088643535671240807804605189351759511332436872306296235445681723141353858211963854494400251743576829543464872388489559840088903331357843047509725420147254451652325902483183623811771720809395416850361466292846371319965003883114765497409268604074435190359836882508113430924211210521515606727440605886523311840650032354871536035496984211956566661613599442183062164735809798632930378941855613641597040517295545759880958990009421873548611470287846176166754701768444695692495464621515767603505452738892154538538088784168633118008238635417141451678342143556959780229026925480838464694031004425348193749466765666119516163196301132500142189151730555853435715919965303247905428020183481437208325866475827622453409759174036187248218341443971540309535606479336166433907728567041524393772121894867120514817277647013060071846193852301243858624945583186521242144104504030021056630085053948320015172861449918329070896970651892509108583296451646964635246247948673350469302095727305182306405472868826423435477764927376153646454099505640377682945188563961022611810439263078664952808343933019451506740640913882498042764931541255740312717079122055906139887152704677145213944643036138176210256717257183754991402093493415969806310709129433505438094777239843934875608019098578041072003531332841206905236951541817214579966882965014729465876561086769080379127187619820687643989216849046556648081094137918320592299840657378732797244904682828247946310467353601955591282993854819352115145333892414195347308301000511920534052286215336054075781473462505674744105296927129494109860752550381565247703832050435676498540080723281042723459985101817448101753798563928304209458403980831700397338681377810094212975654422304401230350462135645601375374038423301921176886548198969249062261655697262443997622914873665710512408021612702415158507505723072284867195642704205138635391326117992875439154258385930974185706029460228638164604785589891912401614598632238001855710172860144629073246928464337125462172203328495314299470340022910525655330592555997785364210656966830082206647955446301838558756324431154358780900969932548746115818236759281118990775534751129585330971675620243174130643079658246392489240370237996461041598951363521343265776437931875779024281502289346944891058693836177051551396933364002953327758304449933942593164741640178098212447791679658283187623873085956622746002676608597554567401721971394345360620565820441381800192604185883737047833142375059749135255303269431658019343604954758702561751417127417118743133186770507094726169327534040111204383553500048906353093335749691425331156074234328159474715529964603851327905888233716271766556678711053489680845131998718401075611378280191972213855989379721608752927960123384994309140213435546657573834829260751704880549882122691783518833822082760523941532187870751916871785631094670624876979695549998263063468851532434263174136743466678469249440969735299693400434215424899120681790016112695020963989580689789691947647755344573863758784330419687284351197685040298460538259912634991010031071093851539623137495085453000606355849173212735331115110465093170290129101326832272991599356832854537709817830378994624083632002850919090597290396812494808740906168765367053018751966385754317353945026304389521788836572300958977272928567298524872653274381857968245955352721330194711299089936633463217122480457485807885002116341181489509934336397720704572691275051792024025524790359953760713523797757696232907200998191977596022112034847194121942427188098324367056166632119456201119173824905753566116360009882150794476699407515667672575276731121593769049185478552441573993724440183256702973207996308435627007770751469952357188812108343221952141472767826509515856057793175540873339060857866065139032323762662693681675237463811892870917753316030696087774834708071036444010710285214800293108888160953009057369041376014616288326922442616628832224479429578092446582987181109599971718560563654212170990167824651949989367850808586420182501669847546065460957279469362326022317011556102947263377095715601660397405976099924245639182579015062464845946323564674122114958782858909596645135544031241424222507087947964751538215693045589653570450548119358827409800406309833035752562454365259791118062648892453423528002029229372482493103232943805133990517746175468134135524013632237341522616774445590771196205018208450918329908346229355724615559515749107401411401316313693124488816113618224936156087189917182119038897429687187275590393557782525507080681484588421234361028572844021613800627396718762834551655902417346681696684474477554989954730093009522355356850952083496933812895283322836224242245478112412976811991490918596692266620081623740958556111774100563857535998335766117051711758578607286070507535925275386170423502709457458983179668578840527571790336945602953712652691725105086953603296785110107203354086550799388277502981459890653953768975099194872031566931638771346003231597279780430817607782867334995245786400625662382925622904913760348455962843482023321678906018608499725323037187357187962824855361989801650682380873654150667938163072679464910761711855113631287774548630868470938453810460400074046823217638748438833732347430038326912211015152882511627707171087382413423120157332030750215139338338474845682424004061145069144143290193746472938227746055813295118097365505203027181833884957852490599361843696699338182758408904406263294740981128986274288822646275491696679714190210351169265132287631353478790690822548494275722903054437563577206473350539905487007277374145820011494981749041328129016005215009334117262682032643510076147277398035907393857107459510358572777989173482571969691178854969064962679371895218405455699892653553886024977368544158710294052770081153604653590114358520057049858242730758085008220015997028645673564496776587644365168260170241827409751371745441255148155081934820358767883119841869772552779427544905509197522397292522918603162244842609727664937993103571118458681979046449163389547557606899464735298350778481971059333817321566916219529345208516098969841081819362550389389423458332913227441834966743645415950626162959552619192808461587526672541961496069761756391729234406738803912485582957369550459249648085029841993113310299036428571706816561615708114249855262417476559340190328124686347737090433601994068672755497670925532454138370509134902098860951116296691793972563749647284770144100333353539401724120461785747202262645969552384138932664679309735332696831180864644699461511208477302629099528069192406394018050780750852712977927942144752909454543897915507128409028383701799988030320302483098884640570541807325079593044743028318681875287025051329723215867822632042964230654279159372513459583238484022441892996370734753786748719326076411792751191746136113480552828742270628116474775275657206458549369392738246966055298924587985380961163110562517661134068490735648565538580024795829650619157936251173476621231639111953292301786693987435484627512089794155661338343864104170773038206047998857283243168192221350745438938711874608210138073279018170666121300999392456697427812429810831064944773279469330755749797121901567253267903581964189723146219951914921565852591956530464178835495415369862911561879332569202412716728906124642411351327855361252593444744450726804368635314869487626203486383531897070595679436001204357689955805165718987862236570600645748191837290941943061554389902411682290654553512047034172275010176326954799195172784295373735361260838703275598732275906966570255998374235771159205360308298569538946257052787029183633727693647014556761808258012537676573609994122155283218770629761713728957166597430809113134681812228571269586312512569039961947766968702518594414774327639868228320550373315497689667261650774042784989163920721879125643997536467580512405073182825886609770510242982796350995996844496258607101869571310561466089286463148699517800324254778608692969982110895745978248400921277221535981686383028270564868063526406095393792415691917336577121658940507807072440222379397031154313524562004415900055064018073118387969895943056714800839748210591424563391974288014085305934586406986617052336148704423018953678342823318736042148373626585985825799718184344003787152825418052469789765602136643263761565925019343535948361718288480863388684547581446158876625558592971599700340892924875249783533004284139381952425628449147773724853983445945346719238224071261507287455436597357383577616782992539324489806261636021340954346350934052891280430316657745457047942910940410899017843766519464085120818478967357252106343921496194263416823697824845132892467551182703370975265173791318486367123005638919468433673237879579234296410871999579459921047934482527374306711334285150360528869012397199360382402469073728472400530437731043501029331873827728326412222715560428521138088901330992247977232803537910578778808028150729542492231281149245982270420923125810893697708040387395955927780868996291374869116399208846082623570061689161465002535589296661840607240438979669961498441934344319678990300229597355948884948082234911734750391845303616670405925296572695096481808754545734749654042011384746318972222363714632365406566511940437823170807599452523243801168183270970960330647906674739226657591555726585179395683354649139526619052847002102231104012308863876113725319752079667986588813752846763416648560740431268018444697516871633431516037345641941522908570572087257906996495544603570012503878583815523144433865769299600546399472624348673151692315216007269746786015029884531484881648779371182316696661329269992016228580023630783127464006829916818989230527514024680133578981307267873429059834251926091197846408926715503379983735279945970182623559942514009111762185171133625344870056499682534352460147240781229427752809670892639843246788212764340115795978623542135735046817163760929422311879857824241325101002503170296262272982581885836091307880263180773695513389680972185361266889345213439355180825408976195608171492668688859932054065211733057261878708093755375229883110718956288251907829310859513241779159198480223062173979503275711006804587330442503777314424444161392176571884350818554937712040129911648618377004447730720999048420325780182149445096563755572701647743575951588395096784332813766023206827308155747308056897108115992116530805657351290253067661469629292288096912767485420802545783851198311575767413968697804964636231632430789733410323589040601473411983767500713975386115399457342350569727218931519818878688219696791543793589529670544400981459162975207054085165342972730204166803953502626600369023723714131691670132376375404369421322309872648460888306791045340293055541891284412263358090173838308147875887454256359560053887997545407814166248799090883432837266344623916690890816780827464574195795375961105059080880975744794197713903173724081347109003777117154530889543627698430645181994035586053573522637090409724094424459602810157240736440229641325702984334924640607277111952962872326585465541646406254105248990142801214791801696064911574738969408323647905352538915474168008042056513430240148374139037094805960625289371654661530943795541667504748933820427856637285191007000016479140440243686706314889274922599229768260258461281708288307217739906459999907416175461413538426268099943592726073813005161615806784025038514122888731573271822982271800118321618453712814477935749982413393239361346474189783496797179715392711951483148123277767223965418681412669933332340846797109885048077663246181236771404983280325346523341683251259918684081757310346243209606408790188719642193618432861103208633864456090646075178218429706301324102304742377466335601840320249845263442055088268348375081796438068059276598070217198594338065050912165879131836328327646447872728317430019808540704535172120753959176301236663785857490674081623271636995007758505800986466165858184941528608398384304856241298723177886246840248396998411614626467506105405961637834078573533168898193056588927167688836606782686087477520494458619460863586110383551250460332118174656028108449843667854979774264016354820444243473085216686000204019657997406751627665081731806748087982065738057571486935466630733028660071287256901941703682241100278958173107892174735098792852128282097043524105094806354775149621835902666246214296642872595285429901792462522125495896712146140398382945537379719041335576324444031960913105230477374766790033513785211699807098379761954442718017850862633053986734866104667363355109441141444272943514430466782537228567993750515231015154773945111166861245117490012407382835442758525858367638109492846973987149880278065128751781219247734087260019678534092289580521862442057754383700998071135786155868050122564956579756548391251733949995429971248286451882537439842600386048950354874442044478586059146669813381869351118564882879141575250558747711817672095967576867083785243655684067237866019131951238858063484360510776179964007707761695159290319609265611110200415517704637103040740172234071741454421074555114040851478278514136775180046804279444426749935945978550071290087028647035856039797278561763190239169593567085457500092800901055184726710058967867785974025759903266500597218254427512182308903519322064979429939850622740511658012158532414143149800793476494188592377493009488267037506503036112360874962619832454517326820188248793663053219474106894301198013317085157744782640061245312841013644732384348757949000670801745027082933234467447003654674654734685697763301369134902771803360900318935415370717858286598186598343874632275343196917010240432431223760389483709491534576858483115940836070056414009760657363437618630336362534041826440557325173793875279688494408303642491687708399584093944937452257007061822591327075166336691678880897013080321616307918253788896232053255625772679435016735817133470524981935263656318565758742827422326911936418839033509489607182631951988465129323765987258264975426323944952052378404525477404427519038439381557059424557551904385568931841228708672817490272567949130736960569521940471613343009599592788033241509306755345085737190411162704452541369514496995520528129096129450915208823665574603924053060330850841704766782543255534469773712829237533206253705639832926675917174342282689294825680612888168099014329730058908406149575216772542086243991292221666457376948588520335517874088333888445448042592921627630030919870692480787844336365057262624754187921502121729831614319391179737869111050433451800310777450757560427516327530699591229437529483007514781911736528242124950463883268756538588719364504768151270327440000590299600443898050046176436822771217043315563855280678725238154318659598628743518865990410400431546765329070036105117431070557314185561776860381012473762350361206844902525222912520967648636897814798583569496532125830717720930384833602017023068144605418251048881659124282419590101820735618194513103926726008825377936702921677262558079399640301810668749394772181658658589026843706191818935715147567987827928159582382226086061321936847905018170894011143242129188069380327092457705637864598384828694521609920873127749999448306312895401625508418105991679798099001231836313662972987346489923568759268628025861294403838485003012041091899924175798675091744215874813509872001963668321426578287030526677806197755583637618757122567665894275478097537157699995915540260277822559405334494259861608670579997889688721570315439465695009274404940856079842889182306770908610880269398919240928453898298541061657566974464632796438785480543743481393359858838227829283909691994418785901555265456416148150024486748575347874697100988682105020966981325907889467182416723583689865209141989031377320086871516312035072787197430664659215947665511488592874370147778447655374000314795670932654782038210407670322250299348019035207443283528674607595439848136964577314681178692341546800581928623952497699048695495758523543792283165365646162221886967044407117351150126682651309450286365907779903632285874412448169063470316150446870261428412768967260900321892101750114142118046435020050062348253949924187005961684042710123517887090216635901252139630582925508394739031313256472002641018218376724412953140203092560150093851622526698521460449122875024388539294962653947169078178141042071829282436282713571468752293471558640291970574217011062929805025017166626925740383331776811387637683314879489480009412876344247120918224850004229154902480187934418095179657002658758947251411851394007937680385624541639339335000199223827269603784493075983008393872933630051900186066710175716507867560266558663657923698206194380923151455429483193486333118162166418577338961316073741371537586993768289874326804403866860431541775460768819731673455559271250816552031042469643675623189243107470611189217265684459834714373976237979201475104567907309274438854316927364414287610955789948755264474439668510725251325293527257885849353649912463133376617309815894821877448111551059942700110111873381307892330570557526751635225092866231385991531466059054362845660802352769994525023172264513350800314157405417525551778605856626025975756746180098520403258548757455677291739086176289658197840402844683351892025776170125099951763021188965687193544119459702707596023865346765364664902966890447995319756278648983119959871426613112069694025727659472956552191771252468538002874721624891892632097280754170341454805834900283295836336799168289232174007110319250138214083819415305103674307333520729976002734779618701489070083677804142333442952725218418429531149234448341870292086159058147401275913997830554053775369451194920700208851048672059905259930615420069182143628195463986699477778099005878760003770071253895588436326325132207837745242269390426201916469660274802307794743316740936026018149704373842187482740436097475133222787064844767292891376947990148243759969103898893339830438370251096660553833499456491610690441485897755312272510826435018555919768171461405736452283522508493023191583978669876183889013240893607453242015988823869640064203000971551953025478396234446962071773161325036341246851963540672457835723145519019575532685006574182793434809918953222095106513169974242740558477008005597132519869183575687403667743182115761989308667871209668762419823652569866856796780400641992628413296515952189400038684808796748469465046024278375308409162489434352335058075958987812557240246140138208527205649658770746162481864713349159065319548500816026856246405849848299204020483564867257516102960913994353487011117628552717969865588727761158552905123418713944645306485038975352727287992693737343666929349400931680957885296213405757448353664059967119054137835042972526996331078215834102680462514351864411701691842581395936747986133188546373919582883280054397803912393371966040103313311541214856378399905314558693105770017512619477604724259766220336346986394252037456250569481111084048212426028307897905317650004372735091948266267740588919109664543471252101687360091493537468764324526087654131720116453554947631583132279619996789882342134598223022891271759609360127722361527896772039300986729314664139230324971766511476705240665063789722977757720197313041672712992386004104100006672153313680755047724642858481940968312236167428851880884813583949698815212068043882240536916101490371277536226947059870155474171657131003380608716606409539622783718736760351473934785890497371864205252832699237629711138958320791936079033533581688984970413563105561446250359320358313719591729298044080579799044052726495404709811926083549255312907819421022607498584290694095096481730308881862905014774091182389340713957769630825092456517329783540480527869213647734887307116790694939328008547537251317567148137907018672903752503182119313868191681968957883301009365771014973002779896044612957499063562596547008542562801217571349109680332533947929938334513902478236297703865117879717070763436997261047293078378069661125379650047739119926250182444321117381726926796606697870178177996422211169467515784157174629735597503722248251077573053428439438994950906429095951738253637652839944115533293748244481020075012292386234141717481487297082841716444268967494837753221402220927713481282838871348163479025993709673181658219760766106111016037860203660837227051964016106263632675179212723211814348893996798879455251990377661289095291814701218958113510965590273729988852622218851860405144467519355846201724002027091511619419263576508868568380769179046559702018928321210616800150304097174941534943088278185216645347657988757851248454223817157406130164358902930234679279559193052873258437290834501772945974506947081972809855078477161556132103876470523153162846304462194576080904986127830300054964161021363401627681476287331828237917321744140887094055453123443719935793854978454510676219351839355952035556722270221377770825804267551982192984690241648154692998212982364188888603506678406206894062007748484669662317233365973657590350538434229179110162368358415044816137085198117587331211812744301774009167522908796067298049169992888993935399278128829304271473101058279050292130499438622026177746467384895507070019780209576608689829079764146400360988600921802578733242483796448817872518672136768043491697727144478617800692155603171245656341062940995627023425193705747422749216326084091931092729420394130807602463263635597147911281154103088467122339113726068979264432828194567544739902850606170969074553493455768715459344024297815027993013666385845741911372444157294172842649563520111231499775535921017947037540678928300241756404586061626916208054636149586640573430483620314836520120734796444521297389670490685336707095648601093902346086162265470311651905336416491049061333613625042781936015254690825874474447274251259162150908137885219442007394842865691212794482354284815719612995483296902792368382535272735812627142633405606215881015287733898118081903594024314457485699579203184873643734229225295398373350390368597863349289912672694424157718344286064135656459426774580264383324450285352206981357184022252290112620448344844274253247862686809668241059644723911161639554977988420816466883696261352454884967068414508827801505733066408579180175362898711805420800512469383168941391583876944372064577645522631559691523691912823445199573634309839297943439431950395020429342024996178569332300183764190306513134608283342998187121855303452656898073139028106365960111592648043020957068199748589332080373152829417272626780093929957237573804245923815254438772623664241575990851033011358978507918446476243360842218627580294777193469366588639809476052077259919398548534037425292630823488718543130921078310339232311030759894660674119731284901016363413896963907292977842321727146488368797705050625484759183297627029541438264551522571017037159224555091798307321406035383393798017370282763132786736071481889434079409498273887781395791865717745193786023839306208454306999154956884000112763446490736952877991658350566380254159074168360849067287130674476206458720044179269381776926804178086277862012623771715985695615550177465248465282156809122157894093051461218277130187228201177999776223533042778525437589550360217820381464094791967039123068926627832024690870356357158406871701232037148835965914337441518036895981773076701122343279807261047365845647158283416825430415307181889386237902071863839578670818900882347225075761554872889384947983851940099581347877027796765966544626923983516110392622080678656793419146657225013899209578536599695092514558357851609205804218164252253873814549383814285813646879087487919521793471123007590207695959484468804816303709366060156473631446736378042290201495454643123353414022448496253575342071276280994174805158021095011173292013623834140394813715955849988678166660128461618627377451003403763543432661040393457148273656131655440983664454840915547601973859466348779696788707252793684085068620763104581038317660533059384455355101157172610708782820631620860349130829295754473448881262410871613977317563769746475373868024092141051543754506982704127054633097376124668816446198889315776579292015247971050974413721524358004300181073974469149652882488108738382062808175521925409187629831222711764207400985748371058698449009167070974522265804539151202614741658127759285303609689066264627772048454907381669021998598396464983982779674359688109780753308430957168717390279236805546792260506186903900746429230765385911346530727265013240751396826558869077152344486453007081329047499637173332113050460420410788219469620803762979105354762088126883586667192443308163691006223971257874663073428687766792567672038867669984405173335924857141232644962837320069430407503730472679546785630038926367242388158331047853874869052516341693157040812183578414839397241250488629056059961636869565778207440459358365647679445569535332002691822010121479943897070546819462589024036936401726649304977440518307979633815933980484921342924059800048720477759232146333957036597975869919050893706982272344463638382458180413434089297986402289326156116147909202934198952442346248058355553164656235002816076733892783609513317747476484482581370444044255992791728921372527584949741568896060987354424750369021889900627843207593190153835696995972391389102136666480151036637684702305700499549676943887834085350832882192266831925982923189232605872741120616360001895476761686983572154001942852058760536491625615310093281485779583819884775879789914076203539497724430835838349553711959845669729863984068553450172791524200960168966218753342165780223115166963368893087133311544090410580498682952934859705165996817848234635587790739939427505362151016727364932986504211009220653416735094839064797483360519625370476815045307041061395775084047557962287441707347985122590163908613435376839007980517814346178625314853274934812982800915885074153748672193910268076936275882653946983968200229524079454798949975827796169332876623721910020772291155363171089614813265401770139106818745495375981458017976552089651391783537209062291704492316581455219844813994879097645523146569121264124420178792508423191545222926062188591639032634651409633568530453889006566730000568606037194704893329691024151771484791918673420539553270139911728763366727971747702632766819279205404424230777528173629149422703454618232886463643460754187395266066944210624279486933208079402536760691587146134424673018313493437683565692482527709829900797465126359420362872923615896842454698906880517409555874524471374917015919142063088755323460042176389774765423987466469440263238093180558189261115487706105271542430955832445691490386179649312579419786909387144755390018173075067467959414220683482696044432358930586468567906751265282867920801488135301281753369267127006550936030456695853183158864554551599490729098048713902005618581431271590225517211118274177138414858473316356298446129185553712091055753296987776316561078726510993649940951431140501071799137873020284176757422941191496963771890186096757883618427875404912958946932093264061029834482690864595914267881731418322278529683576176843061833421787280125600561521849862860832402329956361099789153281015541154515766889149950289300300460084948822576236508512211820729049198810728469770274058241275402100343340210601577799573268350099745092027514316922170658016489520968744102388770627280387882912984131247231690940467330925186193948778168123112319289488019919606300063286527168784127872039918043640214283039487395418230360604616543112995909711229368959168757186254120176183728381505876222135374963425426993485893907116857600786134991891361668278989329940500015903431338026082570997931407938906792419664289973590304016606987583030632934770575812695380835945579165709044637645409223864584035760264749193842056477748935464559451749470008453152660838371048863066387437029860375460235416371735884708876448165102514644661972944834661457725464943687535634928940760182096157346769149510128668123651549518927276162947971128170267088955304615956751298783932201292398858755693910977127787230724868345846594771709563839459635759458374536940469708552269235840436787129196448799625591128602070842794105853730181710914175302336241984837333373360210113345819281912491696164677825739899796838555201209861507414171182031093157034836648494244786547256350050742037530939227669369999953949073432920839108078311002538381374948050489908175893279102402466920144661075179826342734094982897274219645638382265894097265392923901157941222811925769327849997507815297527765694881453276359429478577689980377905779678896512581012230647781513503911923712315834161985631243850210171312892547595459036098048232155383027821194662007053939660002192531268010746698153400015318627948906906237470272145307235044072926260626137949239883404900114299010626070764326807522235716860831934052054030712557664318677663593192464327696637534301072100408056394311675681099237631901381911180026035135262969149752656958449289809962666090010749507715056744806590356825053458000094257551465626116048275707532139320918926045459032583836845684133309927239412850633312114183813602798001005429502248984727935104791455910850842967309232219854639978465857638057330532494058735496215333305602235606736564258806946504619538494294594445366668954737035022918751435253950411291092784932198642379813477535332768589208053334750016482653564249248650528900828528275447627974746478154009333343363526211923627838008232728554414738752494819071613112501501089008317071874583225700726550699538939189086052672777522817426136610384153307593108691732167530161078914485966519117175100747578923568151693360108740530884191910122394025649360051400510526366881612706110375154490097547749536112170504186727630083239819227529531997651828870151448347732503643672564369657828870503610176050913537013178761651561221568934188746086914574903376991303275391685749624377930963022006551891605836370959387610429968318480328461608911925350844206584721008866116569135780605874298322944082226054833335511831681872241843607827766713971916844708055697509519072371117660487781244759696867219366233190075551080846166327833160836639959503565986543581374420198053174980060540461510894497272549522755675500521503405944270819124835126924551013192730622935207059021250030602000615796320911363113447358563643251478970899119171360691588919682926341159055105856385824521552397247453579194388077374067775706011949597733885323954872358671168626596809436441861877109649180879748080117713268131313698606987049467917552597992716963946806985854741327245897766881211006042850693746712758837377985085904009237025966871220146454812221449318617469844334071893654095078392227200885949760846235881596489593786910203058360743444196730945761604257496709642331852119175599684342706150853181029497358717656677174058024019564697454923882306927006114592114865087986539228899431035104671198305273794050797249628862082013252590822916059591764311108758727560545785417302528390640352387954494939661620522315030444047961085484454400363308974509205628737764029570031285630765932639394787384538375264034349735524148959418285307727641646750192311603679843756367278380798029220558267406436378008180068608296870541259384708229222986317168778318364148043811052294034883656905185128439115251624728520600656410532777369685990080411029093895503639291781818547238384381432190109779636318755090099100954725715181062812264992989265519149235757225049285999430675724792784917716963677719922932220387885854002974553505535844637088814990468137969769886989174362029394010683140759823250415090945457757392730900461828549440331783590772633945489890201892490954299397983767628813155353227339353627927880859120077795750628536337207879914274745863473602719374476089876767281775990855179703528026949089710251742906797787323015064487400448745360755288643548910572166948945961350933506918817610089104645777931057238129638839671631062747225795170139389778475146308681047005482507081894338992887103746191844309293509349943767690381553422416072283443902438549876391513239861997312021052269307557819989694672718452208286792661745660949166761627860072597385133051200790307348917479615060702571409251560626358849055631212862206777532521557874825334896184164903923274814305954268696743949398718090701987026199417831255262484047505495480295684094912596681980225350163403842039745570761034926489546383110603998883594440660472385234975294051494978551244858670159104505455892803570009902391459699246567008094195286686067327277963781589492585132199934542527617210794163839901978383625477299794244951808195282054396729542124759626897121265986772640302866816397191579744744682822761611653583449150536608644428845567941989895903713617120079269808394714948416784777191188506102507584059782486860126356338222352139028318759931572145824387471202288442387531790412451077090604449150762101138261091315980927647322391511708565532530496761457019394508797350861949336362038666272740088947516047149197218301286657967775109721562066557840832742285520468084907736403054714304728407657673043967275386229108955617305067860533529508832274759129687437439161208394951002714396385775212973801726477906891666640015038850580706543562955386065174074256982462275491527837772029811498044381117808845156498474234783887205295043090319995798948789293673097996251314945350505696894597944653285964113563400939114312321087606178857764972560319312261259661671427602964952171956847713771278830576768323817883867094529425153260542264831364777146740975696677795749564025458424894422472255189331482566053035472420549203292198594983280193988625891815173721620343713775805088985373381875884731666415860242331384942699628561402305880956617961067086217617258720999596154249735850399018970269059440918064909191344626460937530719119797368725457097211601293503608860130547541904861398003678369257812110347117660658519462683669631414704570584737863209378133387363753452859172062288046152639938230131385224686640309260038522591609131876538126261040167913091535360477077016118406237904802885024828006654784931121624997758086787140185198329924379886294249674291931338935702442399615564691947163917351098390941517569194428713230678825966852089301826101746643924456198056403812336554552864197766700902090724869155629137140082886512734548882243079163809625518365824551722171250095009853590452030765564842405213849335160023993249307213140868956099738734679305520338939533472038230060779955848556041656306128309196008498618634987301692496220292180149503217086605287939415657465346436291253305867946982399046500763974021678482552104405023072986720784146645849958768707996756933028679850210519160196596570640361842958759127503618956488951320008034996968780124189127542620978609183286184538341777469238453671385917757189515324371888818296672816053143004681558345032683272004056879973959835884564023000079956767390619652166974334889629052746102187268353060464914608266128220372762459853597491669387363298610427143448884439233136503415074233505562711328799009357764238251940800750858684865081253143238126133383041205526344497603541380460065742328815544623896024908417754354650754887263071574274432231013251643462521047247979588945322036708559782831101302460861672094144060535308105523215191582697395876998407979154352865724394377881317575898425203296319256366738079359613794107702111194372607370193118199926764833830213865933668979665214778022096164923151989785607113563510950181267034802358162120406737879541725132996939611399519325750807427874819869493627363157449982376964627807761561840014598258577377438351275831974950109301061450211708261934737359929338796821085776656685863625688425029056479112554988067869214937458991318786896854339240921828296026366697805141707856577113532294121984015767203334423907900138388075197433766980732350075029678283510598701263606940222780688507622183619435398168841578543240107885939081943696555841084230684550999485013842571131546494083904664585020359662238225569565983252977305763293717994389531268455714184588289206340407991113191304053227330999952268000462816865587423188983456637456731544127168603596784340546582437466409985504184299774189411754672269279537737024915883180803221679947014890117133918418630078289799472744759399816893978197955560722196141172595335417855151039572572890760912165098102723938759797135200478771281021507750957751037058018402987260667776134042649493362548291944850813530874120211452091174935107183405252951422077620090825019662243975573691931920042611961732959528161199469547840236493092137701325020843148885260510623722804786894864531716444759821338655047261102567604058958503505610418433017089429156376703362932369607549165262696427481483610418683775019210581504119429861253085628630288314667064711571105089133615747231463914710306255973035363165291940772633350545383535551356453906402010869151256350318365951888855005315009707366804146696182374336558780813338284286377049208691842237072493794445965019775404680872253693769619851456682879386177453301728763293379640732434429669957922080997651026146064656113688346396678970360630349865391155054069445689665477746407159406654212508454322932940181535287233514517896174651346944911861547373884977552383152730027715302970181143087520105694883693737732389458803283603855842772268405413788684267661868309027901530956338533375334773522888357812493760511300478404951366514363115234591399123279198481303851550304142492482720196511932908545440004648524175978098420023995941116879817931095239981302485357879343259882784311749912440314233009124428749209839197940420479140252381901295079693422442242652057192902134353302497762538512271758629558459798148608227874763077767758175626390408073442637968858553635418343116957160632694111833563219648879720649622680231513801524449935276495163912778623943066438332665956080747835628544920238885375484613163560900579722568542094649073111604569695754062601474593667794142637748702417224653374210693294918643113859135603803856009278197240969378423612002812470928153342965716104829068605004555052438401099442734795072535523839880700093897139717646952737853810706325455210730983914863787912147238937354413529312161261409625588291621369138347601996759931052517272705882953511667968914897344194343716311264682899063180514669955957086694975673055717913357686674499909406278052337004947155293122181303582365579491798824474701822695037186698610125705796477497990664438280915841578836092973865328840440802409571089785996475984759871170051195846753490921180258608557154559178222867662727722928012138818162698982963186180234610756054078196683612212764882166983557496367312146174480435489680979647824584031572305474076041613468334382687007199449424244686430605788691378070131474999790219776556063594338016546828881328947554564760102947705908419331082269986681716984081058949915395699575846030573610923931473843129678082433236850050187265567119203971786890946717855407752793703978968639393734888249460909106060858216535327629755390445727110052147869611441193820569610902611190555194683665996721429412012297735592607433576945783179060663087873187902448393528523709591071231210500670031762695559101868171088597479956324542633106409998861932697211555726577111660378293644914886924877076616370288638391981543742238422697311004053377320049979082348836125691197433145620373600521896205021501288081300844643701141299064154808194380107717359808480125927279887797972579921251811823328760334824873181993396807414138663312928123286387190380213775179693124018693196339765174076215241953567754080727556212620681529995197773077467309900852734437156393392967637225755932350821749830764316510751785781565147917287747704274257957777241434793923816735448020124606558604565474293799718756095920295008368109327701644687781288516816668143644737631645962296183195107929163048058890175629820689174320559077373461876339353590300109750724535625114908676031583648076890461745129361287860858497743067150247436572594363818318236951242804703110539645148193920618960819093978428515294950945990141714309275824400893266609436125915382679463081756368026449186933997888285102267666342566741991436333930106905679018855743415561361899988721560393155131594711205659451855901394969355312203954282285973383433793653718231997992172301571205423405554635569218527074275983613179797262568253080673650258661679498388060113857791793540065660771271516097956113122131407996506083849609131822475043355248160227834264405468144559211510591843134133644083062111507234181000019619425716061848748416038453973053762978023740065031440191159744499860925590343788871714510122807358891774048094194812024295384209500275776745477553534217161221152927818875924129846622807873874420813477145414305542157115986727105942888266643568503103918825792028985023240899704314177882359880588314865780304183713864269330265718723088712600661622174639213758998222883358569141087464207075829504785389579056452847258507703300067925247946512830065048457103715549305957648851036051361106307546319773935128552117218169664562468346641056152331634684102037716658747240146929678565773415086990874726067643996460508556686889091262316021450009511668703195182780463874289812625579014856229775128466130556389534004118437787541472629543836398715730965548306013148133391529996916283428107729923119610921889072742225170965585525300436105799418950048832200500489820210627372837558785966821697671661402885458480400279145231707790805607121899072572656037597327870155938326104966351939671651233845051715695726330673677864259122915799670146119049761355908598813373702528238186883143129628064279546277780879875128194382406830179090407235927532132900713915174518321465729463314808349840328224224161721789993925141838402559248656100292134001500909544061370498674161258040043234739186136534515947194047035052740153032186391957818855727407052542329485100458567815203824514954426189175141607791827118118932205413558316621103892830432078522775094612024717299083034872031132270587258923321210951933899195328001237411885786025719723879379454845547211715124882703504110500552665446971506154257748507940218734062284106609795653933107265409521191389076410719934885563221510331652053586316074306704311882291860352401582540568224853644515845146186588273790593383536831810761008867649164123315878999364603666938808293452514756291892187184722090229201082145269230630237874990994916097949963715544684815047859014679839094915253375189712498812321617745623497547685902427745638235153225138797123246831999825303989038554748090702185530506264690438801920301755543433809270676081382856919944292695238190330643181631043448527741243257504428881944470690401896402947958385176156410405418882496438783947834761402412024846549026129794060179013611285904368900310712318096506595811443180505465768483105756567567631586607419949364695537496644348929101726287449011897442381982918709509677182102535774894104774076714702058933717895575230361992828062462244135678933900108356545955901831233707620416082299619863724825672014721235942109113756785298045182318183500985237592129706956937302741196749602914035808440264229379857310846806238360437435979861598055016172590379665656499036742186479884947688905007185519023914365676810590078095094926942536506697876649038901888210921704959198575816748253386648149169187296804391999824958770162467964034271694996442553070852702686757767246604441579212057602850306580665864687326061702883000203118532489851581502000873437086638830704243053682019648231028856714801729596283670019673566959407243063233868726634822498757601536864443175312479294392294118557446267189177524188748631721191466660071003399202004011676798585145088397213322321254092802591520787299228949029684291786269587042918764653590487047011465737088404873056517358346564889894644660348577981723332999337486341747286118309589347234310255207298116412907476623150121660613782758138137022982449284343280484721496210956580525159985709090268239804093946990980779768244495217942386875192179733725706457156476695897778901491904514816720241778755409621848468965356207994306214392240523410364346971617781096204040827680517630862348765508934848294235610426717627970383845465156222751212871731448695939344664824921447306582760217244737713393716796482869299912544468097886388786017877258720022015918102298123298064040749597372426354171496804340518976794686617487462599216829775535420627010436093724164076653813444426481111657479522927146499581499533183691551815516426452693442252610827870436242973848541534474743425682200640911195011732477723452139651185018341301574004916871365771287031703789445684215588684908896591256818415672365376017736829691378595416498436894677375944613852922030484549373712296159577266131829528150386072897912416838309493547994248140024522802194144177582889959671714868255698634834346842150409133143277585215057910455224792063265563560242715683275824318229561368558272846908394726678596365778024526328588433838099052451499387499370620601771012166236619420790134070848770520796100637285381174835056289350789510791788532111125245027664405182059518402198359898079493731487881123772753261605423208026676354795647684495226216081379335263198884216870373011285426734143457415011516044460052244398812517402492692667663107272598245595377712818191329515183469213352205159967105376414391854458128502701151227039672411714996813183905703445739779255608056402127252953055598944386456118400284252976645249718283866494061911266368861552880718568427900574629396078773007315194348028844885819520266087220152385428485542386041704964187208563513921903815071332668309132295661700950546331894014512643338972459305990966793368431932532032993968525739384695224716822670641752351090767388315237135970489088326359752961247264107690184449953662598522462810226495052017192080452565460450560913110399016579534146600591067329981164619758639901813258765666940642829725613152045169844013628679182086844079176646824192373394629887662795545227419019578642720299913043862529621064110048777978030767416761375233717134031991118816622922022382486053737075643234735616993084990421949038579985039835093119304634639810598330256829573318260494921665901299625296807104105656562765249590539954389361115280763802021528889954075196130611924904667893445488111310017085517414777664063150598264940663380958836556526205273278509673845926439093261533648172610845950339114357043090733250146149838609678932924487384637840930773935413315862721003493343191193751368306631977047751977546989719687208285655481917534629431589638030077266694280063978935132532918653030809998622764907781638269142722493047089147393025140448012546930812445263884109848296765791796094062204364079282894789828158470676319949591653412897170427278516298096033978401991359650034774255212403840159239348061343494951352078153619972279449162777794735605239955114973331544841359768522816229731119965300393830557475434472769991572607207863067115207899769587096545860651558375284429578949024832051773210903823825911266923795554207798662171278950967902705632335069465908155246507762003641263596114225525251232060508634493657239790130069693310693945848027257246608842303360760663407649162862766516236488277009630151467337751662066416951531921456843829401720704782132643373263411188173961603717232406240827738999579924175882028847887502677571606947934185351713923166137987044327750362977331456396363222578067587641555899045641442928124634291306765726363583379495571971790979156935491582613448920513849139782245837941968718906253081416864798781823104516633307543308889594498554676726909719161410729602958701739244850271470050453882239379033219795371409316850527687563329990743621461160278164500450766828986232716987073224203535792515885409005373417913347660438659756896217345395404075987930371080781597628902503182824299425128681393676243589765420258273965647741970634127556851135784664313378901743996791525254474257423713515146084930337740633315550514412772075749841855677623836131205284373524592903458477093071211242746156003898108863074836535847712327303454648227756494546102877968765151262906126668374324230654432069417846068052690500360828712343992189348620456452392665734490046087902372882192497857984717669056546877915579316384131861591543657650762928307166266028307013268838886143087307326779663662833946048301182749657935002656184635896939814221372002853331302329247518252366352310409558940514752008153887602381247564990195550585971805971252512119806026057825658141030160353781199723024422319617971512877697614749132588767282029709680302944764628437295321487243817362074042907452947753762901843537289275331223011320162792956128910617619167796601727529212299573828649474093829600133784937144942863410656117480627967127408197671399023788366238647640059060341056103441495239282905404709395278518719815388658878714454504638094544045672644577966248991607153936623067717450313546555308705150239233791016822079576578906952625528950637768060217975036921194431468806374440110193661221987350307696700508559910849190151574094729397541542851226561548969325920479066904061204519814594415572582142707672197564416931629932531084928911451448967608801376858218796252207820600959710471236970606549117637234863473400020060540914968066527325585784531880209825736483635819252698908684530335360185699341638110533010166968896255286579922751832515636446952373725353460534488382229078246915592594815764628982197208231271292167512438662663327942872121070035324359929619787093679988363937380699777473599153526502030688618807546319386588607003407874921360515489399743870768128907320377361693413671840141416615196085010588350499519230112533202546446335005057476876427860210272403240453206887944851265501806050117124885080344571528429698396379858879493847363961232867544442200696426031260964713895686833093801578409291834344459500872848580326915412262495171688817352445653127101977027060442865130908493922950060852080485552095388911588328631628184139899167786232965167723858142769172411112904226648602167912088330658513850642824378423640594107898456531932053646559533883947629974165791506908007500116180243161732115094476135874945782234424223824285941351442819870694069318732017910639677761851290367505662935094185891440804830300163922090157977970305124627773802964487110431736498908136926169958078470718152506193031367033812352764454025823053003776501438802263791877539459815785491798565539506624956995209979321111487153094920822723636869595537730318182839663689879303735009202514428969846996973051960334546515478207464284125955548679785767627296000840814359269330449769700506432538763077722846612054307768431807792072740188356943684142761297242668632342438133180627506689022751377212764535358519331443982208722908552981318214946154196440691479076392374748844518761546554267035085430223312945107258525967407525398230229959803052128863381659852438972937905793566365397232454731774266712944112394299860469523686189772693680556314044342382454955896272745849564946256618473514483548494350091225140728768228502021725128004103758988862781344024288030694423415945725190744384518212329251573538784793354749871029570273488766724590027853188167658473994715536669761939174327503619818351839174330958805393158739750006214294581766169818470324458895533582639267043183963364169706556667350903962294695693398817091293621307845541980267619527468655708876344335744721240409543653676019222047032298957909546360462969700813020991970602862764826827946911007828245663007942118578760322309499619707288675636230145522267328350441437431217367727564762772170283839591647573313512729528110891085348294015650247425628339218831429939744029723964452022648992918482330208383802364355006249130958104117009359937171670701370305212178186255112609919956479206177557284907885995926878190598222131342057164666685057544936012299473337289535883562915439006368952393074838851690882257631300318687174877982266147802985494503600713034889132379111175632198143600070131017811364706977463923468378933206554576622887694018355451400991859155159227337509077671263973194684300490142676805591745530577442766731133397774509184201534633213579957327219528523587133363366072436970089949777748120794817842079177378899761123670175062689851587136367448235020828667740187465904948419694031581499542009329872131773390061795507496362669005824312024758412728529555695336320992176018780622005471773441526135272913112322762646101507247576788309584782386878805386630001634198000986233317382724492721729162808238434986464176313153621280255250929929959726805802023465466733794255839161277599719591182175858706538926251152950027730593443301686944150737159169368286586893295909464038098991882904640850227126985240787028122404574441573867832962450580907439176653359662056064735675846729115731416713856573630983162453439012771438414946406814562623640508832041777713849968218110850419524444240333812470460028639650850352129741028813682794122438494265403850184586273372123130120834585088354975057866429969936729785147625981004490592839708236726298634653822438826358698427738099672779158788194274855798161132542416429322380480369774581154545924285567319735545319033352369648532881846594954017564463330829685748733261540786718216719016733624920102458702452947435262526672569404568497378534435485015397481780955213667953980756379238981702773516641370960574523132542323159352961834850980016052240383493476966270037489919024315706275948638272081281725525039568779450522590060199764380861318791398109801627187386937303261489086240595685220541902880121676771672461240161583058733598634434942318118925977745395784111845324944338163885424237161326435463425251803030583953044820129151321133158637208402935774822064556079037368802171097078149544775928848159145709524822622491288698372627729243250260378469615817313866247759592865833338300821702692615113681549408910195284287749152394045071956059841043562464595292663931336239354340136549569511513556476578008813809830177860162499413010963441615506816073818752883438041816710613007915395656091372377465762195954472798668660252625244799082657664295686818266189568318221608311642866369193241298101236394477553325131372436919107756424808318808546008969949352905011834459602012803420339453606007425941103001163869777946318713175103708191793454266101227068300764161142266474556228553844166176430491356759410760285339696130874215934991761204532666693096592090009282297591848691009260912077051783820064541877697856774190687406810290433321583695852326570017082993794989425889890515460210557164796615231164565999603960563295724030316214281013713733767180464291811210615630879411072116380253915086272142216575665727257139935785346615382957522120333520649081063174731323511757206487384549623113980144046315498131486978952472920622889223776126612749246279512716176556682885620307984879074400402820097924124223294470958009558972660624028144055336256554622561107209358693089419740797203983899730155080981849204794764501465837302647121813660560084461098605787767922086719570579896729053411530503232130130693562783509180181157047326402347048638268805819825129118310592419399767147574764814756043168727412342124804010035634198365197083779837358979970622004843902619166931300642409347937717060105206308099463588433721204165121856806614306932914093973018102501817027703885882708367734889245695633561184749279359013766794124212034593741488803493231048959153939616845890359149279560401004444779355354568712737259126329967559085385132702509835916987591876355134748507137915039328511056151576905685961656787704878546803879425912360431372195929505672599016160799894845067710197198147123893101717728731992739121910350617563212084538342246913009168519291086864010009715478659724525204697939158562441702450453670620755566709250186316108399387794175651592341488743664074813733263483400195382123083620137727606954692567134558747973156258673381877236618988838549802541217913438386977346852020861606000763789879918171499719225881151228702310300546316879747275073653704526620007150310670524732040724885248206466215656639866589907619403820291444934441763938674293438435915114887846418425192932941797286835606777424615292167149817764761765464040031384364203172151796840214315365137314895071903413311999351524194420101737371569272739661897883925970406709585475454332240975779064249609596959017774909961230889877648951797032478645596378328684840842234774532912481505027410951118737298552319231702567857701513218871850376245291286918995964065799150562635267254897460166933726045954661222209804072447871650149126442868496418809691517472956138161208471089345168382175241187451452320294042245041432170968053424484188252605161155817395783436521299721707697978159647066461690944516700698300946456565287905159078641087366777049502868583091553460276679863922072147918997665990607788322755215762445030870392841940134089376517406165564362579292384482037905828580436582770302372952308874390126901833485679537322279447650645089950662983357620420161190961930711418228077738473871725319399154313336835780504071154399214147827427434192414691801622406118757202337725504666188333576049314000057532866100705059252805104122159006952867183517224827940460246709972543348094951976427739424319761757668113455482912081219821492383326885168214022770228423614519309675437800949549465418086606699594283385837868671863196990549455647438320289523836519917519532397604888712694505236298347665262669658679055184575908457014533304093440610658523910196238714510199044964415372670463388852015137717326209080152973785757505571546415494999446876057811500808874738695058295643496340212260730899403433771935762285730486580249861584498016685450790638327923882856965608058918755455877915451388412975906624083940010619376160816545108468463707990136953347580152269397630073794000982284830164152985727474692808833921280919702831100186849798182602324846653466832842638156449704810147080316314889208130368168986512738698007289437076019047122527014070063697236288970416404164309676773715617165820960462695558312900452717199865678534042950186369833397520552446723408932212897733003427441237246604376412919797387970989324041826993788601556190990281069328474740929886419755286397596688790613396535489212476788835301170372560488190072978700467512414446212075829816728237817495062597605662420621431900273248848175807053753811607438439409037093500863836375911730511440955443035647244303130371041160719472895406286484099969975240269526029015474803288079607984001405370542114146624201228227601896943752177889188280810929878924079334207250963611677000012500377013190008786048422048037851757414371201281871571169323318272614008661912782817442798837790886438237289229393122404095919532583133649659008535393396582176741089947113577131088191635790448435284648500549069807697149499859702504402810245276131751251912135609789321585086649187503662275855615893848806048054067074892865179674822435577210931982745648069115916878362114610348524511124630549836070954947284455067665507743158491223774129913264497618419475130686295146991974062476804004529355101174528389189609832796202287708648230822962133852961074414884267174748997767046095581208406548869223878816543072967986057673521014787014915885180976089936837560749969688245807719945173196588842227370435081818932076754157954977197263066161425948285703588286191459738582735334906907149267983242829583711191186581533127147749822286500931979810138622827586594778961767080954194317692143615040822124732684053589019080038736381897255140124143065385622635393654498312707900744493009061478570009604777903627595549409996993715385831282323623797386810560926306585116156443476765539451450853960613973902102586010795920640602574826739471110376706916624320896173050783551225242117419565241816258304341113222396595507978186333082107646419170384583500395610045933482049972140932434168624662830840773925253425044403724535405727212974052549069532172887004967008216580861186708011997581248983469646809898293291425380224686410168082907007011662897724433437438742208529102757514496160713738694906453172077336432372200426330888084719868043164265936429192895336386861573083406250262960105960141995661657122642024154446388328180610647299469622163567614399299702495129667314544476226457126108707661882534506854200597941846396005024755789544042495328422998163698284752988686005942265140648384841703821005682099964122253653532127825045574680615772887316284736378670712554394797495479708626896125453192593503487850943465802005139723216202666673461193776693359711691802975282965220776654583010310367811866027240014484518336065593290850481405097079260709336269176910313322160420557525146746914455177418918879317522926907488689066448606469650342866351255072865437292673704711756719528929127188378670416360613510954255468401965944250413860872344071959217553524837625145076955594036790861719854958340913322608153632046571823077737155137317017333545036037074214135864984663400775591178256340603623869679108018869450031018304996261216985265056823303024462407976393648475615353915453739654681462238385906301483805520543839723825410278523589212175235851459073989725742205921892460246164132354500632605636602748846677285626752511346008484998462358667578035870618547153684163537875749976386756381885221101918640085365098210341539957517356831326462857091291602212006462765405364063428011206137889305181031295687829001420141854310814641569932258442633865815724850001002271975760204710722045987139046508569348635297586498882573017632196637947537043640513150852982540962358896078251498578124805644221604453316905902884878068606904157380103243542485959426957417734191367895840143671444415963823599160091622639081276048926154043535807074894706170331040257790438111029748794904072729094285329827582449023194225705028481933239769738804294332768611916608816673491841902422079566049016042739972046697729436374285075007232504877952583265480608405267267511566787034373304525102644938732972240411448439544690009947520195324007069377531300518182855558121230131083362095451431353708771999892728725701393405095986446178667931028062474726245925927009600436922272574023579343831007476970230753309825605178429514464300266569683572416879257303790980127294611537280116683712990843428007221385665569488870707222425223069448372022225916458916245007726976847668483426720169102436021507790201567369453304240461524273260396157442745763786784361297709236351156902927325544998882958517203823934766787095251375443993781776506594766963782306927771252426924300236275720534589449278638300415023775777511351468691092178643616311651918533164771235688177955789487626866663197692699603737118441028764443238850296997148999432395081868363381176953710569337563119616,
  best_state := some { pos := { x := 12, y := 12 }, dir := Day17.Direction.South, steps := 8 },
  best_loss := 94 }

/-- The search state after `3072` bounded iterations of the Ultra search on `city13`. -/
def stU3 : SearchSt :=
{ open_set := (24, [[]]),
  queued := 0,
  came_from := 27173388581013342537721145703130193009279336732657069812651019959309410352949487004872479708685533187777415720411452829192399287031791398929601834350219528666540519753343471615223005055402723076136102945121453256923591758792032114883667455361857689714351444956011220694018324273976442952615879828692253255549868521916036395722959897359840334522579718129259423377975154800855541661817524754256056918480182048819131012463168163802578371294700552923582720709595007196059843939789231581414399525761015591223687828246133135540098252884338451788771081660912514180438579036630953444175170861076774482235713702401042946801771882224508587931507507038431352332804859536842612637105312819331213853440710364587602004775146725604357732215360336922820683514180213527501417600967983452035098658768961806553263200448623698614961587938587743317783901250163936292861070615523458413808150613871685531128165677532549300973165466687278995686200845685062211331700618159997694721785129171220107438369934564202117969737866918485026789986279111263966960694433820294263310279190690031707382381984793244069171179174596752033594572660487173995348187497759196537114563670461725452465655595701287816721949944457717758510471736835186957512195169327316213167873055872285449412541926247505715186208002398193769578354160040759111545774748206162337988106509338264694598467378528449905242069821049501737666443635829192805874041633854371052543350165231569359822919212576066842834624134445860127249646903727560045879471108183280995579399754793889386742916819980898624348150991354104952605707979493330409627361897849982831810009088180318683385509470584732330218068799428078306435832341288310683956396783209288081409176468313094369184382583312809534507710021477808972520273267178627266280977962362002203620851968006081533014317352647033581046552513249790947464553362051624536806599729889259481272878713786155572771589863497362723557852691807525630866685941627488211486313946150351903695381524055051747638531378868989613497105898016564560433879311512057075600738620613079103979824725698322882381220481251375565247727416678837293008200347532078515504280743019908820114271783176043809755025358064679185434340266561599468070335961883152902638826495577490807157443964890965028302410082939061878460330953871838720579068159476977573549902092341986563630836900514832519709675378625023840387155766289696826057135275737224728621481507348930894744320284166895667836586889608470757625001723516365971774729527794547993286600887345873914631888233817751377657838269140199560908377042120942990484076015759854551569972294611882985324114758591626823535680747790339121628970572663381309147178042876805200767213560054149043492634850302463223198704489027831488930427435492861194149115576120014505012021970889730337174337253630982482329857136509439938112058300097756885798730428008361367843993451542760507772622560239808415659879724055359212436298913673589512562734698579821706700942079769995946527683273317076308067330928677506535790235153486197807872964711429940576045875138753821850018282359230452623022172229201861851395782282427126558362420586223073218503299275712441865227539528406057122366500885580770992809539131693764613714131301202134590004107851211819869201644190264489516602658806914113222747124074623195651698976294050934192670558037281099894111850209980111191236311362445094966716606607081022222820411868439005824316504200661851845808811235444232928078987578474485312269940489517326644584164770527893151838422166909158982182585555519195515316987011331856871601604289277044187613992479034998483820073196815612593276156726436601582303742643305693547537797858066607199056690782549382563215682122619857038195803942495122946648090696174421482402544671289497990885724616583030641436363478840419785597032319498014841589323152093260442325585671574920654914123331877464803180038550411760534639578026827270270111436603209054801968081157197653161784939354371458284593075896126619339200622681839418726507183916267332067521981307213081453420209217696556853340342604999819190670452746360225839624489021869998861860204553780497599224973214686831455141568488746845880740810078224985929565745605998048683142317903592012538874347280382358626763313475800946796105100689971986856165532284458092327207060224072902823656420438128623553866840076678887199348505924004844687275928619189892589466090986052905861505174794699762296079938342506644014462045850737508769133300539378798416732170814205224777873296656068180177158857550307045890166477653902637083457139727533005895068027758766859251797102461882677616416067722588390202516189354006423530165419796832640970231110141624846897253592167460400030750331629122507553538552175413927443752391379714096832763501105440541866957718505082235112885930994722188996983580657333708375702737172848981003899276174558771004008954863425939125912994111985587273024747526529057634341732230508905092239838682019702664953944759031804327272482091656083189594575942337442331017653132890585319108019958838290353638610082071627004077081496764595863525433968265907045165099868721280256861509758171422308265815343384240467502683881219967638550359855432047385188284970486397053871174020229071045341281010679131803512172848026248863284432046364565518786297829770883538611866061325666275935528625189830646388932567945482744120060368104238540942279900721374938293661288999889758204896511887937693806108305769782971653175699344944936985902976759870186087282082656838101626120125238189291329073015026174876932276345492087523973570412623777902702981371222827438874977036774197283260504185499673633005308199109937514142418852621712530807793887046544041740453730909025477778226297606788062704089728584250564556680604650286253961106239286316309368029407598191280667133254914322122255462964259198169326608311630350532083097553150948989528317268274619297411313529524765900396695985263196902586524658777707507965082011342995520835330732310550370405394235396940669468199524772748776020623872785618107810329994887991736637606132067712324830267757320087594226107260323813684247431476354505667160924880487743854354689418074953123129981265293287013336817117940148630198799939137434175321975297969593825301094521692313505370728100244759346922847172229368173924333247690929424222809819050792092379545575717830847987254212173824332160251024759112832366386142570023852788907499036626483546762075383163790208417402816274904410566821199440514337957137917284020012517558674903011348555312141184632584470239123497939099575140777280018226729350620715549675249015089471224774639765244851482437993415798829073437337528054162834074973450923138127267628375014609372535759732053162303759397054254933091507352923618293234384091468511885737210608138740713121674161571061132788891008368696393100921787105002676977762630540899203086872595502553569196803654999866986581500754355713853898863657691844953637528015624104174337125768311319883037013721100631078453314372815832107239014254358037922711382406530572278725469622457743587449305102133281883692820417600284518455816485562270211037136614961816945808767024896551431761282404157707826865898310350805199585929149485651662170556828893083875072947801267933581149576344133428558073927329680476300583589065153224759244298024282070099588646778485779367175199910179031869080119766172764751986383914128728203484900304893506831411521080920488142922043928345681728671426669529988246996214922353266810383034972105548257314011947927733801998405427282381243617230934113663212478975764157209981369600762621698077246511966726095325435801361631889889460638648996697455675468951304999267694252186896045704654686984539735785336956574036647893695167519482784575753566368297314408928572858449660385263533547770227807758479339965207876610374859669924102640896276042441697189451012999076746207930575594784699645001936833284970291563706092145962668631763524561453255662594437566716242541608343464623892015111117748092601900545870521663234055927917840073125582336272413512401140947357465479278739342580735832238359590448799911777350212576293754203721026864360545443810912830446192777468147086841598305583953602499801260033294141875651718622583872104203861051547853408093692399799839460829194056637538936874006670183378341666982720647428289495616381389297588414533371182871498932824954878545436976366359826157475540229526885036700928584727170725293323741472856095742923294474689778596499310801087794559892253977803571482195298862127374890992598379880059721461867918291494073959105205805093876362645494180425170104079099837177852960042459605332418380921243127981402342120158221018246242310110581827385690006122727984153937762592824367186827445418677294258438560741037428839750348192026795710471859741714797285059078027068795588737565393143208686116740021838424256413217284000586182644507353888950003939649830375100096235666721088609170881391081609237207194279613884925289775624995189839213199270673209878665686296827305337387487708141285946381618996022785303028263694934509574438548123924417234709805057154337646917161154728840439690197575755458374278958399346264195750342531708921533425708732275732946435474778281445604117207815844482901751799860524524423219210491075935160025805040883555639293932798134229204922142684799925586777691588249466167093774041811811583354804630494051010654789118592903197250972378702447200939094747498396608741006294949694558506018440649018810918884196295596821420493534287898219058786510710817005885916047724592741094260904849566115299705908845121779327612168328475775663111206033560648026969656019384306780700347920673317786453764166207552660598950958388512220367545282853580771105476779716468937962894929224258600137020067689399550129335895843201205473379726940499825774317912578346210369589034051321473946409377216529972759230369931521335096378955889551719427060432127581306672882562044371860260102295457685375111670977645537643018042555642381475563182343568437840360413915342771834333990093665345132208530745378939200060741698639687585012178146247290543816281312683730234890074001613350861943950883100077567377577241760970519497728644288036009882896253635688717758678816622995518145379835688769742790934754560242582529336422137620670623057342828760574387557064276890867127080443917567646727991968548533153099828409974193308877899671300565120631492237511229241422232417111491674817999154382399496746190324482339780534456760216873621334087858799745443919315865185985676998295268485151490264769169056457133213144625843755099807358739075547158051973855842244517283188374661262523612037371626324438326993117314142757710007445240330191337675374045694418797335960723572592792269464070477490763191177484641725138729432306362653133105559847935658111549459434484302743058892310013911575128862563733805700300558274101691340803692892080099077953480058546705532048355441072882176494671865613008011795669192360151104391262419198934658410603081299932779315021471575105864248502033601555088078027549943818125765744321874031693295460535982617299964093332795219585362716437470936332733324259500934308919608269698381506217283432331204166717631162310685467803955352297642135891718044796344118458535875047904761444016402804485401471447982557569062742089883580626545799512020190250627630990097433505686692242913608405778944311988418881360890465554621486888880464477665598096269230817660530730505277551147341611042343184154914109920560979955664721174945866894084648041323560985165625226512925132688167269949906010110113068105131155150117278645967471405416095326516386902510701817695263752363305827890849951709562878611056151758014772078640989673191888567593975612268749438372630009907810096933031219469392826832612997530842608074663558732076166671105142582174325907791397643132777398479261107984951433323474111448730356999716233576848332486491642903208242347432708244153628567932059494517607657854170728112561636053581422624790911061254354575254247054227124798647125663434217544588403764668383488269390633330289385547449601457536052016197902523373458597791659900375553944806160104594243527697170897254677203886704244176036001905289369685368961844077399278086067458263817856038998310491006273718927637868594764928352273596019891917961231648316390141188838803897151337996384671260183356663863511156117502256652310808528587513881195700855143552493530749411246440259103559455584652103766740779498323987841677326510645486190783903862001845980777686897602212988520130669728316735080341444708511834273825212678906251846969855921616487417669264959588018261327700112898320138853706583327166981451108692735156529598437031867249769306614779226648631812631499082031416052007224401009589712401884927884851718388474194108585069862805165337337716319667107527985241843123987597511639985205211923201474790346116192569511783470707238774771773455420850106176041652785323418335826628383599903794136672710560641791291920022082926483550091015747165657653893232422956888912514381393019417031121337689600539309224756974178891017948326959321742335425485854299997908185461971448735324526309204823118999289504296181226828578358071573671106695980568091968483601277730021318203706378840538380027739923367186590556652039442565331557440216349745801288000513313753716678681221528459706691049472936174371548326654336206870573263545612838280193777482163214445770927095734241608493207409290411918383792450198443320529826381665245185122076297973905892092348320131744123549740578380819168245209192680114495841325110721811193407721737422470497960378554305821216983490605177230036353313272625670177967386134941210769620715770348441958760488293765791924497595135238633980282582988451675941186737096596443837741690007873247366892063611870332725022984251752149423059787711029541431550416319139851054979128359259999684218517245070071156575321550507868116407326049601867196705346410999422649857800214437219883404220784652660111167860273722757495599383321571959471552513764537931006742115461684241090647125559046780752139488343556930436366888421008669575048608241226476899063062229468616847375395690808236794010027391395376330078002774157235223336904968371008244860813774970635778346525605792441527632771649719126804316234427084402480551425515433350101222470482946177052693361024246465413296334970413776170669602223348915770945877624783399423312198725118150088777137881185960753561683519458016059405175704821598365409516526747910635928981216350117038342297233144936426417845567954359964812742530398295466741057480930683735171648207151523515154159928180902642669930440383171269136012287914215109523217252694234554913589821491124405387704282392921591253441074058981731001146712801152763167030432882822574533410959531227094031368909256494147684169977173595641335115459382540243147903276843754468237219282085472361778895794155106500271751229654782745721750349681927044093195905528208336404973494499362330815871964536319015581768259125900039551148868741531061644304425289572660238461594597546886437774281159572689678212201901132723964904214113231974013839919769196327656987200752352247311141899323206636564230723824678561619475680519513081477461169166298601850772331242513584155747063169531579833470983108742672654387290137782319832741702143248242460441754998436180439072959867522883352978743755308481609044565794493118862347548226693318206222541941125257276033762022514657781747872248047241476074873591589524209610525609868654299894286597329174137282922768677156825150858090847609688839442364248422850614196430235143454741745466058816510568610817828720908293298262391325809978268290728897847865872927537513762883270287263024632910648010880680566437560733494049313438609781202631585932786467726378283127550665095028028687427201649615332749898793545074320111167183538280568117964898488884471861334804687212863577510704897995068626237226949205378092795786068262375510603919229115181281314664127116162765437093615845764363720527297005061701532992699414017313469368590381742526616210830021054458645557766364570532303164813075571508023406473258615025976671580587798291556019374648732092252056314736309698323325717030672680869315452663194407968486383005959273705024049290513179416720676194102874017137089516461409969849800323707779804696124944834289801994228458957178154013783182287539268059316958702612049843998398723945419108114571178253332963840366911169184942352957487919563873089678500706104810247722757158398811303227402990950937696630351382869334278125237851741177579487392878332158055033833919300789792722228679591255800614664237319960124885465199083738306561251896894247294610098178276848394177473329932526925585682295809723399352123089475999484370351605220139842397525674996864207598406580610765897151331094110637146285991849375936236238644297261588942864010476815790689605839212634181070430776081297012130906656290123269986421082845921095851932081462776715336466014722320906458393452416561807024383522107941831307067823120961224469328751606669199854460344490341586128773200655435184724304982874633301813883055098683899896748105205042255860254862975535178420796740493777248571838855680804315215362429833053139216093681546601801033297410986363965428807236761092437491060005422022840281392961679792882585152674475235065424547650552601534942073830728043300025046156668611408439445359160160289831614659416175144685713548045299997831410522955014334248048064183243389300391122944792375311636450733291992996289761289509685658166931655137845370608067391924279935314203428408821173097800440842931153123802904918179972562352419322867259814327579009498867526734103528299084455519571809815657669975165042021556374378525812493625389386841901004518357254978886926530737097738134432885760903404655582548623253094738489152200371728900316717519919390314298873382025255227613980717390530994862258613158179536577325574230569922495467577916593880285653381325925765157096177982629142422451649104155742837298346808063466515205921584818541831837503741619795047247906801376645844507152516149249891381865413072401743889644780253195806085624138528059426324242209199401255557096084731266504730112,
  losses := 63946058917236719228224144964499882152658236160435559175796190928183411482260680490709116421189751562208944073456615458723189944113687005859714636097221020850739753058630556295515567056814230522706802111133417290145948158482524121573648096360299354342532353893713432199859406709292103689832624335434113729977038962620678617392376248586649337225447981143940489485599061903803345506135064063263162816201490419790088687532997318114632948748901668378784381531462670554212355025305932236369501437074751672831664739080347725975229367647926499833236294064707675775963753447479131116468694564017800864939237139622529107257175941119038155723571337300193710024722769787775851854152346373066366704759873495349394309638984380082513923829257428272999253849022750293040404641649149570864643805464552871124443206531141927396349996601653545616814822959531679820150828156285449972172115988358079496151795817166843839592653496871920176546081098682272828537689622721117491574310822226549971371340406356699229997968089690371826136917793084844387570021760481433653744912090749619412069554733473080210236087365724001505297034611822059846339085103481897924473194234982223304191585019417715391579020665899587355941909580279560755570509229856887250070006056189343124160913013894921748108670514395554249393634507597418660110001621591030812093628339482157207514231404594770685853275038887862499441212158095942661544075983251740562290360722647149104757359627965135671032789738143241486770713595127092239931396751754665958470470255238405788231326025054558324446878154745964736949585229021880522728497014285199208182781803963530205323748484299836407262556764343813207890925409911951091971127578925489470996627519893274308895377003912406604529398173486323536280456941689678669153351353375754590584998819746802391207201135548855082795122348195880725563234222445793724296077165545310305886511696986519757829225342605860190384084142191324399707717146111108806655857065334034028749979539319895360169551842605730644553039608990343754954743238659007140525976330893238591001651839459969058945322305228630117532384684776684158697986190159028190208736990822902617860450473789674003279645751385999150762075180690815342933696996499444444240462354225169379849460952361651421802977267530835941675513289765249271460738938008033697735898532711337919101039076306989871511844559267995549579651692765543999124265666611945905159091845547997274942354368827715206995770350438380823156949627794716953771314700880924641499184005947057339168408537958067341803765716722187103168784664066079172535597844157114310904310962624900370785014709432976960156052874712559469422853025498226387695546084382308505899486684780060951145284456906439373400899711766869360592040425331725124919632626290990854988200308300597881446423317660832324884456967462616929648251778429034261228363225939481938484571213607901820398069324258891371224743173070746886569883678392019483958514946295418721810819188076280568230079989970292372480063076334562598619150610658923146996025300665126823106405887886940703592146400399099789952649519370063965688363675078956381840317283966469469263163110423476189187932576680925387200882276535400986799399710001953915265261368880934979772364567902148486860952894626892494014349126350439805335309130399896482940172468213267859326692600669131044927188425535964005238801794254293478563176302243839670901586482404992695943471979681489514615571128689615805993742408512494158945286334781908881175405003290339623813684831562793352881370862563744431777764545285660116461928925408688789598498730413232953426110461134874908389216813538551292702543069790548232503223133132123432237715210735992802027949703352919624743533645194369034415337564899857844492951614393658880333242649627573436085865988435654808162167244343830333637860101302858974882223924662684104921163595397198400299505669189512362084719045552817137032527529810078349343808961324838933198984342431796048048339943596374590433505366329355599782310407128700070058174469876581167112990498331899971335036377482913055895645864223043334091001729396305839073342398054273514001281944219695734162594127917135837058774008610570149189087107938165662515171826513512494321270401354624532332154493847641552290900448666896358043720993350271727138529101856622907484230759601933933635255581326851321375411013025189751830949608466432196079446095033357466416736044686709445315498056299207286250720761958109744356222682170184500197497184271221337749269850932787941903056656108284165947858612110417645198138076199215473786374878961907352550753188468364705894131051643891304676599655242313738441389275110969909019006594573985796314728043644844962910804385438542964425485172178327225374774824082290081008272744809639256317535657612969236524007126418949753200471548721358677343434287343141895608822793347825218469210309166574249642063611802211522223629469324891419587266997760348215873108669673717149209580275057891908574204267602272195795953675289552138778502901132502250288255575013850143629948421439263146508296177820829510099379006435833665684166201153819034170443679894349230184880194832835833938643023720144017158356738193005495690812387342143091279858392013701030668041867505306759299623518699647069579021296769910701552752696669203881845385004963800498204979561356765018533509617115955443895832126113302886109660457572783958494625405419990667558126937284143446399886387893477372558892555519435416705978659130670396000076568720960198169537175712925717602902541556888789844644600009980797642614970421751826990543095206584040825622644035981570578265086213134354017833820215865729915775705287676661551794395227461069029806902863253705405393267267326115809595026936778949809927918395553477828072781558307226795532632676428104031135894878938076016659799094020446798472655697194935211480642115282102975585564844388027997027042630640956285889614497613671863168605685872210958607962533399907698769572392707719565168564067998015657219605207412705710221365989344138677377260231395028411018841679594534774727415721773940984124671171440271257464440392984260722350720099729535543457388198437297362941551913451232932018219633399988007932323905759477417369298340177851695951280635741244110556109973726661854662290083399261990337290251764381506416685357189399382444462294631645959875251823115238442246285221277213583546790677167704445321885650187949918210500268420542293589006373767003620387591666570711272578617469060996800260444509266302358289170474172927979987458052611102566784160717601560260339590985659272775673847429147787438651794452303609774208246006728637299938315008973173917035176501196231753272528768273538454304218741067764701537233150658234238129746143422339005658578227528360076590276919717351181839273632607345411553519445386417725923964816121884034465592309061981507704001462976556742664041211969159519637922654006522852241602224331508147835579337229910726075184838783490981602086033274233293029999692247418368174841942342402929612739185877938314817611195410774373422366645889072255140225959882987998388705691794580254547141037375759840695722959242468518520822813500539271520008595297031739745428125347136441521285522086545749081256898894831520385000680708659935421401644141084566958266768704978656240357656544691104814524171896327811915115604893824151013230280528630267879649324258965399208328490803590183334345720952732945657624459162582097890335776827079460535112427626376050413784765489288173668158130847907360852477781780869194398151663091626283406472085029801059894710096221432300378811033231400973843296948555128011887964955229000201066670707179482866416153956573191522267591158438121668897584009296086993769437762221127885766179033383225694258245306368440571188530611439738727990503463017865977897023854914432434482565100797972571551682165238354155787525410662517268170580059924963061938920622851862799120505959948562429736157424123867203418935819200974998213747041131071805693103877667518284470149461232080366027335793318622186015644207438198084295905311087536890320103897340483721460977518509980340546203835735431279936987916167808532483408439453048857653945095059329432970649923969946491928252337457056145495746991642572759006085739687168027869704834882227894482465521875628909688474664396213546738219160655639393932118512079158570665962962817229457381162536091715584482007947104172545301362387994533317797278723636859979896979452632893533483804746456515998468673484093878384493594356704775358255672287740605118575156207500584243221451659592037857381652931439964340205900704534166778743209099409945683077171632197293527147931942266784151006221814903463065036114362087242869416452643786093449386600985624586265649162718200389133891873728654014594717523188725326841919287060014483586814413336253434652877263843777050959199745506945794086757649807682869023138025408972001716268346093858852781208420340370935250713136722944456412959207873250013339528980774505763888010907452009740677245950925782786864050927110155420745711052694243847013262010395711526718808674980676240944573269744228781376740698855588102299179336803592044776732920358528120837751230934323112971678831941202716800603294816757122145717188476004477103646590432877285282510787367513566372802523434381851079473923082765870161057568182697862476791579612662681741463628350341835174514443032891849779553066617539731806379358114844745195637521773319192490267164776603154332937669589263943086628255484469323147711336419097752698370321833134968406298831691754621265959468056234496052392666198668399507773441939779555170287560349638137043057937096318317075417979869578910470151657229802803449519751588291611426452896870946888011566392891397029070714483785635682248301539368484226917848449297545856820950157177045248694280192601953510178972485656125799890591419724695106732942263301020464242605328926741870765198687300479132437121252904488530441610803021852966647124903971218030359575299415882121013148219262406912562492926430029458771595695125561774370704602657330840146205591492514872088643535671240807804605189351759511332436872306296235445681723141353858211963854494400251743576829543464872388489559840088903331357843047509725420147254451652325902483183623811771720809395416850361466292846371319965003883114765497409268604074435190359836882508113430924211210521515606727440605886523311840650032354871536035496984211956566661613599442183062164735809798632930378941855613641597040517295545759880958990009421873548611470287846176166754701768444695692495464621515767603505452738892154538538088784168633118008238635417141451678342143556959780229026925480838464694031004425348193749466765666119516163196301132500142189151730555854069513177854306386510390748536691349147904030899056877059396164289597014122003466049490264774592608319862873723387040149912331488879076095026155486018029096643526830946587945461201036644784996418390173024362092848457410979663179024487451020810404077152251459311963759501997876771330219420630973144968758147931478305768629974161140205560566492308759250006344062240207653818375954562946778622951611571190624696225146156388166114674980930405015332656871017473566039761673181594807074888952374049909350198225408450760670609307073541301986121807902906499088471605331580539180949341201510834225005446993597411847901502868478033360215054447826699213467887634320092422374408144502790992157557274906534467242105609031476590465699183110919612903169759941578871833522861676869184375681255370504304961283606508001001475311451359780997656684902749788596891057397012195383760110683730418381488574638789244884416549130103694947990535585496039052280679660571521551495557494891634947653603067867322253100505624291352801262131830989033717241288881221056675461205827453119916515214558835489000921146180238754724613625777379989230597441505573091736617895064301984651877792788945077543147133737654609340178588820924071648553226037740033875663484711370336041560989319041984723407367416865901428642618416747915062081162708816360320244556799124626318863147610162015863021427055697701887870821082917659986153226744257916420510463635237841993736718500412345914176015402632349022769851306634162035308191385272264060288237865235843591217157701903847581195594354647315117642325679050817563881442595031298970059075310869560773562256341886184354754805254840042883523390272741460563071606003812660126697706406480407289671502787314109122663735612198917412893470124610301458504957565046602642296509443950333490336553603465859249639025433025322822200015764494696133628598855247054791655861166805549652539926130284003455464211633396036622030586577043885745170171967507417136163781183074009634637545414191939194442849679198693010220730672400296014839663720709009215028509128950800891931151636224617622582054592182166774315973337213894726313294355647469534718144497779740993196320171782840019969865592785516006870592675447934220195821774183923010996383182364673525807463546844908284845863179742332978388750662482495552641976150874607541770069706899622130460276715367264594629363478235394659327154677605571314539680199879671597484230812001930268354779674620369663828651843211178987031323905439708030782869885086406551442410147238289306211133891763761488880730077490753146638594017922381081206292611124103281166081827099682071562705243526944234361750972718796573815906572498353198069720978894400441622519470461083629023052416018564779004373591505000554784688487712573896901696584253794453817065324761262308172734282104090942810945983715341732231655986037896283774806937184072874909393250776658289979487779019087032075305511522813168254137919355559739865181513295239762636173387824507978154972561167253567792150753263522708617959112125723605441379092920536657085208017206836542703032028380864612939496131831666391723128295902936989689821083894316948966506618114246859897207645840110873418644417626606134946850344104805038020363639584116904292232494426920186706056303566965502390389044459751102089429952042337541455508920114876462562170927106929189057661180460410342615034201411216356206329040266959569833600733429234738812068076267815900233102431400767491838861186582076303953530411386670809060451294744338275078777847437126854850335405985110532724882454080785644754711386231230098378605918439047448759899727739541484086510528738619144658408179008559503975098469079683350384559563303443449367244486822115478319618083351836634832981033160522106684657590135899385264733856976786651042025276988171926703196695365676578392451308212694888493137562553480610881603409477596003223602203964635726535498028566244476992437349620715605234192660254686023166979729771521680646493199587323840402223993452901086220803447637853192590647231518583517086472487542053925032160944728375096679747361682978429488880256839513495960330574825260867558488384870863203761728079693394261703798608192715736929993891779365637566354369453042573433263277464697789902719084670158272746809993976152232515042915688175700704231067411753938410075446952106708551527810312511789294005722377555969762488243285130574401267757154041533559560660832971333541267169513170775456712662366973638825297643570754881981575752762760024072149294438339434870671394110367566991096385486619834624955246060268822709459162859185705628937646421787511145349708404468569098433611174974491489683112202472646978985745799065769238641273072724824180465636637076123271269849382548622271065161088063970541668148901840778461202679491463160320875071799599335063750557553025027310960687007466702974448330810675445194934667795190422036632869500053054417444803842167324262492687633219835079450831768699151253941680646420831452039971952252563455953305164608528591717965980038431032163569456130334005315031852601521326119311463788728241656348776405862802868752042179132172133449452117995482611006819857990675725010405630588270643131604779906520973837561824507750222180143478057802890679090185696450675678893422062788556050664856890422056523733722213802067945684969076400424789095986357309252752757294708535317640451895501624661787957959139357891552414201623491036161378899782652809991435490442174625957508529572052987119797600403903280024619709398044386827710174376938384037888677241670931631273204470752436064739979949209671310620514299152161510892751105621455272735218832243568388952438509661510393840899278953919100663029524908997403346483295671441988631838254498644797469977467133231896111398091500814878330904811701285987801001314844483761112002557566619506532889041734728635138972691149299203324803224189495213708070184777750957087038620240261740983299788674745774576937533732576362666005376015794588541162535997883663476781382404778116754326046627013755000693530014354827375324957811467790890938028831659943766597232765681904313882620914472851095645376153596947131097345137172998299177142167815873727601623025614539687451244885903689047305705307149049385204466823429119945913334606848539092963513233680539479575751452194238806223273298937508393460587647607309387339365125386490044049708533775059820650607360008435922118244815645058252772789259252726305394498171092089504007103065400902454956635885997193193659942303783955147494195050068044014134631577887104003978042624284968131717053719473078437572181263958255048078563350307649284445988161364268084393840743968402160046439109716493580625876308062578872449698660641309753225299333662320716879447392067447394937423327755975961380784184566880011028379695980075393483983493685296804212696086990810629284550290830303228057735196259241605192641064933578489754722942328879768650478388258877392104394159269211021187745048054141463113439971392329617379283698681110799546976553124628420070132529696344332123117494941928816582234727592029102957826938042887984617252687943331589928803955616793362562691443261225415119662331921592008078550084363545923850203955454535612856527125667981359773801214562411291873921791678788176883056933486862039565163425333378318028991116688114290568809417575478292735702552451924674703287309614094289183884837686202208819431580621910589956114972841532015908482732084850072686297866671644825435882901327413438971906686320634278640036517826250474869678141907793423685102259703455286722864840863093053392337065917377720552376721297168961058684020715968196734001863931449752557293873487108065267715347035621445349279782936531139166463957791053296744948795691981187823800594138787842355418177283419063080245182311286381436573658126767802523727030809546127406354175509891378894754478930956573199606544395782740944502691025058221669488160545611479644202262699282052564561875876771657544519920165973346444997218757158676439490568458465534438961368289029401687168441611392050402193558673539403598295077907664508724437952822979506670231322405990374413142915490509560580014750213254140984146431857352272050392123938656486361094452791031632353290770765287532283090322062455419972372767404094992634778246152022696401380591323565721786086127410971883584787844336132501138512046234606542989365203382183636455075168610884541344998371745294669629511912468923192049441400928992742632181728227777305089290720732775212259220978710121121972647623954458380846990116550889734401739581344526271795810181326908509872595659388131760909636262161383661965377752620538067508912833169463420076843269203959195898166353656159544356728483721689462996032942689859986292148460352791219822982996818805899665842354642878412600796995825964900267474818704481969702483570758402183703720867389438892593568869493751524622278003420006307429701301464393853321486753087358521281753420764447969826832452677992161639180932169068851427627129616055905865843532494449413121757338574242640044353741397469714243867356785860235633161072690723657472240682662129067186898437979652357514287411108189064189715480194196785529698816559440439953564728452405760914024123867220153755730305428078270727859705011549347432597829412882013705872407512779247503270864399314700043145403489647344404566247248853513785727359122744567636296768150602183104888942404129806731507526312186416842434609031368529458027037468967354894345454013278182565588752097782354853514616399116120701562013347426570573330371211077121197836988056266027183016321257399098375478026969806927547769690935293076823294526845417897627154772920898838144598002253740202810986167761808268081315278961324490422096685799201167788099827249018102370435878084145651160464239320741996327045411370595875094426686472072566669103187590643130986879980498514788451409788322745650250694903232307611834134911700231421400029692994494827479161373883941289548159884817477652115664129685515838119971859943794005728814909953267239265700134648723216187791583811089423709001413666548207301696941484742645121483389731220795488878697557538267022980755198177956243128673435223915488755310160277409340848604569866839709798604290137691613967639616332408395463506133075554967836523343418452539881720991515654447045955869612172089710732453731026315793484995408659751352805540161571705217369769612086574122467686463771133982602278947790624273598962753175321554440964837005598489049933741686158256726423955096930863095201360403180312420817990568893364203222436735299327472979008852389126593100461133454645713091644662877963620295547483206385513031935918581546688696750910169240518306960873520837065794827824964222514183265918261102566346720860908876399174265457280534176773579413276262920023029810201974155411893960625613602778023031534942656917532218306486647094821129076068604297273708419681844794691751103209469934219299505810761848600381440981897081884883772893906611881556369666223566879396573844480970908671706581569845019496181880184056638044370123702174711037455568609428432759270002822448913988893688605726195248539835665934536863202959637478537331650679278196787495535004675654875563686135394740477683073985412828693975699916504778531678820516251308213169114392819494817942292853951112244846880414870817769071895319003903932275689329492281623133514263556365200766511465058463227244629120027073774094053114278869724485756775977887544034491997734610108830332814138935303701241282376644692752238185490704820801616205932961700276203505879803028550335415015826472300630642508837513932741130842761286683359461220437779910525759522589864418000223450809381663218457003315477923491196912460059068449596128462455886161523556745688270128840123795098555672242192284343500194059964595643437795757615663765793215396618090596414196109803927563992213450836270568328854712085847294137618358758724611547990812121531433013446395195332878007140262656291858308147006800152722288745145415337664639291363309222486047399727417302150281003404921466039214147654258821743503176766429239720686657301602628393440318869710762127241848574829155578155635038180993872786145802663089476289163025134706207789287423078949265961668240384623539147803594386576382539501014071506264582913449416731843761125966289753822864455053089535625186170465469260411878519952972404215540470159581068016270232011899240513702868616994336849637426575742070705357176308734112304755269968410695222885495231766532131078985206336444723822279101104599672985582614597776133002060388530377792224527174833085929914645990265130104822432490757852199465629120222135242368801266951785025437708987036388809743870709238855461854831760957603555623479229921795603512059718976215806790644116637736513368696842177312236582149614104115194995154754210976608188500936709474017446027059013247315601804006062976777196989660741088165094169782315314694309982316513910636552011522201481100772549083206793556696190379612974515452597191913304823240042341339479706436988570912776460891054032485906144573310463542428132299770951872750597040366518744358574814747526999855434373608636735883854908737734858890939389867313618304460132751748191870952417799527959468644704569673750109186907587528613946162008926854026547958964305868711377294168833376825248244807059627948379621910467050621649524944269855188653351488142158336235263346960199896657661105960398958348040164017854722572424314993643540160217264321283516952063078755759208736706097979587148661933455541752979448331574135089401143974042421050596326631964572294992627080846529287954560824524932200109308877070122628763872167896157862105080071690566590432542632553124359242277354681918617254184849000102138053075324481962418889401435293742817004306804711162979054009239566871646589381622389715888809519896611357760711137970201117207283266255054746542282496115103675909579289069187084859387211961881994925069103155130914231615725568941793785868692413503599829105677401006353065403470916025753520355931917352509601200399515701202803145953786195109532927874820501709232609084779316238437004516790637650394098923290197784322706807664584123200472528478450489999180173136807503682427947630196922888779690954005189770525628912551045634183292449832480185634944052476349461989280785567413012497616823882187861519470975888794000000080149400640282214125795286464457763662981916429299374170722952860932063492663897327542763811404780799586723044374026924505694910717545778699191187126773815856511404551947237377185222942021171905015910019700393747596181877485037332025190498002748391566631501206093570704052414124297736232110400776526917419898332081316438476449342125103784401339032979345640328996180142885260534870688525061969691034408930027393264676933126869320251800678987085357890121858783725576389302056166078700991943080739432268942951708568206369636534129846872626777270288208282077152430897603280731940919752853645366851778675878706305669264483494577103099340497632447474471115036807849389408243778982316319700132788261910419803646188005641728188032789762565142222266688335369731384169785699345285784750149998168715413270290661941721969746435569791082600470796467781060508003753458548676013105016073369556191903213650486068675904408520147942303242325516771478079683994470869525375974848996810335683022589087917675449321908668309604931378836761822520707373030662974960551669464937223990447559008566860720238618352821554518371669228106188307040689973154134090199066948902160968133555508419390890694864600943028062488579055208335062361827046750128162809723868714990815838883812536475482080227204620835907853508433900752966491329174355570069673646062048698691188402930204963418831175560463427371091793687225776081113163450443207138596001801014704950901789027299766295792592239149666967918508237124904459818185131202648281672150890320557461170797405404488980001941590044235505851130237397057785452153556168584120932531895141532698662410363254709830315921716754626033198714387744016186574533241749012522305107581543894420367418938183188629776561062730977718238334322995568479213838328976195519855321351220941332185454916382184186714139974508951717500833395934425346918296169769250814582608083931011396213242343222477894258114160818745509490431328221067857160958581589238366502101709725989081098509855474658836199643716858479191037751370398425559710052781238320484141252875989701888724669149755407889295329770121619438853846072307423235539653865284890424810701660475778232812387783051603187371228899294336365313018738808112166856441894762325223279574307033585537740616106771732430450423296317724072179513648159818519612216353956475131431546901621746317027690178523488969989555050024642962287559275186442106833764352719242964718168282178834391056707348463032770334144590763465028168660660934862171357969724077805746782137309557607156133534005961901219051307652113933732632496218646415436056053601178149607217660034434144082643177035308367037219828674527857492214787808024676895824060751676786488265833750959036575893527557459618641084642034255187037508614546322564301202192516834511828999104385177474817380902250794187673586899421970784724993857674291869412919724654584045032572244976101807367314004259758271669021153471069689467191894172845513921566929865267844867723732694106173068532157587829004959300150304169302697595692792363955544960468672750681570675691708332641773444584879561471961628744066687383688621977273348636969565609272768577360288162039542586402457919675774875439358410568890377327937399489263178502136993362306024779971506935570357328115275872134928430505938089666340102103006965369142566495964150583102829386858332289731552215322195930878696217860680184007245072328812881437622868087381756472984237118017017246274675679673357286050032164170446915760513947057860478577761172411857235286737295421210619517014936325887905004920729612063301193902941907148451485567651984164363760319388736564608043930979587376740413235491464090251259544135345002367845849964573513275971031131030547182546551232033467053194827557485327225837531950428593648506684117652936132721013911692461069985850829705416135845724658756043358894213257508477463687732759555946050982631058497030026457235242911720649092702086379089314448825095007339054322366964949051798364034420862408357901621345874682894425722139045714394466766621430489929859089219730588207748413630513869962767844494049974999876921566294656053102763436734702014980046146513240877976853333733153721255860402453698191420617861685975261149968697828554573735168255380739554943669959843388834503704688664295927242194926622999178623258139876491983794881256887129878258025133979475068794480712081179875364654721741401965991472486445595667051462647129799908146426850914266372958151893299292111591270819768824006344550518049732653520047415884235439721981160648137304041770529360285034520006884571098070671445462288810304140547287295859245689897261608815091869664923683561417700652934667853445974291770509712151154634310055366139422397522270750976967483352905301928659701231349070284535229807654374116789715992529344554539091113766274450133639661460028386244644478500665483908978359678617518244029532875970846672472059561307566815210571176147911982445563701543811316097095566726572461795581562512649116252377305394480380399525601973616721666015172085354797733374049490228871863303989063334303508192796547391240585374282459085194066605956243421602762576115490026574130491399538498751206217683849343542711474891880150997349570874297565730530414354078112066952947107291919493323013970739147440748857856392035677453461753191699982789399544304473647754752431323820308868131515674339195230228732574567735872270086132355196849241964491434539131915274694405435920552391521042444290284090239152099329718673224498785024581181881309422277140562709328782089702405000334557566882039332455298067604350277159844902626031894925713561982647566880893831440355775900573830824360044123070175377000889277335314270948005257475016388933368972007331343705158392445270118157549756139549965098098395205523220108258132606813539968888601339793153047661644373804577346380908613628097221935492334971069301400273607315906174005027405583892922961252856246186394615963744795889016568609726415349421088415754194396620753231297133285406525868276505014253556420567532397064415126310382818897854970618876571330509477741370580508059708501106403004388447600433621295008866498331640132742693135173766663029652787020331986673154461688572101422051261551121222067706738864764133824668957991044702608832653076133442566062504021595818815043503944290668845610578209782775927402214328196587782271392747623623123203229649787113698884830580600130129358946708703084822022175775698428438215533312818465794153761335962727189773837664682788262126830337364304669284366336799544921390312335497342855530700599426448890947451176315621081986336485064184724930145784642976467253407202077154487974640991312734847778882086907727530667575710046001259435661473936560516616976572023870566112616753462911875486629606282411527430994061594465079813944222187536482186249520455465607489175110890851754345487470001774675621886841743727935957295238859765804086880283292166400622839733746398642325047845175243462887341809387422127216145031571883243837725027796511427565000175307156022345912508092663155223354762720690489426357512491739024828373224477802575098928287207547361144244984456679433127343061851588964765774982622213478159898472770088865607499134244348788190429643921666737623794265829794771007634203461977067126710177922598150513946038001912504819457154782990083422792776493969005118877095661777757686909943524462381254250136454415469230213881480588457222314988430180961193856070968471235720467956569484511797240735228440254351094033262156641618852896913173190391812111644366013283962452877591305308149173260577426431861045757504924632253317200858542848979117699428495164585621440258251823240624476556274316673756761881837183393423665478683328588014365571048646793455906377887197125770820327783277986952944737716219780930101127031749394087103602105246094968559786923037686840389913192403601477139796742027237673588716078212347886560882363926170147671784886093110962863811431539700192872763238332924155028346527290036294549969780512392617406935594520118955500624451246646689146977607242048992541083134535836644534009621468556799848645675342307872860217607264146930929962290976830912592212758078513382992510369674594272013186261795610181960473939150164196017739400046598332934485144828591051902026791689298288088250834793797033822057998511184353054539298505160689377289689123381159485721893902312453067316764944061610563268026160945255663987192000348231779305481512837339804138347853729062069139150348090577246970679621065572677747645030107280613914383626621968874676289880374294958150453088701252921459338766379649609315494441082974188289922304786370927796208092917077883350572658524378716370618404295852039813607551154277338607947488130496611536250803741049956863765307634784585353925642472028650128566307453034153901306772953597518025024586053239814898288330310433890591292336653534602376593586662103452645033021580373601066147389344280874421353043595394497823096518039043898687638035576602775264557069386154514853648164332827529128875249419118975798694654780278018359641887951509703330745827592057312873212710925157165591197061209921262360753635476001742728842998864492482298323819766652071489908464815012528783361098695060179448661225930049419592700584914149273513338180560532957077060701912788940116156746125722657364128302181016514602382832628221884273426590365907987562750223273261688997599005289455876347575690176874742637682265143666754026066219875610721373534553617863295221105746277591833628804623671430048015617525054479151299673178468544818638954861205262599082514745991353356252157160045494738769227994153130420070084534995920298735315654788359887555370519080999375485711737879997841630577708490752416387191057252486172039918492641624240454719211174841794929069402884188671365454873242934665827871068802220597644381582377835489011549638806064168294490050950851373669712923547224455932056340532068193609627376760762719448646919509794246314701521381030408060309856276827107495018041853079761027579607967053746765058069522578976601106305529136977475227091679811142216640396413160322315907436363281967833379655190822788831486135844401715814039183697281313950612185181001593458342500918269395658708836283574061455939997419383898842908302532791395153087321443944057459329740797414409409021516516162714172107740857017884715428750732229919277346680303809403833955568892734298873554404784667409368036272101405182268358179640996286532303350018473765748823799030760650382168105152274206487440107906738938761062167602345658315182460494822516158749169574984280052024082171205685831720182985776098814994581984847476437625905605751300734631935462092934628229163121892514937104716196598192097180866919563849918147736730697075010754438126462894923806452622087633621438811621543957210273513396366448909503973362722098798594675386375915986425727588926144645669232675732025459002800713773283634470749868569395928596984060432152371108914530794891611784543295625105958082090378341904579593909850117862626926187453943727973949885332939734141516359148299013157952741365212765695460650779523328411159512325094633421989997773722914654413321626748287807051429404723040398174643426276690131704458056895937994618069214023335178532535047295695896664181328638605887992908832951350338556433427393791287453797191862009334496669371613042783117448567983056513410792988602207228303143101198479356262698459327414542819270246603852493759566978501818299951469178056723665511707641805460960166649131596359864541157945944332852610851469971007868357015701300430662241781991056893990865691954524738438632652284131720109267953082843181090238755292330077898042000699519749707520583415054370642450218052876484032307484077458779665757929242337767021719011261249743786264845032881931627350280708360275722630112905681626964378003594381865177504799723054462673821254632919258052213151353885144184579428140105375819180537623556093391046767107080193763344380713058140862874868660553966664027953184360352561247086597558274794829342306434830462543600624299109940950372281865455933811990641745084085121437832966509433248997355780075251176980326319513727125229396446011223585360533557993573244660436647540450744526482978744793640558657737162072233946269086295289442261829914642623782188425325795050790903828005260588929267319913783504095745411016153677142214927399721800860733488389552387456157998207962487641869327373380299656090342898402535232032930061642230351314165578315742768276109285662056904474391324309950297100857886544265522111384063777062365050802137449841150364534459390668723329404944090419837133059656358623078715555165265181780574496658825291716635112997374058091332695265403676847353344048905408130747864939308768726325389971792449527733638505419841166751516922451787896859309257164290032536563715652135923051315324419464089116566261818697853230041857070620861524631587946135534338307741850371468052755290434439874441896680136152322762716803120160489757854709135079267766683771045961452171636999118867245407583610363557164430977285845823607794841589138790986774148059479642583197578698772831062863848230166889165995793110497431324839089281284820818019947602349323006451996152546125317690937488670756115912939784823265402442577598090002854671553831839800187531700250393880767824492478265464556881682498587826120978431942010605829623564631425522963579485823510676316357293399757355064625343288220309000251176381741504645486471243405297527700636105534806495826533528619476954190669451157249370390862087301015204669271569991824980735014430269273816827648469477171802311620639324373883680570107405176582713435529275950496086562632984235603860737720159575741773249185522134401573912293605616684765701505146870332481669770870085773527908818228448394788019474133422283209428722013036960196756481297691282985340974513566845580997343428395085205890075911449984665636037087731813380106015392960705733923368294974892227884462590880811106419517515528090065935518536574085306910819945596527275794026995661620408897261994180648607688811801967828088536588693668206801219456074547333059726813426869568354629428417450906868369392667007500899442793000087818954171780509053362291161537041485749397202795890440582672859234991291889839243602119780105220869104424439048119009577767003829510638422180536693656556237046031272223813195752035468846302079436948214433911494219159647923342089845724473822988324461407296813622322079858912662237063309596608527242167136221460463310129704591018739916257311561677186212032259832516477821469782659966107826895819076817491869648572912348564499717774509566154932483732443243710758912206944637543703544643559540359494470268100318771738311296846248539411680532693209786241807174508209968626179909332986961355832292116499283850829737348038400000160696332316217784164414506546662043813269707335701480690762116862607525449557132780191574253153923501168937456856913368410883100343296669056145223098420530944954677007163811954470697786611132138442275881012655925545215620666498822969354887386831737090142123316997086003446959078678787849905063627352920795944925314457378976822767424602976763471074470960356975977570178503174131989145153866129330288634682405019724521334593023431337278048953220131176847524257853141764132689423222690004628332912130198068986807617004853737428431846787875863827865903478520361485995858687735576223750692277314468561237247155869024315132858435781984316150965559609881553126270245045137417608583962262363483078086154196590582431917434681298190176075618637689367205460719265107089300461364475253550531290202635507267488387203429290977645109717295896940626761113173126986066819200666704000567132516882289560375231484197134540154292197125009232967641365296969901967514478647772575153302677603325157536220792174891640059576432991381357732590682977929050681396331216285824748618766390765887878224458327296974637762078247562623854998614386661751933748784919535961527116539555312790129583305778716551536822459441241651886312571913856477484967838678892991458713443698914829185942135921717566431123983949334427331349810443416546730343493919393948021112995554181241613588129289683367385614939949993791118234483420725215033658751663884701719479417961303825100270284428122525174289214462960553489514888895313143419607289959380693488753503351453859646429067595589982398760379301843770285207584248777962663191918628358344370155088179743866378015938101068076387651153815156165985141644655402762028935698068360234505747903222192568368001025017174574246572779186026047038964284719463927256383514044589974818204933824916460896883929498201496987050368638078257728722120610400401377146040491735696903515358977376177579742532065686083512077971758848492455502066484147388271341392833840570644861082414622685633606389303432224384427468930606102478878936995912620531159297968931670368741590187323358068895022104488568999360565257449410147944964709159632272063819581869311482508692280002695241592235952743966240455077518588425180275363752738134020883379433242709098144793783438450535906286355608316106105360666802071800032209551222746804555734169512944468802078242975084637263349651303436961502215216604716769033699797543966467572652408954361366109716182140285823924508693539408894074978393435088998962348003897212673830413130909122398685242594120942955244174601624555807317447764127587547522231445912937464464431447154342901643986954780272827206382003805540927032038253932089817616986454560679095983301436317718641785163071482583828719792237687059953558062557415505355802843021016041841476722367875083487656162085881194636637792826813251273534797407247180082375558905726018598016771816320578615231304468354115310150170710516953035908694537879689797172409984039193287917321455520619958250536871095539193113044455612450725288690790067456066480738324870509660946550168674151165399415433764161298904874267119555641343267912479615041411858466636191566563792308369512526675848578389757380108395422447240215092117270524468900513616804994376923739951194516821316683168903780376153925644525147268654726154844057641628740183301874147471685496972105367313085810736665171569606993087712007313383798671805512917519310971132840113389310027363426014784595839484349999997995196418839101836092152724697678232258078714725347431192579224702516430396730412039582190610003091106413789938358453811774618896248014578668688963097269432879465299702621997186511207310502665360540254354113541871106969745860994826311184216727962675652444203465475446163168536983486071536439249114732409744265791101941954250080979285618352873455318464968607928680103803732820970015200866195428489372493830364616508830666681529024522887147875108925889729364690875215947402908715600669484718263325439650701197594587025575476902064028353145809399574546940213703660639346348924010515896027298727726651756536540952230776787462644207237070352048998248469601669596501466787748687670774490245279970657798773639853732023132346044403324946699838988486167752119173653986646738487004959093581095576564051621036447914929970908717897180792862953573144205669308047770694322462843076176448646449822551892630043404886502478752208769995973068514858151090966149303422414596719874192393150518102782122088285106943965472774341250025786078353235354671307511413308036664381461252895151095904880562111292317476551780214369500730473220452661418895238011951935640783131594551317259333783337763992596642301905844263266145483121229064586309343412388310620559081224927295737116802866445043380534124113171515820697557589378875786609968389680918546514446124246602169396936293297450832446916540542347779852878178793469376745261727061434559725301389754566061017602593054672212576987995164502394866479966798269957967650812576531165179384504764972447184505386646558732544537191297445784264265699320321641740073366037156872877879157768302971649166277389208820037983902997274975927876363676021417911766882658579604654159038585367235139728435465755362362901863792009287070015797960260165391181931950226800123090780333989847094250279121283502622988129150846535606454057908188030744186952387032762657199642693164505620509136514656530963909468945316663625646252276250224716006895128166393708713256576677015691153172900737565345703916427504220207491318727099748141647590183525902326044051347688644530856880607227485044406063718447315359326837537679131149820752290880495756398209167443197934461566453193159431759476047677443720784508913343375190228497698292950324075898639808479056593014792393571553765222580864614263396640331493291096830856805385112069066281071896381938318131465513764342284752300859575432883658027859599160654356939841868608126238913302613586985472668546604012603802325993028892115724099309648247354681181736656321978918796251123972831558294640749581607487402831891286619455038575308369871049736285976186315265512066062802094185712344030070215875409765225348910468180570489015313569957803484599542941370301101709521491217317158755874592161980107646386602611978381657130667879472750915162341726206399140523884994362547057082960098910741826119081798250736902736078792522473047903603949751479722629264318980792281656494435031666910527271593407557139605256477748461175570784073402804652972047863242892433080319069839167822862309266799151031261600550792843221578813276910423724325686364336340932527673213834506242590062273724469730860373399921469919851830681795404617795437490080571085495266169724731948369981858405942788409839528886304586845057516865700301477582511966876846976420277363011087932006429255726303093606810924773471124015619171773940515955971288426636719577464264042004093033808712150512944915045441859224470385495570287544278864349446991520325052959024689532439016589339740858536100680557788540690037684888315686258868192234457099378287654904322643681169170663592829050996258248387889639399073906259051595331732939874064101346510352919066647428893758222180474577634224060323912715104237106522620402721021662203188720925809183685003983664389545967154660725473173015169203605373815108254824353708918472214505747896974819848897493763189018641060170926352854285607650670832121189182157523645793010795077759330688064715553335325223464263024424675893765553066426936197457425706629996547190075652252833807833368147562375004977982083387799982115229965404365490154725020337162557531247039139946097418322457119595168664837722532228311853047703251336077058447933351309315542357284851102891007765798957378640364099477877486791923607246537150440245650430257615485646625324914898367775327864808559514996587448428035736327157929580679931356559535981639844508936285683620425425014636975596665939817013341588858123136024350691409167399895794435277503912231713062802013117678835676038990193707744026801580333753412950194131087021803363432281756324109163570045890328075146619327550156967138749965207771849567607259236181591820828458252654747347902740633731537498807560637667137911547247082390777896423514884481933409944087656273188629359241124120255308961471638360850997245503259087343182743024812213788176679136036759116911758676554564653014404512829386961035918170672758856338738976421478761111804476123039623949304429289242676225621309195960882140162696381455663923208593586877887108601075859722587938440132802254787620778924515280876620562802979706629558709346795946754628620628125643762096718156309208526342110144273874094830584687550917780718014750064319774102004177619993064942937741887380884001076692633172255456657525269949068048097949052096999464380967003431822560714291569823106253099250067194663949070771572171944875798670878108242718481525113171726941637102101700774271004740597831156961082047302410190780076240614951178162194326409789302687525902175711993786151450481215864880695023119542315824944491495186663626738925356656408232634657431168884421458654401613174323234190338971918532002416725134049104766390656272432037928142629240642082647708356394136397362080789593258801861932180451678347541835748719950335174231930475790184123444474452358599590351744321042533469498306166859198006860665940463871082456852338200040231537344462679798839631504165503161703621586169482702377635127809544394435704877233104597602378508154352344437110410285675567021829272789582488714328318691073443642180724331861142940545897837213811292411072796023007022632427111884929951244826054666237610484293802955074937814169658084084522748557926133534175806338810541102992077378798881772519690707408715827370975428266731432724683442731867920047028350340493977658805562095675614660010636554186382233089422041580056452313783997904193385128338023961937064345120645019764312721623723610725988682999222953197142537281380121331185167471251938805299250765968648727126101261684135629153422891704734939690665849397038749610405106147249796342367312148730782741347507717237540014512041039349955495205853083864082251083175567895595402886623954173883354507830199553551261209123664813540874143148706790377622276068175649327419960076777367845151872725389314691429282251873118449363706740244938046859999946046260148349013850621651804450003407582018385021771810621677938854951600207671353805944760273756008733186239182816063648118082185223629713732175802757936987852809432092012918607316708987404977315670110939303770696521502489214538259098988998789027815533740318960070786946774348118531530565104683353965883393946735054335780097658023402314017582151763319824165286433947352623946057772090200988978506316213274267836540550209266179831205241733298679446351787344430967844375008213935621631917209349485799614002824879701648069616309219544469338263786925508127609136534578955798252457765329454957842106613839836428004392805107850118555570098195653964505624691146484137868578037200758171554200068389188900193612610609045744227508795239979389278642026994830971590068253940025633610116863413188297897891242190436350185123253792039165926540155949047465195558811368618023063754784478940103622364116086939926552274160278051792628748972418657489380857298459497249656505001810128314699930434931768701854887674107991555057740328755340965089574912903924295706940110518456801644374715552619749008907509281947820195471476768202953894995146276163133522647550951832853805907877589261922419177587690545829614638259686201374145423156196975517443582243534090392593214589848081033980251899608843797821702459750684441229587092674197530611223980521226978804464148684572142776451434265139363828259413729154646083373204627056013868509171805046351152270726063391297779623959697123154421842774793975489010476036190388355383509621223793557829586108048524389079696385133088040406009187872629761771779567551406309929309809196022627864651605033106991611635746598772459014888955802615144666690329152740534475231528573656842527195740226232628435708308474227287112076892297416300687483492832775362740882999279755440058292572894755345065979011355739002435891833241350630092419499514903436608982981207924401025412473392170383709245874630669645974387877294585815748865657684747683520707708867395382937455324614358047864021945169753546970769577224831861304919346354095821442489319770983846667416843813076759919724246631257734827685559975555684003787913964173786016739555043559551708684537430609638234183067657533550001313722063562568085999409878502177849546512938346824310544567973249244800914395991154526585218908715736712236016166345103114779912815693522049107007503423470262938873129979497620244016559458454655463272356080398514972488157944929668424001399817872480551878289695410099447490422249387901187263631126362296257250629728189592478746700744693759984015451997934947590081388581884128195043556550601006648798481416149058188308207439637727246145192442842711321012568072686632745139218889261469485233698579992250227242761446508160901742341462782400671784308173145562457073402431195850700084825167317561954815244197998274194679148408087776621652341914457338976832250518680613170691870174153314908686997248209769901257123653009045920558713755305041349803080271066142155086559804708033754975347936760791264031689356439778539090355931256593945453529371893438886721616068882128023644727717396905873472454197814835552048818768448235323730404367594017363428920442293617739293414255549440172070666480333539752564735871225112309990274996645562643298229269090940983210990333530967238947090330614562760981156179226391143581944278543403083124847039107455094027978942765430115171712717458648405063449504652027249328272969787693433171553294184551161883327315704837743614142201684597034078049166820418310459741672219893059196215365890191269137486935469556779750412400088128472476582042642469451037190662640115478132337258261968967792275385152749995919024914743952553013442503150258388068043661510853950175182349210612548581701936213885437950227251532972809445361689196323487949649606543024393632276682763147767343588927136999438766305311422269840602279953812342372600945063858254234381848938002075054531308654344294023632880772632928209119330243847147589423439177831535552710319457428267476519832063154065675898149119106738722802187606687661609444542815248018147441326191303079584999702721870642805296697808352599072799556682941694941158805249436416007140129412309656593368491402676836421517842555957539564801406109516083892052146872049942230457957740051853281237952945308516371099007310518185817418756083881626451290170598739563632523810180115396969159902209273574952883013012960338979435962196690942424014882855758004117496643596835782925369690790952554524538327848775020207819988833184222473359162583694219918069946552927418990597437002826922297771104930355732694828109873010752087153190843604407309177238130548170730917033565833807177941534655897871593338530930879082751689126369394649501080115140369564419536239516953118645365486306590597688767525219882930848730810450130772575049174520670304821911450947149340761723344704931536853381724376918331573422251997746675953136259591214797743449028636975582105298588017105378870015915331917308703036984254965507827189777141492777130785393940222266202561981804016554046771478121638362245324259573249127391007380399601889132670175155130835787516504830164905734118428085403972276204838339178946976449793587749767693120761133753412882871682531297150828268108037822370152819317599052738929615200320896154393095362282176638473133695052780968397656404474947032244678207376264512197625730825128491945686366277328454566551227551228568240463095476695012555660383917768796427059948616546796390807758977555171017130528611697824998236520684422928564030160069376326091039521406347974618215325465140618994343815984968544946327146857723658745315332628889988701326755549358124124350704817397820924120787316953933416325999919432727970840322000478407764655922104332912102310620274790904639500897443181997955120191652810366720978371027034343683303768316426735918248338655707739145452377814510896421847980588499705244315335329310471269287246281643160211685657006223770013530170613172850191244763525782794059090642663427039632710543198764737574731673383066509132850945465741496430830654392828523859723892781679603107394529496918729955804440500000707289107855047699739841210902151066600756869502470662109992194343136396938608905939881221141414536770872500469913687137521445664454801995289692089429460863945763962238267442705116006177951488719474802487116806997982093751553226437812139336476487640669622570475585536735819062037620255795362235129303666948521350875855525213215532159135879833824548473235356456791817091557602447031308169074082831150809161560777202068375691236570690450983662090601273531985286477461584183882147962806331024978406694113585705657568281473583646641807039124331633427632704297066941222378401289686495789051153046143182469625427299801150681296972200106123410632026562456562648764733872270015444211844626806878982412947737313545160910362712508858608896401838449829773975562611106412850072604997535976884250521549417240453949600508531486584279338404725443295780441802301501739738705933290150914992371695474096798615663059374294540921609893951838781603746010294875052309244219513860712471160178385156576272344891677195623535475918921554161819036847067345335133077890039875122154977004972059951784369935152386328337005032204350326568365959324715787965708308182831609658461124681812016981563578794768252214363367368994464990959828118678831079874984296123047842882532966161130747364002052836703361040021457331429600575155486765012542422157846939070084482960766389598093804614944746538737365956347833314029061960187206902563720139096433022265136190962873316106121913482202279088325500268369538935168983255991753027156013652584926608155374424579329324256985266198526781721111973682691442233124056801418914861096784374679623022270088734055053254997067653785187633361151742158130180610790567298899215602558542092072343388587885908877324493730680144307480862387168492410652186972204301666720884443884814213062395482761752977739605808059880285476192947031090543961436894579358108700711603388233849397350125333400442820998737552473680679091904602818063881666776253240401425691590351847894686770311552392506786201257160427773185986108136561744345657815925081989703874953104974807118940282574306459205265770790853375409606452079448643913660901279867253337859278066397229461420833418415376887176049443026454565696531203880287699219517256039005426082871314201612446579918347512472435409073445554167016354995907702959233303252471859970805075714046470968016125274129757636819551995540061562792364167929050951904821450553139920314276757981815234900807684436372559399190271531917214355295938604439036955083935539698199399895733277306184870411546601456722216408308946897018234995241183309338911457698755381354706340220065705813208722620390392701658704961739373465996154046032934719239958061613043601882760384342633009998403711873197790350111969320957157731502925343259386581147714176327576135531180694746301295134088976589972066304103879312239142209628108868328852669640683741680178773974820578218896883915118996181143464275591675394688835179795900464918970001505626294600073920604025685808851866056960453204040148248230657640454826295844540762208099511115245498841896561798270359377802825877459792549044675657358379440434459978171978383252621121917778204436316095261072673897451947388880483990197398067416620156608133284852352686976814481870321402917424228126081036355477832481087638225320751983457077075913537373935060066623764873578470755800035928379756216062538030232231128674136842281847217214469039617210464547158426363054172505640323439799321071895476198034094954854512276002402294480942795712775036299257001334300285483223062759377310222643221876670565889498695882412717683890396860486154404247262392746127909381633107561592262270051485496062059148647897473052011583031823778624145731672272875543061925719486331118782747490996422753244912778192371345949077932951731114720909429240276423964449939105750259933940949507976320708232674100024446197450385967350169012872462351241718198085309116159361112311712385404934105128511299479351175026773694850345657918247368547782310922731855015171097980669458708775124558342667832928503387320935890023258067226494534949956301720583902892835017464346420587246765142923108843973959050005700466702899675191835470990584523779746231181680321357593244206555658069520877971965701381822352412714288065345064611018578223894743784698332216332511800401346504904516673289964259225169030924450809035361317908534872290281488301822846837537789841800561861725499032696016123949987058137194911848746479443848965763255208927384017390838875704707656145450559783636640984831628839284790865755238343985452560084880161873535798009516704997155282381237588601450325358027248525265880343576321011131250442746262732897643586055941203694326026138944478291785986637822184786910114659402800337100471601856429958352393526122925247297108472129989544410772179857713224958364376492137433208994455046072532930114830335653893154505017890253050789089521844579305271264730800272473746460859181566511253353086849658852241184052041043996820533740789530550859997330786921364569375623046135265277566530948187262014259378875488654338246442400867856464126359351235944087787747374928983151497671729916071132386613151293361018443773793924226010751995409826525720187984376142377633500624568746747643567503012168105904979960064434994595036553937166507652282103343613631165640081908675424777627142110362329976198357865936216193434555979273176650099407980467021031668260940487570619543220928523181365410344498621490560436241582189797001727394909917953196306453908848051522902272585989693960929074010660938465523499959816832453081333120611397879487943439900944686112391884169578875182007466617499229622132874459991182041746376816394892428450846308549666402964863877835481857713984252623013396039832672668186029078209065123348964884504018374908412987830180312120549168897351886130105545017593701320036952499516438915658984535139690182239465612962868942033477772702707777275277176179745932857620469629786267370651571859742834797662779362498153225471509837605529145284378055434336932601942044808230383862281360534334124984832026102047246921923102021483764769944070860765224352550369479618561798310622598772130288531512881354792224444018840085111615442921707752951571563383826490808343368809896102392022387248597047227883261574429440187065883401037256518460308052711007375382105357381701534314057671557512066857173605395723236092700900481578152004107315802179960224361570571433801181288506140457617715912814607701632427282176772494740339400226321495820312390421510084637071778910772139913557044048124606696556139429166553887776012197542911761095987640472723210324489639601503923848558924657902429556360862541802660607826850150816686839735053434153753522866954406785536106151660690089696256974487860999800538209475970839733017890296550476076751762337906426836630281028152784896736170948578773922784952020752606042075728999473457762812720060019342210861504697476901252251264244803134263152868070159584124130173140490246566441696978581586951673237559738830799991438377491649224346682245984855434612022544516084999013872372739025251780105859366903612772546876711076712668435941418344920624002461398818779391120697921493264843937730548664744128453057025370912194127453071776623049636761452066444501406898148986246584586532389442715672513413472262632414434745337826971179196734139377535191663582093818893876725818169098058552614683808448206776706183298507200725139194554560337106520523916400498485848163029118825080920214990988167351447696337293850226118741413213528256602249283008796111849865800048356407800298916065580971689474419969310221498090713131239421118789303987460314015895912965186865149761769344025689817551772584315575328021657842156124385685030239824254728590674302793943047660865702503003772424531201205553489734423103677502765749895021229511431827412247521031011912741697435806781001396899874867967803742787831353997171760482632626560537748710233722846233622212875318890425287926756662115416872231255076779301871263214459064517864711257175531959185154100520074269617517866713508935375904591086794320199807415931664188393182562433438611352199656980865355942245878940446559502215269658030960671461020091168784348493011073141026059357908445166379174299863818655638917191612346245605093843633233356589895428073836813865688129716448547116755336318614519409988001034030498632886257802739068527599484699582289646266545063069445535032462178505080832672881620214167815064872158414793368547452488084483325487857949197201487514691943044066614636901109125133662264251985700709212226672135619123052656673752481949223322761852289096089840407482739537907927361353048112084628663928178969094436634493459799550308451858885326371113096163269376500815768760425872079768424938218491662410049887227620591818395552401520066779036144878464148753578501186157195663008627116238755531039452425848718073617708380290664688377096376386828635945213142021386564836318614722873472973669681482523876950704929743388637021766431051490937805788402423346597305744835374445641149531221398931403730354892352344690834050186017692937371002123979338595442195207244643148103563799447443231342737398872653358287412504168309252319092733584261532020880524119353282040349903245474416172590318787742332098504738467117005671636832901690498003283231942944522281777100572146608642521501105876306440778377980867457915853776274590093738324926190785031744498905579406118029521097773246439766470652835772027165001897277267087104589297352429010999940295797298857424433865436425801056192104328005614601408604478987269629564136874972403699958610763247595294625464086377533221050090452524226114550412801773242336598888837134373106265252692900127981393036121435041243128646278913991813802843576106520314729808117612112111728517553720388589020590986228137220742466299402089013571955808210971906814043243193174671756199093945965641258053687562457655679618693399032201010122250366531457559917848095850051201844285618300303307209421874940672257035085271523887346805288870424824189424103146303514673962448942308085559868828972582632477961285088545041867058848233634229340109400922964637552394129418679917811640900851995201084337903632172205253193063471729602853663456986464040738187424782970243712001609823875428888585914936444580736983577108785797827501500886475465394349760936798425779875048205868859638688784204496217681986479020045343974951794897489080101995685414701415718501720374393005287616871942183201266037190455750264203959339634706269522265181868059097071944709991866279248511551370438682075836629486317822736727325053720495710746996897653864470469689882192236788334543444595274290170827708897807053996061843202319389111699448216629326238944302148732270604671368266108315444677904046068155080034771510788381393303009368664162436566598423620555472631682447888384420538086143000700184516286220241074911075762748723406166008280319443823209692928042795152270407405453605955347973464046263317076637863113071447263434318186182708963811909199593758061456440794987787830726107239803127469698950657630468003885604610310688059888121945145637498613880237355946693754708008295719259661920133052711839628310557968641966538674986693109018026264178212769347663142441898175877999401417308342468529711425967518874267529140444620040644876052574006394862030963850724820056140411090436136069279717061521353196172915637817173155487862677241356453204190478381483372498530277137239707520560789199521496193567128820553037968158938967539155030569427991975187594585381634384116753512046335046837305154334986531226762978110959253335233480000002969731050408076852562916413101619355412347043529192054671217258919323024546137865135074459276476498022111943475325238789921989830529911931593438132189772062141213095676755508660208927017439958417154683901254881027659841979415766551258922183557171001594638602218716397715719689967838652966322475162123846407439927215904285399859037719423523657986323941344418871098925043541549097476801330404494187480838035763652970702228136578605848274704918144240098818463579553708845618182848085005269710923347594388286388828366545514285054542108276970112255201872309597401034901127659801867976541522669889816620673102877982560606419198750142511841207460962808069374485190398693497806728487930038032405141865133655286329771026138148603414892880347731685706871256451609956005118759332953279238743197922159911762698877846924252832517368208761223507315839628070655927579126191677865339780795759068098689826416472008264380182951388858160969623480160917722490546826019122497070667182035765369612354225280828319949543373250121563294140111618772023961086307725557328253199858121259698624189186269705719837102986681047609161927785335389550634484260316247350540057858213490910349967390544674556098266573417970794900869045847677453669953433323231824110759858937198787572881825449873287460069394767665899092077275595685765812501157907845526115340051690941086979386875663239585911321996851823474195645239392855370962741497982035753125156113797349941376619074112065372417573500236572991699882933255558745278950047786307760505489176311541202790648561109137314599674748560307885228006763587240951758774933557264591830846351497580399219959951929853331094702757569517399965379924676905063904928108211901249565995325860765130544083326651727169564427053047936751905788803532541612812917311395655525535201134927061071205673074498957921396979726718748886220438346344822441317364146977985991568358149237391965226597972939989119398223538058607053110814092449212845629343623195231855800362982433167559788106067534348222683155388199582216320253138358995105741926325117688182573629205794282326577300737845831740255790939485088223694013109673564503341351653742006143627088474850603892143983228637848720337253851947914174951103887815501099932498151867448753606121061047839142692550260069122550222968623693625550898743939683650272866780445677968181332856501184117881468942585460348172142049962663790133042544976557594116665055430098705831420591367071284669901142705558726470859286950980593497193772678659586200428516543279958511040713573118820638923243791590229735801204494704268158922093320439396425915467139778004537135041239379077439654942289567941425419699575194593577925468372935888487878018487731173431827472133329987849925995644081424184527840281753549860299386704267126521288691405345684020122819814221911012556183010080395361487130662699065319844229906239699917792523320569881567586922282456707270127994232613906870328265412090477258100005723091953313734618615784514584729550983695473762393409185346788597706590133544523736128390762468974331220467755314345792399634006964002018728536736795996610280608918211295244878562600109897991544060820859776348525109700779000846443566982630151507180830332285150060803256598330072217699879603348807944468355695302667658415044302233477526876183265188924456288554730152056062484651107909771890236779959955622165459257244195309329678650187323426163504293283639051377336082160802778589503855569564574645803464026416814214632186642401603749985955955548494663936381398219026807009564397265583907887665024437097856065648268384336255017892404266310214058826951241587170371126535665130685609158460911126520579309584738385151373272410575339555803409656153468164612873542076201255030686319228116138313278663765405366560853604424646168311675669117797328666918084371413589964928701055655968647376837024499822585116331058877440213936455691717373367134379040592172573736669543127639658856850007977807929039113807174155922688805546742461071046193973163923319722131020980647175501223654325851570535058697415700501561318788617742501916142766660749049951118692146622857680124717845252982247970375216639594013935275979005394230624267836401696762913130599831695459323006789855054474940009599403992497797844843673962296936504816694495944211652592512839250975690193688163577094725938739857374426925866263522600871133325037490790823450360735056008397136411368858260519160909491726365220358914483693491649014542661730649055996681398808588464041127696654292268903195486014639257789669632987875863301503010851997085451333717322821964118197696205536022058568762966301767867762794813389418282114284610845126838315192367018095523717612105843605504,
  best_state := some { pos := { x := 12, y := 12 }, dir := Day17.Direction.South, steps := 8 },
  best_loss := 94 }


/-! ## Theorems -/

theorem seqNat_eq {α : Type} (n : Nat) (k : α) : seqNat n k = k := by
  unfold seqNat
  split <;> rfl

/-! ### Packed slot tables -/

theorem slotGet_lt (w m k : Nat) : slotGet w m k < 2 ^ w := by
  unfold slotGet
  exact Nat.mod_lt _ (Nat.pow_pos (by norm_num))

theorem slotGet_eq_div_mod (w m k : Nat) :
    slotGet w m k = m / 2 ^ (w * k) % 2 ^ w := by
  unfold slotGet
  rw [Nat.shiftRight_eq_div_pow]

/-- Base-`2 ^ w` decomposition of `m` around digit `k`. -/
theorem slot_decomp (w m k : Nat) :
    m = m / 2 ^ (w * (k + 1)) * 2 ^ (w * (k + 1)) + slotGet w m k * 2 ^ (w * k)
        + m % 2 ^ (w * k) := by
  rw [slotGet_eq_div_mod]
  have h3 : m / 2 ^ (w * (k + 1)) = m / 2 ^ (w * k) / 2 ^ w := by
    rw [Nat.div_div_eq_div_mul, ← pow_add, Nat.mul_add, Nat.mul_one]
  have hpow : 2 ^ (w * (k + 1)) = 2 ^ (w * k) * 2 ^ w := by
    rw [← pow_add, Nat.mul_add, Nat.mul_one]
  rw [h3, hpow]
  calc m = 2 ^ (w * k) * (m / 2 ^ (w * k)) + m % 2 ^ (w * k) :=
        (Nat.div_add_mod m (2 ^ (w * k))).symm
    _ = 2 ^ (w * k) * (2 ^ w * (m / 2 ^ (w * k) / 2 ^ w) + m / 2 ^ (w * k) % 2 ^ w)
        + m % 2 ^ (w * k) := by conv_rhs => rw [Nat.div_add_mod]
    _ = m / 2 ^ (w * k) / 2 ^ w * (2 ^ (w * k) * 2 ^ w)
        + m / 2 ^ (w * k) % 2 ^ w * 2 ^ (w * k) + m % 2 ^ (w * k) := by ring

/-- Writing digit `k` replaces exactly that digit of the decomposition. -/
theorem slotSet_eq (w m k v : Nat) :
    slotSet w m k v =
      m / 2 ^ (w * (k + 1)) * 2 ^ (w * (k + 1)) + v * 2 ^ (w * k) + m % 2 ^ (w * k) := by
  have hdec := slot_decomp w m k
  unfold slotSet
  rw [Nat.shiftLeft_eq, Nat.shiftLeft_eq]
  omega

theorem slotGet_slotSet_self (w m k v : Nat) (hv : v < 2 ^ w) :
    slotGet w (slotSet w m k v) k = v := by
  rw [slotSet_eq, slotGet_eq_div_mod]
  have hP : 0 < 2 ^ (w * k) := Nat.pow_pos (by norm_num)
  have hpow : 2 ^ (w * (k + 1)) = 2 ^ (w * k) * 2 ^ w := by
    rw [← pow_add, Nat.mul_add, Nat.mul_one]
  rw [hpow]
  have hlo : m % 2 ^ (w * k) < 2 ^ (w * k) := Nat.mod_lt _ hP
  have h1 : m / (2 ^ (w * k) * 2 ^ w) * (2 ^ (w * k) * 2 ^ w) + v * 2 ^ (w * k)
        + m % 2 ^ (w * k)
      = 2 ^ (w * k) * (2 ^ w * (m / (2 ^ (w * k) * 2 ^ w)) + v) + m % 2 ^ (w * k) := by
    ring
  rw [h1, Nat.mul_add_div hP, Nat.div_eq_of_lt hlo, Nat.add_zero, Nat.mul_add_mod,
    Nat.mod_eq_of_lt hv]

/-- A digit read depends only on the number modulo the next power. -/
theorem slotGet_congr_mod (w k : Nat) {x y : Nat}
    (h : x % 2 ^ (w * (k + 1)) = y % 2 ^ (w * (k + 1))) :
    slotGet w x k = slotGet w y k := by
  rw [slotGet_eq_div_mod, slotGet_eq_div_mod, Nat.div_mod_eq_mod_mul_div,
    Nat.div_mod_eq_mod_mul_div, ← pow_add]
  have h2 : w * k + w = w * (k + 1) := by ring
  rw [h2, h]

/-- Writing digit `k` leaves the number unchanged below position `j ≤ w * k`. -/
theorem slotSet_mod_low (w m k v j : Nat) (hj : j ≤ w * k) :
    slotSet w m k v % 2 ^ j = m % 2 ^ j := by
  rw [slotSet_eq]
  obtain ⟨t, ht⟩ : (2 : Nat) ^ j ∣ 2 ^ (w * k) := pow_dvd_pow 2 hj
  obtain ⟨u, hu⟩ : (2 : Nat) ^ j ∣ 2 ^ (w * (k + 1)) :=
    pow_dvd_pow 2 (le_trans hj (Nat.mul_le_mul_left w (Nat.le_succ k)))
  have h1 : m / 2 ^ (w * (k + 1)) * 2 ^ (w * (k + 1)) + v * 2 ^ (w * k)
        + m % 2 ^ (w * k)
      = 2 ^ j * (m / 2 ^ (w * (k + 1)) * u + v * t) + m % 2 ^ (w * k) := by
    rw [ht, hu]; ring
  rw [h1, Nat.mul_add_mod, Nat.mod_mod_of_dvd m ⟨t, ht⟩]

theorem slotGet_slotSet_of_lt (w m k k' v : Nat) (h : k' < k) :
    slotGet w (slotSet w m k v) k' = slotGet w m k' := by
  apply slotGet_congr_mod
  exact slotSet_mod_low w m k v (w * (k' + 1)) (Nat.mul_le_mul_left w h)

theorem slotGet_slotSet_of_gt (w m k k' v : Nat) (hv : v < 2 ^ w) (h : k < k') :
    slotGet w (slotSet w m k v) k' = slotGet w m k' := by
  rw [slotGet_eq_div_mod, slotGet_eq_div_mod, slotSet_eq]
  obtain ⟨u, hu⟩ : (2 : Nat) ^ (w * (k + 1)) ∣ 2 ^ (w * k') :=
    pow_dvd_pow 2 (Nat.mul_le_mul_left w h)
  have hT : 0 < 2 ^ (w * (k + 1)) := Nat.pow_pos (by norm_num)
  have hpow : 2 ^ (w * (k + 1)) = 2 ^ (w * k) * 2 ^ w := by
    rw [← pow_add, Nat.mul_add, Nat.mul_one]
  have hd : slotGet w m k < 2 ^ w := slotGet_lt w m k
  have hlo : m % 2 ^ (w * k) < 2 ^ (w * k) :=
    Nat.mod_lt _ (Nat.pow_pos (by norm_num))
  have hr : v * 2 ^ (w * k) + m % 2 ^ (w * k) < 2 ^ (w * (k + 1)) := by
    rw [hpow]
    calc v * 2 ^ (w * k) + m % 2 ^ (w * k)
        < v * 2 ^ (w * k) + 2 ^ (w * k) := by omega
      _ = (v + 1) * 2 ^ (w * k) := by ring
      _ ≤ 2 ^ w * 2 ^ (w * k) := by
          exact Nat.mul_le_mul_right _ (by omega)
      _ = 2 ^ (w * k) * 2 ^ w := by ring
  have hr' : slotGet w m k * 2 ^ (w * k) + m % 2 ^ (w * k) < 2 ^ (w * (k + 1)) := by
    rw [hpow]
    calc slotGet w m k * 2 ^ (w * k) + m % 2 ^ (w * k)
        < slotGet w m k * 2 ^ (w * k) + 2 ^ (w * k) := by omega
      _ = (slotGet w m k + 1) * 2 ^ (w * k) := by ring
      _ ≤ 2 ^ w * 2 ^ (w * k) := by
          exact Nat.mul_le_mul_right _ (by omega)
      _ = 2 ^ (w * k) * 2 ^ w := by ring
  have key : ∀ r : Nat, r < 2 ^ (w * (k + 1)) →
      (m / 2 ^ (w * (k + 1)) * 2 ^ (w * (k + 1)) + r) / 2 ^ (w * k')
        = m / 2 ^ (w * (k + 1)) / u := by
    intro r hrlt
    rw [hu, ← Nat.div_div_eq_div_mul]
    congr 1
    have h1 : m / 2 ^ (w * (k + 1)) * 2 ^ (w * (k + 1)) + r
        = 2 ^ (w * (k + 1)) * (m / 2 ^ (w * (k + 1))) + r := by ring
    rw [h1, Nat.mul_add_div hT, Nat.div_eq_of_lt hrlt, Nat.add_zero]
  rw [Nat.add_assoc, key _ hr]
  have hm : m = m / 2 ^ (w * (k + 1)) * 2 ^ (w * (k + 1))
      + (slotGet w m k * 2 ^ (w * k) + m % 2 ^ (w * k)) := by
    have := slot_decomp w m k
    omega
  conv_rhs => rw [hm]
  rw [key _ hr']

theorem tblGet_lt (city : City) (w t : Nat) (s : State) : city.tblGet w t s < 2 ^ w :=
  slotGet_lt w t (city.stateIdx s)

theorem tblGet_tblSet_self (city : City) (w t : Nat) (s : State) (v : Nat) (hv : v < 2 ^ w) :
    city.tblGet w (city.tblSet w t s v) s = v :=
  slotGet_slotSet_self w t (city.stateIdx s) v hv

theorem tblGet_tblSet_ne (city : City) (w t : Nat) (s s' : State) (v : Nat) (hv : v < 2 ^ w)
    (h : city.stateIdx s ≠ city.stateIdx s') :
    city.tblGet w (city.tblSet w t s v) s' = city.tblGet w t s' := by
  unfold City.tblGet City.tblSet
  rcases Nat.lt_or_ge (city.stateIdx s') (city.stateIdx s) with hlt | hge
  · exact slotGet_slotSet_of_lt w t _ _ v hlt
  · exact slotGet_slotSet_of_gt w t _ _ v hv (by omega)

/-! ### States, moves and encodings -/

theorem Direction.idx_lt (d : Direction) : d.idx < 4 := by
  cases d <;> decide

theorem Direction.idx_inj {d d' : Direction} (h : d.idx = d'.idx) : d = d' := by
  cases d <;> cases d' <;> first | rfl | exact absurd h (by decide)

theorem inGrid_bounds {city : City} {p : Position} (h : city.inGrid p = true) :
    0 ≤ p.x ∧ p.x < city.width ∧ 0 ≤ p.y ∧ p.y < city.height := by
  simp only [City.inGrid, Bool.and_eq_true, decide_eq_true_eq] at h
  exact ⟨h.1.1.1, h.1.1.2, h.1.2, h.2⟩

/-- `stateIdx` is injective on the states the search handles. -/
theorem stateIdx_inj (city : City) {s s' : State}
    (hg : city.inGrid s.pos = true) (hg' : city.inGrid s'.pos = true)
    (hst : s.steps ≤ 10) (hst' : s'.steps ≤ 10)
    (h : city.stateIdx s = city.stateIdx s') : s = s' := by
  obtain ⟨hx0, hxw, hy0, _⟩ := inGrid_bounds hg
  obtain ⟨hx0', hxw', hy0', _⟩ := inGrid_bounds hg'
  unfold City.stateIdx at h
  have hd := Direction.idx_lt s.dir
  have hd' := Direction.idx_lt s'.dir
  have hsteps : s.steps = s'.steps ∧
      (s.pos.y.toNat * city.width.toNat + s.pos.x.toNat) * 4 + s.dir.idx
        = (s'.pos.y.toNat * city.width.toNat + s'.pos.x.toNat) * 4 + s'.dir.idx := by
    omega
  have hdir : s.dir.idx = s'.dir.idx ∧
      s.pos.y.toNat * city.width.toNat + s.pos.x.toNat
        = s'.pos.y.toNat * city.width.toNat + s'.pos.x.toNat := by
    have := hsteps.2
    omega
  have hxW : s.pos.x.toNat < city.width.toNat := by omega
  have hxW' : s'.pos.x.toNat < city.width.toNat := by omega
  have hW : 0 < city.width.toNat := by omega
  have hxy : s.pos.x.toNat = s'.pos.x.toNat ∧ s.pos.y.toNat = s'.pos.y.toNat := by
    have h2 := hdir.2
    constructor
    · have e1 : (s.pos.y.toNat * city.width.toNat + s.pos.x.toNat) % city.width.toNat
          = s.pos.x.toNat := by
        rw [Nat.mul_comm, Nat.mul_add_mod, Nat.mod_eq_of_lt hxW]
      have e2 : (s'.pos.y.toNat * city.width.toNat + s'.pos.x.toNat) % city.width.toNat
          = s'.pos.x.toNat := by
        rw [Nat.mul_comm, Nat.mul_add_mod, Nat.mod_eq_of_lt hxW']
      rw [← e1, ← e2, h2]
    · have e1 : (s.pos.y.toNat * city.width.toNat + s.pos.x.toNat) / city.width.toNat
          = s.pos.y.toNat := by
        rw [Nat.mul_comm, Nat.mul_add_div hW, Nat.div_eq_of_lt hxW, Nat.add_zero]
      have e2 : (s'.pos.y.toNat * city.width.toNat + s'.pos.x.toNat) / city.width.toNat
          = s'.pos.y.toNat := by
        rw [Nat.mul_comm, Nat.mul_add_div hW, Nat.div_eq_of_lt hxW', Nat.add_zero]
      rw [← e1, ← e2, h2]
  obtain ⟨p, d, st⟩ := s
  obtain ⟨p', d', st'⟩ := s'
  obtain ⟨px, py⟩ := p
  obtain ⟨px', py'⟩ := p'
  dsimp only at hx0 hxw hy0 hx0' hxw' hy0' hxy hdir hsteps
  have : px = px' ∧ py = py' := by omega
  simp only [State.mk.injEq, Position.mk.injEq]
  exact ⟨⟨this.1, this.2⟩, Direction.idx_inj hdir.1, hsteps.1⟩

theorem Position.mv_opposite (p : Position) (d : Direction) :
    (p.mv d).mv d.opposite = p := by
  obtain ⟨px, py⟩ := p
  cases d <;> simp [Position.mv, Direction.opposite, Position.mk.injEq]

theorem State.mv_dir (s : State) (d : Direction) : (s.mv d).dir = d := rfl

theorem State.mv_pos (s : State) (d : Direction) : (s.mv d).pos = s.pos.mv d := rfl

theorem predCode_lt (p : State) (h : p.steps ≤ 10) : predCode p < 44 := by
  have := Direction.idx_lt p.dir
  unfold predCode
  omega

/-- Decoding inverts encoding across one recorded edge `p → p.mv d`. -/
theorem predDecode_predCode (p : State) (d : Direction) (hsteps : p.steps ≤ 10) :
    predDecode (p.mv d) (predCode p) = p := by
  have hidx := Direction.idx_lt p.dir
  unfold predDecode predCode
  have hdiv : (p.dir.idx * 11 + p.steps) / 11 = p.dir.idx := by omega
  have hmod : (p.dir.idx * 11 + p.steps) % 11 = p.steps := by omega
  rw [State.mv_dir, State.mv_pos, hdiv, hmod, Position.mv_opposite]
  have hof : Direction.ofIdx p.dir.idx = p.dir := by
    cases p.dir <;> rfl
  rw [hof]

/-! ### `valid_moves` and `can_move` -/

theorem mem_valid_moves {city : City} {curr : State} {crucible : Crucible} {s : State} :
    s ∈ city.valid_moves curr crucible ↔
      ∃ d, d ∈ candidates curr.dir ∧ city.can_move curr d crucible = true ∧ s = curr.mv d := by
  unfold City.valid_moves
  simp only [List.mem_filterMap]
  constructor
  · rintro ⟨d, hd, hf⟩
    by_cases h : city.can_move curr d crucible
    · rw [if_pos h] at hf
      exact ⟨d, hd, h, (Option.some_inj.mp hf).symm⟩
    · rw [if_neg h] at hf
      exact absurd hf (by simp)
  · rintro ⟨d, hd, hc, rfl⟩
    exact ⟨d, hd, by rw [if_pos hc]⟩

theorem opposite_not_mem_candidates (d : Direction) : d.opposite ∉ candidates d := by
  cases d <;> decide

theorem valid_moves_not_opposite {city : City} {curr : State} {crucible : Crucible} {s : State}
    (h : s ∈ city.valid_moves curr crucible) : s.dir ≠ curr.dir.opposite := by
  obtain ⟨d, hd, _, rfl⟩ := mem_valid_moves.mp h
  rw [State.mv_dir]
  intro hcon
  exact opposite_not_mem_candidates curr.dir (hcon ▸ hd)

theorem can_move_inGrid {city : City} {curr : State} {d : Direction} {crucible : Crucible}
    (hg : city.inGrid curr.pos = true) (hc : city.can_move curr d crucible = true) :
    city.inGrid (curr.pos.mv d) = true := by
  obtain ⟨hx0, hxw, hy0, hyh⟩ := inGrid_bounds hg
  unfold City.can_move at hc
  cases d <;>
    simp only [Bool.and_eq_true, decide_eq_true_eq] at hc <;>
    simp [City.inGrid, Position.mv, decide_eq_true_eq] <;>
    omega

/-- A move produced by `valid_moves` from a stored state (run between `1` and
the cap) or from the synthetic pre-start state (run `0`) is itself a stored
state. -/
theorem valid_moves_valid {city : City} {curr : State} {crucible : Crucible} {s : State}
    (hg : city.inGrid curr.pos = true) (hcap : curr.steps ≤ runCap crucible)
    (h : s ∈ city.valid_moves curr crucible) : StValid city crucible s := by
  obtain ⟨d, hd, hc, rfl⟩ := mem_valid_moves.mp h
  refine ⟨can_move_inGrid hg hc, ?_⟩
  have hok := ((Bool.and_eq_true _ _).mp (by unfold City.can_move at hc; exact hc)).2
  show 1 ≤ (curr.mv d).steps ∧ (curr.mv d).steps ≤ runCap crucible
  simp only [State.mv]
  by_cases hdir : curr.dir = d
  · rw [if_pos hdir]
    cases crucible with
    | Small =>
      simp only [Bool.or_eq_true, decide_eq_true_eq] at hok
      rcases hok with hok | hok
      · exact absurd hdir (by simpa using hok)
      · simp only [runCap]
        omega
    | Ultra =>
      simp only [Bool.or_eq_true, Bool.and_eq_true, beq_iff_eq, decide_eq_true_eq] at hok
      simp only [runCap]
      rcases hok with (hok | hok) | hok
      · omega
      · exact absurd hdir hok.1
      · omega
  · rw [if_neg hdir]
    cases crucible <;> simp only [runCap] <;> omega

/-! ### The bucket queue -/

theorem bqAllGo_nil : bqAllGo [] = [] := rfl

theorem bqAllGo_cons (b : List State) (bs : List (List State)) :
    bqAllGo (b :: bs) = b ++ bqAllGo bs := rfl

theorem bqPushAt_getD_eq (i : Nat) (s : State) (l : List (List State)) :
    (bqPushAt i s l).getD i [] = l.getD i [] ++ [s] := by
  induction i generalizing l with
  | zero => cases l <;> simp [bqPushAt, List.getD]
  | succ i ih =>
    cases l with
    | nil =>
      show ((([] : List State) :: bqPushAt i s []).getD (i + 1) []) = _
      rw [List.getD_cons_succ, ih]
      simp [List.getD]
    | cons x bs =>
      show ((x :: bqPushAt i s bs).getD (i + 1) []) = _
      rw [List.getD_cons_succ, ih, List.getD_cons_succ]

theorem bqPushAt_getD_ne (i i' : Nat) (s : State) (l : List (List State)) (h : i ≠ i') :
    (bqPushAt i s l).getD i' [] = l.getD i' [] := by
  induction i generalizing l i' with
  | zero =>
    cases l with
    | nil =>
      show (([[s]] : List (List State)).getD i' []) = _
      cases i' with
      | zero => exact absurd rfl h
      | succ i' => simp [List.getD]
    | cons x bs =>
      show (((x ++ [s]) :: bs).getD i' []) = _
      cases i' with
      | zero => exact absurd rfl h
      | succ i' => rw [List.getD_cons_succ, List.getD_cons_succ]
  | succ i ih =>
    cases l with
    | nil =>
      show ((([] : List State) :: bqPushAt i s []).getD i' []) = _
      cases i' with
      | zero => rfl
      | succ i' =>
        rw [List.getD_cons_succ, ih i' [] (by omega)]
        simp [List.getD]
    | cons x bs =>
      show ((x :: bqPushAt i s bs).getD i' []) = _
      cases i' with
      | zero => rfl
      | succ i' => rw [List.getD_cons_succ, ih i' bs (by omega), List.getD_cons_succ]

theorem bqPad_getD (n : Nat) (l : List (List State)) (i : Nat) :
    (bqPad n l).getD i [] = if i < n then [] else l.getD (i - n) [] := by
  induction n generalizing i with
  | zero => simp [bqPad]
  | succ n ih =>
    cases i with
    | zero => simp [bqPad, List.getD]
    | succ i =>
      show ((([] : List State) :: bqPad n l).getD (i + 1) []) = _
      rw [List.getD_cons_succ, ih]
      have h2 : i + 1 - (n + 1) = i - n := by omega
      by_cases h : i < n
      · rw [if_pos h, if_pos (by omega)]
      · rw [if_neg h, if_neg (by omega), h2]

theorem bqGet_nil (off d : Nat) : bqGet (off, []) d = [] := by
  unfold bqGet
  split <;> simp [List.getD]

/-- Pushing appends the state to exactly its priority's bucket. -/
theorem bqGet_push_eq (d : Nat) (s : State) (b : Bq) :
    bqGet (bqPush d s b) d = bqGet b d ++ [s] := by
  obtain ⟨off, l⟩ := b
  cases l with
  | nil =>
    show bqGet (d, [[s]]) d = _
    rw [bqGet_nil]
    unfold bqGet
    rw [if_neg (by omega)]
    simp [List.getD]
  | cons c cs =>
    show bqGet (if d < off then (d, [s] :: bqPad (off - d - 1) (c :: cs))
      else (off, bqPushAt (d - off) s (c :: cs))) d = _
    by_cases hdo : d < off
    · rw [if_pos hdo]
      unfold bqGet
      rw [if_neg (by omega), if_pos (by simpa using hdo)]
      simp [List.getD]
    · rw [if_neg hdo]
      unfold bqGet
      rw [if_neg (by simpa using hdo), if_neg (by simpa using hdo)]
      exact bqPushAt_getD_eq (d - off) s (c :: cs)

/-- Pushing leaves every other priority's bucket unchanged. -/
theorem bqGet_push_ne (d d' : Nat) (s : State) (b : Bq) (h : d ≠ d') :
    bqGet (bqPush d s b) d' = bqGet b d' := by
  obtain ⟨off, l⟩ := b
  cases l with
  | nil =>
    show bqGet (d, [[s]]) d' = _
    rw [bqGet_nil]
    unfold bqGet
    by_cases h1 : d' < d
    · rw [if_pos h1]
    · rw [if_neg h1]
      have h2 : d' - d = (d' - d - 1) + 1 := by omega
      rw [h2, List.getD_cons_succ]
      simp [List.getD]
  | cons c cs =>
    show bqGet (if d < off then (d, [s] :: bqPad (off - d - 1) (c :: cs))
      else (off, bqPushAt (d - off) s (c :: cs))) d' = _
    by_cases hdo : d < off
    · rw [if_pos hdo]
      unfold bqGet
      by_cases h1 : d' < d
      · rw [if_pos (by simpa using h1), if_pos (by omega)]
      · rw [if_neg (by simpa using h1)]
        have h2 : d' - d = (d' - d - 1) + 1 := by omega
        rw [h2, List.getD_cons_succ, bqPad_getD]
        by_cases h3 : d' < off
        · rw [if_pos (by omega), if_pos (by omega)]
        · rw [if_neg (by omega), if_neg (by omega)]
          have h4 : d' - d - 1 - (off - d - 1) = d' - off := by omega
          rw [h4]
    · rw [if_neg hdo]
      unfold bqGet
      by_cases h1 : d' < off
      · rw [if_pos (by simpa using h1), if_pos (by simpa using h1)]
      · rw [if_neg (by simpa using h1), if_neg (by simpa using h1)]
        exact bqPushAt_getD_ne (d - off) (d' - off) s (c :: cs) (by omega)

theorem mem_bqAllGo_iff (l : List (List State)) (t : State) :
    t ∈ bqAllGo l ↔ ∃ i, t ∈ l.getD i [] := by
  induction l with
  | nil =>
    simp only [bqAllGo_nil, List.not_mem_nil, false_iff, not_exists]
    intro i
    simp [List.getD]
  | cons x bs ih =>
    rw [bqAllGo_cons]
    simp only [List.mem_append, ih]
    constructor
    · rintro (hx | ⟨i, hi⟩)
      · exact ⟨0, hx⟩
      · exact ⟨i + 1, by rwa [List.getD_cons_succ]⟩
    · rintro ⟨i, hi⟩
      cases i with
      | zero => exact Or.inl hi
      | succ i => exact Or.inr ⟨i, by rwa [List.getD_cons_succ] at hi⟩

theorem mem_bqAll_iff (b : Bq) (t : State) :
    t ∈ bqAll b ↔ ∃ d, t ∈ bqGet b d := by
  obtain ⟨off, l⟩ := b
  show t ∈ bqAllGo l ↔ _
  rw [mem_bqAllGo_iff]
  constructor
  · rintro ⟨i, hi⟩
    refine ⟨off + i, ?_⟩
    unfold bqGet
    rw [if_neg (by omega)]
    have h1 : off + i - off = i := by omega
    dsimp only
    rw [h1]
    exact hi
  · rintro ⟨d, hd⟩
    unfold bqGet at hd
    by_cases h1 : d < off
    · rw [if_pos h1] at hd
      cases hd
    · rw [if_neg h1] at hd
      exact ⟨d - off, hd⟩

theorem mem_bqAll_push (d : Nat) (s : State) (b : Bq) (t : State)
    (h : t ∈ bqAll (bqPush d s b)) : t ∈ bqAll b ∨ t = s := by
  rw [mem_bqAll_iff] at h
  obtain ⟨d', hd'⟩ := h
  by_cases hdd : d = d'
  · subst hdd
    rw [bqGet_push_eq] at hd'
    rcases List.mem_append.mp hd' with hmem | hmem
    · exact Or.inl ((mem_bqAll_iff b t).mpr ⟨d, hmem⟩)
    · exact Or.inr (by simpa using hmem)
  · rw [bqGet_push_ne d d' s b hdd] at hd'
    exact Or.inl ((mem_bqAll_iff b t).mpr ⟨d', hd'⟩)

theorem self_mem_bqAll_push (d : Nat) (s : State) (b : Bq) :
    s ∈ bqAll (bqPush d s b) :=
  (mem_bqAll_iff _ s).mpr ⟨d, by rw [bqGet_push_eq]; simp⟩

theorem bqPopGo_eq_none_iff (off : Nat) (l : List (List State)) :
    bqPopGo off l = none ↔ bqAllGo l = [] := by
  induction l generalizing off with
  | nil => simp [bqPopGo, bqAllGo]
  | cons x bs ih =>
    cases x with
    | nil =>
      show bqPopGo (off + 1) bs = none ↔ _
      rw [ih, bqAllGo_cons]
      simp
    | cons t ts => simp [bqPopGo, bqAllGo_cons]

theorem bqPop_eq_none_iff (b : Bq) : bqPop b = none ↔ bqAll b = [] :=
  bqPopGo_eq_none_iff b.1 b.2

theorem bqGet_cons_nil (off : Nat) (bs : List (List State)) (d : Nat) :
    bqGet (off, ([] : List State) :: bs) d = bqGet (off + 1, bs) d := by
  unfold bqGet
  by_cases h1 : d < off
  · rw [if_pos h1, if_pos (by omega)]
  · by_cases h2 : d = off
    · subst h2
      rw [if_neg h1, if_pos (by omega)]
      dsimp only
      rw [Nat.sub_self, List.getD_cons_zero]
    · rw [if_neg h1, if_neg (by omega)]
      have h3 : d - off = (d - (off + 1)) + 1 := by omega
      dsimp only
      rw [h3, List.getD_cons_succ]

theorem bqAll_cons_nil (off : Nat) (bs : List (List State)) :
    bqAll (off, ([] : List State) :: bs) = bqAll (off + 1, bs) := rfl

/-- What one pop does: the popped state sits in the first non-empty bucket
(minimal priority), every bucket of the rest is contained in the original
bucket, and the remaining states are exactly the original ones minus one
occurrence of the popped state. -/
theorem bqPop_spec (b : Bq) (s : State) (b' : Bq) (h : bqPop b = some (s, b')) :
    ∃ d₀, s ∈ bqGet b d₀ ∧ (∀ d, d < d₀ → bqGet b d = []) ∧
      (∀ d t, t ∈ bqGet b' d → t ∈ bqGet b d) ∧
      (∀ t, t ∈ bqAll b → t = s ∨ t ∈ bqAll b') ∧
      (∀ t, t ∈ bqAll b' → t ∈ bqAll b) := by
  obtain ⟨off, l⟩ := b
  have hgo : bqPopGo off l = some (s, b') := h
  clear h
  induction l generalizing off with
  | nil => exact absurd hgo (by simp [bqPopGo])
  | cons x bs ih =>
    cases x with
    | nil =>
      have h2 : bqPopGo (off + 1) bs = some (s, b') := hgo
      obtain ⟨d₀, ha, hb, hc, hd, he⟩ := ih (off + 1) h2
      refine ⟨d₀, ?_, ?_, ?_, ?_, ?_⟩
      · rwa [bqGet_cons_nil]
      · intro d hdlt
        rw [bqGet_cons_nil]
        exact hb d hdlt
      · intro d t ht
        rw [bqGet_cons_nil]
        exact hc d t ht
      · intro t ht
        rw [bqAll_cons_nil] at ht
        exact hd t ht
      · intro t ht
        rw [bqAll_cons_nil]
        exact he t ht
    | cons u ts =>
      have hs : u = s ∧ b' = (off, ts :: bs) := by
        have h2 : some (u, (off, ts :: bs)) = some (s, b') := hgo
        have h3 : u = s ∧ (off, ts :: bs) = b' := by simpa using h2
        exact ⟨h3.1, h3.2.symm⟩
      obtain ⟨rfl, rfl⟩ := hs
      refine ⟨off, ?_, ?_, ?_, ?_, ?_⟩
      · unfold bqGet
        rw [if_neg (by omega)]
        simp [List.getD]
      · intro d hdlt
        unfold bqGet
        rw [if_pos (by omega)]
      · intro d t ht
        unfold bqGet at ht ⊢
        by_cases h1 : d < off
        · rw [if_pos h1] at ht
          cases ht
        · rw [if_neg h1] at ht ⊢
          rcases hdo : d - off with _ | i
          · rw [hdo] at ht
            simp only [List.getD_cons_zero] at ht ⊢
            exact List.mem_cons_of_mem u ht
          · rw [hdo] at ht
            rwa [List.getD_cons_succ] at ht ⊢
      · intro t ht
        show t = u ∨ t ∈ bqAll (off, ts :: bs)
        have ht2 : t ∈ bqAllGo ((u :: ts) :: bs) := ht
        rw [bqAllGo_cons] at ht2
        rcases List.mem_append.mp ht2 with hx | hx
        · rcases List.mem_cons.mp hx with rfl | hx
          · exact Or.inl rfl
          · exact Or.inr (by
              show t ∈ bqAllGo (ts :: bs)
              rw [bqAllGo_cons]
              exact List.mem_append.mpr (Or.inl hx))
        · exact Or.inr (by
            show t ∈ bqAllGo (ts :: bs)
            rw [bqAllGo_cons]
            exact List.mem_append.mpr (Or.inr hx))
      · intro t ht
        have ht2 : t ∈ bqAllGo (ts :: bs) := ht
        rw [bqAllGo_cons] at ht2
        show t ∈ bqAllGo ((u :: ts) :: bs)
        rw [bqAllGo_cons]
        rcases List.mem_append.mp ht2 with hx | hx
        · exact List.mem_append.mpr (Or.inl (List.mem_cons_of_mem u hx))
        · exact List.mem_append.mpr (Or.inr hx)

theorem opposite_ne (d : Direction) : d.opposite ≠ d := by
  cases d <;> decide

theorem mem_candidates_iff (c d : Direction) : d ∈ candidates c ↔ d ≠ c.opposite := by
  cases c <;> cases d <;> decide

theorem mv_mem_valid_moves {city : City} {curr : State} {crucible : Crucible}
    (d : Direction) :
    curr.mv d ∈ city.valid_moves curr crucible ↔
      d ∈ candidates curr.dir ∧ city.can_move curr d crucible = true := by
  rw [mem_valid_moves]
  constructor
  · rintro ⟨d', hd', hc', heq⟩
    have hdd : d = d' := by
      have h1 := congrArg State.dir heq
      rw [State.mv_dir, State.mv_dir] at h1
      exact h1
    subst hdd
    exact ⟨hd', hc'⟩
  · rintro ⟨hd, hc⟩
    exact ⟨d, hd, hc, rfl⟩

/-- Under an in-grid current position, `can_move`'s bounds test says exactly
that the target cell is in the grid, and its `steps_ok` test is the regime
rule of the source. -/
theorem can_move_iff (city : City) (curr : State) (d : Direction) (crucible : Crucible)
    (hg : city.inGrid curr.pos = true) :
    city.can_move curr d crucible = true ↔
      (city.inGrid (curr.pos.mv d) = true ∧
        match crucible with
        | Crucible.Small => curr.dir ≠ d ∨ curr.steps < 3
        | Crucible.Ultra =>
          curr.steps = 0 ∨ (curr.dir ≠ d ∧ 4 ≤ curr.steps) ∨
            (curr.dir = d ∧ curr.steps < 10)) := by
  obtain ⟨hx0, hxw, hy0, hyh⟩ := inGrid_bounds hg
  unfold City.can_move
  rw [Bool.and_eq_true]
  refine and_congr ?_ ?_
  · cases d <;>
      simp [City.inGrid, Position.mv, decide_eq_true_eq] <;>
      omega
  · cases crucible <;>
      simp [Bool.or_eq_true, Bool.and_eq_true, beq_iff_eq, decide_eq_true_eq] <;>
      tauto

theorem searchLoop_zero (city : City) (goal : Position) (crucible : Crucible)
    (st : SearchSt) : city.searchLoop goal crucible 0 st = none := rfl

theorem searchLoop_succ (city : City) (goal : Position) (crucible : Crucible)
    (n : Nat) (st : SearchSt) :
    city.searchLoop goal crucible (n + 1) st =
      match city.searchStep goal crucible st with
      | none => some st
      | some st' => city.searchLoop goal crucible n st' := rfl

theorem stepN_zero (city : City) (goal : Position) (crucible : Crucible)
    (st : SearchSt) : city.stepN goal crucible 0 st = st := seqNat_eq _ _

theorem stepN_succ (city : City) (goal : Position) (crucible : Crucible)
    (n : Nat) (st : SearchSt) :
    city.stepN goal crucible (n + 1) st =
      match city.searchStep goal crucible st with
      | none => st
      | some st' => city.stepN goal crucible n st' := rfl

theorem stepChunks_zero (city : City) (goal : Position) (crucible : Crucible)
    (chunk : Nat) (st : SearchSt) :
    city.stepChunks goal crucible chunk 0 st = st := rfl

theorem stepChunks_succ (city : City) (goal : Position) (crucible : Crucible)
    (chunk n : Nat) (st : SearchSt) :
    city.stepChunks goal crucible chunk (n + 1) st =
      city.stepN goal crucible chunk (city.stepChunks goal crucible chunk n st) := rfl

/-- Splitting off a fuel prefix: running `a` bounded iterations first does not
change the result of the loop (as long as one unit of fuel remains). -/
theorem searchLoop_add (city : City) (goal : Position) (crucible : Crucible)
    (a b : Nat) (st : SearchSt) :
    city.searchLoop goal crucible (a + (b + 1)) st =
      city.searchLoop goal crucible (b + 1) (city.stepN goal crucible a st) := by
  induction a generalizing st with
  | zero =>
    rw [stepN_zero]
    norm_num
  | succ a ih =>
    have h1 : a + 1 + (b + 1) = (a + (b + 1)) + 1 := by omega
    rw [h1, searchLoop_succ, stepN_succ]
    cases h : city.searchStep goal crucible st with
    | none => rw [searchLoop_succ, h]
    | some st' => exact ih st'

/-- `searchLoop` evaluated through `n` chunks of `chunk` iterations. -/
theorem searchLoop_eq_chunks (city : City) (goal : Position) (crucible : Crucible)
    (chunk n b : Nat) (st : SearchSt) :
    city.searchLoop goal crucible (n * chunk + (b + 1)) st =
      city.searchLoop goal crucible (b + 1) (city.stepChunks goal crucible chunk n st) := by
  induction n generalizing b with
  | zero => rw [stepChunks_zero]; norm_num
  | succ n ih =>
    have h1 : (n + 1) * chunk + (b + 1) = n * chunk + (chunk + b + 1) := by ring
    have h2 : chunk + b + 1 = chunk + (b + 1) := by omega
    rw [h1, ih (chunk + b), h2, searchLoop_add, stepChunks_succ]

/-! ### The relax step and the search step -/

theorem relax_best (city : City) (goal : Position) (curr : State) (curr_loss : Nat)
    (st : SearchSt) (n : State) :
    (city.relax goal curr curr_loss st n).best_state = st.best_state ∧
    (city.relax goal curr curr_loss st n).best_loss = st.best_loss := by
  refine ⟨?_, ?_⟩ <;>
    (unfold City.relax; dsimp only; split <;> first | rfl | (split <;> rfl))

theorem foldl_relax_best (city : City) (goal : Position) (curr : State) (curr_loss : Nat)
    (L : List State) (st : SearchSt) :
    (L.foldl (city.relax goal curr curr_loss) st).best_state = st.best_state ∧
    (L.foldl (city.relax goal curr curr_loss) st).best_loss = st.best_loss := by
  induction L generalizing st with
  | nil => exact ⟨rfl, rfl⟩
  | cons x L ih =>
    simp only [List.foldl_cons]
    obtain ⟨h1, h2⟩ := relax_best city goal curr curr_loss st x
    obtain ⟨h3, h4⟩ := ih (city.relax goal curr curr_loss st x)
    exact ⟨h3.trans h1, h4.trans h2⟩

theorem searchStep_eq_none_iff (city : City) (goal : Position) (crucible : Crucible)
    (st : SearchSt) :
    city.searchStep goal crucible st = none ↔ bqAll st.open_set = [] := by
  unfold City.searchStep
  cases h : bqPop st.open_set with
  | none => simp [(bqPop_eq_none_iff _).mp h]
  | some sb =>
    have hne : bqAll st.open_set ≠ [] := fun hc => by
      rw [(bqPop_eq_none_iff _).mpr hc] at h
      cases h
    simp [hne]

/-- The loop's final state (when the fuel did not run out) has an empty
frontier: the search terminates only by draining the frontier. -/
theorem searchLoop_empty (city : City) (goal : Position) (crucible : Crucible)
    (fuel : Nat) (st₁ st₂ : SearchSt)
    (h : city.searchLoop goal crucible fuel st₁ = some st₂) :
    bqAll st₂.open_set = [] := by
  induction fuel generalizing st₁ with
  | zero => rw [searchLoop_zero] at h; cases h
  | succ f ih =>
    rw [searchLoop_succ] at h
    cases hs : city.searchStep goal crucible st₁ with
    | none =>
      rw [hs] at h
      obtain rfl : st₁ = st₂ := by simpa using h
      exact (searchStep_eq_none_iff city goal crucible st₁).mp hs
    | some st' =>
      rw [hs] at h
      exact ih st' h

/-- One search step, made explicit: pop, clear the queued bit, possibly accept
the goal state, then relax every legal neighbor. -/
theorem searchStep_elim (city : City) (goal : Position) (crucible : Crucible)
    (st st'' : SearchSt) (h : city.searchStep goal crucible st = some st'') :
    ∃ curr rest, bqPop st.open_set = some (curr, rest) ∧
      st'' = (city.valid_moves curr crucible).foldl
        (city.relax goal curr (city.lossOf st.losses curr))
        (if curr.pos == goal &&
            Nat.ble (city.lossOf st.losses curr) st.best_loss &&
            (crucible == Crucible.Small || Nat.ble 4 curr.steps) then
          { st with
            open_set := rest
            queued := city.tblSet 1 st.queued curr 0
            best_state := some curr
            best_loss := city.lossOf st.losses curr }
        else
          { st with
            open_set := rest
            queued := city.tblSet 1 st.queued curr 0 }) := by
  unfold City.searchStep at h
  cases hpop : bqPop st.open_set with
  | none => rw [hpop] at h; cases h
  | some sb =>
    obtain ⟨curr, rest⟩ := sb
    rw [hpop] at h
    refine ⟨curr, rest, rfl, ?_⟩
    have h2 := Option.some_inj.mp h
    rw [← h2]

theorem bool_ite_true {α : Sort _} (b : Bool) (h : b = true) (x y : α) :
    (if b = true then x else y) = x := by subst h; rfl

theorem bool_ite_false {α : Sort _} (b : Bool) (h : b = false) (x y : α) :
    (if b = true then x else y) = y := by subst h; rfl

/-- Preservation of a predicate along bounded runs of the search loop. -/
theorem stepN_pres (city : City) (goal : Position) (crucible : Crucible)
    (P : SearchSt → Prop)
    (hstep : ∀ st st', city.searchStep goal crucible st = some st' → P st → P st')
    (k : Nat) (st : SearchSt) (h : P st) : P (city.stepN goal crucible k st) := by
  induction k generalizing st with
  | zero => rw [stepN_zero]; exact h
  | succ k ih =>
    rw [stepN_succ]
    cases hs : city.searchStep goal crucible st with
    | none => exact h
    | some st' => exact ih st' (hstep st st' hs h)

/-- `searchStep_elim` with the goal-acceptance test abstracted away: it only
touches `best_state` and `best_loss`. -/
theorem searchStep_elim2 (city : City) (goal : Position) (crucible : Crucible)
    (st st'' : SearchSt) (h : city.searchStep goal crucible st = some st'') :
    ∃ curr rest st₂, bqPop st.open_set = some (curr, rest) ∧
      st₂.open_set = rest ∧ st₂.queued = city.tblSet 1 st.queued curr 0 ∧
      st₂.came_from = st.came_from ∧ st₂.losses = st.losses ∧
      st'' = (city.valid_moves curr crucible).foldl
        (city.relax goal curr (city.lossOf st.losses curr)) st₂ := by
  obtain ⟨curr, rest, hpop, hst⟩ := searchStep_elim city goal crucible st st'' h
  refine ⟨curr, rest, _, hpop, ?_, ?_, ?_, ?_, hst⟩
  · rw [apply_ite SearchSt.open_set, ite_self]
  · rw [apply_ite SearchSt.queued, ite_self]
  · rw [apply_ite SearchSt.came_from, ite_self]
  · rw [apply_ite SearchSt.losses, ite_self]

/-! ### The bucket invariant: every queued state sits in the bucket of its
`l1` distance to the goal -/

theorem foldl_bqPush_bucket (goal : Position) (L : List State) (q₀ : Bq)
    (h₀ : ∀ d s, s ∈ bqGet q₀ d → s.pos.l1_distance goal = d) :
    ∀ d s, s ∈ bqGet (L.foldl (fun q x => bqPush (x.pos.l1_distance goal) x q) q₀) d →
      s.pos.l1_distance goal = d := by
  induction L generalizing q₀ with
  | nil => exact h₀
  | cons x L ih =>
    simp only [List.foldl_cons]
    apply ih
    intro d s hs
    by_cases hd : x.pos.l1_distance goal = d
    · rw [← hd, bqGet_push_eq] at hs
      rcases List.mem_append.mp hs with h | h
      · rw [← hd]
        exact h₀ _ s h
      · obtain rfl : s = _ := by simpa using h
        exact hd
    · rw [bqGet_push_ne _ _ _ _ hd] at hs
      exact h₀ d s hs

theorem relax_bucket (city : City) (goal : Position) (curr : State) (curr_loss : Nat)
    (st : SearchSt) (n : State)
    (h₀ : ∀ d s, s ∈ bqGet st.open_set d → s.pos.l1_distance goal = d) :
    ∀ d s, s ∈ bqGet (city.relax goal curr curr_loss st n).open_set d →
      s.pos.l1_distance goal = d := by
  unfold City.relax
  dsimp only
  cases hg : (Nat.blt (curr_loss + city.heat n.pos) st.best_loss &&
      Nat.blt (curr_loss + city.heat n.pos) (city.prevLossOf st.losses n)) with
  | false =>
    rw [if_neg (by decide : ¬(false = true))]
    exact h₀
  | true =>
    rw [if_pos (by decide : true = true)]
    cases hq : city.isQueued st.queued n with
    | false =>
      rw [if_neg (by decide : ¬(false = true))]
      intro d s hs
      by_cases hd : n.pos.l1_distance goal = d
      · rw [← hd, bqGet_push_eq] at hs
        rcases List.mem_append.mp hs with h | h
        · rw [← hd]
          exact h₀ _ s h
        · obtain rfl : s = _ := by simpa using h
          exact hd
      · rw [bqGet_push_ne _ _ _ _ hd] at hs
        exact h₀ d s hs
    | true =>
      rw [if_pos (by decide : true = true)]
      exact h₀

theorem foldl_relax_bucket (city : City) (goal : Position) (curr : State) (curr_loss : Nat)
    (L : List State) (st : SearchSt)
    (h₀ : ∀ d s, s ∈ bqGet st.open_set d → s.pos.l1_distance goal = d) :
    ∀ d s, s ∈ bqGet ((L.foldl (city.relax goal curr curr_loss) st).open_set) d →
      s.pos.l1_distance goal = d := by
  induction L generalizing st with
  | nil => exact h₀
  | cons x L ih =>
    simp only [List.foldl_cons]
    exact ih _ (relax_bucket city goal curr curr_loss st x h₀)

theorem searchStep_bucket (city : City) (goal : Position) (crucible : Crucible)
    (st st' : SearchSt) (hs : city.searchStep goal crucible st = some st')
    (h₀ : ∀ d s, s ∈ bqGet st.open_set d → s.pos.l1_distance goal = d) :
    ∀ d s, s ∈ bqGet st'.open_set d → s.pos.l1_distance goal = d := by
  obtain ⟨curr, rest, st₂, hpop, hopen, _, _, _, rfl⟩ :=
    searchStep_elim2 city goal crucible st st' hs
  apply foldl_relax_bucket
  rw [hopen]
  obtain ⟨d₀, _, _, hsub, _, _⟩ := bqPop_spec _ _ _ hpop
  intro d s hsm
  exact h₀ d s (hsub d s hsm)

/-- **C4.**  Whenever the search (at any point of its loop, from any start)
pops a state, the popped state's priority — exactly the Manhattan distance
from its position to the goal, with no cost-so-far term — is minimal among
all frontier states. -/
theorem claim_C4 (city : City) (goal : Position) (crucible : Crucible) (start : Position)
    (k : Nat) (curr : State) (rest : Bq)
    (hpop : bqPop (city.stepN goal crucible k
        (city.initSearch start goal crucible)).open_set = some (curr, rest)) :
    ∀ t ∈ bqAll (city.stepN goal crucible k
        (city.initSearch start goal crucible)).open_set,
      curr.pos.l1_distance goal ≤ t.pos.l1_distance goal := by
  have hbk : ∀ d s, s ∈ bqGet (city.stepN goal crucible k
      (city.initSearch start goal crucible)).open_set d →
      s.pos.l1_distance goal = d := by
    apply stepN_pres city goal crucible
      (fun st => ∀ d s, s ∈ bqGet st.open_set d → s.pos.l1_distance goal = d)
      (fun st st' hs h => searchStep_bucket city goal crucible st st' hs h)
    unfold City.initSearch
    dsimp only
    apply foldl_bqPush_bucket
    intro d s hs
    rw [bqGet_nil] at hs
    cases hs
  obtain ⟨d₀, hmem, hlow, _, _, _⟩ := bqPop_spec _ _ _ hpop
  have hcurr : curr.pos.l1_distance goal = d₀ := hbk d₀ curr hmem
  intro t ht
  obtain ⟨d, hd⟩ := (mem_bqAll_iff _ t).mp ht
  have ht2 : t.pos.l1_distance goal = d := hbk d t hd
  have hd0 : d₀ ≤ d := by
    by_contra hcon
    have hempty := hlow d (by omega)
    rw [hempty] at hd
    cases hd
  omega

theorem claim_C4_witness :
    (⟨⟨2, 1⟩, Direction.East, 1⟩ : State).pos.l1_distance ⟨1, 0⟩ ≤
      (⟨⟨1, 2⟩, Direction.South, 1⟩ : State).pos.l1_distance ⟨1, 0⟩ :=
  claim_C4 city3x3 ⟨1, 0⟩ Crucible.Small ⟨1, 1⟩ 0 ⟨⟨2, 1⟩, Direction.East, 1⟩
    (2, [[⟨⟨1, 2⟩, Direction.South, 1⟩, ⟨⟨0, 1⟩, Direction.West, 1⟩]]) (by decide)
    ⟨⟨1, 2⟩, Direction.South, 1⟩ (by decide)

/-! ## Claims about the legal-move relation -/

/-- **C2 (amended).**  For a state with run-length at least `1` at an in-grid
position: the legal successor set never contains the reverse direction; with
the small crucible the straight continuation is legal exactly when the target
is in grid and the run-length is *less than* `3` (the source excludes it for
every run-length at least `3`, not only for run-length exactly `3`); with the
ultra crucible a turn is legal exactly when the target is in grid and the
run-length is at least `4`, and the straight continuation exactly when the
target is in grid and the run-length is *less than* `10`; and a move whose
target lies outside the grid is never legal. -/
theorem claim_C2 (city : City) (curr : State) (crucible : Crucible)
    (hg : city.inGrid curr.pos = true) (hs : 1 ≤ curr.steps) :
    (∀ s ∈ city.valid_moves curr crucible, s.dir ≠ curr.dir.opposite) ∧
    (crucible = Crucible.Small →
      (curr.mv curr.dir ∈ city.valid_moves curr crucible ↔
        city.inGrid (curr.pos.mv curr.dir) = true ∧ curr.steps < 3)) ∧
    (crucible = Crucible.Ultra → ∀ d, d ≠ curr.dir → d ≠ curr.dir.opposite →
      (curr.mv d ∈ city.valid_moves curr crucible ↔
        city.inGrid (curr.pos.mv d) = true ∧ 4 ≤ curr.steps)) ∧
    (crucible = Crucible.Ultra →
      (curr.mv curr.dir ∈ city.valid_moves curr crucible ↔
        city.inGrid (curr.pos.mv curr.dir) = true ∧ curr.steps < 10)) ∧
    (∀ d, city.inGrid (curr.pos.mv d) = false →
      curr.mv d ∉ city.valid_moves curr crucible) := by
  have hself : curr.dir ≠ curr.dir.opposite := Ne.symm (opposite_ne curr.dir)
  refine ⟨fun s hsm => valid_moves_not_opposite hsm, ?_, ?_, ?_, ?_⟩
  · rintro rfl
    rw [mv_mem_valid_moves, mem_candidates_iff, can_move_iff city curr curr.dir _ hg]
    simp [hself]
  · rintro rfl d hd hdop
    rw [mv_mem_valid_moves, mem_candidates_iff, can_move_iff city curr d _ hg]
    have h0 : ¬ curr.steps = 0 := by omega
    have hd2 : ¬ curr.dir = d := fun h => hd h.symm
    simp [hdop, h0, hd2]
  · rintro rfl
    rw [mv_mem_valid_moves, mem_candidates_iff, can_move_iff city curr curr.dir _ hg]
    have h0 : ¬ curr.steps = 0 := by omega
    simp [hself, h0]
  · intro d hng hmem
    obtain ⟨_, hc⟩ := (mv_mem_valid_moves d).mp hmem
    rw [can_move_inGrid hg hc] at hng
    exact absurd hng (by simp)

/-- Counterexample to C2 as frozen: with the small crucible and run-length
`4`, the straight continuation has an in-grid target and a run-length
different from `3`, yet it is excluded — exclusion is not "exactly at
run-length `3`". -/
theorem claim_C2_cex :
    city13.inGrid ((⟨⟨0, 0⟩, Direction.South, 4⟩ : State).pos.mv Direction.South) = true ∧
    (⟨⟨0, 0⟩, Direction.South, 4⟩ : State).steps ≠ 3 ∧
    State.mv ⟨⟨0, 0⟩, Direction.South, 4⟩ Direction.South ∉
      city13.valid_moves ⟨⟨0, 0⟩, Direction.South, 4⟩ Crucible.Small := by
  decide

theorem claim_C2_witness :
    city13.inGrid (⟨1, 1⟩ : Position) = true ∧ 1 ≤ (1 : Nat) ∧
    (∀ s ∈ city13.valid_moves ⟨⟨1, 1⟩, Direction.South, 1⟩ Crucible.Small,
      s.dir ≠ Direction.South.opposite) :=
  ⟨by decide, by decide,
    (claim_C2 city13 ⟨⟨1, 1⟩, Direction.South, 1⟩ Crucible.Small (by decide)
      (by decide)).1⟩

/-- **C3.**  The source contradicts the claim: from the synthetic pre-start
state (direction `South`, run-length `0`) the in-grid direction `North` is
*not* legal — `valid_moves` only ever offers the three non-reverse directions
of the synthetic `South`, so `North` is never seeded.  On the all-`1` 3×3
grid from `(1,1)` to `(1,0)` the search consequently returns a cost-`3` path
although entering `(1,0)` directly (cost `1`) is the spec's expected first
move. -/
theorem claim_C3 :
    city3x3.inGrid (Position.mv ⟨1, 1⟩ Direction.North) = true ∧
    State.mv ⟨⟨1, 1⟩, Direction.South, 0⟩ Direction.North ∉
      city3x3.valid_moves ⟨⟨1, 1⟩, Direction.South, 0⟩ Crucible.Small ∧
    (city3x3.navigate ⟨1, 1⟩ ⟨1, 0⟩ Crucible.Small 1000).map (Option.map totalLoss)
      = some (some 3) := by
  refine ⟨by decide, by decide, ?_⟩
  decide!

/-- **C9.**  The source contradicts the claim: on the all-`1` 2×2 grid no
state can reach the goal with the ultra crucible's minimum run of `4`, the
frontier drains with `best_state` still `None`, and `navigate` reaches
`best_state.unwrap()` — a panic, not a recoverable `NotFound` result.  In the
embedding the panic point is the inner `none`. -/
theorem claim_C9 :
    city2x2.navigate ⟨0, 0⟩ ⟨1, 1⟩ Crucible.Ultra 100 = some none := by
  decide!

/-! ## Claims about the loop body -/

/-- **C5.**  A neighbor update happens exactly under the double strict bound
(candidate cost below the previous best-cost — absent read as `u32::MAX` —
and below the global best-at-goal bound): then the predecessor entry and the
best-cost entry are written together (and the neighbor is enqueued exactly
when it was not pending); otherwise the whole state is untouched.  Entries of
other states are never written. -/
theorem claim_C5 (city : City) (goal : Position) (curr : State) (curr_loss : Nat)
    (st : SearchSt) (n : State) (hc10 : curr.steps ≤ 10) (hb : st.best_loss ≤ u32MAX) :
    ((curr_loss + city.heat n.pos < st.best_loss ∧
      curr_loss + city.heat n.pos < city.prevLossOf st.losses n) →
      city.tblGet 8 (city.relax goal curr curr_loss st n).came_from n = predCode curr + 1 ∧
      city.tblGet 32 (city.relax goal curr curr_loss st n).losses n
        = curr_loss + city.heat n.pos + 1 ∧
      (city.isQueued st.queued n = false →
        n ∈ bqAll (city.relax goal curr curr_loss st n).open_set ∧
        city.isQueued (city.relax goal curr curr_loss st n).queued n = true) ∧
      (city.isQueued st.queued n = true →
        (city.relax goal curr curr_loss st n).open_set = st.open_set ∧
        (city.relax goal curr curr_loss st n).queued = st.queued)) ∧
    (¬(curr_loss + city.heat n.pos < st.best_loss ∧
       curr_loss + city.heat n.pos < city.prevLossOf st.losses n) →
      city.relax goal curr curr_loss st n = st) ∧
    (∀ m : State, city.stateIdx m ≠ city.stateIdx n →
      city.tblGet 8 (city.relax goal curr curr_loss st n).came_from m
        = city.tblGet 8 st.came_from m ∧
      city.tblGet 32 (city.relax goal curr curr_loss st n).losses m
        = city.tblGet 32 st.losses m) := by
  have hpc : predCode curr + 1 < 2 ^ 8 := by
    have := predCode_lt curr hc10
    omega
  refine ⟨?_, ?_, ?_⟩
  · intro hcond
    have hnl : curr_loss + city.heat n.pos + 1 < 2 ^ 32 := by
      have h1 := hcond.1
      unfold u32MAX at hb
      omega
    have hg2 : (Nat.blt (curr_loss + city.heat n.pos) st.best_loss &&
        Nat.blt (curr_loss + city.heat n.pos) (city.prevLossOf st.losses n)) = true := by
      rw [Bool.and_eq_true, Nat.blt_eq, Nat.blt_eq]
      exact hcond
    unfold City.relax
    dsimp only
    rw [bool_ite_true _ hg2]
    cases hq : city.isQueued st.queued n with
    | false =>
      rw [if_neg (by decide : ¬(false = true))]
      refine ⟨tblGet_tblSet_self city 8 _ n _ hpc, tblGet_tblSet_self city 32 _ n _ hnl,
        fun _ => ⟨self_mem_bqAll_push _ n _, ?_⟩, fun hcon => absurd hcon (by decide)⟩
      unfold City.isQueued
      rw [tblGet_tblSet_self city 1 _ n 1 (by norm_num)]
      rfl
    | true =>
      rw [if_pos (by decide : true = true)]
      exact ⟨tblGet_tblSet_self city 8 _ n _ hpc, tblGet_tblSet_self city 32 _ n _ hnl,
        fun hcon => absurd hcon (by decide), fun _ => ⟨rfl, rfl⟩⟩
  · intro hcond
    have hg2 : (Nat.blt (curr_loss + city.heat n.pos) st.best_loss &&
        Nat.blt (curr_loss + city.heat n.pos) (city.prevLossOf st.losses n)) = false := by
      rcases hbool : (Nat.blt (curr_loss + city.heat n.pos) st.best_loss &&
          Nat.blt (curr_loss + city.heat n.pos) (city.prevLossOf st.losses n)) with _ | _
      · rfl
      · rw [Bool.and_eq_true, Nat.blt_eq, Nat.blt_eq] at hbool
        exact absurd hbool hcond
    unfold City.relax
    dsimp only
    rw [bool_ite_false _ hg2]
  · intro m hm
    by_cases hcond : curr_loss + city.heat n.pos < st.best_loss ∧
        curr_loss + city.heat n.pos < city.prevLossOf st.losses n
    · have hnl : curr_loss + city.heat n.pos + 1 < 2 ^ 32 := by
        have h1 := hcond.1
        unfold u32MAX at hb
        omega
      have hg2 : (Nat.blt (curr_loss + city.heat n.pos) st.best_loss &&
          Nat.blt (curr_loss + city.heat n.pos) (city.prevLossOf st.losses n)) = true := by
        rw [Bool.and_eq_true, Nat.blt_eq, Nat.blt_eq]
        exact hcond
      unfold City.relax
      dsimp only
      rw [bool_ite_true _ hg2]
      cases hq : city.isQueued st.queued n with
      | false =>
        rw [if_neg (by decide : ¬(false = true))]
        exact ⟨tblGet_tblSet_ne city 8 _ n m _ hpc (fun h => hm h.symm),
          tblGet_tblSet_ne city 32 _ n m _ hnl (fun h => hm h.symm)⟩
      | true =>
        rw [if_pos (by decide : true = true)]
        exact ⟨tblGet_tblSet_ne city 8 _ n m _ hpc (fun h => hm h.symm),
          tblGet_tblSet_ne city 32 _ n m _ hnl (fun h => hm h.symm)⟩
    · have hg2 : (Nat.blt (curr_loss + city.heat n.pos) st.best_loss &&
          Nat.blt (curr_loss + city.heat n.pos) (city.prevLossOf st.losses n)) = false := by
        rcases hbool : (Nat.blt (curr_loss + city.heat n.pos) st.best_loss &&
            Nat.blt (curr_loss + city.heat n.pos) (city.prevLossOf st.losses n)) with _ | _
        · rfl
        · rw [Bool.and_eq_true, Nat.blt_eq, Nat.blt_eq] at hbool
          exact absurd hbool hcond
      unfold City.relax
      dsimp only
      rw [bool_ite_false _ hg2]
      exact ⟨rfl, rfl⟩

theorem claim_C5_witness :
    (1 : Nat) ≤ 10 ∧
    (city3x3.initSearch ⟨1, 1⟩ ⟨1, 0⟩ Crucible.Small).best_loss ≤ u32MAX ∧
    city3x3.relax ⟨1, 0⟩ ⟨⟨2, 1⟩, Direction.East, 1⟩ 5
      (city3x3.initSearch ⟨1, 1⟩ ⟨1, 0⟩ Crucible.Small) ⟨⟨0, 1⟩, Direction.West, 1⟩
      = city3x3.initSearch ⟨1, 1⟩ ⟨1, 0⟩ Crucible.Small :=
  ⟨by decide, by decide,
    (claim_C5 city3x3 ⟨1, 0⟩ ⟨⟨2, 1⟩, Direction.East, 1⟩ 5
      (city3x3.initSearch ⟨1, 1⟩ ⟨1, 0⟩ Crucible.Small) ⟨⟨0, 1⟩, Direction.West, 1⟩
      (by decide) (by decide)).2.1 (by decide)⟩

/-- **C6.**  A popped state at the goal position whose recorded cost is
within the bound and which satisfies the regime's terminal rule is recorded
as the best terminal state with the bound lowered to its cost; the step
returns `some` (the loop goes on), a step returns `none` exactly on an empty
frontier, and a completed loop always ends with an empty frontier. -/
theorem claim_C6 (city : City) (goal : Position) (crucible : Crucible) (st : SearchSt)
    (curr : State) (rest : Bq)
    (hpop : bqPop st.open_set = some (curr, rest)) (hgoal : curr.pos = goal)
    (hle : city.lossOf st.losses curr ≤ st.best_loss)
    (hreg : crucible = Crucible.Small ∨ 4 ≤ curr.steps) :
    (∃ st', city.searchStep goal crucible st = some st' ∧
      st'.best_state = some curr ∧ st'.best_loss = city.lossOf st.losses curr) ∧
    (∀ st₁ : SearchSt, city.searchStep goal crucible st₁ = none ↔
      bqAll st₁.open_set = []) ∧
    (∀ fuel : Nat, ∀ st₁ st₂ : SearchSt,
      city.searchLoop goal crucible fuel st₁ = some st₂ → bqAll st₂.open_set = []) := by
  refine ⟨?_, fun st₁ => searchStep_eq_none_iff city goal crucible st₁,
    fun fuel st₁ st₂ h => searchLoop_empty city goal crucible fuel st₁ st₂ h⟩
  have hcond : (curr.pos == goal && Nat.ble (city.lossOf st.losses curr) st.best_loss &&
      (crucible == Crucible.Small || Nat.ble 4 curr.steps)) = true := by
    rw [Bool.and_eq_true, Bool.and_eq_true, Bool.or_eq_true]
    refine ⟨⟨beq_iff_eq.mpr hgoal, by rw [Nat.ble_eq]; exact hle⟩, ?_⟩
    rcases hreg with h | h
    · exact Or.inl (beq_iff_eq.mpr h)
    · exact Or.inr (by rw [Nat.ble_eq]; exact h)
  unfold City.searchStep
  rw [hpop]
  dsimp only
  rw [bool_ite_true _ hcond]
  refine ⟨_, rfl, ?_, ?_⟩
  · exact (foldl_relax_best city goal curr _ _ _).1.trans rfl
  · exact (foldl_relax_best city goal curr _ _ _).2.trans rfl

theorem claim_C6_witness :
    ∃ st', city2x2.searchStep ⟨0, 0⟩ Crucible.Ultra
        { open_set := (0, [[⟨⟨0, 0⟩, Direction.South, 4⟩]])
          queued := 0
          came_from := 0
          losses := city2x2.tblSet 32 0 ⟨⟨0, 0⟩, Direction.South, 4⟩ 8
          best_state := none
          best_loss := u32MAX } = some st' ∧
      st'.best_state = some ⟨⟨0, 0⟩, Direction.South, 4⟩ ∧
      st'.best_loss = city2x2.lossOf (city2x2.tblSet 32 0 ⟨⟨0, 0⟩, Direction.South, 4⟩ 8)
        ⟨⟨0, 0⟩, Direction.South, 4⟩ :=
  (claim_C6 city2x2 ⟨0, 0⟩ Crucible.Ultra _ ⟨⟨0, 0⟩, Direction.South, 4⟩ (0, [[]])
    (by decide) (by decide) (by decide) (Or.inr (by decide))).1

/-! ### Helpers for the search-loop invariant -/

theorem runCap_le_ten (crucible : Crucible) : runCap crucible ≤ 10 := by
  cases crucible <;> decide

theorem StValid.steps_le_ten {city : City} {crucible : Crucible} {s : State}
    (h : StValid city crucible s) : s.steps ≤ 10 :=
  Nat.le_trans h.2.2 (runCap_le_ten crucible)

/-- Reading a slot table after a write at a handled state, as an `if`. -/
theorem tblGet_write (city : City) (crucible : Crucible) {a s : State}
    (ha : StValid city crucible a) (hs : StValid city crucible s)
    (w t v : Nat) (hv : v < 2 ^ w) :
    city.tblGet w (city.tblSet w t a v) s = if s = a then v else city.tblGet w t s := by
  by_cases h : s = a
  · subst h
    rw [if_pos rfl]
    exact tblGet_tblSet_self city w t s v hv
  · rw [if_neg h]
    refine tblGet_tblSet_ne city w t a s v hv ?_
    intro hidx
    exact h (stateIdx_inj city ha.1 hs.1 ha.steps_le_ten hs.steps_le_ten hidx).symm

theorem Position.mv_ne (p : Position) (d : Direction) : p.mv d ≠ p := by
  obtain ⟨x, y⟩ := p
  cases d <;> simp [Position.mv, Position.mk.injEq] <;> omega

theorem valid_moves_ne {city : City} {curr : State} {crucible : Crucible} {s : State}
    (h : s ∈ city.valid_moves curr crucible) : s ≠ curr := by
  obtain ⟨d, _, _, rfl⟩ := mem_valid_moves.mp h
  intro hc
  have h2 := congrArg State.pos hc
  rw [State.mv_pos] at h2
  exact Position.mv_ne curr.pos d h2

/-- Decoding the code of the source of an edge recovers the source. -/
theorem predDecode_of_move {city : City} {curr : State} {crucible : Crucible} {n : State}
    (h : n ∈ city.valid_moves curr crucible) (hsteps : curr.steps ≤ 10) :
    predDecode n (predCode curr) = curr := by
  obtain ⟨d, _, _, rfl⟩ := mem_valid_moves.mp h
  exact predDecode_predCode curr d hsteps

theorem prevLossOf_present (city : City) (losses : Nat) (s : State)
    (h : city.tblGet 32 losses s ≠ 0) :
    city.prevLossOf losses s = city.lossOf losses s := by
  unfold City.prevLossOf City.lossOf
  cases hl : city.tblGet 32 losses s with
  | zero => exact absurd hl h
  | succ l =>
    show (l : Nat) = l + 1 - 1
    omega

theorem prevLossOf_absent (city : City) (losses : Nat) (s : State)
    (h : city.tblGet 32 losses s = 0) : city.prevLossOf losses s = u32MAX := by
  unfold City.prevLossOf
  rw [h]

theorem isQueued_write (city : City) (crucible : Crucible) {a s : State}
    (ha : StValid city crucible a) (hs : StValid city crucible s) (t v : Nat) (hv : v < 2) :
    city.isQueued (city.tblSet 1 t a v) s =
      if s = a then (v == 1) else city.isQueued t s := by
  unfold City.isQueued
  rw [tblGet_write city crucible ha hs 1 t v (by omega)]
  by_cases h : s = a
  · rw [if_pos h, if_pos h]
  · rw [if_neg h, if_neg h]

theorem mem_bqAll_push_of_mem (d : Nat) (s : State) (b : Bq) (t : State)
    (h : t ∈ bqAll b) : t ∈ bqAll (bqPush d s b) := by
  obtain ⟨d', hd'⟩ := (mem_bqAll_iff b t).mp h
  by_cases hdd : d = d'
  · subst hdd
    exact (mem_bqAll_iff _ t).mpr
      ⟨d, by rw [bqGet_push_eq]; exact List.mem_append.mpr (Or.inl hd')⟩
  · exact (mem_bqAll_iff _ t).mpr ⟨d', by rw [bqGet_push_ne d d' s b hdd]; exact hd'⟩

theorem blt_and_iff (a b c : Nat) :
    (Nat.blt a b && Nat.blt a c) = true ↔ a < b ∧ a < c := by
  rw [Bool.and_eq_true, Nat.blt_eq, Nat.blt_eq]

/-- `relax` when the improvement guard fails: no change. -/
theorem relax_eq_self (city : City) (goal : Position) (curr : State) (curr_loss : Nat)
    (st : SearchSt) (n : State)
    (hg : ¬(curr_loss + city.heat n.pos < st.best_loss ∧
        curr_loss + city.heat n.pos < city.prevLossOf st.losses n)) :
    city.relax goal curr curr_loss st n = st := by
  have hb : (Nat.blt (curr_loss + city.heat n.pos) st.best_loss &&
      Nat.blt (curr_loss + city.heat n.pos) (city.prevLossOf st.losses n)) = false := by
    rw [Bool.eq_false_iff]
    intro hc
    exact hg ((blt_and_iff _ _ _).mp hc)
  unfold City.relax
  dsimp only
  rw [hb, if_neg (by decide : ¬(false = true))]

/-- `relax` when the guard passes and the neighbor is already queued: record
the new predecessor and loss, leave the frontier alone. -/
theorem relax_eq_queued (city : City) (goal : Position) (curr : State) (curr_loss : Nat)
    (st : SearchSt) (n : State)
    (hg : curr_loss + city.heat n.pos < st.best_loss ∧
        curr_loss + city.heat n.pos < city.prevLossOf st.losses n)
    (hq : city.isQueued st.queued n = true) :
    city.relax goal curr curr_loss st n =
      { st with
        came_from := city.tblSet 8 st.came_from n (predCode curr + 1)
        losses := city.tblSet 32 st.losses n (curr_loss + city.heat n.pos + 1) } := by
  have hb : (Nat.blt (curr_loss + city.heat n.pos) st.best_loss &&
      Nat.blt (curr_loss + city.heat n.pos) (city.prevLossOf st.losses n)) = true :=
    (blt_and_iff _ _ _).mpr hg
  unfold City.relax
  dsimp only
  rw [hb, if_pos (by decide : true = true), hq, if_pos (by decide : true = true)]

/-- `relax` when the guard passes and the neighbor is not queued: record the
new predecessor and loss, enqueue and mark the neighbor. -/
theorem relax_eq_new (city : City) (goal : Position) (curr : State) (curr_loss : Nat)
    (st : SearchSt) (n : State)
    (hg : curr_loss + city.heat n.pos < st.best_loss ∧
        curr_loss + city.heat n.pos < city.prevLossOf st.losses n)
    (hq : city.isQueued st.queued n = false) :
    city.relax goal curr curr_loss st n =
      { st with
        open_set := bqPush (n.pos.l1_distance goal) n st.open_set
        queued := city.tblSet 1 st.queued n 1
        came_from := city.tblSet 8 st.came_from n (predCode curr + 1)
        losses := city.tblSet 32 st.losses n (curr_loss + city.heat n.pos + 1) } := by
  have hb : (Nat.blt (curr_loss + city.heat n.pos) st.best_loss &&
      Nat.blt (curr_loss + city.heat n.pos) (city.prevLossOf st.losses n)) = true :=
    (blt_and_iff _ _ _).mpr hg
  unfold City.relax
  dsimp only
  rw [hb, if_pos (by decide : true = true), hq, if_neg (by decide : ¬(false = true))]

/-- The mid-step invariant survives recording a strictly improving edge
`curr → n` (abstracting over whether the frontier had to be touched: after the
write `n` is queued and in the frontier either way). -/
theorem midinv_write (city : City) (goal : Position) (crucible : Crucible)
    (curr : State) (curr_loss : Nat) (n : State) (remaining : List State)
    (st st' : SearchSt)
    (hm : MidInv city goal crucible curr curr_loss (n :: remaining) st)
    (hn : n ∈ city.valid_moves curr crucible)
    (hg : curr_loss + city.heat n.pos < st.best_loss ∧
        curr_loss + city.heat n.pos < city.prevLossOf st.losses n)
    (hbs : st'.best_state = st.best_state)
    (hbl : st'.best_loss = st.best_loss)
    (hcf : st'.came_from = city.tblSet 8 st.came_from n (predCode curr + 1))
    (hls : st'.losses = city.tblSet 32 st.losses n (curr_loss + city.heat n.pos + 1))
    (hqr : ∀ s : State, StValid city crucible s →
        city.isQueued st'.queued s = if s = n then true else city.isQueued st.queued s)
    (hop1 : ∀ s ∈ bqAll st'.open_set, s = n ∨ s ∈ bqAll st.open_set)
    (hop2 : ∀ s ∈ bqAll st.open_set, s ∈ bqAll st'.open_set)
    (hop3 : n ∈ bqAll st'.open_set) :
    MidInv city goal crucible curr curr_loss remaining st' := by
  have hnv : StValid city crucible n := valid_moves_valid hm.ctxValid.1 hm.ctxValid.2.2 hn
  have hne : n ≠ curr := valid_moves_ne hn
  have hc10 : curr.steps ≤ 10 := hm.ctxValid.steps_le_ten
  have hv8 : predCode curr + 1 < 2 ^ 8 := by
    have := predCode_lt curr hc10
    omega
  have hv32 : curr_loss + city.heat n.pos + 1 < 2 ^ 32 := by
    have h1 := hm.bestLossLe
    unfold u32MAX at h1
    omega
  have hcfr : ∀ s : State, StValid city crucible s →
      city.tblGet 8 st'.came_from s =
        if s = n then predCode curr + 1 else city.tblGet 8 st.came_from s := by
    intro s hs
    rw [hcf]
    exact tblGet_write city crucible hnv hs 8 st.came_from _ hv8
  have hl32 : ∀ s : State, StValid city crucible s →
      city.tblGet 32 st'.losses s =
        if s = n then curr_loss + city.heat n.pos + 1 else city.tblGet 32 st.losses s := by
    intro s hs
    rw [hls]
    exact tblGet_write city crucible hnv hs 32 st.losses _ hv32
  have hlo : ∀ s : State, StValid city crucible s →
      city.lossOf st'.losses s =
        if s = n then curr_loss + city.heat n.pos else city.lossOf st.losses s := by
    intro s hs
    unfold City.lossOf
    rw [hl32 s hs]
    by_cases h : s = n
    · rw [if_pos h, if_pos h]
      omega
    · rw [if_neg h, if_neg h]
  have hstrict : city.tblGet 32 st.losses n ≠ 0 →
      curr_loss + city.heat n.pos < city.lossOf st.losses n := by
    intro hp
    have h2 := hg.2
    rwa [prevLossOf_present city st.losses n hp] at h2
  refine ⟨hm.ctxValid, ?_, ?_, ?_, ?_, ?_, ?_, ?_, ?_, ?_, ?_, ?_⟩
  · -- ctxLoss
    rw [hl32 curr hm.ctxValid, if_neg (Ne.symm hne)]
    exact hm.ctxLoss
  · -- ctxCurrLoss
    rw [hlo curr hm.ctxValid, if_neg (Ne.symm hne)]
    exact hm.ctxCurrLoss
  · -- bestLossLe
    rw [hbl]
    exact hm.bestLossLe
  · -- lossLt
    intro s hs hp
    rw [hl32 s hs] at hp
    rw [hlo s hs]
    by_cases h : s = n
    · rw [if_pos h]
      have h1 := hg.1
      have h2 := hm.bestLossLe
      omega
    · rw [if_neg h] at hp
      rw [if_neg h]
      exact hm.lossLt s hs hp
  · -- openValid
    intro s hsmem
    rcases hop1 s hsmem with heq | hold
    · subst heq
      refine ⟨hnv, ?_⟩
      rw [hl32 _ hnv, if_pos rfl]
      omega
    · obtain ⟨hsv, hsp⟩ := hm.openValid s hold
      refine ⟨hsv, ?_⟩
      rw [hl32 s hsv]
      by_cases h : s = n
      · rw [if_pos h]
        omega
      · rw [if_neg h]
        exact hsp
  · -- queuedOpen
    intro s hs hq2
    rw [hqr s hs] at hq2
    by_cases h : s = n
    · subst h
      exact hop3
    · rw [if_neg h] at hq2
      exact hop2 s (hm.queuedOpen s hs hq2)
  · -- edge
    intro m hmv e hcf2
    rw [hcfr m hmv] at hcf2
    by_cases h : m = n
    · subst h
      rw [if_pos rfl] at hcf2
      have he : e = predCode curr := by omega
      subst he
      rw [predDecode_of_move hn hc10]
      refine ⟨hm.ctxValid, hn, ?_, ?_, ?_⟩
      · rw [hl32 m hnv, if_pos rfl]
        omega
      · rw [hl32 curr hm.ctxValid, if_neg (Ne.symm hne)]
        exact hm.ctxLoss
      · rw [hlo curr hm.ctxValid, if_neg (Ne.symm hne), hlo m hnv, if_pos rfl,
          hm.ctxCurrLoss]
    · rw [if_neg h] at hcf2
      obtain ⟨hpv, hpm, hprm, hprp, hM⟩ := hm.edge m hmv e hcf2
      refine ⟨hpv, hpm, ?_, ?_, ?_⟩
      · rw [hl32 m hmv, if_neg h]
        exact hprm
      · rw [hl32 _ hpv]
        by_cases hpn : predDecode m e = n
        · rw [if_pos hpn]
          omega
        · rw [if_neg hpn]
          exact hprp
      · rw [hlo _ hpv, hlo m hmv, if_neg h]
        by_cases hpn : predDecode m e = n
        · rw [if_pos hpn]
          rw [hpn] at hM hprp
          have h2 := hstrict hprp
          omega
        · rw [if_neg hpn]
          exact hM
  · -- fresh
    intro m hmv e hcf2
    rw [hcfr m hmv] at hcf2
    by_cases h : m = n
    · subst h
      rw [if_pos rfl] at hcf2
      have he : e = predCode curr := by omega
      subst he
      rw [predDecode_of_move hn hc10]
      refine Or.inl ?_
      rw [hlo m hnv, if_pos rfl, hlo curr hm.ctxValid, if_neg (Ne.symm hne),
        hm.ctxCurrLoss]
    · rw [if_neg h] at hcf2
      have hpv := (hm.edge m hmv e hcf2).1
      by_cases hpn : predDecode m e = n
      · refine Or.inr (Or.inl ?_)
        rw [hqr _ hpv, if_pos hpn]
      · rcases hm.fresh m hmv e hcf2 with h1 | h1 | h1 | ⟨hpc, hmem⟩
        · refine Or.inl ?_
          rw [hlo m hmv, if_neg h, hlo _ hpv, if_neg hpn]
          exact h1
        · refine Or.inr (Or.inl ?_)
          rw [hqr _ hpv, if_neg hpn]
          exact h1
        · refine Or.inr (Or.inr (Or.inl ?_))
          rw [hbl, hlo _ hpv, if_neg hpn]
          exact h1
        · refine Or.inr (Or.inr (Or.inr ⟨hpc, ?_⟩))
          rcases List.mem_cons.mp hmem with h2 | h2
          · exact absurd h2 h
          · exact h2
  · -- seedLoss
    intro m hmv hp hcf2
    rw [hcfr m hmv] at hcf2
    rw [hl32 m hmv] at hp
    by_cases h : m = n
    · rw [if_pos h] at hcf2
      omega
    · rw [if_neg h] at hcf2
      rw [if_neg h] at hp
      rw [hlo m hmv, if_neg h]
      exact hm.seedLoss m hmv hp hcf2
  · -- best
    intro b hb
    rw [hbs] at hb
    obtain ⟨hbv, hbg, hbr, hbp, hbd⟩ := hm.best b hb
    refine ⟨hbv, hbg, hbr, ?_, ?_⟩
    · rw [hl32 b hbv]
      by_cases h : b = n
      · rw [if_pos h]
        omega
      · rw [if_neg h]
        exact hbp
    · rw [hlo b hbv, hbl]
      by_cases h : b = n
      · rw [if_pos h]
        refine Or.inr ⟨?_, hg.1⟩
        rw [hqr b hbv, if_pos h]
      · rw [if_neg h]
        rcases hbd with h1 | ⟨h1, h2⟩
        · exact Or.inl h1
        · refine Or.inr ⟨?_, h2⟩
          rw [hqr b hbv, if_neg h]
          exact h1
  · -- rank
    obtain ⟨age, A, hA, hr⟩ := hm.rank
    refine ⟨fun s => if s = n then A else age s, A + 1, ?_, ?_⟩
    · intro s
      show (if s = n then A else age s) < A + 1
      by_cases h : s = n
      · rw [if_pos h]
        omega
      · rw [if_neg h]
        have := hA s
        omega
    · intro m hmv e hcf2 heqq
      rw [hcfr m hmv] at hcf2
      by_cases h : m = n
      · subst h
        rw [if_pos rfl] at hcf2
        have he : e = predCode curr := by omega
        subst he
        rw [predDecode_of_move hn hc10]
        show (if curr = m then A else age curr) < if m = m then A else age m
        rw [if_neg (Ne.symm hne), if_pos rfl]
        exact hA curr
      · rw [if_neg h] at hcf2
        obtain ⟨hpv, _, hprm, hprp, hM⟩ := hm.edge m hmv e hcf2
        by_cases hpn : predDecode m e = n
        · exfalso
          rw [hlo _ hpv, if_pos hpn, hlo m hmv, if_neg h] at heqq
          rw [hpn] at hM hprp
          have h2 := hstrict hprp
          omega
        · rw [hlo _ hpv, if_neg hpn, hlo m hmv, if_neg h] at heqq
          show (if predDecode m e = n then A else age (predDecode m e)) <
            if m = n then A else age m
          rw [if_neg hpn, if_neg h]
          exact hr m hmv e hcf2 heqq

/-- One relaxation preserves the mid-step invariant, discharging the head of
the pending-neighbor list. -/
theorem relax_midinv (city : City) (goal : Position) (crucible : Crucible)
    (curr : State) (curr_loss : Nat) (n : State) (remaining : List State)
    (st : SearchSt)
    (hm : MidInv city goal crucible curr curr_loss (n :: remaining) st)
    (hn : n ∈ city.valid_moves curr crucible) :
    MidInv city goal crucible curr curr_loss remaining
      (city.relax goal curr curr_loss st n) := by
  have hnv : StValid city crucible n := valid_moves_valid hm.ctxValid.1 hm.ctxValid.2.2 hn
  by_cases hg : curr_loss + city.heat n.pos < st.best_loss ∧
      curr_loss + city.heat n.pos < city.prevLossOf st.losses n
  · cases hq : city.isQueued st.queued n with
    | true =>
      rw [relax_eq_queued city goal curr curr_loss st n hg hq]
      refine midinv_write city goal crucible curr curr_loss n remaining st _ hm hn hg
        rfl rfl rfl rfl ?_ ?_ ?_ ?_
      · intro s hs
        by_cases h : s = n
        · rw [if_pos h, h]
          exact hq
        · rw [if_neg h]
      · intro s hsmem
        exact Or.inr hsmem
      · intro s hsmem
        exact hsmem
      · exact hm.queuedOpen n hnv hq
    | false =>
      rw [relax_eq_new city goal curr curr_loss st n hg hq]
      refine midinv_write city goal crucible curr curr_loss n remaining st _ hm hn hg
        rfl rfl rfl rfl ?_ ?_ ?_ ?_
      · intro s hs
        show city.isQueued (city.tblSet 1 st.queued n 1) s = _
        rw [isQueued_write city crucible hnv hs st.queued 1 (by omega)]
        by_cases h : s = n
        · rw [if_pos h, if_pos h]
          rfl
        · rw [if_neg h, if_neg h]
      · intro s hsmem
        have h2 := mem_bqAll_push (n.pos.l1_distance goal) n st.open_set s hsmem
        rcases h2 with h2 | h2
        · exact Or.inr h2
        · exact Or.inl h2
      · intro s hsmem
        exact mem_bqAll_push_of_mem (n.pos.l1_distance goal) n st.open_set s hsmem
      · exact self_mem_bqAll_push (n.pos.l1_distance goal) n st.open_set
  · rw [relax_eq_self city goal curr curr_loss st n hg]
    refine ⟨hm.ctxValid, hm.ctxLoss, hm.ctxCurrLoss, hm.bestLossLe, hm.lossLt,
      hm.openValid, hm.queuedOpen, hm.edge, ?_, hm.seedLoss, hm.best, hm.rank⟩
    intro m hmv e hcf
    rcases hm.fresh m hmv e hcf with h | h | h | ⟨hpc, hmem⟩
    · exact Or.inl h
    · exact Or.inr (Or.inl h)
    · exact Or.inr (Or.inr (Or.inl h))
    · rcases List.mem_cons.mp hmem with heq | hmem'
      · obtain ⟨_, _, hpresm, hpresp, hM⟩ := hm.edge m hmv e hcf
        rw [hpc] at hM hpresp ⊢
        rw [hm.ctxCurrLoss] at hM
        subst heq
        have hprev : city.prevLossOf st.losses m = city.lossOf st.losses m :=
          prevLossOf_present city st.losses m hpresm
        by_cases h2 : curr_loss + city.heat m.pos < city.lossOf st.losses m
        · refine Or.inr (Or.inr (Or.inl ?_))
          rw [hm.ctxCurrLoss]
          by_contra h4
          exact hg ⟨by omega, by rw [hprev]; omega⟩
        · refine Or.inl ?_
          rw [hm.ctxCurrLoss]
          omega
      · exact Or.inr (Or.inr (Or.inr ⟨hpc, hmem'⟩))

/-- Relaxing every pending neighbor discharges the whole slack list. -/
theorem foldl_relax_midinv (city : City) (goal : Position) (crucible : Crucible)
    (curr : State) (curr_loss : Nat) (L : List State) (st : SearchSt)
    (hm : MidInv city goal crucible curr curr_loss L st)
    (hL : ∀ n ∈ L, n ∈ city.valid_moves curr crucible) :
    MidInv city goal crucible curr curr_loss []
      (L.foldl (city.relax goal curr curr_loss) st) := by
  induction L generalizing st with
  | nil => exact hm
  | cons n L ih =>
    simp only [List.foldl_cons]
    exact ih (city.relax goal curr curr_loss st n)
      (relax_midinv city goal crucible curr curr_loss n L st hm
        (hL n (List.mem_cons_self n L)))
      (fun m hmem => hL m (List.mem_cons_of_mem n hmem))

/-- With no pending neighbors left, the mid-step invariant is the invariant. -/
theorem midinv_nil_inv (city : City) (goal : Position) (crucible : Crucible)
    (curr : State) (curr_loss : Nat) (st : SearchSt)
    (hm : MidInv city goal crucible curr curr_loss [] st) :
    Inv city goal crucible st := by
  refine ⟨hm.bestLossLe, hm.lossLt, hm.openValid, hm.queuedOpen, hm.edge, ?_,
    hm.seedLoss, hm.best, hm.rank⟩
  intro m hmv e hcf
  rcases hm.fresh m hmv e hcf with h | h | h | ⟨_, hmem⟩
  · exact Or.inl h
  · exact Or.inr (Or.inl h)
  · exact Or.inr (Or.inr h)
  · exact absurd hmem (List.not_mem_nil m)

/-- Popping (and possibly accepting) establishes the mid-step invariant with
the popped state's whole neighbor list pending. -/
theorem midinv_start (city : City) (goal : Position) (crucible : Crucible)
    (st st₂ : SearchSt) (curr : State) (rest : Bq)
    (hinv : Inv city goal crucible st)
    (hpop : bqPop st.open_set = some (curr, rest))
    (hcv : StValid city crucible curr)
    (hcp : city.tblGet 32 st.losses curr ≠ 0)
    (hop : st₂.open_set = rest)
    (hqd : st₂.queued = city.tblSet 1 st.queued curr 0)
    (hcf : st₂.came_from = st.came_from)
    (hls : st₂.losses = st.losses)
    (hbest :
      (st₂.best_state = st.best_state ∧ st₂.best_loss = st.best_loss ∧
        (curr.pos == goal && Nat.ble (city.lossOf st.losses curr) st.best_loss &&
          (crucible == Crucible.Small || Nat.ble 4 curr.steps)) = false) ∨
      (st₂.best_state = some curr ∧ st₂.best_loss = city.lossOf st.losses curr ∧
        curr.pos = goal ∧ (crucible = Crucible.Small ∨ 4 ≤ curr.steps) ∧
        city.lossOf st.losses curr ≤ st.best_loss)) :
    MidInv city goal crucible curr (city.lossOf st.losses curr)
      (city.valid_moves curr crucible) st₂ := by
  obtain ⟨d₀, hmem, hlow, hsubb, hsplit, hsub2⟩ := bqPop_spec st.open_set curr rest hpop
  refine ⟨hcv, ?_, ?_, ?_, ?_, ?_, ?_, ?_, ?_, ?_, ?_, ?_⟩
  · -- ctxLoss
    rw [hls]
    exact hcp
  · -- ctxCurrLoss
    rw [hls]
  · -- bestLossLe
    rcases hbest with ⟨_, he2, _⟩ | ⟨_, he2, _, _, _⟩
    · rw [he2]
      exact hinv.bestLossLe
    · rw [he2]
      have := hinv.lossLt curr hcv hcp
      omega
  · -- lossLt
    intro s hs hp
    rw [hls] at hp
    rw [hls]
    exact hinv.lossLt s hs hp
  · -- openValid
    intro s hsmem
    rw [hop] at hsmem
    obtain ⟨hsv, hsp⟩ := hinv.openValid s (hsub2 s hsmem)
    rw [hls]
    exact ⟨hsv, hsp⟩
  · -- queuedOpen
    intro s hs hq2
    rw [hqd, isQueued_write city crucible hcv hs st.queued 0 (by omega)] at hq2
    by_cases h : s = curr
    · rw [if_pos h] at hq2
      exact absurd hq2 (by decide)
    · rw [if_neg h] at hq2
      rcases hsplit s (hinv.queuedOpen s hs hq2) with h2 | h2
      · exact absurd h2 h
      · rw [hop]
        exact h2
  · -- edge
    intro m hmv e hcf2
    rw [hcf] at hcf2
    rw [hls]
    exact hinv.edge m hmv e hcf2
  · -- fresh
    intro m hmv e hcf2
    rw [hcf] at hcf2
    have hpv := (hinv.edge m hmv e hcf2).1
    rcases hinv.fresh m hmv e hcf2 with h | h | h
    · refine Or.inl ?_
      rw [hls]
      exact h
    · by_cases h2 : predDecode m e = curr
      · refine Or.inr (Or.inr (Or.inr ⟨h2, ?_⟩))
        have hpm := (hinv.edge m hmv e hcf2).2.1
        rw [h2] at hpm
        exact hpm
      · refine Or.inr (Or.inl ?_)
        rw [hqd, isQueued_write city crucible hcv hpv st.queued 0 (by omega), if_neg h2]
        exact h
    · refine Or.inr (Or.inr (Or.inl ?_))
      rw [hls]
      rcases hbest with ⟨_, he2, _⟩ | ⟨_, he2, _, _, hg3⟩
      · rw [he2]
        exact h
      · rw [he2]
        omega
  · -- seedLoss
    intro m hmv hp hcf2
    rw [hls] at hp
    rw [hcf] at hcf2
    rw [hls]
    exact hinv.seedLoss m hmv hp hcf2
  · -- best
    intro b hb
    rcases hbest with ⟨he1, he2, hfalse⟩ | ⟨he1, he2, hg1, hg2, hg3⟩
    · rw [he1] at hb
      obtain ⟨hbv, hbg, hbr, hbp, hbd⟩ := hinv.best b hb
      refine ⟨hbv, hbg, hbr, ?_, ?_⟩
      · rw [hls]
        exact hbp
      · rw [hls, he2]
        rcases hbd with h1 | ⟨h1, h2⟩
        · exact Or.inl h1
        · by_cases h : b = curr
          · exfalso
            rw [h] at hbg h1 h2
            have htrue : (curr.pos == goal &&
                Nat.ble (city.lossOf st.losses curr) st.best_loss &&
                (crucible == Crucible.Small || Nat.ble 4 curr.steps)) = true := by
              rw [Bool.and_eq_true, Bool.and_eq_true, Bool.or_eq_true]
              refine ⟨⟨beq_iff_eq.mpr hbg, by rw [Nat.ble_eq]; omega⟩, ?_⟩
              rcases hbr with hr1 | hr1
              · exact Or.inl (beq_iff_eq.mpr hr1)
              · exact Or.inr (by rw [Nat.ble_eq]; rw [h] at hr1; exact hr1)
            rw [htrue] at hfalse
            cases hfalse
          · refine Or.inr ⟨?_, h2⟩
            rw [hqd, isQueued_write city crucible hcv hbv st.queued 0 (by omega), if_neg h]
            exact h1
    · rw [he1] at hb
      have hbc : curr = b := by simpa using hb
      subst hbc
      refine ⟨hcv, hg1, hg2, ?_, ?_⟩
      · rw [hls]
        exact hcp
      · rw [hls, he2]
        exact Or.inl rfl
  · -- rank
    obtain ⟨age, A, hA, hr⟩ := hinv.rank
    refine ⟨age, A, hA, ?_⟩
    intro m hmv e hcf2
    rw [hcf] at hcf2
    rw [hls]
    exact hr m hmv e hcf2

/-- One search step preserves the invariant. -/
theorem searchStep_inv (city : City) (goal : Position) (crucible : Crucible)
    (st st' : SearchSt) (hs : city.searchStep goal crucible st = some st')
    (hinv : Inv city goal crucible st) : Inv city goal crucible st' := by
  obtain ⟨curr, rest, hpop, hst⟩ := searchStep_elim city goal crucible st st' hs
  obtain ⟨d₀, hmem, _, _, _, _⟩ := bqPop_spec st.open_set curr rest hpop
  have hcmem : curr ∈ bqAll st.open_set := (mem_bqAll_iff _ _).mpr ⟨d₀, hmem⟩
  obtain ⟨hcv, hcp⟩ := hinv.openValid curr hcmem
  subst hst
  refine midinv_nil_inv city goal crucible curr (city.lossOf st.losses curr) _
    (foldl_relax_midinv city goal crucible curr _ _ _ ?_ (fun m hmem2 => hmem2))
  cases hacc : (curr.pos == goal && Nat.ble (city.lossOf st.losses curr) st.best_loss &&
      (crucible == Crucible.Small || Nat.ble 4 curr.steps)) with
  | false =>
    rw [if_neg (by decide : ¬(false = true))]
    exact midinv_start city goal crucible st _ curr rest hinv hpop hcv hcp
      rfl rfl rfl rfl (Or.inl ⟨rfl, rfl, hacc⟩)
  | true =>
    rw [if_pos (by decide : true = true)]
    have hprops := hacc
    rw [Bool.and_eq_true, Bool.and_eq_true, Bool.or_eq_true] at hprops
    obtain ⟨⟨hp1, hp2⟩, hp3⟩ := hprops
    refine midinv_start city goal crucible st _ curr rest hinv hpop hcv hcp
      rfl rfl rfl rfl (Or.inr ⟨rfl, rfl, beq_iff_eq.mp hp1, ?_, ?_⟩)
    · rcases hp3 with h | h
      · exact Or.inl (beq_iff_eq.mp h)
      · exact Or.inr (by rw [Nat.ble_eq] at h; exact h)
    · rw [Nat.ble_eq] at hp2
      exact hp2

theorem tblGet_zero (city : City) (w : Nat) (s : State) : city.tblGet w 0 s = 0 := by
  unfold City.tblGet slotGet
  rw [Nat.zero_shiftRight, Nat.zero_mod]

/-- Reading a table built by a fold of writes at handled states. -/
theorem tblGet_foldl_set (city : City) (crucible : Crucible) (w : Nat) (v : State → Nat)
    (hv : ∀ x, v x < 2 ^ w) (L : List State) (m₀ : Nat) (s : State)
    (hs : StValid city crucible s)
    (hLv : ∀ x ∈ L, StValid city crucible x) :
    city.tblGet w (L.foldl (fun m x => city.tblSet w m x (v x)) m₀) s =
      if s ∈ L then v s else city.tblGet w m₀ s := by
  revert hLv
  induction L generalizing m₀ with
  | nil =>
    intro _
    rw [if_neg (List.not_mem_nil s)]
    rfl
  | cons x L ih =>
    intro hLv
    simp only [List.foldl_cons]
    rw [ih (city.tblSet w m₀ x (v x)) (fun y hy => hLv y (List.mem_cons_of_mem x hy))]
    by_cases hmem : s ∈ L
    · rw [if_pos hmem, if_pos (List.mem_cons_of_mem x hmem)]
    · have hnc : s = x → s ∈ x :: L := fun h => by rw [h]; exact List.mem_cons_self x L
      rw [if_neg hmem,
        tblGet_write city crucible (hLv x (List.mem_cons_self x L)) hs w m₀ (v x) (hv x)]
      by_cases hx : s = x
      · rw [if_pos hx, if_pos (hnc hx), hx]
      · have hnm : s ∉ x :: L := by
          intro hc
          rcases List.mem_cons.mp hc with h | h
          · exact hx h
          · exact hmem h
        rw [if_neg hx, if_neg hnm]

theorem mem_bqAll_foldl_push (goal : Position) (L : List State) (q₀ : Bq) (x : State)
    (h : x ∈ bqAll q₀) :
    x ∈ bqAll (L.foldl (fun q s => bqPush (s.pos.l1_distance goal) s q) q₀) := by
  induction L generalizing q₀ with
  | nil => exact h
  | cons y L ih =>
    simp only [List.foldl_cons]
    exact ih _ (mem_bqAll_push_of_mem _ y q₀ x h)

theorem mem_of_mem_foldl_push (goal : Position) (L : List State) (q₀ : Bq) (x : State)
    (h : x ∈ bqAll (L.foldl (fun q s => bqPush (s.pos.l1_distance goal) s q) q₀)) :
    x ∈ L ∨ x ∈ bqAll q₀ := by
  revert h
  induction L generalizing q₀ with
  | nil => exact Or.inr
  | cons y L ih =>
    intro h
    simp only [List.foldl_cons] at h
    rcases ih _ h with h2 | h2
    · exact Or.inl (List.mem_cons_of_mem y h2)
    · rcases mem_bqAll_push _ y q₀ x h2 with h3 | h3
      · exact Or.inr h3
      · exact Or.inl (by rw [h3]; exact List.mem_cons_self y L)

theorem mem_foldl_push_of_mem (goal : Position) (L : List State) (q₀ : Bq) (x : State)
    (h : x ∈ L) :
    x ∈ bqAll (L.foldl (fun q s => bqPush (s.pos.l1_distance goal) s q) q₀) := by
  revert h
  induction L generalizing q₀ with
  | nil =>
    intro h
    cases h
  | cons y L ih =>
    intro h
    simp only [List.foldl_cons]
    rcases List.mem_cons.mp h with h2 | h2
    · exact mem_bqAll_foldl_push goal L _ x
        (by rw [h2]; exact self_mem_bqAll_push _ y q₀)
    · exact ih _ h2

/-- The state `navigate` seeds the loop with satisfies the invariant. -/
theorem initSearch_inv (city : City) (start goal : Position) (crucible : Crucible)
    (Hstart : city.inGrid start = true) (Hheat : ∀ p, city.heat p ≤ 9) :
    Inv city goal crucible (city.initSearch start goal crucible) := by
  have hLv : ∀ x ∈ city.valid_moves ⟨start, Direction.South, 0⟩ crucible,
      StValid city crucible x :=
    fun x hx => valid_moves_valid Hstart (Nat.zero_le _) hx
  have hv32 : ∀ x : State, city.heat x.pos + 1 < 2 ^ 32 := by
    intro x
    have := Hheat x.pos
    omega
  have hv1 : ∀ _ : State, 1 < 2 ^ 1 := fun _ => by omega
  refine ⟨?_, ?_, ?_, ?_, ?_, ?_, ?_, ?_, ?_⟩
  all_goals unfold City.initSearch
  all_goals dsimp only
  · -- bestLossLe
    exact Nat.le_refl _
  · -- lossLt
    intro s hs hp
    rw [tblGet_foldl_set city crucible 32 (fun x => city.heat x.pos + 1) hv32 _ 0 s hs hLv]
      at hp
    unfold City.lossOf
    rw [tblGet_foldl_set city crucible 32 (fun x => city.heat x.pos + 1) hv32 _ 0 s hs hLv]
    by_cases hmem : s ∈ city.valid_moves ⟨start, Direction.South, 0⟩ crucible
    · rw [if_pos hmem]
      have := Hheat s.pos
      unfold u32MAX
      omega
    · rw [if_neg hmem] at hp
      exact absurd (tblGet_zero city 32 s) hp
  · -- openValid
    intro s hsmem
    have hmem : s ∈ city.valid_moves ⟨start, Direction.South, 0⟩ crucible := by
      rcases mem_of_mem_foldl_push goal _ (0, []) s hsmem with h | h
      · exact h
      · cases h
    refine ⟨hLv s hmem, ?_⟩
    rw [tblGet_foldl_set city crucible 32 (fun x => city.heat x.pos + 1) hv32 _ 0 s
      (hLv s hmem) hLv, if_pos hmem]
    omega
  · -- queuedOpen
    intro s hs hq2
    unfold City.isQueued at hq2
    rw [tblGet_foldl_set city crucible 1 (fun _ => 1) hv1 _ 0 s hs hLv] at hq2
    by_cases hmem : s ∈ city.valid_moves ⟨start, Direction.South, 0⟩ crucible
    · exact mem_foldl_push_of_mem goal _ (0, []) s hmem
    · rw [if_neg hmem, tblGet_zero city 1 s] at hq2
      exact absurd hq2 (by decide)
  · -- edge
    intro m _ e hcf2
    rw [tblGet_zero city 8 m] at hcf2
    cases hcf2
  · -- fresh
    intro m _ e hcf2
    rw [tblGet_zero city 8 m] at hcf2
    cases hcf2
  · -- seedLoss
    intro m hmv hp _
    rw [tblGet_foldl_set city crucible 32 (fun x => city.heat x.pos + 1) hv32 _ 0 m hmv hLv]
      at hp
    unfold City.lossOf
    rw [tblGet_foldl_set city crucible 32 (fun x => city.heat x.pos + 1) hv32 _ 0 m hmv hLv]
    by_cases hmem : m ∈ city.valid_moves ⟨start, Direction.South, 0⟩ crucible
    · rw [if_pos hmem]
      omega
    · rw [if_neg hmem, tblGet_zero city 32 m] at hp
      exact absurd rfl hp
  · -- best
    intro b hb
    cases hb
  · -- rank
    refine ⟨fun _ => 0, 1, fun _ => Nat.zero_lt_one, ?_⟩
    intro m _ e hcf2
    rw [tblGet_zero city 8 m] at hcf2
    cases hcf2

/-- Preservation of a predicate along the fueled search loop. -/
theorem searchLoop_pres (city : City) (goal : Position) (crucible : Crucible)
    (P : SearchSt → Prop)
    (hstep : ∀ st st', city.searchStep goal crucible st = some st' → P st → P st')
    (fuel : Nat) (st st' : SearchSt)
    (h : city.searchLoop goal crucible fuel st = some st') (hP : P st) : P st' := by
  induction fuel generalizing st with
  | zero =>
    rw [searchLoop_zero] at h
    cases h
  | succ f ih =>
    rw [searchLoop_succ] at h
    cases hs : city.searchStep goal crucible st with
    | none =>
      rw [hs] at h
      obtain rfl : st = st' := by simpa using h
      exact hP
    | some st₁ =>
      rw [hs] at h
      exact ih st₁ h (hstep st st₁ hs hP)

/-- At the end of the search no handled state is still marked queued. -/
theorem endState_not_queued (city : City) (goal : Position) (crucible : Crucible)
    (st : SearchSt) (hinv : Inv city goal crucible st)
    (hempty : bqAll st.open_set = []) :
    ∀ s : State, StValid city crucible s → city.isQueued st.queued s = false := by
  intro s hs
  cases hq : city.isQueued st.queued s with
  | false => rfl
  | true =>
    have h2 := hinv.queuedOpen s hs hq
    rw [hempty] at h2
    exact absurd h2 (List.not_mem_nil s)

/-- At the end of the search every recorded edge below `best_loss` is tight:
the target's recorded loss is the source's plus the target's cell cost. -/
theorem end_fresh_eq (city : City) (goal : Position) (crucible : Crucible)
    (st : SearchSt) (hinv : Inv city goal crucible st)
    (hempty : bqAll st.open_set = []) :
    ∀ n : State, StValid city crucible n → ∀ e : Nat,
      city.tblGet 8 st.came_from n = e + 1 →
      city.lossOf st.losses n ≤ st.best_loss →
      city.lossOf st.losses n
          = city.lossOf st.losses (predDecode n e) + city.heat n.pos ∧
        city.lossOf st.losses (predDecode n e) ≤ st.best_loss := by
  intro n hn e hcf hle
  obtain ⟨hpv, _, _, _, hM⟩ := hinv.edge n hn e hcf
  rcases hinv.fresh n hn e hcf with h | h | h
  · exact ⟨h, by omega⟩
  · rw [endState_not_queued city goal crucible st hinv hempty _ hpv] at h
    cases h
  · exact ⟨by omega, by omega⟩

/-- One unfolding of the `reconstruct_path` walk. -/
theorem walkBack_succ (city : City) (cf f : Nat) (curr : State) (acc : List Block) :
    city.walkBack cf (f + 1) curr acc =
      match city.tblGet 8 cf curr with
      | 0 => some acc
      | e + 1 =>
        city.walkBack cf f (predDecode curr e)
          (((city.blocks (predDecode curr e).pos).getD ⟨0, (predDecode curr e).pos⟩) :: acc) :=
  rfl

theorem tail_append_singleton {α : Type} (l : List α) (a : α) (h : l ≠ []) :
    (l ++ [a]).tail = l.tail ++ [a] := by
  cases l with
  | nil => exact absurd rfl h
  | cons x xs => rfl

/-- The block looked up for a walk step carries the cell's heat loss. -/
theorem blockAt_heat (city : City) (p : Position) :
    ((city.blocks p).getD ⟨0, p⟩).heat_loss = city.heat p := by
  unfold City.heat
  cases hb : city.blocks p with
  | none => rfl
  | some b => rfl

/-- A packed slot table bounds the number of distinct occupied slots: each
occupied slot contributes at least `1` to the number. -/
theorem slot_count_le (w : Nat) :
    ∀ (ks : List Nat) (m : Nat), ks.Nodup → (∀ k ∈ ks, slotGet w m k ≠ 0) →
      ks.length ≤ m := by
  intro ks
  induction ks with
  | nil =>
    intro m _ _
    exact Nat.zero_le m
  | cons k ks ih =>
    intro m hnd hnz
    have hk := hnz k (List.mem_cons_self k ks)
    have hgle : slotGet w m k * 2 ^ (w * k) ≤ m := by
      unfold slotGet
      have h1 : m >>> (w * k) % 2 ^ w ≤ m >>> (w * k) := Nat.mod_le _ _
      have h2 : m >>> (w * k) = m / 2 ^ (w * k) := Nat.shiftRight_eq_div_pow m (w * k)
      calc m >>> (w * k) % 2 ^ w * 2 ^ (w * k)
          ≤ m / 2 ^ (w * k) * 2 ^ (w * k) := by
            rw [← h2]
            exact Nat.mul_le_mul_right _ h1
        _ ≤ m := Nat.div_mul_le_self m _
    have hone : 2 ^ (w * k) ≤ slotGet w m k * 2 ^ (w * k) :=
      Nat.le_mul_of_pos_left _ (Nat.pos_of_ne_zero hk)
    have hpow : 1 ≤ 2 ^ (w * k) := Nat.one_le_two_pow
    have hset : slotSet w m k 0 = m - slotGet w m k * 2 ^ (w * k) := by
      unfold slotSet
      rw [Nat.shiftLeft_eq, Nat.shiftLeft_eq]
      omega
    have hks : ∀ j ∈ ks, slotGet w (slotSet w m k 0) j ≠ 0 := by
      intro j hj
      have hjk : j ≠ k := fun hc => (List.nodup_cons.mp hnd).1 (hc ▸ hj)
      rcases Nat.lt_trichotomy j k with h | h | h
      · rw [slotGet_slotSet_of_lt w m k j 0 h]
        exact hnz j (List.mem_cons_of_mem k hj)
      · exact absurd h hjk
      · rw [slotGet_slotSet_of_gt w m k j 0 (Nat.pos_of_ne_zero (by positivity)) h]
        exact hnz j (List.mem_cons_of_mem k hj)
    have hih := ih (slotSet w m k 0) (List.nodup_cons.mp hnd).2 hks
    simp only [List.length_cons]
    omega

theorem IsChain.ne_nil {city : City} {cf : Nat} {n : State} {L : List State}
    (h : IsChain city cf n L) : L ≠ [] := by
  cases h with
  | seed m _ => simp
  | step m e L _ _ => simp

/-- A predecessor chain ends at the state it was walked back from. -/
theorem chain_last {city : City} {cf : Nat} {n : State} {L : List State}
    (h : IsChain city cf n L) : L.getLast? = some n := by
  induction h with
  | seed m _ => rfl
  | step m e L _ _ _ => exact List.getLast?_concat L

/-- A predecessor chain starts at a seed state with no predecessor entry. -/
theorem chain_head_seed {city : City} {cf : Nat} {n : State} {L : List State}
    (h : IsChain city cf n L) :
    ∃ s₀, L.head? = some s₀ ∧ city.tblGet 8 cf s₀ = 0 := by
  induction h with
  | seed m h0 => exact ⟨m, rfl, h0⟩
  | step m e L hcf hch ih =>
    obtain ⟨s₀, h1, h2⟩ := ih
    refine ⟨s₀, ?_, h2⟩
    cases L with
    | nil => exact absurd rfl hch.ne_nil
    | cons a as => exact h1

/-- The main walk lemma: under the invariant, the predecessor chain out of any
recorded state exists, is acyclic (strictly decreasing in the measure
`loss * A + age`), and the `reconstruct_path` walk follows it to a seed,
returning exactly the chain's blocks (minus the last, which the caller seeds
into the accumulator). -/
theorem walk_exists (city : City) (goal : Position) (crucible : Crucible) (st : SearchSt)
    (hinv : Inv city goal crucible st)
    (age : State → Nat) (A : Nat) (hA : ∀ s, age s < A)
    (hr : ∀ n : State, StValid city crucible n → ∀ e : Nat,
      city.tblGet 8 st.came_from n = e + 1 →
      city.lossOf st.losses (predDecode n e) = city.lossOf st.losses n →
      age (predDecode n e) < age n) :
    ∀ M n, StValid city crucible n → city.tblGet 32 st.losses n ≠ 0 →
      city.lossOf st.losses n * A + age n < M →
      ∃ L, IsChain city st.came_from n L ∧ L ≠ [] ∧ L.getLast? = some n ∧ L.Nodup ∧
        (∀ m ∈ L, StValid city crucible m ∧ city.tblGet 32 st.losses m ≠ 0 ∧
          city.lossOf st.losses m * A + age m ≤ city.lossOf st.losses n * A + age n) ∧
        (∀ m ∈ L.tail, city.tblGet 8 st.came_from m ≠ 0) ∧
        (∀ fuel, L.length ≤ fuel → ∀ acc,
          city.walkBack st.came_from fuel n acc =
            some (L.dropLast.map (fun m => (city.blocks m.pos).getD ⟨0, m.pos⟩) ++ acc)) := by
  intro M
  induction M with
  | zero =>
    intro n _ _ hm
    exact absurd hm (by omega)
  | succ M ih =>
    intro n hn hp hm
    cases hcf : city.tblGet 8 st.came_from n with
    | zero =>
      refine ⟨[n], IsChain.seed n hcf, by simp, by simp, by simp, ?_, by simp, ?_⟩
      · intro m hm2
        have hmn : m = n := by simpa using hm2
        subst hmn
        exact ⟨hn, hp, Nat.le_refl _⟩
      · intro fuel hfuel acc
        cases fuel with
        | zero => exact absurd hfuel (by simp)
        | succ f =>
          rw [walkBack_succ, hcf]
          rfl
    | succ e =>
      obtain ⟨hpv, hpm, _, hpp, hM⟩ := hinv.edge n hn e hcf
      have hmp : city.lossOf st.losses (predDecode n e) * A + age (predDecode n e) <
          city.lossOf st.losses n * A + age n := by
        have hAp := hA (predDecode n e)
        have hple : city.lossOf st.losses (predDecode n e) ≤ city.lossOf st.losses n := by
          omega
        rcases Nat.eq_or_lt_of_le hple with heq | hlt
        · rw [heq]
          exact Nat.add_lt_add_left (hr n hn e hcf heq) _
        · calc city.lossOf st.losses (predDecode n e) * A + age (predDecode n e)
              < city.lossOf st.losses (predDecode n e) * A + A := Nat.add_lt_add_left hAp _
            _ = (city.lossOf st.losses (predDecode n e) + 1) * A := by ring
            _ ≤ city.lossOf st.losses n * A := Nat.mul_le_mul_right A hlt
            _ ≤ city.lossOf st.losses n * A + age n := Nat.le_add_right _ _
      obtain ⟨L, hch, hne, hlast, hnd, hmem, htail, hwalk⟩ :=
        ih (predDecode n e) hpv hpp (by omega)
      have hnotin : n ∉ L := by
        intro hc
        have h3 := (hmem n hc).2.2
        omega
      refine ⟨L ++ [n], IsChain.step n e L hcf hch, by simp, ?_, ?_, ?_, ?_, ?_⟩
      · exact List.getLast?_concat L
      · rw [List.nodup_append]
        refine ⟨hnd, List.nodup_singleton n, ?_⟩
        intro a ha hb
        have han : a = n := by simpa using hb
        subst han
        exact hnotin ha
      · intro m hm2
        rcases List.mem_append.mp hm2 with h2 | h2
        · obtain ⟨ha, hb, hc⟩ := hmem m h2
          exact ⟨ha, hb, by omega⟩
        · have hmn : m = n := by simpa using h2
          subst hmn
          exact ⟨hn, hp, Nat.le_refl _⟩
      · intro m hm2
        rw [tail_append_singleton L n hne] at hm2
        rcases List.mem_append.mp hm2 with h2 | h2
        · exact htail m h2
        · have hmn : m = n := by simpa using h2
          subst hmn
          rw [hcf]
          omega
      · intro fuel hfuel acc
        have hlen2 : (L ++ [n]).length = L.length + 1 := by simp
        cases fuel with
        | zero =>
          exfalso
          rw [hlen2] at hfuel
          omega
        | succ f =>
          rw [walkBack_succ, hcf]
          show city.walkBack st.came_from f (predDecode n e)
              (((city.blocks (predDecode n e).pos).getD
                ⟨0, (predDecode n e).pos⟩) :: acc) = _
          have hf2 : L.length ≤ f := by
            rw [hlen2] at hfuel
            omega
          rw [hwalk f hf2 (((city.blocks (predDecode n e).pos).getD
            ⟨0, (predDecode n e).pos⟩) :: acc)]
          rw [List.dropLast_concat]
          congr 1
          have hdecomp : L.dropLast ++ [predDecode n e] = L :=
            List.dropLast_append_getLast? _ (Option.mem_def.mpr hlast)
          conv_rhs => rw [← hdecomp]
          rw [List.map_append, List.append_assoc]
          rfl

/-- At the end of the search, the recorded losses telescope along any
predecessor chain: the chain's blocks sum to the recorded loss of its end. -/
theorem chain_sum (city : City) (goal : Position) (crucible : Crucible) (st : SearchSt)
    (hinv : Inv city goal crucible st) (hempty : bqAll st.open_set = []) :
    ∀ n L, IsChain city st.came_from n L → StValid city crucible n →
      city.tblGet 32 st.losses n ≠ 0 → city.lossOf st.losses n ≤ st.best_loss →
      (L.map (fun m => ((city.blocks m.pos).getD ⟨0, m.pos⟩).heat_loss)).sum =
        city.lossOf st.losses n := by
  intro n L hch
  induction hch with
  | seed m h0 =>
    intro hn hp _
    simp only [List.map_cons, List.map_nil, List.sum_cons, List.sum_nil, Nat.add_zero]
    rw [blockAt_heat]
    exact (hinv.seedLoss m hn hp h0).symm
  | step m e L hcf hch ih =>
    intro hn hp hle
    obtain ⟨hpv, _, _, hpp, hM⟩ := hinv.edge m hn e hcf
    obtain ⟨hEq, hple⟩ := end_fresh_eq city goal crucible st hinv hempty m hn e hcf hle
    rw [List.map_append, List.sum_append]
    rw [ih hpv hpp hple]
    simp only [List.map_cons, List.map_nil, List.sum_cons, List.sum_nil, Nat.add_zero]
    rw [blockAt_heat]
    omega

/-- Every consecutive pair of a predecessor chain is a recorded legal move. -/
theorem chain_chain' (city : City) (goal : Position) (crucible : Crucible) (st : SearchSt)
    (hinv : Inv city goal crucible st) :
    ∀ n L, IsChain city st.came_from n L → StValid city crucible n →
      List.Chain' (fun p q => StValid city crucible p ∧
        q ∈ city.valid_moves p crucible) L := by
  intro n L hch
  induction hch with
  | seed m _ =>
    intro _
    exact List.chain'_singleton m
  | step m e L hcf hch ih =>
    intro hn
    obtain ⟨hpv, hpm, _, _, _⟩ := hinv.edge m hn e hcf
    refine List.Chain'.append (ih hpv) (List.chain'_singleton m) ?_
    intro x hx y hy
    have hxl : L.getLast? = some (predDecode m e) := chain_last hch
    rw [hxl] at hx
    have hx2 : predDecode m e = x := by simpa using hx
    have hy2 : m = y := by simpa using hy
    subst hx2
    subst hy2
    exact ⟨hpv, hpm⟩

/-- A recorded Ultra move that turns leaves a source with run-length at
least 4. -/
theorem ultra_turn {city : City} {p q : State}
    (hq : q ∈ city.valid_moves p Crucible.Ultra) (hp1 : 1 ≤ p.steps)
    (hd : q.dir ≠ p.dir) : 4 ≤ p.steps := by
  obtain ⟨d, _, hc, rfl⟩ := mem_valid_moves.mp hq
  rw [State.mv_dir] at hd
  have hok := ((Bool.and_eq_true _ _).mp (by unfold City.can_move at hc; exact hc)).2
  simp only [Bool.or_eq_true, Bool.and_eq_true, beq_iff_eq, decide_eq_true_eq] at hok
  rcases hok with (h | h) | h
  · omega
  · exact h.2
  · exact absurd h.1.symm hd

/-- Fuel bound for the walk: a chain of distinct handled states, all but the
seed carrying a predecessor entry, is no longer than `came_from + 1`. -/
theorem chain_fuel_bound (city : City) (crucible : Crucible) (cf : Nat) (L : List State)
    (hnd : L.Nodup) (hv : ∀ m ∈ L, StValid city crucible m)
    (htail : ∀ m ∈ L.tail, city.tblGet 8 cf m ≠ 0) :
    L.length ≤ cf + 1 := by
  have h1 : L.tail.length ≤ cf := by
    have h2 := slot_count_le 8 (L.tail.map city.stateIdx) cf ?_ ?_
    · rwa [List.length_map] at h2
    · refine List.Nodup.map_on ?_ ((List.tail_sublist L).nodup hnd)
      intro x hx y hy hxy
      have hxv := hv x ((List.tail_sublist L).subset hx)
      have hyv := hv y ((List.tail_sublist L).subset hy)
      exact stateIdx_inj city hxv.1 hyv.1 hxv.steps_le_ten hyv.steps_le_ten hxy
    · intro k hk
      obtain ⟨m, hm, rfl⟩ := List.mem_map.mp hk
      exact htail m hm
  have h3 := List.length_tail L
  omega

/-- Grids parsed from digit rows have per-cell costs at most `9` (each cost is
a digit), the faithful premise for the loss-table bound. -/
theorem fromRows_heat_le (width : Nat) (rows : List Nat) (p : Position) :
    (City.fromRows width rows).heat p ≤ 9 := by
  unfold City.heat City.fromRows
  dsimp only
  obtain ⟨x, y⟩ := p
  cases x with
  | ofNat xn =>
    cases y with
    | ofNat yn =>
      dsimp only
      by_cases h1 : xn < width
      · rw [if_pos h1]
        by_cases h2 : yn < rows.length
        · rw [if_pos h2]
          exact Nat.le_of_lt_succ (Nat.mod_lt _ (by omega))
        · rw [if_neg h2]
          exact Nat.zero_le 9
      · rw [if_neg h1]
        exact Nat.zero_le 9
    | negSucc yn => exact Nat.zero_le 9
  | negSucc xn => exact Nat.zero_le 9

/-- **C7.**  Whenever a search run (any grid with digit costs, any start in
the grid, either regime) drains its frontier having recorded a best terminal
state, reconstructing the path from that state succeeds and the sum of the
per-cell costs of the reconstructed path — the blocks entered after the
origin, through the goal, the origin's own cost excluded — equals exactly the
`best_loss` value used internally to accept that terminal state. -/
theorem claim_C7 (city : City) (start goal : Position) (crucible : Crucible)
    (fuel : Nat) (st : SearchSt) (b : State)
    (Hstart : city.inGrid start = true) (Hheat : ∀ p, city.heat p ≤ 9)
    (hrun : city.searchLoop goal crucible fuel
        (city.initSearch start goal crucible) = some st)
    (hb : st.best_state = some b) :
    ∃ path, city.reconstruct_path st.came_from b = some path ∧
      totalLoss path = st.best_loss := by
  have hinv : Inv city goal crucible st :=
    searchLoop_pres city goal crucible (Inv city goal crucible)
      (fun s s' h h2 => searchStep_inv city goal crucible s s' h h2) fuel _ st hrun
      (initSearch_inv city start goal crucible Hstart Hheat)
  have hempty := searchLoop_empty city goal crucible fuel _ st hrun
  obtain ⟨hbv, hbg, hbr, hbp, hbd⟩ := hinv.best b hb
  have hbl : city.lossOf st.losses b = st.best_loss := by
    rcases hbd with h | ⟨h1, _⟩
    · exact h
    · rw [endState_not_queued city goal crucible st hinv hempty b hbv] at h1
      cases h1
  obtain ⟨age, A, hA, hr⟩ := hinv.rank
  obtain ⟨L, hch, hLne, hlast, hnd, hmem, htail, hwalk⟩ :=
    walk_exists city goal crucible st hinv age A hA hr
      (city.lossOf st.losses b * A + age b + 1) b hbv hbp (by omega)
  have hlen : L.length ≤ st.came_from + 1 :=
    chain_fuel_bound city crucible st.came_from L hnd (fun m hm => (hmem m hm).1) htail
  have hrw := hwalk (st.came_from + 1) hlen [(city.blocks b.pos).getD ⟨0, b.pos⟩]
  refine ⟨L.dropLast.map (fun m => (city.blocks m.pos).getD ⟨0, m.pos⟩) ++
      [(city.blocks b.pos).getD ⟨0, b.pos⟩], ?_, ?_⟩
  · unfold City.reconstruct_path
    exact hrw
  · have hsum := chain_sum city goal crucible st hinv hempty b L hch hbv hbp
      (le_of_eq hbl)
    have hdecomp : L.dropLast ++ [b] = L :=
      List.dropLast_append_getLast? _ (Option.mem_def.mpr hlast)
    unfold totalLoss
    rw [← hbl, ← hsum]
    conv_rhs => rw [← hdecomp]
    simp only [List.map_append, List.map_map, List.sum_append]
    rfl

/-- **C8.**  The accepted terminal state of any completed search satisfies the
regime's stopping rule (`Small`, or run-length at least `4`), and the chain of
predecessor states from a seed to it only makes recorded legal moves: no move
reverses the previous direction, every run-length along the chain is between
`1` and the regime cap (`3` small, `10` ultra), and under the ultra regime any
turn happens only with the source's run-length at least `4`. -/
theorem claim_C8 (city : City) (start goal : Position) (crucible : Crucible)
    (fuel : Nat) (st : SearchSt) (b : State)
    (Hstart : city.inGrid start = true) (Hheat : ∀ p, city.heat p ≤ 9)
    (hrun : city.searchLoop goal crucible fuel
        (city.initSearch start goal crucible) = some st)
    (hb : st.best_state = some b) :
    (crucible = Crucible.Small ∨ 4 ≤ b.steps) ∧
    ∃ L, IsChain city st.came_from b L ∧ L.getLast? = some b ∧
      (∀ m ∈ L, 1 ≤ m.steps ∧ m.steps ≤ runCap crucible) ∧
      List.Chain' (fun p q => q ∈ city.valid_moves p crucible ∧
        q.dir ≠ p.dir.opposite ∧
        (crucible = Crucible.Ultra → q.dir ≠ p.dir → 4 ≤ p.steps)) L := by
  have hinv : Inv city goal crucible st :=
    searchLoop_pres city goal crucible (Inv city goal crucible)
      (fun s s' h h2 => searchStep_inv city goal crucible s s' h h2) fuel _ st hrun
      (initSearch_inv city start goal crucible Hstart Hheat)
  obtain ⟨hbv, hbg, hbr, hbp, _⟩ := hinv.best b hb
  refine ⟨hbr, ?_⟩
  obtain ⟨age, A, hA, hr⟩ := hinv.rank
  obtain ⟨L, hch, hLne, hlast, hnd, hmem, htail, hwalk⟩ :=
    walk_exists city goal crucible st hinv age A hA hr
      (city.lossOf st.losses b * A + age b + 1) b hbv hbp (by omega)
  refine ⟨L, hch, hlast, ?_, ?_⟩
  · intro m hm
    have h2 := (hmem m hm).1
    exact ⟨h2.2.1, h2.2.2⟩
  · have hbase := chain_chain' city goal crucible st hinv b L hch hbv
    refine List.Chain'.imp ?_ hbase
    rintro p q ⟨hpv, hq⟩
    refine ⟨hq, valid_moves_not_opposite hq, ?_⟩
    intro hU hturn
    subst hU
    exact ultra_turn hq hpv.2.1 hturn

/-- **C10.**  At every point of the search loop (any fuel prefix `k`, any
grid with digit costs — zero-cost cells included), the predecessor map is
acyclic: from any state with a recorded cost, the chain of predecessor
entries is duplicate-free, starts at a seed with no predecessor entry, and
the backward walk of `reconstruct_path`, run with its fuel `came_from + 1`,
terminates successfully along that chain. -/
theorem claim_C10 (city : City) (start goal : Position) (crucible : Crucible)
    (k : Nat) (st : SearchSt)
    (hst : city.stepN goal crucible k (city.initSearch start goal crucible) = st)
    (s : State)
    (Hstart : city.inGrid start = true) (Hheat : ∀ p, city.heat p ≤ 9)
    (hv : StValid city crucible s)
    (hrec : city.tblGet 32 st.losses s ≠ 0) :
    ∃ L, IsChain city st.came_from s L ∧ L.Nodup ∧
      (∃ s₀, L.head? = some s₀ ∧ city.tblGet 8 st.came_from s₀ = 0) ∧
      ∀ acc, city.walkBack st.came_from (st.came_from + 1) s acc =
        some (L.dropLast.map (fun m => (city.blocks m.pos).getD ⟨0, m.pos⟩) ++ acc) := by
  subst hst
  have hinv : Inv city goal crucible
      (city.stepN goal crucible k (city.initSearch start goal crucible)) :=
    stepN_pres city goal crucible (Inv city goal crucible)
      (fun s s' h h2 => searchStep_inv city goal crucible s s' h h2) k _
      (initSearch_inv city start goal crucible Hstart Hheat)
  obtain ⟨age, A, hA, hr⟩ := hinv.rank
  obtain ⟨L, hch, hLne, hlast, hnd, hmem, htail, hwalk⟩ :=
    walk_exists city goal crucible _ hinv age A hA hr
      (city.lossOf (city.stepN goal crucible k
        (city.initSearch start goal crucible)).losses s * A + age s + 1)
      s hv hrec (by omega)
  have hlen := chain_fuel_bound city crucible
    (city.stepN goal crucible k (city.initSearch start goal crucible)).came_from L hnd
    (fun m hm => (hmem m hm).1) htail
  exact ⟨L, hch, hnd, chain_head_seed hch, fun acc => hwalk _ hlen acc⟩

theorem claim_C7_witness :
    ∃ path, city2x2.reconstruct_path
        (city2x2.stepN ⟨1, 1⟩ Crucible.Small 20
          (city2x2.initSearch ⟨0, 0⟩ ⟨1, 1⟩ Crucible.Small)).came_from
        ⟨⟨1, 1⟩, Direction.South, 1⟩ = some path ∧
      totalLoss path =
        (city2x2.stepN ⟨1, 1⟩ Crucible.Small 20
          (city2x2.initSearch ⟨0, 0⟩ ⟨1, 1⟩ Crucible.Small)).best_loss :=
  claim_C7 city2x2 ⟨0, 0⟩ ⟨1, 1⟩ Crucible.Small 100
    (city2x2.stepN ⟨1, 1⟩ Crucible.Small 20
      (city2x2.initSearch ⟨0, 0⟩ ⟨1, 1⟩ Crucible.Small))
    ⟨⟨1, 1⟩, Direction.South, 1⟩
    (by decide) (fun p => fromRows_heat_le 2 [11, 11] p) (by decide) (by decide)

theorem claim_C8_witness :
    (Crucible.Small = Crucible.Small ∨
      4 ≤ (⟨⟨1, 1⟩, Direction.South, 1⟩ : State).steps) ∧
    ∃ L, IsChain city2x2
        (city2x2.stepN ⟨1, 1⟩ Crucible.Small 20
          (city2x2.initSearch ⟨0, 0⟩ ⟨1, 1⟩ Crucible.Small)).came_from
        ⟨⟨1, 1⟩, Direction.South, 1⟩ L ∧
      L.getLast? = some ⟨⟨1, 1⟩, Direction.South, 1⟩ ∧
      (∀ m ∈ L, 1 ≤ m.steps ∧ m.steps ≤ runCap Crucible.Small) ∧
      List.Chain' (fun p q => q ∈ city2x2.valid_moves p Crucible.Small ∧
        q.dir ≠ p.dir.opposite ∧
        (Crucible.Small = Crucible.Ultra → q.dir ≠ p.dir → 4 ≤ p.steps)) L :=
  claim_C8 city2x2 ⟨0, 0⟩ ⟨1, 1⟩ Crucible.Small 100
    (city2x2.stepN ⟨1, 1⟩ Crucible.Small 20
      (city2x2.initSearch ⟨0, 0⟩ ⟨1, 1⟩ Crucible.Small))
    ⟨⟨1, 1⟩, Direction.South, 1⟩
    (by decide) (fun p => fromRows_heat_le 2 [11, 11] p) (by decide) (by decide)

theorem claim_C10_witness :
    ∃ L, IsChain city2x2
        (city2x2.stepN ⟨1, 1⟩ Crucible.Small 1
          (city2x2.initSearch ⟨0, 0⟩ ⟨1, 1⟩ Crucible.Small)).came_from
        ⟨⟨1, 0⟩, Direction.East, 1⟩ L ∧ L.Nodup ∧
      (∃ s₀, L.head? = some s₀ ∧ city2x2.tblGet 8
        (city2x2.stepN ⟨1, 1⟩ Crucible.Small 1
          (city2x2.initSearch ⟨0, 0⟩ ⟨1, 1⟩ Crucible.Small)).came_from s₀ = 0) ∧
      ∀ acc, city2x2.walkBack
          (city2x2.stepN ⟨1, 1⟩ Crucible.Small 1
            (city2x2.initSearch ⟨0, 0⟩ ⟨1, 1⟩ Crucible.Small)).came_from
          ((city2x2.stepN ⟨1, 1⟩ Crucible.Small 1
            (city2x2.initSearch ⟨0, 0⟩ ⟨1, 1⟩ Crucible.Small)).came_from + 1)
          ⟨⟨1, 0⟩, Direction.East, 1⟩ acc =
        some (L.dropLast.map
          (fun m => (city2x2.blocks m.pos).getD ⟨0, m.pos⟩) ++ acc) :=
  claim_C10 city2x2 ⟨0, 0⟩ ⟨1, 1⟩ Crucible.Small 1
    (city2x2.stepN ⟨1, 1⟩ Crucible.Small 1
      (city2x2.initSearch ⟨0, 0⟩ ⟨1, 1⟩ Crucible.Small))
    rfl ⟨⟨1, 0⟩, Direction.East, 1⟩
    (by decide) (fun p => fromRows_heat_le 2 [11, 11] p) (by decide) (by decide)


/-! ### Kernel-checked checkpoints and the worked examples -/

set_option maxRecDepth 100000 in
theorem chkS1 : city13.stepN ⟨12, 12⟩ Crucible.Small 1024 (city13.initSearch ⟨0, 0⟩ ⟨12, 12⟩ Crucible.Small) = stS1 := by
  decide!

set_option maxRecDepth 100000 in
theorem chkS2 : city13.stepN ⟨12, 12⟩ Crucible.Small 1024 stS1 = stS2 := by
  decide!

set_option maxRecDepth 100000 in
theorem chkS3 : city13.stepN ⟨12, 12⟩ Crucible.Small 1024 stS2 = stS3 := by
  decide!

set_option maxRecDepth 100000 in
theorem chkS4 : city13.stepN ⟨12, 12⟩ Crucible.Small 1024 stS3 = stS4 := by
  decide!

set_option maxRecDepth 100000 in
theorem chkS5 : city13.stepN ⟨12, 12⟩ Crucible.Small 1024 stS4 = stS5 := by
  decide!

set_option maxRecDepth 100000 in
theorem chkS6 : city13.stepN ⟨12, 12⟩ Crucible.Small 1024 stS5 = stS6 := by
  decide!

set_option maxRecDepth 100000 in
theorem chkS7 : city13.stepN ⟨12, 12⟩ Crucible.Small 1024 stS6 = stS7 := by
  decide!

set_option maxRecDepth 100000 in
theorem chkS8 : city13.stepN ⟨12, 12⟩ Crucible.Small 1024 stS7 = stS8 := by
  decide!

set_option maxRecDepth 100000 in
theorem chkS9 : city13.stepN ⟨12, 12⟩ Crucible.Small 1024 stS8 = stS9 := by
  decide!

set_option maxRecDepth 100000 in
theorem chkS10 : city13.stepN ⟨12, 12⟩ Crucible.Small 1024 stS9 = stS10 := by
  decide!

set_option maxRecDepth 100000 in
theorem chkS11 : city13.stepN ⟨12, 12⟩ Crucible.Small 1024 stS10 = stS11 := by
  decide!

set_option maxRecDepth 100000 in
theorem chkS12 : city13.stepN ⟨12, 12⟩ Crucible.Small 1024 stS11 = stS12 := by
  decide!

set_option maxRecDepth 100000 in
theorem chkS13 : city13.stepN ⟨12, 12⟩ Crucible.Small 1024 stS12 = stS13 := by
  decide!

set_option maxRecDepth 100000 in
theorem chkS14 : city13.stepN ⟨12, 12⟩ Crucible.Small 1024 stS13 = stS14 := by
  decide!

set_option maxRecDepth 100000 in
theorem chkS15 : city13.stepN ⟨12, 12⟩ Crucible.Small 1024 stS14 = stS15 := by
  decide!

set_option maxRecDepth 100000 in
theorem chkU1 : city13.stepN ⟨12, 12⟩ Crucible.Ultra 1024 (city13.initSearch ⟨0, 0⟩ ⟨12, 12⟩ Crucible.Ultra) = stU1 := by
  decide!

set_option maxRecDepth 100000 in
theorem chkU2 : city13.stepN ⟨12, 12⟩ Crucible.Ultra 1024 stU1 = stU2 := by
  decide!

set_option maxRecDepth 100000 in
theorem chkU3 : city13.stepN ⟨12, 12⟩ Crucible.Ultra 1024 stU2 = stU3 := by
  decide!

/-- **C1.**  The worked examples: on the 13×13 digit grid, `navigate` from
`(0,0)` to `(12,12)` returns a path of total cost `102` under the Small
regime and `94` under the Ultra regime; on the 12×5 grid with the cheap top
row and the `1`-column escape, `navigate` from `(0,0)` to `(11,4)` under the
Ultra regime returns a path of total cost `71`.  (The fuels `15361`, `3073`
and `250` exceed the number of loop iterations each search needs, so they are
not observable.) -/
theorem claim_C1 :
    (city13.navigate ⟨0, 0⟩ ⟨12, 12⟩ Crucible.Small 15361).map (Option.map totalLoss) =
        some (some 102) ∧
    (city13.navigate ⟨0, 0⟩ ⟨12, 12⟩ Crucible.Ultra 3073).map (Option.map totalLoss) =
        some (some 94) ∧
    (city12x5.navigate ⟨0, 0⟩ ⟨11, 4⟩ Crucible.Ultra 250).map (Option.map totalLoss) =
        some (some 71) := by
  refine ⟨?_, ?_, ?_⟩
  · have hS : city13.searchLoop ⟨12, 12⟩ Crucible.Small 15361
        (city13.initSearch ⟨0, 0⟩ ⟨12, 12⟩ Crucible.Small) =
        city13.searchLoop ⟨12, 12⟩ Crucible.Small (0 + 1) stS15 := by
      rw [show (15361 : Nat) = 1024 + (14336 + 1) by norm_num, searchLoop_add, chkS1]
      rw [show (14336 : Nat) + 1 = 1024 + (13312 + 1) by norm_num, searchLoop_add, chkS2]
      rw [show (13312 : Nat) + 1 = 1024 + (12288 + 1) by norm_num, searchLoop_add, chkS3]
      rw [show (12288 : Nat) + 1 = 1024 + (11264 + 1) by norm_num, searchLoop_add, chkS4]
      rw [show (11264 : Nat) + 1 = 1024 + (10240 + 1) by norm_num, searchLoop_add, chkS5]
      rw [show (10240 : Nat) + 1 = 1024 + (9216 + 1) by norm_num, searchLoop_add, chkS6]
      rw [show (9216 : Nat) + 1 = 1024 + (8192 + 1) by norm_num, searchLoop_add, chkS7]
      rw [show (8192 : Nat) + 1 = 1024 + (7168 + 1) by norm_num, searchLoop_add, chkS8]
      rw [show (7168 : Nat) + 1 = 1024 + (6144 + 1) by norm_num, searchLoop_add, chkS9]
      rw [show (6144 : Nat) + 1 = 1024 + (5120 + 1) by norm_num, searchLoop_add, chkS10]
      rw [show (5120 : Nat) + 1 = 1024 + (4096 + 1) by norm_num, searchLoop_add, chkS11]
      rw [show (4096 : Nat) + 1 = 1024 + (3072 + 1) by norm_num, searchLoop_add, chkS12]
      rw [show (3072 : Nat) + 1 = 1024 + (2048 + 1) by norm_num, searchLoop_add, chkS13]
      rw [show (2048 : Nat) + 1 = 1024 + (1024 + 1) by norm_num, searchLoop_add, chkS14]
      rw [show (1024 : Nat) + 1 = 1024 + (0 + 1) by norm_num, searchLoop_add, chkS15]
    unfold City.navigate
    rw [hS]
    decide!
  · have hU : city13.searchLoop ⟨12, 12⟩ Crucible.Ultra 3073
        (city13.initSearch ⟨0, 0⟩ ⟨12, 12⟩ Crucible.Ultra) =
        city13.searchLoop ⟨12, 12⟩ Crucible.Ultra (0 + 1) stU3 := by
      rw [show (3073 : Nat) = 1024 + (2048 + 1) by norm_num, searchLoop_add, chkU1]
      rw [show (2048 : Nat) + 1 = 1024 + (1024 + 1) by norm_num, searchLoop_add, chkU2]
      rw [show (1024 : Nat) + 1 = 1024 + (0 + 1) by norm_num, searchLoop_add, chkU3]
    unfold City.navigate
    rw [hU]
    decide!
  · decide!

end Day17
